import Mathlib

/-!
Verification of the transcript segmentation and timestamp-normalization core
of the WhatsApp chat analyzer (source: whatsapp_analyzer.py).

The development shallowly embeds, over List Char:
  * the timestamp resolver WhatsAppMessage._parse_timestamp, including a
    faithful model of the CPython strptime directive semantics for the
    directives used by the source's 29-entry format list, the numeric
    heuristic fallback, and the final fall-back to the current time
    (threaded as an explicit parameter, since the model is pure);
  * the line-oriented parser WhatsAppChatAnalyzer.parse_chat, including a
    backtracking regex engine for the 9 message-start patterns, the
    system-message check, continuation merging and the parsing statistics;
  * the derived parsing report get_parsing_report over rationals.
-/

namespace ChatCoach

/-- A calendar date-time as produced by Python datetime.datetime
(year, month, day, hour, minute, second; microseconds unused by the source). -/
structure DT where
  year : Nat
  month : Nat
  day : Nat
  hour : Nat
  minute : Nat
  second : Nat
deriving DecidableEq, Repr

/-- Gregorian leap-year rule, as used by Python datetime. -/
def isLeap (y : Nat) : Bool := y % 4 == 0 && (y % 100 != 0 || y % 400 == 0)

/-- Days in a month, as used by Python datetime. -/
def daysInMonth (y m : Nat) : Nat :=
  if m = 2 then (if isLeap y then 29 else 28)
  else if m = 4 ∨ m = 6 ∨ m = 9 ∨ m = 11 then 30
  else 31

/-- Model of the Python datetime.datetime constructor: returns the value if all
fields are in range (MINYEAR = 1, MAXYEAR = 9999), and none where Python
raises ValueError. -/
def mkDT (y m d h mi s : Nat) : Option DT :=
  if 1 ≤ y ∧ y ≤ 9999 ∧ 1 ≤ m ∧ m ≤ 12 ∧ 1 ≤ d ∧ d ≤ daysInMonth y m ∧
     h ≤ 23 ∧ mi ≤ 59 ∧ s ≤ 59 then
    some ⟨y, m, d, h, mi, s⟩
  else none

/-- Numeric value of a digit character. -/
def dval (c : Char) : Nat := c.toNat - 48

/-- The digit character for a value below ten. -/
def digitChar (n : Nat) : Char := Char.ofNat (48 + n)

/-- Whitespace test used to model Python str.strip and the regex class \s. -/
def isWsChar (c : Char) : Bool := c.isWhitespace

/-- Model of Python str.strip (both ends). -/
def trimChars (s : List Char) : List Char :=
  ((s.dropWhile isWsChar).reverse.dropWhile isWsChar).reverse

/-- Two-digit zero-padded rendering, as strftime renders the directives
d, m, y, H, I, M and S. -/
def pad2 (n : Nat) : List Char := [digitChar (n / 10 % 10), digitChar (n % 10)]

/-- Four-digit rendering of a year in 1000..9999, as strftime renders Y there. -/
def pad4 (n : Nat) : List Char :=
  [digitChar (n / 1000 % 10), digitChar (n / 100 % 10),
   digitChar (n / 10 % 10), digitChar (n % 10)]

/-! ### strptime model

The source tries 29 explicit strptime format strings.  Each format compiles,
per CPython Lib/_strptime.py, to an anchored regular expression over the
directives below; a run of whitespace in the format matches one or more
whitespace characters, any other literal matches itself, and the directives
compile to the alternations
  d : 3[01] | [12][0-9] | 0[1-9] | [1-9]
  m : 1[0-2] | 0[1-9] | [1-9]
  H : 2[0-3] | [0-1][0-9] | [0-9]
  I : 1[0-2] | 0[1-9] | [1-9]
  M : [0-5][0-9] | [0-9]
  S : 6[0-1] | [0-5][0-9] | [0-9]
  y : [0-9][0-9]
  Y : [0-9][0-9][0-9][0-9]
  p : AM | PM        (case-insensitive)
each tried left to right with backtracking, the match being anchored at the
start; strptime then demands that the match consumed the whole string. -/

/-- A strptime directive (or literal) of the format strings used by the source. -/
inductive Dir where
  | lit (c : Char)
  | ws
  | dd
  | dm
  | dy
  | dY
  | dH
  | dI
  | dM
  | dS
  | dp
deriving DecidableEq, Repr

/-- The field values captured by a strptime match. -/
structure Assign where
  aDay : Option Nat := none
  aMonth : Option Nat := none
  aY2 : Option Nat := none
  aY4 : Option Nat := none
  aH : Option Nat := none
  aI : Option Nat := none
  aMin : Option Nat := none
  aSec : Option Nat := none
  aPM : Option Bool := none
deriving DecidableEq, Repr

/-- The ways a one-or-two-digit numeric directive can match a prefix of the
string, in the preference order of the CPython alternation: the two-digit
branches (whose union is the contiguous value range lo..hi) come first, then,
when the directive has a one-digit branch, that branch (accepting first digits
of value at least one2lo). -/
def numAlts (lo hi : Nat) (one2lo : Option Nat) (s : List Char) :
    List (Nat × List Char) :=
  match s with
  | c1 :: c2 :: rest =>
      let v := 10 * dval c1 + dval c2
      (if c1.isDigit ∧ c2.isDigit ∧ lo ≤ v ∧ v ≤ hi then [(v, rest)] else []) ++
      (match one2lo with
       | some m1 => if c1.isDigit ∧ m1 ≤ dval c1 then [(dval c1, c2 :: rest)] else []
       | none => [])
  | [c1] =>
      (match one2lo with
       | some m1 => if c1.isDigit ∧ m1 ≤ dval c1 then [(dval c1, [])] else []
       | none => [])
  | [] => []

/-- A four-digit year directive match (the Y alternation has a single branch). -/
def parse4 (s : List Char) : Option (Nat × List Char) :=
  match s with
  | c1 :: c2 :: c3 :: c4 :: rest =>
      if c1.isDigit ∧ c2.isDigit ∧ c3.isDigit ∧ c4.isDigit then
        some (1000 * dval c1 + 100 * dval c2 + 10 * dval c3 + dval c4, rest)
      else none
  | _ => none

/-- An AM/PM directive match (case-insensitive, per the IGNORECASE compile);
true means PM. -/
def ampmAlt (s : List Char) : Option (Bool × List Char) :=
  match s with
  | c1 :: c2 :: rest =>
      if (c1 = 'A' ∨ c1 = 'a') ∧ (c2 = 'M' ∨ c2 = 'm') then some (false, rest)
      else if (c1 = 'P' ∨ c1 = 'p') ∧ (c2 = 'M' ∨ c2 = 'm') then some (true, rest)
      else none
  | _ => none

/-- Number of whitespace characters at the head of the string. -/
def wsCount : List Char → Nat
  | [] => 0
  | c :: r => if isWsChar c then wsCount r + 1 else 0

/-- Runs the directive list against the string with the backtracking and
greedy preference order of the compiled CPython regex, anchored at the start;
returns the captured fields and the unconsumed remainder of the first
(leftmost, greedily preferred) match, exactly as re.match would select it. -/
def runDirs : List Dir → Assign → List Char → Option (Assign × List Char)
  | [], a, s => some (a, s)
  | Dir.lit c :: ds, a, s =>
      match s with
      | [] => none
      | c' :: s' => if c' = c then runDirs ds a s' else none
  | Dir.ws :: ds, a, s =>
      let k := wsCount s
      ((List.range k).map (fun i => k - i)).foldr
        (fun n acc =>
          match runDirs ds a (s.drop n) with
          | some r => some r
          | none => acc) none
  | Dir.dd :: ds, a, s =>
      (numAlts 1 31 (some 1) s).foldr
        (fun p acc =>
          match runDirs ds { a with aDay := some p.1 } p.2 with
          | some r => some r
          | none => acc) none
  | Dir.dm :: ds, a, s =>
      (numAlts 1 12 (some 1) s).foldr
        (fun p acc =>
          match runDirs ds { a with aMonth := some p.1 } p.2 with
          | some r => some r
          | none => acc) none
  | Dir.dy :: ds, a, s =>
      (numAlts 0 99 none s).foldr
        (fun p acc =>
          match runDirs ds { a with aY2 := some p.1 } p.2 with
          | some r => some r
          | none => acc) none
  | Dir.dY :: ds, a, s =>
      match parse4 s with
      | some (v, s') => runDirs ds { a with aY4 := some v } s'
      | none => none
  | Dir.dH :: ds, a, s =>
      (numAlts 0 23 (some 0) s).foldr
        (fun p acc =>
          match runDirs ds { a with aH := some p.1 } p.2 with
          | some r => some r
          | none => acc) none
  | Dir.dI :: ds, a, s =>
      (numAlts 1 12 (some 1) s).foldr
        (fun p acc =>
          match runDirs ds { a with aI := some p.1 } p.2 with
          | some r => some r
          | none => acc) none
  | Dir.dM :: ds, a, s =>
      (numAlts 0 59 (some 0) s).foldr
        (fun p acc =>
          match runDirs ds { a with aMin := some p.1 } p.2 with
          | some r => some r
          | none => acc) none
  | Dir.dS :: ds, a, s =>
      (numAlts 0 61 (some 0) s).foldr
        (fun p acc =>
          match runDirs ds { a with aSec := some p.1 } p.2 with
          | some r => some r
          | none => acc) none
  | Dir.dp :: ds, a, s =>
      match ampmAlt s with
      | some (b, s') => runDirs ds { a with aPM := some b } s'
      | none => none

/-- Builds the datetime from captured fields, per CPython _strptime: two-digit
years at most 68 map to 2000+, the others to 1900+; a 12-hour value combines
with AM/PM (12 AM is hour 0, PM adds 12 except at 12 PM); absent fields
default to year 1900, month 1, day 1, and zero time. -/
def buildDT (a : Assign) : Option DT :=
  let year :=
    match a.aY4, a.aY2 with
    | some y, _ => y
    | none, some y => if y ≤ 68 then y + 2000 else y + 1900
    | none, none => 1900
  let hour :=
    match a.aH, a.aI with
    | some h, _ => h
    | none, some i =>
        (match a.aPM with
         | some true => if i = 12 then 12 else i + 12
         | _ => if i = 12 then 0 else i)
    | none, none => 0
  mkDT year (a.aMonth.getD 1) (a.aDay.getD 1) hour (a.aMin.getD 0) (a.aSec.getD 0)

/-- Model of datetime.datetime.strptime with one of the source's formats:
anchored match that must consume the whole string, then field assembly and
datetime construction (none where Python raises ValueError). -/
def strptimeF (f : List Dir) (s : List Char) : Option DT :=
  match runDirs f {} s with
  | some (a, []) => buildDT a
  | _ => none

/-! ### The 29 formats of WhatsAppMessage._parse_timestamp, in source order. -/

/-- Format 0, d/m/Y H:M. -/
def fmt0 : List Dir :=
  [Dir.dd, Dir.lit '/', Dir.dm, Dir.lit '/', Dir.dY, Dir.ws, Dir.dH, Dir.lit ':', Dir.dM]

/-- Format 1, d/m/Y, H:M. -/
def fmt1 : List Dir :=
  [Dir.dd, Dir.lit '/', Dir.dm, Dir.lit '/', Dir.dY, Dir.lit ',', Dir.ws, Dir.dH,
   Dir.lit ':', Dir.dM]

/-- Format 2, d/m/y H:M. -/
def fmt2 : List Dir :=
  [Dir.dd, Dir.lit '/', Dir.dm, Dir.lit '/', Dir.dy, Dir.ws, Dir.dH, Dir.lit ':', Dir.dM]

/-- Format 3, d/m/y, H:M. -/
def fmt3 : List Dir :=
  [Dir.dd, Dir.lit '/', Dir.dm, Dir.lit '/', Dir.dy, Dir.lit ',', Dir.ws, Dir.dH,
   Dir.lit ':', Dir.dM]

/-- Format 4, m/d/Y I:M p. -/
def fmt4 : List Dir :=
  [Dir.dm, Dir.lit '/', Dir.dd, Dir.lit '/', Dir.dY, Dir.ws, Dir.dI, Dir.lit ':', Dir.dM,
   Dir.ws, Dir.dp]

/-- Format 5, m/d/Y, I:M p. -/
def fmt5 : List Dir :=
  [Dir.dm, Dir.lit '/', Dir.dd, Dir.lit '/', Dir.dY, Dir.lit ',', Dir.ws, Dir.dI,
   Dir.lit ':', Dir.dM, Dir.ws, Dir.dp]

/-- Format 6, m/d/y I:M p. -/
def fmt6 : List Dir :=
  [Dir.dm, Dir.lit '/', Dir.dd, Dir.lit '/', Dir.dy, Dir.ws, Dir.dI, Dir.lit ':', Dir.dM,
   Dir.ws, Dir.dp]

/-- Format 7, m/d/y, I:M p. -/
def fmt7 : List Dir :=
  [Dir.dm, Dir.lit '/', Dir.dd, Dir.lit '/', Dir.dy, Dir.lit ',', Dir.ws, Dir.dI,
   Dir.lit ':', Dir.dM, Dir.ws, Dir.dp]

/-- Format 8, Y-m-d H:M. -/
def fmt8 : List Dir :=
  [Dir.dY, Dir.lit '-', Dir.dm, Dir.lit '-', Dir.dd, Dir.ws, Dir.dH, Dir.lit ':', Dir.dM]

/-- Format 9, Y-m-d, H:M. -/
def fmt9 : List Dir :=
  [Dir.dY, Dir.lit '-', Dir.dm, Dir.lit '-', Dir.dd, Dir.lit ',', Dir.ws, Dir.dH,
   Dir.lit ':', Dir.dM]

/-- Format 10, Y/m/d H:M. -/
def fmt10 : List Dir :=
  [Dir.dY, Dir.lit '/', Dir.dm, Dir.lit '/', Dir.dd, Dir.ws, Dir.dH, Dir.lit ':', Dir.dM]

/-- Format 11, Y/m/d, H:M. -/
def fmt11 : List Dir :=
  [Dir.dY, Dir.lit '/', Dir.dm, Dir.lit '/', Dir.dd, Dir.lit ',', Dir.ws, Dir.dH,
   Dir.lit ':', Dir.dM]

/-- Format 12, d.m.Y H:M. -/
def fmt12 : List Dir :=
  [Dir.dd, Dir.lit '.', Dir.dm, Dir.lit '.', Dir.dY, Dir.ws, Dir.dH, Dir.lit ':', Dir.dM]

/-- Format 13, d.m.Y, H:M. -/
def fmt13 : List Dir :=
  [Dir.dd, Dir.lit '.', Dir.dm, Dir.lit '.', Dir.dY, Dir.lit ',', Dir.ws, Dir.dH,
   Dir.lit ':', Dir.dM]

/-- Format 14, d.m.y H:M. -/
def fmt14 : List Dir :=
  [Dir.dd, Dir.lit '.', Dir.dm, Dir.lit '.', Dir.dy, Dir.ws, Dir.dH, Dir.lit ':', Dir.dM]

/-- Format 15, d.m.y, H:M. -/
def fmt15 : List Dir :=
  [Dir.dd, Dir.lit '.', Dir.dm, Dir.lit '.', Dir.dy, Dir.lit ',', Dir.ws, Dir.dH,
   Dir.lit ':', Dir.dM]

/-- Format 16, d-m-Y H:M. -/
def fmt16 : List Dir :=
  [Dir.dd, Dir.lit '-', Dir.dm, Dir.lit '-', Dir.dY, Dir.ws, Dir.dH, Dir.lit ':', Dir.dM]

/-- Format 17, d-m-Y, H:M. -/
def fmt17 : List Dir :=
  [Dir.dd, Dir.lit '-', Dir.dm, Dir.lit '-', Dir.dY, Dir.lit ',', Dir.ws, Dir.dH,
   Dir.lit ':', Dir.dM]

/-- Format 18, d-m-y H:M. -/
def fmt18 : List Dir :=
  [Dir.dd, Dir.lit '-', Dir.dm, Dir.lit '-', Dir.dy, Dir.ws, Dir.dH, Dir.lit ':', Dir.dM]

/-- Format 19, d-m-y, H:M. -/
def fmt19 : List Dir :=
  [Dir.dd, Dir.lit '-', Dir.dm, Dir.lit '-', Dir.dy, Dir.lit ',', Dir.ws, Dir.dH,
   Dir.lit ':', Dir.dM]

/-- Format 20, d/m/Y H:M:S. -/
def fmt20 : List Dir :=
  [Dir.dd, Dir.lit '/', Dir.dm, Dir.lit '/', Dir.dY, Dir.ws, Dir.dH, Dir.lit ':', Dir.dM,
   Dir.lit ':', Dir.dS]

/-- Format 21, d/m/Y, H:M:S. -/
def fmt21 : List Dir :=
  [Dir.dd, Dir.lit '/', Dir.dm, Dir.lit '/', Dir.dY, Dir.lit ',', Dir.ws, Dir.dH,
   Dir.lit ':', Dir.dM, Dir.lit ':', Dir.dS]

/-- Format 22, m/d/Y I:M:S p. -/
def fmt22 : List Dir :=
  [Dir.dm, Dir.lit '/', Dir.dd, Dir.lit '/', Dir.dY, Dir.ws, Dir.dI, Dir.lit ':', Dir.dM,
   Dir.lit ':', Dir.dS, Dir.ws, Dir.dp]

/-- Format 23, m/d/Y, I:M:S p. -/
def fmt23 : List Dir :=
  [Dir.dm, Dir.lit '/', Dir.dd, Dir.lit '/', Dir.dY, Dir.lit ',', Dir.ws, Dir.dI,
   Dir.lit ':', Dir.dM, Dir.lit ':', Dir.dS, Dir.ws, Dir.dp]

/-- Format 24, bracketed Y-m-d H:M:S. -/
def fmt24 : List Dir :=
  [Dir.lit '[', Dir.dY, Dir.lit '-', Dir.dm, Dir.lit '-', Dir.dd, Dir.ws, Dir.dH,
   Dir.lit ':', Dir.dM, Dir.lit ':', Dir.dS, Dir.lit ']']

/-- Format 25, bracketed d/m/Y H:M:S. -/
def fmt25 : List Dir :=
  [Dir.lit '[', Dir.dd, Dir.lit '/', Dir.dm, Dir.lit '/', Dir.dY, Dir.ws, Dir.dH,
   Dir.lit ':', Dir.dM, Dir.lit ':', Dir.dS, Dir.lit ']']

/-- Format 26, bracketed m/d/Y I:M:S p. -/
def fmt26 : List Dir :=
  [Dir.lit '[', Dir.dm, Dir.lit '/', Dir.dd, Dir.lit '/', Dir.dY, Dir.ws, Dir.dI,
   Dir.lit ':', Dir.dM, Dir.lit ':', Dir.dS, Dir.ws, Dir.dp, Dir.lit ']']

/-- Format 27, bracketed d-m-Y H:M:S. -/
def fmt27 : List Dir :=
  [Dir.lit '[', Dir.dd, Dir.lit '-', Dir.dm, Dir.lit '-', Dir.dY, Dir.ws, Dir.dH,
   Dir.lit ':', Dir.dM, Dir.lit ':', Dir.dS, Dir.lit ']']

/-- Format 28, bracketed d.m.Y H:M:S. -/
def fmt28 : List Dir :=
  [Dir.lit '[', Dir.dd, Dir.lit '.', Dir.dm, Dir.lit '.', Dir.dY, Dir.ws, Dir.dH,
   Dir.lit ':', Dir.dM, Dir.lit ':', Dir.dS, Dir.lit ']']

/-- The ordered format list of WhatsAppMessage._parse_timestamp. -/
def formats : List (List Dir) :=
  [fmt0, fmt1, fmt2, fmt3, fmt4, fmt5, fmt6, fmt7, fmt8, fmt9, fmt10, fmt11,
   fmt12, fmt13, fmt14, fmt15, fmt16, fmt17, fmt18, fmt19, fmt20, fmt21, fmt22,
   fmt23, fmt24, fmt25, fmt26, fmt27, fmt28]

/-- Maximal digit runs of the string, as numbers: the model of
re.findall of one-or-more-digits followed by int conversion. -/
def drGo : List Char → Option Nat → List Nat
  | [], none => []
  | [], some v => [v]
  | c :: r, none => if c.isDigit then drGo r (some (dval c)) else drGo r none
  | c :: r, some v =>
      if c.isDigit then drGo r (some (10 * v + dval c)) else v :: drGo r none

/-- Maximal digit runs of a string, in order, as numbers. -/
def digitRuns (s : List Char) : List Nat := drGo s none

/-- The numeric-heuristic fallback of _parse_timestamp (source lines 73-108):
extract the digit runs; with at least five, classify year/month/day by the
source's range tests, map two-digit years below 50 to 2000+ and the others to
1900+, take hour/minute/second from the following runs, and attempt datetime
construction; none where the source falls through to the current-time
fallback (fewer than five runs, or ValueError from the constructor).  A
constructor field of 2^31 or more instead raises an OverflowError that the
except clause does not catch; this Option-valued form maps that case to none
as well, and heuristicRes below distinguishes it. -/
def heuristicGuess (s : List Char) : Option DT :=
  let nums := digitRuns s
  if 5 ≤ nums.length then
    let n0 := nums.getD 0 0
    let n1 := nums.getD 1 0
    let n2 := nums.getD 2 0
    let ymd :=
      if 31 < n0 ∨ (12 < n0 ∧ n1 ≤ 12) then (n0, n1, n2)
      else if n0 ≤ 31 ∧ n1 ≤ 12 then (n2, n1, n0)
      else if n0 ≤ 12 ∧ n1 ≤ 31 then (n2, n0, n1)
      else (n2, n1, n0)
    let yy := if ymd.1 < 100 then (if ymd.1 < 50 then ymd.1 + 2000 else ymd.1 + 1900) else ymd.1
    mkDT yy ymd.2.1 ymd.2.2 (nums.getD 3 0) (nums.getD 4 0) (nums.getD 5 0)
  else none

/-- Tries the formats in order; the first that parses wins. -/
def tryFormats : List (List Dir) → List Char → Option DT
  | [], _ => none
  | f :: fs, s =>
      match strptimeF f s with
      | some dt => some dt
      | none => tryFormats fs s

/-- The Option-valued part of WhatsAppMessage._parse_timestamp: trim, try
the 29 formats in order, then the numeric heuristic; none where the source
reaches its print-and-return-now last resort, and also on the inputs where
the heuristic's datetime construction overflows and the source raises
instead (distinguished by parseTimestampRes below). -/
def parseTimestampCore (s : List Char) : Option DT :=
  let t := trimChars s
  match tryFormats formats t with
  | some dt => some dt
  | none => heuristicGuess t

/-- WhatsAppMessage._parse_timestamp as a value: the impure datetime.now()
of the last resort is threaded as the explicit argument now.  On the
overflow-raising inputs the source returns no value at all; this total form
maps them to now, and mkMsgR below models the raising path. -/
def parseTimestampDT (s : List Char) (now : DT) : DT :=
  (parseTimestampCore s).getD now

/-! ### A backtracking regex engine for the message-start patterns

The nine message_patterns of parse_chat are Python re patterns; they are
matched with re.match (anchored at the start, the remainder of the line being
irrelevant), with leftmost-greedy backtracking semantics.  The engine below
implements exactly those semantics for the constructs the patterns use, in
continuation-passing style with a fuel argument bounding the recursion depth
of a single backtracking path (each construct on a path consumes fuel, so any
sufficiently large fuel yields the same result). -/

/-- Regex abstract syntax: single-character predicate classes, sequencing,
greedy counted repetition (an absent upper bound meaning unbounded), and the
three numbered capture groups of the message patterns. -/
inductive Rx where
  | eps
  | ch (p : Char → Bool)
  | seq (a b : Rx)
  | rep (a : Rx) (lo : Nat) (hi : Option Nat)
  | grp (i : Nat) (a : Rx)

/-- The three capture groups of a message pattern. -/
structure Caps where
  g1 : Option (List Char) := none
  g2 : Option (List Char) := none
  g3 : Option (List Char) := none

/-- Stores a captured span into its group. -/
def setCap (i : Nat) (v : List Char) (c : Caps) : Caps :=
  if i = 1 then { c with g1 := some v }
  else if i = 2 then { c with g2 := some v }
  else { c with g3 := some v }

/-- Runs the pattern on the string in continuation-passing style with
leftmost-greedy preference (a repetition tries the longer match first), as
Python re does; the fuel bounds the depth of one path and is chosen large
enough by the wrapper. -/
def mrun : Nat → Rx → List Char → Caps → (List Char → Caps → Option Caps) → Option Caps
  | 0, _, _, _, _ => none
  | _ + 1, Rx.eps, s, c, k => k s c
  | _ + 1, Rx.ch p, s, c, k =>
      match s with
      | [] => none
      | x :: s' => if p x then k s' c else none
  | fuel + 1, Rx.seq a b, s, c, k =>
      mrun fuel a s c (fun s' c' => mrun fuel b s' c' k)
  | fuel + 1, Rx.rep a lo hi, s, c, k =>
      if 0 < lo then
        mrun fuel a s c (fun s' c' => mrun fuel (Rx.rep a (lo - 1) (hi.map (· - 1))) s' c' k)
      else
        match hi with
        | some 0 => k s c
        | _ =>
            match mrun fuel a s c
                (fun s' c' => mrun fuel (Rx.rep a 0 (hi.map (· - 1))) s' c' k) with
            | some r => some r
            | none => k s c
  | fuel + 1, Rx.grp i a, s, c, k =>
      mrun fuel a s c (fun s' c' => k s' (setCap i (s.take (s.length - s'.length)) c'))

/-- Chains a list of regexes in sequence. -/
def rxCat (l : List Rx) : Rx := l.foldr Rx.seq Rx.eps

/-- One optional occurrence (a greedy question mark). -/
def rxOpt (a : Rx) : Rx := Rx.rep a 0 (some 1)

/-- One or more occurrences (a greedy plus). -/
def rxPlus (a : Rx) : Rx := Rx.rep a 1 none

/-- Zero or more occurrences (a greedy star). -/
def rxStar (a : Rx) : Rx := Rx.rep a 0 none

/-- The class of one digit. -/
def rxD : Rx := Rx.ch (fun c => c.isDigit)

/-- The class of one whitespace character. -/
def rxS : Rx := Rx.ch (fun c => c.isWhitespace)

/-- A literal character. -/
def rxL (c : Char) : Rx := Rx.ch (fun x => x = c)

/-- The date-character class of the flexible patterns: digits, slash, dash, dot. -/
def rxDateCls : Rx := Rx.ch (fun c => c.isDigit || c = '/' || c = '-' || c = '.')

/-- The time-character class of the flexible patterns: digits, colon,
the letters A, P, M, and whitespace. -/
def rxTimeCls : Rx :=
  Rx.ch (fun c => c.isDigit || c = ':' || c = 'A' || c = 'P' || c = 'M' || c.isWhitespace)

/-- The class of one non-colon character (the sender capture). -/
def rxSender : Rx := Rx.ch (fun c => c ≠ ':')

/-- The dot class: any character except a newline (the content capture). -/
def rxAny : Rx := Rx.ch (fun c => c ≠ '\n')

/-- One of the letters A or P (of the meridiem marker). -/
def rxAP : Rx := Rx.ch (fun c => c = 'A' || c = 'P')

/-- The optional seconds group of the explicit patterns. -/
def rxOptSec : Rx := rxOpt (rxCat [rxL ':', rxD, rxD])

/-- The trailing sender/content part shared by the dashed patterns. -/
def rxDashTail : List Rx :=
  [rxStar rxS, rxL '-', rxStar rxS, Rx.grp 2 (rxPlus rxSender), rxL ':', rxStar rxS,
   Rx.grp 3 (rxPlus rxAny)]

/-- Message pattern 0 (Brazilian/European). -/
def pat0 : Rx :=
  rxCat ([Rx.grp 1 (rxCat
    [Rx.rep rxD 1 (some 2), rxL '/', Rx.rep rxD 1 (some 2), rxL '/', Rx.rep rxD 2 (some 4),
     rxOpt (rxL ','), rxPlus rxS, Rx.rep rxD 1 (some 2), rxL ':', rxD, rxD, rxOptSec])]
    ++ rxDashTail)

/-- Message pattern 1 (US with AM/PM). -/
def pat1 : Rx :=
  rxCat ([Rx.grp 1 (rxCat
    [Rx.rep rxD 1 (some 2), rxL '/', Rx.rep rxD 1 (some 2), rxL '/', Rx.rep rxD 2 (some 4),
     rxOpt (rxL ','), rxPlus rxS, Rx.rep rxD 1 (some 2), rxL ':', rxD, rxD, rxOptSec,
     rxStar rxS, rxAP, rxL 'M'])]
    ++ rxDashTail)

/-- Message pattern 2 (ISO). -/
def pat2 : Rx :=
  rxCat ([Rx.grp 1 (rxCat
    [rxD, rxD, rxD, rxD, rxL '-', Rx.rep rxD 1 (some 2), rxL '-', Rx.rep rxD 1 (some 2),
     rxOpt (rxL ','), rxPlus rxS, Rx.rep rxD 1 (some 2), rxL ':', rxD, rxD, rxOptSec])]
    ++ rxDashTail)

/-- Message pattern 3 (Android dot). -/
def pat3 : Rx :=
  rxCat ([Rx.grp 1 (rxCat
    [Rx.rep rxD 1 (some 2), rxL '.', Rx.rep rxD 1 (some 2), rxL '.', Rx.rep rxD 2 (some 4),
     rxOpt (rxL ','), rxPlus rxS, Rx.rep rxD 1 (some 2), rxL ':', rxD, rxD, rxOptSec])]
    ++ rxDashTail)

/-- Message pattern 4 (dash dates). -/
def pat4 : Rx :=
  rxCat ([Rx.grp 1 (rxCat
    [Rx.rep rxD 1 (some 2), rxL '-', Rx.rep rxD 1 (some 2), rxL '-', Rx.rep rxD 2 (some 4),
     rxOpt (rxL ','), rxPlus rxS, Rx.rep rxD 1 (some 2), rxL ':', rxD, rxD, rxOptSec])]
    ++ rxDashTail)

/-- Message pattern 5 (flexible). -/
def pat5 : Rx :=
  rxCat ([Rx.grp 1 (rxCat
    [Rx.rep rxDateCls 6 (some 10), rxOpt (rxL ','), rxPlus rxS, Rx.rep rxTimeCls 4 (some 11)])]
    ++ rxDashTail)

/-- Message pattern 6 (bracketed, with dash). -/
def pat6 : Rx :=
  rxCat ([rxL '[', Rx.grp 1 (rxCat
    [Rx.rep rxDateCls 6 (some 10), rxPlus rxS, Rx.rep rxTimeCls 4 (some 11)]), rxL ']']
    ++ rxDashTail)

/-- Message pattern 7 (bracketed, no dash). -/
def pat7 : Rx :=
  rxCat [rxL '[', Rx.grp 1 (rxCat
    [Rx.rep rxDateCls 6 (some 10), rxPlus rxS, Rx.rep rxTimeCls 4 (some 11)]), rxL ']',
    rxStar rxS, Rx.grp 2 (rxPlus rxSender), rxL ':', rxStar rxS, Rx.grp 3 (rxPlus rxAny)]

/-- Message pattern 8 (no dash). -/
def pat8 : Rx :=
  rxCat [Rx.grp 1 (rxCat
    [Rx.rep rxDateCls 6 (some 10), rxPlus rxS, Rx.rep rxTimeCls 4 (some 11)]),
    rxStar rxS, Rx.grp 2 (rxPlus rxSender), rxL ':', rxStar rxS, Rx.grp 3 (rxPlus rxAny)]

/-- The ordered message-pattern list of parse_chat. -/
def msgPatterns : List Rx := [pat0, pat1, pat2, pat3, pat4, pat5, pat6, pat7, pat8]

/-- Model of re.match with one message pattern: anchored at the start of the
line, remainder ignored; on success the three groups (always populated in
these patterns) are returned. -/
def reMatch (r : Rx) (s : List Char) : Option (List Char × List Char × List Char) :=
  match mrun (60 * (s.length + 20)) r s {} (fun _ c => some c) with
  | some ⟨some t, some se, some co⟩ => some (t, se, co)
  | _ => none

/-! ### The parser state machine of WhatsAppChatAnalyzer.parse_chat -/

/-- Prefix test on character lists (Python str.startswith). -/
def startsWithL : List Char → List Char → Bool
  | [], _ => true
  | _ :: _, [] => false
  | p :: ps, c :: cs => p = c && startsWithL ps cs

/-- Substring containment (the Python in operator on strings). -/
def containsSub (n : List Char) : List Char → Bool
  | [] => startsWithL n []
  | c :: r => startsWithL n (c :: r) || containsSub n r

/-- The system-message test of parse_chat (source lines 212-213): content
starting with a less-than sign or a left-to-right mark, or containing one of
the two missed-call phrases. -/
def isSystem (c : List Char) : Bool :=
  startsWithL ['<'] c || startsWithL ['‎'] c ||
  containsSub ("Ligação de voz perdida").data c || containsSub ("Missed call").data c

/-- Number of maximal non-whitespace runs (Python str.split() length). -/
def wordsGo : List Char → Bool → Nat
  | [], _ => 0
  | c :: r, inRun =>
      if isWsChar c then wordsGo r false
      else if inRun then wordsGo r true else wordsGo r true + 1

/-- Word count of a content string, as computed by WhatsAppMessage. -/
def wordCountL (s : List Char) : Nat := wordsGo s false

/-- A parsed message (the WhatsAppMessage entity). -/
structure Msg where
  timestamp : DT
  sender : List Char
  content : List Char
  word_count : Nat
  char_count : Nat
deriving DecidableEq, Repr

/-- WhatsAppMessage construction: timestamp resolution (with the explicit now
for the last-resort fallback) plus the derived counts. -/
def mkMsg (now : DT) (t se co : List Char) : Msg :=
  ⟨parseTimestampDT t now, se, co, wordCountL co, co.length⟩

/-- The parsing_stats counter record of WhatsAppChatAnalyzer. -/
structure Stats where
  total : Nat := 0
  parsed : Nat := 0
  skipped : Nat := 0
  multiline : Nat := 0
  system : Nat := 0
deriving DecidableEq, Repr

/-- The persistent analyzer state: message sequence, participant set and
statistics (detected_format is diagnostic only and outside the claims). -/
structure AState where
  messages : List Msg := []
  participants : Finset (List Char) := ∅
  stats : Stats := {}
deriving DecidableEq

/-- The state WhatsAppChatAnalyzer.__init__ creates. -/
def initState : AState := {}

/-- The fold state of one parse_chat call: the persistent state plus the
local current_message buffer and multiline_count.  The conts field is ghost
instrumentation (not present in the source): it counts the lines merged as
continuations, to state the line-accounting identity. -/
structure FoldSt where
  base : AState
  buffer : Option (List Char × List Char × List Char) := none
  mcount : Nat := 0
  conts : Nat := 0
deriving DecidableEq

/-- The inner for-pattern loop of parse_chat on one (trimmed, non-empty)
line: tries the patterns in order; every matching pattern whose stripped
content is non-empty and a system message adds one system_messages increment
and moves on to the next pattern (the source's continue targets the pattern
loop); the first matching pattern with non-empty non-system content opens a
buffer and stops the loop; a matching pattern with empty stripped content
falls through to the next pattern.  Returns (whether any pattern matched,
the system increments, the opened buffer if any). -/
def scanLine : List Rx → List Char →
    Bool × Nat × Option (List Char × List Char × List Char)
  | [], _ => (false, 0, none)
  | p :: ps, l =>
      match reMatch p l with
      | none => scanLine ps l
      | some (t, se, co) =>
          let se' := trimChars se
          let co' := trimChars co
          if co' ≠ [] ∧ isSystem co' then
            let r := scanLine ps l
            (true, r.2.1 + 1, r.2.2)
          else if co' ≠ [] then (true, 0, some (t, se', co'))
          else
            let r := scanLine ps l
            (true, r.2.1, r.2.2)

/-- The _add_message helper on the non-raising path: constructs the message
and appends it, adding the sender to the participant set.  The source's
except-Exception branch can fire — timestamp fields at or above 2^31 raise
an OverflowError that the heuristic's except clause does not catch — and is
modelled by addMessageR below; this simpler form collapses that drop path
and agrees with the source whenever no field overflows. -/
def addMessage (now : DT) (st : AState) (t se co : List Char) : AState :=
  { st with
    messages := st.messages ++ [mkMsg now t se co],
    participants := insert se st.participants }

/-- Flushing the pending buffer into the store: counts a multiline message if
the buffer received a continuation, adds the message, clears the buffer and
the continuation counter (source lines 199-205 and 232-235). -/
def flushIfOpen (now : DT) (f : FoldSt) : FoldSt :=
  match f.buffer with
  | none => f
  | some (t, se, co) =>
      let b1 :=
        if 0 < f.mcount then
          { f.base with stats := { f.base.stats with multiline := f.base.stats.multiline + 1 } }
        else f.base
      { f with base := addMessage now b1 t se co, buffer := none, mcount := 0 }

/-- One iteration of the line loop of parse_chat: strip the line, skip it if
empty; otherwise run the pattern loop (flushing the pending buffer at the
first match), then either open the captured buffer, or append the line as a
continuation of an open buffer, or count it as skipped. -/
def processLineF (now : DT) (f : FoldSt) (line : List Char) : FoldSt :=
  let l := trimChars line
  if l = [] then f
  else
    let r := scanLine msgPatterns l
    let f1 := if r.1 then flushIfOpen now f else f
    let f2 :=
      { f1 with base :=
        { f1.base with stats := { f1.base.stats with system := f1.base.stats.system + r.2.1 } } }
    match r.2.2 with
    | some (t, se, co) => { f2 with buffer := some (t, se, co) }
    | none =>
        match f2.buffer with
        | some (t, se, co) =>
            { f2 with buffer := some (t, se, co ++ ' ' :: l), mcount := f2.mcount + 1,
                      conts := f2.conts + 1 }
        | none =>
            { f2 with base :=
              { f2.base with stats := { f2.base.stats with skipped := f2.base.stats.skipped + 1 } } }

/-- The line loop of parse_chat over a list of lines. -/
def processLinesF (now : DT) (f : FoldSt) (lines : List (List Char)) : FoldSt :=
  lines.foldl (processLineF now) f

/-- A whole parse_chat call on pre-split lines: set total_lines, run the line
loop from an empty buffer, flush the final buffer, and set parsed_messages to
the length of the (accumulated) message sequence. -/
def parseFold (now : DT) (st : AState) (lines : List (List Char)) : FoldSt :=
  let st0 := { st with stats := { st.stats with total := lines.length } }
  flushIfOpen now (processLinesF now ⟨st0, none, 0, 0⟩ lines)

/-- The analyzer state after parse_chat on pre-split lines. -/
def parseLines (now : DT) (st : AState) (lines : List (List Char)) : AState :=
  let f := parseFold now st lines
  { f.base with stats := { f.base.stats with parsed := f.base.messages.length } }

/-- Model of Python str.split on a newline. -/
def splitNL : List Char → List (List Char)
  | [] => [[]]
  | c :: r =>
      if c = '\n' then [] :: splitNL r
      else
        match splitNL r with
        | h :: t => (c :: h) :: t
        | [] => [[c]]

/-- The line list parse_chat derives from the raw text (strip then split). -/
def linesOf (text : String) : List (List Char) := splitNL (trimChars text.data)

/-- WhatsAppChatAnalyzer.parse_chat on a raw transcript. -/
def parseChat (now : DT) (st : AState) (text : String) : AState :=
  parseLines now st (linesOf text)

/-- The parsing report of get_parsing_report (detected_format aside):
success rate over rationals in place of Python floats, and the quality
bucket computed from the unrounded rate as in the source. -/
structure Report where
  success_rate : ℚ
  format_quality : String
deriving DecidableEq, Repr

/-- Rounding to two decimal places (the model of round(x, 2)). -/
def round2 (q : ℚ) : ℚ := (round (q * 100) : ℚ) / 100

/-- get_parsing_report: rate = parsed / max(1, total - skipped) as a
percentage, reported rounded to two decimals; quality bucketed at the strict
thresholds 90, 70 and 50 on the unrounded rate. -/
def getParsingReport (st : Stats) : Report :=
  let rate : ℚ := ((st.parsed : ℚ) / ((max 1 ((st.total : ℤ) - (st.skipped : ℤ)) : ℤ) : ℚ)) * 100
  { success_rate := round2 rate,
    format_quality :=
      if 90 < rate then "Excellent"
      else if 70 < rate then "Good"
      else if 50 < rate then "Fair"
      else "Poor" }

/-! ### Spec-side definitions for the report refinement -/

/-- Follows the spec wording for C7: success_rate equals
parsed_messages / max(1, total_lines - skipped_lines) expressed as a
percentage. -/
def specSuccessRate (st : Stats) : ℚ :=
  100 * (st.parsed : ℚ) / ((max 1 ((st.total : ℤ) - (st.skipped : ℤ)) : ℤ) : ℚ)

/-- Follows the spec wording for C7: format_quality bucketed from the
success rate by the thresholds 90/70/50. -/
def specFormatQuality (st : Stats) : String :=
  if 90 < specSuccessRate st then "Excellent"
  else if 70 < specSuccessRate st then "Good"
  else if 50 < specSuccessRate st then "Fair"
  else "Poor"

/-! ### The exception path of timestamp resolution

CPython's datetime constructor converts each argument to a C int before it
validates ranges: an argument of 2^31 or more raises OverflowError, not
ValueError.  The heuristic of _parse_timestamp catches only ValueError and
IndexError, so an overflowing field — reachable, because the flexible
message patterns admit date runs of up to ten digits — propagates
OverflowError out of _parse_timestamp; _add_message then takes its
except-Exception branch, which only prints, and the buffered message is
dropped.  The definitions below refine the Option-valued model above with
this exception path distinguished; on every non-overflowing input the two
agree (parseTimestampRes_core below). -/

/-- The C-int overflow bound of the CPython datetime constructor. -/
def OVF : Nat := 2147483648

/-- Outcome of _parse_timestamp with the exceptions distinguished: a
resolved date-time, the fall-through to the current-time last resort, or an
OverflowError escaping the heuristic's except clause. -/
inductive TRes where
  | ok (dt : DT)
  | fb
  | raised
deriving DecidableEq, Repr

/-- datetime.datetime(y, m, d, h, mi, s) with the exception type modelled:
OverflowError when an argument does not fit a C int, otherwise the range
validation of mkDT, with ValueError mapped to the caught fall-through. -/
def datetimeR (y m d h mi s : Nat) : TRes :=
  if OVF ≤ y ∨ OVF ≤ m ∨ OVF ≤ d ∨ OVF ≤ h ∨ OVF ≤ mi ∨ OVF ≤ s then TRes.raised
  else
    match mkDT y m d h mi s with
    | some dt => TRes.ok dt
    | none => TRes.fb

/-- The numeric heuristic of _parse_timestamp with the constructor exception
distinguished: identical to heuristicGuess except that the final datetime
construction reports OverflowError separately. -/
def heuristicRes (s : List Char) : TRes :=
  let nums := digitRuns s
  if 5 ≤ nums.length then
    let n0 := nums.getD 0 0
    let n1 := nums.getD 1 0
    let n2 := nums.getD 2 0
    let ymd :=
      if 31 < n0 ∨ (12 < n0 ∧ n1 ≤ 12) then (n0, n1, n2)
      else if n0 ≤ 31 ∧ n1 ≤ 12 then (n2, n1, n0)
      else if n0 ≤ 12 ∧ n1 ≤ 31 then (n2, n0, n1)
      else (n2, n1, n0)
    let yy := if ymd.1 < 100 then (if ymd.1 < 50 then ymd.1 + 2000 else ymd.1 + 1900) else ymd.1
    datetimeR yy ymd.2.1 ymd.2.2 (nums.getD 3 0) (nums.getD 4 0) (nums.getD 5 0)
  else TRes.fb

/-- WhatsAppMessage._parse_timestamp with the exception path: the strptime
loop (whose two- and four-digit-bounded fields never overflow), then the
heuristic; raised propagates out of the method. -/
def parseTimestampRes (s : List Char) : TRes :=
  match tryFormats formats (trimChars s) with
  | some dt => TRes.ok dt
  | none => heuristicRes (trimChars s)

/-- WhatsAppMessage construction with the exception path: none when
_parse_timestamp raises, otherwise the message carrying the resolved or the
fallback timestamp. -/
def mkMsgR (now : DT) (t se co : List Char) : Option Msg :=
  match parseTimestampRes t with
  | TRes.raised => none
  | TRes.ok dt => some ⟨dt, se, co, wordCountL co, co.length⟩
  | TRes.fb => some ⟨now, se, co, wordCountL co, co.length⟩

/-- _add_message with the exception path: the except-Exception branch only
prints, so a raising construction leaves messages, participants and every
counter unchanged. -/
def addMessageR (now : DT) (st : AState) (t se co : List Char) : AState :=
  match mkMsgR now t se co with
  | some m =>
      { st with messages := st.messages ++ [m], participants := insert se st.participants }
  | none => st

/-- The fold state of one parse_chat call over the refined model; conts and
dropped are ghost instrumentation (not present in the source), counting the
lines merged as continuations and the messages dropped by the
except-Exception branch of _add_message. -/
structure FoldStR where
  base : AState
  buffer : Option (List Char × List Char × List Char) := none
  mcount : Nat := 0
  conts : Nat := 0
  dropped : Nat := 0
deriving DecidableEq

/-- flushIfOpen over the refined state: commits the open buffer through
addMessageR, recording in the ghost dropped counter whether the message was
dropped. -/
def flushIfOpenR (now : DT) (f : FoldStR) : FoldStR :=
  match f.buffer with
  | none => f
  | some (t, se, co) =>
      let b1 :=
        if 0 < f.mcount then
          { f.base with stats := { f.base.stats with multiline := f.base.stats.multiline + 1 } }
        else f.base
      { f with base := addMessageR now b1 t se co, buffer := none, mcount := 0,
               dropped := f.dropped + (if mkMsgR now t se co = none then 1 else 0) }

/-- processLineF over the refined state. -/
def processLineR (now : DT) (f : FoldStR) (line : List Char) : FoldStR :=
  let l := trimChars line
  if l = [] then f
  else
    let r := scanLine msgPatterns l
    let f1 := if r.1 then flushIfOpenR now f else f
    let f2 :=
      { f1 with base :=
        { f1.base with stats := { f1.base.stats with system := f1.base.stats.system + r.2.1 } } }
    match r.2.2 with
    | some (t, se, co) => { f2 with buffer := some (t, se, co) }
    | none =>
        match f2.buffer with
        | some (t, se, co) =>
            { f2 with buffer := some (t, se, co ++ ' ' :: l), mcount := f2.mcount + 1,
                      conts := f2.conts + 1 }
        | none =>
            { f2 with base :=
              { f2.base with stats := { f2.base.stats with skipped := f2.base.stats.skipped + 1 } } }

/-- The line loop of parse_chat over the refined state. -/
def processLinesR (now : DT) (f : FoldStR) (lines : List (List Char)) : FoldStR :=
  lines.foldl (processLineR now) f

/-- A whole parse_chat call on pre-split lines over the refined state. -/
def parseFoldR (now : DT) (st : AState) (lines : List (List Char)) : FoldStR :=
  let st0 := { st with stats := { st.stats with total := lines.length } }
  flushIfOpenR now (processLinesR now ⟨st0, none, 0, 0, 0⟩ lines)

/-- The analyzer state after parse_chat on pre-split lines, refined model. -/
def parseLinesR (now : DT) (st : AState) (lines : List (List Char)) : AState :=
  let f := parseFoldR now st lines
  { f.base with stats := { f.base.stats with parsed := f.base.messages.length } }

/-- WhatsAppChatAnalyzer.parse_chat on a raw transcript, refined model. -/
def parseChatR (now : DT) (st : AState) (text : String) : AState :=
  parseLinesR now st (linesOf text)

/-! ### Claims -/

/-- A fixed probe instant used to exhibit the current-time fallback. -/
def probeA : DT := ⟨2000, 1, 1, 0, 0, 0⟩

/-- A second, distinct probe instant. -/
def probeB : DT := ⟨2001, 1, 1, 0, 0, 0⟩

/-- Claim C1 (code_bug evaluation).  The claim states that a line whose
matched content begins with a system/media marker increments system_messages
by exactly 1 and that the media-placeholder scenario yields system_messages
equal to 1.  On the code, the continue statement of the system check targets
the pattern loop, so each matching pattern counts once (three patterns match
this line), and the line additionally falls through to skipped_lines.  The
line does produce no Message and opens no buffer. -/
theorem c1_system_line_eval :
    (parseChat probeA initState ("25/10/2023 09:15 - Ann: <Media omitted>")).messages = [] ∧
    (parseChat probeA initState ("25/10/2023 09:15 - Ann: <Media omitted>")).stats.system = 3 ∧
    (parseChat probeA initState ("25/10/2023 09:15 - Ann: <Media omitted>")).stats.skipped = 1 ∧
    (scanLine msgPatterns (trimChars ("25/10/2023 09:15 - Ann: <Media omitted>").data)).2.2
      = none := by
  refine ⟨?_, ?_, ?_, ?_⟩ <;> decide

/-- Claim C2 (code_bug evaluation).  The claim states that the heuristic
fallback resolves the digit runs 25 10 2023 09 15 to 2023-10-25 09:15.  On
the code, the condition nums[0] > 12 and nums[1] <= 12 (contradicting the
adjacent comment, which says second number > 12) classifies 25 as the year
and 2023 as the day, the datetime constructor rejects day 2023, and
resolution falls through to the current-time fallback. -/
theorem c2_heuristic_eval :
    parseTimestampCore (("25 10 2023 09 15").data) = none ∧
    (∀ now : DT, parseTimestampDT (("25 10 2023 09 15").data) now = now) ∧
    parseTimestampDT (("25 10 2023 09 15").data) probeA ≠ ⟨2023, 10, 25, 9, 15, 0⟩ := by
  have h : parseTimestampCore (("25 10 2023 09 15").data) = none := by decide
  refine ⟨h, fun now => ?_, by decide⟩
  simp [parseTimestampDT, h]

/-- Claim C3 (counterexample).  The claim states that two runs of the
resolver on the same string at different times return the same value; on the
unresolvable input the code returns the current time, so two runs with
different ambient clocks differ. -/
theorem c3_counterexample :
    parseTimestampDT (("hello").data) probeA ≠ parseTimestampDT (("hello").data) probeB := by
  decide

/-- Claim C3 (amended).  Timestamp resolution is deterministic on every input
that the format list or the numeric heuristic resolves: the result does not
depend on the ambient clock threaded for the last-resort fallback. -/
theorem c3_deterministic_on_resolvable (s : List Char) (dt : DT)
    (h : parseTimestampCore s = some dt) (n1 n2 : DT) :
    parseTimestampDT s n1 = parseTimestampDT s n2 := by
  simp [parseTimestampDT, h]

/-- Witness for C3: a resolvable timestamp string yields the same value under
two different ambient clocks. -/
theorem c3_witness :
    parseTimestampDT (("25/10/2023 09:15").data) probeA
      = parseTimestampDT (("25/10/2023 09:15").data) probeB :=
  c3_deterministic_on_resolvable (("25/10/2023 09:15").data) ⟨2023, 10, 25, 9, 15, 0⟩
    (by decide) probeA probeB

/-- The refined datetime construction projected back to the Option model:
the overflow branch coincides with mkDT's none, because an overflowing field
always also fails mkDT's range checks. -/
theorem datetimeR_none (y m d h mi s : Nat) :
    (match datetimeR y m d h mi s with
     | TRes.ok dt => some dt
     | _ => (none : Option DT)) = mkDT y m d h mi s := by
  unfold datetimeR
  split_ifs with hovf
  · have hd : daysInMonth y m ≤ 31 := by
      unfold daysInMonth
      split_ifs <;> omega
    rw [mkDT, if_neg (by unfold OVF at hovf; omega)]
  · cases hmk : mkDT y m d h mi s <;> rfl

/-- The refined heuristic projected back to the Option model. -/
theorem heuristicRes_guess (s : List Char) :
    heuristicGuess s
      = (match heuristicRes s with
         | TRes.ok dt => some dt
         | _ => (none : Option DT)) := by
  unfold heuristicGuess heuristicRes
  dsimp only
  by_cases h : 5 ≤ (digitRuns s).length
  · rw [if_pos h, if_pos h]
    exact (datetimeR_none _ _ _ _ _ _).symm
  · rw [if_neg h, if_neg h]

/-- The refined resolver agrees with parseTimestampCore wherever it does not
raise, and parseTimestampCore sees the raising inputs as unresolved. -/
theorem parseTimestampRes_core (s : List Char) :
    parseTimestampCore s
      = (match parseTimestampRes s with
         | TRes.ok dt => some dt
         | _ => (none : Option DT)) := by
  unfold parseTimestampCore parseTimestampRes
  dsimp only
  cases htf : tryFormats formats (trimChars s) with
  | some dt => rfl
  | none => exact heuristicRes_guess (trimChars s)

/-- Claim C6 (code_bug evaluation).  The claim states that parsing never
drops a buffered message: when no layout and not the heuristic resolves its
timestamp, the Message is still constructed with a fallback instant and
appended, so a flush always adds exactly one Message.  On the code, the
heuristic's except clause catches only ValueError and IndexError, while a
datetime field of 2^31 or more raises OverflowError: for the line below the
flexible pattern captures the ten-digit year 9999999999, the error escapes
_parse_timestamp, _add_message's except-Exception branch swallows it, and
the buffered message is dropped — no Message, no participant, no counter,
under every ambient clock. -/
theorem c6_overflow_drop (now : DT) :
    parseTimestampRes (("9999999999 12:13:14:15").data) = TRes.raised ∧
    (scanLine msgPatterns (("9999999999 12:13:14:15 - Ann: Hi").data)).2.2
      = some ((("9999999999 12:13:14:15").data), ("Ann").data, ("Hi").data) ∧
    (parseChatR now initState ("9999999999 12:13:14:15 - Ann: Hi")).messages = [] ∧
    (parseChatR now initState ("9999999999 12:13:14:15 - Ann: Hi")).participants = ∅ ∧
    (parseChatR now initState ("9999999999 12:13:14:15 - Ann: Hi")).stats.skipped = 0 ∧
    (parseFoldR now initState (linesOf ("9999999999 12:13:14:15 - Ann: Hi"))).dropped
      = 1 := by
  refine ⟨by decide, by decide, ?_, ?_, ?_, ?_⟩ <;> rfl

/-- Claim C7.  For every statistics record, the report's success_rate is the
percentage parsed / max(1, total - skipped), rounded to two decimals, and
format_quality is bucketed from that (unrounded) rate at the strict
thresholds 90, 70 and 50. -/
theorem c7_report_formula (st : Stats) :
    (getParsingReport st).success_rate = round2 (specSuccessRate st) ∧
    (getParsingReport st).format_quality = specFormatQuality st := by
  have h : ((st.parsed : ℚ) / ((max 1 ((st.total : ℤ) - (st.skipped : ℤ)) : ℤ) : ℚ)) * 100
      = specSuccessRate st := by
    unfold specSuccessRate; ring
  unfold getParsingReport specFormatQuality
  rw [h]
  exact ⟨rfl, rfl⟩

/-! ### The participant-set invariant (C9) -/

/-- The store invariant of C9: the participant set is exactly the set of
senders of the stored messages. -/
def PInv (st : AState) : Prop :=
  ∀ p, p ∈ st.participants ↔ ∃ m ∈ st.messages, m.sender = p

theorem pinv_addMessage (now : DT) (st : AState) (t se co : List Char) (h : PInv st) :
    PInv (addMessage now st t se co) := by
  intro p
  simp only [addMessage, Finset.mem_insert, List.mem_append, List.mem_singleton]
  constructor
  · rintro (rfl | hp)
    · exact ⟨mkMsg now t p co, Or.inr rfl, rfl⟩
    · obtain ⟨m, hm, hs⟩ := (h p).1 hp
      exact ⟨m, Or.inl hm, hs⟩
  · rintro ⟨m, hm | rfl, hs⟩
    · exact Or.inr ((h p).2 ⟨m, hm, hs⟩)
    · exact Or.inl hs.symm

theorem pinv_flush (now : DT) (f : FoldSt) (h : PInv f.base) :
    PInv (flushIfOpen now f).base := by
  unfold flushIfOpen
  cases hb : f.buffer with
  | none => exact h
  | some b =>
      obtain ⟨t, se, co⟩ := b
      dsimp only
      split
      · exact pinv_addMessage now _ t se co (fun p => h p)
      · exact pinv_addMessage now _ t se co h

theorem pinv_processLine (now : DT) (f : FoldSt) (l : List Char) (h : PInv f.base) :
    PInv (processLineF now f l).base := by
  unfold processLineF
  dsimp only
  split
  · exact h
  · have h1 : PInv (if (scanLine msgPatterns (trimChars l)).1 then flushIfOpen now f else f).base := by
      split
      · exact pinv_flush now f h
      · exact h
    split
    · exact fun p => h1 p
    · split
      · exact fun p => h1 p
      · exact fun p => h1 p

theorem pinv_processLines (now : DT) (f : FoldSt) (lines : List (List Char))
    (h : PInv f.base) : PInv (processLinesF now f lines).base := by
  induction lines generalizing f with
  | nil => exact h
  | cons l ls ih => exact ih _ (pinv_processLine now f l h)

/-- Claim C9.  The participant set equals the set of senders of the stored
messages: it holds of the freshly initialized store, it is preserved by every
single line step (hence at every point during parsing), by the whole line
loop, and by a complete parse including the final flush. -/
theorem c9_participants_inv :
    PInv initState ∧
    (∀ (now : DT) (f : FoldSt) (l : List Char), PInv f.base → PInv (processLineF now f l).base) ∧
    (∀ (now : DT) (f : FoldSt) (lines : List (List Char)),
      PInv f.base → PInv (processLinesF now f lines).base) ∧
    (∀ (now : DT) (st : AState) (lines : List (List Char)),
      PInv st → PInv (parseLines now st lines)) := by
  refine ⟨fun p => by simp [initState, AState.mk], pinv_processLine, pinv_processLines,
    fun now st lines h => ?_⟩
  unfold parseLines parseFold
  dsimp only
  exact fun p =>
    pinv_flush now _
      (pinv_processLines now
        ⟨{ st with stats := { st.stats with total := lines.length } }, none, 0, 0⟩ lines
        (fun q => h q)) p

/-- Witness for C9: the invariant holds after parsing a concrete two-line
transcript from the fresh store. -/
theorem c9_witness :
    PInv (parseLines probeA initState
      (linesOf ("25/10/2023 09:15 - Ann: Hi\n25/10/2023 09:17 - Bob: Hi Ann"))) :=
  c9_participants_inv.2.2.2 probeA initState _
    (c9_participants_inv.1)

/-! ### Additivity of the parse over the prior store contents (C10) -/

/-- Componentwise sum of statistics records. -/
def statAdd (a b : Stats) : Stats :=
  ⟨a.total + b.total, a.parsed + b.parsed, a.skipped + b.skipped,
   a.multiline + b.multiline, a.system + b.system⟩

/-- Prepends a prior store in front of a store delta. -/
def baseAdd (a d : AState) : AState :=
  ⟨a.messages ++ d.messages, a.participants ∪ d.participants, statAdd a.stats d.stats⟩

/-- Prepends a prior store in front of a fold state. -/
def combineF (a : AState) (r : FoldSt) : FoldSt :=
  ⟨baseAdd a r.base, r.buffer, r.mcount, r.conts⟩

theorem flush_add (now : DT) (a : AState) (f : FoldSt) :
    flushIfOpen now (combineF a f) = combineF a (flushIfOpen now f) := by
  obtain ⟨b, buf, mc, ct⟩ := f
  unfold flushIfOpen combineF
  cases buf with
  | none => rfl
  | some t3 =>
      obtain ⟨t, se, co⟩ := t3
      dsimp only
      split
      · simp [addMessage, baseAdd, statAdd, List.append_assoc, Finset.union_insert,
          Nat.add_assoc]
      · simp [addMessage, baseAdd, statAdd, List.append_assoc, Finset.union_insert,
          Nat.add_assoc]

theorem processLine_add (now : DT) (a : AState) (f : FoldSt) (l : List Char) :
    processLineF now (combineF a f) l = combineF a (processLineF now f l) := by
  obtain ⟨⟨bm, bp, bs⟩, buf, mc, ct⟩ := f
  unfold processLineF
  dsimp only
  split
  · rfl
  · rcases hR : scanLine msgPatterns (trimChars l) with ⟨am, sc, op⟩
    dsimp only
    rcases buf with _ | ⟨t0, se0, co0⟩ <;> rcases op with _ | ⟨t1, se1, co1⟩ <;>
        cases am <;>
        simp only [flushIfOpen, combineF, baseAdd, statAdd, addMessage, if_true, if_false,
          Bool.false_eq_true, ite_false, ite_true] <;>
        (try split_ifs) <;>
        simp [List.append_assoc, Finset.union_insert, Nat.add_assoc, AState.mk.injEq,
          FoldSt.mk.injEq, Stats.mk.injEq]

theorem processLines_add (now : DT) (a : AState) (f : FoldSt) (lines : List (List Char)) :
    processLinesF now (combineF a f) lines = combineF a (processLinesF now f lines) := by
  induction lines generalizing f with
  | nil => rfl
  | cons l ls ih =>
      show processLinesF now (processLineF now (combineF a f) l) ls = _
      rw [processLine_add]
      exact ih (processLineF now f l)

theorem flush_total_inv (now : DT) (f : FoldSt) :
    (flushIfOpen now f).base.stats.total = f.base.stats.total := by
  unfold flushIfOpen
  cases hb : f.buffer with
  | none => rfl
  | some b =>
      obtain ⟨t, se, co⟩ := b
      dsimp only
      split <;> rfl

theorem line_total_inv (now : DT) (f : FoldSt) (l : List Char) :
    (processLineF now f l).base.stats.total = f.base.stats.total := by
  unfold processLineF
  dsimp only
  split
  · rfl
  · rcases hR : scanLine msgPatterns (trimChars l) with ⟨am, sc, op⟩
    dsimp only
    have h1 : (if am = true then flushIfOpen now f else f).base.stats.total
        = f.base.stats.total := by
      split
      · exact flush_total_inv now f
      · rfl
    cases op with
    | some v =>
        obtain ⟨t, se, co⟩ := v
        exact h1
    | none =>
        dsimp only
        split
        · exact h1
        · exact h1

theorem lines_total_inv (now : DT) (f : FoldSt) (lines : List (List Char)) :
    (processLinesF now f lines).base.stats.total = f.base.stats.total := by
  induction lines generalizing f with
  | nil => rfl
  | cons l ls ih => exact (ih (processLineF now f l)).trans (line_total_inv now f l)

theorem parseFold_decomp (now : DT) (st : AState) (lines : List (List Char)) :
    parseFold now st lines
      = combineF ⟨st.messages, st.participants,
          ⟨0, st.stats.parsed, st.stats.skipped, st.stats.multiline, st.stats.system⟩⟩
          (parseFold now initState lines) := by
  unfold parseFold
  dsimp only
  rw [← flush_add, ← processLines_add]
  have hstart : (⟨{ st with stats := { st.stats with total := lines.length } }, none, 0, 0⟩ : FoldSt)
      = combineF ⟨st.messages, st.participants,
          ⟨0, st.stats.parsed, st.stats.skipped, st.stats.multiline, st.stats.system⟩⟩
          ⟨{ initState with stats := { initState.stats with total := lines.length } }, none, 0, 0⟩ := by
    simp [combineF, baseAdd, statAdd, initState]
  rw [hstart]

/-- Claim C10.  A parse call on a store that already holds data accumulates:
the resulting message sequence is the prior sequence followed by exactly the
messages a fresh parse of the same lines would produce, the participant set
is the union of prior and fresh participants, parsed_messages afterwards
equals the cumulative number of stored messages, total_lines is overwritten
with the line count of only the most recent transcript, and skipped_lines,
multiline_messages and system_messages accumulate on top of their prior
values by the fresh parse's deltas. -/
theorem c10_accumulate (now : DT) (st : AState) (lines : List (List Char)) :
    (parseLines now st lines).messages
        = st.messages ++ (parseLines now initState lines).messages ∧
    (parseLines now st lines).participants
        = st.participants ∪ (parseLines now initState lines).participants ∧
    (parseLines now st lines).stats.parsed = (parseLines now st lines).messages.length ∧
    (parseLines now st lines).stats.total = lines.length ∧
    (parseLines now st lines).stats.skipped
        = st.stats.skipped + (parseLines now initState lines).stats.skipped ∧
    (parseLines now st lines).stats.multiline
        = st.stats.multiline + (parseLines now initState lines).stats.multiline ∧
    (parseLines now st lines).stats.system
        = st.stats.system + (parseLines now initState lines).stats.system := by
  have hd := parseFold_decomp now st lines
  have htot : (parseFold now initState lines).base.stats.total = lines.length := by
    unfold parseFold
    rw [flush_total_inv, lines_total_inv]
  constructor
  · show (parseFold now st lines).base.messages = _
    rw [hd]; rfl
  constructor
  · show (parseFold now st lines).base.participants = _
    rw [hd]; rfl
  constructor
  · rfl
  constructor
  · show (parseFold now st lines).base.stats.total = _
    rw [hd]
    show 0 + (parseFold now initState lines).base.stats.total = _
    rw [htot]; omega
  constructor
  · show (parseFold now st lines).base.stats.skipped = _
    rw [hd]; rfl
  constructor
  · show (parseFold now st lines).base.stats.multiline = _
    rw [hd]; rfl
  · show (parseFold now st lines).base.stats.system = _
    rw [hd]; rfl

/-! ### The line-accounting identity (C8) -/

/-- The number of lines that survive the empty-line skip (non-empty after
trimming). -/
def countNE (lines : List (List Char)) : Nat :=
  (lines.filter (fun l => !(trimChars l).isEmpty)).length

/-- One if a buffer is open, zero otherwise. -/
def bufN : Option (List Char × List Char × List Char) → Nat
  | none => 0
  | some _ => 1

theorem scanLine_false_shape (ps : List Rx) (l : List Char)
    (h : (scanLine ps l).1 = false) : scanLine ps l = (false, 0, none) := by
  induction ps with
  | nil => rfl
  | cons p ps ih =>
      unfold scanLine at h ⊢
      cases hm : reMatch p l with
      | none =>
          rw [hm] at h
          dsimp only at h ⊢
          exact ih h
      | some v =>
          obtain ⟨t, se, co⟩ := v
          rw [hm] at h
          dsimp only at h ⊢
          split_ifs at h ⊢ <;> simp_all

theorem count_line_inv (now : DT) (f : FoldSt) (l : List Char) :
    (processLineF now f l).base.messages.length + bufN (processLineF now f l).buffer
      + (processLineF now f l).base.stats.skipped + (processLineF now f l).conts
    = f.base.messages.length + bufN f.buffer + f.base.stats.skipped + f.conts
      + (if (trimChars l).isEmpty then 0 else 1) := by
  obtain ⟨⟨bm, bp, bs⟩, buf, mc, ct⟩ := f
  unfold processLineF
  dsimp only
  split
  · next h => simp [h]
  · next h =>
      have hE : (trimChars l).isEmpty = false := by
        simpa [List.isEmpty_iff] using h
      rw [hE]
      have hsh := scanLine_false_shape msgPatterns (trimChars l)
      rcases hR : scanLine msgPatterns (trimChars l) with ⟨am, sc, op⟩
      rw [hR] at hsh
      dsimp only
      cases am with
      | false =>
          obtain ⟨hsc, hop⟩ : sc = 0 ∧ op = none := by
            have h0 := hsh rfl
            refine ⟨?_, ?_⟩ <;> injection h0 with h1 h2 <;> injection h2 with h3 h4 <;>
              assumption
          subst hsc hop
          rcases buf with _ | ⟨t0, se0, co0⟩ <;>
            simp [flushIfOpen, addMessage, bufN, List.length_append] <;> omega
      | true =>
          rcases buf with _ | ⟨t0, se0, co0⟩ <;> rcases op with _ | ⟨t1, se1, co1⟩ <;>
              simp only [flushIfOpen, combineF, baseAdd, statAdd, addMessage, if_true, if_false,
                Bool.false_eq_true, ite_false, ite_true] <;>
              (try split_ifs) <;>
              simp [bufN, List.length_append] <;>
              omega

theorem count_lines_inv (now : DT) (f : FoldSt) (lines : List (List Char)) :
    (processLinesF now f lines).base.messages.length
      + bufN (processLinesF now f lines).buffer
      + (processLinesF now f lines).base.stats.skipped + (processLinesF now f lines).conts
    = f.base.messages.length + bufN f.buffer + f.base.stats.skipped + f.conts
      + countNE lines := by
  induction lines generalizing f with
  | nil => simp [countNE, processLinesF]
  | cons l ls ih =>
      have hstep : processLinesF now f (l :: ls) = processLinesF now (processLineF now f l) ls :=
        rfl
      rw [hstep, ih (processLineF now f l), count_line_inv now f l]
      have hcne : countNE (l :: ls) = (if (trimChars l).isEmpty then 0 else 1) + countNE ls := by
        unfold countNE
        rcases hE : (trimChars l).isEmpty with _ | _ <;> simp [List.filter, hE] <;> omega
      rw [hcne]
      omega

theorem flush_msgs_count (now : DT) (f : FoldSt) :
    (flushIfOpen now f).base.messages.length = f.base.messages.length + bufN f.buffer ∧
    (flushIfOpen now f).buffer = none ∧
    (flushIfOpen now f).base.stats.skipped = f.base.stats.skipped ∧
    (flushIfOpen now f).conts = f.conts := by
  unfold flushIfOpen
  cases hb : f.buffer with
  | none => exact ⟨rfl, hb, rfl, rfl⟩
  | some b =>
      obtain ⟨t, se, co⟩ := b
      dsimp only
      split <;> simp [addMessage, bufN]

theorem flush_msgsR (now : DT) (f : FoldStR) :
    (flushIfOpenR now f).base.messages.length + (flushIfOpenR now f).dropped
      = f.base.messages.length + f.dropped + bufN f.buffer ∧
    (flushIfOpenR now f).buffer = none ∧
    (flushIfOpenR now f).base.stats.skipped = f.base.stats.skipped ∧
    (flushIfOpenR now f).conts = f.conts := by
  unfold flushIfOpenR
  cases hb : f.buffer with
  | none => exact ⟨rfl, hb, rfl, rfl⟩
  | some b =>
      obtain ⟨t, se, co⟩ := b
      dsimp only
      cases hm : mkMsgR now t se co <;>
        split <;> simp [addMessageR, hm, bufN, List.length_append] <;> omega

theorem count_line_invR (now : DT) (f : FoldStR) (l : List Char) :
    (processLineR now f l).base.messages.length + (processLineR now f l).dropped
      + bufN (processLineR now f l).buffer
      + (processLineR now f l).base.stats.skipped + (processLineR now f l).conts
    = f.base.messages.length + f.dropped + bufN f.buffer
      + f.base.stats.skipped + f.conts
      + (if (trimChars l).isEmpty then 0 else 1) := by
  obtain ⟨⟨bm, bp, bs⟩, buf, mc, ct, dr⟩ := f
  unfold processLineR
  dsimp only
  split
  · next h => simp [h]
  · next h =>
      have hE : (trimChars l).isEmpty = false := by
        simpa [List.isEmpty_iff] using h
      rw [hE]
      have hsh := scanLine_false_shape msgPatterns (trimChars l)
      rcases hR : scanLine msgPatterns (trimChars l) with ⟨am, sc, op⟩
      rw [hR] at hsh
      dsimp only
      cases am with
      | false =>
          obtain ⟨hsc, hop⟩ : sc = 0 ∧ op = none := by
            have h0 := hsh rfl
            refine ⟨?_, ?_⟩ <;> injection h0 with h1 h2 <;> injection h2 with h3 h4 <;>
              assumption
          subst hsc hop
          rcases buf with _ | ⟨t0, se0, co0⟩ <;>
            simp [flushIfOpenR, addMessageR, bufN, List.length_append] <;> omega
      | true =>
          rcases buf with _ | ⟨t0, se0, co0⟩
          · rcases op with _ | ⟨t1, se1, co1⟩ <;>
              simp only [flushIfOpenR, addMessageR, if_true, if_false,
                Bool.false_eq_true, ite_false, ite_true] <;>
              (try split_ifs) <;>
              simp [bufN, List.length_append] <;>
              omega
          · rcases op with _ | ⟨t1, se1, co1⟩ <;>
              cases hm : mkMsgR now t0 se0 co0 <;>
              (try simp [flushIfOpenR, addMessageR, hm, bufN, List.length_append]) <;>
              (try split_ifs) <;>
              (try simp [bufN, List.length_append]) <;>
              omega

theorem count_lines_invR (now : DT) (f : FoldStR) (lines : List (List Char)) :
    (processLinesR now f lines).base.messages.length
      + (processLinesR now f lines).dropped
      + bufN (processLinesR now f lines).buffer
      + (processLinesR now f lines).base.stats.skipped + (processLinesR now f lines).conts
    = f.base.messages.length + f.dropped + bufN f.buffer
      + f.base.stats.skipped + f.conts
      + countNE lines := by
  induction lines generalizing f with
  | nil => simp [countNE, processLinesR]
  | cons l ls ih =>
      have hstep : processLinesR now f (l :: ls) = processLinesR now (processLineR now f l) ls :=
        rfl
      rw [hstep, ih (processLineR now f l), count_line_invR now f l]
      have hcne : countNE (l :: ls) = (if (trimChars l).isEmpty then 0 else 1) + countNE ls := by
        unfold countNE
        rcases hE : (trimChars l).isEmpty with _ | _ <;> simp [List.filter, hE] <;> omega
      rw [hcne]
      omega

/-- Claim C8 (amended).  Over the refined model with the exception path of
_add_message, every non-empty (after trimming) line of a fresh parse is
accounted exactly once as a stored message, a message dropped by the
except-Exception branch (timestamp field overflow), a merged continuation,
or a skipped line: the number of non-empty lines equals parsed_messages plus
skipped_lines plus the continuation merges plus the dropped messages.  (The
claimed identity with system_messages in the sum is refuted by the
counterexample below: system lines are counted under skipped_lines, while
system_messages counts matching line/pattern pairs.) -/
theorem c8_accounting (now : DT) (lines : List (List Char)) :
    countNE lines
      = (parseLinesR now initState lines).stats.parsed
        + (parseLinesR now initState lines).stats.skipped
        + (parseFoldR now initState lines).conts
        + (parseFoldR now initState lines).dropped := by
  have hF := count_lines_invR now ⟨⟨[], ∅, ⟨lines.length, 0, 0, 0, 0⟩⟩, none, 0, 0, 0⟩ lines
  have hfl := flush_msgsR now
    (processLinesR now ⟨⟨[], ∅, ⟨lines.length, 0, 0, 0, 0⟩⟩, none, 0, 0, 0⟩ lines)
  have h1 : (parseLinesR now initState lines).stats.parsed
      = (parseFoldR now initState lines).base.messages.length := rfl
  have h2 : (parseLinesR now initState lines).stats.skipped
      = (parseFoldR now initState lines).base.stats.skipped := rfl
  have hPF : parseFoldR now initState lines
      = flushIfOpenR now
          (processLinesR now ⟨⟨[], ∅, ⟨lines.length, 0, 0, 0, 0⟩⟩, none, 0, 0, 0⟩ lines) := rfl
  rw [h1, h2, hPF, hfl.2.2.1, hfl.2.2.2]
  have hfl1 := hfl.1
  dsimp only at hF
  simp only [List.length_nil, bufN] at hF hfl1 ⊢
  omega

/-- Counterexample for C8 as stated: for the transcript consisting of a
single media-placeholder line, there is one non-empty line, but
parsed_messages + skipped_lines + system_messages (plus the zero continuation
merges) is four, because the system check counts once per matching pattern
and the line is additionally skipped. -/
theorem c8_counterexample :
    countNE (linesOf ("25/10/2023 09:15 - Ann: <Media omitted>")) = 1 ∧
    countNE (linesOf ("25/10/2023 09:15 - Ann: <Media omitted>"))
      ≠ (parseChat probeA initState ("25/10/2023 09:15 - Ann: <Media omitted>")).stats.parsed
        + (parseChat probeA initState ("25/10/2023 09:15 - Ann: <Media omitted>")).stats.skipped
        + (parseChat probeA initState ("25/10/2023 09:15 - Ann: <Media omitted>")).stats.system
        + (parseFold probeA initState
            (linesOf ("25/10/2023 09:15 - Ann: <Media omitted>"))).conts := by
  refine ⟨by decide, by decide⟩

/-! ### Continuation merging (C5) -/

/-- Space-joined appending of continuation lines onto buffered content, in
order. -/
def joinSp (co : List Char) (ls : List (List Char)) : List Char :=
  ls.foldl (fun acc l => acc ++ ' ' :: l) co

theorem scanLine_nomatch (ps : List Rx) (l : List Char)
    (h : ∀ p ∈ ps, reMatch p l = none) : scanLine ps l = (false, 0, none) := by
  induction ps with
  | nil => rfl
  | cons p ps ih =>
      unfold scanLine
      rw [h p (List.mem_cons_self p ps)]
      exact ih (fun q hq => h q (List.mem_cons_of_mem p hq))

theorem processLine_cont (now : DT) (b : AState) (t se co : List Char) (mc ct : Nat)
    (l : List Char) (hne : trimChars l ≠ [])
    (hnm : scanLine msgPatterns (trimChars l) = (false, 0, none)) :
    processLineF now ⟨b, some (t, se, co), mc, ct⟩ l
      = ⟨b, some (t, se, co ++ ' ' :: trimChars l), mc + 1, ct + 1⟩ := by
  unfold processLineF
  dsimp only
  rw [if_neg hne, hnm]
  rfl

theorem processLine_open0 (now : DT) (b : AState) (ct : Nat) (l t se co : List Char)
    (hne : trimChars l ≠ [])
    (hs : scanLine msgPatterns (trimChars l) = (true, 0, some (t, se, co))) :
    processLineF now ⟨b, none, 0, ct⟩ l = ⟨b, some (t, se, co), 0, ct⟩ := by
  unfold processLineF
  dsimp only
  rw [if_neg hne, hs]
  rfl

theorem cont_block (now : DT) (b : AState) (t se co : List Char) (mc ct : Nat)
    (ls : List (List Char))
    (h : ∀ l ∈ ls, trimChars l ≠ [] ∧ scanLine msgPatterns (trimChars l) = (false, 0, none)) :
    processLinesF now ⟨b, some (t, se, co), mc, ct⟩ ls
      = ⟨b, some (t, se, joinSp co (ls.map trimChars)), mc + ls.length, ct + ls.length⟩ := by
  induction ls generalizing co mc ct with
  | nil => rfl
  | cons l ls ih =>
      have h1 := h l (List.mem_cons_self l ls)
      have hstep : processLinesF now ⟨b, some (t, se, co), mc, ct⟩ (l :: ls)
          = processLinesF now (processLineF now ⟨b, some (t, se, co), mc, ct⟩ l) ls := rfl
      rw [hstep, processLine_cont now b t se co mc ct l h1.1 h1.2,
        ih (co ++ ' ' :: trimChars l) (mc + 1) (ct + 1)
          (fun q hq => h q (List.mem_cons_of_mem l hq))]
      have hj : joinSp co (trimChars l :: ls.map trimChars)
          = joinSp (co ++ ' ' :: trimChars l) (ls.map trimChars) := rfl
      rw [show (l :: ls).map trimChars = trimChars l :: ls.map trimChars from rfl, hj]
      simp only [List.length_cons]
      congr 1 <;> first | rfl | omega

/-- Claim C5.  A well-formed message-start line (matched with non-empty,
non-system content) followed by K non-matching non-empty lines and
end-of-input yields exactly one Message whose content is the original content
with the K trimmed lines appended in order, space-joined; multiline_messages
increments by exactly one and parsed_messages is one.  In particular, the
two-line continuation scenario yields exactly the two expected messages, two
participants and multiline_messages one. -/
theorem c5_continuation_merge :
    (∀ (now : DT) (l1 : List Char) (ls : List (List Char)) (t se co : List Char),
      trimChars l1 ≠ [] →
      scanLine msgPatterns (trimChars l1) = (true, 0, some (t, se, co)) →
      (parseTimestampCore t).isSome = true →
      ls ≠ [] →
      (∀ l ∈ ls, trimChars l ≠ [] ∧ ∀ p ∈ msgPatterns, reMatch p (trimChars l) = none) →
      (parseLines now initState (l1 :: ls)).messages
          = [mkMsg now t se (joinSp co (ls.map trimChars))] ∧
      (parseLines now initState (l1 :: ls)).stats.multiline = 1 ∧
      (parseLines now initState (l1 :: ls)).stats.parsed = 1) ∧
    ((parseChat probeA initState
        ("25/10/2023 09:15 - Ann: Hi\nthere\n25/10/2023 09:17 - Bob: Hi Ann")).messages
        = [⟨⟨2023, 10, 25, 9, 15, 0⟩, ("Ann").data, ("Hi there").data, 2, 8⟩,
           ⟨⟨2023, 10, 25, 9, 17, 0⟩, ("Bob").data, ("Hi Ann").data, 2, 6⟩] ∧
     (parseChat probeA initState
        ("25/10/2023 09:15 - Ann: Hi\nthere\n25/10/2023 09:17 - Bob: Hi Ann")).participants
        = {("Ann").data, ("Bob").data} ∧
     (parseChat probeA initState
        ("25/10/2023 09:15 - Ann: Hi\nthere\n25/10/2023 09:17 - Bob: Hi Ann")).stats.multiline
        = 1) := by
  constructor
  · intro now l1 ls t se co hne1 hs1 _hres hK hc
    have hc' : ∀ l ∈ ls, trimChars l ≠ [] ∧
        scanLine msgPatterns (trimChars l) = (false, 0, none) := by
      intro l hl
      exact ⟨(hc l hl).1, scanLine_nomatch _ _ ((hc l hl).2)⟩
    have hlen : 0 < ls.length := List.length_pos.mpr hK
    have hstep1 : processLinesF now
        ⟨⟨[], ∅, ⟨(l1 :: ls).length, 0, 0, 0, 0⟩⟩, none, 0, 0⟩ (l1 :: ls)
        = processLinesF now
            ⟨⟨[], ∅, ⟨(l1 :: ls).length, 0, 0, 0, 0⟩⟩, some (t, se, co), 0, 0⟩ ls := by
      show processLinesF now
          (processLineF now ⟨⟨[], ∅, ⟨(l1 :: ls).length, 0, 0, 0, 0⟩⟩, none, 0, 0⟩ l1) ls = _
      rw [processLine_open0 now _ 0 l1 t se co hne1 hs1]
    have hblock := cont_block now ⟨[], ∅, ⟨(l1 :: ls).length, 0, 0, 0, 0⟩⟩ t se co 0 0 ls hc'
    have hflush : flushIfOpen now
        ⟨⟨[], ∅, ⟨(l1 :: ls).length, 0, 0, 0, 0⟩⟩,
          some (t, se, joinSp co (ls.map trimChars)), 0 + ls.length, 0 + ls.length⟩
        = ⟨⟨[mkMsg now t se (joinSp co (ls.map trimChars))], {se},
            ⟨(l1 :: ls).length, 0, 0, 1, 0⟩⟩, none, 0, 0 + ls.length⟩ := by
      unfold flushIfOpen
      dsimp only
      rw [if_pos (by omega)]
      simp [addMessage]
    have hPF : parseFold now initState (l1 :: ls)
        = flushIfOpen now (processLinesF now
            ⟨⟨[], ∅, ⟨(l1 :: ls).length, 0, 0, 0, 0⟩⟩, none, 0, 0⟩ (l1 :: ls)) := rfl
    have hfold : parseFold now initState (l1 :: ls)
        = ⟨⟨[mkMsg now t se (joinSp co (ls.map trimChars))], {se},
            ⟨(l1 :: ls).length, 0, 0, 1, 0⟩⟩, none, 0, 0 + ls.length⟩ := by
      rw [hPF, hstep1, hblock, hflush]
    refine ⟨?_, ?_, ?_⟩
    · show (parseFold now initState (l1 :: ls)).base.messages = _
      rw [hfold]
    · show (parseFold now initState (l1 :: ls)).base.stats.multiline = 1
      rw [hfold]
    · show (parseFold now initState (l1 :: ls)).base.messages.length = 1
      rw [hfold]
      rfl
  · refine ⟨by decide, by decide, by decide⟩

/-- Witness for C5: the general statement instantiated on the concrete
one-message-plus-one-continuation transcript. -/
theorem c5_witness :
    (parseLines probeA initState
        [("25/10/2023 09:15 - Ann: Hi").data, ("there").data]).messages
      = [mkMsg probeA (("25/10/2023 09:15").data) (("Ann").data)
          (joinSp (("Hi").data) ([("there").data].map trimChars))] ∧
    (parseLines probeA initState
        [("25/10/2023 09:15 - Ann: Hi").data, ("there").data]).stats.multiline = 1 ∧
    (parseLines probeA initState
        [("25/10/2023 09:15 - Ann: Hi").data, ("there").data]).stats.parsed = 1 :=
  c5_continuation_merge.1 probeA (("25/10/2023 09:15 - Ann: Hi").data) [("there").data]
    (("25/10/2023 09:15").data) (("Ann").data) (("Hi").data)
    (by decide) (by decide) (by decide) (by decide) (by decide)

/-! ### The strftime model and the round-trip infrastructure (C4) -/

/-- strftime rendering of one directive, per the C library behavior Python
delegates to: two-digit zero-padded numeric fields, a four-digit year (the
claims range keeps years at four digits), the 12-hour field mapping hour 0
and hour 12 to 12, and an uppercase meridiem marker. -/
def renderDir (dt : DT) : Dir → List Char
  | Dir.lit c => [c]
  | Dir.ws => [' ']
  | Dir.dd => pad2 dt.day
  | Dir.dm => pad2 dt.month
  | Dir.dy => pad2 (dt.year % 100)
  | Dir.dY => pad4 dt.year
  | Dir.dH => pad2 dt.hour
  | Dir.dI => pad2 (if dt.hour % 12 = 0 then 12 else dt.hour % 12)
  | Dir.dM => pad2 dt.minute
  | Dir.dS => pad2 dt.second
  | Dir.dp => if dt.hour < 12 then ['A', 'M'] else ['P', 'M']

/-- strftime rendering of a whole format. -/
def render (f : List Dir) (dt : DT) : List Char :=
  f.foldr (fun d acc => renderDir dt d ++ acc) []

/-- The datetime values Python datetime can hold (the constructor's ranges). -/
def validPy (dt : DT) : Prop :=
  1 ≤ dt.year ∧ dt.year ≤ 9999 ∧ 1 ≤ dt.month ∧ dt.month ≤ 12 ∧
  1 ≤ dt.day ∧ dt.day ≤ daysInMonth dt.year dt.month ∧
  dt.hour ≤ 23 ∧ dt.minute ≤ 59 ∧ dt.second ≤ 59

/-- The date-times faithfully representable in a layout: valid values whose
year the layout's year field can reproduce (1969..2068 for two-digit years,
four-digit 1000..9999 otherwise) and whose seconds are zero when the layout
has no seconds field. -/
def Rep (f : List Dir) (dt : DT) : Prop :=
  validPy dt ∧
  (if Dir.dy ∈ f then 1969 ≤ dt.year ∧ dt.year ≤ 2068
   else 1000 ≤ dt.year ∧ dt.year ≤ 9999) ∧
  (Dir.dS ∈ f ∨ dt.second = 0)

theorem dval_digitChar (n : Nat) : dval (digitChar (n % 10)) = n % 10 := by
  have h : n % 10 < 10 := Nat.mod_lt _ (by omega)
  unfold dval digitChar
  interval_cases h' : n % 10 <;> decide

theorem isDigit_digitChar (n : Nat) : (digitChar (n % 10)).isDigit = true := by
  have h : n % 10 < 10 := Nat.mod_lt _ (by omega)
  unfold digitChar
  interval_cases h' : n % 10 <;> decide

theorem not_ws_digitChar (n : Nat) : isWsChar (digitChar (n % 10)) = false := by
  have h : n % 10 < 10 := Nat.mod_lt _ (by omega)
  unfold isWsChar digitChar
  interval_cases h' : n % 10 <;> decide

theorem digitChar_ne_of_not_digit (n : Nat) (c : Char) (hc : c.isDigit = false) :
    digitChar (n % 10) ≠ c := by
  intro h
  rw [← h] at hc
  rw [isDigit_digitChar] at hc
  exact Bool.noConfusion hc

/-- The head digit of a two-digit pad. -/
theorem pad2_eq (v : Nat) : pad2 v = digitChar (v / 10 % 10) :: [digitChar (v % 10)] := rfl

theorem opt_match_eta {α β : Type} (o : Option α) (f : α → Option β) :
    (match o with
     | some r => some ((fun x => x) r)
     | none => none) = o.map (fun x => x) := by
  cases o <;> rfl

theorem numAlts_pad2 (lo hi : Nat) (one2lo : Option Nat) (v : Nat) (hv : v < 100)
    (s : List Char) :
    numAlts lo hi one2lo (pad2 v ++ s)
      = (if lo ≤ v ∧ v ≤ hi then [(v, s)] else [])
        ++ (match one2lo with
            | some m1 => if m1 ≤ v / 10 then [(v / 10, digitChar (v % 10) :: s)] else []
            | none => []) := by
  have h1 : v / 10 % 10 = v / 10 := Nat.mod_eq_of_lt (by omega)
  have h2 : dval (digitChar (v / 10 % 10)) = v / 10 := by rw [dval_digitChar, h1]
  have h3 : dval (digitChar (v % 10)) = v % 10 := dval_digitChar v
  have h4 : 10 * (v / 10) + v % 10 = v := by omega
  rw [pad2_eq]
  simp only [List.cons_append, List.nil_append]
  unfold numAlts
  dsimp only
  rw [h2, h3, isDigit_digitChar, isDigit_digitChar]
  simp only [true_and, h4]

theorem runDirs_dd_eq (ds : List Dir) (a : Assign) (s : List Char) :
    runDirs (Dir.dd :: ds) a s
      = (numAlts 1 31 (some 1) s).foldr
          (fun p acc =>
            match runDirs ds { a with aDay := some p.1 } p.2 with
            | some r => some r
            | none => acc) none := rfl

theorem runDirs_dd_pad (ds : List Dir) (a : Assign) (v : Nat) (s : List Char)
    (hv : v < 100)
    (hkill : ∀ a' : Assign, runDirs ds a' (digitChar (v % 10) :: s) = none) :
    runDirs (Dir.dd :: ds) a (pad2 v ++ s)
      = if 1 ≤ v ∧ v ≤ 31 then runDirs ds { a with aDay := some v } s else none := by
  rw [runDirs_dd_eq, numAlts_pad2 1 31 (some 1) v hv s]
  by_cases hin : 1 ≤ v ∧ v ≤ 31 <;> by_cases h1d : 1 ≤ v / 10 <;>
      simp only [hin, h1d, if_true, if_false, ite_true, ite_false, iff_true, eq_self_iff_true,
        List.cons_append, List.nil_append, List.append_nil, List.foldr_cons, List.foldr_nil,
        hkill] <;>
      (try rfl) <;>
      (cases hr : runDirs ds { a with aDay := some v } s <;> simp [hr, hkill])

theorem runDirs_dm_eq (ds : List Dir) (a : Assign) (s : List Char) :
    runDirs (Dir.dm :: ds) a s
      = (numAlts 1 12 (some 1) s).foldr
          (fun p acc =>
            match runDirs ds { a with aMonth := some p.1 } p.2 with
            | some r => some r
            | none => acc) none := rfl

theorem runDirs_dm_pad (ds : List Dir) (a : Assign) (v : Nat) (s : List Char)
    (hv : v < 100)
    (hkill : ∀ a' : Assign, runDirs ds a' (digitChar (v % 10) :: s) = none) :
    runDirs (Dir.dm :: ds) a (pad2 v ++ s)
      = if 1 ≤ v ∧ v ≤ 12 then runDirs ds { a with aMonth := some v } s else none := by
  rw [runDirs_dm_eq, numAlts_pad2 1 12 (some 1) v hv s]
  by_cases hin : 1 ≤ v ∧ v ≤ 12 <;> by_cases h1d : 1 ≤ v / 10 <;>
      simp only [hin, h1d, if_true, if_false, ite_true, ite_false, iff_true, eq_self_iff_true,
        List.cons_append, List.nil_append, List.append_nil, List.foldr_cons, List.foldr_nil,
        hkill] <;>
      (try rfl) <;>
      (cases hr : runDirs ds { a with aMonth := some v } s <;> simp [hr, hkill])

theorem runDirs_dH_eq (ds : List Dir) (a : Assign) (s : List Char) :
    runDirs (Dir.dH :: ds) a s
      = (numAlts 0 23 (some 0) s).foldr
          (fun p acc =>
            match runDirs ds { a with aH := some p.1 } p.2 with
            | some r => some r
            | none => acc) none := rfl

theorem runDirs_dH_pad (ds : List Dir) (a : Assign) (v : Nat) (s : List Char)
    (hv : v < 100)
    (hkill : ∀ a' : Assign, runDirs ds a' (digitChar (v % 10) :: s) = none) :
    runDirs (Dir.dH :: ds) a (pad2 v ++ s)
      = if 0 ≤ v ∧ v ≤ 23 then runDirs ds { a with aH := some v } s else none := by
  rw [runDirs_dH_eq, numAlts_pad2 0 23 (some 0) v hv s]
  by_cases hin : 0 ≤ v ∧ v ≤ 23 <;> by_cases h1d : 0 ≤ v / 10 <;>
      simp only [hin, h1d, if_true, if_false, ite_true, ite_false, iff_true, eq_self_iff_true,
        List.cons_append, List.nil_append, List.append_nil, List.foldr_cons, List.foldr_nil,
        hkill] <;>
      (try rfl) <;>
      (cases hr : runDirs ds { a with aH := some v } s <;> simp [hr, hkill])

theorem runDirs_dI_eq (ds : List Dir) (a : Assign) (s : List Char) :
    runDirs (Dir.dI :: ds) a s
      = (numAlts 1 12 (some 1) s).foldr
          (fun p acc =>
            match runDirs ds { a with aI := some p.1 } p.2 with
            | some r => some r
            | none => acc) none := rfl

theorem runDirs_dI_pad (ds : List Dir) (a : Assign) (v : Nat) (s : List Char)
    (hv : v < 100)
    (hkill : ∀ a' : Assign, runDirs ds a' (digitChar (v % 10) :: s) = none) :
    runDirs (Dir.dI :: ds) a (pad2 v ++ s)
      = if 1 ≤ v ∧ v ≤ 12 then runDirs ds { a with aI := some v } s else none := by
  rw [runDirs_dI_eq, numAlts_pad2 1 12 (some 1) v hv s]
  by_cases hin : 1 ≤ v ∧ v ≤ 12 <;> by_cases h1d : 1 ≤ v / 10 <;>
      simp only [hin, h1d, if_true, if_false, ite_true, ite_false, iff_true, eq_self_iff_true,
        List.cons_append, List.nil_append, List.append_nil, List.foldr_cons, List.foldr_nil,
        hkill] <;>
      (try rfl) <;>
      (cases hr : runDirs ds { a with aI := some v } s <;> simp [hr, hkill])

theorem runDirs_dM_eq (ds : List Dir) (a : Assign) (s : List Char) :
    runDirs (Dir.dM :: ds) a s
      = (numAlts 0 59 (some 0) s).foldr
          (fun p acc =>
            match runDirs ds { a with aMin := some p.1 } p.2 with
            | some r => some r
            | none => acc) none := rfl

theorem runDirs_dM_pad (ds : List Dir) (a : Assign) (v : Nat) (s : List Char)
    (hv : v < 100)
    (hkill : ∀ a' : Assign, runDirs ds a' (digitChar (v % 10) :: s) = none) :
    runDirs (Dir.dM :: ds) a (pad2 v ++ s)
      = if 0 ≤ v ∧ v ≤ 59 then runDirs ds { a with aMin := some v } s else none := by
  rw [runDirs_dM_eq, numAlts_pad2 0 59 (some 0) v hv s]
  by_cases hin : 0 ≤ v ∧ v ≤ 59 <;> by_cases h1d : 0 ≤ v / 10 <;>
      simp only [hin, h1d, if_true, if_false, ite_true, ite_false, iff_true, eq_self_iff_true,
        List.cons_append, List.nil_append, List.append_nil, List.foldr_cons, List.foldr_nil,
        hkill] <;>
      (try rfl) <;>
      (cases hr : runDirs ds { a with aMin := some v } s <;> simp [hr, hkill])

theorem runDirs_dS_eq (ds : List Dir) (a : Assign) (s : List Char) :
    runDirs (Dir.dS :: ds) a s
      = (numAlts 0 61 (some 0) s).foldr
          (fun p acc =>
            match runDirs ds { a with aSec := some p.1 } p.2 with
            | some r => some r
            | none => acc) none := rfl

theorem runDirs_dS_pad (ds : List Dir) (a : Assign) (v : Nat) (s : List Char)
    (hv : v < 100)
    (hkill : ∀ a' : Assign, runDirs ds a' (digitChar (v % 10) :: s) = none) :
    runDirs (Dir.dS :: ds) a (pad2 v ++ s)
      = if 0 ≤ v ∧ v ≤ 61 then runDirs ds { a with aSec := some v } s else none := by
  rw [runDirs_dS_eq, numAlts_pad2 0 61 (some 0) v hv s]
  by_cases hin : 0 ≤ v ∧ v ≤ 61 <;> by_cases h1d : 0 ≤ v / 10 <;>
      simp only [hin, h1d, if_true, if_false, ite_true, ite_false, iff_true, eq_self_iff_true,
        List.cons_append, List.nil_append, List.append_nil, List.foldr_cons, List.foldr_nil,
        hkill] <;>
      (try rfl) <;>
      (cases hr : runDirs ds { a with aSec := some v } s <;> simp [hr, hkill])

theorem runDirs_dy_eq (ds : List Dir) (a : Assign) (s : List Char) :
    runDirs (Dir.dy :: ds) a s
      = (numAlts 0 99 none s).foldr
          (fun p acc =>
            match runDirs ds { a with aY2 := some p.1 } p.2 with
            | some r => some r
            | none => acc) none := rfl

theorem runDirs_dy_pad (ds : List Dir) (a : Assign) (v : Nat) (s : List Char)
    (hv : v < 100) :
    runDirs (Dir.dy :: ds) a (pad2 v ++ s) = runDirs ds { a with aY2 := some v } s := by
  rw [runDirs_dy_eq, numAlts_pad2 0 99 none v hv s]
  simp only [if_pos (by omega : 0 ≤ v ∧ v ≤ 99), List.append_nil, List.foldr_cons,
    List.foldr_nil]
  cases hr : runDirs ds { a with aY2 := some v } s <;> simp [hr]

theorem runDirs_nil_eq (a : Assign) (s : List Char) : runDirs [] a s = some (a, s) := rfl

theorem runDirs_lit_cons (ds : List Dir) (a : Assign) (c x : Char) (s : List Char) :
    runDirs (Dir.lit c :: ds) a (x :: s)
      = if x = c then runDirs ds a s else none := rfl

theorem runDirs_lit_eq (ds : List Dir) (a : Assign) (c : Char) (s : List Char) :
    runDirs (Dir.lit c :: ds) a (c :: s) = runDirs ds a s := by
  rw [runDirs_lit_cons, if_pos rfl]

theorem runDirs_lit_ne (ds : List Dir) (a : Assign) (c x : Char) (s : List Char)
    (h : x ≠ c) : runDirs (Dir.lit c :: ds) a (x :: s) = none := by
  rw [runDirs_lit_cons, if_neg h]

theorem runDirs_lit_nil (ds : List Dir) (a : Assign) (c : Char) :
    runDirs (Dir.lit c :: ds) a [] = none := rfl

theorem runDirs_ws_eq (ds : List Dir) (a : Assign) (s : List Char) :
    runDirs (Dir.ws :: ds) a s
      = ((List.range (wsCount s)).map (fun i => wsCount s - i)).foldr
          (fun n acc =>
            match runDirs ds a (s.drop n) with
            | some r => some r
            | none => acc) none := rfl

theorem wsCount_not (c : Char) (t : List Char) (h : isWsChar c = false) :
    wsCount (c :: t) = 0 := by
  unfold wsCount
  rw [h]
  rfl

theorem wsCount_nil : wsCount [] = 0 := rfl

theorem runDirs_ws_single (ds : List Dir) (a : Assign) (t : List Char)
    (h : wsCount t = 0) : runDirs (Dir.ws :: ds) a (' ' :: t) = runDirs ds a t := by
  rw [runDirs_ws_eq]
  have h1 : wsCount (' ' :: t) = 1 := by
    unfold wsCount
    rw [h]
    rfl
  rw [h1]
  have h2 : (List.range 1).map (fun i => 1 - i) = [1] := rfl
  rw [h2]
  simp only [List.foldr_cons, List.foldr_nil]
  cases hr : runDirs ds a t <;> simp [hr, List.drop]

theorem runDirs_ws_none (ds : List Dir) (a : Assign) (x : Char) (t : List Char)
    (h : isWsChar x = false) : runDirs (Dir.ws :: ds) a (x :: t) = none := by
  rw [runDirs_ws_eq, wsCount_not x t h]
  rfl

theorem runDirs_ws_nil (ds : List Dir) (a : Assign) :
    runDirs (Dir.ws :: ds) a [] = none := rfl

theorem runDirs_dY_eq (ds : List Dir) (a : Assign) (s : List Char) :
    runDirs (Dir.dY :: ds) a s
      = match parse4 s with
        | some (v, s') => runDirs ds { a with aY4 := some v } s'
        | none => none := rfl

theorem parse4_pad4 (y : Nat) (hy : y ≤ 9999) (s : List Char) :
    parse4 (pad4 y ++ s) = some (y, s) := by
  unfold pad4
  simp only [List.cons_append, List.nil_append]
  unfold parse4
  have hval : 1000 * (y / 1000 % 10) + 100 * (y / 100 % 10) + 10 * (y / 10 % 10) + y % 10
      = y := by omega
  simp only [isDigit_digitChar, dval_digitChar, eq_self_iff_true, true_and, and_self,
    if_true, ite_true, hval]

theorem runDirs_dY_pad (ds : List Dir) (a : Assign) (y : Nat) (hy : y ≤ 9999)
    (s : List Char) :
    runDirs (Dir.dY :: ds) a (pad4 y ++ s) = runDirs ds { a with aY4 := some y } s := by
  rw [runDirs_dY_eq, parse4_pad4 y hy s]

theorem parse4_nodigit (x : Char) (s : List Char) (h : x.isDigit = false) :
    parse4 (x :: s) = none := by
  rcases s with _ | ⟨c2, _ | ⟨c3, _ | ⟨c4, t⟩⟩⟩ <;> simp [parse4, h]

theorem parse4_bad3 (c1 c2 c3 : Char) (s : List Char) (h : c3.isDigit = false) :
    parse4 (c1 :: c2 :: c3 :: s) = none := by
  rcases s with _ | ⟨c4, t⟩ <;> simp [parse4, h]

theorem runDirs_dY_none (ds : List Dir) (a : Assign) (s : List Char)
    (h : parse4 s = none) : runDirs (Dir.dY :: ds) a s = none := by
  rw [runDirs_dY_eq, h]

theorem runDirs_dp_eq (ds : List Dir) (a : Assign) (s : List Char) :
    runDirs (Dir.dp :: ds) a s
      = match ampmAlt s with
        | some (b, s') => runDirs ds { a with aPM := some b } s'
        | none => none := rfl

theorem runDirs_dp_AM (ds : List Dir) (a : Assign) (s : List Char) :
    runDirs (Dir.dp :: ds) a ('A' :: 'M' :: s)
      = runDirs ds { a with aPM := some false } s := by
  rw [runDirs_dp_eq]
  rfl

theorem runDirs_dp_PM (ds : List Dir) (a : Assign) (s : List Char) :
    runDirs (Dir.dp :: ds) a ('P' :: 'M' :: s)
      = runDirs ds { a with aPM := some true } s := by
  rw [runDirs_dp_eq]
  rfl

theorem numAlts_nodigit (lo hi : Nat) (one2lo : Option Nat) (x : Char) (s : List Char)
    (h : x.isDigit = false) : numAlts lo hi one2lo (x :: s) = [] := by
  rcases s with _ | ⟨c2, t⟩ <;> rcases one2lo with _ | m1 <;> simp [numAlts, h]

theorem runDirs_dd_nodigit (ds : List Dir) (a : Assign) (x : Char) (s : List Char)
    (h : x.isDigit = false) : runDirs (Dir.dd :: ds) a (x :: s) = none := by
  rw [runDirs_dd_eq, numAlts_nodigit _ _ _ _ _ h]
  rfl

theorem runDirs_dm_nodigit (ds : List Dir) (a : Assign) (x : Char) (s : List Char)
    (h : x.isDigit = false) : runDirs (Dir.dm :: ds) a (x :: s) = none := by
  rw [runDirs_dm_eq, numAlts_nodigit _ _ _ _ _ h]
  rfl

theorem runDirs_dY_nodigit (ds : List Dir) (a : Assign) (x : Char) (s : List Char)
    (h : x.isDigit = false) : runDirs (Dir.dY :: ds) a (x :: s) = none := by
  rw [runDirs_dY_eq, parse4_nodigit x s h]

/-- Discharges the one-digit-backtrack side condition when the next directive
is a non-digit literal. -/
theorem kill_lit (ds : List Dir) (c : Char) (hc : c.isDigit = false) (n : Nat)
    (s : List Char) :
    ∀ a' : Assign, runDirs (Dir.lit c :: ds) a' (digitChar (n % 10) :: s) = none :=
  fun a' => runDirs_lit_ne ds a' c (digitChar (n % 10)) s (digitChar_ne_of_not_digit n c hc)

/-- Discharges the one-digit-backtrack side condition when the next directive
is whitespace. -/
theorem kill_ws (ds : List Dir) (n : Nat) (s : List Char) :
    ∀ a' : Assign, runDirs (Dir.ws :: ds) a' (digitChar (n % 10) :: s) = none :=
  fun a' => runDirs_ws_none ds a' (digitChar (n % 10)) s (not_ws_digitChar n)

theorem strptimeF_of_none (f : List Dir) (s : List Char)
    (h : runDirs f {} s = none) : strptimeF f s = none := by
  unfold strptimeF
  rw [h]

theorem strptimeF_of_rest (f : List Dir) (s : List Char) (a : Assign) (c : Char)
    (r : List Char) (h : runDirs f {} s = some (a, c :: r)) : strptimeF f s = none := by
  unfold strptimeF
  rw [h]

theorem strptimeF_of_done (f : List Dir) (s : List Char) (a : Assign)
    (h : runDirs f {} s = some (a, [])) : strptimeF f s = buildDT a := by
  unfold strptimeF
  rw [h]

theorem daysInMonth_le (y m : Nat) : daysInMonth y m ≤ 31 := by
  unfold daysInMonth
  split_ifs <;> omega

theorem runDirs_dM_last (a : Assign) (v : Nat) (s : List Char) (hv : v < 100)
    (hin : v ≤ 59) :
    runDirs [Dir.dM] a (pad2 v ++ s) = some ({ a with aMin := some v }, s) := by
  rw [runDirs_dM_eq, numAlts_pad2 0 59 (some 0) v hv s]
  simp [hin, runDirs_nil_eq, List.foldr_cons,
    List.foldr_nil, List.cons_append, List.nil_append, Nat.zero_le]

theorem runDirs_dS_last (a : Assign) (v : Nat) (s : List Char) (hv : v < 100)
    (hin : v ≤ 61) :
    runDirs [Dir.dS] a (pad2 v ++ s) = some ({ a with aSec := some v }, s) := by
  rw [runDirs_dS_eq, numAlts_pad2 0 61 (some 0) v hv s]
  simp [hin, runDirs_nil_eq, List.foldr_cons,
    List.foldr_nil, List.cons_append, List.nil_append, Nat.zero_le]

theorem trimChars_of_hl (s : List Char)
    (h1 : ∃ c t, s = c :: t ∧ isWsChar c = false)
    (h2 : ∃ c t, s.reverse = c :: t ∧ isWsChar c = false) : trimChars s = s := by
  obtain ⟨c, t, hs, hc⟩ := h1
  obtain ⟨c2, t2, hrev, hc2⟩ := h2
  unfold trimChars
  rw [hs]
  rw [List.dropWhile_cons_of_neg (by simp [hc])]
  rw [← hs, hrev]
  rw [List.dropWhile_cons_of_neg (by simp [hc2])]
  rw [← hrev, List.reverse_reverse]

theorem tryFormats_cons (f : List Dir) (fs : List (List Dir)) (s : List Char) :
    tryFormats (f :: fs) s
      = match strptimeF f s with
        | some dt => some dt
        | none => tryFormats fs s := rfl

/-- Four-digit pad as an explicit list. -/
theorem pad4_eq (v : Nat) :
    pad4 v = digitChar (v / 1000 % 10) :: digitChar (v / 100 % 10)
      :: digitChar (v / 10 % 10) :: [digitChar (v % 10)] := rfl

theorem wsCount_pad2 (v : Nat) (t : List Char) : wsCount (pad2 v ++ t) = 0 := by
  rw [pad2_eq]
  exact wsCount_not _ _ (not_ws_digitChar _)

theorem wsCount_pad4 (v : Nat) (t : List Char) : wsCount (pad4 v ++ t) = 0 := by
  rw [pad4_eq]
  exact wsCount_not _ _ (not_ws_digitChar _)

theorem parseTimestampCore_eq (s : List Char) :
    parseTimestampCore s
      = match tryFormats formats (trimChars s) with
        | some dt => some dt
        | none => heuristicGuess (trimChars s) := rfl

theorem tryFormats_cons_none (f : List Dir) (fs : List (List Dir)) (s : List Char)
    (h : strptimeF f s = none) : tryFormats (f :: fs) s = tryFormats fs s := by
  rw [tryFormats_cons, h]

theorem tryFormats_cons_some (f : List Dir) (fs : List (List Dir)) (s : List Char)
    (dt : DT) (h : strptimeF f s = some dt) : tryFormats (f :: fs) s = some dt := by
  rw [tryFormats_cons, h]

theorem runDirs_lit_pad2 (ds : List Dir) (a : Assign) (c : Char) (v : Nat)
    (s : List Char) (hc : c.isDigit = false) :
    runDirs (Dir.lit c :: ds) a (pad2 v ++ s) = none := by
  rw [pad2_eq]
  exact runDirs_lit_ne _ _ _ _ _ (digitChar_ne_of_not_digit _ c hc)

theorem runDirs_lit_pad4 (ds : List Dir) (a : Assign) (c : Char) (v : Nat)
    (s : List Char) (hc : c.isDigit = false) :
    runDirs (Dir.lit c :: ds) a (pad4 v ++ s) = none := by
  rw [pad4_eq]
  exact runDirs_lit_ne _ _ _ _ _ (digitChar_ne_of_not_digit _ c hc)

theorem runDirs_ws_pad2 (ds : List Dir) (a : Assign) (v : Nat) (s : List Char) :
    runDirs (Dir.ws :: ds) a (pad2 v ++ s) = none := by
  rw [pad2_eq]
  exact runDirs_ws_none _ _ _ _ (not_ws_digitChar _)

theorem runDirs_ws_pad4 (ds : List Dir) (a : Assign) (v : Nat) (s : List Char) :
    runDirs (Dir.ws :: ds) a (pad4 v ++ s) = none := by
  rw [pad4_eq]
  exact runDirs_ws_none _ _ _ _ (not_ws_digitChar _)

theorem runDirs_dy_nodigit (ds : List Dir) (a : Assign) (x : Char) (s : List Char)
    (h : x.isDigit = false) : runDirs (Dir.dy :: ds) a (x :: s) = none := by
  rw [runDirs_dy_eq, numAlts_nodigit _ _ _ _ _ h]
  rfl

theorem runDirs_dH_nodigit (ds : List Dir) (a : Assign) (x : Char) (s : List Char)
    (h : x.isDigit = false) : runDirs (Dir.dH :: ds) a (x :: s) = none := by
  rw [runDirs_dH_eq, numAlts_nodigit _ _ _ _ _ h]
  rfl

theorem runDirs_dI_nodigit (ds : List Dir) (a : Assign) (x : Char) (s : List Char)
    (h : x.isDigit = false) : runDirs (Dir.dI :: ds) a (x :: s) = none := by
  rw [runDirs_dI_eq, numAlts_nodigit _ _ _ _ _ h]
  rfl

theorem runDirs_dM_nodigit (ds : List Dir) (a : Assign) (x : Char) (s : List Char)
    (h : x.isDigit = false) : runDirs (Dir.dM :: ds) a (x :: s) = none := by
  rw [runDirs_dM_eq, numAlts_nodigit _ _ _ _ _ h]
  rfl

theorem runDirs_dS_nodigit (ds : List Dir) (a : Assign) (x : Char) (s : List Char)
    (h : x.isDigit = false) : runDirs (Dir.dS :: ds) a (x :: s) = none := by
  rw [runDirs_dS_eq, numAlts_nodigit _ _ _ _ _ h]
  rfl

theorem numAlts_nil (lo hi : Nat) (one2lo : Option Nat) :
    numAlts lo hi one2lo [] = [] := by
  cases one2lo <;> rfl

theorem runDirs_dd_nil (ds : List Dir) (a : Assign) : runDirs (Dir.dd :: ds) a [] = none := by
  rw [runDirs_dd_eq, numAlts_nil]
  rfl

theorem runDirs_dm_nil (ds : List Dir) (a : Assign) : runDirs (Dir.dm :: ds) a [] = none := by
  rw [runDirs_dm_eq, numAlts_nil]
  rfl

theorem runDirs_dH_nil (ds : List Dir) (a : Assign) : runDirs (Dir.dH :: ds) a [] = none := by
  rw [runDirs_dH_eq, numAlts_nil]
  rfl

theorem runDirs_dI_nil (ds : List Dir) (a : Assign) : runDirs (Dir.dI :: ds) a [] = none := by
  rw [runDirs_dI_eq, numAlts_nil]
  rfl

theorem runDirs_dM_nil (ds : List Dir) (a : Assign) : runDirs (Dir.dM :: ds) a [] = none := by
  rw [runDirs_dM_eq, numAlts_nil]
  rfl

theorem runDirs_dS_nil (ds : List Dir) (a : Assign) : runDirs (Dir.dS :: ds) a [] = none := by
  rw [runDirs_dS_eq, numAlts_nil]
  rfl

theorem runDirs_dy_nil (ds : List Dir) (a : Assign) : runDirs (Dir.dy :: ds) a [] = none := by
  rw [runDirs_dy_eq, numAlts_nil]
  rfl

theorem runDirs_dY_nil (ds : List Dir) (a : Assign) : runDirs (Dir.dY :: ds) a [] = none := rfl

theorem runDirs_dp_nil (ds : List Dir) (a : Assign) : runDirs (Dir.dp :: ds) a [] = none := rfl

/-- A four-digit year render splits into two two-digit pads. -/
theorem pad4_as_pad2 (y : Nat) (s : List Char) :
    pad4 y ++ s = pad2 (y / 100) ++ (pad2 (y % 100) ++ s) := by
  have e1 : y / 100 / 10 % 10 = y / 1000 % 10 := by omega
  have e2 : y / 100 % 10 = y / 100 % 10 := rfl
  have e3 : y % 100 / 10 % 10 = y / 10 % 10 := by omega
  have e4 : y % 100 % 10 = y % 10 := by omega
  rw [pad4_eq, pad2_eq, pad2_eq, e1, e3, e4]
  rfl

theorem parse4_pad2_sep (v : Nat) (c : Char) (s : List Char) (hc : c.isDigit = false) :
    parse4 (pad2 v ++ c :: s) = none := by
  rw [pad2_eq]
  exact parse4_bad3 _ _ _ _ hc

theorem runDirs_dY_pad2_sep (ds : List Dir) (a : Assign) (v : Nat) (c : Char)
    (s : List Char) (hc : c.isDigit = false) :
    runDirs (Dir.dY :: ds) a (pad2 v ++ c :: s) = none := by
  rw [runDirs_dY_eq, parse4_pad2_sep v c s hc]

theorem parse4_pad2_nil (v : Nat) : parse4 (pad2 v ++ []) = none := by
  rw [pad2_eq]
  rfl

theorem runDirs_dY_pad2_nil (ds : List Dir) (a : Assign) (v : Nat) :
    runDirs (Dir.dY :: ds) a (pad2 v ++ []) = none := by
  rw [runDirs_dY_eq, parse4_pad2_nil]

theorem ampmAlt_none (x : Char) (s : List Char)
    (h1 : x ≠ 'A') (h2 : x ≠ 'a') (h3 : x ≠ 'P') (h4 : x ≠ 'p') :
    ampmAlt (x :: s) = none := by
  rcases s with _ | ⟨c2, t⟩
  · rfl
  · simp [ampmAlt, h1, h2, h3, h4]

theorem runDirs_dp_cons_none (ds : List Dir) (a : Assign) (x : Char) (s : List Char)
    (h1 : x ≠ 'A') (h2 : x ≠ 'a') (h3 : x ≠ 'P') (h4 : x ≠ 'p') :
    runDirs (Dir.dp :: ds) a (x :: s) = none := by
  rw [runDirs_dp_eq, ampmAlt_none x s h1 h2 h3 h4]

theorem runDirs_dp_pad2 (ds : List Dir) (a : Assign) (v : Nat) (s : List Char) :
    runDirs (Dir.dp :: ds) a (pad2 v ++ s) = none := by
  rw [pad2_eq]
  refine runDirs_dp_cons_none _ _ _ _ ?_ ?_ ?_ ?_ <;>
    exact digitChar_ne_of_not_digit _ _ (by decide)

theorem strptimeF_of_rest_ne (f : List Dir) (s : List Char) (a : Assign)
    (r : List Char) (h : runDirs f {} s = some (a, r)) (hr : r ≠ []) :
    strptimeF f s = none := by
  unfold strptimeF
  rw [h]
  cases r with
  | nil => exact absurd rfl hr
  | cons c t => rfl

theorem pad2_append_ne_nil (v : Nat) (s : List Char) : pad2 v ++ s ≠ [] := by
  rw [pad2_eq]
  simp

theorem pad4_append_ne_nil (v : Nat) (s : List Char) : pad4 v ++ s ≠ [] := by
  rw [pad4_eq]
  simp

/-- The meridiem render as a cons, independent of the branch. -/
theorem ampm_cons (P : Prop) [Decidable P] :
    (if P then ['A', 'M'] else ['P', 'M']) = (if P then 'A' else 'P') :: ['M'] := by
  split_ifs <;> rfl

/-- One-or-two-digit directive at the end of the format, on a two-digit pad
of value above its two-digit range: the one-digit branch matches and leaves
the second digit unconsumed. -/
theorem runDirs_dM_last_hi (a : Assign) (v : Nat) (s : List Char) (hv : v < 100)
    (hlo : 59 < v) :
    runDirs [Dir.dM] a (pad2 v ++ s)
      = some ({ a with aMin := some (v / 10) }, digitChar (v % 10) :: s) := by
  rw [runDirs_dM_eq, numAlts_pad2 0 59 (some 0) v hv s]
  simp [show ¬(v ≤ 59) from by omega, runDirs_nil_eq]

theorem runDirs_dS_last_hi (a : Assign) (v : Nat) (s : List Char) (hv : v < 100)
    (hlo : 61 < v) :
    runDirs [Dir.dS] a (pad2 v ++ s)
      = some ({ a with aSec := some (v / 10) }, digitChar (v % 10) :: s) := by
  rw [runDirs_dS_eq, numAlts_pad2 0 61 (some 0) v hv s]
  simp [show ¬(v ≤ 61) from by omega, runDirs_nil_eq]

theorem c4render0_eq (dt : DT) :
    render fmt0 dt
      = pad2 dt.day ++ ('/' :: (pad2 dt.month ++ ('/' :: (pad4 dt.year ++ (' ' :: (pad2 dt.hour ++ (':' :: (pad2 dt.minute ++ ([]))))))))) := rfl


theorem c4trim0 (dt : DT) : trimChars (render fmt0 dt) = render fmt0 dt := by
  apply trimChars_of_hl
  · rw [c4render0_eq]
    simp only [pad2_eq, pad4_eq, List.cons_append, List.nil_append]
    exact ⟨_, _, rfl, not_ws_digitChar _⟩
  · rw [c4render0_eq]
    simp only [ampm_cons, pad2_eq, pad4_eq, List.reverse_cons, List.reverse_append,
      List.append_assoc, List.cons_append, List.nil_append, List.reverse_nil,
      List.append_nil]
    exact ⟨_, _, rfl, not_ws_digitChar _⟩

theorem c4self0 (dt : DT) (h : Rep fmt0 dt) :
    strptimeF fmt0 (render fmt0 dt) = some dt := by
  obtain ⟨hval, hyr, hsec⟩ := h
  simp only [validPy] at hval
  obtain ⟨h1y, h2y, h1m, h2m, h1d, h2d, hH, hMi, hSs⟩ := hval
  have hyr' : 1000 ≤ dt.year ∧ dt.year ≤ 9999 := by
    rw [if_neg (by decide)] at hyr
    exact hyr
  have hd31 : dt.day ≤ 31 := le_trans h2d (daysInMonth_le _ _)
  have hsec0 : dt.second = 0 := by
    rcases hsec with hmem | h0
    · exact absurd hmem (by decide)
    · exact h0
  rw [c4render0_eq]
  have hrun : runDirs fmt0 {} (pad2 dt.day ++ ('/' :: (pad2 dt.month ++ ('/' :: (pad4 dt.year ++ (' ' :: (pad2 dt.hour ++ (':' :: (pad2 dt.minute ++ ([]))))))))))
      = some (⟨some dt.day, some dt.month, none, some dt.year, some dt.hour, none, some dt.minute, none, none⟩, []) := by
    show runDirs (Dir.dd :: [Dir.lit '/', Dir.dm, Dir.lit '/', Dir.dY, Dir.ws, Dir.dH, Dir.lit ':', Dir.dM]) {} _ = _
    rw [runDirs_dd_pad _ _ dt.day _ (by omega) (kill_lit _ '/' (by decide) _ _),
      if_pos (by omega),
      runDirs_lit_eq,
      runDirs_dm_pad _ _ dt.month _ (by omega) (kill_lit _ '/' (by decide) _ _),
      if_pos (by omega),
      runDirs_lit_eq,
      runDirs_dY_pad _ _ dt.year (by omega) _,
      runDirs_ws_single _ _ _ (wsCount_pad2 _ _),
      runDirs_dH_pad _ _ dt.hour _ (by omega) (kill_lit _ ':' (by decide) _ _),
      if_pos (by omega),
      runDirs_lit_eq,
      runDirs_dM_last _ dt.minute _ (by omega) (by omega)]
  rw [strptimeF_of_done _ _ _ hrun]
  unfold buildDT
  dsimp only
  simp only [Option.getD_some, Option.getD_none]
  rw [mkDT, if_pos (by omega)]
  rw [← hsec0]

theorem c4rt0 (dt : DT) (h : Rep fmt0 dt) :
    parseTimestampCore (render fmt0 dt) = some dt := by
  rw [parseTimestampCore_eq, c4trim0]
  simp only [formats]
  rw [tryFormats_cons_some _ _ _ _ (c4self0 dt h)]

theorem c4render1_eq (dt : DT) :
    render fmt1 dt
      = pad2 dt.day ++ ('/' :: (pad2 dt.month ++ ('/' :: (pad4 dt.year ++ (',' :: (' ' :: (pad2 dt.hour ++ (':' :: (pad2 dt.minute ++ ([])))))))))) := rfl


theorem c4trim1 (dt : DT) : trimChars (render fmt1 dt) = render fmt1 dt := by
  apply trimChars_of_hl
  · rw [c4render1_eq]
    simp only [pad2_eq, pad4_eq, List.cons_append, List.nil_append]
    exact ⟨_, _, rfl, not_ws_digitChar _⟩
  · rw [c4render1_eq]
    simp only [ampm_cons, pad2_eq, pad4_eq, List.reverse_cons, List.reverse_append,
      List.append_assoc, List.cons_append, List.nil_append, List.reverse_nil,
      List.append_nil]
    exact ⟨_, _, rfl, not_ws_digitChar _⟩

theorem c4self1 (dt : DT) (h : Rep fmt1 dt) :
    strptimeF fmt1 (render fmt1 dt) = some dt := by
  obtain ⟨hval, hyr, hsec⟩ := h
  simp only [validPy] at hval
  obtain ⟨h1y, h2y, h1m, h2m, h1d, h2d, hH, hMi, hSs⟩ := hval
  have hyr' : 1000 ≤ dt.year ∧ dt.year ≤ 9999 := by
    rw [if_neg (by decide)] at hyr
    exact hyr
  have hd31 : dt.day ≤ 31 := le_trans h2d (daysInMonth_le _ _)
  have hsec0 : dt.second = 0 := by
    rcases hsec with hmem | h0
    · exact absurd hmem (by decide)
    · exact h0
  rw [c4render1_eq]
  have hrun : runDirs fmt1 {} (pad2 dt.day ++ ('/' :: (pad2 dt.month ++ ('/' :: (pad4 dt.year ++ (',' :: (' ' :: (pad2 dt.hour ++ (':' :: (pad2 dt.minute ++ ([])))))))))))
      = some (⟨some dt.day, some dt.month, none, some dt.year, some dt.hour, none, some dt.minute, none, none⟩, []) := by
    show runDirs (Dir.dd :: [Dir.lit '/', Dir.dm, Dir.lit '/', Dir.dY, Dir.lit ',', Dir.ws, Dir.dH, Dir.lit ':', Dir.dM]) {} _ = _
    rw [runDirs_dd_pad _ _ dt.day _ (by omega) (kill_lit _ '/' (by decide) _ _),
      if_pos (by omega),
      runDirs_lit_eq,
      runDirs_dm_pad _ _ dt.month _ (by omega) (kill_lit _ '/' (by decide) _ _),
      if_pos (by omega),
      runDirs_lit_eq,
      runDirs_dY_pad _ _ dt.year (by omega) _,
      runDirs_lit_eq,
      runDirs_ws_single _ _ _ (wsCount_pad2 _ _),
      runDirs_dH_pad _ _ dt.hour _ (by omega) (kill_lit _ ':' (by decide) _ _),
      if_pos (by omega),
      runDirs_lit_eq,
      runDirs_dM_last _ dt.minute _ (by omega) (by omega)]
  rw [strptimeF_of_done _ _ _ hrun]
  unfold buildDT
  dsimp only
  simp only [Option.getD_some, Option.getD_none]
  rw [mkDT, if_pos (by omega)]
  rw [← hsec0]

theorem c4fail_0_1 (dt : DT) (h : Rep fmt1 dt) :
    strptimeF fmt0 (render fmt1 dt) = none := by
  obtain ⟨hval, hyr, hsec⟩ := h
  simp only [validPy] at hval
  obtain ⟨h1y, h2y, h1m, h2m, h1d, h2d, hH, hMi, hSs⟩ := hval
  have hyr' : 1000 ≤ dt.year ∧ dt.year ≤ 9999 := by
    rw [if_neg (by decide)] at hyr
    exact hyr
  have hd31 : dt.day ≤ 31 := le_trans h2d (daysInMonth_le _ _)
  rw [c4render1_eq]
  refine strptimeF_of_none _ _ ?_
  show runDirs (Dir.dd :: [Dir.lit '/', Dir.dm, Dir.lit '/', Dir.dY, Dir.ws, Dir.dH, Dir.lit ':', Dir.dM]) {} _ = _
  rw [runDirs_dd_pad _ _ dt.day _ (by omega) (kill_lit _ '/' (by decide) _ _),
    if_pos (by omega),
    runDirs_lit_eq,
    runDirs_dm_pad _ _ dt.month _ (by omega) (kill_lit _ '/' (by decide) _ _),
    if_pos (by omega),
    runDirs_lit_eq,
    runDirs_dY_pad _ _ dt.year (by omega) _,
    runDirs_ws_none _ _ _ _ (by decide)]

theorem c4rt1 (dt : DT) (h : Rep fmt1 dt) :
    parseTimestampCore (render fmt1 dt) = some dt := by
  rw [parseTimestampCore_eq, c4trim1]
  simp only [formats]
  rw [tryFormats_cons_none _ _ _ (c4fail_0_1 dt h), tryFormats_cons_some _ _ _ _ (c4self1 dt h)]

theorem c4render2_eq (dt : DT) :
    render fmt2 dt
      = pad2 dt.day ++ ('/' :: (pad2 dt.month ++ ('/' :: (pad2 (dt.year % 100) ++ (' ' :: (pad2 dt.hour ++ (':' :: (pad2 dt.minute ++ ([]))))))))) := rfl


theorem c4trim2 (dt : DT) : trimChars (render fmt2 dt) = render fmt2 dt := by
  apply trimChars_of_hl
  · rw [c4render2_eq]
    simp only [pad2_eq, pad4_eq, List.cons_append, List.nil_append]
    exact ⟨_, _, rfl, not_ws_digitChar _⟩
  · rw [c4render2_eq]
    simp only [ampm_cons, pad2_eq, pad4_eq, List.reverse_cons, List.reverse_append,
      List.append_assoc, List.cons_append, List.nil_append, List.reverse_nil,
      List.append_nil]
    exact ⟨_, _, rfl, not_ws_digitChar _⟩

theorem c4self2 (dt : DT) (h : Rep fmt2 dt) :
    strptimeF fmt2 (render fmt2 dt) = some dt := by
  obtain ⟨hval, hyr, hsec⟩ := h
  simp only [validPy] at hval
  obtain ⟨h1y, h2y, h1m, h2m, h1d, h2d, hH, hMi, hSs⟩ := hval
  have hyr' : 1969 ≤ dt.year ∧ dt.year ≤ 2068 := by
    rw [if_pos (by decide)] at hyr
    exact hyr
  have hd31 : dt.day ≤ 31 := le_trans h2d (daysInMonth_le _ _)
  have hsec0 : dt.second = 0 := by
    rcases hsec with hmem | h0
    · exact absurd hmem (by decide)
    · exact h0
  rw [c4render2_eq]
  have hrun : runDirs fmt2 {} (pad2 dt.day ++ ('/' :: (pad2 dt.month ++ ('/' :: (pad2 (dt.year % 100) ++ (' ' :: (pad2 dt.hour ++ (':' :: (pad2 dt.minute ++ ([]))))))))))
      = some (⟨some dt.day, some dt.month, some (dt.year % 100), none, some dt.hour, none, some dt.minute, none, none⟩, []) := by
    show runDirs (Dir.dd :: [Dir.lit '/', Dir.dm, Dir.lit '/', Dir.dy, Dir.ws, Dir.dH, Dir.lit ':', Dir.dM]) {} _ = _
    rw [runDirs_dd_pad _ _ dt.day _ (by omega) (kill_lit _ '/' (by decide) _ _),
      if_pos (by omega),
      runDirs_lit_eq,
      runDirs_dm_pad _ _ dt.month _ (by omega) (kill_lit _ '/' (by decide) _ _),
      if_pos (by omega),
      runDirs_lit_eq,
      runDirs_dy_pad _ _ (dt.year % 100) _ (by omega),
      runDirs_ws_single _ _ _ (wsCount_pad2 _ _),
      runDirs_dH_pad _ _ dt.hour _ (by omega) (kill_lit _ ':' (by decide) _ _),
      if_pos (by omega),
      runDirs_lit_eq,
      runDirs_dM_last _ dt.minute _ (by omega) (by omega)]
  rw [strptimeF_of_done _ _ _ hrun]
  unfold buildDT
  dsimp only
  simp only [Option.getD_some, Option.getD_none]
  have hYr : (if dt.year % 100 ≤ 68 then dt.year % 100 + 2000
      else dt.year % 100 + 1900) = dt.year := by
    split_ifs <;> omega
  rw [hYr]
  rw [mkDT, if_pos (by omega)]
  rw [← hsec0]

theorem c4fail_0_2 (dt : DT) (h : Rep fmt2 dt) :
    strptimeF fmt0 (render fmt2 dt) = none := by
  obtain ⟨hval, hyr, hsec⟩ := h
  simp only [validPy] at hval
  obtain ⟨h1y, h2y, h1m, h2m, h1d, h2d, hH, hMi, hSs⟩ := hval
  have hyr' : 1969 ≤ dt.year ∧ dt.year ≤ 2068 := by
    rw [if_pos (by decide)] at hyr
    exact hyr
  have hd31 : dt.day ≤ 31 := le_trans h2d (daysInMonth_le _ _)
  rw [c4render2_eq]
  refine strptimeF_of_none _ _ ?_
  show runDirs (Dir.dd :: [Dir.lit '/', Dir.dm, Dir.lit '/', Dir.dY, Dir.ws, Dir.dH, Dir.lit ':', Dir.dM]) {} _ = _
  rw [runDirs_dd_pad _ _ dt.day _ (by omega) (kill_lit _ '/' (by decide) _ _),
    if_pos (by omega),
    runDirs_lit_eq,
    runDirs_dm_pad _ _ dt.month _ (by omega) (kill_lit _ '/' (by decide) _ _),
    if_pos (by omega),
    runDirs_lit_eq,
    runDirs_dY_pad2_sep _ _ _ _ _ (by decide)]

theorem c4fail_1_2 (dt : DT) (h : Rep fmt2 dt) :
    strptimeF fmt1 (render fmt2 dt) = none := by
  obtain ⟨hval, hyr, hsec⟩ := h
  simp only [validPy] at hval
  obtain ⟨h1y, h2y, h1m, h2m, h1d, h2d, hH, hMi, hSs⟩ := hval
  have hyr' : 1969 ≤ dt.year ∧ dt.year ≤ 2068 := by
    rw [if_pos (by decide)] at hyr
    exact hyr
  have hd31 : dt.day ≤ 31 := le_trans h2d (daysInMonth_le _ _)
  rw [c4render2_eq]
  refine strptimeF_of_none _ _ ?_
  show runDirs (Dir.dd :: [Dir.lit '/', Dir.dm, Dir.lit '/', Dir.dY, Dir.lit ',', Dir.ws, Dir.dH, Dir.lit ':', Dir.dM]) {} _ = _
  rw [runDirs_dd_pad _ _ dt.day _ (by omega) (kill_lit _ '/' (by decide) _ _),
    if_pos (by omega),
    runDirs_lit_eq,
    runDirs_dm_pad _ _ dt.month _ (by omega) (kill_lit _ '/' (by decide) _ _),
    if_pos (by omega),
    runDirs_lit_eq,
    runDirs_dY_pad2_sep _ _ _ _ _ (by decide)]

theorem c4rt2 (dt : DT) (h : Rep fmt2 dt) :
    parseTimestampCore (render fmt2 dt) = some dt := by
  rw [parseTimestampCore_eq, c4trim2]
  simp only [formats]
  rw [tryFormats_cons_none _ _ _ (c4fail_0_2 dt h),
    tryFormats_cons_none _ _ _ (c4fail_1_2 dt h),
    tryFormats_cons_some _ _ _ _ (c4self2 dt h)]

theorem c4render3_eq (dt : DT) :
    render fmt3 dt
      = pad2 dt.day ++ ('/' :: (pad2 dt.month ++ ('/' :: (pad2 (dt.year % 100) ++ (',' :: (' ' :: (pad2 dt.hour ++ (':' :: (pad2 dt.minute ++ ([])))))))))) := rfl


theorem c4trim3 (dt : DT) : trimChars (render fmt3 dt) = render fmt3 dt := by
  apply trimChars_of_hl
  · rw [c4render3_eq]
    simp only [pad2_eq, pad4_eq, List.cons_append, List.nil_append]
    exact ⟨_, _, rfl, not_ws_digitChar _⟩
  · rw [c4render3_eq]
    simp only [ampm_cons, pad2_eq, pad4_eq, List.reverse_cons, List.reverse_append,
      List.append_assoc, List.cons_append, List.nil_append, List.reverse_nil,
      List.append_nil]
    exact ⟨_, _, rfl, not_ws_digitChar _⟩

theorem c4self3 (dt : DT) (h : Rep fmt3 dt) :
    strptimeF fmt3 (render fmt3 dt) = some dt := by
  obtain ⟨hval, hyr, hsec⟩ := h
  simp only [validPy] at hval
  obtain ⟨h1y, h2y, h1m, h2m, h1d, h2d, hH, hMi, hSs⟩ := hval
  have hyr' : 1969 ≤ dt.year ∧ dt.year ≤ 2068 := by
    rw [if_pos (by decide)] at hyr
    exact hyr
  have hd31 : dt.day ≤ 31 := le_trans h2d (daysInMonth_le _ _)
  have hsec0 : dt.second = 0 := by
    rcases hsec with hmem | h0
    · exact absurd hmem (by decide)
    · exact h0
  rw [c4render3_eq]
  have hrun : runDirs fmt3 {} (pad2 dt.day ++ ('/' :: (pad2 dt.month ++ ('/' :: (pad2 (dt.year % 100) ++ (',' :: (' ' :: (pad2 dt.hour ++ (':' :: (pad2 dt.minute ++ ([])))))))))))
      = some (⟨some dt.day, some dt.month, some (dt.year % 100), none, some dt.hour, none, some dt.minute, none, none⟩, []) := by
    show runDirs (Dir.dd :: [Dir.lit '/', Dir.dm, Dir.lit '/', Dir.dy, Dir.lit ',', Dir.ws, Dir.dH, Dir.lit ':', Dir.dM]) {} _ = _
    rw [runDirs_dd_pad _ _ dt.day _ (by omega) (kill_lit _ '/' (by decide) _ _),
      if_pos (by omega),
      runDirs_lit_eq,
      runDirs_dm_pad _ _ dt.month _ (by omega) (kill_lit _ '/' (by decide) _ _),
      if_pos (by omega),
      runDirs_lit_eq,
      runDirs_dy_pad _ _ (dt.year % 100) _ (by omega),
      runDirs_lit_eq,
      runDirs_ws_single _ _ _ (wsCount_pad2 _ _),
      runDirs_dH_pad _ _ dt.hour _ (by omega) (kill_lit _ ':' (by decide) _ _),
      if_pos (by omega),
      runDirs_lit_eq,
      runDirs_dM_last _ dt.minute _ (by omega) (by omega)]
  rw [strptimeF_of_done _ _ _ hrun]
  unfold buildDT
  dsimp only
  simp only [Option.getD_some, Option.getD_none]
  have hYr : (if dt.year % 100 ≤ 68 then dt.year % 100 + 2000
      else dt.year % 100 + 1900) = dt.year := by
    split_ifs <;> omega
  rw [hYr]
  rw [mkDT, if_pos (by omega)]
  rw [← hsec0]

theorem c4fail_0_3 (dt : DT) (h : Rep fmt3 dt) :
    strptimeF fmt0 (render fmt3 dt) = none := by
  obtain ⟨hval, hyr, hsec⟩ := h
  simp only [validPy] at hval
  obtain ⟨h1y, h2y, h1m, h2m, h1d, h2d, hH, hMi, hSs⟩ := hval
  have hyr' : 1969 ≤ dt.year ∧ dt.year ≤ 2068 := by
    rw [if_pos (by decide)] at hyr
    exact hyr
  have hd31 : dt.day ≤ 31 := le_trans h2d (daysInMonth_le _ _)
  rw [c4render3_eq]
  refine strptimeF_of_none _ _ ?_
  show runDirs (Dir.dd :: [Dir.lit '/', Dir.dm, Dir.lit '/', Dir.dY, Dir.ws, Dir.dH, Dir.lit ':', Dir.dM]) {} _ = _
  rw [runDirs_dd_pad _ _ dt.day _ (by omega) (kill_lit _ '/' (by decide) _ _),
    if_pos (by omega),
    runDirs_lit_eq,
    runDirs_dm_pad _ _ dt.month _ (by omega) (kill_lit _ '/' (by decide) _ _),
    if_pos (by omega),
    runDirs_lit_eq,
    runDirs_dY_pad2_sep _ _ _ _ _ (by decide)]

theorem c4fail_1_3 (dt : DT) (h : Rep fmt3 dt) :
    strptimeF fmt1 (render fmt3 dt) = none := by
  obtain ⟨hval, hyr, hsec⟩ := h
  simp only [validPy] at hval
  obtain ⟨h1y, h2y, h1m, h2m, h1d, h2d, hH, hMi, hSs⟩ := hval
  have hyr' : 1969 ≤ dt.year ∧ dt.year ≤ 2068 := by
    rw [if_pos (by decide)] at hyr
    exact hyr
  have hd31 : dt.day ≤ 31 := le_trans h2d (daysInMonth_le _ _)
  rw [c4render3_eq]
  refine strptimeF_of_none _ _ ?_
  show runDirs (Dir.dd :: [Dir.lit '/', Dir.dm, Dir.lit '/', Dir.dY, Dir.lit ',', Dir.ws, Dir.dH, Dir.lit ':', Dir.dM]) {} _ = _
  rw [runDirs_dd_pad _ _ dt.day _ (by omega) (kill_lit _ '/' (by decide) _ _),
    if_pos (by omega),
    runDirs_lit_eq,
    runDirs_dm_pad _ _ dt.month _ (by omega) (kill_lit _ '/' (by decide) _ _),
    if_pos (by omega),
    runDirs_lit_eq,
    runDirs_dY_pad2_sep _ _ _ _ _ (by decide)]

theorem c4fail_2_3 (dt : DT) (h : Rep fmt3 dt) :
    strptimeF fmt2 (render fmt3 dt) = none := by
  obtain ⟨hval, hyr, hsec⟩ := h
  simp only [validPy] at hval
  obtain ⟨h1y, h2y, h1m, h2m, h1d, h2d, hH, hMi, hSs⟩ := hval
  have hyr' : 1969 ≤ dt.year ∧ dt.year ≤ 2068 := by
    rw [if_pos (by decide)] at hyr
    exact hyr
  have hd31 : dt.day ≤ 31 := le_trans h2d (daysInMonth_le _ _)
  rw [c4render3_eq]
  refine strptimeF_of_none _ _ ?_
  show runDirs (Dir.dd :: [Dir.lit '/', Dir.dm, Dir.lit '/', Dir.dy, Dir.ws, Dir.dH, Dir.lit ':', Dir.dM]) {} _ = _
  rw [runDirs_dd_pad _ _ dt.day _ (by omega) (kill_lit _ '/' (by decide) _ _),
    if_pos (by omega),
    runDirs_lit_eq,
    runDirs_dm_pad _ _ dt.month _ (by omega) (kill_lit _ '/' (by decide) _ _),
    if_pos (by omega),
    runDirs_lit_eq,
    runDirs_dy_pad _ _ (dt.year % 100) _ (by omega),
    runDirs_ws_none _ _ _ _ (by decide)]

theorem c4rt3 (dt : DT) (h : Rep fmt3 dt) :
    parseTimestampCore (render fmt3 dt) = some dt := by
  rw [parseTimestampCore_eq, c4trim3]
  simp only [formats]
  rw [tryFormats_cons_none _ _ _ (c4fail_0_3 dt h),
    tryFormats_cons_none _ _ _ (c4fail_1_3 dt h),
    tryFormats_cons_none _ _ _ (c4fail_2_3 dt h),
    tryFormats_cons_some _ _ _ _ (c4self3 dt h)]

theorem c4render4_eq (dt : DT) :
    render fmt4 dt
      = pad2 dt.month ++ ('/' :: (pad2 dt.day ++ ('/' :: (pad4 dt.year ++ (' ' :: (pad2 (if dt.hour % 12 = 0 then 12 else dt.hour % 12) ++ (':' :: (pad2 dt.minute ++ (' ' :: ((if dt.hour < 12 then ['A', 'M'] else ['P', 'M']) ++ ([]))))))))))) := rfl

theorem c4render4_eq_am (dt : DT) (h : dt.hour < 12) :
    render fmt4 dt
      = pad2 dt.month ++ ('/' :: (pad2 dt.day ++ ('/' :: (pad4 dt.year ++ (' ' :: (pad2 (if dt.hour % 12 = 0 then 12 else dt.hour % 12) ++ (':' :: (pad2 dt.minute ++ (' ' :: ('A' :: ('M' :: ([])))))))))))) := by
  rw [c4render4_eq, if_pos h]
  rfl
theorem c4render4_eq_pm (dt : DT) (h : ¬ dt.hour < 12) :
    render fmt4 dt
      = pad2 dt.month ++ ('/' :: (pad2 dt.day ++ ('/' :: (pad4 dt.year ++ (' ' :: (pad2 (if dt.hour % 12 = 0 then 12 else dt.hour % 12) ++ (':' :: (pad2 dt.minute ++ (' ' :: ('P' :: ('M' :: ([])))))))))))) := by
  rw [c4render4_eq, if_neg h]
  rfl

theorem c4trim4 (dt : DT) : trimChars (render fmt4 dt) = render fmt4 dt := by
  apply trimChars_of_hl
  · rw [c4render4_eq]
    simp only [pad2_eq, pad4_eq, List.cons_append, List.nil_append]
    exact ⟨_, _, rfl, not_ws_digitChar _⟩
  · rw [c4render4_eq]
    simp only [ampm_cons, pad2_eq, pad4_eq, List.reverse_cons, List.reverse_append,
      List.append_assoc, List.cons_append, List.nil_append, List.reverse_nil,
      List.append_nil]
    exact ⟨_, _, rfl, (by decide)⟩

theorem c4self4 (dt : DT) (h : Rep fmt4 dt) :
    strptimeF fmt4 (render fmt4 dt) = some dt := by
  obtain ⟨hval, hyr, hsec⟩ := h
  simp only [validPy] at hval
  obtain ⟨h1y, h2y, h1m, h2m, h1d, h2d, hH, hMi, hSs⟩ := hval
  have hyr' : 1000 ≤ dt.year ∧ dt.year ≤ 9999 := by
    rw [if_neg (by decide)] at hyr
    exact hyr
  have hd31 : dt.day ≤ 31 := le_trans h2d (daysInMonth_le _ _)
  have hBi : 1 ≤ (if dt.hour % 12 = 0 then 12 else dt.hour % 12) ∧ (if dt.hour % 12 = 0 then 12 else dt.hour % 12) ≤ 12 := by
    split_ifs <;> omega
  have hsec0 : dt.second = 0 := by
    rcases hsec with hmem | h0
    · exact absurd hmem (by decide)
    · exact h0
  by_cases hampm : dt.hour < 12
  · rw [c4render4_eq_am dt hampm]
    have hrun : runDirs fmt4 {} (pad2 dt.month ++ ('/' :: (pad2 dt.day ++ ('/' :: (pad4 dt.year ++ (' ' :: (pad2 (if dt.hour % 12 = 0 then 12 else dt.hour % 12) ++ (':' :: (pad2 dt.minute ++ (' ' :: ('A' :: ('M' :: ([])))))))))))))
        = some (⟨some dt.day, some dt.month, none, some dt.year, none, some (if dt.hour % 12 = 0 then 12 else dt.hour % 12), some dt.minute, none, some false⟩, []) := by
      show runDirs (Dir.dm :: [Dir.lit '/', Dir.dd, Dir.lit '/', Dir.dY, Dir.ws, Dir.dI, Dir.lit ':', Dir.dM, Dir.ws, Dir.dp]) {} _ = _
      rw [runDirs_dm_pad _ _ dt.month _ (by omega) (kill_lit _ '/' (by decide) _ _),
        if_pos (by omega),
        runDirs_lit_eq,
        runDirs_dd_pad _ _ dt.day _ (by omega) (kill_lit _ '/' (by decide) _ _),
        if_pos (by omega),
        runDirs_lit_eq,
        runDirs_dY_pad _ _ dt.year (by omega) _,
        runDirs_ws_single _ _ _ (wsCount_pad2 _ _),
        runDirs_dI_pad _ _ (if dt.hour % 12 = 0 then 12 else dt.hour % 12) _ (by omega) (kill_lit _ ':' (by decide) _ _),
        if_pos (by omega),
        runDirs_lit_eq,
        runDirs_dM_pad _ _ dt.minute _ (by omega) (kill_ws _ _ _),
        if_pos (by omega),
        runDirs_ws_single _ _ _ (wsCount_not _ _ (by decide)),
        runDirs_dp_AM,
        runDirs_nil_eq]
    rw [strptimeF_of_done _ _ _ hrun]
    unfold buildDT
    dsimp only
    simp only [Option.getD_some, Option.getD_none]
    have hHr : (if (if dt.hour % 12 = 0 then 12 else dt.hour % 12) = 12 then 0 else (if dt.hour % 12 = 0 then 12 else dt.hour % 12)) = dt.hour := by
      split_ifs <;> omega
    rw [hHr]
    rw [mkDT, if_pos (by omega)]
    rw [← hsec0]
  · rw [c4render4_eq_pm dt hampm]
    have hrun : runDirs fmt4 {} (pad2 dt.month ++ ('/' :: (pad2 dt.day ++ ('/' :: (pad4 dt.year ++ (' ' :: (pad2 (if dt.hour % 12 = 0 then 12 else dt.hour % 12) ++ (':' :: (pad2 dt.minute ++ (' ' :: ('P' :: ('M' :: ([])))))))))))))
        = some (⟨some dt.day, some dt.month, none, some dt.year, none, some (if dt.hour % 12 = 0 then 12 else dt.hour % 12), some dt.minute, none, some true⟩, []) := by
      show runDirs (Dir.dm :: [Dir.lit '/', Dir.dd, Dir.lit '/', Dir.dY, Dir.ws, Dir.dI, Dir.lit ':', Dir.dM, Dir.ws, Dir.dp]) {} _ = _
      rw [runDirs_dm_pad _ _ dt.month _ (by omega) (kill_lit _ '/' (by decide) _ _),
        if_pos (by omega),
        runDirs_lit_eq,
        runDirs_dd_pad _ _ dt.day _ (by omega) (kill_lit _ '/' (by decide) _ _),
        if_pos (by omega),
        runDirs_lit_eq,
        runDirs_dY_pad _ _ dt.year (by omega) _,
        runDirs_ws_single _ _ _ (wsCount_pad2 _ _),
        runDirs_dI_pad _ _ (if dt.hour % 12 = 0 then 12 else dt.hour % 12) _ (by omega) (kill_lit _ ':' (by decide) _ _),
        if_pos (by omega),
        runDirs_lit_eq,
        runDirs_dM_pad _ _ dt.minute _ (by omega) (kill_ws _ _ _),
        if_pos (by omega),
        runDirs_ws_single _ _ _ (wsCount_not _ _ (by decide)),
        runDirs_dp_PM,
        runDirs_nil_eq]
    rw [strptimeF_of_done _ _ _ hrun]
    unfold buildDT
    dsimp only
    simp only [Option.getD_some, Option.getD_none]
    have hHr : (if (if dt.hour % 12 = 0 then 12 else dt.hour % 12) = 12 then 12 else (if dt.hour % 12 = 0 then 12 else dt.hour % 12) + 12) = dt.hour := by
      split_ifs <;> omega
    rw [hHr]
    rw [mkDT, if_pos (by omega)]
    rw [← hsec0]

theorem c4fail_0_4 (dt : DT) (h : Rep fmt4 dt) :
    strptimeF fmt0 (render fmt4 dt) = none := by
  obtain ⟨hval, hyr, hsec⟩ := h
  simp only [validPy] at hval
  obtain ⟨h1y, h2y, h1m, h2m, h1d, h2d, hH, hMi, hSs⟩ := hval
  have hyr' : 1000 ≤ dt.year ∧ dt.year ≤ 9999 := by
    rw [if_neg (by decide)] at hyr
    exact hyr
  have hd31 : dt.day ≤ 31 := le_trans h2d (daysInMonth_le _ _)
  have hBi : 1 ≤ (if dt.hour % 12 = 0 then 12 else dt.hour % 12) ∧ (if dt.hour % 12 = 0 then 12 else dt.hour % 12) ≤ 12 := by
    split_ifs <;> omega
  rw [c4render4_eq]
  by_cases hc1 : 1 ≤ dt.day ∧ dt.day ≤ 12
  · refine strptimeF_of_rest_ne _ _ (⟨some dt.month, some dt.day, none, some dt.year, some (if dt.hour % 12 = 0 then 12 else dt.hour % 12), none, some dt.minute, none, none⟩)
      (' ' :: ((if dt.hour < 12 then ['A', 'M'] else ['P', 'M']) ++ ([]))) ?_ ?_
    · show runDirs (Dir.dd :: [Dir.lit '/', Dir.dm, Dir.lit '/', Dir.dY, Dir.ws, Dir.dH, Dir.lit ':', Dir.dM]) {} _ = _
      rw [runDirs_dd_pad _ _ dt.month _ (by omega) (kill_lit _ '/' (by decide) _ _),
        if_pos (by omega),
        runDirs_lit_eq,
        runDirs_dm_pad _ _ dt.day _ (by omega) (kill_lit _ '/' (by decide) _ _),
        if_pos hc1,
        runDirs_lit_eq,
        runDirs_dY_pad _ _ dt.year (by omega) _,
        runDirs_ws_single _ _ _ (wsCount_pad2 _ _),
        runDirs_dH_pad _ _ (if dt.hour % 12 = 0 then 12 else dt.hour % 12) _ (by omega) (kill_lit _ ':' (by decide) _ _),
        if_pos (by omega),
        runDirs_lit_eq,
        runDirs_dM_last _ dt.minute _ (by omega) (by omega)]
    · exact by simp [ampm_cons, pad2_eq, pad4_eq]
  · refine strptimeF_of_none _ _ ?_
    show runDirs (Dir.dd :: [Dir.lit '/', Dir.dm, Dir.lit '/', Dir.dY, Dir.ws, Dir.dH, Dir.lit ':', Dir.dM]) {} _ = _
    rw [runDirs_dd_pad _ _ dt.month _ (by omega) (kill_lit _ '/' (by decide) _ _),
      if_pos (by omega),
      runDirs_lit_eq,
      runDirs_dm_pad _ _ dt.day _ (by omega) (kill_lit _ '/' (by decide) _ _),
      if_neg hc1]

theorem c4fail_1_4 (dt : DT) (h : Rep fmt4 dt) :
    strptimeF fmt1 (render fmt4 dt) = none := by
  obtain ⟨hval, hyr, hsec⟩ := h
  simp only [validPy] at hval
  obtain ⟨h1y, h2y, h1m, h2m, h1d, h2d, hH, hMi, hSs⟩ := hval
  have hyr' : 1000 ≤ dt.year ∧ dt.year ≤ 9999 := by
    rw [if_neg (by decide)] at hyr
    exact hyr
  have hd31 : dt.day ≤ 31 := le_trans h2d (daysInMonth_le _ _)
  have hBi : 1 ≤ (if dt.hour % 12 = 0 then 12 else dt.hour % 12) ∧ (if dt.hour % 12 = 0 then 12 else dt.hour % 12) ≤ 12 := by
    split_ifs <;> omega
  rw [c4render4_eq]
  by_cases hc1 : 1 ≤ dt.day ∧ dt.day ≤ 12
  · refine strptimeF_of_none _ _ ?_
    show runDirs (Dir.dd :: [Dir.lit '/', Dir.dm, Dir.lit '/', Dir.dY, Dir.lit ',', Dir.ws, Dir.dH, Dir.lit ':', Dir.dM]) {} _ = _
    rw [runDirs_dd_pad _ _ dt.month _ (by omega) (kill_lit _ '/' (by decide) _ _),
      if_pos (by omega),
      runDirs_lit_eq,
      runDirs_dm_pad _ _ dt.day _ (by omega) (kill_lit _ '/' (by decide) _ _),
      if_pos hc1,
      runDirs_lit_eq,
      runDirs_dY_pad _ _ dt.year (by omega) _,
      runDirs_lit_ne _ _ _ _ _ (by decide)]
  · refine strptimeF_of_none _ _ ?_
    show runDirs (Dir.dd :: [Dir.lit '/', Dir.dm, Dir.lit '/', Dir.dY, Dir.lit ',', Dir.ws, Dir.dH, Dir.lit ':', Dir.dM]) {} _ = _
    rw [runDirs_dd_pad _ _ dt.month _ (by omega) (kill_lit _ '/' (by decide) _ _),
      if_pos (by omega),
      runDirs_lit_eq,
      runDirs_dm_pad _ _ dt.day _ (by omega) (kill_lit _ '/' (by decide) _ _),
      if_neg hc1]

theorem c4fail_2_4 (dt : DT) (h : Rep fmt4 dt) :
    strptimeF fmt2 (render fmt4 dt) = none := by
  obtain ⟨hval, hyr, hsec⟩ := h
  simp only [validPy] at hval
  obtain ⟨h1y, h2y, h1m, h2m, h1d, h2d, hH, hMi, hSs⟩ := hval
  have hyr' : 1000 ≤ dt.year ∧ dt.year ≤ 9999 := by
    rw [if_neg (by decide)] at hyr
    exact hyr
  have hd31 : dt.day ≤ 31 := le_trans h2d (daysInMonth_le _ _)
  have hBi : 1 ≤ (if dt.hour % 12 = 0 then 12 else dt.hour % 12) ∧ (if dt.hour % 12 = 0 then 12 else dt.hour % 12) ≤ 12 := by
    split_ifs <;> omega
  rw [c4render4_eq]
  by_cases hc1 : 1 ≤ dt.day ∧ dt.day ≤ 12
  · refine strptimeF_of_none _ _ ?_
    show runDirs (Dir.dd :: [Dir.lit '/', Dir.dm, Dir.lit '/', Dir.dy, Dir.ws, Dir.dH, Dir.lit ':', Dir.dM]) {} _ = _
    rw [runDirs_dd_pad _ _ dt.month _ (by omega) (kill_lit _ '/' (by decide) _ _),
      if_pos (by omega),
      runDirs_lit_eq,
      runDirs_dm_pad _ _ dt.day _ (by omega) (kill_lit _ '/' (by decide) _ _),
      if_pos hc1,
      runDirs_lit_eq,
      pad4_as_pad2,
      runDirs_dy_pad _ _ (dt.year / 100) _ (by omega),
      runDirs_ws_pad2]
  · refine strptimeF_of_none _ _ ?_
    show runDirs (Dir.dd :: [Dir.lit '/', Dir.dm, Dir.lit '/', Dir.dy, Dir.ws, Dir.dH, Dir.lit ':', Dir.dM]) {} _ = _
    rw [runDirs_dd_pad _ _ dt.month _ (by omega) (kill_lit _ '/' (by decide) _ _),
      if_pos (by omega),
      runDirs_lit_eq,
      runDirs_dm_pad _ _ dt.day _ (by omega) (kill_lit _ '/' (by decide) _ _),
      if_neg hc1]

theorem c4fail_3_4 (dt : DT) (h : Rep fmt4 dt) :
    strptimeF fmt3 (render fmt4 dt) = none := by
  obtain ⟨hval, hyr, hsec⟩ := h
  simp only [validPy] at hval
  obtain ⟨h1y, h2y, h1m, h2m, h1d, h2d, hH, hMi, hSs⟩ := hval
  have hyr' : 1000 ≤ dt.year ∧ dt.year ≤ 9999 := by
    rw [if_neg (by decide)] at hyr
    exact hyr
  have hd31 : dt.day ≤ 31 := le_trans h2d (daysInMonth_le _ _)
  have hBi : 1 ≤ (if dt.hour % 12 = 0 then 12 else dt.hour % 12) ∧ (if dt.hour % 12 = 0 then 12 else dt.hour % 12) ≤ 12 := by
    split_ifs <;> omega
  rw [c4render4_eq]
  by_cases hc1 : 1 ≤ dt.day ∧ dt.day ≤ 12
  · refine strptimeF_of_none _ _ ?_
    show runDirs (Dir.dd :: [Dir.lit '/', Dir.dm, Dir.lit '/', Dir.dy, Dir.lit ',', Dir.ws, Dir.dH, Dir.lit ':', Dir.dM]) {} _ = _
    rw [runDirs_dd_pad _ _ dt.month _ (by omega) (kill_lit _ '/' (by decide) _ _),
      if_pos (by omega),
      runDirs_lit_eq,
      runDirs_dm_pad _ _ dt.day _ (by omega) (kill_lit _ '/' (by decide) _ _),
      if_pos hc1,
      runDirs_lit_eq,
      pad4_as_pad2,
      runDirs_dy_pad _ _ (dt.year / 100) _ (by omega),
      runDirs_lit_pad2 _ _ _ _ _ (by decide)]
  · refine strptimeF_of_none _ _ ?_
    show runDirs (Dir.dd :: [Dir.lit '/', Dir.dm, Dir.lit '/', Dir.dy, Dir.lit ',', Dir.ws, Dir.dH, Dir.lit ':', Dir.dM]) {} _ = _
    rw [runDirs_dd_pad _ _ dt.month _ (by omega) (kill_lit _ '/' (by decide) _ _),
      if_pos (by omega),
      runDirs_lit_eq,
      runDirs_dm_pad _ _ dt.day _ (by omega) (kill_lit _ '/' (by decide) _ _),
      if_neg hc1]

theorem c4rt4 (dt : DT) (h : Rep fmt4 dt) :
    parseTimestampCore (render fmt4 dt) = some dt := by
  rw [parseTimestampCore_eq, c4trim4]
  simp only [formats]
  rw [tryFormats_cons_none _ _ _ (c4fail_0_4 dt h),
    tryFormats_cons_none _ _ _ (c4fail_1_4 dt h),
    tryFormats_cons_none _ _ _ (c4fail_2_4 dt h),
    tryFormats_cons_none _ _ _ (c4fail_3_4 dt h),
    tryFormats_cons_some _ _ _ _ (c4self4 dt h)]

theorem c4render5_eq (dt : DT) :
    render fmt5 dt
      = pad2 dt.month ++ ('/' :: (pad2 dt.day ++ ('/' :: (pad4 dt.year ++ (',' :: (' ' :: (pad2 (if dt.hour % 12 = 0 then 12 else dt.hour % 12) ++ (':' :: (pad2 dt.minute ++ (' ' :: ((if dt.hour < 12 then ['A', 'M'] else ['P', 'M']) ++ ([])))))))))))) := rfl

theorem c4render5_eq_am (dt : DT) (h : dt.hour < 12) :
    render fmt5 dt
      = pad2 dt.month ++ ('/' :: (pad2 dt.day ++ ('/' :: (pad4 dt.year ++ (',' :: (' ' :: (pad2 (if dt.hour % 12 = 0 then 12 else dt.hour % 12) ++ (':' :: (pad2 dt.minute ++ (' ' :: ('A' :: ('M' :: ([]))))))))))))) := by
  rw [c4render5_eq, if_pos h]
  rfl
theorem c4render5_eq_pm (dt : DT) (h : ¬ dt.hour < 12) :
    render fmt5 dt
      = pad2 dt.month ++ ('/' :: (pad2 dt.day ++ ('/' :: (pad4 dt.year ++ (',' :: (' ' :: (pad2 (if dt.hour % 12 = 0 then 12 else dt.hour % 12) ++ (':' :: (pad2 dt.minute ++ (' ' :: ('P' :: ('M' :: ([]))))))))))))) := by
  rw [c4render5_eq, if_neg h]
  rfl

theorem c4trim5 (dt : DT) : trimChars (render fmt5 dt) = render fmt5 dt := by
  apply trimChars_of_hl
  · rw [c4render5_eq]
    simp only [pad2_eq, pad4_eq, List.cons_append, List.nil_append]
    exact ⟨_, _, rfl, not_ws_digitChar _⟩
  · rw [c4render5_eq]
    simp only [ampm_cons, pad2_eq, pad4_eq, List.reverse_cons, List.reverse_append,
      List.append_assoc, List.cons_append, List.nil_append, List.reverse_nil,
      List.append_nil]
    exact ⟨_, _, rfl, (by decide)⟩

theorem c4self5 (dt : DT) (h : Rep fmt5 dt) :
    strptimeF fmt5 (render fmt5 dt) = some dt := by
  obtain ⟨hval, hyr, hsec⟩ := h
  simp only [validPy] at hval
  obtain ⟨h1y, h2y, h1m, h2m, h1d, h2d, hH, hMi, hSs⟩ := hval
  have hyr' : 1000 ≤ dt.year ∧ dt.year ≤ 9999 := by
    rw [if_neg (by decide)] at hyr
    exact hyr
  have hd31 : dt.day ≤ 31 := le_trans h2d (daysInMonth_le _ _)
  have hBi : 1 ≤ (if dt.hour % 12 = 0 then 12 else dt.hour % 12) ∧ (if dt.hour % 12 = 0 then 12 else dt.hour % 12) ≤ 12 := by
    split_ifs <;> omega
  have hsec0 : dt.second = 0 := by
    rcases hsec with hmem | h0
    · exact absurd hmem (by decide)
    · exact h0
  by_cases hampm : dt.hour < 12
  · rw [c4render5_eq_am dt hampm]
    have hrun : runDirs fmt5 {} (pad2 dt.month ++ ('/' :: (pad2 dt.day ++ ('/' :: (pad4 dt.year ++ (',' :: (' ' :: (pad2 (if dt.hour % 12 = 0 then 12 else dt.hour % 12) ++ (':' :: (pad2 dt.minute ++ (' ' :: ('A' :: ('M' :: ([]))))))))))))))
        = some (⟨some dt.day, some dt.month, none, some dt.year, none, some (if dt.hour % 12 = 0 then 12 else dt.hour % 12), some dt.minute, none, some false⟩, []) := by
      show runDirs (Dir.dm :: [Dir.lit '/', Dir.dd, Dir.lit '/', Dir.dY, Dir.lit ',', Dir.ws, Dir.dI, Dir.lit ':', Dir.dM, Dir.ws, Dir.dp]) {} _ = _
      rw [runDirs_dm_pad _ _ dt.month _ (by omega) (kill_lit _ '/' (by decide) _ _),
        if_pos (by omega),
        runDirs_lit_eq,
        runDirs_dd_pad _ _ dt.day _ (by omega) (kill_lit _ '/' (by decide) _ _),
        if_pos (by omega),
        runDirs_lit_eq,
        runDirs_dY_pad _ _ dt.year (by omega) _,
        runDirs_lit_eq,
        runDirs_ws_single _ _ _ (wsCount_pad2 _ _),
        runDirs_dI_pad _ _ (if dt.hour % 12 = 0 then 12 else dt.hour % 12) _ (by omega) (kill_lit _ ':' (by decide) _ _),
        if_pos (by omega),
        runDirs_lit_eq,
        runDirs_dM_pad _ _ dt.minute _ (by omega) (kill_ws _ _ _),
        if_pos (by omega),
        runDirs_ws_single _ _ _ (wsCount_not _ _ (by decide)),
        runDirs_dp_AM,
        runDirs_nil_eq]
    rw [strptimeF_of_done _ _ _ hrun]
    unfold buildDT
    dsimp only
    simp only [Option.getD_some, Option.getD_none]
    have hHr : (if (if dt.hour % 12 = 0 then 12 else dt.hour % 12) = 12 then 0 else (if dt.hour % 12 = 0 then 12 else dt.hour % 12)) = dt.hour := by
      split_ifs <;> omega
    rw [hHr]
    rw [mkDT, if_pos (by omega)]
    rw [← hsec0]
  · rw [c4render5_eq_pm dt hampm]
    have hrun : runDirs fmt5 {} (pad2 dt.month ++ ('/' :: (pad2 dt.day ++ ('/' :: (pad4 dt.year ++ (',' :: (' ' :: (pad2 (if dt.hour % 12 = 0 then 12 else dt.hour % 12) ++ (':' :: (pad2 dt.minute ++ (' ' :: ('P' :: ('M' :: ([]))))))))))))))
        = some (⟨some dt.day, some dt.month, none, some dt.year, none, some (if dt.hour % 12 = 0 then 12 else dt.hour % 12), some dt.minute, none, some true⟩, []) := by
      show runDirs (Dir.dm :: [Dir.lit '/', Dir.dd, Dir.lit '/', Dir.dY, Dir.lit ',', Dir.ws, Dir.dI, Dir.lit ':', Dir.dM, Dir.ws, Dir.dp]) {} _ = _
      rw [runDirs_dm_pad _ _ dt.month _ (by omega) (kill_lit _ '/' (by decide) _ _),
        if_pos (by omega),
        runDirs_lit_eq,
        runDirs_dd_pad _ _ dt.day _ (by omega) (kill_lit _ '/' (by decide) _ _),
        if_pos (by omega),
        runDirs_lit_eq,
        runDirs_dY_pad _ _ dt.year (by omega) _,
        runDirs_lit_eq,
        runDirs_ws_single _ _ _ (wsCount_pad2 _ _),
        runDirs_dI_pad _ _ (if dt.hour % 12 = 0 then 12 else dt.hour % 12) _ (by omega) (kill_lit _ ':' (by decide) _ _),
        if_pos (by omega),
        runDirs_lit_eq,
        runDirs_dM_pad _ _ dt.minute _ (by omega) (kill_ws _ _ _),
        if_pos (by omega),
        runDirs_ws_single _ _ _ (wsCount_not _ _ (by decide)),
        runDirs_dp_PM,
        runDirs_nil_eq]
    rw [strptimeF_of_done _ _ _ hrun]
    unfold buildDT
    dsimp only
    simp only [Option.getD_some, Option.getD_none]
    have hHr : (if (if dt.hour % 12 = 0 then 12 else dt.hour % 12) = 12 then 12 else (if dt.hour % 12 = 0 then 12 else dt.hour % 12) + 12) = dt.hour := by
      split_ifs <;> omega
    rw [hHr]
    rw [mkDT, if_pos (by omega)]
    rw [← hsec0]

theorem c4fail_0_5 (dt : DT) (h : Rep fmt5 dt) :
    strptimeF fmt0 (render fmt5 dt) = none := by
  obtain ⟨hval, hyr, hsec⟩ := h
  simp only [validPy] at hval
  obtain ⟨h1y, h2y, h1m, h2m, h1d, h2d, hH, hMi, hSs⟩ := hval
  have hyr' : 1000 ≤ dt.year ∧ dt.year ≤ 9999 := by
    rw [if_neg (by decide)] at hyr
    exact hyr
  have hd31 : dt.day ≤ 31 := le_trans h2d (daysInMonth_le _ _)
  have hBi : 1 ≤ (if dt.hour % 12 = 0 then 12 else dt.hour % 12) ∧ (if dt.hour % 12 = 0 then 12 else dt.hour % 12) ≤ 12 := by
    split_ifs <;> omega
  rw [c4render5_eq]
  by_cases hc1 : 1 ≤ dt.day ∧ dt.day ≤ 12
  · refine strptimeF_of_none _ _ ?_
    show runDirs (Dir.dd :: [Dir.lit '/', Dir.dm, Dir.lit '/', Dir.dY, Dir.ws, Dir.dH, Dir.lit ':', Dir.dM]) {} _ = _
    rw [runDirs_dd_pad _ _ dt.month _ (by omega) (kill_lit _ '/' (by decide) _ _),
      if_pos (by omega),
      runDirs_lit_eq,
      runDirs_dm_pad _ _ dt.day _ (by omega) (kill_lit _ '/' (by decide) _ _),
      if_pos hc1,
      runDirs_lit_eq,
      runDirs_dY_pad _ _ dt.year (by omega) _,
      runDirs_ws_none _ _ _ _ (by decide)]
  · refine strptimeF_of_none _ _ ?_
    show runDirs (Dir.dd :: [Dir.lit '/', Dir.dm, Dir.lit '/', Dir.dY, Dir.ws, Dir.dH, Dir.lit ':', Dir.dM]) {} _ = _
    rw [runDirs_dd_pad _ _ dt.month _ (by omega) (kill_lit _ '/' (by decide) _ _),
      if_pos (by omega),
      runDirs_lit_eq,
      runDirs_dm_pad _ _ dt.day _ (by omega) (kill_lit _ '/' (by decide) _ _),
      if_neg hc1]

theorem c4fail_1_5 (dt : DT) (h : Rep fmt5 dt) :
    strptimeF fmt1 (render fmt5 dt) = none := by
  obtain ⟨hval, hyr, hsec⟩ := h
  simp only [validPy] at hval
  obtain ⟨h1y, h2y, h1m, h2m, h1d, h2d, hH, hMi, hSs⟩ := hval
  have hyr' : 1000 ≤ dt.year ∧ dt.year ≤ 9999 := by
    rw [if_neg (by decide)] at hyr
    exact hyr
  have hd31 : dt.day ≤ 31 := le_trans h2d (daysInMonth_le _ _)
  have hBi : 1 ≤ (if dt.hour % 12 = 0 then 12 else dt.hour % 12) ∧ (if dt.hour % 12 = 0 then 12 else dt.hour % 12) ≤ 12 := by
    split_ifs <;> omega
  rw [c4render5_eq]
  by_cases hc1 : 1 ≤ dt.day ∧ dt.day ≤ 12
  · refine strptimeF_of_rest_ne _ _ (⟨some dt.month, some dt.day, none, some dt.year, some (if dt.hour % 12 = 0 then 12 else dt.hour % 12), none, some dt.minute, none, none⟩)
      (' ' :: ((if dt.hour < 12 then ['A', 'M'] else ['P', 'M']) ++ ([]))) ?_ ?_
    · show runDirs (Dir.dd :: [Dir.lit '/', Dir.dm, Dir.lit '/', Dir.dY, Dir.lit ',', Dir.ws, Dir.dH, Dir.lit ':', Dir.dM]) {} _ = _
      rw [runDirs_dd_pad _ _ dt.month _ (by omega) (kill_lit _ '/' (by decide) _ _),
        if_pos (by omega),
        runDirs_lit_eq,
        runDirs_dm_pad _ _ dt.day _ (by omega) (kill_lit _ '/' (by decide) _ _),
        if_pos hc1,
        runDirs_lit_eq,
        runDirs_dY_pad _ _ dt.year (by omega) _,
        runDirs_lit_eq,
        runDirs_ws_single _ _ _ (wsCount_pad2 _ _),
        runDirs_dH_pad _ _ (if dt.hour % 12 = 0 then 12 else dt.hour % 12) _ (by omega) (kill_lit _ ':' (by decide) _ _),
        if_pos (by omega),
        runDirs_lit_eq,
        runDirs_dM_last _ dt.minute _ (by omega) (by omega)]
    · exact by simp [ampm_cons, pad2_eq, pad4_eq]
  · refine strptimeF_of_none _ _ ?_
    show runDirs (Dir.dd :: [Dir.lit '/', Dir.dm, Dir.lit '/', Dir.dY, Dir.lit ',', Dir.ws, Dir.dH, Dir.lit ':', Dir.dM]) {} _ = _
    rw [runDirs_dd_pad _ _ dt.month _ (by omega) (kill_lit _ '/' (by decide) _ _),
      if_pos (by omega),
      runDirs_lit_eq,
      runDirs_dm_pad _ _ dt.day _ (by omega) (kill_lit _ '/' (by decide) _ _),
      if_neg hc1]

theorem c4fail_2_5 (dt : DT) (h : Rep fmt5 dt) :
    strptimeF fmt2 (render fmt5 dt) = none := by
  obtain ⟨hval, hyr, hsec⟩ := h
  simp only [validPy] at hval
  obtain ⟨h1y, h2y, h1m, h2m, h1d, h2d, hH, hMi, hSs⟩ := hval
  have hyr' : 1000 ≤ dt.year ∧ dt.year ≤ 9999 := by
    rw [if_neg (by decide)] at hyr
    exact hyr
  have hd31 : dt.day ≤ 31 := le_trans h2d (daysInMonth_le _ _)
  have hBi : 1 ≤ (if dt.hour % 12 = 0 then 12 else dt.hour % 12) ∧ (if dt.hour % 12 = 0 then 12 else dt.hour % 12) ≤ 12 := by
    split_ifs <;> omega
  rw [c4render5_eq]
  by_cases hc1 : 1 ≤ dt.day ∧ dt.day ≤ 12
  · refine strptimeF_of_none _ _ ?_
    show runDirs (Dir.dd :: [Dir.lit '/', Dir.dm, Dir.lit '/', Dir.dy, Dir.ws, Dir.dH, Dir.lit ':', Dir.dM]) {} _ = _
    rw [runDirs_dd_pad _ _ dt.month _ (by omega) (kill_lit _ '/' (by decide) _ _),
      if_pos (by omega),
      runDirs_lit_eq,
      runDirs_dm_pad _ _ dt.day _ (by omega) (kill_lit _ '/' (by decide) _ _),
      if_pos hc1,
      runDirs_lit_eq,
      pad4_as_pad2,
      runDirs_dy_pad _ _ (dt.year / 100) _ (by omega),
      runDirs_ws_pad2]
  · refine strptimeF_of_none _ _ ?_
    show runDirs (Dir.dd :: [Dir.lit '/', Dir.dm, Dir.lit '/', Dir.dy, Dir.ws, Dir.dH, Dir.lit ':', Dir.dM]) {} _ = _
    rw [runDirs_dd_pad _ _ dt.month _ (by omega) (kill_lit _ '/' (by decide) _ _),
      if_pos (by omega),
      runDirs_lit_eq,
      runDirs_dm_pad _ _ dt.day _ (by omega) (kill_lit _ '/' (by decide) _ _),
      if_neg hc1]

theorem c4fail_3_5 (dt : DT) (h : Rep fmt5 dt) :
    strptimeF fmt3 (render fmt5 dt) = none := by
  obtain ⟨hval, hyr, hsec⟩ := h
  simp only [validPy] at hval
  obtain ⟨h1y, h2y, h1m, h2m, h1d, h2d, hH, hMi, hSs⟩ := hval
  have hyr' : 1000 ≤ dt.year ∧ dt.year ≤ 9999 := by
    rw [if_neg (by decide)] at hyr
    exact hyr
  have hd31 : dt.day ≤ 31 := le_trans h2d (daysInMonth_le _ _)
  have hBi : 1 ≤ (if dt.hour % 12 = 0 then 12 else dt.hour % 12) ∧ (if dt.hour % 12 = 0 then 12 else dt.hour % 12) ≤ 12 := by
    split_ifs <;> omega
  rw [c4render5_eq]
  by_cases hc1 : 1 ≤ dt.day ∧ dt.day ≤ 12
  · refine strptimeF_of_none _ _ ?_
    show runDirs (Dir.dd :: [Dir.lit '/', Dir.dm, Dir.lit '/', Dir.dy, Dir.lit ',', Dir.ws, Dir.dH, Dir.lit ':', Dir.dM]) {} _ = _
    rw [runDirs_dd_pad _ _ dt.month _ (by omega) (kill_lit _ '/' (by decide) _ _),
      if_pos (by omega),
      runDirs_lit_eq,
      runDirs_dm_pad _ _ dt.day _ (by omega) (kill_lit _ '/' (by decide) _ _),
      if_pos hc1,
      runDirs_lit_eq,
      pad4_as_pad2,
      runDirs_dy_pad _ _ (dt.year / 100) _ (by omega),
      runDirs_lit_pad2 _ _ _ _ _ (by decide)]
  · refine strptimeF_of_none _ _ ?_
    show runDirs (Dir.dd :: [Dir.lit '/', Dir.dm, Dir.lit '/', Dir.dy, Dir.lit ',', Dir.ws, Dir.dH, Dir.lit ':', Dir.dM]) {} _ = _
    rw [runDirs_dd_pad _ _ dt.month _ (by omega) (kill_lit _ '/' (by decide) _ _),
      if_pos (by omega),
      runDirs_lit_eq,
      runDirs_dm_pad _ _ dt.day _ (by omega) (kill_lit _ '/' (by decide) _ _),
      if_neg hc1]

theorem c4fail_4_5 (dt : DT) (h : Rep fmt5 dt) :
    strptimeF fmt4 (render fmt5 dt) = none := by
  obtain ⟨hval, hyr, hsec⟩ := h
  simp only [validPy] at hval
  obtain ⟨h1y, h2y, h1m, h2m, h1d, h2d, hH, hMi, hSs⟩ := hval
  have hyr' : 1000 ≤ dt.year ∧ dt.year ≤ 9999 := by
    rw [if_neg (by decide)] at hyr
    exact hyr
  have hd31 : dt.day ≤ 31 := le_trans h2d (daysInMonth_le _ _)
  have hBi : 1 ≤ (if dt.hour % 12 = 0 then 12 else dt.hour % 12) ∧ (if dt.hour % 12 = 0 then 12 else dt.hour % 12) ≤ 12 := by
    split_ifs <;> omega
  rw [c4render5_eq]
  refine strptimeF_of_none _ _ ?_
  show runDirs (Dir.dm :: [Dir.lit '/', Dir.dd, Dir.lit '/', Dir.dY, Dir.ws, Dir.dI, Dir.lit ':', Dir.dM, Dir.ws, Dir.dp]) {} _ = _
  rw [runDirs_dm_pad _ _ dt.month _ (by omega) (kill_lit _ '/' (by decide) _ _),
    if_pos (by omega),
    runDirs_lit_eq,
    runDirs_dd_pad _ _ dt.day _ (by omega) (kill_lit _ '/' (by decide) _ _),
    if_pos (by omega),
    runDirs_lit_eq,
    runDirs_dY_pad _ _ dt.year (by omega) _,
    runDirs_ws_none _ _ _ _ (by decide)]

theorem c4rt5 (dt : DT) (h : Rep fmt5 dt) :
    parseTimestampCore (render fmt5 dt) = some dt := by
  rw [parseTimestampCore_eq, c4trim5]
  simp only [formats]
  rw [tryFormats_cons_none _ _ _ (c4fail_0_5 dt h),
    tryFormats_cons_none _ _ _ (c4fail_1_5 dt h),
    tryFormats_cons_none _ _ _ (c4fail_2_5 dt h),
    tryFormats_cons_none _ _ _ (c4fail_3_5 dt h),
    tryFormats_cons_none _ _ _ (c4fail_4_5 dt h),
    tryFormats_cons_some _ _ _ _ (c4self5 dt h)]

theorem c4render6_eq (dt : DT) :
    render fmt6 dt
      = pad2 dt.month ++ ('/' :: (pad2 dt.day ++ ('/' :: (pad2 (dt.year % 100) ++ (' ' :: (pad2 (if dt.hour % 12 = 0 then 12 else dt.hour % 12) ++ (':' :: (pad2 dt.minute ++ (' ' :: ((if dt.hour < 12 then ['A', 'M'] else ['P', 'M']) ++ ([]))))))))))) := rfl

theorem c4render6_eq_am (dt : DT) (h : dt.hour < 12) :
    render fmt6 dt
      = pad2 dt.month ++ ('/' :: (pad2 dt.day ++ ('/' :: (pad2 (dt.year % 100) ++ (' ' :: (pad2 (if dt.hour % 12 = 0 then 12 else dt.hour % 12) ++ (':' :: (pad2 dt.minute ++ (' ' :: ('A' :: ('M' :: ([])))))))))))) := by
  rw [c4render6_eq, if_pos h]
  rfl
theorem c4render6_eq_pm (dt : DT) (h : ¬ dt.hour < 12) :
    render fmt6 dt
      = pad2 dt.month ++ ('/' :: (pad2 dt.day ++ ('/' :: (pad2 (dt.year % 100) ++ (' ' :: (pad2 (if dt.hour % 12 = 0 then 12 else dt.hour % 12) ++ (':' :: (pad2 dt.minute ++ (' ' :: ('P' :: ('M' :: ([])))))))))))) := by
  rw [c4render6_eq, if_neg h]
  rfl

theorem c4trim6 (dt : DT) : trimChars (render fmt6 dt) = render fmt6 dt := by
  apply trimChars_of_hl
  · rw [c4render6_eq]
    simp only [pad2_eq, pad4_eq, List.cons_append, List.nil_append]
    exact ⟨_, _, rfl, not_ws_digitChar _⟩
  · rw [c4render6_eq]
    simp only [ampm_cons, pad2_eq, pad4_eq, List.reverse_cons, List.reverse_append,
      List.append_assoc, List.cons_append, List.nil_append, List.reverse_nil,
      List.append_nil]
    exact ⟨_, _, rfl, (by decide)⟩

theorem c4self6 (dt : DT) (h : Rep fmt6 dt) :
    strptimeF fmt6 (render fmt6 dt) = some dt := by
  obtain ⟨hval, hyr, hsec⟩ := h
  simp only [validPy] at hval
  obtain ⟨h1y, h2y, h1m, h2m, h1d, h2d, hH, hMi, hSs⟩ := hval
  have hyr' : 1969 ≤ dt.year ∧ dt.year ≤ 2068 := by
    rw [if_pos (by decide)] at hyr
    exact hyr
  have hd31 : dt.day ≤ 31 := le_trans h2d (daysInMonth_le _ _)
  have hBi : 1 ≤ (if dt.hour % 12 = 0 then 12 else dt.hour % 12) ∧ (if dt.hour % 12 = 0 then 12 else dt.hour % 12) ≤ 12 := by
    split_ifs <;> omega
  have hsec0 : dt.second = 0 := by
    rcases hsec with hmem | h0
    · exact absurd hmem (by decide)
    · exact h0
  by_cases hampm : dt.hour < 12
  · rw [c4render6_eq_am dt hampm]
    have hrun : runDirs fmt6 {} (pad2 dt.month ++ ('/' :: (pad2 dt.day ++ ('/' :: (pad2 (dt.year % 100) ++ (' ' :: (pad2 (if dt.hour % 12 = 0 then 12 else dt.hour % 12) ++ (':' :: (pad2 dt.minute ++ (' ' :: ('A' :: ('M' :: ([])))))))))))))
        = some (⟨some dt.day, some dt.month, some (dt.year % 100), none, none, some (if dt.hour % 12 = 0 then 12 else dt.hour % 12), some dt.minute, none, some false⟩, []) := by
      show runDirs (Dir.dm :: [Dir.lit '/', Dir.dd, Dir.lit '/', Dir.dy, Dir.ws, Dir.dI, Dir.lit ':', Dir.dM, Dir.ws, Dir.dp]) {} _ = _
      rw [runDirs_dm_pad _ _ dt.month _ (by omega) (kill_lit _ '/' (by decide) _ _),
        if_pos (by omega),
        runDirs_lit_eq,
        runDirs_dd_pad _ _ dt.day _ (by omega) (kill_lit _ '/' (by decide) _ _),
        if_pos (by omega),
        runDirs_lit_eq,
        runDirs_dy_pad _ _ (dt.year % 100) _ (by omega),
        runDirs_ws_single _ _ _ (wsCount_pad2 _ _),
        runDirs_dI_pad _ _ (if dt.hour % 12 = 0 then 12 else dt.hour % 12) _ (by omega) (kill_lit _ ':' (by decide) _ _),
        if_pos (by omega),
        runDirs_lit_eq,
        runDirs_dM_pad _ _ dt.minute _ (by omega) (kill_ws _ _ _),
        if_pos (by omega),
        runDirs_ws_single _ _ _ (wsCount_not _ _ (by decide)),
        runDirs_dp_AM,
        runDirs_nil_eq]
    rw [strptimeF_of_done _ _ _ hrun]
    unfold buildDT
    dsimp only
    simp only [Option.getD_some, Option.getD_none]
    have hYr : (if dt.year % 100 ≤ 68 then dt.year % 100 + 2000
        else dt.year % 100 + 1900) = dt.year := by
      split_ifs <;> omega
    rw [hYr]
    have hHr : (if (if dt.hour % 12 = 0 then 12 else dt.hour % 12) = 12 then 0 else (if dt.hour % 12 = 0 then 12 else dt.hour % 12)) = dt.hour := by
      split_ifs <;> omega
    rw [hHr]
    rw [mkDT, if_pos (by omega)]
    rw [← hsec0]
  · rw [c4render6_eq_pm dt hampm]
    have hrun : runDirs fmt6 {} (pad2 dt.month ++ ('/' :: (pad2 dt.day ++ ('/' :: (pad2 (dt.year % 100) ++ (' ' :: (pad2 (if dt.hour % 12 = 0 then 12 else dt.hour % 12) ++ (':' :: (pad2 dt.minute ++ (' ' :: ('P' :: ('M' :: ([])))))))))))))
        = some (⟨some dt.day, some dt.month, some (dt.year % 100), none, none, some (if dt.hour % 12 = 0 then 12 else dt.hour % 12), some dt.minute, none, some true⟩, []) := by
      show runDirs (Dir.dm :: [Dir.lit '/', Dir.dd, Dir.lit '/', Dir.dy, Dir.ws, Dir.dI, Dir.lit ':', Dir.dM, Dir.ws, Dir.dp]) {} _ = _
      rw [runDirs_dm_pad _ _ dt.month _ (by omega) (kill_lit _ '/' (by decide) _ _),
        if_pos (by omega),
        runDirs_lit_eq,
        runDirs_dd_pad _ _ dt.day _ (by omega) (kill_lit _ '/' (by decide) _ _),
        if_pos (by omega),
        runDirs_lit_eq,
        runDirs_dy_pad _ _ (dt.year % 100) _ (by omega),
        runDirs_ws_single _ _ _ (wsCount_pad2 _ _),
        runDirs_dI_pad _ _ (if dt.hour % 12 = 0 then 12 else dt.hour % 12) _ (by omega) (kill_lit _ ':' (by decide) _ _),
        if_pos (by omega),
        runDirs_lit_eq,
        runDirs_dM_pad _ _ dt.minute _ (by omega) (kill_ws _ _ _),
        if_pos (by omega),
        runDirs_ws_single _ _ _ (wsCount_not _ _ (by decide)),
        runDirs_dp_PM,
        runDirs_nil_eq]
    rw [strptimeF_of_done _ _ _ hrun]
    unfold buildDT
    dsimp only
    simp only [Option.getD_some, Option.getD_none]
    have hYr : (if dt.year % 100 ≤ 68 then dt.year % 100 + 2000
        else dt.year % 100 + 1900) = dt.year := by
      split_ifs <;> omega
    rw [hYr]
    have hHr : (if (if dt.hour % 12 = 0 then 12 else dt.hour % 12) = 12 then 12 else (if dt.hour % 12 = 0 then 12 else dt.hour % 12) + 12) = dt.hour := by
      split_ifs <;> omega
    rw [hHr]
    rw [mkDT, if_pos (by omega)]
    rw [← hsec0]

theorem c4fail_0_6 (dt : DT) (h : Rep fmt6 dt) :
    strptimeF fmt0 (render fmt6 dt) = none := by
  obtain ⟨hval, hyr, hsec⟩ := h
  simp only [validPy] at hval
  obtain ⟨h1y, h2y, h1m, h2m, h1d, h2d, hH, hMi, hSs⟩ := hval
  have hyr' : 1969 ≤ dt.year ∧ dt.year ≤ 2068 := by
    rw [if_pos (by decide)] at hyr
    exact hyr
  have hd31 : dt.day ≤ 31 := le_trans h2d (daysInMonth_le _ _)
  have hBi : 1 ≤ (if dt.hour % 12 = 0 then 12 else dt.hour % 12) ∧ (if dt.hour % 12 = 0 then 12 else dt.hour % 12) ≤ 12 := by
    split_ifs <;> omega
  rw [c4render6_eq]
  by_cases hc1 : 1 ≤ dt.day ∧ dt.day ≤ 12
  · refine strptimeF_of_none _ _ ?_
    show runDirs (Dir.dd :: [Dir.lit '/', Dir.dm, Dir.lit '/', Dir.dY, Dir.ws, Dir.dH, Dir.lit ':', Dir.dM]) {} _ = _
    rw [runDirs_dd_pad _ _ dt.month _ (by omega) (kill_lit _ '/' (by decide) _ _),
      if_pos (by omega),
      runDirs_lit_eq,
      runDirs_dm_pad _ _ dt.day _ (by omega) (kill_lit _ '/' (by decide) _ _),
      if_pos hc1,
      runDirs_lit_eq,
      runDirs_dY_pad2_sep _ _ _ _ _ (by decide)]
  · refine strptimeF_of_none _ _ ?_
    show runDirs (Dir.dd :: [Dir.lit '/', Dir.dm, Dir.lit '/', Dir.dY, Dir.ws, Dir.dH, Dir.lit ':', Dir.dM]) {} _ = _
    rw [runDirs_dd_pad _ _ dt.month _ (by omega) (kill_lit _ '/' (by decide) _ _),
      if_pos (by omega),
      runDirs_lit_eq,
      runDirs_dm_pad _ _ dt.day _ (by omega) (kill_lit _ '/' (by decide) _ _),
      if_neg hc1]

theorem c4fail_1_6 (dt : DT) (h : Rep fmt6 dt) :
    strptimeF fmt1 (render fmt6 dt) = none := by
  obtain ⟨hval, hyr, hsec⟩ := h
  simp only [validPy] at hval
  obtain ⟨h1y, h2y, h1m, h2m, h1d, h2d, hH, hMi, hSs⟩ := hval
  have hyr' : 1969 ≤ dt.year ∧ dt.year ≤ 2068 := by
    rw [if_pos (by decide)] at hyr
    exact hyr
  have hd31 : dt.day ≤ 31 := le_trans h2d (daysInMonth_le _ _)
  have hBi : 1 ≤ (if dt.hour % 12 = 0 then 12 else dt.hour % 12) ∧ (if dt.hour % 12 = 0 then 12 else dt.hour % 12) ≤ 12 := by
    split_ifs <;> omega
  rw [c4render6_eq]
  by_cases hc1 : 1 ≤ dt.day ∧ dt.day ≤ 12
  · refine strptimeF_of_none _ _ ?_
    show runDirs (Dir.dd :: [Dir.lit '/', Dir.dm, Dir.lit '/', Dir.dY, Dir.lit ',', Dir.ws, Dir.dH, Dir.lit ':', Dir.dM]) {} _ = _
    rw [runDirs_dd_pad _ _ dt.month _ (by omega) (kill_lit _ '/' (by decide) _ _),
      if_pos (by omega),
      runDirs_lit_eq,
      runDirs_dm_pad _ _ dt.day _ (by omega) (kill_lit _ '/' (by decide) _ _),
      if_pos hc1,
      runDirs_lit_eq,
      runDirs_dY_pad2_sep _ _ _ _ _ (by decide)]
  · refine strptimeF_of_none _ _ ?_
    show runDirs (Dir.dd :: [Dir.lit '/', Dir.dm, Dir.lit '/', Dir.dY, Dir.lit ',', Dir.ws, Dir.dH, Dir.lit ':', Dir.dM]) {} _ = _
    rw [runDirs_dd_pad _ _ dt.month _ (by omega) (kill_lit _ '/' (by decide) _ _),
      if_pos (by omega),
      runDirs_lit_eq,
      runDirs_dm_pad _ _ dt.day _ (by omega) (kill_lit _ '/' (by decide) _ _),
      if_neg hc1]

theorem c4fail_2_6 (dt : DT) (h : Rep fmt6 dt) :
    strptimeF fmt2 (render fmt6 dt) = none := by
  obtain ⟨hval, hyr, hsec⟩ := h
  simp only [validPy] at hval
  obtain ⟨h1y, h2y, h1m, h2m, h1d, h2d, hH, hMi, hSs⟩ := hval
  have hyr' : 1969 ≤ dt.year ∧ dt.year ≤ 2068 := by
    rw [if_pos (by decide)] at hyr
    exact hyr
  have hd31 : dt.day ≤ 31 := le_trans h2d (daysInMonth_le _ _)
  have hBi : 1 ≤ (if dt.hour % 12 = 0 then 12 else dt.hour % 12) ∧ (if dt.hour % 12 = 0 then 12 else dt.hour % 12) ≤ 12 := by
    split_ifs <;> omega
  rw [c4render6_eq]
  by_cases hc1 : 1 ≤ dt.day ∧ dt.day ≤ 12
  · refine strptimeF_of_rest_ne _ _ (⟨some dt.month, some dt.day, some (dt.year % 100), none, some (if dt.hour % 12 = 0 then 12 else dt.hour % 12), none, some dt.minute, none, none⟩)
      (' ' :: ((if dt.hour < 12 then ['A', 'M'] else ['P', 'M']) ++ ([]))) ?_ ?_
    · show runDirs (Dir.dd :: [Dir.lit '/', Dir.dm, Dir.lit '/', Dir.dy, Dir.ws, Dir.dH, Dir.lit ':', Dir.dM]) {} _ = _
      rw [runDirs_dd_pad _ _ dt.month _ (by omega) (kill_lit _ '/' (by decide) _ _),
        if_pos (by omega),
        runDirs_lit_eq,
        runDirs_dm_pad _ _ dt.day _ (by omega) (kill_lit _ '/' (by decide) _ _),
        if_pos hc1,
        runDirs_lit_eq,
        runDirs_dy_pad _ _ (dt.year % 100) _ (by omega),
        runDirs_ws_single _ _ _ (wsCount_pad2 _ _),
        runDirs_dH_pad _ _ (if dt.hour % 12 = 0 then 12 else dt.hour % 12) _ (by omega) (kill_lit _ ':' (by decide) _ _),
        if_pos (by omega),
        runDirs_lit_eq,
        runDirs_dM_last _ dt.minute _ (by omega) (by omega)]
    · exact by simp [ampm_cons, pad2_eq, pad4_eq]
  · refine strptimeF_of_none _ _ ?_
    show runDirs (Dir.dd :: [Dir.lit '/', Dir.dm, Dir.lit '/', Dir.dy, Dir.ws, Dir.dH, Dir.lit ':', Dir.dM]) {} _ = _
    rw [runDirs_dd_pad _ _ dt.month _ (by omega) (kill_lit _ '/' (by decide) _ _),
      if_pos (by omega),
      runDirs_lit_eq,
      runDirs_dm_pad _ _ dt.day _ (by omega) (kill_lit _ '/' (by decide) _ _),
      if_neg hc1]

theorem c4fail_3_6 (dt : DT) (h : Rep fmt6 dt) :
    strptimeF fmt3 (render fmt6 dt) = none := by
  obtain ⟨hval, hyr, hsec⟩ := h
  simp only [validPy] at hval
  obtain ⟨h1y, h2y, h1m, h2m, h1d, h2d, hH, hMi, hSs⟩ := hval
  have hyr' : 1969 ≤ dt.year ∧ dt.year ≤ 2068 := by
    rw [if_pos (by decide)] at hyr
    exact hyr
  have hd31 : dt.day ≤ 31 := le_trans h2d (daysInMonth_le _ _)
  have hBi : 1 ≤ (if dt.hour % 12 = 0 then 12 else dt.hour % 12) ∧ (if dt.hour % 12 = 0 then 12 else dt.hour % 12) ≤ 12 := by
    split_ifs <;> omega
  rw [c4render6_eq]
  by_cases hc1 : 1 ≤ dt.day ∧ dt.day ≤ 12
  · refine strptimeF_of_none _ _ ?_
    show runDirs (Dir.dd :: [Dir.lit '/', Dir.dm, Dir.lit '/', Dir.dy, Dir.lit ',', Dir.ws, Dir.dH, Dir.lit ':', Dir.dM]) {} _ = _
    rw [runDirs_dd_pad _ _ dt.month _ (by omega) (kill_lit _ '/' (by decide) _ _),
      if_pos (by omega),
      runDirs_lit_eq,
      runDirs_dm_pad _ _ dt.day _ (by omega) (kill_lit _ '/' (by decide) _ _),
      if_pos hc1,
      runDirs_lit_eq,
      runDirs_dy_pad _ _ (dt.year % 100) _ (by omega),
      runDirs_lit_ne _ _ _ _ _ (by decide)]
  · refine strptimeF_of_none _ _ ?_
    show runDirs (Dir.dd :: [Dir.lit '/', Dir.dm, Dir.lit '/', Dir.dy, Dir.lit ',', Dir.ws, Dir.dH, Dir.lit ':', Dir.dM]) {} _ = _
    rw [runDirs_dd_pad _ _ dt.month _ (by omega) (kill_lit _ '/' (by decide) _ _),
      if_pos (by omega),
      runDirs_lit_eq,
      runDirs_dm_pad _ _ dt.day _ (by omega) (kill_lit _ '/' (by decide) _ _),
      if_neg hc1]

theorem c4fail_4_6 (dt : DT) (h : Rep fmt6 dt) :
    strptimeF fmt4 (render fmt6 dt) = none := by
  obtain ⟨hval, hyr, hsec⟩ := h
  simp only [validPy] at hval
  obtain ⟨h1y, h2y, h1m, h2m, h1d, h2d, hH, hMi, hSs⟩ := hval
  have hyr' : 1969 ≤ dt.year ∧ dt.year ≤ 2068 := by
    rw [if_pos (by decide)] at hyr
    exact hyr
  have hd31 : dt.day ≤ 31 := le_trans h2d (daysInMonth_le _ _)
  have hBi : 1 ≤ (if dt.hour % 12 = 0 then 12 else dt.hour % 12) ∧ (if dt.hour % 12 = 0 then 12 else dt.hour % 12) ≤ 12 := by
    split_ifs <;> omega
  rw [c4render6_eq]
  refine strptimeF_of_none _ _ ?_
  show runDirs (Dir.dm :: [Dir.lit '/', Dir.dd, Dir.lit '/', Dir.dY, Dir.ws, Dir.dI, Dir.lit ':', Dir.dM, Dir.ws, Dir.dp]) {} _ = _
  rw [runDirs_dm_pad _ _ dt.month _ (by omega) (kill_lit _ '/' (by decide) _ _),
    if_pos (by omega),
    runDirs_lit_eq,
    runDirs_dd_pad _ _ dt.day _ (by omega) (kill_lit _ '/' (by decide) _ _),
    if_pos (by omega),
    runDirs_lit_eq,
    runDirs_dY_pad2_sep _ _ _ _ _ (by decide)]

theorem c4fail_5_6 (dt : DT) (h : Rep fmt6 dt) :
    strptimeF fmt5 (render fmt6 dt) = none := by
  obtain ⟨hval, hyr, hsec⟩ := h
  simp only [validPy] at hval
  obtain ⟨h1y, h2y, h1m, h2m, h1d, h2d, hH, hMi, hSs⟩ := hval
  have hyr' : 1969 ≤ dt.year ∧ dt.year ≤ 2068 := by
    rw [if_pos (by decide)] at hyr
    exact hyr
  have hd31 : dt.day ≤ 31 := le_trans h2d (daysInMonth_le _ _)
  have hBi : 1 ≤ (if dt.hour % 12 = 0 then 12 else dt.hour % 12) ∧ (if dt.hour % 12 = 0 then 12 else dt.hour % 12) ≤ 12 := by
    split_ifs <;> omega
  rw [c4render6_eq]
  refine strptimeF_of_none _ _ ?_
  show runDirs (Dir.dm :: [Dir.lit '/', Dir.dd, Dir.lit '/', Dir.dY, Dir.lit ',', Dir.ws, Dir.dI, Dir.lit ':', Dir.dM, Dir.ws, Dir.dp]) {} _ = _
  rw [runDirs_dm_pad _ _ dt.month _ (by omega) (kill_lit _ '/' (by decide) _ _),
    if_pos (by omega),
    runDirs_lit_eq,
    runDirs_dd_pad _ _ dt.day _ (by omega) (kill_lit _ '/' (by decide) _ _),
    if_pos (by omega),
    runDirs_lit_eq,
    runDirs_dY_pad2_sep _ _ _ _ _ (by decide)]

theorem c4rt6 (dt : DT) (h : Rep fmt6 dt) :
    parseTimestampCore (render fmt6 dt) = some dt := by
  rw [parseTimestampCore_eq, c4trim6]
  simp only [formats]
  rw [tryFormats_cons_none _ _ _ (c4fail_0_6 dt h),
    tryFormats_cons_none _ _ _ (c4fail_1_6 dt h),
    tryFormats_cons_none _ _ _ (c4fail_2_6 dt h),
    tryFormats_cons_none _ _ _ (c4fail_3_6 dt h),
    tryFormats_cons_none _ _ _ (c4fail_4_6 dt h),
    tryFormats_cons_none _ _ _ (c4fail_5_6 dt h),
    tryFormats_cons_some _ _ _ _ (c4self6 dt h)]

theorem c4render7_eq (dt : DT) :
    render fmt7 dt
      = pad2 dt.month ++ ('/' :: (pad2 dt.day ++ ('/' :: (pad2 (dt.year % 100) ++ (',' :: (' ' :: (pad2 (if dt.hour % 12 = 0 then 12 else dt.hour % 12) ++ (':' :: (pad2 dt.minute ++ (' ' :: ((if dt.hour < 12 then ['A', 'M'] else ['P', 'M']) ++ ([])))))))))))) := rfl

theorem c4render7_eq_am (dt : DT) (h : dt.hour < 12) :
    render fmt7 dt
      = pad2 dt.month ++ ('/' :: (pad2 dt.day ++ ('/' :: (pad2 (dt.year % 100) ++ (',' :: (' ' :: (pad2 (if dt.hour % 12 = 0 then 12 else dt.hour % 12) ++ (':' :: (pad2 dt.minute ++ (' ' :: ('A' :: ('M' :: ([]))))))))))))) := by
  rw [c4render7_eq, if_pos h]
  rfl
theorem c4render7_eq_pm (dt : DT) (h : ¬ dt.hour < 12) :
    render fmt7 dt
      = pad2 dt.month ++ ('/' :: (pad2 dt.day ++ ('/' :: (pad2 (dt.year % 100) ++ (',' :: (' ' :: (pad2 (if dt.hour % 12 = 0 then 12 else dt.hour % 12) ++ (':' :: (pad2 dt.minute ++ (' ' :: ('P' :: ('M' :: ([]))))))))))))) := by
  rw [c4render7_eq, if_neg h]
  rfl

theorem c4trim7 (dt : DT) : trimChars (render fmt7 dt) = render fmt7 dt := by
  apply trimChars_of_hl
  · rw [c4render7_eq]
    simp only [pad2_eq, pad4_eq, List.cons_append, List.nil_append]
    exact ⟨_, _, rfl, not_ws_digitChar _⟩
  · rw [c4render7_eq]
    simp only [ampm_cons, pad2_eq, pad4_eq, List.reverse_cons, List.reverse_append,
      List.append_assoc, List.cons_append, List.nil_append, List.reverse_nil,
      List.append_nil]
    exact ⟨_, _, rfl, (by decide)⟩

theorem c4self7 (dt : DT) (h : Rep fmt7 dt) :
    strptimeF fmt7 (render fmt7 dt) = some dt := by
  obtain ⟨hval, hyr, hsec⟩ := h
  simp only [validPy] at hval
  obtain ⟨h1y, h2y, h1m, h2m, h1d, h2d, hH, hMi, hSs⟩ := hval
  have hyr' : 1969 ≤ dt.year ∧ dt.year ≤ 2068 := by
    rw [if_pos (by decide)] at hyr
    exact hyr
  have hd31 : dt.day ≤ 31 := le_trans h2d (daysInMonth_le _ _)
  have hBi : 1 ≤ (if dt.hour % 12 = 0 then 12 else dt.hour % 12) ∧ (if dt.hour % 12 = 0 then 12 else dt.hour % 12) ≤ 12 := by
    split_ifs <;> omega
  have hsec0 : dt.second = 0 := by
    rcases hsec with hmem | h0
    · exact absurd hmem (by decide)
    · exact h0
  by_cases hampm : dt.hour < 12
  · rw [c4render7_eq_am dt hampm]
    have hrun : runDirs fmt7 {} (pad2 dt.month ++ ('/' :: (pad2 dt.day ++ ('/' :: (pad2 (dt.year % 100) ++ (',' :: (' ' :: (pad2 (if dt.hour % 12 = 0 then 12 else dt.hour % 12) ++ (':' :: (pad2 dt.minute ++ (' ' :: ('A' :: ('M' :: ([]))))))))))))))
        = some (⟨some dt.day, some dt.month, some (dt.year % 100), none, none, some (if dt.hour % 12 = 0 then 12 else dt.hour % 12), some dt.minute, none, some false⟩, []) := by
      show runDirs (Dir.dm :: [Dir.lit '/', Dir.dd, Dir.lit '/', Dir.dy, Dir.lit ',', Dir.ws, Dir.dI, Dir.lit ':', Dir.dM, Dir.ws, Dir.dp]) {} _ = _
      rw [runDirs_dm_pad _ _ dt.month _ (by omega) (kill_lit _ '/' (by decide) _ _),
        if_pos (by omega),
        runDirs_lit_eq,
        runDirs_dd_pad _ _ dt.day _ (by omega) (kill_lit _ '/' (by decide) _ _),
        if_pos (by omega),
        runDirs_lit_eq,
        runDirs_dy_pad _ _ (dt.year % 100) _ (by omega),
        runDirs_lit_eq,
        runDirs_ws_single _ _ _ (wsCount_pad2 _ _),
        runDirs_dI_pad _ _ (if dt.hour % 12 = 0 then 12 else dt.hour % 12) _ (by omega) (kill_lit _ ':' (by decide) _ _),
        if_pos (by omega),
        runDirs_lit_eq,
        runDirs_dM_pad _ _ dt.minute _ (by omega) (kill_ws _ _ _),
        if_pos (by omega),
        runDirs_ws_single _ _ _ (wsCount_not _ _ (by decide)),
        runDirs_dp_AM,
        runDirs_nil_eq]
    rw [strptimeF_of_done _ _ _ hrun]
    unfold buildDT
    dsimp only
    simp only [Option.getD_some, Option.getD_none]
    have hYr : (if dt.year % 100 ≤ 68 then dt.year % 100 + 2000
        else dt.year % 100 + 1900) = dt.year := by
      split_ifs <;> omega
    rw [hYr]
    have hHr : (if (if dt.hour % 12 = 0 then 12 else dt.hour % 12) = 12 then 0 else (if dt.hour % 12 = 0 then 12 else dt.hour % 12)) = dt.hour := by
      split_ifs <;> omega
    rw [hHr]
    rw [mkDT, if_pos (by omega)]
    rw [← hsec0]
  · rw [c4render7_eq_pm dt hampm]
    have hrun : runDirs fmt7 {} (pad2 dt.month ++ ('/' :: (pad2 dt.day ++ ('/' :: (pad2 (dt.year % 100) ++ (',' :: (' ' :: (pad2 (if dt.hour % 12 = 0 then 12 else dt.hour % 12) ++ (':' :: (pad2 dt.minute ++ (' ' :: ('P' :: ('M' :: ([]))))))))))))))
        = some (⟨some dt.day, some dt.month, some (dt.year % 100), none, none, some (if dt.hour % 12 = 0 then 12 else dt.hour % 12), some dt.minute, none, some true⟩, []) := by
      show runDirs (Dir.dm :: [Dir.lit '/', Dir.dd, Dir.lit '/', Dir.dy, Dir.lit ',', Dir.ws, Dir.dI, Dir.lit ':', Dir.dM, Dir.ws, Dir.dp]) {} _ = _
      rw [runDirs_dm_pad _ _ dt.month _ (by omega) (kill_lit _ '/' (by decide) _ _),
        if_pos (by omega),
        runDirs_lit_eq,
        runDirs_dd_pad _ _ dt.day _ (by omega) (kill_lit _ '/' (by decide) _ _),
        if_pos (by omega),
        runDirs_lit_eq,
        runDirs_dy_pad _ _ (dt.year % 100) _ (by omega),
        runDirs_lit_eq,
        runDirs_ws_single _ _ _ (wsCount_pad2 _ _),
        runDirs_dI_pad _ _ (if dt.hour % 12 = 0 then 12 else dt.hour % 12) _ (by omega) (kill_lit _ ':' (by decide) _ _),
        if_pos (by omega),
        runDirs_lit_eq,
        runDirs_dM_pad _ _ dt.minute _ (by omega) (kill_ws _ _ _),
        if_pos (by omega),
        runDirs_ws_single _ _ _ (wsCount_not _ _ (by decide)),
        runDirs_dp_PM,
        runDirs_nil_eq]
    rw [strptimeF_of_done _ _ _ hrun]
    unfold buildDT
    dsimp only
    simp only [Option.getD_some, Option.getD_none]
    have hYr : (if dt.year % 100 ≤ 68 then dt.year % 100 + 2000
        else dt.year % 100 + 1900) = dt.year := by
      split_ifs <;> omega
    rw [hYr]
    have hHr : (if (if dt.hour % 12 = 0 then 12 else dt.hour % 12) = 12 then 12 else (if dt.hour % 12 = 0 then 12 else dt.hour % 12) + 12) = dt.hour := by
      split_ifs <;> omega
    rw [hHr]
    rw [mkDT, if_pos (by omega)]
    rw [← hsec0]

theorem c4fail_0_7 (dt : DT) (h : Rep fmt7 dt) :
    strptimeF fmt0 (render fmt7 dt) = none := by
  obtain ⟨hval, hyr, hsec⟩ := h
  simp only [validPy] at hval
  obtain ⟨h1y, h2y, h1m, h2m, h1d, h2d, hH, hMi, hSs⟩ := hval
  have hyr' : 1969 ≤ dt.year ∧ dt.year ≤ 2068 := by
    rw [if_pos (by decide)] at hyr
    exact hyr
  have hd31 : dt.day ≤ 31 := le_trans h2d (daysInMonth_le _ _)
  have hBi : 1 ≤ (if dt.hour % 12 = 0 then 12 else dt.hour % 12) ∧ (if dt.hour % 12 = 0 then 12 else dt.hour % 12) ≤ 12 := by
    split_ifs <;> omega
  rw [c4render7_eq]
  by_cases hc1 : 1 ≤ dt.day ∧ dt.day ≤ 12
  · refine strptimeF_of_none _ _ ?_
    show runDirs (Dir.dd :: [Dir.lit '/', Dir.dm, Dir.lit '/', Dir.dY, Dir.ws, Dir.dH, Dir.lit ':', Dir.dM]) {} _ = _
    rw [runDirs_dd_pad _ _ dt.month _ (by omega) (kill_lit _ '/' (by decide) _ _),
      if_pos (by omega),
      runDirs_lit_eq,
      runDirs_dm_pad _ _ dt.day _ (by omega) (kill_lit _ '/' (by decide) _ _),
      if_pos hc1,
      runDirs_lit_eq,
      runDirs_dY_pad2_sep _ _ _ _ _ (by decide)]
  · refine strptimeF_of_none _ _ ?_
    show runDirs (Dir.dd :: [Dir.lit '/', Dir.dm, Dir.lit '/', Dir.dY, Dir.ws, Dir.dH, Dir.lit ':', Dir.dM]) {} _ = _
    rw [runDirs_dd_pad _ _ dt.month _ (by omega) (kill_lit _ '/' (by decide) _ _),
      if_pos (by omega),
      runDirs_lit_eq,
      runDirs_dm_pad _ _ dt.day _ (by omega) (kill_lit _ '/' (by decide) _ _),
      if_neg hc1]

theorem c4fail_1_7 (dt : DT) (h : Rep fmt7 dt) :
    strptimeF fmt1 (render fmt7 dt) = none := by
  obtain ⟨hval, hyr, hsec⟩ := h
  simp only [validPy] at hval
  obtain ⟨h1y, h2y, h1m, h2m, h1d, h2d, hH, hMi, hSs⟩ := hval
  have hyr' : 1969 ≤ dt.year ∧ dt.year ≤ 2068 := by
    rw [if_pos (by decide)] at hyr
    exact hyr
  have hd31 : dt.day ≤ 31 := le_trans h2d (daysInMonth_le _ _)
  have hBi : 1 ≤ (if dt.hour % 12 = 0 then 12 else dt.hour % 12) ∧ (if dt.hour % 12 = 0 then 12 else dt.hour % 12) ≤ 12 := by
    split_ifs <;> omega
  rw [c4render7_eq]
  by_cases hc1 : 1 ≤ dt.day ∧ dt.day ≤ 12
  · refine strptimeF_of_none _ _ ?_
    show runDirs (Dir.dd :: [Dir.lit '/', Dir.dm, Dir.lit '/', Dir.dY, Dir.lit ',', Dir.ws, Dir.dH, Dir.lit ':', Dir.dM]) {} _ = _
    rw [runDirs_dd_pad _ _ dt.month _ (by omega) (kill_lit _ '/' (by decide) _ _),
      if_pos (by omega),
      runDirs_lit_eq,
      runDirs_dm_pad _ _ dt.day _ (by omega) (kill_lit _ '/' (by decide) _ _),
      if_pos hc1,
      runDirs_lit_eq,
      runDirs_dY_pad2_sep _ _ _ _ _ (by decide)]
  · refine strptimeF_of_none _ _ ?_
    show runDirs (Dir.dd :: [Dir.lit '/', Dir.dm, Dir.lit '/', Dir.dY, Dir.lit ',', Dir.ws, Dir.dH, Dir.lit ':', Dir.dM]) {} _ = _
    rw [runDirs_dd_pad _ _ dt.month _ (by omega) (kill_lit _ '/' (by decide) _ _),
      if_pos (by omega),
      runDirs_lit_eq,
      runDirs_dm_pad _ _ dt.day _ (by omega) (kill_lit _ '/' (by decide) _ _),
      if_neg hc1]

theorem c4fail_2_7 (dt : DT) (h : Rep fmt7 dt) :
    strptimeF fmt2 (render fmt7 dt) = none := by
  obtain ⟨hval, hyr, hsec⟩ := h
  simp only [validPy] at hval
  obtain ⟨h1y, h2y, h1m, h2m, h1d, h2d, hH, hMi, hSs⟩ := hval
  have hyr' : 1969 ≤ dt.year ∧ dt.year ≤ 2068 := by
    rw [if_pos (by decide)] at hyr
    exact hyr
  have hd31 : dt.day ≤ 31 := le_trans h2d (daysInMonth_le _ _)
  have hBi : 1 ≤ (if dt.hour % 12 = 0 then 12 else dt.hour % 12) ∧ (if dt.hour % 12 = 0 then 12 else dt.hour % 12) ≤ 12 := by
    split_ifs <;> omega
  rw [c4render7_eq]
  by_cases hc1 : 1 ≤ dt.day ∧ dt.day ≤ 12
  · refine strptimeF_of_none _ _ ?_
    show runDirs (Dir.dd :: [Dir.lit '/', Dir.dm, Dir.lit '/', Dir.dy, Dir.ws, Dir.dH, Dir.lit ':', Dir.dM]) {} _ = _
    rw [runDirs_dd_pad _ _ dt.month _ (by omega) (kill_lit _ '/' (by decide) _ _),
      if_pos (by omega),
      runDirs_lit_eq,
      runDirs_dm_pad _ _ dt.day _ (by omega) (kill_lit _ '/' (by decide) _ _),
      if_pos hc1,
      runDirs_lit_eq,
      runDirs_dy_pad _ _ (dt.year % 100) _ (by omega),
      runDirs_ws_none _ _ _ _ (by decide)]
  · refine strptimeF_of_none _ _ ?_
    show runDirs (Dir.dd :: [Dir.lit '/', Dir.dm, Dir.lit '/', Dir.dy, Dir.ws, Dir.dH, Dir.lit ':', Dir.dM]) {} _ = _
    rw [runDirs_dd_pad _ _ dt.month _ (by omega) (kill_lit _ '/' (by decide) _ _),
      if_pos (by omega),
      runDirs_lit_eq,
      runDirs_dm_pad _ _ dt.day _ (by omega) (kill_lit _ '/' (by decide) _ _),
      if_neg hc1]

theorem c4fail_3_7 (dt : DT) (h : Rep fmt7 dt) :
    strptimeF fmt3 (render fmt7 dt) = none := by
  obtain ⟨hval, hyr, hsec⟩ := h
  simp only [validPy] at hval
  obtain ⟨h1y, h2y, h1m, h2m, h1d, h2d, hH, hMi, hSs⟩ := hval
  have hyr' : 1969 ≤ dt.year ∧ dt.year ≤ 2068 := by
    rw [if_pos (by decide)] at hyr
    exact hyr
  have hd31 : dt.day ≤ 31 := le_trans h2d (daysInMonth_le _ _)
  have hBi : 1 ≤ (if dt.hour % 12 = 0 then 12 else dt.hour % 12) ∧ (if dt.hour % 12 = 0 then 12 else dt.hour % 12) ≤ 12 := by
    split_ifs <;> omega
  rw [c4render7_eq]
  by_cases hc1 : 1 ≤ dt.day ∧ dt.day ≤ 12
  · refine strptimeF_of_rest_ne _ _ (⟨some dt.month, some dt.day, some (dt.year % 100), none, some (if dt.hour % 12 = 0 then 12 else dt.hour % 12), none, some dt.minute, none, none⟩)
      (' ' :: ((if dt.hour < 12 then ['A', 'M'] else ['P', 'M']) ++ ([]))) ?_ ?_
    · show runDirs (Dir.dd :: [Dir.lit '/', Dir.dm, Dir.lit '/', Dir.dy, Dir.lit ',', Dir.ws, Dir.dH, Dir.lit ':', Dir.dM]) {} _ = _
      rw [runDirs_dd_pad _ _ dt.month _ (by omega) (kill_lit _ '/' (by decide) _ _),
        if_pos (by omega),
        runDirs_lit_eq,
        runDirs_dm_pad _ _ dt.day _ (by omega) (kill_lit _ '/' (by decide) _ _),
        if_pos hc1,
        runDirs_lit_eq,
        runDirs_dy_pad _ _ (dt.year % 100) _ (by omega),
        runDirs_lit_eq,
        runDirs_ws_single _ _ _ (wsCount_pad2 _ _),
        runDirs_dH_pad _ _ (if dt.hour % 12 = 0 then 12 else dt.hour % 12) _ (by omega) (kill_lit _ ':' (by decide) _ _),
        if_pos (by omega),
        runDirs_lit_eq,
        runDirs_dM_last _ dt.minute _ (by omega) (by omega)]
    · exact by simp [ampm_cons, pad2_eq, pad4_eq]
  · refine strptimeF_of_none _ _ ?_
    show runDirs (Dir.dd :: [Dir.lit '/', Dir.dm, Dir.lit '/', Dir.dy, Dir.lit ',', Dir.ws, Dir.dH, Dir.lit ':', Dir.dM]) {} _ = _
    rw [runDirs_dd_pad _ _ dt.month _ (by omega) (kill_lit _ '/' (by decide) _ _),
      if_pos (by omega),
      runDirs_lit_eq,
      runDirs_dm_pad _ _ dt.day _ (by omega) (kill_lit _ '/' (by decide) _ _),
      if_neg hc1]

theorem c4fail_4_7 (dt : DT) (h : Rep fmt7 dt) :
    strptimeF fmt4 (render fmt7 dt) = none := by
  obtain ⟨hval, hyr, hsec⟩ := h
  simp only [validPy] at hval
  obtain ⟨h1y, h2y, h1m, h2m, h1d, h2d, hH, hMi, hSs⟩ := hval
  have hyr' : 1969 ≤ dt.year ∧ dt.year ≤ 2068 := by
    rw [if_pos (by decide)] at hyr
    exact hyr
  have hd31 : dt.day ≤ 31 := le_trans h2d (daysInMonth_le _ _)
  have hBi : 1 ≤ (if dt.hour % 12 = 0 then 12 else dt.hour % 12) ∧ (if dt.hour % 12 = 0 then 12 else dt.hour % 12) ≤ 12 := by
    split_ifs <;> omega
  rw [c4render7_eq]
  refine strptimeF_of_none _ _ ?_
  show runDirs (Dir.dm :: [Dir.lit '/', Dir.dd, Dir.lit '/', Dir.dY, Dir.ws, Dir.dI, Dir.lit ':', Dir.dM, Dir.ws, Dir.dp]) {} _ = _
  rw [runDirs_dm_pad _ _ dt.month _ (by omega) (kill_lit _ '/' (by decide) _ _),
    if_pos (by omega),
    runDirs_lit_eq,
    runDirs_dd_pad _ _ dt.day _ (by omega) (kill_lit _ '/' (by decide) _ _),
    if_pos (by omega),
    runDirs_lit_eq,
    runDirs_dY_pad2_sep _ _ _ _ _ (by decide)]

theorem c4fail_5_7 (dt : DT) (h : Rep fmt7 dt) :
    strptimeF fmt5 (render fmt7 dt) = none := by
  obtain ⟨hval, hyr, hsec⟩ := h
  simp only [validPy] at hval
  obtain ⟨h1y, h2y, h1m, h2m, h1d, h2d, hH, hMi, hSs⟩ := hval
  have hyr' : 1969 ≤ dt.year ∧ dt.year ≤ 2068 := by
    rw [if_pos (by decide)] at hyr
    exact hyr
  have hd31 : dt.day ≤ 31 := le_trans h2d (daysInMonth_le _ _)
  have hBi : 1 ≤ (if dt.hour % 12 = 0 then 12 else dt.hour % 12) ∧ (if dt.hour % 12 = 0 then 12 else dt.hour % 12) ≤ 12 := by
    split_ifs <;> omega
  rw [c4render7_eq]
  refine strptimeF_of_none _ _ ?_
  show runDirs (Dir.dm :: [Dir.lit '/', Dir.dd, Dir.lit '/', Dir.dY, Dir.lit ',', Dir.ws, Dir.dI, Dir.lit ':', Dir.dM, Dir.ws, Dir.dp]) {} _ = _
  rw [runDirs_dm_pad _ _ dt.month _ (by omega) (kill_lit _ '/' (by decide) _ _),
    if_pos (by omega),
    runDirs_lit_eq,
    runDirs_dd_pad _ _ dt.day _ (by omega) (kill_lit _ '/' (by decide) _ _),
    if_pos (by omega),
    runDirs_lit_eq,
    runDirs_dY_pad2_sep _ _ _ _ _ (by decide)]

theorem c4fail_6_7 (dt : DT) (h : Rep fmt7 dt) :
    strptimeF fmt6 (render fmt7 dt) = none := by
  obtain ⟨hval, hyr, hsec⟩ := h
  simp only [validPy] at hval
  obtain ⟨h1y, h2y, h1m, h2m, h1d, h2d, hH, hMi, hSs⟩ := hval
  have hyr' : 1969 ≤ dt.year ∧ dt.year ≤ 2068 := by
    rw [if_pos (by decide)] at hyr
    exact hyr
  have hd31 : dt.day ≤ 31 := le_trans h2d (daysInMonth_le _ _)
  have hBi : 1 ≤ (if dt.hour % 12 = 0 then 12 else dt.hour % 12) ∧ (if dt.hour % 12 = 0 then 12 else dt.hour % 12) ≤ 12 := by
    split_ifs <;> omega
  rw [c4render7_eq]
  refine strptimeF_of_none _ _ ?_
  show runDirs (Dir.dm :: [Dir.lit '/', Dir.dd, Dir.lit '/', Dir.dy, Dir.ws, Dir.dI, Dir.lit ':', Dir.dM, Dir.ws, Dir.dp]) {} _ = _
  rw [runDirs_dm_pad _ _ dt.month _ (by omega) (kill_lit _ '/' (by decide) _ _),
    if_pos (by omega),
    runDirs_lit_eq,
    runDirs_dd_pad _ _ dt.day _ (by omega) (kill_lit _ '/' (by decide) _ _),
    if_pos (by omega),
    runDirs_lit_eq,
    runDirs_dy_pad _ _ (dt.year % 100) _ (by omega),
    runDirs_ws_none _ _ _ _ (by decide)]

theorem c4rt7 (dt : DT) (h : Rep fmt7 dt) :
    parseTimestampCore (render fmt7 dt) = some dt := by
  rw [parseTimestampCore_eq, c4trim7]
  simp only [formats]
  rw [tryFormats_cons_none _ _ _ (c4fail_0_7 dt h),
    tryFormats_cons_none _ _ _ (c4fail_1_7 dt h),
    tryFormats_cons_none _ _ _ (c4fail_2_7 dt h),
    tryFormats_cons_none _ _ _ (c4fail_3_7 dt h),
    tryFormats_cons_none _ _ _ (c4fail_4_7 dt h),
    tryFormats_cons_none _ _ _ (c4fail_5_7 dt h),
    tryFormats_cons_none _ _ _ (c4fail_6_7 dt h),
    tryFormats_cons_some _ _ _ _ (c4self7 dt h)]

theorem c4render8_eq (dt : DT) :
    render fmt8 dt
      = pad4 dt.year ++ ('-' :: (pad2 dt.month ++ ('-' :: (pad2 dt.day ++ (' ' :: (pad2 dt.hour ++ (':' :: (pad2 dt.minute ++ ([]))))))))) := rfl


theorem c4trim8 (dt : DT) : trimChars (render fmt8 dt) = render fmt8 dt := by
  apply trimChars_of_hl
  · rw [c4render8_eq]
    simp only [pad2_eq, pad4_eq, List.cons_append, List.nil_append]
    exact ⟨_, _, rfl, not_ws_digitChar _⟩
  · rw [c4render8_eq]
    simp only [ampm_cons, pad2_eq, pad4_eq, List.reverse_cons, List.reverse_append,
      List.append_assoc, List.cons_append, List.nil_append, List.reverse_nil,
      List.append_nil]
    exact ⟨_, _, rfl, not_ws_digitChar _⟩

theorem c4self8 (dt : DT) (h : Rep fmt8 dt) :
    strptimeF fmt8 (render fmt8 dt) = some dt := by
  obtain ⟨hval, hyr, hsec⟩ := h
  simp only [validPy] at hval
  obtain ⟨h1y, h2y, h1m, h2m, h1d, h2d, hH, hMi, hSs⟩ := hval
  have hyr' : 1000 ≤ dt.year ∧ dt.year ≤ 9999 := by
    rw [if_neg (by decide)] at hyr
    exact hyr
  have hd31 : dt.day ≤ 31 := le_trans h2d (daysInMonth_le _ _)
  have hsec0 : dt.second = 0 := by
    rcases hsec with hmem | h0
    · exact absurd hmem (by decide)
    · exact h0
  rw [c4render8_eq]
  have hrun : runDirs fmt8 {} (pad4 dt.year ++ ('-' :: (pad2 dt.month ++ ('-' :: (pad2 dt.day ++ (' ' :: (pad2 dt.hour ++ (':' :: (pad2 dt.minute ++ ([]))))))))))
      = some (⟨some dt.day, some dt.month, none, some dt.year, some dt.hour, none, some dt.minute, none, none⟩, []) := by
    show runDirs (Dir.dY :: [Dir.lit '-', Dir.dm, Dir.lit '-', Dir.dd, Dir.ws, Dir.dH, Dir.lit ':', Dir.dM]) {} _ = _
    rw [runDirs_dY_pad _ _ dt.year (by omega) _,
      runDirs_lit_eq,
      runDirs_dm_pad _ _ dt.month _ (by omega) (kill_lit _ '-' (by decide) _ _),
      if_pos (by omega),
      runDirs_lit_eq,
      runDirs_dd_pad _ _ dt.day _ (by omega) (kill_ws _ _ _),
      if_pos (by omega),
      runDirs_ws_single _ _ _ (wsCount_pad2 _ _),
      runDirs_dH_pad _ _ dt.hour _ (by omega) (kill_lit _ ':' (by decide) _ _),
      if_pos (by omega),
      runDirs_lit_eq,
      runDirs_dM_last _ dt.minute _ (by omega) (by omega)]
  rw [strptimeF_of_done _ _ _ hrun]
  unfold buildDT
  dsimp only
  simp only [Option.getD_some, Option.getD_none]
  rw [mkDT, if_pos (by omega)]
  rw [← hsec0]

theorem c4fail_0_8 (dt : DT) (h : Rep fmt8 dt) :
    strptimeF fmt0 (render fmt8 dt) = none := by
  obtain ⟨hval, hyr, hsec⟩ := h
  simp only [validPy] at hval
  obtain ⟨h1y, h2y, h1m, h2m, h1d, h2d, hH, hMi, hSs⟩ := hval
  have hyr' : 1000 ≤ dt.year ∧ dt.year ≤ 9999 := by
    rw [if_neg (by decide)] at hyr
    exact hyr
  have hd31 : dt.day ≤ 31 := le_trans h2d (daysInMonth_le _ _)
  rw [c4render8_eq]
  by_cases hc1 : 1 ≤ (dt.year / 100) ∧ (dt.year / 100) ≤ 31
  · refine strptimeF_of_none _ _ ?_
    show runDirs (Dir.dd :: [Dir.lit '/', Dir.dm, Dir.lit '/', Dir.dY, Dir.ws, Dir.dH, Dir.lit ':', Dir.dM]) {} _ = _
    rw [pad4_as_pad2,
      runDirs_dd_pad _ _ (dt.year / 100) _ (by omega) (kill_lit _ '/' (by decide) _ _),
      if_pos hc1,
      runDirs_lit_pad2 _ _ _ _ _ (by decide)]
  · refine strptimeF_of_none _ _ ?_
    show runDirs (Dir.dd :: [Dir.lit '/', Dir.dm, Dir.lit '/', Dir.dY, Dir.ws, Dir.dH, Dir.lit ':', Dir.dM]) {} _ = _
    rw [pad4_as_pad2,
      runDirs_dd_pad _ _ (dt.year / 100) _ (by omega) (kill_lit _ '/' (by decide) _ _),
      if_neg hc1]

theorem c4fail_1_8 (dt : DT) (h : Rep fmt8 dt) :
    strptimeF fmt1 (render fmt8 dt) = none := by
  obtain ⟨hval, hyr, hsec⟩ := h
  simp only [validPy] at hval
  obtain ⟨h1y, h2y, h1m, h2m, h1d, h2d, hH, hMi, hSs⟩ := hval
  have hyr' : 1000 ≤ dt.year ∧ dt.year ≤ 9999 := by
    rw [if_neg (by decide)] at hyr
    exact hyr
  have hd31 : dt.day ≤ 31 := le_trans h2d (daysInMonth_le _ _)
  rw [c4render8_eq]
  by_cases hc1 : 1 ≤ (dt.year / 100) ∧ (dt.year / 100) ≤ 31
  · refine strptimeF_of_none _ _ ?_
    show runDirs (Dir.dd :: [Dir.lit '/', Dir.dm, Dir.lit '/', Dir.dY, Dir.lit ',', Dir.ws, Dir.dH, Dir.lit ':', Dir.dM]) {} _ = _
    rw [pad4_as_pad2,
      runDirs_dd_pad _ _ (dt.year / 100) _ (by omega) (kill_lit _ '/' (by decide) _ _),
      if_pos hc1,
      runDirs_lit_pad2 _ _ _ _ _ (by decide)]
  · refine strptimeF_of_none _ _ ?_
    show runDirs (Dir.dd :: [Dir.lit '/', Dir.dm, Dir.lit '/', Dir.dY, Dir.lit ',', Dir.ws, Dir.dH, Dir.lit ':', Dir.dM]) {} _ = _
    rw [pad4_as_pad2,
      runDirs_dd_pad _ _ (dt.year / 100) _ (by omega) (kill_lit _ '/' (by decide) _ _),
      if_neg hc1]

theorem c4fail_2_8 (dt : DT) (h : Rep fmt8 dt) :
    strptimeF fmt2 (render fmt8 dt) = none := by
  obtain ⟨hval, hyr, hsec⟩ := h
  simp only [validPy] at hval
  obtain ⟨h1y, h2y, h1m, h2m, h1d, h2d, hH, hMi, hSs⟩ := hval
  have hyr' : 1000 ≤ dt.year ∧ dt.year ≤ 9999 := by
    rw [if_neg (by decide)] at hyr
    exact hyr
  have hd31 : dt.day ≤ 31 := le_trans h2d (daysInMonth_le _ _)
  rw [c4render8_eq]
  by_cases hc1 : 1 ≤ (dt.year / 100) ∧ (dt.year / 100) ≤ 31
  · refine strptimeF_of_none _ _ ?_
    show runDirs (Dir.dd :: [Dir.lit '/', Dir.dm, Dir.lit '/', Dir.dy, Dir.ws, Dir.dH, Dir.lit ':', Dir.dM]) {} _ = _
    rw [pad4_as_pad2,
      runDirs_dd_pad _ _ (dt.year / 100) _ (by omega) (kill_lit _ '/' (by decide) _ _),
      if_pos hc1,
      runDirs_lit_pad2 _ _ _ _ _ (by decide)]
  · refine strptimeF_of_none _ _ ?_
    show runDirs (Dir.dd :: [Dir.lit '/', Dir.dm, Dir.lit '/', Dir.dy, Dir.ws, Dir.dH, Dir.lit ':', Dir.dM]) {} _ = _
    rw [pad4_as_pad2,
      runDirs_dd_pad _ _ (dt.year / 100) _ (by omega) (kill_lit _ '/' (by decide) _ _),
      if_neg hc1]

theorem c4fail_3_8 (dt : DT) (h : Rep fmt8 dt) :
    strptimeF fmt3 (render fmt8 dt) = none := by
  obtain ⟨hval, hyr, hsec⟩ := h
  simp only [validPy] at hval
  obtain ⟨h1y, h2y, h1m, h2m, h1d, h2d, hH, hMi, hSs⟩ := hval
  have hyr' : 1000 ≤ dt.year ∧ dt.year ≤ 9999 := by
    rw [if_neg (by decide)] at hyr
    exact hyr
  have hd31 : dt.day ≤ 31 := le_trans h2d (daysInMonth_le _ _)
  rw [c4render8_eq]
  by_cases hc1 : 1 ≤ (dt.year / 100) ∧ (dt.year / 100) ≤ 31
  · refine strptimeF_of_none _ _ ?_
    show runDirs (Dir.dd :: [Dir.lit '/', Dir.dm, Dir.lit '/', Dir.dy, Dir.lit ',', Dir.ws, Dir.dH, Dir.lit ':', Dir.dM]) {} _ = _
    rw [pad4_as_pad2,
      runDirs_dd_pad _ _ (dt.year / 100) _ (by omega) (kill_lit _ '/' (by decide) _ _),
      if_pos hc1,
      runDirs_lit_pad2 _ _ _ _ _ (by decide)]
  · refine strptimeF_of_none _ _ ?_
    show runDirs (Dir.dd :: [Dir.lit '/', Dir.dm, Dir.lit '/', Dir.dy, Dir.lit ',', Dir.ws, Dir.dH, Dir.lit ':', Dir.dM]) {} _ = _
    rw [pad4_as_pad2,
      runDirs_dd_pad _ _ (dt.year / 100) _ (by omega) (kill_lit _ '/' (by decide) _ _),
      if_neg hc1]

theorem c4fail_4_8 (dt : DT) (h : Rep fmt8 dt) :
    strptimeF fmt4 (render fmt8 dt) = none := by
  obtain ⟨hval, hyr, hsec⟩ := h
  simp only [validPy] at hval
  obtain ⟨h1y, h2y, h1m, h2m, h1d, h2d, hH, hMi, hSs⟩ := hval
  have hyr' : 1000 ≤ dt.year ∧ dt.year ≤ 9999 := by
    rw [if_neg (by decide)] at hyr
    exact hyr
  have hd31 : dt.day ≤ 31 := le_trans h2d (daysInMonth_le _ _)
  rw [c4render8_eq]
  by_cases hc1 : 1 ≤ (dt.year / 100) ∧ (dt.year / 100) ≤ 12
  · refine strptimeF_of_none _ _ ?_
    show runDirs (Dir.dm :: [Dir.lit '/', Dir.dd, Dir.lit '/', Dir.dY, Dir.ws, Dir.dI, Dir.lit ':', Dir.dM, Dir.ws, Dir.dp]) {} _ = _
    rw [pad4_as_pad2,
      runDirs_dm_pad _ _ (dt.year / 100) _ (by omega) (kill_lit _ '/' (by decide) _ _),
      if_pos hc1,
      runDirs_lit_pad2 _ _ _ _ _ (by decide)]
  · refine strptimeF_of_none _ _ ?_
    show runDirs (Dir.dm :: [Dir.lit '/', Dir.dd, Dir.lit '/', Dir.dY, Dir.ws, Dir.dI, Dir.lit ':', Dir.dM, Dir.ws, Dir.dp]) {} _ = _
    rw [pad4_as_pad2,
      runDirs_dm_pad _ _ (dt.year / 100) _ (by omega) (kill_lit _ '/' (by decide) _ _),
      if_neg hc1]

theorem c4fail_5_8 (dt : DT) (h : Rep fmt8 dt) :
    strptimeF fmt5 (render fmt8 dt) = none := by
  obtain ⟨hval, hyr, hsec⟩ := h
  simp only [validPy] at hval
  obtain ⟨h1y, h2y, h1m, h2m, h1d, h2d, hH, hMi, hSs⟩ := hval
  have hyr' : 1000 ≤ dt.year ∧ dt.year ≤ 9999 := by
    rw [if_neg (by decide)] at hyr
    exact hyr
  have hd31 : dt.day ≤ 31 := le_trans h2d (daysInMonth_le _ _)
  rw [c4render8_eq]
  by_cases hc1 : 1 ≤ (dt.year / 100) ∧ (dt.year / 100) ≤ 12
  · refine strptimeF_of_none _ _ ?_
    show runDirs (Dir.dm :: [Dir.lit '/', Dir.dd, Dir.lit '/', Dir.dY, Dir.lit ',', Dir.ws, Dir.dI, Dir.lit ':', Dir.dM, Dir.ws, Dir.dp]) {} _ = _
    rw [pad4_as_pad2,
      runDirs_dm_pad _ _ (dt.year / 100) _ (by omega) (kill_lit _ '/' (by decide) _ _),
      if_pos hc1,
      runDirs_lit_pad2 _ _ _ _ _ (by decide)]
  · refine strptimeF_of_none _ _ ?_
    show runDirs (Dir.dm :: [Dir.lit '/', Dir.dd, Dir.lit '/', Dir.dY, Dir.lit ',', Dir.ws, Dir.dI, Dir.lit ':', Dir.dM, Dir.ws, Dir.dp]) {} _ = _
    rw [pad4_as_pad2,
      runDirs_dm_pad _ _ (dt.year / 100) _ (by omega) (kill_lit _ '/' (by decide) _ _),
      if_neg hc1]

theorem c4fail_6_8 (dt : DT) (h : Rep fmt8 dt) :
    strptimeF fmt6 (render fmt8 dt) = none := by
  obtain ⟨hval, hyr, hsec⟩ := h
  simp only [validPy] at hval
  obtain ⟨h1y, h2y, h1m, h2m, h1d, h2d, hH, hMi, hSs⟩ := hval
  have hyr' : 1000 ≤ dt.year ∧ dt.year ≤ 9999 := by
    rw [if_neg (by decide)] at hyr
    exact hyr
  have hd31 : dt.day ≤ 31 := le_trans h2d (daysInMonth_le _ _)
  rw [c4render8_eq]
  by_cases hc1 : 1 ≤ (dt.year / 100) ∧ (dt.year / 100) ≤ 12
  · refine strptimeF_of_none _ _ ?_
    show runDirs (Dir.dm :: [Dir.lit '/', Dir.dd, Dir.lit '/', Dir.dy, Dir.ws, Dir.dI, Dir.lit ':', Dir.dM, Dir.ws, Dir.dp]) {} _ = _
    rw [pad4_as_pad2,
      runDirs_dm_pad _ _ (dt.year / 100) _ (by omega) (kill_lit _ '/' (by decide) _ _),
      if_pos hc1,
      runDirs_lit_pad2 _ _ _ _ _ (by decide)]
  · refine strptimeF_of_none _ _ ?_
    show runDirs (Dir.dm :: [Dir.lit '/', Dir.dd, Dir.lit '/', Dir.dy, Dir.ws, Dir.dI, Dir.lit ':', Dir.dM, Dir.ws, Dir.dp]) {} _ = _
    rw [pad4_as_pad2,
      runDirs_dm_pad _ _ (dt.year / 100) _ (by omega) (kill_lit _ '/' (by decide) _ _),
      if_neg hc1]

theorem c4fail_7_8 (dt : DT) (h : Rep fmt8 dt) :
    strptimeF fmt7 (render fmt8 dt) = none := by
  obtain ⟨hval, hyr, hsec⟩ := h
  simp only [validPy] at hval
  obtain ⟨h1y, h2y, h1m, h2m, h1d, h2d, hH, hMi, hSs⟩ := hval
  have hyr' : 1000 ≤ dt.year ∧ dt.year ≤ 9999 := by
    rw [if_neg (by decide)] at hyr
    exact hyr
  have hd31 : dt.day ≤ 31 := le_trans h2d (daysInMonth_le _ _)
  rw [c4render8_eq]
  by_cases hc1 : 1 ≤ (dt.year / 100) ∧ (dt.year / 100) ≤ 12
  · refine strptimeF_of_none _ _ ?_
    show runDirs (Dir.dm :: [Dir.lit '/', Dir.dd, Dir.lit '/', Dir.dy, Dir.lit ',', Dir.ws, Dir.dI, Dir.lit ':', Dir.dM, Dir.ws, Dir.dp]) {} _ = _
    rw [pad4_as_pad2,
      runDirs_dm_pad _ _ (dt.year / 100) _ (by omega) (kill_lit _ '/' (by decide) _ _),
      if_pos hc1,
      runDirs_lit_pad2 _ _ _ _ _ (by decide)]
  · refine strptimeF_of_none _ _ ?_
    show runDirs (Dir.dm :: [Dir.lit '/', Dir.dd, Dir.lit '/', Dir.dy, Dir.lit ',', Dir.ws, Dir.dI, Dir.lit ':', Dir.dM, Dir.ws, Dir.dp]) {} _ = _
    rw [pad4_as_pad2,
      runDirs_dm_pad _ _ (dt.year / 100) _ (by omega) (kill_lit _ '/' (by decide) _ _),
      if_neg hc1]

theorem c4rt8 (dt : DT) (h : Rep fmt8 dt) :
    parseTimestampCore (render fmt8 dt) = some dt := by
  rw [parseTimestampCore_eq, c4trim8]
  simp only [formats]
  rw [tryFormats_cons_none _ _ _ (c4fail_0_8 dt h),
    tryFormats_cons_none _ _ _ (c4fail_1_8 dt h),
    tryFormats_cons_none _ _ _ (c4fail_2_8 dt h),
    tryFormats_cons_none _ _ _ (c4fail_3_8 dt h),
    tryFormats_cons_none _ _ _ (c4fail_4_8 dt h),
    tryFormats_cons_none _ _ _ (c4fail_5_8 dt h),
    tryFormats_cons_none _ _ _ (c4fail_6_8 dt h),
    tryFormats_cons_none _ _ _ (c4fail_7_8 dt h),
    tryFormats_cons_some _ _ _ _ (c4self8 dt h)]

theorem c4render9_eq (dt : DT) :
    render fmt9 dt
      = pad4 dt.year ++ ('-' :: (pad2 dt.month ++ ('-' :: (pad2 dt.day ++ (',' :: (' ' :: (pad2 dt.hour ++ (':' :: (pad2 dt.minute ++ ([])))))))))) := rfl


theorem c4trim9 (dt : DT) : trimChars (render fmt9 dt) = render fmt9 dt := by
  apply trimChars_of_hl
  · rw [c4render9_eq]
    simp only [pad2_eq, pad4_eq, List.cons_append, List.nil_append]
    exact ⟨_, _, rfl, not_ws_digitChar _⟩
  · rw [c4render9_eq]
    simp only [ampm_cons, pad2_eq, pad4_eq, List.reverse_cons, List.reverse_append,
      List.append_assoc, List.cons_append, List.nil_append, List.reverse_nil,
      List.append_nil]
    exact ⟨_, _, rfl, not_ws_digitChar _⟩

theorem c4self9 (dt : DT) (h : Rep fmt9 dt) :
    strptimeF fmt9 (render fmt9 dt) = some dt := by
  obtain ⟨hval, hyr, hsec⟩ := h
  simp only [validPy] at hval
  obtain ⟨h1y, h2y, h1m, h2m, h1d, h2d, hH, hMi, hSs⟩ := hval
  have hyr' : 1000 ≤ dt.year ∧ dt.year ≤ 9999 := by
    rw [if_neg (by decide)] at hyr
    exact hyr
  have hd31 : dt.day ≤ 31 := le_trans h2d (daysInMonth_le _ _)
  have hsec0 : dt.second = 0 := by
    rcases hsec with hmem | h0
    · exact absurd hmem (by decide)
    · exact h0
  rw [c4render9_eq]
  have hrun : runDirs fmt9 {} (pad4 dt.year ++ ('-' :: (pad2 dt.month ++ ('-' :: (pad2 dt.day ++ (',' :: (' ' :: (pad2 dt.hour ++ (':' :: (pad2 dt.minute ++ ([])))))))))))
      = some (⟨some dt.day, some dt.month, none, some dt.year, some dt.hour, none, some dt.minute, none, none⟩, []) := by
    show runDirs (Dir.dY :: [Dir.lit '-', Dir.dm, Dir.lit '-', Dir.dd, Dir.lit ',', Dir.ws, Dir.dH, Dir.lit ':', Dir.dM]) {} _ = _
    rw [runDirs_dY_pad _ _ dt.year (by omega) _,
      runDirs_lit_eq,
      runDirs_dm_pad _ _ dt.month _ (by omega) (kill_lit _ '-' (by decide) _ _),
      if_pos (by omega),
      runDirs_lit_eq,
      runDirs_dd_pad _ _ dt.day _ (by omega) (kill_lit _ ',' (by decide) _ _),
      if_pos (by omega),
      runDirs_lit_eq,
      runDirs_ws_single _ _ _ (wsCount_pad2 _ _),
      runDirs_dH_pad _ _ dt.hour _ (by omega) (kill_lit _ ':' (by decide) _ _),
      if_pos (by omega),
      runDirs_lit_eq,
      runDirs_dM_last _ dt.minute _ (by omega) (by omega)]
  rw [strptimeF_of_done _ _ _ hrun]
  unfold buildDT
  dsimp only
  simp only [Option.getD_some, Option.getD_none]
  rw [mkDT, if_pos (by omega)]
  rw [← hsec0]

theorem c4fail_0_9 (dt : DT) (h : Rep fmt9 dt) :
    strptimeF fmt0 (render fmt9 dt) = none := by
  obtain ⟨hval, hyr, hsec⟩ := h
  simp only [validPy] at hval
  obtain ⟨h1y, h2y, h1m, h2m, h1d, h2d, hH, hMi, hSs⟩ := hval
  have hyr' : 1000 ≤ dt.year ∧ dt.year ≤ 9999 := by
    rw [if_neg (by decide)] at hyr
    exact hyr
  have hd31 : dt.day ≤ 31 := le_trans h2d (daysInMonth_le _ _)
  rw [c4render9_eq]
  by_cases hc1 : 1 ≤ (dt.year / 100) ∧ (dt.year / 100) ≤ 31
  · refine strptimeF_of_none _ _ ?_
    show runDirs (Dir.dd :: [Dir.lit '/', Dir.dm, Dir.lit '/', Dir.dY, Dir.ws, Dir.dH, Dir.lit ':', Dir.dM]) {} _ = _
    rw [pad4_as_pad2,
      runDirs_dd_pad _ _ (dt.year / 100) _ (by omega) (kill_lit _ '/' (by decide) _ _),
      if_pos hc1,
      runDirs_lit_pad2 _ _ _ _ _ (by decide)]
  · refine strptimeF_of_none _ _ ?_
    show runDirs (Dir.dd :: [Dir.lit '/', Dir.dm, Dir.lit '/', Dir.dY, Dir.ws, Dir.dH, Dir.lit ':', Dir.dM]) {} _ = _
    rw [pad4_as_pad2,
      runDirs_dd_pad _ _ (dt.year / 100) _ (by omega) (kill_lit _ '/' (by decide) _ _),
      if_neg hc1]

theorem c4fail_1_9 (dt : DT) (h : Rep fmt9 dt) :
    strptimeF fmt1 (render fmt9 dt) = none := by
  obtain ⟨hval, hyr, hsec⟩ := h
  simp only [validPy] at hval
  obtain ⟨h1y, h2y, h1m, h2m, h1d, h2d, hH, hMi, hSs⟩ := hval
  have hyr' : 1000 ≤ dt.year ∧ dt.year ≤ 9999 := by
    rw [if_neg (by decide)] at hyr
    exact hyr
  have hd31 : dt.day ≤ 31 := le_trans h2d (daysInMonth_le _ _)
  rw [c4render9_eq]
  by_cases hc1 : 1 ≤ (dt.year / 100) ∧ (dt.year / 100) ≤ 31
  · refine strptimeF_of_none _ _ ?_
    show runDirs (Dir.dd :: [Dir.lit '/', Dir.dm, Dir.lit '/', Dir.dY, Dir.lit ',', Dir.ws, Dir.dH, Dir.lit ':', Dir.dM]) {} _ = _
    rw [pad4_as_pad2,
      runDirs_dd_pad _ _ (dt.year / 100) _ (by omega) (kill_lit _ '/' (by decide) _ _),
      if_pos hc1,
      runDirs_lit_pad2 _ _ _ _ _ (by decide)]
  · refine strptimeF_of_none _ _ ?_
    show runDirs (Dir.dd :: [Dir.lit '/', Dir.dm, Dir.lit '/', Dir.dY, Dir.lit ',', Dir.ws, Dir.dH, Dir.lit ':', Dir.dM]) {} _ = _
    rw [pad4_as_pad2,
      runDirs_dd_pad _ _ (dt.year / 100) _ (by omega) (kill_lit _ '/' (by decide) _ _),
      if_neg hc1]

theorem c4fail_2_9 (dt : DT) (h : Rep fmt9 dt) :
    strptimeF fmt2 (render fmt9 dt) = none := by
  obtain ⟨hval, hyr, hsec⟩ := h
  simp only [validPy] at hval
  obtain ⟨h1y, h2y, h1m, h2m, h1d, h2d, hH, hMi, hSs⟩ := hval
  have hyr' : 1000 ≤ dt.year ∧ dt.year ≤ 9999 := by
    rw [if_neg (by decide)] at hyr
    exact hyr
  have hd31 : dt.day ≤ 31 := le_trans h2d (daysInMonth_le _ _)
  rw [c4render9_eq]
  by_cases hc1 : 1 ≤ (dt.year / 100) ∧ (dt.year / 100) ≤ 31
  · refine strptimeF_of_none _ _ ?_
    show runDirs (Dir.dd :: [Dir.lit '/', Dir.dm, Dir.lit '/', Dir.dy, Dir.ws, Dir.dH, Dir.lit ':', Dir.dM]) {} _ = _
    rw [pad4_as_pad2,
      runDirs_dd_pad _ _ (dt.year / 100) _ (by omega) (kill_lit _ '/' (by decide) _ _),
      if_pos hc1,
      runDirs_lit_pad2 _ _ _ _ _ (by decide)]
  · refine strptimeF_of_none _ _ ?_
    show runDirs (Dir.dd :: [Dir.lit '/', Dir.dm, Dir.lit '/', Dir.dy, Dir.ws, Dir.dH, Dir.lit ':', Dir.dM]) {} _ = _
    rw [pad4_as_pad2,
      runDirs_dd_pad _ _ (dt.year / 100) _ (by omega) (kill_lit _ '/' (by decide) _ _),
      if_neg hc1]

theorem c4fail_3_9 (dt : DT) (h : Rep fmt9 dt) :
    strptimeF fmt3 (render fmt9 dt) = none := by
  obtain ⟨hval, hyr, hsec⟩ := h
  simp only [validPy] at hval
  obtain ⟨h1y, h2y, h1m, h2m, h1d, h2d, hH, hMi, hSs⟩ := hval
  have hyr' : 1000 ≤ dt.year ∧ dt.year ≤ 9999 := by
    rw [if_neg (by decide)] at hyr
    exact hyr
  have hd31 : dt.day ≤ 31 := le_trans h2d (daysInMonth_le _ _)
  rw [c4render9_eq]
  by_cases hc1 : 1 ≤ (dt.year / 100) ∧ (dt.year / 100) ≤ 31
  · refine strptimeF_of_none _ _ ?_
    show runDirs (Dir.dd :: [Dir.lit '/', Dir.dm, Dir.lit '/', Dir.dy, Dir.lit ',', Dir.ws, Dir.dH, Dir.lit ':', Dir.dM]) {} _ = _
    rw [pad4_as_pad2,
      runDirs_dd_pad _ _ (dt.year / 100) _ (by omega) (kill_lit _ '/' (by decide) _ _),
      if_pos hc1,
      runDirs_lit_pad2 _ _ _ _ _ (by decide)]
  · refine strptimeF_of_none _ _ ?_
    show runDirs (Dir.dd :: [Dir.lit '/', Dir.dm, Dir.lit '/', Dir.dy, Dir.lit ',', Dir.ws, Dir.dH, Dir.lit ':', Dir.dM]) {} _ = _
    rw [pad4_as_pad2,
      runDirs_dd_pad _ _ (dt.year / 100) _ (by omega) (kill_lit _ '/' (by decide) _ _),
      if_neg hc1]

theorem c4fail_4_9 (dt : DT) (h : Rep fmt9 dt) :
    strptimeF fmt4 (render fmt9 dt) = none := by
  obtain ⟨hval, hyr, hsec⟩ := h
  simp only [validPy] at hval
  obtain ⟨h1y, h2y, h1m, h2m, h1d, h2d, hH, hMi, hSs⟩ := hval
  have hyr' : 1000 ≤ dt.year ∧ dt.year ≤ 9999 := by
    rw [if_neg (by decide)] at hyr
    exact hyr
  have hd31 : dt.day ≤ 31 := le_trans h2d (daysInMonth_le _ _)
  rw [c4render9_eq]
  by_cases hc1 : 1 ≤ (dt.year / 100) ∧ (dt.year / 100) ≤ 12
  · refine strptimeF_of_none _ _ ?_
    show runDirs (Dir.dm :: [Dir.lit '/', Dir.dd, Dir.lit '/', Dir.dY, Dir.ws, Dir.dI, Dir.lit ':', Dir.dM, Dir.ws, Dir.dp]) {} _ = _
    rw [pad4_as_pad2,
      runDirs_dm_pad _ _ (dt.year / 100) _ (by omega) (kill_lit _ '/' (by decide) _ _),
      if_pos hc1,
      runDirs_lit_pad2 _ _ _ _ _ (by decide)]
  · refine strptimeF_of_none _ _ ?_
    show runDirs (Dir.dm :: [Dir.lit '/', Dir.dd, Dir.lit '/', Dir.dY, Dir.ws, Dir.dI, Dir.lit ':', Dir.dM, Dir.ws, Dir.dp]) {} _ = _
    rw [pad4_as_pad2,
      runDirs_dm_pad _ _ (dt.year / 100) _ (by omega) (kill_lit _ '/' (by decide) _ _),
      if_neg hc1]

theorem c4fail_5_9 (dt : DT) (h : Rep fmt9 dt) :
    strptimeF fmt5 (render fmt9 dt) = none := by
  obtain ⟨hval, hyr, hsec⟩ := h
  simp only [validPy] at hval
  obtain ⟨h1y, h2y, h1m, h2m, h1d, h2d, hH, hMi, hSs⟩ := hval
  have hyr' : 1000 ≤ dt.year ∧ dt.year ≤ 9999 := by
    rw [if_neg (by decide)] at hyr
    exact hyr
  have hd31 : dt.day ≤ 31 := le_trans h2d (daysInMonth_le _ _)
  rw [c4render9_eq]
  by_cases hc1 : 1 ≤ (dt.year / 100) ∧ (dt.year / 100) ≤ 12
  · refine strptimeF_of_none _ _ ?_
    show runDirs (Dir.dm :: [Dir.lit '/', Dir.dd, Dir.lit '/', Dir.dY, Dir.lit ',', Dir.ws, Dir.dI, Dir.lit ':', Dir.dM, Dir.ws, Dir.dp]) {} _ = _
    rw [pad4_as_pad2,
      runDirs_dm_pad _ _ (dt.year / 100) _ (by omega) (kill_lit _ '/' (by decide) _ _),
      if_pos hc1,
      runDirs_lit_pad2 _ _ _ _ _ (by decide)]
  · refine strptimeF_of_none _ _ ?_
    show runDirs (Dir.dm :: [Dir.lit '/', Dir.dd, Dir.lit '/', Dir.dY, Dir.lit ',', Dir.ws, Dir.dI, Dir.lit ':', Dir.dM, Dir.ws, Dir.dp]) {} _ = _
    rw [pad4_as_pad2,
      runDirs_dm_pad _ _ (dt.year / 100) _ (by omega) (kill_lit _ '/' (by decide) _ _),
      if_neg hc1]

theorem c4fail_6_9 (dt : DT) (h : Rep fmt9 dt) :
    strptimeF fmt6 (render fmt9 dt) = none := by
  obtain ⟨hval, hyr, hsec⟩ := h
  simp only [validPy] at hval
  obtain ⟨h1y, h2y, h1m, h2m, h1d, h2d, hH, hMi, hSs⟩ := hval
  have hyr' : 1000 ≤ dt.year ∧ dt.year ≤ 9999 := by
    rw [if_neg (by decide)] at hyr
    exact hyr
  have hd31 : dt.day ≤ 31 := le_trans h2d (daysInMonth_le _ _)
  rw [c4render9_eq]
  by_cases hc1 : 1 ≤ (dt.year / 100) ∧ (dt.year / 100) ≤ 12
  · refine strptimeF_of_none _ _ ?_
    show runDirs (Dir.dm :: [Dir.lit '/', Dir.dd, Dir.lit '/', Dir.dy, Dir.ws, Dir.dI, Dir.lit ':', Dir.dM, Dir.ws, Dir.dp]) {} _ = _
    rw [pad4_as_pad2,
      runDirs_dm_pad _ _ (dt.year / 100) _ (by omega) (kill_lit _ '/' (by decide) _ _),
      if_pos hc1,
      runDirs_lit_pad2 _ _ _ _ _ (by decide)]
  · refine strptimeF_of_none _ _ ?_
    show runDirs (Dir.dm :: [Dir.lit '/', Dir.dd, Dir.lit '/', Dir.dy, Dir.ws, Dir.dI, Dir.lit ':', Dir.dM, Dir.ws, Dir.dp]) {} _ = _
    rw [pad4_as_pad2,
      runDirs_dm_pad _ _ (dt.year / 100) _ (by omega) (kill_lit _ '/' (by decide) _ _),
      if_neg hc1]

theorem c4fail_7_9 (dt : DT) (h : Rep fmt9 dt) :
    strptimeF fmt7 (render fmt9 dt) = none := by
  obtain ⟨hval, hyr, hsec⟩ := h
  simp only [validPy] at hval
  obtain ⟨h1y, h2y, h1m, h2m, h1d, h2d, hH, hMi, hSs⟩ := hval
  have hyr' : 1000 ≤ dt.year ∧ dt.year ≤ 9999 := by
    rw [if_neg (by decide)] at hyr
    exact hyr
  have hd31 : dt.day ≤ 31 := le_trans h2d (daysInMonth_le _ _)
  rw [c4render9_eq]
  by_cases hc1 : 1 ≤ (dt.year / 100) ∧ (dt.year / 100) ≤ 12
  · refine strptimeF_of_none _ _ ?_
    show runDirs (Dir.dm :: [Dir.lit '/', Dir.dd, Dir.lit '/', Dir.dy, Dir.lit ',', Dir.ws, Dir.dI, Dir.lit ':', Dir.dM, Dir.ws, Dir.dp]) {} _ = _
    rw [pad4_as_pad2,
      runDirs_dm_pad _ _ (dt.year / 100) _ (by omega) (kill_lit _ '/' (by decide) _ _),
      if_pos hc1,
      runDirs_lit_pad2 _ _ _ _ _ (by decide)]
  · refine strptimeF_of_none _ _ ?_
    show runDirs (Dir.dm :: [Dir.lit '/', Dir.dd, Dir.lit '/', Dir.dy, Dir.lit ',', Dir.ws, Dir.dI, Dir.lit ':', Dir.dM, Dir.ws, Dir.dp]) {} _ = _
    rw [pad4_as_pad2,
      runDirs_dm_pad _ _ (dt.year / 100) _ (by omega) (kill_lit _ '/' (by decide) _ _),
      if_neg hc1]

theorem c4fail_8_9 (dt : DT) (h : Rep fmt9 dt) :
    strptimeF fmt8 (render fmt9 dt) = none := by
  obtain ⟨hval, hyr, hsec⟩ := h
  simp only [validPy] at hval
  obtain ⟨h1y, h2y, h1m, h2m, h1d, h2d, hH, hMi, hSs⟩ := hval
  have hyr' : 1000 ≤ dt.year ∧ dt.year ≤ 9999 := by
    rw [if_neg (by decide)] at hyr
    exact hyr
  have hd31 : dt.day ≤ 31 := le_trans h2d (daysInMonth_le _ _)
  rw [c4render9_eq]
  refine strptimeF_of_none _ _ ?_
  show runDirs (Dir.dY :: [Dir.lit '-', Dir.dm, Dir.lit '-', Dir.dd, Dir.ws, Dir.dH, Dir.lit ':', Dir.dM]) {} _ = _
  rw [runDirs_dY_pad _ _ dt.year (by omega) _,
    runDirs_lit_eq,
    runDirs_dm_pad _ _ dt.month _ (by omega) (kill_lit _ '-' (by decide) _ _),
    if_pos (by omega),
    runDirs_lit_eq,
    runDirs_dd_pad _ _ dt.day _ (by omega) (kill_ws _ _ _),
    if_pos (by omega),
    runDirs_ws_none _ _ _ _ (by decide)]

theorem c4rt9 (dt : DT) (h : Rep fmt9 dt) :
    parseTimestampCore (render fmt9 dt) = some dt := by
  rw [parseTimestampCore_eq, c4trim9]
  simp only [formats]
  rw [tryFormats_cons_none _ _ _ (c4fail_0_9 dt h),
    tryFormats_cons_none _ _ _ (c4fail_1_9 dt h),
    tryFormats_cons_none _ _ _ (c4fail_2_9 dt h),
    tryFormats_cons_none _ _ _ (c4fail_3_9 dt h),
    tryFormats_cons_none _ _ _ (c4fail_4_9 dt h),
    tryFormats_cons_none _ _ _ (c4fail_5_9 dt h),
    tryFormats_cons_none _ _ _ (c4fail_6_9 dt h),
    tryFormats_cons_none _ _ _ (c4fail_7_9 dt h),
    tryFormats_cons_none _ _ _ (c4fail_8_9 dt h),
    tryFormats_cons_some _ _ _ _ (c4self9 dt h)]

theorem c4render10_eq (dt : DT) :
    render fmt10 dt
      = pad4 dt.year ++ ('/' :: (pad2 dt.month ++ ('/' :: (pad2 dt.day ++ (' ' :: (pad2 dt.hour ++ (':' :: (pad2 dt.minute ++ ([]))))))))) := rfl


theorem c4trim10 (dt : DT) : trimChars (render fmt10 dt) = render fmt10 dt := by
  apply trimChars_of_hl
  · rw [c4render10_eq]
    simp only [pad2_eq, pad4_eq, List.cons_append, List.nil_append]
    exact ⟨_, _, rfl, not_ws_digitChar _⟩
  · rw [c4render10_eq]
    simp only [ampm_cons, pad2_eq, pad4_eq, List.reverse_cons, List.reverse_append,
      List.append_assoc, List.cons_append, List.nil_append, List.reverse_nil,
      List.append_nil]
    exact ⟨_, _, rfl, not_ws_digitChar _⟩

theorem c4self10 (dt : DT) (h : Rep fmt10 dt) :
    strptimeF fmt10 (render fmt10 dt) = some dt := by
  obtain ⟨hval, hyr, hsec⟩ := h
  simp only [validPy] at hval
  obtain ⟨h1y, h2y, h1m, h2m, h1d, h2d, hH, hMi, hSs⟩ := hval
  have hyr' : 1000 ≤ dt.year ∧ dt.year ≤ 9999 := by
    rw [if_neg (by decide)] at hyr
    exact hyr
  have hd31 : dt.day ≤ 31 := le_trans h2d (daysInMonth_le _ _)
  have hsec0 : dt.second = 0 := by
    rcases hsec with hmem | h0
    · exact absurd hmem (by decide)
    · exact h0
  rw [c4render10_eq]
  have hrun : runDirs fmt10 {} (pad4 dt.year ++ ('/' :: (pad2 dt.month ++ ('/' :: (pad2 dt.day ++ (' ' :: (pad2 dt.hour ++ (':' :: (pad2 dt.minute ++ ([]))))))))))
      = some (⟨some dt.day, some dt.month, none, some dt.year, some dt.hour, none, some dt.minute, none, none⟩, []) := by
    show runDirs (Dir.dY :: [Dir.lit '/', Dir.dm, Dir.lit '/', Dir.dd, Dir.ws, Dir.dH, Dir.lit ':', Dir.dM]) {} _ = _
    rw [runDirs_dY_pad _ _ dt.year (by omega) _,
      runDirs_lit_eq,
      runDirs_dm_pad _ _ dt.month _ (by omega) (kill_lit _ '/' (by decide) _ _),
      if_pos (by omega),
      runDirs_lit_eq,
      runDirs_dd_pad _ _ dt.day _ (by omega) (kill_ws _ _ _),
      if_pos (by omega),
      runDirs_ws_single _ _ _ (wsCount_pad2 _ _),
      runDirs_dH_pad _ _ dt.hour _ (by omega) (kill_lit _ ':' (by decide) _ _),
      if_pos (by omega),
      runDirs_lit_eq,
      runDirs_dM_last _ dt.minute _ (by omega) (by omega)]
  rw [strptimeF_of_done _ _ _ hrun]
  unfold buildDT
  dsimp only
  simp only [Option.getD_some, Option.getD_none]
  rw [mkDT, if_pos (by omega)]
  rw [← hsec0]

theorem c4fail_0_10 (dt : DT) (h : Rep fmt10 dt) :
    strptimeF fmt0 (render fmt10 dt) = none := by
  obtain ⟨hval, hyr, hsec⟩ := h
  simp only [validPy] at hval
  obtain ⟨h1y, h2y, h1m, h2m, h1d, h2d, hH, hMi, hSs⟩ := hval
  have hyr' : 1000 ≤ dt.year ∧ dt.year ≤ 9999 := by
    rw [if_neg (by decide)] at hyr
    exact hyr
  have hd31 : dt.day ≤ 31 := le_trans h2d (daysInMonth_le _ _)
  rw [c4render10_eq]
  by_cases hc1 : 1 ≤ (dt.year / 100) ∧ (dt.year / 100) ≤ 31
  · refine strptimeF_of_none _ _ ?_
    show runDirs (Dir.dd :: [Dir.lit '/', Dir.dm, Dir.lit '/', Dir.dY, Dir.ws, Dir.dH, Dir.lit ':', Dir.dM]) {} _ = _
    rw [pad4_as_pad2,
      runDirs_dd_pad _ _ (dt.year / 100) _ (by omega) (kill_lit _ '/' (by decide) _ _),
      if_pos hc1,
      runDirs_lit_pad2 _ _ _ _ _ (by decide)]
  · refine strptimeF_of_none _ _ ?_
    show runDirs (Dir.dd :: [Dir.lit '/', Dir.dm, Dir.lit '/', Dir.dY, Dir.ws, Dir.dH, Dir.lit ':', Dir.dM]) {} _ = _
    rw [pad4_as_pad2,
      runDirs_dd_pad _ _ (dt.year / 100) _ (by omega) (kill_lit _ '/' (by decide) _ _),
      if_neg hc1]

theorem c4fail_1_10 (dt : DT) (h : Rep fmt10 dt) :
    strptimeF fmt1 (render fmt10 dt) = none := by
  obtain ⟨hval, hyr, hsec⟩ := h
  simp only [validPy] at hval
  obtain ⟨h1y, h2y, h1m, h2m, h1d, h2d, hH, hMi, hSs⟩ := hval
  have hyr' : 1000 ≤ dt.year ∧ dt.year ≤ 9999 := by
    rw [if_neg (by decide)] at hyr
    exact hyr
  have hd31 : dt.day ≤ 31 := le_trans h2d (daysInMonth_le _ _)
  rw [c4render10_eq]
  by_cases hc1 : 1 ≤ (dt.year / 100) ∧ (dt.year / 100) ≤ 31
  · refine strptimeF_of_none _ _ ?_
    show runDirs (Dir.dd :: [Dir.lit '/', Dir.dm, Dir.lit '/', Dir.dY, Dir.lit ',', Dir.ws, Dir.dH, Dir.lit ':', Dir.dM]) {} _ = _
    rw [pad4_as_pad2,
      runDirs_dd_pad _ _ (dt.year / 100) _ (by omega) (kill_lit _ '/' (by decide) _ _),
      if_pos hc1,
      runDirs_lit_pad2 _ _ _ _ _ (by decide)]
  · refine strptimeF_of_none _ _ ?_
    show runDirs (Dir.dd :: [Dir.lit '/', Dir.dm, Dir.lit '/', Dir.dY, Dir.lit ',', Dir.ws, Dir.dH, Dir.lit ':', Dir.dM]) {} _ = _
    rw [pad4_as_pad2,
      runDirs_dd_pad _ _ (dt.year / 100) _ (by omega) (kill_lit _ '/' (by decide) _ _),
      if_neg hc1]

theorem c4fail_2_10 (dt : DT) (h : Rep fmt10 dt) :
    strptimeF fmt2 (render fmt10 dt) = none := by
  obtain ⟨hval, hyr, hsec⟩ := h
  simp only [validPy] at hval
  obtain ⟨h1y, h2y, h1m, h2m, h1d, h2d, hH, hMi, hSs⟩ := hval
  have hyr' : 1000 ≤ dt.year ∧ dt.year ≤ 9999 := by
    rw [if_neg (by decide)] at hyr
    exact hyr
  have hd31 : dt.day ≤ 31 := le_trans h2d (daysInMonth_le _ _)
  rw [c4render10_eq]
  by_cases hc1 : 1 ≤ (dt.year / 100) ∧ (dt.year / 100) ≤ 31
  · refine strptimeF_of_none _ _ ?_
    show runDirs (Dir.dd :: [Dir.lit '/', Dir.dm, Dir.lit '/', Dir.dy, Dir.ws, Dir.dH, Dir.lit ':', Dir.dM]) {} _ = _
    rw [pad4_as_pad2,
      runDirs_dd_pad _ _ (dt.year / 100) _ (by omega) (kill_lit _ '/' (by decide) _ _),
      if_pos hc1,
      runDirs_lit_pad2 _ _ _ _ _ (by decide)]
  · refine strptimeF_of_none _ _ ?_
    show runDirs (Dir.dd :: [Dir.lit '/', Dir.dm, Dir.lit '/', Dir.dy, Dir.ws, Dir.dH, Dir.lit ':', Dir.dM]) {} _ = _
    rw [pad4_as_pad2,
      runDirs_dd_pad _ _ (dt.year / 100) _ (by omega) (kill_lit _ '/' (by decide) _ _),
      if_neg hc1]

theorem c4fail_3_10 (dt : DT) (h : Rep fmt10 dt) :
    strptimeF fmt3 (render fmt10 dt) = none := by
  obtain ⟨hval, hyr, hsec⟩ := h
  simp only [validPy] at hval
  obtain ⟨h1y, h2y, h1m, h2m, h1d, h2d, hH, hMi, hSs⟩ := hval
  have hyr' : 1000 ≤ dt.year ∧ dt.year ≤ 9999 := by
    rw [if_neg (by decide)] at hyr
    exact hyr
  have hd31 : dt.day ≤ 31 := le_trans h2d (daysInMonth_le _ _)
  rw [c4render10_eq]
  by_cases hc1 : 1 ≤ (dt.year / 100) ∧ (dt.year / 100) ≤ 31
  · refine strptimeF_of_none _ _ ?_
    show runDirs (Dir.dd :: [Dir.lit '/', Dir.dm, Dir.lit '/', Dir.dy, Dir.lit ',', Dir.ws, Dir.dH, Dir.lit ':', Dir.dM]) {} _ = _
    rw [pad4_as_pad2,
      runDirs_dd_pad _ _ (dt.year / 100) _ (by omega) (kill_lit _ '/' (by decide) _ _),
      if_pos hc1,
      runDirs_lit_pad2 _ _ _ _ _ (by decide)]
  · refine strptimeF_of_none _ _ ?_
    show runDirs (Dir.dd :: [Dir.lit '/', Dir.dm, Dir.lit '/', Dir.dy, Dir.lit ',', Dir.ws, Dir.dH, Dir.lit ':', Dir.dM]) {} _ = _
    rw [pad4_as_pad2,
      runDirs_dd_pad _ _ (dt.year / 100) _ (by omega) (kill_lit _ '/' (by decide) _ _),
      if_neg hc1]

theorem c4fail_4_10 (dt : DT) (h : Rep fmt10 dt) :
    strptimeF fmt4 (render fmt10 dt) = none := by
  obtain ⟨hval, hyr, hsec⟩ := h
  simp only [validPy] at hval
  obtain ⟨h1y, h2y, h1m, h2m, h1d, h2d, hH, hMi, hSs⟩ := hval
  have hyr' : 1000 ≤ dt.year ∧ dt.year ≤ 9999 := by
    rw [if_neg (by decide)] at hyr
    exact hyr
  have hd31 : dt.day ≤ 31 := le_trans h2d (daysInMonth_le _ _)
  rw [c4render10_eq]
  by_cases hc1 : 1 ≤ (dt.year / 100) ∧ (dt.year / 100) ≤ 12
  · refine strptimeF_of_none _ _ ?_
    show runDirs (Dir.dm :: [Dir.lit '/', Dir.dd, Dir.lit '/', Dir.dY, Dir.ws, Dir.dI, Dir.lit ':', Dir.dM, Dir.ws, Dir.dp]) {} _ = _
    rw [pad4_as_pad2,
      runDirs_dm_pad _ _ (dt.year / 100) _ (by omega) (kill_lit _ '/' (by decide) _ _),
      if_pos hc1,
      runDirs_lit_pad2 _ _ _ _ _ (by decide)]
  · refine strptimeF_of_none _ _ ?_
    show runDirs (Dir.dm :: [Dir.lit '/', Dir.dd, Dir.lit '/', Dir.dY, Dir.ws, Dir.dI, Dir.lit ':', Dir.dM, Dir.ws, Dir.dp]) {} _ = _
    rw [pad4_as_pad2,
      runDirs_dm_pad _ _ (dt.year / 100) _ (by omega) (kill_lit _ '/' (by decide) _ _),
      if_neg hc1]

theorem c4fail_5_10 (dt : DT) (h : Rep fmt10 dt) :
    strptimeF fmt5 (render fmt10 dt) = none := by
  obtain ⟨hval, hyr, hsec⟩ := h
  simp only [validPy] at hval
  obtain ⟨h1y, h2y, h1m, h2m, h1d, h2d, hH, hMi, hSs⟩ := hval
  have hyr' : 1000 ≤ dt.year ∧ dt.year ≤ 9999 := by
    rw [if_neg (by decide)] at hyr
    exact hyr
  have hd31 : dt.day ≤ 31 := le_trans h2d (daysInMonth_le _ _)
  rw [c4render10_eq]
  by_cases hc1 : 1 ≤ (dt.year / 100) ∧ (dt.year / 100) ≤ 12
  · refine strptimeF_of_none _ _ ?_
    show runDirs (Dir.dm :: [Dir.lit '/', Dir.dd, Dir.lit '/', Dir.dY, Dir.lit ',', Dir.ws, Dir.dI, Dir.lit ':', Dir.dM, Dir.ws, Dir.dp]) {} _ = _
    rw [pad4_as_pad2,
      runDirs_dm_pad _ _ (dt.year / 100) _ (by omega) (kill_lit _ '/' (by decide) _ _),
      if_pos hc1,
      runDirs_lit_pad2 _ _ _ _ _ (by decide)]
  · refine strptimeF_of_none _ _ ?_
    show runDirs (Dir.dm :: [Dir.lit '/', Dir.dd, Dir.lit '/', Dir.dY, Dir.lit ',', Dir.ws, Dir.dI, Dir.lit ':', Dir.dM, Dir.ws, Dir.dp]) {} _ = _
    rw [pad4_as_pad2,
      runDirs_dm_pad _ _ (dt.year / 100) _ (by omega) (kill_lit _ '/' (by decide) _ _),
      if_neg hc1]

theorem c4fail_6_10 (dt : DT) (h : Rep fmt10 dt) :
    strptimeF fmt6 (render fmt10 dt) = none := by
  obtain ⟨hval, hyr, hsec⟩ := h
  simp only [validPy] at hval
  obtain ⟨h1y, h2y, h1m, h2m, h1d, h2d, hH, hMi, hSs⟩ := hval
  have hyr' : 1000 ≤ dt.year ∧ dt.year ≤ 9999 := by
    rw [if_neg (by decide)] at hyr
    exact hyr
  have hd31 : dt.day ≤ 31 := le_trans h2d (daysInMonth_le _ _)
  rw [c4render10_eq]
  by_cases hc1 : 1 ≤ (dt.year / 100) ∧ (dt.year / 100) ≤ 12
  · refine strptimeF_of_none _ _ ?_
    show runDirs (Dir.dm :: [Dir.lit '/', Dir.dd, Dir.lit '/', Dir.dy, Dir.ws, Dir.dI, Dir.lit ':', Dir.dM, Dir.ws, Dir.dp]) {} _ = _
    rw [pad4_as_pad2,
      runDirs_dm_pad _ _ (dt.year / 100) _ (by omega) (kill_lit _ '/' (by decide) _ _),
      if_pos hc1,
      runDirs_lit_pad2 _ _ _ _ _ (by decide)]
  · refine strptimeF_of_none _ _ ?_
    show runDirs (Dir.dm :: [Dir.lit '/', Dir.dd, Dir.lit '/', Dir.dy, Dir.ws, Dir.dI, Dir.lit ':', Dir.dM, Dir.ws, Dir.dp]) {} _ = _
    rw [pad4_as_pad2,
      runDirs_dm_pad _ _ (dt.year / 100) _ (by omega) (kill_lit _ '/' (by decide) _ _),
      if_neg hc1]

theorem c4fail_7_10 (dt : DT) (h : Rep fmt10 dt) :
    strptimeF fmt7 (render fmt10 dt) = none := by
  obtain ⟨hval, hyr, hsec⟩ := h
  simp only [validPy] at hval
  obtain ⟨h1y, h2y, h1m, h2m, h1d, h2d, hH, hMi, hSs⟩ := hval
  have hyr' : 1000 ≤ dt.year ∧ dt.year ≤ 9999 := by
    rw [if_neg (by decide)] at hyr
    exact hyr
  have hd31 : dt.day ≤ 31 := le_trans h2d (daysInMonth_le _ _)
  rw [c4render10_eq]
  by_cases hc1 : 1 ≤ (dt.year / 100) ∧ (dt.year / 100) ≤ 12
  · refine strptimeF_of_none _ _ ?_
    show runDirs (Dir.dm :: [Dir.lit '/', Dir.dd, Dir.lit '/', Dir.dy, Dir.lit ',', Dir.ws, Dir.dI, Dir.lit ':', Dir.dM, Dir.ws, Dir.dp]) {} _ = _
    rw [pad4_as_pad2,
      runDirs_dm_pad _ _ (dt.year / 100) _ (by omega) (kill_lit _ '/' (by decide) _ _),
      if_pos hc1,
      runDirs_lit_pad2 _ _ _ _ _ (by decide)]
  · refine strptimeF_of_none _ _ ?_
    show runDirs (Dir.dm :: [Dir.lit '/', Dir.dd, Dir.lit '/', Dir.dy, Dir.lit ',', Dir.ws, Dir.dI, Dir.lit ':', Dir.dM, Dir.ws, Dir.dp]) {} _ = _
    rw [pad4_as_pad2,
      runDirs_dm_pad _ _ (dt.year / 100) _ (by omega) (kill_lit _ '/' (by decide) _ _),
      if_neg hc1]

theorem c4fail_8_10 (dt : DT) (h : Rep fmt10 dt) :
    strptimeF fmt8 (render fmt10 dt) = none := by
  obtain ⟨hval, hyr, hsec⟩ := h
  simp only [validPy] at hval
  obtain ⟨h1y, h2y, h1m, h2m, h1d, h2d, hH, hMi, hSs⟩ := hval
  have hyr' : 1000 ≤ dt.year ∧ dt.year ≤ 9999 := by
    rw [if_neg (by decide)] at hyr
    exact hyr
  have hd31 : dt.day ≤ 31 := le_trans h2d (daysInMonth_le _ _)
  rw [c4render10_eq]
  refine strptimeF_of_none _ _ ?_
  show runDirs (Dir.dY :: [Dir.lit '-', Dir.dm, Dir.lit '-', Dir.dd, Dir.ws, Dir.dH, Dir.lit ':', Dir.dM]) {} _ = _
  rw [runDirs_dY_pad _ _ dt.year (by omega) _, runDirs_lit_ne _ _ _ _ _ (by decide)]

theorem c4fail_9_10 (dt : DT) (h : Rep fmt10 dt) :
    strptimeF fmt9 (render fmt10 dt) = none := by
  obtain ⟨hval, hyr, hsec⟩ := h
  simp only [validPy] at hval
  obtain ⟨h1y, h2y, h1m, h2m, h1d, h2d, hH, hMi, hSs⟩ := hval
  have hyr' : 1000 ≤ dt.year ∧ dt.year ≤ 9999 := by
    rw [if_neg (by decide)] at hyr
    exact hyr
  have hd31 : dt.day ≤ 31 := le_trans h2d (daysInMonth_le _ _)
  rw [c4render10_eq]
  refine strptimeF_of_none _ _ ?_
  show runDirs (Dir.dY :: [Dir.lit '-', Dir.dm, Dir.lit '-', Dir.dd, Dir.lit ',', Dir.ws, Dir.dH, Dir.lit ':', Dir.dM]) {} _ = _
  rw [runDirs_dY_pad _ _ dt.year (by omega) _, runDirs_lit_ne _ _ _ _ _ (by decide)]

theorem c4rt10 (dt : DT) (h : Rep fmt10 dt) :
    parseTimestampCore (render fmt10 dt) = some dt := by
  rw [parseTimestampCore_eq, c4trim10]
  simp only [formats]
  rw [tryFormats_cons_none _ _ _ (c4fail_0_10 dt h),
    tryFormats_cons_none _ _ _ (c4fail_1_10 dt h),
    tryFormats_cons_none _ _ _ (c4fail_2_10 dt h),
    tryFormats_cons_none _ _ _ (c4fail_3_10 dt h),
    tryFormats_cons_none _ _ _ (c4fail_4_10 dt h),
    tryFormats_cons_none _ _ _ (c4fail_5_10 dt h),
    tryFormats_cons_none _ _ _ (c4fail_6_10 dt h),
    tryFormats_cons_none _ _ _ (c4fail_7_10 dt h),
    tryFormats_cons_none _ _ _ (c4fail_8_10 dt h),
    tryFormats_cons_none _ _ _ (c4fail_9_10 dt h),
    tryFormats_cons_some _ _ _ _ (c4self10 dt h)]

theorem c4render11_eq (dt : DT) :
    render fmt11 dt
      = pad4 dt.year ++ ('/' :: (pad2 dt.month ++ ('/' :: (pad2 dt.day ++ (',' :: (' ' :: (pad2 dt.hour ++ (':' :: (pad2 dt.minute ++ ([])))))))))) := rfl


theorem c4trim11 (dt : DT) : trimChars (render fmt11 dt) = render fmt11 dt := by
  apply trimChars_of_hl
  · rw [c4render11_eq]
    simp only [pad2_eq, pad4_eq, List.cons_append, List.nil_append]
    exact ⟨_, _, rfl, not_ws_digitChar _⟩
  · rw [c4render11_eq]
    simp only [ampm_cons, pad2_eq, pad4_eq, List.reverse_cons, List.reverse_append,
      List.append_assoc, List.cons_append, List.nil_append, List.reverse_nil,
      List.append_nil]
    exact ⟨_, _, rfl, not_ws_digitChar _⟩

theorem c4self11 (dt : DT) (h : Rep fmt11 dt) :
    strptimeF fmt11 (render fmt11 dt) = some dt := by
  obtain ⟨hval, hyr, hsec⟩ := h
  simp only [validPy] at hval
  obtain ⟨h1y, h2y, h1m, h2m, h1d, h2d, hH, hMi, hSs⟩ := hval
  have hyr' : 1000 ≤ dt.year ∧ dt.year ≤ 9999 := by
    rw [if_neg (by decide)] at hyr
    exact hyr
  have hd31 : dt.day ≤ 31 := le_trans h2d (daysInMonth_le _ _)
  have hsec0 : dt.second = 0 := by
    rcases hsec with hmem | h0
    · exact absurd hmem (by decide)
    · exact h0
  rw [c4render11_eq]
  have hrun : runDirs fmt11 {} (pad4 dt.year ++ ('/' :: (pad2 dt.month ++ ('/' :: (pad2 dt.day ++ (',' :: (' ' :: (pad2 dt.hour ++ (':' :: (pad2 dt.minute ++ ([])))))))))))
      = some (⟨some dt.day, some dt.month, none, some dt.year, some dt.hour, none, some dt.minute, none, none⟩, []) := by
    show runDirs (Dir.dY :: [Dir.lit '/', Dir.dm, Dir.lit '/', Dir.dd, Dir.lit ',', Dir.ws, Dir.dH, Dir.lit ':', Dir.dM]) {} _ = _
    rw [runDirs_dY_pad _ _ dt.year (by omega) _,
      runDirs_lit_eq,
      runDirs_dm_pad _ _ dt.month _ (by omega) (kill_lit _ '/' (by decide) _ _),
      if_pos (by omega),
      runDirs_lit_eq,
      runDirs_dd_pad _ _ dt.day _ (by omega) (kill_lit _ ',' (by decide) _ _),
      if_pos (by omega),
      runDirs_lit_eq,
      runDirs_ws_single _ _ _ (wsCount_pad2 _ _),
      runDirs_dH_pad _ _ dt.hour _ (by omega) (kill_lit _ ':' (by decide) _ _),
      if_pos (by omega),
      runDirs_lit_eq,
      runDirs_dM_last _ dt.minute _ (by omega) (by omega)]
  rw [strptimeF_of_done _ _ _ hrun]
  unfold buildDT
  dsimp only
  simp only [Option.getD_some, Option.getD_none]
  rw [mkDT, if_pos (by omega)]
  rw [← hsec0]

theorem c4fail_0_11 (dt : DT) (h : Rep fmt11 dt) :
    strptimeF fmt0 (render fmt11 dt) = none := by
  obtain ⟨hval, hyr, hsec⟩ := h
  simp only [validPy] at hval
  obtain ⟨h1y, h2y, h1m, h2m, h1d, h2d, hH, hMi, hSs⟩ := hval
  have hyr' : 1000 ≤ dt.year ∧ dt.year ≤ 9999 := by
    rw [if_neg (by decide)] at hyr
    exact hyr
  have hd31 : dt.day ≤ 31 := le_trans h2d (daysInMonth_le _ _)
  rw [c4render11_eq]
  by_cases hc1 : 1 ≤ (dt.year / 100) ∧ (dt.year / 100) ≤ 31
  · refine strptimeF_of_none _ _ ?_
    show runDirs (Dir.dd :: [Dir.lit '/', Dir.dm, Dir.lit '/', Dir.dY, Dir.ws, Dir.dH, Dir.lit ':', Dir.dM]) {} _ = _
    rw [pad4_as_pad2,
      runDirs_dd_pad _ _ (dt.year / 100) _ (by omega) (kill_lit _ '/' (by decide) _ _),
      if_pos hc1,
      runDirs_lit_pad2 _ _ _ _ _ (by decide)]
  · refine strptimeF_of_none _ _ ?_
    show runDirs (Dir.dd :: [Dir.lit '/', Dir.dm, Dir.lit '/', Dir.dY, Dir.ws, Dir.dH, Dir.lit ':', Dir.dM]) {} _ = _
    rw [pad4_as_pad2,
      runDirs_dd_pad _ _ (dt.year / 100) _ (by omega) (kill_lit _ '/' (by decide) _ _),
      if_neg hc1]

theorem c4fail_1_11 (dt : DT) (h : Rep fmt11 dt) :
    strptimeF fmt1 (render fmt11 dt) = none := by
  obtain ⟨hval, hyr, hsec⟩ := h
  simp only [validPy] at hval
  obtain ⟨h1y, h2y, h1m, h2m, h1d, h2d, hH, hMi, hSs⟩ := hval
  have hyr' : 1000 ≤ dt.year ∧ dt.year ≤ 9999 := by
    rw [if_neg (by decide)] at hyr
    exact hyr
  have hd31 : dt.day ≤ 31 := le_trans h2d (daysInMonth_le _ _)
  rw [c4render11_eq]
  by_cases hc1 : 1 ≤ (dt.year / 100) ∧ (dt.year / 100) ≤ 31
  · refine strptimeF_of_none _ _ ?_
    show runDirs (Dir.dd :: [Dir.lit '/', Dir.dm, Dir.lit '/', Dir.dY, Dir.lit ',', Dir.ws, Dir.dH, Dir.lit ':', Dir.dM]) {} _ = _
    rw [pad4_as_pad2,
      runDirs_dd_pad _ _ (dt.year / 100) _ (by omega) (kill_lit _ '/' (by decide) _ _),
      if_pos hc1,
      runDirs_lit_pad2 _ _ _ _ _ (by decide)]
  · refine strptimeF_of_none _ _ ?_
    show runDirs (Dir.dd :: [Dir.lit '/', Dir.dm, Dir.lit '/', Dir.dY, Dir.lit ',', Dir.ws, Dir.dH, Dir.lit ':', Dir.dM]) {} _ = _
    rw [pad4_as_pad2,
      runDirs_dd_pad _ _ (dt.year / 100) _ (by omega) (kill_lit _ '/' (by decide) _ _),
      if_neg hc1]

theorem c4fail_2_11 (dt : DT) (h : Rep fmt11 dt) :
    strptimeF fmt2 (render fmt11 dt) = none := by
  obtain ⟨hval, hyr, hsec⟩ := h
  simp only [validPy] at hval
  obtain ⟨h1y, h2y, h1m, h2m, h1d, h2d, hH, hMi, hSs⟩ := hval
  have hyr' : 1000 ≤ dt.year ∧ dt.year ≤ 9999 := by
    rw [if_neg (by decide)] at hyr
    exact hyr
  have hd31 : dt.day ≤ 31 := le_trans h2d (daysInMonth_le _ _)
  rw [c4render11_eq]
  by_cases hc1 : 1 ≤ (dt.year / 100) ∧ (dt.year / 100) ≤ 31
  · refine strptimeF_of_none _ _ ?_
    show runDirs (Dir.dd :: [Dir.lit '/', Dir.dm, Dir.lit '/', Dir.dy, Dir.ws, Dir.dH, Dir.lit ':', Dir.dM]) {} _ = _
    rw [pad4_as_pad2,
      runDirs_dd_pad _ _ (dt.year / 100) _ (by omega) (kill_lit _ '/' (by decide) _ _),
      if_pos hc1,
      runDirs_lit_pad2 _ _ _ _ _ (by decide)]
  · refine strptimeF_of_none _ _ ?_
    show runDirs (Dir.dd :: [Dir.lit '/', Dir.dm, Dir.lit '/', Dir.dy, Dir.ws, Dir.dH, Dir.lit ':', Dir.dM]) {} _ = _
    rw [pad4_as_pad2,
      runDirs_dd_pad _ _ (dt.year / 100) _ (by omega) (kill_lit _ '/' (by decide) _ _),
      if_neg hc1]

theorem c4fail_3_11 (dt : DT) (h : Rep fmt11 dt) :
    strptimeF fmt3 (render fmt11 dt) = none := by
  obtain ⟨hval, hyr, hsec⟩ := h
  simp only [validPy] at hval
  obtain ⟨h1y, h2y, h1m, h2m, h1d, h2d, hH, hMi, hSs⟩ := hval
  have hyr' : 1000 ≤ dt.year ∧ dt.year ≤ 9999 := by
    rw [if_neg (by decide)] at hyr
    exact hyr
  have hd31 : dt.day ≤ 31 := le_trans h2d (daysInMonth_le _ _)
  rw [c4render11_eq]
  by_cases hc1 : 1 ≤ (dt.year / 100) ∧ (dt.year / 100) ≤ 31
  · refine strptimeF_of_none _ _ ?_
    show runDirs (Dir.dd :: [Dir.lit '/', Dir.dm, Dir.lit '/', Dir.dy, Dir.lit ',', Dir.ws, Dir.dH, Dir.lit ':', Dir.dM]) {} _ = _
    rw [pad4_as_pad2,
      runDirs_dd_pad _ _ (dt.year / 100) _ (by omega) (kill_lit _ '/' (by decide) _ _),
      if_pos hc1,
      runDirs_lit_pad2 _ _ _ _ _ (by decide)]
  · refine strptimeF_of_none _ _ ?_
    show runDirs (Dir.dd :: [Dir.lit '/', Dir.dm, Dir.lit '/', Dir.dy, Dir.lit ',', Dir.ws, Dir.dH, Dir.lit ':', Dir.dM]) {} _ = _
    rw [pad4_as_pad2,
      runDirs_dd_pad _ _ (dt.year / 100) _ (by omega) (kill_lit _ '/' (by decide) _ _),
      if_neg hc1]

theorem c4fail_4_11 (dt : DT) (h : Rep fmt11 dt) :
    strptimeF fmt4 (render fmt11 dt) = none := by
  obtain ⟨hval, hyr, hsec⟩ := h
  simp only [validPy] at hval
  obtain ⟨h1y, h2y, h1m, h2m, h1d, h2d, hH, hMi, hSs⟩ := hval
  have hyr' : 1000 ≤ dt.year ∧ dt.year ≤ 9999 := by
    rw [if_neg (by decide)] at hyr
    exact hyr
  have hd31 : dt.day ≤ 31 := le_trans h2d (daysInMonth_le _ _)
  rw [c4render11_eq]
  by_cases hc1 : 1 ≤ (dt.year / 100) ∧ (dt.year / 100) ≤ 12
  · refine strptimeF_of_none _ _ ?_
    show runDirs (Dir.dm :: [Dir.lit '/', Dir.dd, Dir.lit '/', Dir.dY, Dir.ws, Dir.dI, Dir.lit ':', Dir.dM, Dir.ws, Dir.dp]) {} _ = _
    rw [pad4_as_pad2,
      runDirs_dm_pad _ _ (dt.year / 100) _ (by omega) (kill_lit _ '/' (by decide) _ _),
      if_pos hc1,
      runDirs_lit_pad2 _ _ _ _ _ (by decide)]
  · refine strptimeF_of_none _ _ ?_
    show runDirs (Dir.dm :: [Dir.lit '/', Dir.dd, Dir.lit '/', Dir.dY, Dir.ws, Dir.dI, Dir.lit ':', Dir.dM, Dir.ws, Dir.dp]) {} _ = _
    rw [pad4_as_pad2,
      runDirs_dm_pad _ _ (dt.year / 100) _ (by omega) (kill_lit _ '/' (by decide) _ _),
      if_neg hc1]

theorem c4fail_5_11 (dt : DT) (h : Rep fmt11 dt) :
    strptimeF fmt5 (render fmt11 dt) = none := by
  obtain ⟨hval, hyr, hsec⟩ := h
  simp only [validPy] at hval
  obtain ⟨h1y, h2y, h1m, h2m, h1d, h2d, hH, hMi, hSs⟩ := hval
  have hyr' : 1000 ≤ dt.year ∧ dt.year ≤ 9999 := by
    rw [if_neg (by decide)] at hyr
    exact hyr
  have hd31 : dt.day ≤ 31 := le_trans h2d (daysInMonth_le _ _)
  rw [c4render11_eq]
  by_cases hc1 : 1 ≤ (dt.year / 100) ∧ (dt.year / 100) ≤ 12
  · refine strptimeF_of_none _ _ ?_
    show runDirs (Dir.dm :: [Dir.lit '/', Dir.dd, Dir.lit '/', Dir.dY, Dir.lit ',', Dir.ws, Dir.dI, Dir.lit ':', Dir.dM, Dir.ws, Dir.dp]) {} _ = _
    rw [pad4_as_pad2,
      runDirs_dm_pad _ _ (dt.year / 100) _ (by omega) (kill_lit _ '/' (by decide) _ _),
      if_pos hc1,
      runDirs_lit_pad2 _ _ _ _ _ (by decide)]
  · refine strptimeF_of_none _ _ ?_
    show runDirs (Dir.dm :: [Dir.lit '/', Dir.dd, Dir.lit '/', Dir.dY, Dir.lit ',', Dir.ws, Dir.dI, Dir.lit ':', Dir.dM, Dir.ws, Dir.dp]) {} _ = _
    rw [pad4_as_pad2,
      runDirs_dm_pad _ _ (dt.year / 100) _ (by omega) (kill_lit _ '/' (by decide) _ _),
      if_neg hc1]

theorem c4fail_6_11 (dt : DT) (h : Rep fmt11 dt) :
    strptimeF fmt6 (render fmt11 dt) = none := by
  obtain ⟨hval, hyr, hsec⟩ := h
  simp only [validPy] at hval
  obtain ⟨h1y, h2y, h1m, h2m, h1d, h2d, hH, hMi, hSs⟩ := hval
  have hyr' : 1000 ≤ dt.year ∧ dt.year ≤ 9999 := by
    rw [if_neg (by decide)] at hyr
    exact hyr
  have hd31 : dt.day ≤ 31 := le_trans h2d (daysInMonth_le _ _)
  rw [c4render11_eq]
  by_cases hc1 : 1 ≤ (dt.year / 100) ∧ (dt.year / 100) ≤ 12
  · refine strptimeF_of_none _ _ ?_
    show runDirs (Dir.dm :: [Dir.lit '/', Dir.dd, Dir.lit '/', Dir.dy, Dir.ws, Dir.dI, Dir.lit ':', Dir.dM, Dir.ws, Dir.dp]) {} _ = _
    rw [pad4_as_pad2,
      runDirs_dm_pad _ _ (dt.year / 100) _ (by omega) (kill_lit _ '/' (by decide) _ _),
      if_pos hc1,
      runDirs_lit_pad2 _ _ _ _ _ (by decide)]
  · refine strptimeF_of_none _ _ ?_
    show runDirs (Dir.dm :: [Dir.lit '/', Dir.dd, Dir.lit '/', Dir.dy, Dir.ws, Dir.dI, Dir.lit ':', Dir.dM, Dir.ws, Dir.dp]) {} _ = _
    rw [pad4_as_pad2,
      runDirs_dm_pad _ _ (dt.year / 100) _ (by omega) (kill_lit _ '/' (by decide) _ _),
      if_neg hc1]

theorem c4fail_7_11 (dt : DT) (h : Rep fmt11 dt) :
    strptimeF fmt7 (render fmt11 dt) = none := by
  obtain ⟨hval, hyr, hsec⟩ := h
  simp only [validPy] at hval
  obtain ⟨h1y, h2y, h1m, h2m, h1d, h2d, hH, hMi, hSs⟩ := hval
  have hyr' : 1000 ≤ dt.year ∧ dt.year ≤ 9999 := by
    rw [if_neg (by decide)] at hyr
    exact hyr
  have hd31 : dt.day ≤ 31 := le_trans h2d (daysInMonth_le _ _)
  rw [c4render11_eq]
  by_cases hc1 : 1 ≤ (dt.year / 100) ∧ (dt.year / 100) ≤ 12
  · refine strptimeF_of_none _ _ ?_
    show runDirs (Dir.dm :: [Dir.lit '/', Dir.dd, Dir.lit '/', Dir.dy, Dir.lit ',', Dir.ws, Dir.dI, Dir.lit ':', Dir.dM, Dir.ws, Dir.dp]) {} _ = _
    rw [pad4_as_pad2,
      runDirs_dm_pad _ _ (dt.year / 100) _ (by omega) (kill_lit _ '/' (by decide) _ _),
      if_pos hc1,
      runDirs_lit_pad2 _ _ _ _ _ (by decide)]
  · refine strptimeF_of_none _ _ ?_
    show runDirs (Dir.dm :: [Dir.lit '/', Dir.dd, Dir.lit '/', Dir.dy, Dir.lit ',', Dir.ws, Dir.dI, Dir.lit ':', Dir.dM, Dir.ws, Dir.dp]) {} _ = _
    rw [pad4_as_pad2,
      runDirs_dm_pad _ _ (dt.year / 100) _ (by omega) (kill_lit _ '/' (by decide) _ _),
      if_neg hc1]

theorem c4fail_8_11 (dt : DT) (h : Rep fmt11 dt) :
    strptimeF fmt8 (render fmt11 dt) = none := by
  obtain ⟨hval, hyr, hsec⟩ := h
  simp only [validPy] at hval
  obtain ⟨h1y, h2y, h1m, h2m, h1d, h2d, hH, hMi, hSs⟩ := hval
  have hyr' : 1000 ≤ dt.year ∧ dt.year ≤ 9999 := by
    rw [if_neg (by decide)] at hyr
    exact hyr
  have hd31 : dt.day ≤ 31 := le_trans h2d (daysInMonth_le _ _)
  rw [c4render11_eq]
  refine strptimeF_of_none _ _ ?_
  show runDirs (Dir.dY :: [Dir.lit '-', Dir.dm, Dir.lit '-', Dir.dd, Dir.ws, Dir.dH, Dir.lit ':', Dir.dM]) {} _ = _
  rw [runDirs_dY_pad _ _ dt.year (by omega) _, runDirs_lit_ne _ _ _ _ _ (by decide)]

theorem c4fail_9_11 (dt : DT) (h : Rep fmt11 dt) :
    strptimeF fmt9 (render fmt11 dt) = none := by
  obtain ⟨hval, hyr, hsec⟩ := h
  simp only [validPy] at hval
  obtain ⟨h1y, h2y, h1m, h2m, h1d, h2d, hH, hMi, hSs⟩ := hval
  have hyr' : 1000 ≤ dt.year ∧ dt.year ≤ 9999 := by
    rw [if_neg (by decide)] at hyr
    exact hyr
  have hd31 : dt.day ≤ 31 := le_trans h2d (daysInMonth_le _ _)
  rw [c4render11_eq]
  refine strptimeF_of_none _ _ ?_
  show runDirs (Dir.dY :: [Dir.lit '-', Dir.dm, Dir.lit '-', Dir.dd, Dir.lit ',', Dir.ws, Dir.dH, Dir.lit ':', Dir.dM]) {} _ = _
  rw [runDirs_dY_pad _ _ dt.year (by omega) _, runDirs_lit_ne _ _ _ _ _ (by decide)]

theorem c4fail_10_11 (dt : DT) (h : Rep fmt11 dt) :
    strptimeF fmt10 (render fmt11 dt) = none := by
  obtain ⟨hval, hyr, hsec⟩ := h
  simp only [validPy] at hval
  obtain ⟨h1y, h2y, h1m, h2m, h1d, h2d, hH, hMi, hSs⟩ := hval
  have hyr' : 1000 ≤ dt.year ∧ dt.year ≤ 9999 := by
    rw [if_neg (by decide)] at hyr
    exact hyr
  have hd31 : dt.day ≤ 31 := le_trans h2d (daysInMonth_le _ _)
  rw [c4render11_eq]
  refine strptimeF_of_none _ _ ?_
  show runDirs (Dir.dY :: [Dir.lit '/', Dir.dm, Dir.lit '/', Dir.dd, Dir.ws, Dir.dH, Dir.lit ':', Dir.dM]) {} _ = _
  rw [runDirs_dY_pad _ _ dt.year (by omega) _,
    runDirs_lit_eq,
    runDirs_dm_pad _ _ dt.month _ (by omega) (kill_lit _ '/' (by decide) _ _),
    if_pos (by omega),
    runDirs_lit_eq,
    runDirs_dd_pad _ _ dt.day _ (by omega) (kill_ws _ _ _),
    if_pos (by omega),
    runDirs_ws_none _ _ _ _ (by decide)]

theorem c4rt11 (dt : DT) (h : Rep fmt11 dt) :
    parseTimestampCore (render fmt11 dt) = some dt := by
  rw [parseTimestampCore_eq, c4trim11]
  simp only [formats]
  rw [tryFormats_cons_none _ _ _ (c4fail_0_11 dt h),
    tryFormats_cons_none _ _ _ (c4fail_1_11 dt h),
    tryFormats_cons_none _ _ _ (c4fail_2_11 dt h),
    tryFormats_cons_none _ _ _ (c4fail_3_11 dt h),
    tryFormats_cons_none _ _ _ (c4fail_4_11 dt h),
    tryFormats_cons_none _ _ _ (c4fail_5_11 dt h),
    tryFormats_cons_none _ _ _ (c4fail_6_11 dt h),
    tryFormats_cons_none _ _ _ (c4fail_7_11 dt h),
    tryFormats_cons_none _ _ _ (c4fail_8_11 dt h),
    tryFormats_cons_none _ _ _ (c4fail_9_11 dt h),
    tryFormats_cons_none _ _ _ (c4fail_10_11 dt h),
    tryFormats_cons_some _ _ _ _ (c4self11 dt h)]

theorem c4render12_eq (dt : DT) :
    render fmt12 dt
      = pad2 dt.day ++ ('.' :: (pad2 dt.month ++ ('.' :: (pad4 dt.year ++ (' ' :: (pad2 dt.hour ++ (':' :: (pad2 dt.minute ++ ([]))))))))) := rfl


theorem c4trim12 (dt : DT) : trimChars (render fmt12 dt) = render fmt12 dt := by
  apply trimChars_of_hl
  · rw [c4render12_eq]
    simp only [pad2_eq, pad4_eq, List.cons_append, List.nil_append]
    exact ⟨_, _, rfl, not_ws_digitChar _⟩
  · rw [c4render12_eq]
    simp only [ampm_cons, pad2_eq, pad4_eq, List.reverse_cons, List.reverse_append,
      List.append_assoc, List.cons_append, List.nil_append, List.reverse_nil,
      List.append_nil]
    exact ⟨_, _, rfl, not_ws_digitChar _⟩

theorem c4self12 (dt : DT) (h : Rep fmt12 dt) :
    strptimeF fmt12 (render fmt12 dt) = some dt := by
  obtain ⟨hval, hyr, hsec⟩ := h
  simp only [validPy] at hval
  obtain ⟨h1y, h2y, h1m, h2m, h1d, h2d, hH, hMi, hSs⟩ := hval
  have hyr' : 1000 ≤ dt.year ∧ dt.year ≤ 9999 := by
    rw [if_neg (by decide)] at hyr
    exact hyr
  have hd31 : dt.day ≤ 31 := le_trans h2d (daysInMonth_le _ _)
  have hsec0 : dt.second = 0 := by
    rcases hsec with hmem | h0
    · exact absurd hmem (by decide)
    · exact h0
  rw [c4render12_eq]
  have hrun : runDirs fmt12 {} (pad2 dt.day ++ ('.' :: (pad2 dt.month ++ ('.' :: (pad4 dt.year ++ (' ' :: (pad2 dt.hour ++ (':' :: (pad2 dt.minute ++ ([]))))))))))
      = some (⟨some dt.day, some dt.month, none, some dt.year, some dt.hour, none, some dt.minute, none, none⟩, []) := by
    show runDirs (Dir.dd :: [Dir.lit '.', Dir.dm, Dir.lit '.', Dir.dY, Dir.ws, Dir.dH, Dir.lit ':', Dir.dM]) {} _ = _
    rw [runDirs_dd_pad _ _ dt.day _ (by omega) (kill_lit _ '.' (by decide) _ _),
      if_pos (by omega),
      runDirs_lit_eq,
      runDirs_dm_pad _ _ dt.month _ (by omega) (kill_lit _ '.' (by decide) _ _),
      if_pos (by omega),
      runDirs_lit_eq,
      runDirs_dY_pad _ _ dt.year (by omega) _,
      runDirs_ws_single _ _ _ (wsCount_pad2 _ _),
      runDirs_dH_pad _ _ dt.hour _ (by omega) (kill_lit _ ':' (by decide) _ _),
      if_pos (by omega),
      runDirs_lit_eq,
      runDirs_dM_last _ dt.minute _ (by omega) (by omega)]
  rw [strptimeF_of_done _ _ _ hrun]
  unfold buildDT
  dsimp only
  simp only [Option.getD_some, Option.getD_none]
  rw [mkDT, if_pos (by omega)]
  rw [← hsec0]

theorem c4fail_0_12 (dt : DT) (h : Rep fmt12 dt) :
    strptimeF fmt0 (render fmt12 dt) = none := by
  obtain ⟨hval, hyr, hsec⟩ := h
  simp only [validPy] at hval
  obtain ⟨h1y, h2y, h1m, h2m, h1d, h2d, hH, hMi, hSs⟩ := hval
  have hyr' : 1000 ≤ dt.year ∧ dt.year ≤ 9999 := by
    rw [if_neg (by decide)] at hyr
    exact hyr
  have hd31 : dt.day ≤ 31 := le_trans h2d (daysInMonth_le _ _)
  rw [c4render12_eq]
  refine strptimeF_of_none _ _ ?_
  show runDirs (Dir.dd :: [Dir.lit '/', Dir.dm, Dir.lit '/', Dir.dY, Dir.ws, Dir.dH, Dir.lit ':', Dir.dM]) {} _ = _
  rw [runDirs_dd_pad _ _ dt.day _ (by omega) (kill_lit _ '/' (by decide) _ _),
    if_pos (by omega),
    runDirs_lit_ne _ _ _ _ _ (by decide)]

theorem c4fail_1_12 (dt : DT) (h : Rep fmt12 dt) :
    strptimeF fmt1 (render fmt12 dt) = none := by
  obtain ⟨hval, hyr, hsec⟩ := h
  simp only [validPy] at hval
  obtain ⟨h1y, h2y, h1m, h2m, h1d, h2d, hH, hMi, hSs⟩ := hval
  have hyr' : 1000 ≤ dt.year ∧ dt.year ≤ 9999 := by
    rw [if_neg (by decide)] at hyr
    exact hyr
  have hd31 : dt.day ≤ 31 := le_trans h2d (daysInMonth_le _ _)
  rw [c4render12_eq]
  refine strptimeF_of_none _ _ ?_
  show runDirs (Dir.dd :: [Dir.lit '/', Dir.dm, Dir.lit '/', Dir.dY, Dir.lit ',', Dir.ws, Dir.dH, Dir.lit ':', Dir.dM]) {} _ = _
  rw [runDirs_dd_pad _ _ dt.day _ (by omega) (kill_lit _ '/' (by decide) _ _),
    if_pos (by omega),
    runDirs_lit_ne _ _ _ _ _ (by decide)]

theorem c4fail_2_12 (dt : DT) (h : Rep fmt12 dt) :
    strptimeF fmt2 (render fmt12 dt) = none := by
  obtain ⟨hval, hyr, hsec⟩ := h
  simp only [validPy] at hval
  obtain ⟨h1y, h2y, h1m, h2m, h1d, h2d, hH, hMi, hSs⟩ := hval
  have hyr' : 1000 ≤ dt.year ∧ dt.year ≤ 9999 := by
    rw [if_neg (by decide)] at hyr
    exact hyr
  have hd31 : dt.day ≤ 31 := le_trans h2d (daysInMonth_le _ _)
  rw [c4render12_eq]
  refine strptimeF_of_none _ _ ?_
  show runDirs (Dir.dd :: [Dir.lit '/', Dir.dm, Dir.lit '/', Dir.dy, Dir.ws, Dir.dH, Dir.lit ':', Dir.dM]) {} _ = _
  rw [runDirs_dd_pad _ _ dt.day _ (by omega) (kill_lit _ '/' (by decide) _ _),
    if_pos (by omega),
    runDirs_lit_ne _ _ _ _ _ (by decide)]

theorem c4fail_3_12 (dt : DT) (h : Rep fmt12 dt) :
    strptimeF fmt3 (render fmt12 dt) = none := by
  obtain ⟨hval, hyr, hsec⟩ := h
  simp only [validPy] at hval
  obtain ⟨h1y, h2y, h1m, h2m, h1d, h2d, hH, hMi, hSs⟩ := hval
  have hyr' : 1000 ≤ dt.year ∧ dt.year ≤ 9999 := by
    rw [if_neg (by decide)] at hyr
    exact hyr
  have hd31 : dt.day ≤ 31 := le_trans h2d (daysInMonth_le _ _)
  rw [c4render12_eq]
  refine strptimeF_of_none _ _ ?_
  show runDirs (Dir.dd :: [Dir.lit '/', Dir.dm, Dir.lit '/', Dir.dy, Dir.lit ',', Dir.ws, Dir.dH, Dir.lit ':', Dir.dM]) {} _ = _
  rw [runDirs_dd_pad _ _ dt.day _ (by omega) (kill_lit _ '/' (by decide) _ _),
    if_pos (by omega),
    runDirs_lit_ne _ _ _ _ _ (by decide)]

theorem c4fail_4_12 (dt : DT) (h : Rep fmt12 dt) :
    strptimeF fmt4 (render fmt12 dt) = none := by
  obtain ⟨hval, hyr, hsec⟩ := h
  simp only [validPy] at hval
  obtain ⟨h1y, h2y, h1m, h2m, h1d, h2d, hH, hMi, hSs⟩ := hval
  have hyr' : 1000 ≤ dt.year ∧ dt.year ≤ 9999 := by
    rw [if_neg (by decide)] at hyr
    exact hyr
  have hd31 : dt.day ≤ 31 := le_trans h2d (daysInMonth_le _ _)
  rw [c4render12_eq]
  by_cases hc1 : 1 ≤ dt.day ∧ dt.day ≤ 12
  · refine strptimeF_of_none _ _ ?_
    show runDirs (Dir.dm :: [Dir.lit '/', Dir.dd, Dir.lit '/', Dir.dY, Dir.ws, Dir.dI, Dir.lit ':', Dir.dM, Dir.ws, Dir.dp]) {} _ = _
    rw [runDirs_dm_pad _ _ dt.day _ (by omega) (kill_lit _ '/' (by decide) _ _),
      if_pos hc1,
      runDirs_lit_ne _ _ _ _ _ (by decide)]
  · refine strptimeF_of_none _ _ ?_
    show runDirs (Dir.dm :: [Dir.lit '/', Dir.dd, Dir.lit '/', Dir.dY, Dir.ws, Dir.dI, Dir.lit ':', Dir.dM, Dir.ws, Dir.dp]) {} _ = _
    rw [runDirs_dm_pad _ _ dt.day _ (by omega) (kill_lit _ '/' (by decide) _ _), if_neg hc1]

theorem c4fail_5_12 (dt : DT) (h : Rep fmt12 dt) :
    strptimeF fmt5 (render fmt12 dt) = none := by
  obtain ⟨hval, hyr, hsec⟩ := h
  simp only [validPy] at hval
  obtain ⟨h1y, h2y, h1m, h2m, h1d, h2d, hH, hMi, hSs⟩ := hval
  have hyr' : 1000 ≤ dt.year ∧ dt.year ≤ 9999 := by
    rw [if_neg (by decide)] at hyr
    exact hyr
  have hd31 : dt.day ≤ 31 := le_trans h2d (daysInMonth_le _ _)
  rw [c4render12_eq]
  by_cases hc1 : 1 ≤ dt.day ∧ dt.day ≤ 12
  · refine strptimeF_of_none _ _ ?_
    show runDirs (Dir.dm :: [Dir.lit '/', Dir.dd, Dir.lit '/', Dir.dY, Dir.lit ',', Dir.ws, Dir.dI, Dir.lit ':', Dir.dM, Dir.ws, Dir.dp]) {} _ = _
    rw [runDirs_dm_pad _ _ dt.day _ (by omega) (kill_lit _ '/' (by decide) _ _),
      if_pos hc1,
      runDirs_lit_ne _ _ _ _ _ (by decide)]
  · refine strptimeF_of_none _ _ ?_
    show runDirs (Dir.dm :: [Dir.lit '/', Dir.dd, Dir.lit '/', Dir.dY, Dir.lit ',', Dir.ws, Dir.dI, Dir.lit ':', Dir.dM, Dir.ws, Dir.dp]) {} _ = _
    rw [runDirs_dm_pad _ _ dt.day _ (by omega) (kill_lit _ '/' (by decide) _ _), if_neg hc1]

theorem c4fail_6_12 (dt : DT) (h : Rep fmt12 dt) :
    strptimeF fmt6 (render fmt12 dt) = none := by
  obtain ⟨hval, hyr, hsec⟩ := h
  simp only [validPy] at hval
  obtain ⟨h1y, h2y, h1m, h2m, h1d, h2d, hH, hMi, hSs⟩ := hval
  have hyr' : 1000 ≤ dt.year ∧ dt.year ≤ 9999 := by
    rw [if_neg (by decide)] at hyr
    exact hyr
  have hd31 : dt.day ≤ 31 := le_trans h2d (daysInMonth_le _ _)
  rw [c4render12_eq]
  by_cases hc1 : 1 ≤ dt.day ∧ dt.day ≤ 12
  · refine strptimeF_of_none _ _ ?_
    show runDirs (Dir.dm :: [Dir.lit '/', Dir.dd, Dir.lit '/', Dir.dy, Dir.ws, Dir.dI, Dir.lit ':', Dir.dM, Dir.ws, Dir.dp]) {} _ = _
    rw [runDirs_dm_pad _ _ dt.day _ (by omega) (kill_lit _ '/' (by decide) _ _),
      if_pos hc1,
      runDirs_lit_ne _ _ _ _ _ (by decide)]
  · refine strptimeF_of_none _ _ ?_
    show runDirs (Dir.dm :: [Dir.lit '/', Dir.dd, Dir.lit '/', Dir.dy, Dir.ws, Dir.dI, Dir.lit ':', Dir.dM, Dir.ws, Dir.dp]) {} _ = _
    rw [runDirs_dm_pad _ _ dt.day _ (by omega) (kill_lit _ '/' (by decide) _ _), if_neg hc1]

theorem c4fail_7_12 (dt : DT) (h : Rep fmt12 dt) :
    strptimeF fmt7 (render fmt12 dt) = none := by
  obtain ⟨hval, hyr, hsec⟩ := h
  simp only [validPy] at hval
  obtain ⟨h1y, h2y, h1m, h2m, h1d, h2d, hH, hMi, hSs⟩ := hval
  have hyr' : 1000 ≤ dt.year ∧ dt.year ≤ 9999 := by
    rw [if_neg (by decide)] at hyr
    exact hyr
  have hd31 : dt.day ≤ 31 := le_trans h2d (daysInMonth_le _ _)
  rw [c4render12_eq]
  by_cases hc1 : 1 ≤ dt.day ∧ dt.day ≤ 12
  · refine strptimeF_of_none _ _ ?_
    show runDirs (Dir.dm :: [Dir.lit '/', Dir.dd, Dir.lit '/', Dir.dy, Dir.lit ',', Dir.ws, Dir.dI, Dir.lit ':', Dir.dM, Dir.ws, Dir.dp]) {} _ = _
    rw [runDirs_dm_pad _ _ dt.day _ (by omega) (kill_lit _ '/' (by decide) _ _),
      if_pos hc1,
      runDirs_lit_ne _ _ _ _ _ (by decide)]
  · refine strptimeF_of_none _ _ ?_
    show runDirs (Dir.dm :: [Dir.lit '/', Dir.dd, Dir.lit '/', Dir.dy, Dir.lit ',', Dir.ws, Dir.dI, Dir.lit ':', Dir.dM, Dir.ws, Dir.dp]) {} _ = _
    rw [runDirs_dm_pad _ _ dt.day _ (by omega) (kill_lit _ '/' (by decide) _ _), if_neg hc1]

theorem c4fail_8_12 (dt : DT) (h : Rep fmt12 dt) :
    strptimeF fmt8 (render fmt12 dt) = none := by
  obtain ⟨hval, hyr, hsec⟩ := h
  simp only [validPy] at hval
  obtain ⟨h1y, h2y, h1m, h2m, h1d, h2d, hH, hMi, hSs⟩ := hval
  have hyr' : 1000 ≤ dt.year ∧ dt.year ≤ 9999 := by
    rw [if_neg (by decide)] at hyr
    exact hyr
  have hd31 : dt.day ≤ 31 := le_trans h2d (daysInMonth_le _ _)
  rw [c4render12_eq]
  refine strptimeF_of_none _ _ ?_
  show runDirs (Dir.dY :: [Dir.lit '-', Dir.dm, Dir.lit '-', Dir.dd, Dir.ws, Dir.dH, Dir.lit ':', Dir.dM]) {} _ = _
  rw [runDirs_dY_pad2_sep _ _ _ _ _ (by decide)]

theorem c4fail_9_12 (dt : DT) (h : Rep fmt12 dt) :
    strptimeF fmt9 (render fmt12 dt) = none := by
  obtain ⟨hval, hyr, hsec⟩ := h
  simp only [validPy] at hval
  obtain ⟨h1y, h2y, h1m, h2m, h1d, h2d, hH, hMi, hSs⟩ := hval
  have hyr' : 1000 ≤ dt.year ∧ dt.year ≤ 9999 := by
    rw [if_neg (by decide)] at hyr
    exact hyr
  have hd31 : dt.day ≤ 31 := le_trans h2d (daysInMonth_le _ _)
  rw [c4render12_eq]
  refine strptimeF_of_none _ _ ?_
  show runDirs (Dir.dY :: [Dir.lit '-', Dir.dm, Dir.lit '-', Dir.dd, Dir.lit ',', Dir.ws, Dir.dH, Dir.lit ':', Dir.dM]) {} _ = _
  rw [runDirs_dY_pad2_sep _ _ _ _ _ (by decide)]

theorem c4fail_10_12 (dt : DT) (h : Rep fmt12 dt) :
    strptimeF fmt10 (render fmt12 dt) = none := by
  obtain ⟨hval, hyr, hsec⟩ := h
  simp only [validPy] at hval
  obtain ⟨h1y, h2y, h1m, h2m, h1d, h2d, hH, hMi, hSs⟩ := hval
  have hyr' : 1000 ≤ dt.year ∧ dt.year ≤ 9999 := by
    rw [if_neg (by decide)] at hyr
    exact hyr
  have hd31 : dt.day ≤ 31 := le_trans h2d (daysInMonth_le _ _)
  rw [c4render12_eq]
  refine strptimeF_of_none _ _ ?_
  show runDirs (Dir.dY :: [Dir.lit '/', Dir.dm, Dir.lit '/', Dir.dd, Dir.ws, Dir.dH, Dir.lit ':', Dir.dM]) {} _ = _
  rw [runDirs_dY_pad2_sep _ _ _ _ _ (by decide)]

theorem c4fail_11_12 (dt : DT) (h : Rep fmt12 dt) :
    strptimeF fmt11 (render fmt12 dt) = none := by
  obtain ⟨hval, hyr, hsec⟩ := h
  simp only [validPy] at hval
  obtain ⟨h1y, h2y, h1m, h2m, h1d, h2d, hH, hMi, hSs⟩ := hval
  have hyr' : 1000 ≤ dt.year ∧ dt.year ≤ 9999 := by
    rw [if_neg (by decide)] at hyr
    exact hyr
  have hd31 : dt.day ≤ 31 := le_trans h2d (daysInMonth_le _ _)
  rw [c4render12_eq]
  refine strptimeF_of_none _ _ ?_
  show runDirs (Dir.dY :: [Dir.lit '/', Dir.dm, Dir.lit '/', Dir.dd, Dir.lit ',', Dir.ws, Dir.dH, Dir.lit ':', Dir.dM]) {} _ = _
  rw [runDirs_dY_pad2_sep _ _ _ _ _ (by decide)]

theorem c4rt12 (dt : DT) (h : Rep fmt12 dt) :
    parseTimestampCore (render fmt12 dt) = some dt := by
  rw [parseTimestampCore_eq, c4trim12]
  simp only [formats]
  rw [tryFormats_cons_none _ _ _ (c4fail_0_12 dt h),
    tryFormats_cons_none _ _ _ (c4fail_1_12 dt h),
    tryFormats_cons_none _ _ _ (c4fail_2_12 dt h),
    tryFormats_cons_none _ _ _ (c4fail_3_12 dt h),
    tryFormats_cons_none _ _ _ (c4fail_4_12 dt h),
    tryFormats_cons_none _ _ _ (c4fail_5_12 dt h),
    tryFormats_cons_none _ _ _ (c4fail_6_12 dt h),
    tryFormats_cons_none _ _ _ (c4fail_7_12 dt h),
    tryFormats_cons_none _ _ _ (c4fail_8_12 dt h),
    tryFormats_cons_none _ _ _ (c4fail_9_12 dt h),
    tryFormats_cons_none _ _ _ (c4fail_10_12 dt h),
    tryFormats_cons_none _ _ _ (c4fail_11_12 dt h),
    tryFormats_cons_some _ _ _ _ (c4self12 dt h)]

theorem c4render13_eq (dt : DT) :
    render fmt13 dt
      = pad2 dt.day ++ ('.' :: (pad2 dt.month ++ ('.' :: (pad4 dt.year ++ (',' :: (' ' :: (pad2 dt.hour ++ (':' :: (pad2 dt.minute ++ ([])))))))))) := rfl


theorem c4trim13 (dt : DT) : trimChars (render fmt13 dt) = render fmt13 dt := by
  apply trimChars_of_hl
  · rw [c4render13_eq]
    simp only [pad2_eq, pad4_eq, List.cons_append, List.nil_append]
    exact ⟨_, _, rfl, not_ws_digitChar _⟩
  · rw [c4render13_eq]
    simp only [ampm_cons, pad2_eq, pad4_eq, List.reverse_cons, List.reverse_append,
      List.append_assoc, List.cons_append, List.nil_append, List.reverse_nil,
      List.append_nil]
    exact ⟨_, _, rfl, not_ws_digitChar _⟩

theorem c4self13 (dt : DT) (h : Rep fmt13 dt) :
    strptimeF fmt13 (render fmt13 dt) = some dt := by
  obtain ⟨hval, hyr, hsec⟩ := h
  simp only [validPy] at hval
  obtain ⟨h1y, h2y, h1m, h2m, h1d, h2d, hH, hMi, hSs⟩ := hval
  have hyr' : 1000 ≤ dt.year ∧ dt.year ≤ 9999 := by
    rw [if_neg (by decide)] at hyr
    exact hyr
  have hd31 : dt.day ≤ 31 := le_trans h2d (daysInMonth_le _ _)
  have hsec0 : dt.second = 0 := by
    rcases hsec with hmem | h0
    · exact absurd hmem (by decide)
    · exact h0
  rw [c4render13_eq]
  have hrun : runDirs fmt13 {} (pad2 dt.day ++ ('.' :: (pad2 dt.month ++ ('.' :: (pad4 dt.year ++ (',' :: (' ' :: (pad2 dt.hour ++ (':' :: (pad2 dt.minute ++ ([])))))))))))
      = some (⟨some dt.day, some dt.month, none, some dt.year, some dt.hour, none, some dt.minute, none, none⟩, []) := by
    show runDirs (Dir.dd :: [Dir.lit '.', Dir.dm, Dir.lit '.', Dir.dY, Dir.lit ',', Dir.ws, Dir.dH, Dir.lit ':', Dir.dM]) {} _ = _
    rw [runDirs_dd_pad _ _ dt.day _ (by omega) (kill_lit _ '.' (by decide) _ _),
      if_pos (by omega),
      runDirs_lit_eq,
      runDirs_dm_pad _ _ dt.month _ (by omega) (kill_lit _ '.' (by decide) _ _),
      if_pos (by omega),
      runDirs_lit_eq,
      runDirs_dY_pad _ _ dt.year (by omega) _,
      runDirs_lit_eq,
      runDirs_ws_single _ _ _ (wsCount_pad2 _ _),
      runDirs_dH_pad _ _ dt.hour _ (by omega) (kill_lit _ ':' (by decide) _ _),
      if_pos (by omega),
      runDirs_lit_eq,
      runDirs_dM_last _ dt.minute _ (by omega) (by omega)]
  rw [strptimeF_of_done _ _ _ hrun]
  unfold buildDT
  dsimp only
  simp only [Option.getD_some, Option.getD_none]
  rw [mkDT, if_pos (by omega)]
  rw [← hsec0]

theorem c4fail_0_13 (dt : DT) (h : Rep fmt13 dt) :
    strptimeF fmt0 (render fmt13 dt) = none := by
  obtain ⟨hval, hyr, hsec⟩ := h
  simp only [validPy] at hval
  obtain ⟨h1y, h2y, h1m, h2m, h1d, h2d, hH, hMi, hSs⟩ := hval
  have hyr' : 1000 ≤ dt.year ∧ dt.year ≤ 9999 := by
    rw [if_neg (by decide)] at hyr
    exact hyr
  have hd31 : dt.day ≤ 31 := le_trans h2d (daysInMonth_le _ _)
  rw [c4render13_eq]
  refine strptimeF_of_none _ _ ?_
  show runDirs (Dir.dd :: [Dir.lit '/', Dir.dm, Dir.lit '/', Dir.dY, Dir.ws, Dir.dH, Dir.lit ':', Dir.dM]) {} _ = _
  rw [runDirs_dd_pad _ _ dt.day _ (by omega) (kill_lit _ '/' (by decide) _ _),
    if_pos (by omega),
    runDirs_lit_ne _ _ _ _ _ (by decide)]

theorem c4fail_1_13 (dt : DT) (h : Rep fmt13 dt) :
    strptimeF fmt1 (render fmt13 dt) = none := by
  obtain ⟨hval, hyr, hsec⟩ := h
  simp only [validPy] at hval
  obtain ⟨h1y, h2y, h1m, h2m, h1d, h2d, hH, hMi, hSs⟩ := hval
  have hyr' : 1000 ≤ dt.year ∧ dt.year ≤ 9999 := by
    rw [if_neg (by decide)] at hyr
    exact hyr
  have hd31 : dt.day ≤ 31 := le_trans h2d (daysInMonth_le _ _)
  rw [c4render13_eq]
  refine strptimeF_of_none _ _ ?_
  show runDirs (Dir.dd :: [Dir.lit '/', Dir.dm, Dir.lit '/', Dir.dY, Dir.lit ',', Dir.ws, Dir.dH, Dir.lit ':', Dir.dM]) {} _ = _
  rw [runDirs_dd_pad _ _ dt.day _ (by omega) (kill_lit _ '/' (by decide) _ _),
    if_pos (by omega),
    runDirs_lit_ne _ _ _ _ _ (by decide)]

theorem c4fail_2_13 (dt : DT) (h : Rep fmt13 dt) :
    strptimeF fmt2 (render fmt13 dt) = none := by
  obtain ⟨hval, hyr, hsec⟩ := h
  simp only [validPy] at hval
  obtain ⟨h1y, h2y, h1m, h2m, h1d, h2d, hH, hMi, hSs⟩ := hval
  have hyr' : 1000 ≤ dt.year ∧ dt.year ≤ 9999 := by
    rw [if_neg (by decide)] at hyr
    exact hyr
  have hd31 : dt.day ≤ 31 := le_trans h2d (daysInMonth_le _ _)
  rw [c4render13_eq]
  refine strptimeF_of_none _ _ ?_
  show runDirs (Dir.dd :: [Dir.lit '/', Dir.dm, Dir.lit '/', Dir.dy, Dir.ws, Dir.dH, Dir.lit ':', Dir.dM]) {} _ = _
  rw [runDirs_dd_pad _ _ dt.day _ (by omega) (kill_lit _ '/' (by decide) _ _),
    if_pos (by omega),
    runDirs_lit_ne _ _ _ _ _ (by decide)]

theorem c4fail_3_13 (dt : DT) (h : Rep fmt13 dt) :
    strptimeF fmt3 (render fmt13 dt) = none := by
  obtain ⟨hval, hyr, hsec⟩ := h
  simp only [validPy] at hval
  obtain ⟨h1y, h2y, h1m, h2m, h1d, h2d, hH, hMi, hSs⟩ := hval
  have hyr' : 1000 ≤ dt.year ∧ dt.year ≤ 9999 := by
    rw [if_neg (by decide)] at hyr
    exact hyr
  have hd31 : dt.day ≤ 31 := le_trans h2d (daysInMonth_le _ _)
  rw [c4render13_eq]
  refine strptimeF_of_none _ _ ?_
  show runDirs (Dir.dd :: [Dir.lit '/', Dir.dm, Dir.lit '/', Dir.dy, Dir.lit ',', Dir.ws, Dir.dH, Dir.lit ':', Dir.dM]) {} _ = _
  rw [runDirs_dd_pad _ _ dt.day _ (by omega) (kill_lit _ '/' (by decide) _ _),
    if_pos (by omega),
    runDirs_lit_ne _ _ _ _ _ (by decide)]

theorem c4fail_4_13 (dt : DT) (h : Rep fmt13 dt) :
    strptimeF fmt4 (render fmt13 dt) = none := by
  obtain ⟨hval, hyr, hsec⟩ := h
  simp only [validPy] at hval
  obtain ⟨h1y, h2y, h1m, h2m, h1d, h2d, hH, hMi, hSs⟩ := hval
  have hyr' : 1000 ≤ dt.year ∧ dt.year ≤ 9999 := by
    rw [if_neg (by decide)] at hyr
    exact hyr
  have hd31 : dt.day ≤ 31 := le_trans h2d (daysInMonth_le _ _)
  rw [c4render13_eq]
  by_cases hc1 : 1 ≤ dt.day ∧ dt.day ≤ 12
  · refine strptimeF_of_none _ _ ?_
    show runDirs (Dir.dm :: [Dir.lit '/', Dir.dd, Dir.lit '/', Dir.dY, Dir.ws, Dir.dI, Dir.lit ':', Dir.dM, Dir.ws, Dir.dp]) {} _ = _
    rw [runDirs_dm_pad _ _ dt.day _ (by omega) (kill_lit _ '/' (by decide) _ _),
      if_pos hc1,
      runDirs_lit_ne _ _ _ _ _ (by decide)]
  · refine strptimeF_of_none _ _ ?_
    show runDirs (Dir.dm :: [Dir.lit '/', Dir.dd, Dir.lit '/', Dir.dY, Dir.ws, Dir.dI, Dir.lit ':', Dir.dM, Dir.ws, Dir.dp]) {} _ = _
    rw [runDirs_dm_pad _ _ dt.day _ (by omega) (kill_lit _ '/' (by decide) _ _), if_neg hc1]

theorem c4fail_5_13 (dt : DT) (h : Rep fmt13 dt) :
    strptimeF fmt5 (render fmt13 dt) = none := by
  obtain ⟨hval, hyr, hsec⟩ := h
  simp only [validPy] at hval
  obtain ⟨h1y, h2y, h1m, h2m, h1d, h2d, hH, hMi, hSs⟩ := hval
  have hyr' : 1000 ≤ dt.year ∧ dt.year ≤ 9999 := by
    rw [if_neg (by decide)] at hyr
    exact hyr
  have hd31 : dt.day ≤ 31 := le_trans h2d (daysInMonth_le _ _)
  rw [c4render13_eq]
  by_cases hc1 : 1 ≤ dt.day ∧ dt.day ≤ 12
  · refine strptimeF_of_none _ _ ?_
    show runDirs (Dir.dm :: [Dir.lit '/', Dir.dd, Dir.lit '/', Dir.dY, Dir.lit ',', Dir.ws, Dir.dI, Dir.lit ':', Dir.dM, Dir.ws, Dir.dp]) {} _ = _
    rw [runDirs_dm_pad _ _ dt.day _ (by omega) (kill_lit _ '/' (by decide) _ _),
      if_pos hc1,
      runDirs_lit_ne _ _ _ _ _ (by decide)]
  · refine strptimeF_of_none _ _ ?_
    show runDirs (Dir.dm :: [Dir.lit '/', Dir.dd, Dir.lit '/', Dir.dY, Dir.lit ',', Dir.ws, Dir.dI, Dir.lit ':', Dir.dM, Dir.ws, Dir.dp]) {} _ = _
    rw [runDirs_dm_pad _ _ dt.day _ (by omega) (kill_lit _ '/' (by decide) _ _), if_neg hc1]

theorem c4fail_6_13 (dt : DT) (h : Rep fmt13 dt) :
    strptimeF fmt6 (render fmt13 dt) = none := by
  obtain ⟨hval, hyr, hsec⟩ := h
  simp only [validPy] at hval
  obtain ⟨h1y, h2y, h1m, h2m, h1d, h2d, hH, hMi, hSs⟩ := hval
  have hyr' : 1000 ≤ dt.year ∧ dt.year ≤ 9999 := by
    rw [if_neg (by decide)] at hyr
    exact hyr
  have hd31 : dt.day ≤ 31 := le_trans h2d (daysInMonth_le _ _)
  rw [c4render13_eq]
  by_cases hc1 : 1 ≤ dt.day ∧ dt.day ≤ 12
  · refine strptimeF_of_none _ _ ?_
    show runDirs (Dir.dm :: [Dir.lit '/', Dir.dd, Dir.lit '/', Dir.dy, Dir.ws, Dir.dI, Dir.lit ':', Dir.dM, Dir.ws, Dir.dp]) {} _ = _
    rw [runDirs_dm_pad _ _ dt.day _ (by omega) (kill_lit _ '/' (by decide) _ _),
      if_pos hc1,
      runDirs_lit_ne _ _ _ _ _ (by decide)]
  · refine strptimeF_of_none _ _ ?_
    show runDirs (Dir.dm :: [Dir.lit '/', Dir.dd, Dir.lit '/', Dir.dy, Dir.ws, Dir.dI, Dir.lit ':', Dir.dM, Dir.ws, Dir.dp]) {} _ = _
    rw [runDirs_dm_pad _ _ dt.day _ (by omega) (kill_lit _ '/' (by decide) _ _), if_neg hc1]

theorem c4fail_7_13 (dt : DT) (h : Rep fmt13 dt) :
    strptimeF fmt7 (render fmt13 dt) = none := by
  obtain ⟨hval, hyr, hsec⟩ := h
  simp only [validPy] at hval
  obtain ⟨h1y, h2y, h1m, h2m, h1d, h2d, hH, hMi, hSs⟩ := hval
  have hyr' : 1000 ≤ dt.year ∧ dt.year ≤ 9999 := by
    rw [if_neg (by decide)] at hyr
    exact hyr
  have hd31 : dt.day ≤ 31 := le_trans h2d (daysInMonth_le _ _)
  rw [c4render13_eq]
  by_cases hc1 : 1 ≤ dt.day ∧ dt.day ≤ 12
  · refine strptimeF_of_none _ _ ?_
    show runDirs (Dir.dm :: [Dir.lit '/', Dir.dd, Dir.lit '/', Dir.dy, Dir.lit ',', Dir.ws, Dir.dI, Dir.lit ':', Dir.dM, Dir.ws, Dir.dp]) {} _ = _
    rw [runDirs_dm_pad _ _ dt.day _ (by omega) (kill_lit _ '/' (by decide) _ _),
      if_pos hc1,
      runDirs_lit_ne _ _ _ _ _ (by decide)]
  · refine strptimeF_of_none _ _ ?_
    show runDirs (Dir.dm :: [Dir.lit '/', Dir.dd, Dir.lit '/', Dir.dy, Dir.lit ',', Dir.ws, Dir.dI, Dir.lit ':', Dir.dM, Dir.ws, Dir.dp]) {} _ = _
    rw [runDirs_dm_pad _ _ dt.day _ (by omega) (kill_lit _ '/' (by decide) _ _), if_neg hc1]

theorem c4fail_8_13 (dt : DT) (h : Rep fmt13 dt) :
    strptimeF fmt8 (render fmt13 dt) = none := by
  obtain ⟨hval, hyr, hsec⟩ := h
  simp only [validPy] at hval
  obtain ⟨h1y, h2y, h1m, h2m, h1d, h2d, hH, hMi, hSs⟩ := hval
  have hyr' : 1000 ≤ dt.year ∧ dt.year ≤ 9999 := by
    rw [if_neg (by decide)] at hyr
    exact hyr
  have hd31 : dt.day ≤ 31 := le_trans h2d (daysInMonth_le _ _)
  rw [c4render13_eq]
  refine strptimeF_of_none _ _ ?_
  show runDirs (Dir.dY :: [Dir.lit '-', Dir.dm, Dir.lit '-', Dir.dd, Dir.ws, Dir.dH, Dir.lit ':', Dir.dM]) {} _ = _
  rw [runDirs_dY_pad2_sep _ _ _ _ _ (by decide)]

theorem c4fail_9_13 (dt : DT) (h : Rep fmt13 dt) :
    strptimeF fmt9 (render fmt13 dt) = none := by
  obtain ⟨hval, hyr, hsec⟩ := h
  simp only [validPy] at hval
  obtain ⟨h1y, h2y, h1m, h2m, h1d, h2d, hH, hMi, hSs⟩ := hval
  have hyr' : 1000 ≤ dt.year ∧ dt.year ≤ 9999 := by
    rw [if_neg (by decide)] at hyr
    exact hyr
  have hd31 : dt.day ≤ 31 := le_trans h2d (daysInMonth_le _ _)
  rw [c4render13_eq]
  refine strptimeF_of_none _ _ ?_
  show runDirs (Dir.dY :: [Dir.lit '-', Dir.dm, Dir.lit '-', Dir.dd, Dir.lit ',', Dir.ws, Dir.dH, Dir.lit ':', Dir.dM]) {} _ = _
  rw [runDirs_dY_pad2_sep _ _ _ _ _ (by decide)]

theorem c4fail_10_13 (dt : DT) (h : Rep fmt13 dt) :
    strptimeF fmt10 (render fmt13 dt) = none := by
  obtain ⟨hval, hyr, hsec⟩ := h
  simp only [validPy] at hval
  obtain ⟨h1y, h2y, h1m, h2m, h1d, h2d, hH, hMi, hSs⟩ := hval
  have hyr' : 1000 ≤ dt.year ∧ dt.year ≤ 9999 := by
    rw [if_neg (by decide)] at hyr
    exact hyr
  have hd31 : dt.day ≤ 31 := le_trans h2d (daysInMonth_le _ _)
  rw [c4render13_eq]
  refine strptimeF_of_none _ _ ?_
  show runDirs (Dir.dY :: [Dir.lit '/', Dir.dm, Dir.lit '/', Dir.dd, Dir.ws, Dir.dH, Dir.lit ':', Dir.dM]) {} _ = _
  rw [runDirs_dY_pad2_sep _ _ _ _ _ (by decide)]

theorem c4fail_11_13 (dt : DT) (h : Rep fmt13 dt) :
    strptimeF fmt11 (render fmt13 dt) = none := by
  obtain ⟨hval, hyr, hsec⟩ := h
  simp only [validPy] at hval
  obtain ⟨h1y, h2y, h1m, h2m, h1d, h2d, hH, hMi, hSs⟩ := hval
  have hyr' : 1000 ≤ dt.year ∧ dt.year ≤ 9999 := by
    rw [if_neg (by decide)] at hyr
    exact hyr
  have hd31 : dt.day ≤ 31 := le_trans h2d (daysInMonth_le _ _)
  rw [c4render13_eq]
  refine strptimeF_of_none _ _ ?_
  show runDirs (Dir.dY :: [Dir.lit '/', Dir.dm, Dir.lit '/', Dir.dd, Dir.lit ',', Dir.ws, Dir.dH, Dir.lit ':', Dir.dM]) {} _ = _
  rw [runDirs_dY_pad2_sep _ _ _ _ _ (by decide)]

theorem c4fail_12_13 (dt : DT) (h : Rep fmt13 dt) :
    strptimeF fmt12 (render fmt13 dt) = none := by
  obtain ⟨hval, hyr, hsec⟩ := h
  simp only [validPy] at hval
  obtain ⟨h1y, h2y, h1m, h2m, h1d, h2d, hH, hMi, hSs⟩ := hval
  have hyr' : 1000 ≤ dt.year ∧ dt.year ≤ 9999 := by
    rw [if_neg (by decide)] at hyr
    exact hyr
  have hd31 : dt.day ≤ 31 := le_trans h2d (daysInMonth_le _ _)
  rw [c4render13_eq]
  refine strptimeF_of_none _ _ ?_
  show runDirs (Dir.dd :: [Dir.lit '.', Dir.dm, Dir.lit '.', Dir.dY, Dir.ws, Dir.dH, Dir.lit ':', Dir.dM]) {} _ = _
  rw [runDirs_dd_pad _ _ dt.day _ (by omega) (kill_lit _ '.' (by decide) _ _),
    if_pos (by omega),
    runDirs_lit_eq,
    runDirs_dm_pad _ _ dt.month _ (by omega) (kill_lit _ '.' (by decide) _ _),
    if_pos (by omega),
    runDirs_lit_eq,
    runDirs_dY_pad _ _ dt.year (by omega) _,
    runDirs_ws_none _ _ _ _ (by decide)]

theorem c4rt13 (dt : DT) (h : Rep fmt13 dt) :
    parseTimestampCore (render fmt13 dt) = some dt := by
  rw [parseTimestampCore_eq, c4trim13]
  simp only [formats]
  rw [tryFormats_cons_none _ _ _ (c4fail_0_13 dt h),
    tryFormats_cons_none _ _ _ (c4fail_1_13 dt h),
    tryFormats_cons_none _ _ _ (c4fail_2_13 dt h),
    tryFormats_cons_none _ _ _ (c4fail_3_13 dt h),
    tryFormats_cons_none _ _ _ (c4fail_4_13 dt h),
    tryFormats_cons_none _ _ _ (c4fail_5_13 dt h),
    tryFormats_cons_none _ _ _ (c4fail_6_13 dt h),
    tryFormats_cons_none _ _ _ (c4fail_7_13 dt h),
    tryFormats_cons_none _ _ _ (c4fail_8_13 dt h),
    tryFormats_cons_none _ _ _ (c4fail_9_13 dt h),
    tryFormats_cons_none _ _ _ (c4fail_10_13 dt h),
    tryFormats_cons_none _ _ _ (c4fail_11_13 dt h),
    tryFormats_cons_none _ _ _ (c4fail_12_13 dt h),
    tryFormats_cons_some _ _ _ _ (c4self13 dt h)]

theorem c4render14_eq (dt : DT) :
    render fmt14 dt
      = pad2 dt.day ++ ('.' :: (pad2 dt.month ++ ('.' :: (pad2 (dt.year % 100) ++ (' ' :: (pad2 dt.hour ++ (':' :: (pad2 dt.minute ++ ([]))))))))) := rfl


theorem c4trim14 (dt : DT) : trimChars (render fmt14 dt) = render fmt14 dt := by
  apply trimChars_of_hl
  · rw [c4render14_eq]
    simp only [pad2_eq, pad4_eq, List.cons_append, List.nil_append]
    exact ⟨_, _, rfl, not_ws_digitChar _⟩
  · rw [c4render14_eq]
    simp only [ampm_cons, pad2_eq, pad4_eq, List.reverse_cons, List.reverse_append,
      List.append_assoc, List.cons_append, List.nil_append, List.reverse_nil,
      List.append_nil]
    exact ⟨_, _, rfl, not_ws_digitChar _⟩

theorem c4self14 (dt : DT) (h : Rep fmt14 dt) :
    strptimeF fmt14 (render fmt14 dt) = some dt := by
  obtain ⟨hval, hyr, hsec⟩ := h
  simp only [validPy] at hval
  obtain ⟨h1y, h2y, h1m, h2m, h1d, h2d, hH, hMi, hSs⟩ := hval
  have hyr' : 1969 ≤ dt.year ∧ dt.year ≤ 2068 := by
    rw [if_pos (by decide)] at hyr
    exact hyr
  have hd31 : dt.day ≤ 31 := le_trans h2d (daysInMonth_le _ _)
  have hsec0 : dt.second = 0 := by
    rcases hsec with hmem | h0
    · exact absurd hmem (by decide)
    · exact h0
  rw [c4render14_eq]
  have hrun : runDirs fmt14 {} (pad2 dt.day ++ ('.' :: (pad2 dt.month ++ ('.' :: (pad2 (dt.year % 100) ++ (' ' :: (pad2 dt.hour ++ (':' :: (pad2 dt.minute ++ ([]))))))))))
      = some (⟨some dt.day, some dt.month, some (dt.year % 100), none, some dt.hour, none, some dt.minute, none, none⟩, []) := by
    show runDirs (Dir.dd :: [Dir.lit '.', Dir.dm, Dir.lit '.', Dir.dy, Dir.ws, Dir.dH, Dir.lit ':', Dir.dM]) {} _ = _
    rw [runDirs_dd_pad _ _ dt.day _ (by omega) (kill_lit _ '.' (by decide) _ _),
      if_pos (by omega),
      runDirs_lit_eq,
      runDirs_dm_pad _ _ dt.month _ (by omega) (kill_lit _ '.' (by decide) _ _),
      if_pos (by omega),
      runDirs_lit_eq,
      runDirs_dy_pad _ _ (dt.year % 100) _ (by omega),
      runDirs_ws_single _ _ _ (wsCount_pad2 _ _),
      runDirs_dH_pad _ _ dt.hour _ (by omega) (kill_lit _ ':' (by decide) _ _),
      if_pos (by omega),
      runDirs_lit_eq,
      runDirs_dM_last _ dt.minute _ (by omega) (by omega)]
  rw [strptimeF_of_done _ _ _ hrun]
  unfold buildDT
  dsimp only
  simp only [Option.getD_some, Option.getD_none]
  have hYr : (if dt.year % 100 ≤ 68 then dt.year % 100 + 2000
      else dt.year % 100 + 1900) = dt.year := by
    split_ifs <;> omega
  rw [hYr]
  rw [mkDT, if_pos (by omega)]
  rw [← hsec0]

theorem c4fail_0_14 (dt : DT) (h : Rep fmt14 dt) :
    strptimeF fmt0 (render fmt14 dt) = none := by
  obtain ⟨hval, hyr, hsec⟩ := h
  simp only [validPy] at hval
  obtain ⟨h1y, h2y, h1m, h2m, h1d, h2d, hH, hMi, hSs⟩ := hval
  have hyr' : 1969 ≤ dt.year ∧ dt.year ≤ 2068 := by
    rw [if_pos (by decide)] at hyr
    exact hyr
  have hd31 : dt.day ≤ 31 := le_trans h2d (daysInMonth_le _ _)
  rw [c4render14_eq]
  refine strptimeF_of_none _ _ ?_
  show runDirs (Dir.dd :: [Dir.lit '/', Dir.dm, Dir.lit '/', Dir.dY, Dir.ws, Dir.dH, Dir.lit ':', Dir.dM]) {} _ = _
  rw [runDirs_dd_pad _ _ dt.day _ (by omega) (kill_lit _ '/' (by decide) _ _),
    if_pos (by omega),
    runDirs_lit_ne _ _ _ _ _ (by decide)]

theorem c4fail_1_14 (dt : DT) (h : Rep fmt14 dt) :
    strptimeF fmt1 (render fmt14 dt) = none := by
  obtain ⟨hval, hyr, hsec⟩ := h
  simp only [validPy] at hval
  obtain ⟨h1y, h2y, h1m, h2m, h1d, h2d, hH, hMi, hSs⟩ := hval
  have hyr' : 1969 ≤ dt.year ∧ dt.year ≤ 2068 := by
    rw [if_pos (by decide)] at hyr
    exact hyr
  have hd31 : dt.day ≤ 31 := le_trans h2d (daysInMonth_le _ _)
  rw [c4render14_eq]
  refine strptimeF_of_none _ _ ?_
  show runDirs (Dir.dd :: [Dir.lit '/', Dir.dm, Dir.lit '/', Dir.dY, Dir.lit ',', Dir.ws, Dir.dH, Dir.lit ':', Dir.dM]) {} _ = _
  rw [runDirs_dd_pad _ _ dt.day _ (by omega) (kill_lit _ '/' (by decide) _ _),
    if_pos (by omega),
    runDirs_lit_ne _ _ _ _ _ (by decide)]

theorem c4fail_2_14 (dt : DT) (h : Rep fmt14 dt) :
    strptimeF fmt2 (render fmt14 dt) = none := by
  obtain ⟨hval, hyr, hsec⟩ := h
  simp only [validPy] at hval
  obtain ⟨h1y, h2y, h1m, h2m, h1d, h2d, hH, hMi, hSs⟩ := hval
  have hyr' : 1969 ≤ dt.year ∧ dt.year ≤ 2068 := by
    rw [if_pos (by decide)] at hyr
    exact hyr
  have hd31 : dt.day ≤ 31 := le_trans h2d (daysInMonth_le _ _)
  rw [c4render14_eq]
  refine strptimeF_of_none _ _ ?_
  show runDirs (Dir.dd :: [Dir.lit '/', Dir.dm, Dir.lit '/', Dir.dy, Dir.ws, Dir.dH, Dir.lit ':', Dir.dM]) {} _ = _
  rw [runDirs_dd_pad _ _ dt.day _ (by omega) (kill_lit _ '/' (by decide) _ _),
    if_pos (by omega),
    runDirs_lit_ne _ _ _ _ _ (by decide)]

theorem c4fail_3_14 (dt : DT) (h : Rep fmt14 dt) :
    strptimeF fmt3 (render fmt14 dt) = none := by
  obtain ⟨hval, hyr, hsec⟩ := h
  simp only [validPy] at hval
  obtain ⟨h1y, h2y, h1m, h2m, h1d, h2d, hH, hMi, hSs⟩ := hval
  have hyr' : 1969 ≤ dt.year ∧ dt.year ≤ 2068 := by
    rw [if_pos (by decide)] at hyr
    exact hyr
  have hd31 : dt.day ≤ 31 := le_trans h2d (daysInMonth_le _ _)
  rw [c4render14_eq]
  refine strptimeF_of_none _ _ ?_
  show runDirs (Dir.dd :: [Dir.lit '/', Dir.dm, Dir.lit '/', Dir.dy, Dir.lit ',', Dir.ws, Dir.dH, Dir.lit ':', Dir.dM]) {} _ = _
  rw [runDirs_dd_pad _ _ dt.day _ (by omega) (kill_lit _ '/' (by decide) _ _),
    if_pos (by omega),
    runDirs_lit_ne _ _ _ _ _ (by decide)]

theorem c4fail_4_14 (dt : DT) (h : Rep fmt14 dt) :
    strptimeF fmt4 (render fmt14 dt) = none := by
  obtain ⟨hval, hyr, hsec⟩ := h
  simp only [validPy] at hval
  obtain ⟨h1y, h2y, h1m, h2m, h1d, h2d, hH, hMi, hSs⟩ := hval
  have hyr' : 1969 ≤ dt.year ∧ dt.year ≤ 2068 := by
    rw [if_pos (by decide)] at hyr
    exact hyr
  have hd31 : dt.day ≤ 31 := le_trans h2d (daysInMonth_le _ _)
  rw [c4render14_eq]
  by_cases hc1 : 1 ≤ dt.day ∧ dt.day ≤ 12
  · refine strptimeF_of_none _ _ ?_
    show runDirs (Dir.dm :: [Dir.lit '/', Dir.dd, Dir.lit '/', Dir.dY, Dir.ws, Dir.dI, Dir.lit ':', Dir.dM, Dir.ws, Dir.dp]) {} _ = _
    rw [runDirs_dm_pad _ _ dt.day _ (by omega) (kill_lit _ '/' (by decide) _ _),
      if_pos hc1,
      runDirs_lit_ne _ _ _ _ _ (by decide)]
  · refine strptimeF_of_none _ _ ?_
    show runDirs (Dir.dm :: [Dir.lit '/', Dir.dd, Dir.lit '/', Dir.dY, Dir.ws, Dir.dI, Dir.lit ':', Dir.dM, Dir.ws, Dir.dp]) {} _ = _
    rw [runDirs_dm_pad _ _ dt.day _ (by omega) (kill_lit _ '/' (by decide) _ _), if_neg hc1]

theorem c4fail_5_14 (dt : DT) (h : Rep fmt14 dt) :
    strptimeF fmt5 (render fmt14 dt) = none := by
  obtain ⟨hval, hyr, hsec⟩ := h
  simp only [validPy] at hval
  obtain ⟨h1y, h2y, h1m, h2m, h1d, h2d, hH, hMi, hSs⟩ := hval
  have hyr' : 1969 ≤ dt.year ∧ dt.year ≤ 2068 := by
    rw [if_pos (by decide)] at hyr
    exact hyr
  have hd31 : dt.day ≤ 31 := le_trans h2d (daysInMonth_le _ _)
  rw [c4render14_eq]
  by_cases hc1 : 1 ≤ dt.day ∧ dt.day ≤ 12
  · refine strptimeF_of_none _ _ ?_
    show runDirs (Dir.dm :: [Dir.lit '/', Dir.dd, Dir.lit '/', Dir.dY, Dir.lit ',', Dir.ws, Dir.dI, Dir.lit ':', Dir.dM, Dir.ws, Dir.dp]) {} _ = _
    rw [runDirs_dm_pad _ _ dt.day _ (by omega) (kill_lit _ '/' (by decide) _ _),
      if_pos hc1,
      runDirs_lit_ne _ _ _ _ _ (by decide)]
  · refine strptimeF_of_none _ _ ?_
    show runDirs (Dir.dm :: [Dir.lit '/', Dir.dd, Dir.lit '/', Dir.dY, Dir.lit ',', Dir.ws, Dir.dI, Dir.lit ':', Dir.dM, Dir.ws, Dir.dp]) {} _ = _
    rw [runDirs_dm_pad _ _ dt.day _ (by omega) (kill_lit _ '/' (by decide) _ _), if_neg hc1]

theorem c4fail_6_14 (dt : DT) (h : Rep fmt14 dt) :
    strptimeF fmt6 (render fmt14 dt) = none := by
  obtain ⟨hval, hyr, hsec⟩ := h
  simp only [validPy] at hval
  obtain ⟨h1y, h2y, h1m, h2m, h1d, h2d, hH, hMi, hSs⟩ := hval
  have hyr' : 1969 ≤ dt.year ∧ dt.year ≤ 2068 := by
    rw [if_pos (by decide)] at hyr
    exact hyr
  have hd31 : dt.day ≤ 31 := le_trans h2d (daysInMonth_le _ _)
  rw [c4render14_eq]
  by_cases hc1 : 1 ≤ dt.day ∧ dt.day ≤ 12
  · refine strptimeF_of_none _ _ ?_
    show runDirs (Dir.dm :: [Dir.lit '/', Dir.dd, Dir.lit '/', Dir.dy, Dir.ws, Dir.dI, Dir.lit ':', Dir.dM, Dir.ws, Dir.dp]) {} _ = _
    rw [runDirs_dm_pad _ _ dt.day _ (by omega) (kill_lit _ '/' (by decide) _ _),
      if_pos hc1,
      runDirs_lit_ne _ _ _ _ _ (by decide)]
  · refine strptimeF_of_none _ _ ?_
    show runDirs (Dir.dm :: [Dir.lit '/', Dir.dd, Dir.lit '/', Dir.dy, Dir.ws, Dir.dI, Dir.lit ':', Dir.dM, Dir.ws, Dir.dp]) {} _ = _
    rw [runDirs_dm_pad _ _ dt.day _ (by omega) (kill_lit _ '/' (by decide) _ _), if_neg hc1]

theorem c4fail_7_14 (dt : DT) (h : Rep fmt14 dt) :
    strptimeF fmt7 (render fmt14 dt) = none := by
  obtain ⟨hval, hyr, hsec⟩ := h
  simp only [validPy] at hval
  obtain ⟨h1y, h2y, h1m, h2m, h1d, h2d, hH, hMi, hSs⟩ := hval
  have hyr' : 1969 ≤ dt.year ∧ dt.year ≤ 2068 := by
    rw [if_pos (by decide)] at hyr
    exact hyr
  have hd31 : dt.day ≤ 31 := le_trans h2d (daysInMonth_le _ _)
  rw [c4render14_eq]
  by_cases hc1 : 1 ≤ dt.day ∧ dt.day ≤ 12
  · refine strptimeF_of_none _ _ ?_
    show runDirs (Dir.dm :: [Dir.lit '/', Dir.dd, Dir.lit '/', Dir.dy, Dir.lit ',', Dir.ws, Dir.dI, Dir.lit ':', Dir.dM, Dir.ws, Dir.dp]) {} _ = _
    rw [runDirs_dm_pad _ _ dt.day _ (by omega) (kill_lit _ '/' (by decide) _ _),
      if_pos hc1,
      runDirs_lit_ne _ _ _ _ _ (by decide)]
  · refine strptimeF_of_none _ _ ?_
    show runDirs (Dir.dm :: [Dir.lit '/', Dir.dd, Dir.lit '/', Dir.dy, Dir.lit ',', Dir.ws, Dir.dI, Dir.lit ':', Dir.dM, Dir.ws, Dir.dp]) {} _ = _
    rw [runDirs_dm_pad _ _ dt.day _ (by omega) (kill_lit _ '/' (by decide) _ _), if_neg hc1]

theorem c4fail_8_14 (dt : DT) (h : Rep fmt14 dt) :
    strptimeF fmt8 (render fmt14 dt) = none := by
  obtain ⟨hval, hyr, hsec⟩ := h
  simp only [validPy] at hval
  obtain ⟨h1y, h2y, h1m, h2m, h1d, h2d, hH, hMi, hSs⟩ := hval
  have hyr' : 1969 ≤ dt.year ∧ dt.year ≤ 2068 := by
    rw [if_pos (by decide)] at hyr
    exact hyr
  have hd31 : dt.day ≤ 31 := le_trans h2d (daysInMonth_le _ _)
  rw [c4render14_eq]
  refine strptimeF_of_none _ _ ?_
  show runDirs (Dir.dY :: [Dir.lit '-', Dir.dm, Dir.lit '-', Dir.dd, Dir.ws, Dir.dH, Dir.lit ':', Dir.dM]) {} _ = _
  rw [runDirs_dY_pad2_sep _ _ _ _ _ (by decide)]

theorem c4fail_9_14 (dt : DT) (h : Rep fmt14 dt) :
    strptimeF fmt9 (render fmt14 dt) = none := by
  obtain ⟨hval, hyr, hsec⟩ := h
  simp only [validPy] at hval
  obtain ⟨h1y, h2y, h1m, h2m, h1d, h2d, hH, hMi, hSs⟩ := hval
  have hyr' : 1969 ≤ dt.year ∧ dt.year ≤ 2068 := by
    rw [if_pos (by decide)] at hyr
    exact hyr
  have hd31 : dt.day ≤ 31 := le_trans h2d (daysInMonth_le _ _)
  rw [c4render14_eq]
  refine strptimeF_of_none _ _ ?_
  show runDirs (Dir.dY :: [Dir.lit '-', Dir.dm, Dir.lit '-', Dir.dd, Dir.lit ',', Dir.ws, Dir.dH, Dir.lit ':', Dir.dM]) {} _ = _
  rw [runDirs_dY_pad2_sep _ _ _ _ _ (by decide)]

theorem c4fail_10_14 (dt : DT) (h : Rep fmt14 dt) :
    strptimeF fmt10 (render fmt14 dt) = none := by
  obtain ⟨hval, hyr, hsec⟩ := h
  simp only [validPy] at hval
  obtain ⟨h1y, h2y, h1m, h2m, h1d, h2d, hH, hMi, hSs⟩ := hval
  have hyr' : 1969 ≤ dt.year ∧ dt.year ≤ 2068 := by
    rw [if_pos (by decide)] at hyr
    exact hyr
  have hd31 : dt.day ≤ 31 := le_trans h2d (daysInMonth_le _ _)
  rw [c4render14_eq]
  refine strptimeF_of_none _ _ ?_
  show runDirs (Dir.dY :: [Dir.lit '/', Dir.dm, Dir.lit '/', Dir.dd, Dir.ws, Dir.dH, Dir.lit ':', Dir.dM]) {} _ = _
  rw [runDirs_dY_pad2_sep _ _ _ _ _ (by decide)]

theorem c4fail_11_14 (dt : DT) (h : Rep fmt14 dt) :
    strptimeF fmt11 (render fmt14 dt) = none := by
  obtain ⟨hval, hyr, hsec⟩ := h
  simp only [validPy] at hval
  obtain ⟨h1y, h2y, h1m, h2m, h1d, h2d, hH, hMi, hSs⟩ := hval
  have hyr' : 1969 ≤ dt.year ∧ dt.year ≤ 2068 := by
    rw [if_pos (by decide)] at hyr
    exact hyr
  have hd31 : dt.day ≤ 31 := le_trans h2d (daysInMonth_le _ _)
  rw [c4render14_eq]
  refine strptimeF_of_none _ _ ?_
  show runDirs (Dir.dY :: [Dir.lit '/', Dir.dm, Dir.lit '/', Dir.dd, Dir.lit ',', Dir.ws, Dir.dH, Dir.lit ':', Dir.dM]) {} _ = _
  rw [runDirs_dY_pad2_sep _ _ _ _ _ (by decide)]

theorem c4fail_12_14 (dt : DT) (h : Rep fmt14 dt) :
    strptimeF fmt12 (render fmt14 dt) = none := by
  obtain ⟨hval, hyr, hsec⟩ := h
  simp only [validPy] at hval
  obtain ⟨h1y, h2y, h1m, h2m, h1d, h2d, hH, hMi, hSs⟩ := hval
  have hyr' : 1969 ≤ dt.year ∧ dt.year ≤ 2068 := by
    rw [if_pos (by decide)] at hyr
    exact hyr
  have hd31 : dt.day ≤ 31 := le_trans h2d (daysInMonth_le _ _)
  rw [c4render14_eq]
  refine strptimeF_of_none _ _ ?_
  show runDirs (Dir.dd :: [Dir.lit '.', Dir.dm, Dir.lit '.', Dir.dY, Dir.ws, Dir.dH, Dir.lit ':', Dir.dM]) {} _ = _
  rw [runDirs_dd_pad _ _ dt.day _ (by omega) (kill_lit _ '.' (by decide) _ _),
    if_pos (by omega),
    runDirs_lit_eq,
    runDirs_dm_pad _ _ dt.month _ (by omega) (kill_lit _ '.' (by decide) _ _),
    if_pos (by omega),
    runDirs_lit_eq,
    runDirs_dY_pad2_sep _ _ _ _ _ (by decide)]

theorem c4fail_13_14 (dt : DT) (h : Rep fmt14 dt) :
    strptimeF fmt13 (render fmt14 dt) = none := by
  obtain ⟨hval, hyr, hsec⟩ := h
  simp only [validPy] at hval
  obtain ⟨h1y, h2y, h1m, h2m, h1d, h2d, hH, hMi, hSs⟩ := hval
  have hyr' : 1969 ≤ dt.year ∧ dt.year ≤ 2068 := by
    rw [if_pos (by decide)] at hyr
    exact hyr
  have hd31 : dt.day ≤ 31 := le_trans h2d (daysInMonth_le _ _)
  rw [c4render14_eq]
  refine strptimeF_of_none _ _ ?_
  show runDirs (Dir.dd :: [Dir.lit '.', Dir.dm, Dir.lit '.', Dir.dY, Dir.lit ',', Dir.ws, Dir.dH, Dir.lit ':', Dir.dM]) {} _ = _
  rw [runDirs_dd_pad _ _ dt.day _ (by omega) (kill_lit _ '.' (by decide) _ _),
    if_pos (by omega),
    runDirs_lit_eq,
    runDirs_dm_pad _ _ dt.month _ (by omega) (kill_lit _ '.' (by decide) _ _),
    if_pos (by omega),
    runDirs_lit_eq,
    runDirs_dY_pad2_sep _ _ _ _ _ (by decide)]

theorem c4rt14 (dt : DT) (h : Rep fmt14 dt) :
    parseTimestampCore (render fmt14 dt) = some dt := by
  rw [parseTimestampCore_eq, c4trim14]
  simp only [formats]
  rw [tryFormats_cons_none _ _ _ (c4fail_0_14 dt h),
    tryFormats_cons_none _ _ _ (c4fail_1_14 dt h),
    tryFormats_cons_none _ _ _ (c4fail_2_14 dt h),
    tryFormats_cons_none _ _ _ (c4fail_3_14 dt h),
    tryFormats_cons_none _ _ _ (c4fail_4_14 dt h),
    tryFormats_cons_none _ _ _ (c4fail_5_14 dt h),
    tryFormats_cons_none _ _ _ (c4fail_6_14 dt h),
    tryFormats_cons_none _ _ _ (c4fail_7_14 dt h),
    tryFormats_cons_none _ _ _ (c4fail_8_14 dt h),
    tryFormats_cons_none _ _ _ (c4fail_9_14 dt h),
    tryFormats_cons_none _ _ _ (c4fail_10_14 dt h),
    tryFormats_cons_none _ _ _ (c4fail_11_14 dt h),
    tryFormats_cons_none _ _ _ (c4fail_12_14 dt h),
    tryFormats_cons_none _ _ _ (c4fail_13_14 dt h),
    tryFormats_cons_some _ _ _ _ (c4self14 dt h)]

theorem c4render15_eq (dt : DT) :
    render fmt15 dt
      = pad2 dt.day ++ ('.' :: (pad2 dt.month ++ ('.' :: (pad2 (dt.year % 100) ++ (',' :: (' ' :: (pad2 dt.hour ++ (':' :: (pad2 dt.minute ++ ([])))))))))) := rfl


theorem c4trim15 (dt : DT) : trimChars (render fmt15 dt) = render fmt15 dt := by
  apply trimChars_of_hl
  · rw [c4render15_eq]
    simp only [pad2_eq, pad4_eq, List.cons_append, List.nil_append]
    exact ⟨_, _, rfl, not_ws_digitChar _⟩
  · rw [c4render15_eq]
    simp only [ampm_cons, pad2_eq, pad4_eq, List.reverse_cons, List.reverse_append,
      List.append_assoc, List.cons_append, List.nil_append, List.reverse_nil,
      List.append_nil]
    exact ⟨_, _, rfl, not_ws_digitChar _⟩

theorem c4self15 (dt : DT) (h : Rep fmt15 dt) :
    strptimeF fmt15 (render fmt15 dt) = some dt := by
  obtain ⟨hval, hyr, hsec⟩ := h
  simp only [validPy] at hval
  obtain ⟨h1y, h2y, h1m, h2m, h1d, h2d, hH, hMi, hSs⟩ := hval
  have hyr' : 1969 ≤ dt.year ∧ dt.year ≤ 2068 := by
    rw [if_pos (by decide)] at hyr
    exact hyr
  have hd31 : dt.day ≤ 31 := le_trans h2d (daysInMonth_le _ _)
  have hsec0 : dt.second = 0 := by
    rcases hsec with hmem | h0
    · exact absurd hmem (by decide)
    · exact h0
  rw [c4render15_eq]
  have hrun : runDirs fmt15 {} (pad2 dt.day ++ ('.' :: (pad2 dt.month ++ ('.' :: (pad2 (dt.year % 100) ++ (',' :: (' ' :: (pad2 dt.hour ++ (':' :: (pad2 dt.minute ++ ([])))))))))))
      = some (⟨some dt.day, some dt.month, some (dt.year % 100), none, some dt.hour, none, some dt.minute, none, none⟩, []) := by
    show runDirs (Dir.dd :: [Dir.lit '.', Dir.dm, Dir.lit '.', Dir.dy, Dir.lit ',', Dir.ws, Dir.dH, Dir.lit ':', Dir.dM]) {} _ = _
    rw [runDirs_dd_pad _ _ dt.day _ (by omega) (kill_lit _ '.' (by decide) _ _),
      if_pos (by omega),
      runDirs_lit_eq,
      runDirs_dm_pad _ _ dt.month _ (by omega) (kill_lit _ '.' (by decide) _ _),
      if_pos (by omega),
      runDirs_lit_eq,
      runDirs_dy_pad _ _ (dt.year % 100) _ (by omega),
      runDirs_lit_eq,
      runDirs_ws_single _ _ _ (wsCount_pad2 _ _),
      runDirs_dH_pad _ _ dt.hour _ (by omega) (kill_lit _ ':' (by decide) _ _),
      if_pos (by omega),
      runDirs_lit_eq,
      runDirs_dM_last _ dt.minute _ (by omega) (by omega)]
  rw [strptimeF_of_done _ _ _ hrun]
  unfold buildDT
  dsimp only
  simp only [Option.getD_some, Option.getD_none]
  have hYr : (if dt.year % 100 ≤ 68 then dt.year % 100 + 2000
      else dt.year % 100 + 1900) = dt.year := by
    split_ifs <;> omega
  rw [hYr]
  rw [mkDT, if_pos (by omega)]
  rw [← hsec0]

theorem c4fail_0_15 (dt : DT) (h : Rep fmt15 dt) :
    strptimeF fmt0 (render fmt15 dt) = none := by
  obtain ⟨hval, hyr, hsec⟩ := h
  simp only [validPy] at hval
  obtain ⟨h1y, h2y, h1m, h2m, h1d, h2d, hH, hMi, hSs⟩ := hval
  have hyr' : 1969 ≤ dt.year ∧ dt.year ≤ 2068 := by
    rw [if_pos (by decide)] at hyr
    exact hyr
  have hd31 : dt.day ≤ 31 := le_trans h2d (daysInMonth_le _ _)
  rw [c4render15_eq]
  refine strptimeF_of_none _ _ ?_
  show runDirs (Dir.dd :: [Dir.lit '/', Dir.dm, Dir.lit '/', Dir.dY, Dir.ws, Dir.dH, Dir.lit ':', Dir.dM]) {} _ = _
  rw [runDirs_dd_pad _ _ dt.day _ (by omega) (kill_lit _ '/' (by decide) _ _),
    if_pos (by omega),
    runDirs_lit_ne _ _ _ _ _ (by decide)]

theorem c4fail_1_15 (dt : DT) (h : Rep fmt15 dt) :
    strptimeF fmt1 (render fmt15 dt) = none := by
  obtain ⟨hval, hyr, hsec⟩ := h
  simp only [validPy] at hval
  obtain ⟨h1y, h2y, h1m, h2m, h1d, h2d, hH, hMi, hSs⟩ := hval
  have hyr' : 1969 ≤ dt.year ∧ dt.year ≤ 2068 := by
    rw [if_pos (by decide)] at hyr
    exact hyr
  have hd31 : dt.day ≤ 31 := le_trans h2d (daysInMonth_le _ _)
  rw [c4render15_eq]
  refine strptimeF_of_none _ _ ?_
  show runDirs (Dir.dd :: [Dir.lit '/', Dir.dm, Dir.lit '/', Dir.dY, Dir.lit ',', Dir.ws, Dir.dH, Dir.lit ':', Dir.dM]) {} _ = _
  rw [runDirs_dd_pad _ _ dt.day _ (by omega) (kill_lit _ '/' (by decide) _ _),
    if_pos (by omega),
    runDirs_lit_ne _ _ _ _ _ (by decide)]

theorem c4fail_2_15 (dt : DT) (h : Rep fmt15 dt) :
    strptimeF fmt2 (render fmt15 dt) = none := by
  obtain ⟨hval, hyr, hsec⟩ := h
  simp only [validPy] at hval
  obtain ⟨h1y, h2y, h1m, h2m, h1d, h2d, hH, hMi, hSs⟩ := hval
  have hyr' : 1969 ≤ dt.year ∧ dt.year ≤ 2068 := by
    rw [if_pos (by decide)] at hyr
    exact hyr
  have hd31 : dt.day ≤ 31 := le_trans h2d (daysInMonth_le _ _)
  rw [c4render15_eq]
  refine strptimeF_of_none _ _ ?_
  show runDirs (Dir.dd :: [Dir.lit '/', Dir.dm, Dir.lit '/', Dir.dy, Dir.ws, Dir.dH, Dir.lit ':', Dir.dM]) {} _ = _
  rw [runDirs_dd_pad _ _ dt.day _ (by omega) (kill_lit _ '/' (by decide) _ _),
    if_pos (by omega),
    runDirs_lit_ne _ _ _ _ _ (by decide)]

theorem c4fail_3_15 (dt : DT) (h : Rep fmt15 dt) :
    strptimeF fmt3 (render fmt15 dt) = none := by
  obtain ⟨hval, hyr, hsec⟩ := h
  simp only [validPy] at hval
  obtain ⟨h1y, h2y, h1m, h2m, h1d, h2d, hH, hMi, hSs⟩ := hval
  have hyr' : 1969 ≤ dt.year ∧ dt.year ≤ 2068 := by
    rw [if_pos (by decide)] at hyr
    exact hyr
  have hd31 : dt.day ≤ 31 := le_trans h2d (daysInMonth_le _ _)
  rw [c4render15_eq]
  refine strptimeF_of_none _ _ ?_
  show runDirs (Dir.dd :: [Dir.lit '/', Dir.dm, Dir.lit '/', Dir.dy, Dir.lit ',', Dir.ws, Dir.dH, Dir.lit ':', Dir.dM]) {} _ = _
  rw [runDirs_dd_pad _ _ dt.day _ (by omega) (kill_lit _ '/' (by decide) _ _),
    if_pos (by omega),
    runDirs_lit_ne _ _ _ _ _ (by decide)]

theorem c4fail_4_15 (dt : DT) (h : Rep fmt15 dt) :
    strptimeF fmt4 (render fmt15 dt) = none := by
  obtain ⟨hval, hyr, hsec⟩ := h
  simp only [validPy] at hval
  obtain ⟨h1y, h2y, h1m, h2m, h1d, h2d, hH, hMi, hSs⟩ := hval
  have hyr' : 1969 ≤ dt.year ∧ dt.year ≤ 2068 := by
    rw [if_pos (by decide)] at hyr
    exact hyr
  have hd31 : dt.day ≤ 31 := le_trans h2d (daysInMonth_le _ _)
  rw [c4render15_eq]
  by_cases hc1 : 1 ≤ dt.day ∧ dt.day ≤ 12
  · refine strptimeF_of_none _ _ ?_
    show runDirs (Dir.dm :: [Dir.lit '/', Dir.dd, Dir.lit '/', Dir.dY, Dir.ws, Dir.dI, Dir.lit ':', Dir.dM, Dir.ws, Dir.dp]) {} _ = _
    rw [runDirs_dm_pad _ _ dt.day _ (by omega) (kill_lit _ '/' (by decide) _ _),
      if_pos hc1,
      runDirs_lit_ne _ _ _ _ _ (by decide)]
  · refine strptimeF_of_none _ _ ?_
    show runDirs (Dir.dm :: [Dir.lit '/', Dir.dd, Dir.lit '/', Dir.dY, Dir.ws, Dir.dI, Dir.lit ':', Dir.dM, Dir.ws, Dir.dp]) {} _ = _
    rw [runDirs_dm_pad _ _ dt.day _ (by omega) (kill_lit _ '/' (by decide) _ _), if_neg hc1]

theorem c4fail_5_15 (dt : DT) (h : Rep fmt15 dt) :
    strptimeF fmt5 (render fmt15 dt) = none := by
  obtain ⟨hval, hyr, hsec⟩ := h
  simp only [validPy] at hval
  obtain ⟨h1y, h2y, h1m, h2m, h1d, h2d, hH, hMi, hSs⟩ := hval
  have hyr' : 1969 ≤ dt.year ∧ dt.year ≤ 2068 := by
    rw [if_pos (by decide)] at hyr
    exact hyr
  have hd31 : dt.day ≤ 31 := le_trans h2d (daysInMonth_le _ _)
  rw [c4render15_eq]
  by_cases hc1 : 1 ≤ dt.day ∧ dt.day ≤ 12
  · refine strptimeF_of_none _ _ ?_
    show runDirs (Dir.dm :: [Dir.lit '/', Dir.dd, Dir.lit '/', Dir.dY, Dir.lit ',', Dir.ws, Dir.dI, Dir.lit ':', Dir.dM, Dir.ws, Dir.dp]) {} _ = _
    rw [runDirs_dm_pad _ _ dt.day _ (by omega) (kill_lit _ '/' (by decide) _ _),
      if_pos hc1,
      runDirs_lit_ne _ _ _ _ _ (by decide)]
  · refine strptimeF_of_none _ _ ?_
    show runDirs (Dir.dm :: [Dir.lit '/', Dir.dd, Dir.lit '/', Dir.dY, Dir.lit ',', Dir.ws, Dir.dI, Dir.lit ':', Dir.dM, Dir.ws, Dir.dp]) {} _ = _
    rw [runDirs_dm_pad _ _ dt.day _ (by omega) (kill_lit _ '/' (by decide) _ _), if_neg hc1]

theorem c4fail_6_15 (dt : DT) (h : Rep fmt15 dt) :
    strptimeF fmt6 (render fmt15 dt) = none := by
  obtain ⟨hval, hyr, hsec⟩ := h
  simp only [validPy] at hval
  obtain ⟨h1y, h2y, h1m, h2m, h1d, h2d, hH, hMi, hSs⟩ := hval
  have hyr' : 1969 ≤ dt.year ∧ dt.year ≤ 2068 := by
    rw [if_pos (by decide)] at hyr
    exact hyr
  have hd31 : dt.day ≤ 31 := le_trans h2d (daysInMonth_le _ _)
  rw [c4render15_eq]
  by_cases hc1 : 1 ≤ dt.day ∧ dt.day ≤ 12
  · refine strptimeF_of_none _ _ ?_
    show runDirs (Dir.dm :: [Dir.lit '/', Dir.dd, Dir.lit '/', Dir.dy, Dir.ws, Dir.dI, Dir.lit ':', Dir.dM, Dir.ws, Dir.dp]) {} _ = _
    rw [runDirs_dm_pad _ _ dt.day _ (by omega) (kill_lit _ '/' (by decide) _ _),
      if_pos hc1,
      runDirs_lit_ne _ _ _ _ _ (by decide)]
  · refine strptimeF_of_none _ _ ?_
    show runDirs (Dir.dm :: [Dir.lit '/', Dir.dd, Dir.lit '/', Dir.dy, Dir.ws, Dir.dI, Dir.lit ':', Dir.dM, Dir.ws, Dir.dp]) {} _ = _
    rw [runDirs_dm_pad _ _ dt.day _ (by omega) (kill_lit _ '/' (by decide) _ _), if_neg hc1]

theorem c4fail_7_15 (dt : DT) (h : Rep fmt15 dt) :
    strptimeF fmt7 (render fmt15 dt) = none := by
  obtain ⟨hval, hyr, hsec⟩ := h
  simp only [validPy] at hval
  obtain ⟨h1y, h2y, h1m, h2m, h1d, h2d, hH, hMi, hSs⟩ := hval
  have hyr' : 1969 ≤ dt.year ∧ dt.year ≤ 2068 := by
    rw [if_pos (by decide)] at hyr
    exact hyr
  have hd31 : dt.day ≤ 31 := le_trans h2d (daysInMonth_le _ _)
  rw [c4render15_eq]
  by_cases hc1 : 1 ≤ dt.day ∧ dt.day ≤ 12
  · refine strptimeF_of_none _ _ ?_
    show runDirs (Dir.dm :: [Dir.lit '/', Dir.dd, Dir.lit '/', Dir.dy, Dir.lit ',', Dir.ws, Dir.dI, Dir.lit ':', Dir.dM, Dir.ws, Dir.dp]) {} _ = _
    rw [runDirs_dm_pad _ _ dt.day _ (by omega) (kill_lit _ '/' (by decide) _ _),
      if_pos hc1,
      runDirs_lit_ne _ _ _ _ _ (by decide)]
  · refine strptimeF_of_none _ _ ?_
    show runDirs (Dir.dm :: [Dir.lit '/', Dir.dd, Dir.lit '/', Dir.dy, Dir.lit ',', Dir.ws, Dir.dI, Dir.lit ':', Dir.dM, Dir.ws, Dir.dp]) {} _ = _
    rw [runDirs_dm_pad _ _ dt.day _ (by omega) (kill_lit _ '/' (by decide) _ _), if_neg hc1]

theorem c4fail_8_15 (dt : DT) (h : Rep fmt15 dt) :
    strptimeF fmt8 (render fmt15 dt) = none := by
  obtain ⟨hval, hyr, hsec⟩ := h
  simp only [validPy] at hval
  obtain ⟨h1y, h2y, h1m, h2m, h1d, h2d, hH, hMi, hSs⟩ := hval
  have hyr' : 1969 ≤ dt.year ∧ dt.year ≤ 2068 := by
    rw [if_pos (by decide)] at hyr
    exact hyr
  have hd31 : dt.day ≤ 31 := le_trans h2d (daysInMonth_le _ _)
  rw [c4render15_eq]
  refine strptimeF_of_none _ _ ?_
  show runDirs (Dir.dY :: [Dir.lit '-', Dir.dm, Dir.lit '-', Dir.dd, Dir.ws, Dir.dH, Dir.lit ':', Dir.dM]) {} _ = _
  rw [runDirs_dY_pad2_sep _ _ _ _ _ (by decide)]

theorem c4fail_9_15 (dt : DT) (h : Rep fmt15 dt) :
    strptimeF fmt9 (render fmt15 dt) = none := by
  obtain ⟨hval, hyr, hsec⟩ := h
  simp only [validPy] at hval
  obtain ⟨h1y, h2y, h1m, h2m, h1d, h2d, hH, hMi, hSs⟩ := hval
  have hyr' : 1969 ≤ dt.year ∧ dt.year ≤ 2068 := by
    rw [if_pos (by decide)] at hyr
    exact hyr
  have hd31 : dt.day ≤ 31 := le_trans h2d (daysInMonth_le _ _)
  rw [c4render15_eq]
  refine strptimeF_of_none _ _ ?_
  show runDirs (Dir.dY :: [Dir.lit '-', Dir.dm, Dir.lit '-', Dir.dd, Dir.lit ',', Dir.ws, Dir.dH, Dir.lit ':', Dir.dM]) {} _ = _
  rw [runDirs_dY_pad2_sep _ _ _ _ _ (by decide)]

theorem c4fail_10_15 (dt : DT) (h : Rep fmt15 dt) :
    strptimeF fmt10 (render fmt15 dt) = none := by
  obtain ⟨hval, hyr, hsec⟩ := h
  simp only [validPy] at hval
  obtain ⟨h1y, h2y, h1m, h2m, h1d, h2d, hH, hMi, hSs⟩ := hval
  have hyr' : 1969 ≤ dt.year ∧ dt.year ≤ 2068 := by
    rw [if_pos (by decide)] at hyr
    exact hyr
  have hd31 : dt.day ≤ 31 := le_trans h2d (daysInMonth_le _ _)
  rw [c4render15_eq]
  refine strptimeF_of_none _ _ ?_
  show runDirs (Dir.dY :: [Dir.lit '/', Dir.dm, Dir.lit '/', Dir.dd, Dir.ws, Dir.dH, Dir.lit ':', Dir.dM]) {} _ = _
  rw [runDirs_dY_pad2_sep _ _ _ _ _ (by decide)]

theorem c4fail_11_15 (dt : DT) (h : Rep fmt15 dt) :
    strptimeF fmt11 (render fmt15 dt) = none := by
  obtain ⟨hval, hyr, hsec⟩ := h
  simp only [validPy] at hval
  obtain ⟨h1y, h2y, h1m, h2m, h1d, h2d, hH, hMi, hSs⟩ := hval
  have hyr' : 1969 ≤ dt.year ∧ dt.year ≤ 2068 := by
    rw [if_pos (by decide)] at hyr
    exact hyr
  have hd31 : dt.day ≤ 31 := le_trans h2d (daysInMonth_le _ _)
  rw [c4render15_eq]
  refine strptimeF_of_none _ _ ?_
  show runDirs (Dir.dY :: [Dir.lit '/', Dir.dm, Dir.lit '/', Dir.dd, Dir.lit ',', Dir.ws, Dir.dH, Dir.lit ':', Dir.dM]) {} _ = _
  rw [runDirs_dY_pad2_sep _ _ _ _ _ (by decide)]

theorem c4fail_12_15 (dt : DT) (h : Rep fmt15 dt) :
    strptimeF fmt12 (render fmt15 dt) = none := by
  obtain ⟨hval, hyr, hsec⟩ := h
  simp only [validPy] at hval
  obtain ⟨h1y, h2y, h1m, h2m, h1d, h2d, hH, hMi, hSs⟩ := hval
  have hyr' : 1969 ≤ dt.year ∧ dt.year ≤ 2068 := by
    rw [if_pos (by decide)] at hyr
    exact hyr
  have hd31 : dt.day ≤ 31 := le_trans h2d (daysInMonth_le _ _)
  rw [c4render15_eq]
  refine strptimeF_of_none _ _ ?_
  show runDirs (Dir.dd :: [Dir.lit '.', Dir.dm, Dir.lit '.', Dir.dY, Dir.ws, Dir.dH, Dir.lit ':', Dir.dM]) {} _ = _
  rw [runDirs_dd_pad _ _ dt.day _ (by omega) (kill_lit _ '.' (by decide) _ _),
    if_pos (by omega),
    runDirs_lit_eq,
    runDirs_dm_pad _ _ dt.month _ (by omega) (kill_lit _ '.' (by decide) _ _),
    if_pos (by omega),
    runDirs_lit_eq,
    runDirs_dY_pad2_sep _ _ _ _ _ (by decide)]

theorem c4fail_13_15 (dt : DT) (h : Rep fmt15 dt) :
    strptimeF fmt13 (render fmt15 dt) = none := by
  obtain ⟨hval, hyr, hsec⟩ := h
  simp only [validPy] at hval
  obtain ⟨h1y, h2y, h1m, h2m, h1d, h2d, hH, hMi, hSs⟩ := hval
  have hyr' : 1969 ≤ dt.year ∧ dt.year ≤ 2068 := by
    rw [if_pos (by decide)] at hyr
    exact hyr
  have hd31 : dt.day ≤ 31 := le_trans h2d (daysInMonth_le _ _)
  rw [c4render15_eq]
  refine strptimeF_of_none _ _ ?_
  show runDirs (Dir.dd :: [Dir.lit '.', Dir.dm, Dir.lit '.', Dir.dY, Dir.lit ',', Dir.ws, Dir.dH, Dir.lit ':', Dir.dM]) {} _ = _
  rw [runDirs_dd_pad _ _ dt.day _ (by omega) (kill_lit _ '.' (by decide) _ _),
    if_pos (by omega),
    runDirs_lit_eq,
    runDirs_dm_pad _ _ dt.month _ (by omega) (kill_lit _ '.' (by decide) _ _),
    if_pos (by omega),
    runDirs_lit_eq,
    runDirs_dY_pad2_sep _ _ _ _ _ (by decide)]

theorem c4fail_14_15 (dt : DT) (h : Rep fmt15 dt) :
    strptimeF fmt14 (render fmt15 dt) = none := by
  obtain ⟨hval, hyr, hsec⟩ := h
  simp only [validPy] at hval
  obtain ⟨h1y, h2y, h1m, h2m, h1d, h2d, hH, hMi, hSs⟩ := hval
  have hyr' : 1969 ≤ dt.year ∧ dt.year ≤ 2068 := by
    rw [if_pos (by decide)] at hyr
    exact hyr
  have hd31 : dt.day ≤ 31 := le_trans h2d (daysInMonth_le _ _)
  rw [c4render15_eq]
  refine strptimeF_of_none _ _ ?_
  show runDirs (Dir.dd :: [Dir.lit '.', Dir.dm, Dir.lit '.', Dir.dy, Dir.ws, Dir.dH, Dir.lit ':', Dir.dM]) {} _ = _
  rw [runDirs_dd_pad _ _ dt.day _ (by omega) (kill_lit _ '.' (by decide) _ _),
    if_pos (by omega),
    runDirs_lit_eq,
    runDirs_dm_pad _ _ dt.month _ (by omega) (kill_lit _ '.' (by decide) _ _),
    if_pos (by omega),
    runDirs_lit_eq,
    runDirs_dy_pad _ _ (dt.year % 100) _ (by omega),
    runDirs_ws_none _ _ _ _ (by decide)]

theorem c4rt15 (dt : DT) (h : Rep fmt15 dt) :
    parseTimestampCore (render fmt15 dt) = some dt := by
  rw [parseTimestampCore_eq, c4trim15]
  simp only [formats]
  rw [tryFormats_cons_none _ _ _ (c4fail_0_15 dt h),
    tryFormats_cons_none _ _ _ (c4fail_1_15 dt h),
    tryFormats_cons_none _ _ _ (c4fail_2_15 dt h),
    tryFormats_cons_none _ _ _ (c4fail_3_15 dt h),
    tryFormats_cons_none _ _ _ (c4fail_4_15 dt h),
    tryFormats_cons_none _ _ _ (c4fail_5_15 dt h),
    tryFormats_cons_none _ _ _ (c4fail_6_15 dt h),
    tryFormats_cons_none _ _ _ (c4fail_7_15 dt h),
    tryFormats_cons_none _ _ _ (c4fail_8_15 dt h),
    tryFormats_cons_none _ _ _ (c4fail_9_15 dt h),
    tryFormats_cons_none _ _ _ (c4fail_10_15 dt h),
    tryFormats_cons_none _ _ _ (c4fail_11_15 dt h),
    tryFormats_cons_none _ _ _ (c4fail_12_15 dt h),
    tryFormats_cons_none _ _ _ (c4fail_13_15 dt h),
    tryFormats_cons_none _ _ _ (c4fail_14_15 dt h),
    tryFormats_cons_some _ _ _ _ (c4self15 dt h)]

theorem c4render16_eq (dt : DT) :
    render fmt16 dt
      = pad2 dt.day ++ ('-' :: (pad2 dt.month ++ ('-' :: (pad4 dt.year ++ (' ' :: (pad2 dt.hour ++ (':' :: (pad2 dt.minute ++ ([]))))))))) := rfl


theorem c4trim16 (dt : DT) : trimChars (render fmt16 dt) = render fmt16 dt := by
  apply trimChars_of_hl
  · rw [c4render16_eq]
    simp only [pad2_eq, pad4_eq, List.cons_append, List.nil_append]
    exact ⟨_, _, rfl, not_ws_digitChar _⟩
  · rw [c4render16_eq]
    simp only [ampm_cons, pad2_eq, pad4_eq, List.reverse_cons, List.reverse_append,
      List.append_assoc, List.cons_append, List.nil_append, List.reverse_nil,
      List.append_nil]
    exact ⟨_, _, rfl, not_ws_digitChar _⟩

theorem c4self16 (dt : DT) (h : Rep fmt16 dt) :
    strptimeF fmt16 (render fmt16 dt) = some dt := by
  obtain ⟨hval, hyr, hsec⟩ := h
  simp only [validPy] at hval
  obtain ⟨h1y, h2y, h1m, h2m, h1d, h2d, hH, hMi, hSs⟩ := hval
  have hyr' : 1000 ≤ dt.year ∧ dt.year ≤ 9999 := by
    rw [if_neg (by decide)] at hyr
    exact hyr
  have hd31 : dt.day ≤ 31 := le_trans h2d (daysInMonth_le _ _)
  have hsec0 : dt.second = 0 := by
    rcases hsec with hmem | h0
    · exact absurd hmem (by decide)
    · exact h0
  rw [c4render16_eq]
  have hrun : runDirs fmt16 {} (pad2 dt.day ++ ('-' :: (pad2 dt.month ++ ('-' :: (pad4 dt.year ++ (' ' :: (pad2 dt.hour ++ (':' :: (pad2 dt.minute ++ ([]))))))))))
      = some (⟨some dt.day, some dt.month, none, some dt.year, some dt.hour, none, some dt.minute, none, none⟩, []) := by
    show runDirs (Dir.dd :: [Dir.lit '-', Dir.dm, Dir.lit '-', Dir.dY, Dir.ws, Dir.dH, Dir.lit ':', Dir.dM]) {} _ = _
    rw [runDirs_dd_pad _ _ dt.day _ (by omega) (kill_lit _ '-' (by decide) _ _),
      if_pos (by omega),
      runDirs_lit_eq,
      runDirs_dm_pad _ _ dt.month _ (by omega) (kill_lit _ '-' (by decide) _ _),
      if_pos (by omega),
      runDirs_lit_eq,
      runDirs_dY_pad _ _ dt.year (by omega) _,
      runDirs_ws_single _ _ _ (wsCount_pad2 _ _),
      runDirs_dH_pad _ _ dt.hour _ (by omega) (kill_lit _ ':' (by decide) _ _),
      if_pos (by omega),
      runDirs_lit_eq,
      runDirs_dM_last _ dt.minute _ (by omega) (by omega)]
  rw [strptimeF_of_done _ _ _ hrun]
  unfold buildDT
  dsimp only
  simp only [Option.getD_some, Option.getD_none]
  rw [mkDT, if_pos (by omega)]
  rw [← hsec0]

theorem c4fail_0_16 (dt : DT) (h : Rep fmt16 dt) :
    strptimeF fmt0 (render fmt16 dt) = none := by
  obtain ⟨hval, hyr, hsec⟩ := h
  simp only [validPy] at hval
  obtain ⟨h1y, h2y, h1m, h2m, h1d, h2d, hH, hMi, hSs⟩ := hval
  have hyr' : 1000 ≤ dt.year ∧ dt.year ≤ 9999 := by
    rw [if_neg (by decide)] at hyr
    exact hyr
  have hd31 : dt.day ≤ 31 := le_trans h2d (daysInMonth_le _ _)
  rw [c4render16_eq]
  refine strptimeF_of_none _ _ ?_
  show runDirs (Dir.dd :: [Dir.lit '/', Dir.dm, Dir.lit '/', Dir.dY, Dir.ws, Dir.dH, Dir.lit ':', Dir.dM]) {} _ = _
  rw [runDirs_dd_pad _ _ dt.day _ (by omega) (kill_lit _ '/' (by decide) _ _),
    if_pos (by omega),
    runDirs_lit_ne _ _ _ _ _ (by decide)]

theorem c4fail_1_16 (dt : DT) (h : Rep fmt16 dt) :
    strptimeF fmt1 (render fmt16 dt) = none := by
  obtain ⟨hval, hyr, hsec⟩ := h
  simp only [validPy] at hval
  obtain ⟨h1y, h2y, h1m, h2m, h1d, h2d, hH, hMi, hSs⟩ := hval
  have hyr' : 1000 ≤ dt.year ∧ dt.year ≤ 9999 := by
    rw [if_neg (by decide)] at hyr
    exact hyr
  have hd31 : dt.day ≤ 31 := le_trans h2d (daysInMonth_le _ _)
  rw [c4render16_eq]
  refine strptimeF_of_none _ _ ?_
  show runDirs (Dir.dd :: [Dir.lit '/', Dir.dm, Dir.lit '/', Dir.dY, Dir.lit ',', Dir.ws, Dir.dH, Dir.lit ':', Dir.dM]) {} _ = _
  rw [runDirs_dd_pad _ _ dt.day _ (by omega) (kill_lit _ '/' (by decide) _ _),
    if_pos (by omega),
    runDirs_lit_ne _ _ _ _ _ (by decide)]

theorem c4fail_2_16 (dt : DT) (h : Rep fmt16 dt) :
    strptimeF fmt2 (render fmt16 dt) = none := by
  obtain ⟨hval, hyr, hsec⟩ := h
  simp only [validPy] at hval
  obtain ⟨h1y, h2y, h1m, h2m, h1d, h2d, hH, hMi, hSs⟩ := hval
  have hyr' : 1000 ≤ dt.year ∧ dt.year ≤ 9999 := by
    rw [if_neg (by decide)] at hyr
    exact hyr
  have hd31 : dt.day ≤ 31 := le_trans h2d (daysInMonth_le _ _)
  rw [c4render16_eq]
  refine strptimeF_of_none _ _ ?_
  show runDirs (Dir.dd :: [Dir.lit '/', Dir.dm, Dir.lit '/', Dir.dy, Dir.ws, Dir.dH, Dir.lit ':', Dir.dM]) {} _ = _
  rw [runDirs_dd_pad _ _ dt.day _ (by omega) (kill_lit _ '/' (by decide) _ _),
    if_pos (by omega),
    runDirs_lit_ne _ _ _ _ _ (by decide)]

theorem c4fail_3_16 (dt : DT) (h : Rep fmt16 dt) :
    strptimeF fmt3 (render fmt16 dt) = none := by
  obtain ⟨hval, hyr, hsec⟩ := h
  simp only [validPy] at hval
  obtain ⟨h1y, h2y, h1m, h2m, h1d, h2d, hH, hMi, hSs⟩ := hval
  have hyr' : 1000 ≤ dt.year ∧ dt.year ≤ 9999 := by
    rw [if_neg (by decide)] at hyr
    exact hyr
  have hd31 : dt.day ≤ 31 := le_trans h2d (daysInMonth_le _ _)
  rw [c4render16_eq]
  refine strptimeF_of_none _ _ ?_
  show runDirs (Dir.dd :: [Dir.lit '/', Dir.dm, Dir.lit '/', Dir.dy, Dir.lit ',', Dir.ws, Dir.dH, Dir.lit ':', Dir.dM]) {} _ = _
  rw [runDirs_dd_pad _ _ dt.day _ (by omega) (kill_lit _ '/' (by decide) _ _),
    if_pos (by omega),
    runDirs_lit_ne _ _ _ _ _ (by decide)]

theorem c4fail_4_16 (dt : DT) (h : Rep fmt16 dt) :
    strptimeF fmt4 (render fmt16 dt) = none := by
  obtain ⟨hval, hyr, hsec⟩ := h
  simp only [validPy] at hval
  obtain ⟨h1y, h2y, h1m, h2m, h1d, h2d, hH, hMi, hSs⟩ := hval
  have hyr' : 1000 ≤ dt.year ∧ dt.year ≤ 9999 := by
    rw [if_neg (by decide)] at hyr
    exact hyr
  have hd31 : dt.day ≤ 31 := le_trans h2d (daysInMonth_le _ _)
  rw [c4render16_eq]
  by_cases hc1 : 1 ≤ dt.day ∧ dt.day ≤ 12
  · refine strptimeF_of_none _ _ ?_
    show runDirs (Dir.dm :: [Dir.lit '/', Dir.dd, Dir.lit '/', Dir.dY, Dir.ws, Dir.dI, Dir.lit ':', Dir.dM, Dir.ws, Dir.dp]) {} _ = _
    rw [runDirs_dm_pad _ _ dt.day _ (by omega) (kill_lit _ '/' (by decide) _ _),
      if_pos hc1,
      runDirs_lit_ne _ _ _ _ _ (by decide)]
  · refine strptimeF_of_none _ _ ?_
    show runDirs (Dir.dm :: [Dir.lit '/', Dir.dd, Dir.lit '/', Dir.dY, Dir.ws, Dir.dI, Dir.lit ':', Dir.dM, Dir.ws, Dir.dp]) {} _ = _
    rw [runDirs_dm_pad _ _ dt.day _ (by omega) (kill_lit _ '/' (by decide) _ _), if_neg hc1]

theorem c4fail_5_16 (dt : DT) (h : Rep fmt16 dt) :
    strptimeF fmt5 (render fmt16 dt) = none := by
  obtain ⟨hval, hyr, hsec⟩ := h
  simp only [validPy] at hval
  obtain ⟨h1y, h2y, h1m, h2m, h1d, h2d, hH, hMi, hSs⟩ := hval
  have hyr' : 1000 ≤ dt.year ∧ dt.year ≤ 9999 := by
    rw [if_neg (by decide)] at hyr
    exact hyr
  have hd31 : dt.day ≤ 31 := le_trans h2d (daysInMonth_le _ _)
  rw [c4render16_eq]
  by_cases hc1 : 1 ≤ dt.day ∧ dt.day ≤ 12
  · refine strptimeF_of_none _ _ ?_
    show runDirs (Dir.dm :: [Dir.lit '/', Dir.dd, Dir.lit '/', Dir.dY, Dir.lit ',', Dir.ws, Dir.dI, Dir.lit ':', Dir.dM, Dir.ws, Dir.dp]) {} _ = _
    rw [runDirs_dm_pad _ _ dt.day _ (by omega) (kill_lit _ '/' (by decide) _ _),
      if_pos hc1,
      runDirs_lit_ne _ _ _ _ _ (by decide)]
  · refine strptimeF_of_none _ _ ?_
    show runDirs (Dir.dm :: [Dir.lit '/', Dir.dd, Dir.lit '/', Dir.dY, Dir.lit ',', Dir.ws, Dir.dI, Dir.lit ':', Dir.dM, Dir.ws, Dir.dp]) {} _ = _
    rw [runDirs_dm_pad _ _ dt.day _ (by omega) (kill_lit _ '/' (by decide) _ _), if_neg hc1]

theorem c4fail_6_16 (dt : DT) (h : Rep fmt16 dt) :
    strptimeF fmt6 (render fmt16 dt) = none := by
  obtain ⟨hval, hyr, hsec⟩ := h
  simp only [validPy] at hval
  obtain ⟨h1y, h2y, h1m, h2m, h1d, h2d, hH, hMi, hSs⟩ := hval
  have hyr' : 1000 ≤ dt.year ∧ dt.year ≤ 9999 := by
    rw [if_neg (by decide)] at hyr
    exact hyr
  have hd31 : dt.day ≤ 31 := le_trans h2d (daysInMonth_le _ _)
  rw [c4render16_eq]
  by_cases hc1 : 1 ≤ dt.day ∧ dt.day ≤ 12
  · refine strptimeF_of_none _ _ ?_
    show runDirs (Dir.dm :: [Dir.lit '/', Dir.dd, Dir.lit '/', Dir.dy, Dir.ws, Dir.dI, Dir.lit ':', Dir.dM, Dir.ws, Dir.dp]) {} _ = _
    rw [runDirs_dm_pad _ _ dt.day _ (by omega) (kill_lit _ '/' (by decide) _ _),
      if_pos hc1,
      runDirs_lit_ne _ _ _ _ _ (by decide)]
  · refine strptimeF_of_none _ _ ?_
    show runDirs (Dir.dm :: [Dir.lit '/', Dir.dd, Dir.lit '/', Dir.dy, Dir.ws, Dir.dI, Dir.lit ':', Dir.dM, Dir.ws, Dir.dp]) {} _ = _
    rw [runDirs_dm_pad _ _ dt.day _ (by omega) (kill_lit _ '/' (by decide) _ _), if_neg hc1]

theorem c4fail_7_16 (dt : DT) (h : Rep fmt16 dt) :
    strptimeF fmt7 (render fmt16 dt) = none := by
  obtain ⟨hval, hyr, hsec⟩ := h
  simp only [validPy] at hval
  obtain ⟨h1y, h2y, h1m, h2m, h1d, h2d, hH, hMi, hSs⟩ := hval
  have hyr' : 1000 ≤ dt.year ∧ dt.year ≤ 9999 := by
    rw [if_neg (by decide)] at hyr
    exact hyr
  have hd31 : dt.day ≤ 31 := le_trans h2d (daysInMonth_le _ _)
  rw [c4render16_eq]
  by_cases hc1 : 1 ≤ dt.day ∧ dt.day ≤ 12
  · refine strptimeF_of_none _ _ ?_
    show runDirs (Dir.dm :: [Dir.lit '/', Dir.dd, Dir.lit '/', Dir.dy, Dir.lit ',', Dir.ws, Dir.dI, Dir.lit ':', Dir.dM, Dir.ws, Dir.dp]) {} _ = _
    rw [runDirs_dm_pad _ _ dt.day _ (by omega) (kill_lit _ '/' (by decide) _ _),
      if_pos hc1,
      runDirs_lit_ne _ _ _ _ _ (by decide)]
  · refine strptimeF_of_none _ _ ?_
    show runDirs (Dir.dm :: [Dir.lit '/', Dir.dd, Dir.lit '/', Dir.dy, Dir.lit ',', Dir.ws, Dir.dI, Dir.lit ':', Dir.dM, Dir.ws, Dir.dp]) {} _ = _
    rw [runDirs_dm_pad _ _ dt.day _ (by omega) (kill_lit _ '/' (by decide) _ _), if_neg hc1]

theorem c4fail_8_16 (dt : DT) (h : Rep fmt16 dt) :
    strptimeF fmt8 (render fmt16 dt) = none := by
  obtain ⟨hval, hyr, hsec⟩ := h
  simp only [validPy] at hval
  obtain ⟨h1y, h2y, h1m, h2m, h1d, h2d, hH, hMi, hSs⟩ := hval
  have hyr' : 1000 ≤ dt.year ∧ dt.year ≤ 9999 := by
    rw [if_neg (by decide)] at hyr
    exact hyr
  have hd31 : dt.day ≤ 31 := le_trans h2d (daysInMonth_le _ _)
  rw [c4render16_eq]
  refine strptimeF_of_none _ _ ?_
  show runDirs (Dir.dY :: [Dir.lit '-', Dir.dm, Dir.lit '-', Dir.dd, Dir.ws, Dir.dH, Dir.lit ':', Dir.dM]) {} _ = _
  rw [runDirs_dY_pad2_sep _ _ _ _ _ (by decide)]

theorem c4fail_9_16 (dt : DT) (h : Rep fmt16 dt) :
    strptimeF fmt9 (render fmt16 dt) = none := by
  obtain ⟨hval, hyr, hsec⟩ := h
  simp only [validPy] at hval
  obtain ⟨h1y, h2y, h1m, h2m, h1d, h2d, hH, hMi, hSs⟩ := hval
  have hyr' : 1000 ≤ dt.year ∧ dt.year ≤ 9999 := by
    rw [if_neg (by decide)] at hyr
    exact hyr
  have hd31 : dt.day ≤ 31 := le_trans h2d (daysInMonth_le _ _)
  rw [c4render16_eq]
  refine strptimeF_of_none _ _ ?_
  show runDirs (Dir.dY :: [Dir.lit '-', Dir.dm, Dir.lit '-', Dir.dd, Dir.lit ',', Dir.ws, Dir.dH, Dir.lit ':', Dir.dM]) {} _ = _
  rw [runDirs_dY_pad2_sep _ _ _ _ _ (by decide)]

theorem c4fail_10_16 (dt : DT) (h : Rep fmt16 dt) :
    strptimeF fmt10 (render fmt16 dt) = none := by
  obtain ⟨hval, hyr, hsec⟩ := h
  simp only [validPy] at hval
  obtain ⟨h1y, h2y, h1m, h2m, h1d, h2d, hH, hMi, hSs⟩ := hval
  have hyr' : 1000 ≤ dt.year ∧ dt.year ≤ 9999 := by
    rw [if_neg (by decide)] at hyr
    exact hyr
  have hd31 : dt.day ≤ 31 := le_trans h2d (daysInMonth_le _ _)
  rw [c4render16_eq]
  refine strptimeF_of_none _ _ ?_
  show runDirs (Dir.dY :: [Dir.lit '/', Dir.dm, Dir.lit '/', Dir.dd, Dir.ws, Dir.dH, Dir.lit ':', Dir.dM]) {} _ = _
  rw [runDirs_dY_pad2_sep _ _ _ _ _ (by decide)]

theorem c4fail_11_16 (dt : DT) (h : Rep fmt16 dt) :
    strptimeF fmt11 (render fmt16 dt) = none := by
  obtain ⟨hval, hyr, hsec⟩ := h
  simp only [validPy] at hval
  obtain ⟨h1y, h2y, h1m, h2m, h1d, h2d, hH, hMi, hSs⟩ := hval
  have hyr' : 1000 ≤ dt.year ∧ dt.year ≤ 9999 := by
    rw [if_neg (by decide)] at hyr
    exact hyr
  have hd31 : dt.day ≤ 31 := le_trans h2d (daysInMonth_le _ _)
  rw [c4render16_eq]
  refine strptimeF_of_none _ _ ?_
  show runDirs (Dir.dY :: [Dir.lit '/', Dir.dm, Dir.lit '/', Dir.dd, Dir.lit ',', Dir.ws, Dir.dH, Dir.lit ':', Dir.dM]) {} _ = _
  rw [runDirs_dY_pad2_sep _ _ _ _ _ (by decide)]

theorem c4fail_12_16 (dt : DT) (h : Rep fmt16 dt) :
    strptimeF fmt12 (render fmt16 dt) = none := by
  obtain ⟨hval, hyr, hsec⟩ := h
  simp only [validPy] at hval
  obtain ⟨h1y, h2y, h1m, h2m, h1d, h2d, hH, hMi, hSs⟩ := hval
  have hyr' : 1000 ≤ dt.year ∧ dt.year ≤ 9999 := by
    rw [if_neg (by decide)] at hyr
    exact hyr
  have hd31 : dt.day ≤ 31 := le_trans h2d (daysInMonth_le _ _)
  rw [c4render16_eq]
  refine strptimeF_of_none _ _ ?_
  show runDirs (Dir.dd :: [Dir.lit '.', Dir.dm, Dir.lit '.', Dir.dY, Dir.ws, Dir.dH, Dir.lit ':', Dir.dM]) {} _ = _
  rw [runDirs_dd_pad _ _ dt.day _ (by omega) (kill_lit _ '.' (by decide) _ _),
    if_pos (by omega),
    runDirs_lit_ne _ _ _ _ _ (by decide)]

theorem c4fail_13_16 (dt : DT) (h : Rep fmt16 dt) :
    strptimeF fmt13 (render fmt16 dt) = none := by
  obtain ⟨hval, hyr, hsec⟩ := h
  simp only [validPy] at hval
  obtain ⟨h1y, h2y, h1m, h2m, h1d, h2d, hH, hMi, hSs⟩ := hval
  have hyr' : 1000 ≤ dt.year ∧ dt.year ≤ 9999 := by
    rw [if_neg (by decide)] at hyr
    exact hyr
  have hd31 : dt.day ≤ 31 := le_trans h2d (daysInMonth_le _ _)
  rw [c4render16_eq]
  refine strptimeF_of_none _ _ ?_
  show runDirs (Dir.dd :: [Dir.lit '.', Dir.dm, Dir.lit '.', Dir.dY, Dir.lit ',', Dir.ws, Dir.dH, Dir.lit ':', Dir.dM]) {} _ = _
  rw [runDirs_dd_pad _ _ dt.day _ (by omega) (kill_lit _ '.' (by decide) _ _),
    if_pos (by omega),
    runDirs_lit_ne _ _ _ _ _ (by decide)]

theorem c4fail_14_16 (dt : DT) (h : Rep fmt16 dt) :
    strptimeF fmt14 (render fmt16 dt) = none := by
  obtain ⟨hval, hyr, hsec⟩ := h
  simp only [validPy] at hval
  obtain ⟨h1y, h2y, h1m, h2m, h1d, h2d, hH, hMi, hSs⟩ := hval
  have hyr' : 1000 ≤ dt.year ∧ dt.year ≤ 9999 := by
    rw [if_neg (by decide)] at hyr
    exact hyr
  have hd31 : dt.day ≤ 31 := le_trans h2d (daysInMonth_le _ _)
  rw [c4render16_eq]
  refine strptimeF_of_none _ _ ?_
  show runDirs (Dir.dd :: [Dir.lit '.', Dir.dm, Dir.lit '.', Dir.dy, Dir.ws, Dir.dH, Dir.lit ':', Dir.dM]) {} _ = _
  rw [runDirs_dd_pad _ _ dt.day _ (by omega) (kill_lit _ '.' (by decide) _ _),
    if_pos (by omega),
    runDirs_lit_ne _ _ _ _ _ (by decide)]

theorem c4fail_15_16 (dt : DT) (h : Rep fmt16 dt) :
    strptimeF fmt15 (render fmt16 dt) = none := by
  obtain ⟨hval, hyr, hsec⟩ := h
  simp only [validPy] at hval
  obtain ⟨h1y, h2y, h1m, h2m, h1d, h2d, hH, hMi, hSs⟩ := hval
  have hyr' : 1000 ≤ dt.year ∧ dt.year ≤ 9999 := by
    rw [if_neg (by decide)] at hyr
    exact hyr
  have hd31 : dt.day ≤ 31 := le_trans h2d (daysInMonth_le _ _)
  rw [c4render16_eq]
  refine strptimeF_of_none _ _ ?_
  show runDirs (Dir.dd :: [Dir.lit '.', Dir.dm, Dir.lit '.', Dir.dy, Dir.lit ',', Dir.ws, Dir.dH, Dir.lit ':', Dir.dM]) {} _ = _
  rw [runDirs_dd_pad _ _ dt.day _ (by omega) (kill_lit _ '.' (by decide) _ _),
    if_pos (by omega),
    runDirs_lit_ne _ _ _ _ _ (by decide)]

theorem c4rt16 (dt : DT) (h : Rep fmt16 dt) :
    parseTimestampCore (render fmt16 dt) = some dt := by
  rw [parseTimestampCore_eq, c4trim16]
  simp only [formats]
  rw [tryFormats_cons_none _ _ _ (c4fail_0_16 dt h),
    tryFormats_cons_none _ _ _ (c4fail_1_16 dt h),
    tryFormats_cons_none _ _ _ (c4fail_2_16 dt h),
    tryFormats_cons_none _ _ _ (c4fail_3_16 dt h),
    tryFormats_cons_none _ _ _ (c4fail_4_16 dt h),
    tryFormats_cons_none _ _ _ (c4fail_5_16 dt h),
    tryFormats_cons_none _ _ _ (c4fail_6_16 dt h),
    tryFormats_cons_none _ _ _ (c4fail_7_16 dt h),
    tryFormats_cons_none _ _ _ (c4fail_8_16 dt h),
    tryFormats_cons_none _ _ _ (c4fail_9_16 dt h),
    tryFormats_cons_none _ _ _ (c4fail_10_16 dt h),
    tryFormats_cons_none _ _ _ (c4fail_11_16 dt h),
    tryFormats_cons_none _ _ _ (c4fail_12_16 dt h),
    tryFormats_cons_none _ _ _ (c4fail_13_16 dt h),
    tryFormats_cons_none _ _ _ (c4fail_14_16 dt h),
    tryFormats_cons_none _ _ _ (c4fail_15_16 dt h),
    tryFormats_cons_some _ _ _ _ (c4self16 dt h)]

theorem c4render17_eq (dt : DT) :
    render fmt17 dt
      = pad2 dt.day ++ ('-' :: (pad2 dt.month ++ ('-' :: (pad4 dt.year ++ (',' :: (' ' :: (pad2 dt.hour ++ (':' :: (pad2 dt.minute ++ ([])))))))))) := rfl


theorem c4trim17 (dt : DT) : trimChars (render fmt17 dt) = render fmt17 dt := by
  apply trimChars_of_hl
  · rw [c4render17_eq]
    simp only [pad2_eq, pad4_eq, List.cons_append, List.nil_append]
    exact ⟨_, _, rfl, not_ws_digitChar _⟩
  · rw [c4render17_eq]
    simp only [ampm_cons, pad2_eq, pad4_eq, List.reverse_cons, List.reverse_append,
      List.append_assoc, List.cons_append, List.nil_append, List.reverse_nil,
      List.append_nil]
    exact ⟨_, _, rfl, not_ws_digitChar _⟩

theorem c4self17 (dt : DT) (h : Rep fmt17 dt) :
    strptimeF fmt17 (render fmt17 dt) = some dt := by
  obtain ⟨hval, hyr, hsec⟩ := h
  simp only [validPy] at hval
  obtain ⟨h1y, h2y, h1m, h2m, h1d, h2d, hH, hMi, hSs⟩ := hval
  have hyr' : 1000 ≤ dt.year ∧ dt.year ≤ 9999 := by
    rw [if_neg (by decide)] at hyr
    exact hyr
  have hd31 : dt.day ≤ 31 := le_trans h2d (daysInMonth_le _ _)
  have hsec0 : dt.second = 0 := by
    rcases hsec with hmem | h0
    · exact absurd hmem (by decide)
    · exact h0
  rw [c4render17_eq]
  have hrun : runDirs fmt17 {} (pad2 dt.day ++ ('-' :: (pad2 dt.month ++ ('-' :: (pad4 dt.year ++ (',' :: (' ' :: (pad2 dt.hour ++ (':' :: (pad2 dt.minute ++ ([])))))))))))
      = some (⟨some dt.day, some dt.month, none, some dt.year, some dt.hour, none, some dt.minute, none, none⟩, []) := by
    show runDirs (Dir.dd :: [Dir.lit '-', Dir.dm, Dir.lit '-', Dir.dY, Dir.lit ',', Dir.ws, Dir.dH, Dir.lit ':', Dir.dM]) {} _ = _
    rw [runDirs_dd_pad _ _ dt.day _ (by omega) (kill_lit _ '-' (by decide) _ _),
      if_pos (by omega),
      runDirs_lit_eq,
      runDirs_dm_pad _ _ dt.month _ (by omega) (kill_lit _ '-' (by decide) _ _),
      if_pos (by omega),
      runDirs_lit_eq,
      runDirs_dY_pad _ _ dt.year (by omega) _,
      runDirs_lit_eq,
      runDirs_ws_single _ _ _ (wsCount_pad2 _ _),
      runDirs_dH_pad _ _ dt.hour _ (by omega) (kill_lit _ ':' (by decide) _ _),
      if_pos (by omega),
      runDirs_lit_eq,
      runDirs_dM_last _ dt.minute _ (by omega) (by omega)]
  rw [strptimeF_of_done _ _ _ hrun]
  unfold buildDT
  dsimp only
  simp only [Option.getD_some, Option.getD_none]
  rw [mkDT, if_pos (by omega)]
  rw [← hsec0]

theorem c4fail_0_17 (dt : DT) (h : Rep fmt17 dt) :
    strptimeF fmt0 (render fmt17 dt) = none := by
  obtain ⟨hval, hyr, hsec⟩ := h
  simp only [validPy] at hval
  obtain ⟨h1y, h2y, h1m, h2m, h1d, h2d, hH, hMi, hSs⟩ := hval
  have hyr' : 1000 ≤ dt.year ∧ dt.year ≤ 9999 := by
    rw [if_neg (by decide)] at hyr
    exact hyr
  have hd31 : dt.day ≤ 31 := le_trans h2d (daysInMonth_le _ _)
  rw [c4render17_eq]
  refine strptimeF_of_none _ _ ?_
  show runDirs (Dir.dd :: [Dir.lit '/', Dir.dm, Dir.lit '/', Dir.dY, Dir.ws, Dir.dH, Dir.lit ':', Dir.dM]) {} _ = _
  rw [runDirs_dd_pad _ _ dt.day _ (by omega) (kill_lit _ '/' (by decide) _ _),
    if_pos (by omega),
    runDirs_lit_ne _ _ _ _ _ (by decide)]

theorem c4fail_1_17 (dt : DT) (h : Rep fmt17 dt) :
    strptimeF fmt1 (render fmt17 dt) = none := by
  obtain ⟨hval, hyr, hsec⟩ := h
  simp only [validPy] at hval
  obtain ⟨h1y, h2y, h1m, h2m, h1d, h2d, hH, hMi, hSs⟩ := hval
  have hyr' : 1000 ≤ dt.year ∧ dt.year ≤ 9999 := by
    rw [if_neg (by decide)] at hyr
    exact hyr
  have hd31 : dt.day ≤ 31 := le_trans h2d (daysInMonth_le _ _)
  rw [c4render17_eq]
  refine strptimeF_of_none _ _ ?_
  show runDirs (Dir.dd :: [Dir.lit '/', Dir.dm, Dir.lit '/', Dir.dY, Dir.lit ',', Dir.ws, Dir.dH, Dir.lit ':', Dir.dM]) {} _ = _
  rw [runDirs_dd_pad _ _ dt.day _ (by omega) (kill_lit _ '/' (by decide) _ _),
    if_pos (by omega),
    runDirs_lit_ne _ _ _ _ _ (by decide)]

theorem c4fail_2_17 (dt : DT) (h : Rep fmt17 dt) :
    strptimeF fmt2 (render fmt17 dt) = none := by
  obtain ⟨hval, hyr, hsec⟩ := h
  simp only [validPy] at hval
  obtain ⟨h1y, h2y, h1m, h2m, h1d, h2d, hH, hMi, hSs⟩ := hval
  have hyr' : 1000 ≤ dt.year ∧ dt.year ≤ 9999 := by
    rw [if_neg (by decide)] at hyr
    exact hyr
  have hd31 : dt.day ≤ 31 := le_trans h2d (daysInMonth_le _ _)
  rw [c4render17_eq]
  refine strptimeF_of_none _ _ ?_
  show runDirs (Dir.dd :: [Dir.lit '/', Dir.dm, Dir.lit '/', Dir.dy, Dir.ws, Dir.dH, Dir.lit ':', Dir.dM]) {} _ = _
  rw [runDirs_dd_pad _ _ dt.day _ (by omega) (kill_lit _ '/' (by decide) _ _),
    if_pos (by omega),
    runDirs_lit_ne _ _ _ _ _ (by decide)]

theorem c4fail_3_17 (dt : DT) (h : Rep fmt17 dt) :
    strptimeF fmt3 (render fmt17 dt) = none := by
  obtain ⟨hval, hyr, hsec⟩ := h
  simp only [validPy] at hval
  obtain ⟨h1y, h2y, h1m, h2m, h1d, h2d, hH, hMi, hSs⟩ := hval
  have hyr' : 1000 ≤ dt.year ∧ dt.year ≤ 9999 := by
    rw [if_neg (by decide)] at hyr
    exact hyr
  have hd31 : dt.day ≤ 31 := le_trans h2d (daysInMonth_le _ _)
  rw [c4render17_eq]
  refine strptimeF_of_none _ _ ?_
  show runDirs (Dir.dd :: [Dir.lit '/', Dir.dm, Dir.lit '/', Dir.dy, Dir.lit ',', Dir.ws, Dir.dH, Dir.lit ':', Dir.dM]) {} _ = _
  rw [runDirs_dd_pad _ _ dt.day _ (by omega) (kill_lit _ '/' (by decide) _ _),
    if_pos (by omega),
    runDirs_lit_ne _ _ _ _ _ (by decide)]

theorem c4fail_4_17 (dt : DT) (h : Rep fmt17 dt) :
    strptimeF fmt4 (render fmt17 dt) = none := by
  obtain ⟨hval, hyr, hsec⟩ := h
  simp only [validPy] at hval
  obtain ⟨h1y, h2y, h1m, h2m, h1d, h2d, hH, hMi, hSs⟩ := hval
  have hyr' : 1000 ≤ dt.year ∧ dt.year ≤ 9999 := by
    rw [if_neg (by decide)] at hyr
    exact hyr
  have hd31 : dt.day ≤ 31 := le_trans h2d (daysInMonth_le _ _)
  rw [c4render17_eq]
  by_cases hc1 : 1 ≤ dt.day ∧ dt.day ≤ 12
  · refine strptimeF_of_none _ _ ?_
    show runDirs (Dir.dm :: [Dir.lit '/', Dir.dd, Dir.lit '/', Dir.dY, Dir.ws, Dir.dI, Dir.lit ':', Dir.dM, Dir.ws, Dir.dp]) {} _ = _
    rw [runDirs_dm_pad _ _ dt.day _ (by omega) (kill_lit _ '/' (by decide) _ _),
      if_pos hc1,
      runDirs_lit_ne _ _ _ _ _ (by decide)]
  · refine strptimeF_of_none _ _ ?_
    show runDirs (Dir.dm :: [Dir.lit '/', Dir.dd, Dir.lit '/', Dir.dY, Dir.ws, Dir.dI, Dir.lit ':', Dir.dM, Dir.ws, Dir.dp]) {} _ = _
    rw [runDirs_dm_pad _ _ dt.day _ (by omega) (kill_lit _ '/' (by decide) _ _), if_neg hc1]

theorem c4fail_5_17 (dt : DT) (h : Rep fmt17 dt) :
    strptimeF fmt5 (render fmt17 dt) = none := by
  obtain ⟨hval, hyr, hsec⟩ := h
  simp only [validPy] at hval
  obtain ⟨h1y, h2y, h1m, h2m, h1d, h2d, hH, hMi, hSs⟩ := hval
  have hyr' : 1000 ≤ dt.year ∧ dt.year ≤ 9999 := by
    rw [if_neg (by decide)] at hyr
    exact hyr
  have hd31 : dt.day ≤ 31 := le_trans h2d (daysInMonth_le _ _)
  rw [c4render17_eq]
  by_cases hc1 : 1 ≤ dt.day ∧ dt.day ≤ 12
  · refine strptimeF_of_none _ _ ?_
    show runDirs (Dir.dm :: [Dir.lit '/', Dir.dd, Dir.lit '/', Dir.dY, Dir.lit ',', Dir.ws, Dir.dI, Dir.lit ':', Dir.dM, Dir.ws, Dir.dp]) {} _ = _
    rw [runDirs_dm_pad _ _ dt.day _ (by omega) (kill_lit _ '/' (by decide) _ _),
      if_pos hc1,
      runDirs_lit_ne _ _ _ _ _ (by decide)]
  · refine strptimeF_of_none _ _ ?_
    show runDirs (Dir.dm :: [Dir.lit '/', Dir.dd, Dir.lit '/', Dir.dY, Dir.lit ',', Dir.ws, Dir.dI, Dir.lit ':', Dir.dM, Dir.ws, Dir.dp]) {} _ = _
    rw [runDirs_dm_pad _ _ dt.day _ (by omega) (kill_lit _ '/' (by decide) _ _), if_neg hc1]

theorem c4fail_6_17 (dt : DT) (h : Rep fmt17 dt) :
    strptimeF fmt6 (render fmt17 dt) = none := by
  obtain ⟨hval, hyr, hsec⟩ := h
  simp only [validPy] at hval
  obtain ⟨h1y, h2y, h1m, h2m, h1d, h2d, hH, hMi, hSs⟩ := hval
  have hyr' : 1000 ≤ dt.year ∧ dt.year ≤ 9999 := by
    rw [if_neg (by decide)] at hyr
    exact hyr
  have hd31 : dt.day ≤ 31 := le_trans h2d (daysInMonth_le _ _)
  rw [c4render17_eq]
  by_cases hc1 : 1 ≤ dt.day ∧ dt.day ≤ 12
  · refine strptimeF_of_none _ _ ?_
    show runDirs (Dir.dm :: [Dir.lit '/', Dir.dd, Dir.lit '/', Dir.dy, Dir.ws, Dir.dI, Dir.lit ':', Dir.dM, Dir.ws, Dir.dp]) {} _ = _
    rw [runDirs_dm_pad _ _ dt.day _ (by omega) (kill_lit _ '/' (by decide) _ _),
      if_pos hc1,
      runDirs_lit_ne _ _ _ _ _ (by decide)]
  · refine strptimeF_of_none _ _ ?_
    show runDirs (Dir.dm :: [Dir.lit '/', Dir.dd, Dir.lit '/', Dir.dy, Dir.ws, Dir.dI, Dir.lit ':', Dir.dM, Dir.ws, Dir.dp]) {} _ = _
    rw [runDirs_dm_pad _ _ dt.day _ (by omega) (kill_lit _ '/' (by decide) _ _), if_neg hc1]

theorem c4fail_7_17 (dt : DT) (h : Rep fmt17 dt) :
    strptimeF fmt7 (render fmt17 dt) = none := by
  obtain ⟨hval, hyr, hsec⟩ := h
  simp only [validPy] at hval
  obtain ⟨h1y, h2y, h1m, h2m, h1d, h2d, hH, hMi, hSs⟩ := hval
  have hyr' : 1000 ≤ dt.year ∧ dt.year ≤ 9999 := by
    rw [if_neg (by decide)] at hyr
    exact hyr
  have hd31 : dt.day ≤ 31 := le_trans h2d (daysInMonth_le _ _)
  rw [c4render17_eq]
  by_cases hc1 : 1 ≤ dt.day ∧ dt.day ≤ 12
  · refine strptimeF_of_none _ _ ?_
    show runDirs (Dir.dm :: [Dir.lit '/', Dir.dd, Dir.lit '/', Dir.dy, Dir.lit ',', Dir.ws, Dir.dI, Dir.lit ':', Dir.dM, Dir.ws, Dir.dp]) {} _ = _
    rw [runDirs_dm_pad _ _ dt.day _ (by omega) (kill_lit _ '/' (by decide) _ _),
      if_pos hc1,
      runDirs_lit_ne _ _ _ _ _ (by decide)]
  · refine strptimeF_of_none _ _ ?_
    show runDirs (Dir.dm :: [Dir.lit '/', Dir.dd, Dir.lit '/', Dir.dy, Dir.lit ',', Dir.ws, Dir.dI, Dir.lit ':', Dir.dM, Dir.ws, Dir.dp]) {} _ = _
    rw [runDirs_dm_pad _ _ dt.day _ (by omega) (kill_lit _ '/' (by decide) _ _), if_neg hc1]

theorem c4fail_8_17 (dt : DT) (h : Rep fmt17 dt) :
    strptimeF fmt8 (render fmt17 dt) = none := by
  obtain ⟨hval, hyr, hsec⟩ := h
  simp only [validPy] at hval
  obtain ⟨h1y, h2y, h1m, h2m, h1d, h2d, hH, hMi, hSs⟩ := hval
  have hyr' : 1000 ≤ dt.year ∧ dt.year ≤ 9999 := by
    rw [if_neg (by decide)] at hyr
    exact hyr
  have hd31 : dt.day ≤ 31 := le_trans h2d (daysInMonth_le _ _)
  rw [c4render17_eq]
  refine strptimeF_of_none _ _ ?_
  show runDirs (Dir.dY :: [Dir.lit '-', Dir.dm, Dir.lit '-', Dir.dd, Dir.ws, Dir.dH, Dir.lit ':', Dir.dM]) {} _ = _
  rw [runDirs_dY_pad2_sep _ _ _ _ _ (by decide)]

theorem c4fail_9_17 (dt : DT) (h : Rep fmt17 dt) :
    strptimeF fmt9 (render fmt17 dt) = none := by
  obtain ⟨hval, hyr, hsec⟩ := h
  simp only [validPy] at hval
  obtain ⟨h1y, h2y, h1m, h2m, h1d, h2d, hH, hMi, hSs⟩ := hval
  have hyr' : 1000 ≤ dt.year ∧ dt.year ≤ 9999 := by
    rw [if_neg (by decide)] at hyr
    exact hyr
  have hd31 : dt.day ≤ 31 := le_trans h2d (daysInMonth_le _ _)
  rw [c4render17_eq]
  refine strptimeF_of_none _ _ ?_
  show runDirs (Dir.dY :: [Dir.lit '-', Dir.dm, Dir.lit '-', Dir.dd, Dir.lit ',', Dir.ws, Dir.dH, Dir.lit ':', Dir.dM]) {} _ = _
  rw [runDirs_dY_pad2_sep _ _ _ _ _ (by decide)]

theorem c4fail_10_17 (dt : DT) (h : Rep fmt17 dt) :
    strptimeF fmt10 (render fmt17 dt) = none := by
  obtain ⟨hval, hyr, hsec⟩ := h
  simp only [validPy] at hval
  obtain ⟨h1y, h2y, h1m, h2m, h1d, h2d, hH, hMi, hSs⟩ := hval
  have hyr' : 1000 ≤ dt.year ∧ dt.year ≤ 9999 := by
    rw [if_neg (by decide)] at hyr
    exact hyr
  have hd31 : dt.day ≤ 31 := le_trans h2d (daysInMonth_le _ _)
  rw [c4render17_eq]
  refine strptimeF_of_none _ _ ?_
  show runDirs (Dir.dY :: [Dir.lit '/', Dir.dm, Dir.lit '/', Dir.dd, Dir.ws, Dir.dH, Dir.lit ':', Dir.dM]) {} _ = _
  rw [runDirs_dY_pad2_sep _ _ _ _ _ (by decide)]

theorem c4fail_11_17 (dt : DT) (h : Rep fmt17 dt) :
    strptimeF fmt11 (render fmt17 dt) = none := by
  obtain ⟨hval, hyr, hsec⟩ := h
  simp only [validPy] at hval
  obtain ⟨h1y, h2y, h1m, h2m, h1d, h2d, hH, hMi, hSs⟩ := hval
  have hyr' : 1000 ≤ dt.year ∧ dt.year ≤ 9999 := by
    rw [if_neg (by decide)] at hyr
    exact hyr
  have hd31 : dt.day ≤ 31 := le_trans h2d (daysInMonth_le _ _)
  rw [c4render17_eq]
  refine strptimeF_of_none _ _ ?_
  show runDirs (Dir.dY :: [Dir.lit '/', Dir.dm, Dir.lit '/', Dir.dd, Dir.lit ',', Dir.ws, Dir.dH, Dir.lit ':', Dir.dM]) {} _ = _
  rw [runDirs_dY_pad2_sep _ _ _ _ _ (by decide)]

theorem c4fail_12_17 (dt : DT) (h : Rep fmt17 dt) :
    strptimeF fmt12 (render fmt17 dt) = none := by
  obtain ⟨hval, hyr, hsec⟩ := h
  simp only [validPy] at hval
  obtain ⟨h1y, h2y, h1m, h2m, h1d, h2d, hH, hMi, hSs⟩ := hval
  have hyr' : 1000 ≤ dt.year ∧ dt.year ≤ 9999 := by
    rw [if_neg (by decide)] at hyr
    exact hyr
  have hd31 : dt.day ≤ 31 := le_trans h2d (daysInMonth_le _ _)
  rw [c4render17_eq]
  refine strptimeF_of_none _ _ ?_
  show runDirs (Dir.dd :: [Dir.lit '.', Dir.dm, Dir.lit '.', Dir.dY, Dir.ws, Dir.dH, Dir.lit ':', Dir.dM]) {} _ = _
  rw [runDirs_dd_pad _ _ dt.day _ (by omega) (kill_lit _ '.' (by decide) _ _),
    if_pos (by omega),
    runDirs_lit_ne _ _ _ _ _ (by decide)]

theorem c4fail_13_17 (dt : DT) (h : Rep fmt17 dt) :
    strptimeF fmt13 (render fmt17 dt) = none := by
  obtain ⟨hval, hyr, hsec⟩ := h
  simp only [validPy] at hval
  obtain ⟨h1y, h2y, h1m, h2m, h1d, h2d, hH, hMi, hSs⟩ := hval
  have hyr' : 1000 ≤ dt.year ∧ dt.year ≤ 9999 := by
    rw [if_neg (by decide)] at hyr
    exact hyr
  have hd31 : dt.day ≤ 31 := le_trans h2d (daysInMonth_le _ _)
  rw [c4render17_eq]
  refine strptimeF_of_none _ _ ?_
  show runDirs (Dir.dd :: [Dir.lit '.', Dir.dm, Dir.lit '.', Dir.dY, Dir.lit ',', Dir.ws, Dir.dH, Dir.lit ':', Dir.dM]) {} _ = _
  rw [runDirs_dd_pad _ _ dt.day _ (by omega) (kill_lit _ '.' (by decide) _ _),
    if_pos (by omega),
    runDirs_lit_ne _ _ _ _ _ (by decide)]

theorem c4fail_14_17 (dt : DT) (h : Rep fmt17 dt) :
    strptimeF fmt14 (render fmt17 dt) = none := by
  obtain ⟨hval, hyr, hsec⟩ := h
  simp only [validPy] at hval
  obtain ⟨h1y, h2y, h1m, h2m, h1d, h2d, hH, hMi, hSs⟩ := hval
  have hyr' : 1000 ≤ dt.year ∧ dt.year ≤ 9999 := by
    rw [if_neg (by decide)] at hyr
    exact hyr
  have hd31 : dt.day ≤ 31 := le_trans h2d (daysInMonth_le _ _)
  rw [c4render17_eq]
  refine strptimeF_of_none _ _ ?_
  show runDirs (Dir.dd :: [Dir.lit '.', Dir.dm, Dir.lit '.', Dir.dy, Dir.ws, Dir.dH, Dir.lit ':', Dir.dM]) {} _ = _
  rw [runDirs_dd_pad _ _ dt.day _ (by omega) (kill_lit _ '.' (by decide) _ _),
    if_pos (by omega),
    runDirs_lit_ne _ _ _ _ _ (by decide)]

theorem c4fail_15_17 (dt : DT) (h : Rep fmt17 dt) :
    strptimeF fmt15 (render fmt17 dt) = none := by
  obtain ⟨hval, hyr, hsec⟩ := h
  simp only [validPy] at hval
  obtain ⟨h1y, h2y, h1m, h2m, h1d, h2d, hH, hMi, hSs⟩ := hval
  have hyr' : 1000 ≤ dt.year ∧ dt.year ≤ 9999 := by
    rw [if_neg (by decide)] at hyr
    exact hyr
  have hd31 : dt.day ≤ 31 := le_trans h2d (daysInMonth_le _ _)
  rw [c4render17_eq]
  refine strptimeF_of_none _ _ ?_
  show runDirs (Dir.dd :: [Dir.lit '.', Dir.dm, Dir.lit '.', Dir.dy, Dir.lit ',', Dir.ws, Dir.dH, Dir.lit ':', Dir.dM]) {} _ = _
  rw [runDirs_dd_pad _ _ dt.day _ (by omega) (kill_lit _ '.' (by decide) _ _),
    if_pos (by omega),
    runDirs_lit_ne _ _ _ _ _ (by decide)]

theorem c4fail_16_17 (dt : DT) (h : Rep fmt17 dt) :
    strptimeF fmt16 (render fmt17 dt) = none := by
  obtain ⟨hval, hyr, hsec⟩ := h
  simp only [validPy] at hval
  obtain ⟨h1y, h2y, h1m, h2m, h1d, h2d, hH, hMi, hSs⟩ := hval
  have hyr' : 1000 ≤ dt.year ∧ dt.year ≤ 9999 := by
    rw [if_neg (by decide)] at hyr
    exact hyr
  have hd31 : dt.day ≤ 31 := le_trans h2d (daysInMonth_le _ _)
  rw [c4render17_eq]
  refine strptimeF_of_none _ _ ?_
  show runDirs (Dir.dd :: [Dir.lit '-', Dir.dm, Dir.lit '-', Dir.dY, Dir.ws, Dir.dH, Dir.lit ':', Dir.dM]) {} _ = _
  rw [runDirs_dd_pad _ _ dt.day _ (by omega) (kill_lit _ '-' (by decide) _ _),
    if_pos (by omega),
    runDirs_lit_eq,
    runDirs_dm_pad _ _ dt.month _ (by omega) (kill_lit _ '-' (by decide) _ _),
    if_pos (by omega),
    runDirs_lit_eq,
    runDirs_dY_pad _ _ dt.year (by omega) _,
    runDirs_ws_none _ _ _ _ (by decide)]

theorem c4rt17 (dt : DT) (h : Rep fmt17 dt) :
    parseTimestampCore (render fmt17 dt) = some dt := by
  rw [parseTimestampCore_eq, c4trim17]
  simp only [formats]
  rw [tryFormats_cons_none _ _ _ (c4fail_0_17 dt h),
    tryFormats_cons_none _ _ _ (c4fail_1_17 dt h),
    tryFormats_cons_none _ _ _ (c4fail_2_17 dt h),
    tryFormats_cons_none _ _ _ (c4fail_3_17 dt h),
    tryFormats_cons_none _ _ _ (c4fail_4_17 dt h),
    tryFormats_cons_none _ _ _ (c4fail_5_17 dt h),
    tryFormats_cons_none _ _ _ (c4fail_6_17 dt h),
    tryFormats_cons_none _ _ _ (c4fail_7_17 dt h),
    tryFormats_cons_none _ _ _ (c4fail_8_17 dt h),
    tryFormats_cons_none _ _ _ (c4fail_9_17 dt h),
    tryFormats_cons_none _ _ _ (c4fail_10_17 dt h),
    tryFormats_cons_none _ _ _ (c4fail_11_17 dt h),
    tryFormats_cons_none _ _ _ (c4fail_12_17 dt h),
    tryFormats_cons_none _ _ _ (c4fail_13_17 dt h),
    tryFormats_cons_none _ _ _ (c4fail_14_17 dt h),
    tryFormats_cons_none _ _ _ (c4fail_15_17 dt h),
    tryFormats_cons_none _ _ _ (c4fail_16_17 dt h),
    tryFormats_cons_some _ _ _ _ (c4self17 dt h)]

theorem c4render18_eq (dt : DT) :
    render fmt18 dt
      = pad2 dt.day ++ ('-' :: (pad2 dt.month ++ ('-' :: (pad2 (dt.year % 100) ++ (' ' :: (pad2 dt.hour ++ (':' :: (pad2 dt.minute ++ ([]))))))))) := rfl


theorem c4trim18 (dt : DT) : trimChars (render fmt18 dt) = render fmt18 dt := by
  apply trimChars_of_hl
  · rw [c4render18_eq]
    simp only [pad2_eq, pad4_eq, List.cons_append, List.nil_append]
    exact ⟨_, _, rfl, not_ws_digitChar _⟩
  · rw [c4render18_eq]
    simp only [ampm_cons, pad2_eq, pad4_eq, List.reverse_cons, List.reverse_append,
      List.append_assoc, List.cons_append, List.nil_append, List.reverse_nil,
      List.append_nil]
    exact ⟨_, _, rfl, not_ws_digitChar _⟩

theorem c4self18 (dt : DT) (h : Rep fmt18 dt) :
    strptimeF fmt18 (render fmt18 dt) = some dt := by
  obtain ⟨hval, hyr, hsec⟩ := h
  simp only [validPy] at hval
  obtain ⟨h1y, h2y, h1m, h2m, h1d, h2d, hH, hMi, hSs⟩ := hval
  have hyr' : 1969 ≤ dt.year ∧ dt.year ≤ 2068 := by
    rw [if_pos (by decide)] at hyr
    exact hyr
  have hd31 : dt.day ≤ 31 := le_trans h2d (daysInMonth_le _ _)
  have hsec0 : dt.second = 0 := by
    rcases hsec with hmem | h0
    · exact absurd hmem (by decide)
    · exact h0
  rw [c4render18_eq]
  have hrun : runDirs fmt18 {} (pad2 dt.day ++ ('-' :: (pad2 dt.month ++ ('-' :: (pad2 (dt.year % 100) ++ (' ' :: (pad2 dt.hour ++ (':' :: (pad2 dt.minute ++ ([]))))))))))
      = some (⟨some dt.day, some dt.month, some (dt.year % 100), none, some dt.hour, none, some dt.minute, none, none⟩, []) := by
    show runDirs (Dir.dd :: [Dir.lit '-', Dir.dm, Dir.lit '-', Dir.dy, Dir.ws, Dir.dH, Dir.lit ':', Dir.dM]) {} _ = _
    rw [runDirs_dd_pad _ _ dt.day _ (by omega) (kill_lit _ '-' (by decide) _ _),
      if_pos (by omega),
      runDirs_lit_eq,
      runDirs_dm_pad _ _ dt.month _ (by omega) (kill_lit _ '-' (by decide) _ _),
      if_pos (by omega),
      runDirs_lit_eq,
      runDirs_dy_pad _ _ (dt.year % 100) _ (by omega),
      runDirs_ws_single _ _ _ (wsCount_pad2 _ _),
      runDirs_dH_pad _ _ dt.hour _ (by omega) (kill_lit _ ':' (by decide) _ _),
      if_pos (by omega),
      runDirs_lit_eq,
      runDirs_dM_last _ dt.minute _ (by omega) (by omega)]
  rw [strptimeF_of_done _ _ _ hrun]
  unfold buildDT
  dsimp only
  simp only [Option.getD_some, Option.getD_none]
  have hYr : (if dt.year % 100 ≤ 68 then dt.year % 100 + 2000
      else dt.year % 100 + 1900) = dt.year := by
    split_ifs <;> omega
  rw [hYr]
  rw [mkDT, if_pos (by omega)]
  rw [← hsec0]

theorem c4fail_0_18 (dt : DT) (h : Rep fmt18 dt) :
    strptimeF fmt0 (render fmt18 dt) = none := by
  obtain ⟨hval, hyr, hsec⟩ := h
  simp only [validPy] at hval
  obtain ⟨h1y, h2y, h1m, h2m, h1d, h2d, hH, hMi, hSs⟩ := hval
  have hyr' : 1969 ≤ dt.year ∧ dt.year ≤ 2068 := by
    rw [if_pos (by decide)] at hyr
    exact hyr
  have hd31 : dt.day ≤ 31 := le_trans h2d (daysInMonth_le _ _)
  rw [c4render18_eq]
  refine strptimeF_of_none _ _ ?_
  show runDirs (Dir.dd :: [Dir.lit '/', Dir.dm, Dir.lit '/', Dir.dY, Dir.ws, Dir.dH, Dir.lit ':', Dir.dM]) {} _ = _
  rw [runDirs_dd_pad _ _ dt.day _ (by omega) (kill_lit _ '/' (by decide) _ _),
    if_pos (by omega),
    runDirs_lit_ne _ _ _ _ _ (by decide)]

theorem c4fail_1_18 (dt : DT) (h : Rep fmt18 dt) :
    strptimeF fmt1 (render fmt18 dt) = none := by
  obtain ⟨hval, hyr, hsec⟩ := h
  simp only [validPy] at hval
  obtain ⟨h1y, h2y, h1m, h2m, h1d, h2d, hH, hMi, hSs⟩ := hval
  have hyr' : 1969 ≤ dt.year ∧ dt.year ≤ 2068 := by
    rw [if_pos (by decide)] at hyr
    exact hyr
  have hd31 : dt.day ≤ 31 := le_trans h2d (daysInMonth_le _ _)
  rw [c4render18_eq]
  refine strptimeF_of_none _ _ ?_
  show runDirs (Dir.dd :: [Dir.lit '/', Dir.dm, Dir.lit '/', Dir.dY, Dir.lit ',', Dir.ws, Dir.dH, Dir.lit ':', Dir.dM]) {} _ = _
  rw [runDirs_dd_pad _ _ dt.day _ (by omega) (kill_lit _ '/' (by decide) _ _),
    if_pos (by omega),
    runDirs_lit_ne _ _ _ _ _ (by decide)]

theorem c4fail_2_18 (dt : DT) (h : Rep fmt18 dt) :
    strptimeF fmt2 (render fmt18 dt) = none := by
  obtain ⟨hval, hyr, hsec⟩ := h
  simp only [validPy] at hval
  obtain ⟨h1y, h2y, h1m, h2m, h1d, h2d, hH, hMi, hSs⟩ := hval
  have hyr' : 1969 ≤ dt.year ∧ dt.year ≤ 2068 := by
    rw [if_pos (by decide)] at hyr
    exact hyr
  have hd31 : dt.day ≤ 31 := le_trans h2d (daysInMonth_le _ _)
  rw [c4render18_eq]
  refine strptimeF_of_none _ _ ?_
  show runDirs (Dir.dd :: [Dir.lit '/', Dir.dm, Dir.lit '/', Dir.dy, Dir.ws, Dir.dH, Dir.lit ':', Dir.dM]) {} _ = _
  rw [runDirs_dd_pad _ _ dt.day _ (by omega) (kill_lit _ '/' (by decide) _ _),
    if_pos (by omega),
    runDirs_lit_ne _ _ _ _ _ (by decide)]

theorem c4fail_3_18 (dt : DT) (h : Rep fmt18 dt) :
    strptimeF fmt3 (render fmt18 dt) = none := by
  obtain ⟨hval, hyr, hsec⟩ := h
  simp only [validPy] at hval
  obtain ⟨h1y, h2y, h1m, h2m, h1d, h2d, hH, hMi, hSs⟩ := hval
  have hyr' : 1969 ≤ dt.year ∧ dt.year ≤ 2068 := by
    rw [if_pos (by decide)] at hyr
    exact hyr
  have hd31 : dt.day ≤ 31 := le_trans h2d (daysInMonth_le _ _)
  rw [c4render18_eq]
  refine strptimeF_of_none _ _ ?_
  show runDirs (Dir.dd :: [Dir.lit '/', Dir.dm, Dir.lit '/', Dir.dy, Dir.lit ',', Dir.ws, Dir.dH, Dir.lit ':', Dir.dM]) {} _ = _
  rw [runDirs_dd_pad _ _ dt.day _ (by omega) (kill_lit _ '/' (by decide) _ _),
    if_pos (by omega),
    runDirs_lit_ne _ _ _ _ _ (by decide)]

theorem c4fail_4_18 (dt : DT) (h : Rep fmt18 dt) :
    strptimeF fmt4 (render fmt18 dt) = none := by
  obtain ⟨hval, hyr, hsec⟩ := h
  simp only [validPy] at hval
  obtain ⟨h1y, h2y, h1m, h2m, h1d, h2d, hH, hMi, hSs⟩ := hval
  have hyr' : 1969 ≤ dt.year ∧ dt.year ≤ 2068 := by
    rw [if_pos (by decide)] at hyr
    exact hyr
  have hd31 : dt.day ≤ 31 := le_trans h2d (daysInMonth_le _ _)
  rw [c4render18_eq]
  by_cases hc1 : 1 ≤ dt.day ∧ dt.day ≤ 12
  · refine strptimeF_of_none _ _ ?_
    show runDirs (Dir.dm :: [Dir.lit '/', Dir.dd, Dir.lit '/', Dir.dY, Dir.ws, Dir.dI, Dir.lit ':', Dir.dM, Dir.ws, Dir.dp]) {} _ = _
    rw [runDirs_dm_pad _ _ dt.day _ (by omega) (kill_lit _ '/' (by decide) _ _),
      if_pos hc1,
      runDirs_lit_ne _ _ _ _ _ (by decide)]
  · refine strptimeF_of_none _ _ ?_
    show runDirs (Dir.dm :: [Dir.lit '/', Dir.dd, Dir.lit '/', Dir.dY, Dir.ws, Dir.dI, Dir.lit ':', Dir.dM, Dir.ws, Dir.dp]) {} _ = _
    rw [runDirs_dm_pad _ _ dt.day _ (by omega) (kill_lit _ '/' (by decide) _ _), if_neg hc1]

theorem c4fail_5_18 (dt : DT) (h : Rep fmt18 dt) :
    strptimeF fmt5 (render fmt18 dt) = none := by
  obtain ⟨hval, hyr, hsec⟩ := h
  simp only [validPy] at hval
  obtain ⟨h1y, h2y, h1m, h2m, h1d, h2d, hH, hMi, hSs⟩ := hval
  have hyr' : 1969 ≤ dt.year ∧ dt.year ≤ 2068 := by
    rw [if_pos (by decide)] at hyr
    exact hyr
  have hd31 : dt.day ≤ 31 := le_trans h2d (daysInMonth_le _ _)
  rw [c4render18_eq]
  by_cases hc1 : 1 ≤ dt.day ∧ dt.day ≤ 12
  · refine strptimeF_of_none _ _ ?_
    show runDirs (Dir.dm :: [Dir.lit '/', Dir.dd, Dir.lit '/', Dir.dY, Dir.lit ',', Dir.ws, Dir.dI, Dir.lit ':', Dir.dM, Dir.ws, Dir.dp]) {} _ = _
    rw [runDirs_dm_pad _ _ dt.day _ (by omega) (kill_lit _ '/' (by decide) _ _),
      if_pos hc1,
      runDirs_lit_ne _ _ _ _ _ (by decide)]
  · refine strptimeF_of_none _ _ ?_
    show runDirs (Dir.dm :: [Dir.lit '/', Dir.dd, Dir.lit '/', Dir.dY, Dir.lit ',', Dir.ws, Dir.dI, Dir.lit ':', Dir.dM, Dir.ws, Dir.dp]) {} _ = _
    rw [runDirs_dm_pad _ _ dt.day _ (by omega) (kill_lit _ '/' (by decide) _ _), if_neg hc1]

theorem c4fail_6_18 (dt : DT) (h : Rep fmt18 dt) :
    strptimeF fmt6 (render fmt18 dt) = none := by
  obtain ⟨hval, hyr, hsec⟩ := h
  simp only [validPy] at hval
  obtain ⟨h1y, h2y, h1m, h2m, h1d, h2d, hH, hMi, hSs⟩ := hval
  have hyr' : 1969 ≤ dt.year ∧ dt.year ≤ 2068 := by
    rw [if_pos (by decide)] at hyr
    exact hyr
  have hd31 : dt.day ≤ 31 := le_trans h2d (daysInMonth_le _ _)
  rw [c4render18_eq]
  by_cases hc1 : 1 ≤ dt.day ∧ dt.day ≤ 12
  · refine strptimeF_of_none _ _ ?_
    show runDirs (Dir.dm :: [Dir.lit '/', Dir.dd, Dir.lit '/', Dir.dy, Dir.ws, Dir.dI, Dir.lit ':', Dir.dM, Dir.ws, Dir.dp]) {} _ = _
    rw [runDirs_dm_pad _ _ dt.day _ (by omega) (kill_lit _ '/' (by decide) _ _),
      if_pos hc1,
      runDirs_lit_ne _ _ _ _ _ (by decide)]
  · refine strptimeF_of_none _ _ ?_
    show runDirs (Dir.dm :: [Dir.lit '/', Dir.dd, Dir.lit '/', Dir.dy, Dir.ws, Dir.dI, Dir.lit ':', Dir.dM, Dir.ws, Dir.dp]) {} _ = _
    rw [runDirs_dm_pad _ _ dt.day _ (by omega) (kill_lit _ '/' (by decide) _ _), if_neg hc1]

theorem c4fail_7_18 (dt : DT) (h : Rep fmt18 dt) :
    strptimeF fmt7 (render fmt18 dt) = none := by
  obtain ⟨hval, hyr, hsec⟩ := h
  simp only [validPy] at hval
  obtain ⟨h1y, h2y, h1m, h2m, h1d, h2d, hH, hMi, hSs⟩ := hval
  have hyr' : 1969 ≤ dt.year ∧ dt.year ≤ 2068 := by
    rw [if_pos (by decide)] at hyr
    exact hyr
  have hd31 : dt.day ≤ 31 := le_trans h2d (daysInMonth_le _ _)
  rw [c4render18_eq]
  by_cases hc1 : 1 ≤ dt.day ∧ dt.day ≤ 12
  · refine strptimeF_of_none _ _ ?_
    show runDirs (Dir.dm :: [Dir.lit '/', Dir.dd, Dir.lit '/', Dir.dy, Dir.lit ',', Dir.ws, Dir.dI, Dir.lit ':', Dir.dM, Dir.ws, Dir.dp]) {} _ = _
    rw [runDirs_dm_pad _ _ dt.day _ (by omega) (kill_lit _ '/' (by decide) _ _),
      if_pos hc1,
      runDirs_lit_ne _ _ _ _ _ (by decide)]
  · refine strptimeF_of_none _ _ ?_
    show runDirs (Dir.dm :: [Dir.lit '/', Dir.dd, Dir.lit '/', Dir.dy, Dir.lit ',', Dir.ws, Dir.dI, Dir.lit ':', Dir.dM, Dir.ws, Dir.dp]) {} _ = _
    rw [runDirs_dm_pad _ _ dt.day _ (by omega) (kill_lit _ '/' (by decide) _ _), if_neg hc1]

theorem c4fail_8_18 (dt : DT) (h : Rep fmt18 dt) :
    strptimeF fmt8 (render fmt18 dt) = none := by
  obtain ⟨hval, hyr, hsec⟩ := h
  simp only [validPy] at hval
  obtain ⟨h1y, h2y, h1m, h2m, h1d, h2d, hH, hMi, hSs⟩ := hval
  have hyr' : 1969 ≤ dt.year ∧ dt.year ≤ 2068 := by
    rw [if_pos (by decide)] at hyr
    exact hyr
  have hd31 : dt.day ≤ 31 := le_trans h2d (daysInMonth_le _ _)
  rw [c4render18_eq]
  refine strptimeF_of_none _ _ ?_
  show runDirs (Dir.dY :: [Dir.lit '-', Dir.dm, Dir.lit '-', Dir.dd, Dir.ws, Dir.dH, Dir.lit ':', Dir.dM]) {} _ = _
  rw [runDirs_dY_pad2_sep _ _ _ _ _ (by decide)]

theorem c4fail_9_18 (dt : DT) (h : Rep fmt18 dt) :
    strptimeF fmt9 (render fmt18 dt) = none := by
  obtain ⟨hval, hyr, hsec⟩ := h
  simp only [validPy] at hval
  obtain ⟨h1y, h2y, h1m, h2m, h1d, h2d, hH, hMi, hSs⟩ := hval
  have hyr' : 1969 ≤ dt.year ∧ dt.year ≤ 2068 := by
    rw [if_pos (by decide)] at hyr
    exact hyr
  have hd31 : dt.day ≤ 31 := le_trans h2d (daysInMonth_le _ _)
  rw [c4render18_eq]
  refine strptimeF_of_none _ _ ?_
  show runDirs (Dir.dY :: [Dir.lit '-', Dir.dm, Dir.lit '-', Dir.dd, Dir.lit ',', Dir.ws, Dir.dH, Dir.lit ':', Dir.dM]) {} _ = _
  rw [runDirs_dY_pad2_sep _ _ _ _ _ (by decide)]

theorem c4fail_10_18 (dt : DT) (h : Rep fmt18 dt) :
    strptimeF fmt10 (render fmt18 dt) = none := by
  obtain ⟨hval, hyr, hsec⟩ := h
  simp only [validPy] at hval
  obtain ⟨h1y, h2y, h1m, h2m, h1d, h2d, hH, hMi, hSs⟩ := hval
  have hyr' : 1969 ≤ dt.year ∧ dt.year ≤ 2068 := by
    rw [if_pos (by decide)] at hyr
    exact hyr
  have hd31 : dt.day ≤ 31 := le_trans h2d (daysInMonth_le _ _)
  rw [c4render18_eq]
  refine strptimeF_of_none _ _ ?_
  show runDirs (Dir.dY :: [Dir.lit '/', Dir.dm, Dir.lit '/', Dir.dd, Dir.ws, Dir.dH, Dir.lit ':', Dir.dM]) {} _ = _
  rw [runDirs_dY_pad2_sep _ _ _ _ _ (by decide)]

theorem c4fail_11_18 (dt : DT) (h : Rep fmt18 dt) :
    strptimeF fmt11 (render fmt18 dt) = none := by
  obtain ⟨hval, hyr, hsec⟩ := h
  simp only [validPy] at hval
  obtain ⟨h1y, h2y, h1m, h2m, h1d, h2d, hH, hMi, hSs⟩ := hval
  have hyr' : 1969 ≤ dt.year ∧ dt.year ≤ 2068 := by
    rw [if_pos (by decide)] at hyr
    exact hyr
  have hd31 : dt.day ≤ 31 := le_trans h2d (daysInMonth_le _ _)
  rw [c4render18_eq]
  refine strptimeF_of_none _ _ ?_
  show runDirs (Dir.dY :: [Dir.lit '/', Dir.dm, Dir.lit '/', Dir.dd, Dir.lit ',', Dir.ws, Dir.dH, Dir.lit ':', Dir.dM]) {} _ = _
  rw [runDirs_dY_pad2_sep _ _ _ _ _ (by decide)]

theorem c4fail_12_18 (dt : DT) (h : Rep fmt18 dt) :
    strptimeF fmt12 (render fmt18 dt) = none := by
  obtain ⟨hval, hyr, hsec⟩ := h
  simp only [validPy] at hval
  obtain ⟨h1y, h2y, h1m, h2m, h1d, h2d, hH, hMi, hSs⟩ := hval
  have hyr' : 1969 ≤ dt.year ∧ dt.year ≤ 2068 := by
    rw [if_pos (by decide)] at hyr
    exact hyr
  have hd31 : dt.day ≤ 31 := le_trans h2d (daysInMonth_le _ _)
  rw [c4render18_eq]
  refine strptimeF_of_none _ _ ?_
  show runDirs (Dir.dd :: [Dir.lit '.', Dir.dm, Dir.lit '.', Dir.dY, Dir.ws, Dir.dH, Dir.lit ':', Dir.dM]) {} _ = _
  rw [runDirs_dd_pad _ _ dt.day _ (by omega) (kill_lit _ '.' (by decide) _ _),
    if_pos (by omega),
    runDirs_lit_ne _ _ _ _ _ (by decide)]

theorem c4fail_13_18 (dt : DT) (h : Rep fmt18 dt) :
    strptimeF fmt13 (render fmt18 dt) = none := by
  obtain ⟨hval, hyr, hsec⟩ := h
  simp only [validPy] at hval
  obtain ⟨h1y, h2y, h1m, h2m, h1d, h2d, hH, hMi, hSs⟩ := hval
  have hyr' : 1969 ≤ dt.year ∧ dt.year ≤ 2068 := by
    rw [if_pos (by decide)] at hyr
    exact hyr
  have hd31 : dt.day ≤ 31 := le_trans h2d (daysInMonth_le _ _)
  rw [c4render18_eq]
  refine strptimeF_of_none _ _ ?_
  show runDirs (Dir.dd :: [Dir.lit '.', Dir.dm, Dir.lit '.', Dir.dY, Dir.lit ',', Dir.ws, Dir.dH, Dir.lit ':', Dir.dM]) {} _ = _
  rw [runDirs_dd_pad _ _ dt.day _ (by omega) (kill_lit _ '.' (by decide) _ _),
    if_pos (by omega),
    runDirs_lit_ne _ _ _ _ _ (by decide)]

theorem c4fail_14_18 (dt : DT) (h : Rep fmt18 dt) :
    strptimeF fmt14 (render fmt18 dt) = none := by
  obtain ⟨hval, hyr, hsec⟩ := h
  simp only [validPy] at hval
  obtain ⟨h1y, h2y, h1m, h2m, h1d, h2d, hH, hMi, hSs⟩ := hval
  have hyr' : 1969 ≤ dt.year ∧ dt.year ≤ 2068 := by
    rw [if_pos (by decide)] at hyr
    exact hyr
  have hd31 : dt.day ≤ 31 := le_trans h2d (daysInMonth_le _ _)
  rw [c4render18_eq]
  refine strptimeF_of_none _ _ ?_
  show runDirs (Dir.dd :: [Dir.lit '.', Dir.dm, Dir.lit '.', Dir.dy, Dir.ws, Dir.dH, Dir.lit ':', Dir.dM]) {} _ = _
  rw [runDirs_dd_pad _ _ dt.day _ (by omega) (kill_lit _ '.' (by decide) _ _),
    if_pos (by omega),
    runDirs_lit_ne _ _ _ _ _ (by decide)]

theorem c4fail_15_18 (dt : DT) (h : Rep fmt18 dt) :
    strptimeF fmt15 (render fmt18 dt) = none := by
  obtain ⟨hval, hyr, hsec⟩ := h
  simp only [validPy] at hval
  obtain ⟨h1y, h2y, h1m, h2m, h1d, h2d, hH, hMi, hSs⟩ := hval
  have hyr' : 1969 ≤ dt.year ∧ dt.year ≤ 2068 := by
    rw [if_pos (by decide)] at hyr
    exact hyr
  have hd31 : dt.day ≤ 31 := le_trans h2d (daysInMonth_le _ _)
  rw [c4render18_eq]
  refine strptimeF_of_none _ _ ?_
  show runDirs (Dir.dd :: [Dir.lit '.', Dir.dm, Dir.lit '.', Dir.dy, Dir.lit ',', Dir.ws, Dir.dH, Dir.lit ':', Dir.dM]) {} _ = _
  rw [runDirs_dd_pad _ _ dt.day _ (by omega) (kill_lit _ '.' (by decide) _ _),
    if_pos (by omega),
    runDirs_lit_ne _ _ _ _ _ (by decide)]

theorem c4fail_16_18 (dt : DT) (h : Rep fmt18 dt) :
    strptimeF fmt16 (render fmt18 dt) = none := by
  obtain ⟨hval, hyr, hsec⟩ := h
  simp only [validPy] at hval
  obtain ⟨h1y, h2y, h1m, h2m, h1d, h2d, hH, hMi, hSs⟩ := hval
  have hyr' : 1969 ≤ dt.year ∧ dt.year ≤ 2068 := by
    rw [if_pos (by decide)] at hyr
    exact hyr
  have hd31 : dt.day ≤ 31 := le_trans h2d (daysInMonth_le _ _)
  rw [c4render18_eq]
  refine strptimeF_of_none _ _ ?_
  show runDirs (Dir.dd :: [Dir.lit '-', Dir.dm, Dir.lit '-', Dir.dY, Dir.ws, Dir.dH, Dir.lit ':', Dir.dM]) {} _ = _
  rw [runDirs_dd_pad _ _ dt.day _ (by omega) (kill_lit _ '-' (by decide) _ _),
    if_pos (by omega),
    runDirs_lit_eq,
    runDirs_dm_pad _ _ dt.month _ (by omega) (kill_lit _ '-' (by decide) _ _),
    if_pos (by omega),
    runDirs_lit_eq,
    runDirs_dY_pad2_sep _ _ _ _ _ (by decide)]

theorem c4fail_17_18 (dt : DT) (h : Rep fmt18 dt) :
    strptimeF fmt17 (render fmt18 dt) = none := by
  obtain ⟨hval, hyr, hsec⟩ := h
  simp only [validPy] at hval
  obtain ⟨h1y, h2y, h1m, h2m, h1d, h2d, hH, hMi, hSs⟩ := hval
  have hyr' : 1969 ≤ dt.year ∧ dt.year ≤ 2068 := by
    rw [if_pos (by decide)] at hyr
    exact hyr
  have hd31 : dt.day ≤ 31 := le_trans h2d (daysInMonth_le _ _)
  rw [c4render18_eq]
  refine strptimeF_of_none _ _ ?_
  show runDirs (Dir.dd :: [Dir.lit '-', Dir.dm, Dir.lit '-', Dir.dY, Dir.lit ',', Dir.ws, Dir.dH, Dir.lit ':', Dir.dM]) {} _ = _
  rw [runDirs_dd_pad _ _ dt.day _ (by omega) (kill_lit _ '-' (by decide) _ _),
    if_pos (by omega),
    runDirs_lit_eq,
    runDirs_dm_pad _ _ dt.month _ (by omega) (kill_lit _ '-' (by decide) _ _),
    if_pos (by omega),
    runDirs_lit_eq,
    runDirs_dY_pad2_sep _ _ _ _ _ (by decide)]

theorem c4rt18 (dt : DT) (h : Rep fmt18 dt) :
    parseTimestampCore (render fmt18 dt) = some dt := by
  rw [parseTimestampCore_eq, c4trim18]
  simp only [formats]
  rw [tryFormats_cons_none _ _ _ (c4fail_0_18 dt h),
    tryFormats_cons_none _ _ _ (c4fail_1_18 dt h),
    tryFormats_cons_none _ _ _ (c4fail_2_18 dt h),
    tryFormats_cons_none _ _ _ (c4fail_3_18 dt h),
    tryFormats_cons_none _ _ _ (c4fail_4_18 dt h),
    tryFormats_cons_none _ _ _ (c4fail_5_18 dt h),
    tryFormats_cons_none _ _ _ (c4fail_6_18 dt h),
    tryFormats_cons_none _ _ _ (c4fail_7_18 dt h),
    tryFormats_cons_none _ _ _ (c4fail_8_18 dt h),
    tryFormats_cons_none _ _ _ (c4fail_9_18 dt h),
    tryFormats_cons_none _ _ _ (c4fail_10_18 dt h),
    tryFormats_cons_none _ _ _ (c4fail_11_18 dt h),
    tryFormats_cons_none _ _ _ (c4fail_12_18 dt h),
    tryFormats_cons_none _ _ _ (c4fail_13_18 dt h),
    tryFormats_cons_none _ _ _ (c4fail_14_18 dt h),
    tryFormats_cons_none _ _ _ (c4fail_15_18 dt h),
    tryFormats_cons_none _ _ _ (c4fail_16_18 dt h),
    tryFormats_cons_none _ _ _ (c4fail_17_18 dt h),
    tryFormats_cons_some _ _ _ _ (c4self18 dt h)]

theorem c4render19_eq (dt : DT) :
    render fmt19 dt
      = pad2 dt.day ++ ('-' :: (pad2 dt.month ++ ('-' :: (pad2 (dt.year % 100) ++ (',' :: (' ' :: (pad2 dt.hour ++ (':' :: (pad2 dt.minute ++ ([])))))))))) := rfl


theorem c4trim19 (dt : DT) : trimChars (render fmt19 dt) = render fmt19 dt := by
  apply trimChars_of_hl
  · rw [c4render19_eq]
    simp only [pad2_eq, pad4_eq, List.cons_append, List.nil_append]
    exact ⟨_, _, rfl, not_ws_digitChar _⟩
  · rw [c4render19_eq]
    simp only [ampm_cons, pad2_eq, pad4_eq, List.reverse_cons, List.reverse_append,
      List.append_assoc, List.cons_append, List.nil_append, List.reverse_nil,
      List.append_nil]
    exact ⟨_, _, rfl, not_ws_digitChar _⟩

theorem c4self19 (dt : DT) (h : Rep fmt19 dt) :
    strptimeF fmt19 (render fmt19 dt) = some dt := by
  obtain ⟨hval, hyr, hsec⟩ := h
  simp only [validPy] at hval
  obtain ⟨h1y, h2y, h1m, h2m, h1d, h2d, hH, hMi, hSs⟩ := hval
  have hyr' : 1969 ≤ dt.year ∧ dt.year ≤ 2068 := by
    rw [if_pos (by decide)] at hyr
    exact hyr
  have hd31 : dt.day ≤ 31 := le_trans h2d (daysInMonth_le _ _)
  have hsec0 : dt.second = 0 := by
    rcases hsec with hmem | h0
    · exact absurd hmem (by decide)
    · exact h0
  rw [c4render19_eq]
  have hrun : runDirs fmt19 {} (pad2 dt.day ++ ('-' :: (pad2 dt.month ++ ('-' :: (pad2 (dt.year % 100) ++ (',' :: (' ' :: (pad2 dt.hour ++ (':' :: (pad2 dt.minute ++ ([])))))))))))
      = some (⟨some dt.day, some dt.month, some (dt.year % 100), none, some dt.hour, none, some dt.minute, none, none⟩, []) := by
    show runDirs (Dir.dd :: [Dir.lit '-', Dir.dm, Dir.lit '-', Dir.dy, Dir.lit ',', Dir.ws, Dir.dH, Dir.lit ':', Dir.dM]) {} _ = _
    rw [runDirs_dd_pad _ _ dt.day _ (by omega) (kill_lit _ '-' (by decide) _ _),
      if_pos (by omega),
      runDirs_lit_eq,
      runDirs_dm_pad _ _ dt.month _ (by omega) (kill_lit _ '-' (by decide) _ _),
      if_pos (by omega),
      runDirs_lit_eq,
      runDirs_dy_pad _ _ (dt.year % 100) _ (by omega),
      runDirs_lit_eq,
      runDirs_ws_single _ _ _ (wsCount_pad2 _ _),
      runDirs_dH_pad _ _ dt.hour _ (by omega) (kill_lit _ ':' (by decide) _ _),
      if_pos (by omega),
      runDirs_lit_eq,
      runDirs_dM_last _ dt.minute _ (by omega) (by omega)]
  rw [strptimeF_of_done _ _ _ hrun]
  unfold buildDT
  dsimp only
  simp only [Option.getD_some, Option.getD_none]
  have hYr : (if dt.year % 100 ≤ 68 then dt.year % 100 + 2000
      else dt.year % 100 + 1900) = dt.year := by
    split_ifs <;> omega
  rw [hYr]
  rw [mkDT, if_pos (by omega)]
  rw [← hsec0]

theorem c4fail_0_19 (dt : DT) (h : Rep fmt19 dt) :
    strptimeF fmt0 (render fmt19 dt) = none := by
  obtain ⟨hval, hyr, hsec⟩ := h
  simp only [validPy] at hval
  obtain ⟨h1y, h2y, h1m, h2m, h1d, h2d, hH, hMi, hSs⟩ := hval
  have hyr' : 1969 ≤ dt.year ∧ dt.year ≤ 2068 := by
    rw [if_pos (by decide)] at hyr
    exact hyr
  have hd31 : dt.day ≤ 31 := le_trans h2d (daysInMonth_le _ _)
  rw [c4render19_eq]
  refine strptimeF_of_none _ _ ?_
  show runDirs (Dir.dd :: [Dir.lit '/', Dir.dm, Dir.lit '/', Dir.dY, Dir.ws, Dir.dH, Dir.lit ':', Dir.dM]) {} _ = _
  rw [runDirs_dd_pad _ _ dt.day _ (by omega) (kill_lit _ '/' (by decide) _ _),
    if_pos (by omega),
    runDirs_lit_ne _ _ _ _ _ (by decide)]

theorem c4fail_1_19 (dt : DT) (h : Rep fmt19 dt) :
    strptimeF fmt1 (render fmt19 dt) = none := by
  obtain ⟨hval, hyr, hsec⟩ := h
  simp only [validPy] at hval
  obtain ⟨h1y, h2y, h1m, h2m, h1d, h2d, hH, hMi, hSs⟩ := hval
  have hyr' : 1969 ≤ dt.year ∧ dt.year ≤ 2068 := by
    rw [if_pos (by decide)] at hyr
    exact hyr
  have hd31 : dt.day ≤ 31 := le_trans h2d (daysInMonth_le _ _)
  rw [c4render19_eq]
  refine strptimeF_of_none _ _ ?_
  show runDirs (Dir.dd :: [Dir.lit '/', Dir.dm, Dir.lit '/', Dir.dY, Dir.lit ',', Dir.ws, Dir.dH, Dir.lit ':', Dir.dM]) {} _ = _
  rw [runDirs_dd_pad _ _ dt.day _ (by omega) (kill_lit _ '/' (by decide) _ _),
    if_pos (by omega),
    runDirs_lit_ne _ _ _ _ _ (by decide)]

theorem c4fail_2_19 (dt : DT) (h : Rep fmt19 dt) :
    strptimeF fmt2 (render fmt19 dt) = none := by
  obtain ⟨hval, hyr, hsec⟩ := h
  simp only [validPy] at hval
  obtain ⟨h1y, h2y, h1m, h2m, h1d, h2d, hH, hMi, hSs⟩ := hval
  have hyr' : 1969 ≤ dt.year ∧ dt.year ≤ 2068 := by
    rw [if_pos (by decide)] at hyr
    exact hyr
  have hd31 : dt.day ≤ 31 := le_trans h2d (daysInMonth_le _ _)
  rw [c4render19_eq]
  refine strptimeF_of_none _ _ ?_
  show runDirs (Dir.dd :: [Dir.lit '/', Dir.dm, Dir.lit '/', Dir.dy, Dir.ws, Dir.dH, Dir.lit ':', Dir.dM]) {} _ = _
  rw [runDirs_dd_pad _ _ dt.day _ (by omega) (kill_lit _ '/' (by decide) _ _),
    if_pos (by omega),
    runDirs_lit_ne _ _ _ _ _ (by decide)]

theorem c4fail_3_19 (dt : DT) (h : Rep fmt19 dt) :
    strptimeF fmt3 (render fmt19 dt) = none := by
  obtain ⟨hval, hyr, hsec⟩ := h
  simp only [validPy] at hval
  obtain ⟨h1y, h2y, h1m, h2m, h1d, h2d, hH, hMi, hSs⟩ := hval
  have hyr' : 1969 ≤ dt.year ∧ dt.year ≤ 2068 := by
    rw [if_pos (by decide)] at hyr
    exact hyr
  have hd31 : dt.day ≤ 31 := le_trans h2d (daysInMonth_le _ _)
  rw [c4render19_eq]
  refine strptimeF_of_none _ _ ?_
  show runDirs (Dir.dd :: [Dir.lit '/', Dir.dm, Dir.lit '/', Dir.dy, Dir.lit ',', Dir.ws, Dir.dH, Dir.lit ':', Dir.dM]) {} _ = _
  rw [runDirs_dd_pad _ _ dt.day _ (by omega) (kill_lit _ '/' (by decide) _ _),
    if_pos (by omega),
    runDirs_lit_ne _ _ _ _ _ (by decide)]

theorem c4fail_4_19 (dt : DT) (h : Rep fmt19 dt) :
    strptimeF fmt4 (render fmt19 dt) = none := by
  obtain ⟨hval, hyr, hsec⟩ := h
  simp only [validPy] at hval
  obtain ⟨h1y, h2y, h1m, h2m, h1d, h2d, hH, hMi, hSs⟩ := hval
  have hyr' : 1969 ≤ dt.year ∧ dt.year ≤ 2068 := by
    rw [if_pos (by decide)] at hyr
    exact hyr
  have hd31 : dt.day ≤ 31 := le_trans h2d (daysInMonth_le _ _)
  rw [c4render19_eq]
  by_cases hc1 : 1 ≤ dt.day ∧ dt.day ≤ 12
  · refine strptimeF_of_none _ _ ?_
    show runDirs (Dir.dm :: [Dir.lit '/', Dir.dd, Dir.lit '/', Dir.dY, Dir.ws, Dir.dI, Dir.lit ':', Dir.dM, Dir.ws, Dir.dp]) {} _ = _
    rw [runDirs_dm_pad _ _ dt.day _ (by omega) (kill_lit _ '/' (by decide) _ _),
      if_pos hc1,
      runDirs_lit_ne _ _ _ _ _ (by decide)]
  · refine strptimeF_of_none _ _ ?_
    show runDirs (Dir.dm :: [Dir.lit '/', Dir.dd, Dir.lit '/', Dir.dY, Dir.ws, Dir.dI, Dir.lit ':', Dir.dM, Dir.ws, Dir.dp]) {} _ = _
    rw [runDirs_dm_pad _ _ dt.day _ (by omega) (kill_lit _ '/' (by decide) _ _), if_neg hc1]

theorem c4fail_5_19 (dt : DT) (h : Rep fmt19 dt) :
    strptimeF fmt5 (render fmt19 dt) = none := by
  obtain ⟨hval, hyr, hsec⟩ := h
  simp only [validPy] at hval
  obtain ⟨h1y, h2y, h1m, h2m, h1d, h2d, hH, hMi, hSs⟩ := hval
  have hyr' : 1969 ≤ dt.year ∧ dt.year ≤ 2068 := by
    rw [if_pos (by decide)] at hyr
    exact hyr
  have hd31 : dt.day ≤ 31 := le_trans h2d (daysInMonth_le _ _)
  rw [c4render19_eq]
  by_cases hc1 : 1 ≤ dt.day ∧ dt.day ≤ 12
  · refine strptimeF_of_none _ _ ?_
    show runDirs (Dir.dm :: [Dir.lit '/', Dir.dd, Dir.lit '/', Dir.dY, Dir.lit ',', Dir.ws, Dir.dI, Dir.lit ':', Dir.dM, Dir.ws, Dir.dp]) {} _ = _
    rw [runDirs_dm_pad _ _ dt.day _ (by omega) (kill_lit _ '/' (by decide) _ _),
      if_pos hc1,
      runDirs_lit_ne _ _ _ _ _ (by decide)]
  · refine strptimeF_of_none _ _ ?_
    show runDirs (Dir.dm :: [Dir.lit '/', Dir.dd, Dir.lit '/', Dir.dY, Dir.lit ',', Dir.ws, Dir.dI, Dir.lit ':', Dir.dM, Dir.ws, Dir.dp]) {} _ = _
    rw [runDirs_dm_pad _ _ dt.day _ (by omega) (kill_lit _ '/' (by decide) _ _), if_neg hc1]

theorem c4fail_6_19 (dt : DT) (h : Rep fmt19 dt) :
    strptimeF fmt6 (render fmt19 dt) = none := by
  obtain ⟨hval, hyr, hsec⟩ := h
  simp only [validPy] at hval
  obtain ⟨h1y, h2y, h1m, h2m, h1d, h2d, hH, hMi, hSs⟩ := hval
  have hyr' : 1969 ≤ dt.year ∧ dt.year ≤ 2068 := by
    rw [if_pos (by decide)] at hyr
    exact hyr
  have hd31 : dt.day ≤ 31 := le_trans h2d (daysInMonth_le _ _)
  rw [c4render19_eq]
  by_cases hc1 : 1 ≤ dt.day ∧ dt.day ≤ 12
  · refine strptimeF_of_none _ _ ?_
    show runDirs (Dir.dm :: [Dir.lit '/', Dir.dd, Dir.lit '/', Dir.dy, Dir.ws, Dir.dI, Dir.lit ':', Dir.dM, Dir.ws, Dir.dp]) {} _ = _
    rw [runDirs_dm_pad _ _ dt.day _ (by omega) (kill_lit _ '/' (by decide) _ _),
      if_pos hc1,
      runDirs_lit_ne _ _ _ _ _ (by decide)]
  · refine strptimeF_of_none _ _ ?_
    show runDirs (Dir.dm :: [Dir.lit '/', Dir.dd, Dir.lit '/', Dir.dy, Dir.ws, Dir.dI, Dir.lit ':', Dir.dM, Dir.ws, Dir.dp]) {} _ = _
    rw [runDirs_dm_pad _ _ dt.day _ (by omega) (kill_lit _ '/' (by decide) _ _), if_neg hc1]

theorem c4fail_7_19 (dt : DT) (h : Rep fmt19 dt) :
    strptimeF fmt7 (render fmt19 dt) = none := by
  obtain ⟨hval, hyr, hsec⟩ := h
  simp only [validPy] at hval
  obtain ⟨h1y, h2y, h1m, h2m, h1d, h2d, hH, hMi, hSs⟩ := hval
  have hyr' : 1969 ≤ dt.year ∧ dt.year ≤ 2068 := by
    rw [if_pos (by decide)] at hyr
    exact hyr
  have hd31 : dt.day ≤ 31 := le_trans h2d (daysInMonth_le _ _)
  rw [c4render19_eq]
  by_cases hc1 : 1 ≤ dt.day ∧ dt.day ≤ 12
  · refine strptimeF_of_none _ _ ?_
    show runDirs (Dir.dm :: [Dir.lit '/', Dir.dd, Dir.lit '/', Dir.dy, Dir.lit ',', Dir.ws, Dir.dI, Dir.lit ':', Dir.dM, Dir.ws, Dir.dp]) {} _ = _
    rw [runDirs_dm_pad _ _ dt.day _ (by omega) (kill_lit _ '/' (by decide) _ _),
      if_pos hc1,
      runDirs_lit_ne _ _ _ _ _ (by decide)]
  · refine strptimeF_of_none _ _ ?_
    show runDirs (Dir.dm :: [Dir.lit '/', Dir.dd, Dir.lit '/', Dir.dy, Dir.lit ',', Dir.ws, Dir.dI, Dir.lit ':', Dir.dM, Dir.ws, Dir.dp]) {} _ = _
    rw [runDirs_dm_pad _ _ dt.day _ (by omega) (kill_lit _ '/' (by decide) _ _), if_neg hc1]

theorem c4fail_8_19 (dt : DT) (h : Rep fmt19 dt) :
    strptimeF fmt8 (render fmt19 dt) = none := by
  obtain ⟨hval, hyr, hsec⟩ := h
  simp only [validPy] at hval
  obtain ⟨h1y, h2y, h1m, h2m, h1d, h2d, hH, hMi, hSs⟩ := hval
  have hyr' : 1969 ≤ dt.year ∧ dt.year ≤ 2068 := by
    rw [if_pos (by decide)] at hyr
    exact hyr
  have hd31 : dt.day ≤ 31 := le_trans h2d (daysInMonth_le _ _)
  rw [c4render19_eq]
  refine strptimeF_of_none _ _ ?_
  show runDirs (Dir.dY :: [Dir.lit '-', Dir.dm, Dir.lit '-', Dir.dd, Dir.ws, Dir.dH, Dir.lit ':', Dir.dM]) {} _ = _
  rw [runDirs_dY_pad2_sep _ _ _ _ _ (by decide)]

theorem c4fail_9_19 (dt : DT) (h : Rep fmt19 dt) :
    strptimeF fmt9 (render fmt19 dt) = none := by
  obtain ⟨hval, hyr, hsec⟩ := h
  simp only [validPy] at hval
  obtain ⟨h1y, h2y, h1m, h2m, h1d, h2d, hH, hMi, hSs⟩ := hval
  have hyr' : 1969 ≤ dt.year ∧ dt.year ≤ 2068 := by
    rw [if_pos (by decide)] at hyr
    exact hyr
  have hd31 : dt.day ≤ 31 := le_trans h2d (daysInMonth_le _ _)
  rw [c4render19_eq]
  refine strptimeF_of_none _ _ ?_
  show runDirs (Dir.dY :: [Dir.lit '-', Dir.dm, Dir.lit '-', Dir.dd, Dir.lit ',', Dir.ws, Dir.dH, Dir.lit ':', Dir.dM]) {} _ = _
  rw [runDirs_dY_pad2_sep _ _ _ _ _ (by decide)]

theorem c4fail_10_19 (dt : DT) (h : Rep fmt19 dt) :
    strptimeF fmt10 (render fmt19 dt) = none := by
  obtain ⟨hval, hyr, hsec⟩ := h
  simp only [validPy] at hval
  obtain ⟨h1y, h2y, h1m, h2m, h1d, h2d, hH, hMi, hSs⟩ := hval
  have hyr' : 1969 ≤ dt.year ∧ dt.year ≤ 2068 := by
    rw [if_pos (by decide)] at hyr
    exact hyr
  have hd31 : dt.day ≤ 31 := le_trans h2d (daysInMonth_le _ _)
  rw [c4render19_eq]
  refine strptimeF_of_none _ _ ?_
  show runDirs (Dir.dY :: [Dir.lit '/', Dir.dm, Dir.lit '/', Dir.dd, Dir.ws, Dir.dH, Dir.lit ':', Dir.dM]) {} _ = _
  rw [runDirs_dY_pad2_sep _ _ _ _ _ (by decide)]

theorem c4fail_11_19 (dt : DT) (h : Rep fmt19 dt) :
    strptimeF fmt11 (render fmt19 dt) = none := by
  obtain ⟨hval, hyr, hsec⟩ := h
  simp only [validPy] at hval
  obtain ⟨h1y, h2y, h1m, h2m, h1d, h2d, hH, hMi, hSs⟩ := hval
  have hyr' : 1969 ≤ dt.year ∧ dt.year ≤ 2068 := by
    rw [if_pos (by decide)] at hyr
    exact hyr
  have hd31 : dt.day ≤ 31 := le_trans h2d (daysInMonth_le _ _)
  rw [c4render19_eq]
  refine strptimeF_of_none _ _ ?_
  show runDirs (Dir.dY :: [Dir.lit '/', Dir.dm, Dir.lit '/', Dir.dd, Dir.lit ',', Dir.ws, Dir.dH, Dir.lit ':', Dir.dM]) {} _ = _
  rw [runDirs_dY_pad2_sep _ _ _ _ _ (by decide)]

theorem c4fail_12_19 (dt : DT) (h : Rep fmt19 dt) :
    strptimeF fmt12 (render fmt19 dt) = none := by
  obtain ⟨hval, hyr, hsec⟩ := h
  simp only [validPy] at hval
  obtain ⟨h1y, h2y, h1m, h2m, h1d, h2d, hH, hMi, hSs⟩ := hval
  have hyr' : 1969 ≤ dt.year ∧ dt.year ≤ 2068 := by
    rw [if_pos (by decide)] at hyr
    exact hyr
  have hd31 : dt.day ≤ 31 := le_trans h2d (daysInMonth_le _ _)
  rw [c4render19_eq]
  refine strptimeF_of_none _ _ ?_
  show runDirs (Dir.dd :: [Dir.lit '.', Dir.dm, Dir.lit '.', Dir.dY, Dir.ws, Dir.dH, Dir.lit ':', Dir.dM]) {} _ = _
  rw [runDirs_dd_pad _ _ dt.day _ (by omega) (kill_lit _ '.' (by decide) _ _),
    if_pos (by omega),
    runDirs_lit_ne _ _ _ _ _ (by decide)]

theorem c4fail_13_19 (dt : DT) (h : Rep fmt19 dt) :
    strptimeF fmt13 (render fmt19 dt) = none := by
  obtain ⟨hval, hyr, hsec⟩ := h
  simp only [validPy] at hval
  obtain ⟨h1y, h2y, h1m, h2m, h1d, h2d, hH, hMi, hSs⟩ := hval
  have hyr' : 1969 ≤ dt.year ∧ dt.year ≤ 2068 := by
    rw [if_pos (by decide)] at hyr
    exact hyr
  have hd31 : dt.day ≤ 31 := le_trans h2d (daysInMonth_le _ _)
  rw [c4render19_eq]
  refine strptimeF_of_none _ _ ?_
  show runDirs (Dir.dd :: [Dir.lit '.', Dir.dm, Dir.lit '.', Dir.dY, Dir.lit ',', Dir.ws, Dir.dH, Dir.lit ':', Dir.dM]) {} _ = _
  rw [runDirs_dd_pad _ _ dt.day _ (by omega) (kill_lit _ '.' (by decide) _ _),
    if_pos (by omega),
    runDirs_lit_ne _ _ _ _ _ (by decide)]

theorem c4fail_14_19 (dt : DT) (h : Rep fmt19 dt) :
    strptimeF fmt14 (render fmt19 dt) = none := by
  obtain ⟨hval, hyr, hsec⟩ := h
  simp only [validPy] at hval
  obtain ⟨h1y, h2y, h1m, h2m, h1d, h2d, hH, hMi, hSs⟩ := hval
  have hyr' : 1969 ≤ dt.year ∧ dt.year ≤ 2068 := by
    rw [if_pos (by decide)] at hyr
    exact hyr
  have hd31 : dt.day ≤ 31 := le_trans h2d (daysInMonth_le _ _)
  rw [c4render19_eq]
  refine strptimeF_of_none _ _ ?_
  show runDirs (Dir.dd :: [Dir.lit '.', Dir.dm, Dir.lit '.', Dir.dy, Dir.ws, Dir.dH, Dir.lit ':', Dir.dM]) {} _ = _
  rw [runDirs_dd_pad _ _ dt.day _ (by omega) (kill_lit _ '.' (by decide) _ _),
    if_pos (by omega),
    runDirs_lit_ne _ _ _ _ _ (by decide)]

theorem c4fail_15_19 (dt : DT) (h : Rep fmt19 dt) :
    strptimeF fmt15 (render fmt19 dt) = none := by
  obtain ⟨hval, hyr, hsec⟩ := h
  simp only [validPy] at hval
  obtain ⟨h1y, h2y, h1m, h2m, h1d, h2d, hH, hMi, hSs⟩ := hval
  have hyr' : 1969 ≤ dt.year ∧ dt.year ≤ 2068 := by
    rw [if_pos (by decide)] at hyr
    exact hyr
  have hd31 : dt.day ≤ 31 := le_trans h2d (daysInMonth_le _ _)
  rw [c4render19_eq]
  refine strptimeF_of_none _ _ ?_
  show runDirs (Dir.dd :: [Dir.lit '.', Dir.dm, Dir.lit '.', Dir.dy, Dir.lit ',', Dir.ws, Dir.dH, Dir.lit ':', Dir.dM]) {} _ = _
  rw [runDirs_dd_pad _ _ dt.day _ (by omega) (kill_lit _ '.' (by decide) _ _),
    if_pos (by omega),
    runDirs_lit_ne _ _ _ _ _ (by decide)]

theorem c4fail_16_19 (dt : DT) (h : Rep fmt19 dt) :
    strptimeF fmt16 (render fmt19 dt) = none := by
  obtain ⟨hval, hyr, hsec⟩ := h
  simp only [validPy] at hval
  obtain ⟨h1y, h2y, h1m, h2m, h1d, h2d, hH, hMi, hSs⟩ := hval
  have hyr' : 1969 ≤ dt.year ∧ dt.year ≤ 2068 := by
    rw [if_pos (by decide)] at hyr
    exact hyr
  have hd31 : dt.day ≤ 31 := le_trans h2d (daysInMonth_le _ _)
  rw [c4render19_eq]
  refine strptimeF_of_none _ _ ?_
  show runDirs (Dir.dd :: [Dir.lit '-', Dir.dm, Dir.lit '-', Dir.dY, Dir.ws, Dir.dH, Dir.lit ':', Dir.dM]) {} _ = _
  rw [runDirs_dd_pad _ _ dt.day _ (by omega) (kill_lit _ '-' (by decide) _ _),
    if_pos (by omega),
    runDirs_lit_eq,
    runDirs_dm_pad _ _ dt.month _ (by omega) (kill_lit _ '-' (by decide) _ _),
    if_pos (by omega),
    runDirs_lit_eq,
    runDirs_dY_pad2_sep _ _ _ _ _ (by decide)]

theorem c4fail_17_19 (dt : DT) (h : Rep fmt19 dt) :
    strptimeF fmt17 (render fmt19 dt) = none := by
  obtain ⟨hval, hyr, hsec⟩ := h
  simp only [validPy] at hval
  obtain ⟨h1y, h2y, h1m, h2m, h1d, h2d, hH, hMi, hSs⟩ := hval
  have hyr' : 1969 ≤ dt.year ∧ dt.year ≤ 2068 := by
    rw [if_pos (by decide)] at hyr
    exact hyr
  have hd31 : dt.day ≤ 31 := le_trans h2d (daysInMonth_le _ _)
  rw [c4render19_eq]
  refine strptimeF_of_none _ _ ?_
  show runDirs (Dir.dd :: [Dir.lit '-', Dir.dm, Dir.lit '-', Dir.dY, Dir.lit ',', Dir.ws, Dir.dH, Dir.lit ':', Dir.dM]) {} _ = _
  rw [runDirs_dd_pad _ _ dt.day _ (by omega) (kill_lit _ '-' (by decide) _ _),
    if_pos (by omega),
    runDirs_lit_eq,
    runDirs_dm_pad _ _ dt.month _ (by omega) (kill_lit _ '-' (by decide) _ _),
    if_pos (by omega),
    runDirs_lit_eq,
    runDirs_dY_pad2_sep _ _ _ _ _ (by decide)]

theorem c4fail_18_19 (dt : DT) (h : Rep fmt19 dt) :
    strptimeF fmt18 (render fmt19 dt) = none := by
  obtain ⟨hval, hyr, hsec⟩ := h
  simp only [validPy] at hval
  obtain ⟨h1y, h2y, h1m, h2m, h1d, h2d, hH, hMi, hSs⟩ := hval
  have hyr' : 1969 ≤ dt.year ∧ dt.year ≤ 2068 := by
    rw [if_pos (by decide)] at hyr
    exact hyr
  have hd31 : dt.day ≤ 31 := le_trans h2d (daysInMonth_le _ _)
  rw [c4render19_eq]
  refine strptimeF_of_none _ _ ?_
  show runDirs (Dir.dd :: [Dir.lit '-', Dir.dm, Dir.lit '-', Dir.dy, Dir.ws, Dir.dH, Dir.lit ':', Dir.dM]) {} _ = _
  rw [runDirs_dd_pad _ _ dt.day _ (by omega) (kill_lit _ '-' (by decide) _ _),
    if_pos (by omega),
    runDirs_lit_eq,
    runDirs_dm_pad _ _ dt.month _ (by omega) (kill_lit _ '-' (by decide) _ _),
    if_pos (by omega),
    runDirs_lit_eq,
    runDirs_dy_pad _ _ (dt.year % 100) _ (by omega),
    runDirs_ws_none _ _ _ _ (by decide)]

theorem c4rt19 (dt : DT) (h : Rep fmt19 dt) :
    parseTimestampCore (render fmt19 dt) = some dt := by
  rw [parseTimestampCore_eq, c4trim19]
  simp only [formats]
  rw [tryFormats_cons_none _ _ _ (c4fail_0_19 dt h),
    tryFormats_cons_none _ _ _ (c4fail_1_19 dt h),
    tryFormats_cons_none _ _ _ (c4fail_2_19 dt h),
    tryFormats_cons_none _ _ _ (c4fail_3_19 dt h),
    tryFormats_cons_none _ _ _ (c4fail_4_19 dt h),
    tryFormats_cons_none _ _ _ (c4fail_5_19 dt h),
    tryFormats_cons_none _ _ _ (c4fail_6_19 dt h),
    tryFormats_cons_none _ _ _ (c4fail_7_19 dt h),
    tryFormats_cons_none _ _ _ (c4fail_8_19 dt h),
    tryFormats_cons_none _ _ _ (c4fail_9_19 dt h),
    tryFormats_cons_none _ _ _ (c4fail_10_19 dt h),
    tryFormats_cons_none _ _ _ (c4fail_11_19 dt h),
    tryFormats_cons_none _ _ _ (c4fail_12_19 dt h),
    tryFormats_cons_none _ _ _ (c4fail_13_19 dt h),
    tryFormats_cons_none _ _ _ (c4fail_14_19 dt h),
    tryFormats_cons_none _ _ _ (c4fail_15_19 dt h),
    tryFormats_cons_none _ _ _ (c4fail_16_19 dt h),
    tryFormats_cons_none _ _ _ (c4fail_17_19 dt h),
    tryFormats_cons_none _ _ _ (c4fail_18_19 dt h),
    tryFormats_cons_some _ _ _ _ (c4self19 dt h)]

theorem c4render20_eq (dt : DT) :
    render fmt20 dt
      = pad2 dt.day ++ ('/' :: (pad2 dt.month ++ ('/' :: (pad4 dt.year ++ (' ' :: (pad2 dt.hour ++ (':' :: (pad2 dt.minute ++ (':' :: (pad2 dt.second ++ ([]))))))))))) := rfl


theorem c4trim20 (dt : DT) : trimChars (render fmt20 dt) = render fmt20 dt := by
  apply trimChars_of_hl
  · rw [c4render20_eq]
    simp only [pad2_eq, pad4_eq, List.cons_append, List.nil_append]
    exact ⟨_, _, rfl, not_ws_digitChar _⟩
  · rw [c4render20_eq]
    simp only [ampm_cons, pad2_eq, pad4_eq, List.reverse_cons, List.reverse_append,
      List.append_assoc, List.cons_append, List.nil_append, List.reverse_nil,
      List.append_nil]
    exact ⟨_, _, rfl, not_ws_digitChar _⟩

theorem c4self20 (dt : DT) (h : Rep fmt20 dt) :
    strptimeF fmt20 (render fmt20 dt) = some dt := by
  obtain ⟨hval, hyr, hsec⟩ := h
  simp only [validPy] at hval
  obtain ⟨h1y, h2y, h1m, h2m, h1d, h2d, hH, hMi, hSs⟩ := hval
  have hyr' : 1000 ≤ dt.year ∧ dt.year ≤ 9999 := by
    rw [if_neg (by decide)] at hyr
    exact hyr
  have hd31 : dt.day ≤ 31 := le_trans h2d (daysInMonth_le _ _)
  rw [c4render20_eq]
  have hrun : runDirs fmt20 {} (pad2 dt.day ++ ('/' :: (pad2 dt.month ++ ('/' :: (pad4 dt.year ++ (' ' :: (pad2 dt.hour ++ (':' :: (pad2 dt.minute ++ (':' :: (pad2 dt.second ++ ([]))))))))))))
      = some (⟨some dt.day, some dt.month, none, some dt.year, some dt.hour, none, some dt.minute, some dt.second, none⟩, []) := by
    show runDirs (Dir.dd :: [Dir.lit '/', Dir.dm, Dir.lit '/', Dir.dY, Dir.ws, Dir.dH, Dir.lit ':', Dir.dM, Dir.lit ':', Dir.dS]) {} _ = _
    rw [runDirs_dd_pad _ _ dt.day _ (by omega) (kill_lit _ '/' (by decide) _ _),
      if_pos (by omega),
      runDirs_lit_eq,
      runDirs_dm_pad _ _ dt.month _ (by omega) (kill_lit _ '/' (by decide) _ _),
      if_pos (by omega),
      runDirs_lit_eq,
      runDirs_dY_pad _ _ dt.year (by omega) _,
      runDirs_ws_single _ _ _ (wsCount_pad2 _ _),
      runDirs_dH_pad _ _ dt.hour _ (by omega) (kill_lit _ ':' (by decide) _ _),
      if_pos (by omega),
      runDirs_lit_eq,
      runDirs_dM_pad _ _ dt.minute _ (by omega) (kill_lit _ ':' (by decide) _ _),
      if_pos (by omega),
      runDirs_lit_eq,
      runDirs_dS_last _ dt.second _ (by omega) (by omega)]
  rw [strptimeF_of_done _ _ _ hrun]
  unfold buildDT
  dsimp only
  simp only [Option.getD_some, Option.getD_none]
  rw [mkDT, if_pos (by omega)]

theorem c4fail_0_20 (dt : DT) (h : Rep fmt20 dt) :
    strptimeF fmt0 (render fmt20 dt) = none := by
  obtain ⟨hval, hyr, hsec⟩ := h
  simp only [validPy] at hval
  obtain ⟨h1y, h2y, h1m, h2m, h1d, h2d, hH, hMi, hSs⟩ := hval
  have hyr' : 1000 ≤ dt.year ∧ dt.year ≤ 9999 := by
    rw [if_neg (by decide)] at hyr
    exact hyr
  have hd31 : dt.day ≤ 31 := le_trans h2d (daysInMonth_le _ _)
  rw [c4render20_eq]
  refine strptimeF_of_rest_ne _ _ (⟨some dt.day, some dt.month, none, some dt.year, some dt.hour, none, some dt.minute, none, none⟩)
    (':' :: (pad2 dt.second ++ ([]))) ?_ ?_
  · show runDirs (Dir.dd :: [Dir.lit '/', Dir.dm, Dir.lit '/', Dir.dY, Dir.ws, Dir.dH, Dir.lit ':', Dir.dM]) {} _ = _
    rw [runDirs_dd_pad _ _ dt.day _ (by omega) (kill_lit _ '/' (by decide) _ _),
      if_pos (by omega),
      runDirs_lit_eq,
      runDirs_dm_pad _ _ dt.month _ (by omega) (kill_lit _ '/' (by decide) _ _),
      if_pos (by omega),
      runDirs_lit_eq,
      runDirs_dY_pad _ _ dt.year (by omega) _,
      runDirs_ws_single _ _ _ (wsCount_pad2 _ _),
      runDirs_dH_pad _ _ dt.hour _ (by omega) (kill_lit _ ':' (by decide) _ _),
      if_pos (by omega),
      runDirs_lit_eq,
      runDirs_dM_last _ dt.minute _ (by omega) (by omega)]
  · exact by simp [ampm_cons, pad2_eq, pad4_eq]

theorem c4fail_1_20 (dt : DT) (h : Rep fmt20 dt) :
    strptimeF fmt1 (render fmt20 dt) = none := by
  obtain ⟨hval, hyr, hsec⟩ := h
  simp only [validPy] at hval
  obtain ⟨h1y, h2y, h1m, h2m, h1d, h2d, hH, hMi, hSs⟩ := hval
  have hyr' : 1000 ≤ dt.year ∧ dt.year ≤ 9999 := by
    rw [if_neg (by decide)] at hyr
    exact hyr
  have hd31 : dt.day ≤ 31 := le_trans h2d (daysInMonth_le _ _)
  rw [c4render20_eq]
  refine strptimeF_of_none _ _ ?_
  show runDirs (Dir.dd :: [Dir.lit '/', Dir.dm, Dir.lit '/', Dir.dY, Dir.lit ',', Dir.ws, Dir.dH, Dir.lit ':', Dir.dM]) {} _ = _
  rw [runDirs_dd_pad _ _ dt.day _ (by omega) (kill_lit _ '/' (by decide) _ _),
    if_pos (by omega),
    runDirs_lit_eq,
    runDirs_dm_pad _ _ dt.month _ (by omega) (kill_lit _ '/' (by decide) _ _),
    if_pos (by omega),
    runDirs_lit_eq,
    runDirs_dY_pad _ _ dt.year (by omega) _,
    runDirs_lit_ne _ _ _ _ _ (by decide)]

theorem c4fail_2_20 (dt : DT) (h : Rep fmt20 dt) :
    strptimeF fmt2 (render fmt20 dt) = none := by
  obtain ⟨hval, hyr, hsec⟩ := h
  simp only [validPy] at hval
  obtain ⟨h1y, h2y, h1m, h2m, h1d, h2d, hH, hMi, hSs⟩ := hval
  have hyr' : 1000 ≤ dt.year ∧ dt.year ≤ 9999 := by
    rw [if_neg (by decide)] at hyr
    exact hyr
  have hd31 : dt.day ≤ 31 := le_trans h2d (daysInMonth_le _ _)
  rw [c4render20_eq]
  refine strptimeF_of_none _ _ ?_
  show runDirs (Dir.dd :: [Dir.lit '/', Dir.dm, Dir.lit '/', Dir.dy, Dir.ws, Dir.dH, Dir.lit ':', Dir.dM]) {} _ = _
  rw [runDirs_dd_pad _ _ dt.day _ (by omega) (kill_lit _ '/' (by decide) _ _),
    if_pos (by omega),
    runDirs_lit_eq,
    runDirs_dm_pad _ _ dt.month _ (by omega) (kill_lit _ '/' (by decide) _ _),
    if_pos (by omega),
    runDirs_lit_eq,
    pad4_as_pad2,
    runDirs_dy_pad _ _ (dt.year / 100) _ (by omega),
    runDirs_ws_pad2]

theorem c4fail_3_20 (dt : DT) (h : Rep fmt20 dt) :
    strptimeF fmt3 (render fmt20 dt) = none := by
  obtain ⟨hval, hyr, hsec⟩ := h
  simp only [validPy] at hval
  obtain ⟨h1y, h2y, h1m, h2m, h1d, h2d, hH, hMi, hSs⟩ := hval
  have hyr' : 1000 ≤ dt.year ∧ dt.year ≤ 9999 := by
    rw [if_neg (by decide)] at hyr
    exact hyr
  have hd31 : dt.day ≤ 31 := le_trans h2d (daysInMonth_le _ _)
  rw [c4render20_eq]
  refine strptimeF_of_none _ _ ?_
  show runDirs (Dir.dd :: [Dir.lit '/', Dir.dm, Dir.lit '/', Dir.dy, Dir.lit ',', Dir.ws, Dir.dH, Dir.lit ':', Dir.dM]) {} _ = _
  rw [runDirs_dd_pad _ _ dt.day _ (by omega) (kill_lit _ '/' (by decide) _ _),
    if_pos (by omega),
    runDirs_lit_eq,
    runDirs_dm_pad _ _ dt.month _ (by omega) (kill_lit _ '/' (by decide) _ _),
    if_pos (by omega),
    runDirs_lit_eq,
    pad4_as_pad2,
    runDirs_dy_pad _ _ (dt.year / 100) _ (by omega),
    runDirs_lit_pad2 _ _ _ _ _ (by decide)]

theorem c4fail_4_20 (dt : DT) (h : Rep fmt20 dt) :
    strptimeF fmt4 (render fmt20 dt) = none := by
  obtain ⟨hval, hyr, hsec⟩ := h
  simp only [validPy] at hval
  obtain ⟨h1y, h2y, h1m, h2m, h1d, h2d, hH, hMi, hSs⟩ := hval
  have hyr' : 1000 ≤ dt.year ∧ dt.year ≤ 9999 := by
    rw [if_neg (by decide)] at hyr
    exact hyr
  have hd31 : dt.day ≤ 31 := le_trans h2d (daysInMonth_le _ _)
  rw [c4render20_eq]
  by_cases hc1 : 1 ≤ dt.day ∧ dt.day ≤ 12
  · by_cases hc2 : 1 ≤ dt.hour ∧ dt.hour ≤ 12
    · refine strptimeF_of_none _ _ ?_
      show runDirs (Dir.dm :: [Dir.lit '/', Dir.dd, Dir.lit '/', Dir.dY, Dir.ws, Dir.dI, Dir.lit ':', Dir.dM, Dir.ws, Dir.dp]) {} _ = _
      rw [runDirs_dm_pad _ _ dt.day _ (by omega) (kill_lit _ '/' (by decide) _ _),
        if_pos hc1,
        runDirs_lit_eq,
        runDirs_dd_pad _ _ dt.month _ (by omega) (kill_lit _ '/' (by decide) _ _),
        if_pos (by omega),
        runDirs_lit_eq,
        runDirs_dY_pad _ _ dt.year (by omega) _,
        runDirs_ws_single _ _ _ (wsCount_pad2 _ _),
        runDirs_dI_pad _ _ dt.hour _ (by omega) (kill_lit _ ':' (by decide) _ _),
        if_pos hc2,
        runDirs_lit_eq,
        runDirs_dM_pad _ _ dt.minute _ (by omega) (kill_ws _ _ _),
        if_pos (by omega),
        runDirs_ws_none _ _ _ _ (by decide)]
    · refine strptimeF_of_none _ _ ?_
      show runDirs (Dir.dm :: [Dir.lit '/', Dir.dd, Dir.lit '/', Dir.dY, Dir.ws, Dir.dI, Dir.lit ':', Dir.dM, Dir.ws, Dir.dp]) {} _ = _
      rw [runDirs_dm_pad _ _ dt.day _ (by omega) (kill_lit _ '/' (by decide) _ _),
        if_pos hc1,
        runDirs_lit_eq,
        runDirs_dd_pad _ _ dt.month _ (by omega) (kill_lit _ '/' (by decide) _ _),
        if_pos (by omega),
        runDirs_lit_eq,
        runDirs_dY_pad _ _ dt.year (by omega) _,
        runDirs_ws_single _ _ _ (wsCount_pad2 _ _),
        runDirs_dI_pad _ _ dt.hour _ (by omega) (kill_lit _ ':' (by decide) _ _),
        if_neg hc2]
  · refine strptimeF_of_none _ _ ?_
    show runDirs (Dir.dm :: [Dir.lit '/', Dir.dd, Dir.lit '/', Dir.dY, Dir.ws, Dir.dI, Dir.lit ':', Dir.dM, Dir.ws, Dir.dp]) {} _ = _
    rw [runDirs_dm_pad _ _ dt.day _ (by omega) (kill_lit _ '/' (by decide) _ _), if_neg hc1]

theorem c4fail_5_20 (dt : DT) (h : Rep fmt20 dt) :
    strptimeF fmt5 (render fmt20 dt) = none := by
  obtain ⟨hval, hyr, hsec⟩ := h
  simp only [validPy] at hval
  obtain ⟨h1y, h2y, h1m, h2m, h1d, h2d, hH, hMi, hSs⟩ := hval
  have hyr' : 1000 ≤ dt.year ∧ dt.year ≤ 9999 := by
    rw [if_neg (by decide)] at hyr
    exact hyr
  have hd31 : dt.day ≤ 31 := le_trans h2d (daysInMonth_le _ _)
  rw [c4render20_eq]
  by_cases hc1 : 1 ≤ dt.day ∧ dt.day ≤ 12
  · refine strptimeF_of_none _ _ ?_
    show runDirs (Dir.dm :: [Dir.lit '/', Dir.dd, Dir.lit '/', Dir.dY, Dir.lit ',', Dir.ws, Dir.dI, Dir.lit ':', Dir.dM, Dir.ws, Dir.dp]) {} _ = _
    rw [runDirs_dm_pad _ _ dt.day _ (by omega) (kill_lit _ '/' (by decide) _ _),
      if_pos hc1,
      runDirs_lit_eq,
      runDirs_dd_pad _ _ dt.month _ (by omega) (kill_lit _ '/' (by decide) _ _),
      if_pos (by omega),
      runDirs_lit_eq,
      runDirs_dY_pad _ _ dt.year (by omega) _,
      runDirs_lit_ne _ _ _ _ _ (by decide)]
  · refine strptimeF_of_none _ _ ?_
    show runDirs (Dir.dm :: [Dir.lit '/', Dir.dd, Dir.lit '/', Dir.dY, Dir.lit ',', Dir.ws, Dir.dI, Dir.lit ':', Dir.dM, Dir.ws, Dir.dp]) {} _ = _
    rw [runDirs_dm_pad _ _ dt.day _ (by omega) (kill_lit _ '/' (by decide) _ _), if_neg hc1]

theorem c4fail_6_20 (dt : DT) (h : Rep fmt20 dt) :
    strptimeF fmt6 (render fmt20 dt) = none := by
  obtain ⟨hval, hyr, hsec⟩ := h
  simp only [validPy] at hval
  obtain ⟨h1y, h2y, h1m, h2m, h1d, h2d, hH, hMi, hSs⟩ := hval
  have hyr' : 1000 ≤ dt.year ∧ dt.year ≤ 9999 := by
    rw [if_neg (by decide)] at hyr
    exact hyr
  have hd31 : dt.day ≤ 31 := le_trans h2d (daysInMonth_le _ _)
  rw [c4render20_eq]
  by_cases hc1 : 1 ≤ dt.day ∧ dt.day ≤ 12
  · refine strptimeF_of_none _ _ ?_
    show runDirs (Dir.dm :: [Dir.lit '/', Dir.dd, Dir.lit '/', Dir.dy, Dir.ws, Dir.dI, Dir.lit ':', Dir.dM, Dir.ws, Dir.dp]) {} _ = _
    rw [runDirs_dm_pad _ _ dt.day _ (by omega) (kill_lit _ '/' (by decide) _ _),
      if_pos hc1,
      runDirs_lit_eq,
      runDirs_dd_pad _ _ dt.month _ (by omega) (kill_lit _ '/' (by decide) _ _),
      if_pos (by omega),
      runDirs_lit_eq,
      pad4_as_pad2,
      runDirs_dy_pad _ _ (dt.year / 100) _ (by omega),
      runDirs_ws_pad2]
  · refine strptimeF_of_none _ _ ?_
    show runDirs (Dir.dm :: [Dir.lit '/', Dir.dd, Dir.lit '/', Dir.dy, Dir.ws, Dir.dI, Dir.lit ':', Dir.dM, Dir.ws, Dir.dp]) {} _ = _
    rw [runDirs_dm_pad _ _ dt.day _ (by omega) (kill_lit _ '/' (by decide) _ _), if_neg hc1]

theorem c4fail_7_20 (dt : DT) (h : Rep fmt20 dt) :
    strptimeF fmt7 (render fmt20 dt) = none := by
  obtain ⟨hval, hyr, hsec⟩ := h
  simp only [validPy] at hval
  obtain ⟨h1y, h2y, h1m, h2m, h1d, h2d, hH, hMi, hSs⟩ := hval
  have hyr' : 1000 ≤ dt.year ∧ dt.year ≤ 9999 := by
    rw [if_neg (by decide)] at hyr
    exact hyr
  have hd31 : dt.day ≤ 31 := le_trans h2d (daysInMonth_le _ _)
  rw [c4render20_eq]
  by_cases hc1 : 1 ≤ dt.day ∧ dt.day ≤ 12
  · refine strptimeF_of_none _ _ ?_
    show runDirs (Dir.dm :: [Dir.lit '/', Dir.dd, Dir.lit '/', Dir.dy, Dir.lit ',', Dir.ws, Dir.dI, Dir.lit ':', Dir.dM, Dir.ws, Dir.dp]) {} _ = _
    rw [runDirs_dm_pad _ _ dt.day _ (by omega) (kill_lit _ '/' (by decide) _ _),
      if_pos hc1,
      runDirs_lit_eq,
      runDirs_dd_pad _ _ dt.month _ (by omega) (kill_lit _ '/' (by decide) _ _),
      if_pos (by omega),
      runDirs_lit_eq,
      pad4_as_pad2,
      runDirs_dy_pad _ _ (dt.year / 100) _ (by omega),
      runDirs_lit_pad2 _ _ _ _ _ (by decide)]
  · refine strptimeF_of_none _ _ ?_
    show runDirs (Dir.dm :: [Dir.lit '/', Dir.dd, Dir.lit '/', Dir.dy, Dir.lit ',', Dir.ws, Dir.dI, Dir.lit ':', Dir.dM, Dir.ws, Dir.dp]) {} _ = _
    rw [runDirs_dm_pad _ _ dt.day _ (by omega) (kill_lit _ '/' (by decide) _ _), if_neg hc1]

theorem c4fail_8_20 (dt : DT) (h : Rep fmt20 dt) :
    strptimeF fmt8 (render fmt20 dt) = none := by
  obtain ⟨hval, hyr, hsec⟩ := h
  simp only [validPy] at hval
  obtain ⟨h1y, h2y, h1m, h2m, h1d, h2d, hH, hMi, hSs⟩ := hval
  have hyr' : 1000 ≤ dt.year ∧ dt.year ≤ 9999 := by
    rw [if_neg (by decide)] at hyr
    exact hyr
  have hd31 : dt.day ≤ 31 := le_trans h2d (daysInMonth_le _ _)
  rw [c4render20_eq]
  refine strptimeF_of_none _ _ ?_
  show runDirs (Dir.dY :: [Dir.lit '-', Dir.dm, Dir.lit '-', Dir.dd, Dir.ws, Dir.dH, Dir.lit ':', Dir.dM]) {} _ = _
  rw [runDirs_dY_pad2_sep _ _ _ _ _ (by decide)]

theorem c4fail_9_20 (dt : DT) (h : Rep fmt20 dt) :
    strptimeF fmt9 (render fmt20 dt) = none := by
  obtain ⟨hval, hyr, hsec⟩ := h
  simp only [validPy] at hval
  obtain ⟨h1y, h2y, h1m, h2m, h1d, h2d, hH, hMi, hSs⟩ := hval
  have hyr' : 1000 ≤ dt.year ∧ dt.year ≤ 9999 := by
    rw [if_neg (by decide)] at hyr
    exact hyr
  have hd31 : dt.day ≤ 31 := le_trans h2d (daysInMonth_le _ _)
  rw [c4render20_eq]
  refine strptimeF_of_none _ _ ?_
  show runDirs (Dir.dY :: [Dir.lit '-', Dir.dm, Dir.lit '-', Dir.dd, Dir.lit ',', Dir.ws, Dir.dH, Dir.lit ':', Dir.dM]) {} _ = _
  rw [runDirs_dY_pad2_sep _ _ _ _ _ (by decide)]

theorem c4fail_10_20 (dt : DT) (h : Rep fmt20 dt) :
    strptimeF fmt10 (render fmt20 dt) = none := by
  obtain ⟨hval, hyr, hsec⟩ := h
  simp only [validPy] at hval
  obtain ⟨h1y, h2y, h1m, h2m, h1d, h2d, hH, hMi, hSs⟩ := hval
  have hyr' : 1000 ≤ dt.year ∧ dt.year ≤ 9999 := by
    rw [if_neg (by decide)] at hyr
    exact hyr
  have hd31 : dt.day ≤ 31 := le_trans h2d (daysInMonth_le _ _)
  rw [c4render20_eq]
  refine strptimeF_of_none _ _ ?_
  show runDirs (Dir.dY :: [Dir.lit '/', Dir.dm, Dir.lit '/', Dir.dd, Dir.ws, Dir.dH, Dir.lit ':', Dir.dM]) {} _ = _
  rw [runDirs_dY_pad2_sep _ _ _ _ _ (by decide)]

theorem c4fail_11_20 (dt : DT) (h : Rep fmt20 dt) :
    strptimeF fmt11 (render fmt20 dt) = none := by
  obtain ⟨hval, hyr, hsec⟩ := h
  simp only [validPy] at hval
  obtain ⟨h1y, h2y, h1m, h2m, h1d, h2d, hH, hMi, hSs⟩ := hval
  have hyr' : 1000 ≤ dt.year ∧ dt.year ≤ 9999 := by
    rw [if_neg (by decide)] at hyr
    exact hyr
  have hd31 : dt.day ≤ 31 := le_trans h2d (daysInMonth_le _ _)
  rw [c4render20_eq]
  refine strptimeF_of_none _ _ ?_
  show runDirs (Dir.dY :: [Dir.lit '/', Dir.dm, Dir.lit '/', Dir.dd, Dir.lit ',', Dir.ws, Dir.dH, Dir.lit ':', Dir.dM]) {} _ = _
  rw [runDirs_dY_pad2_sep _ _ _ _ _ (by decide)]

theorem c4fail_12_20 (dt : DT) (h : Rep fmt20 dt) :
    strptimeF fmt12 (render fmt20 dt) = none := by
  obtain ⟨hval, hyr, hsec⟩ := h
  simp only [validPy] at hval
  obtain ⟨h1y, h2y, h1m, h2m, h1d, h2d, hH, hMi, hSs⟩ := hval
  have hyr' : 1000 ≤ dt.year ∧ dt.year ≤ 9999 := by
    rw [if_neg (by decide)] at hyr
    exact hyr
  have hd31 : dt.day ≤ 31 := le_trans h2d (daysInMonth_le _ _)
  rw [c4render20_eq]
  refine strptimeF_of_none _ _ ?_
  show runDirs (Dir.dd :: [Dir.lit '.', Dir.dm, Dir.lit '.', Dir.dY, Dir.ws, Dir.dH, Dir.lit ':', Dir.dM]) {} _ = _
  rw [runDirs_dd_pad _ _ dt.day _ (by omega) (kill_lit _ '.' (by decide) _ _),
    if_pos (by omega),
    runDirs_lit_ne _ _ _ _ _ (by decide)]

theorem c4fail_13_20 (dt : DT) (h : Rep fmt20 dt) :
    strptimeF fmt13 (render fmt20 dt) = none := by
  obtain ⟨hval, hyr, hsec⟩ := h
  simp only [validPy] at hval
  obtain ⟨h1y, h2y, h1m, h2m, h1d, h2d, hH, hMi, hSs⟩ := hval
  have hyr' : 1000 ≤ dt.year ∧ dt.year ≤ 9999 := by
    rw [if_neg (by decide)] at hyr
    exact hyr
  have hd31 : dt.day ≤ 31 := le_trans h2d (daysInMonth_le _ _)
  rw [c4render20_eq]
  refine strptimeF_of_none _ _ ?_
  show runDirs (Dir.dd :: [Dir.lit '.', Dir.dm, Dir.lit '.', Dir.dY, Dir.lit ',', Dir.ws, Dir.dH, Dir.lit ':', Dir.dM]) {} _ = _
  rw [runDirs_dd_pad _ _ dt.day _ (by omega) (kill_lit _ '.' (by decide) _ _),
    if_pos (by omega),
    runDirs_lit_ne _ _ _ _ _ (by decide)]

theorem c4fail_14_20 (dt : DT) (h : Rep fmt20 dt) :
    strptimeF fmt14 (render fmt20 dt) = none := by
  obtain ⟨hval, hyr, hsec⟩ := h
  simp only [validPy] at hval
  obtain ⟨h1y, h2y, h1m, h2m, h1d, h2d, hH, hMi, hSs⟩ := hval
  have hyr' : 1000 ≤ dt.year ∧ dt.year ≤ 9999 := by
    rw [if_neg (by decide)] at hyr
    exact hyr
  have hd31 : dt.day ≤ 31 := le_trans h2d (daysInMonth_le _ _)
  rw [c4render20_eq]
  refine strptimeF_of_none _ _ ?_
  show runDirs (Dir.dd :: [Dir.lit '.', Dir.dm, Dir.lit '.', Dir.dy, Dir.ws, Dir.dH, Dir.lit ':', Dir.dM]) {} _ = _
  rw [runDirs_dd_pad _ _ dt.day _ (by omega) (kill_lit _ '.' (by decide) _ _),
    if_pos (by omega),
    runDirs_lit_ne _ _ _ _ _ (by decide)]

theorem c4fail_15_20 (dt : DT) (h : Rep fmt20 dt) :
    strptimeF fmt15 (render fmt20 dt) = none := by
  obtain ⟨hval, hyr, hsec⟩ := h
  simp only [validPy] at hval
  obtain ⟨h1y, h2y, h1m, h2m, h1d, h2d, hH, hMi, hSs⟩ := hval
  have hyr' : 1000 ≤ dt.year ∧ dt.year ≤ 9999 := by
    rw [if_neg (by decide)] at hyr
    exact hyr
  have hd31 : dt.day ≤ 31 := le_trans h2d (daysInMonth_le _ _)
  rw [c4render20_eq]
  refine strptimeF_of_none _ _ ?_
  show runDirs (Dir.dd :: [Dir.lit '.', Dir.dm, Dir.lit '.', Dir.dy, Dir.lit ',', Dir.ws, Dir.dH, Dir.lit ':', Dir.dM]) {} _ = _
  rw [runDirs_dd_pad _ _ dt.day _ (by omega) (kill_lit _ '.' (by decide) _ _),
    if_pos (by omega),
    runDirs_lit_ne _ _ _ _ _ (by decide)]

theorem c4fail_16_20 (dt : DT) (h : Rep fmt20 dt) :
    strptimeF fmt16 (render fmt20 dt) = none := by
  obtain ⟨hval, hyr, hsec⟩ := h
  simp only [validPy] at hval
  obtain ⟨h1y, h2y, h1m, h2m, h1d, h2d, hH, hMi, hSs⟩ := hval
  have hyr' : 1000 ≤ dt.year ∧ dt.year ≤ 9999 := by
    rw [if_neg (by decide)] at hyr
    exact hyr
  have hd31 : dt.day ≤ 31 := le_trans h2d (daysInMonth_le _ _)
  rw [c4render20_eq]
  refine strptimeF_of_none _ _ ?_
  show runDirs (Dir.dd :: [Dir.lit '-', Dir.dm, Dir.lit '-', Dir.dY, Dir.ws, Dir.dH, Dir.lit ':', Dir.dM]) {} _ = _
  rw [runDirs_dd_pad _ _ dt.day _ (by omega) (kill_lit _ '-' (by decide) _ _),
    if_pos (by omega),
    runDirs_lit_ne _ _ _ _ _ (by decide)]

theorem c4fail_17_20 (dt : DT) (h : Rep fmt20 dt) :
    strptimeF fmt17 (render fmt20 dt) = none := by
  obtain ⟨hval, hyr, hsec⟩ := h
  simp only [validPy] at hval
  obtain ⟨h1y, h2y, h1m, h2m, h1d, h2d, hH, hMi, hSs⟩ := hval
  have hyr' : 1000 ≤ dt.year ∧ dt.year ≤ 9999 := by
    rw [if_neg (by decide)] at hyr
    exact hyr
  have hd31 : dt.day ≤ 31 := le_trans h2d (daysInMonth_le _ _)
  rw [c4render20_eq]
  refine strptimeF_of_none _ _ ?_
  show runDirs (Dir.dd :: [Dir.lit '-', Dir.dm, Dir.lit '-', Dir.dY, Dir.lit ',', Dir.ws, Dir.dH, Dir.lit ':', Dir.dM]) {} _ = _
  rw [runDirs_dd_pad _ _ dt.day _ (by omega) (kill_lit _ '-' (by decide) _ _),
    if_pos (by omega),
    runDirs_lit_ne _ _ _ _ _ (by decide)]

theorem c4fail_18_20 (dt : DT) (h : Rep fmt20 dt) :
    strptimeF fmt18 (render fmt20 dt) = none := by
  obtain ⟨hval, hyr, hsec⟩ := h
  simp only [validPy] at hval
  obtain ⟨h1y, h2y, h1m, h2m, h1d, h2d, hH, hMi, hSs⟩ := hval
  have hyr' : 1000 ≤ dt.year ∧ dt.year ≤ 9999 := by
    rw [if_neg (by decide)] at hyr
    exact hyr
  have hd31 : dt.day ≤ 31 := le_trans h2d (daysInMonth_le _ _)
  rw [c4render20_eq]
  refine strptimeF_of_none _ _ ?_
  show runDirs (Dir.dd :: [Dir.lit '-', Dir.dm, Dir.lit '-', Dir.dy, Dir.ws, Dir.dH, Dir.lit ':', Dir.dM]) {} _ = _
  rw [runDirs_dd_pad _ _ dt.day _ (by omega) (kill_lit _ '-' (by decide) _ _),
    if_pos (by omega),
    runDirs_lit_ne _ _ _ _ _ (by decide)]

theorem c4fail_19_20 (dt : DT) (h : Rep fmt20 dt) :
    strptimeF fmt19 (render fmt20 dt) = none := by
  obtain ⟨hval, hyr, hsec⟩ := h
  simp only [validPy] at hval
  obtain ⟨h1y, h2y, h1m, h2m, h1d, h2d, hH, hMi, hSs⟩ := hval
  have hyr' : 1000 ≤ dt.year ∧ dt.year ≤ 9999 := by
    rw [if_neg (by decide)] at hyr
    exact hyr
  have hd31 : dt.day ≤ 31 := le_trans h2d (daysInMonth_le _ _)
  rw [c4render20_eq]
  refine strptimeF_of_none _ _ ?_
  show runDirs (Dir.dd :: [Dir.lit '-', Dir.dm, Dir.lit '-', Dir.dy, Dir.lit ',', Dir.ws, Dir.dH, Dir.lit ':', Dir.dM]) {} _ = _
  rw [runDirs_dd_pad _ _ dt.day _ (by omega) (kill_lit _ '-' (by decide) _ _),
    if_pos (by omega),
    runDirs_lit_ne _ _ _ _ _ (by decide)]

theorem c4rt20 (dt : DT) (h : Rep fmt20 dt) :
    parseTimestampCore (render fmt20 dt) = some dt := by
  rw [parseTimestampCore_eq, c4trim20]
  simp only [formats]
  rw [tryFormats_cons_none _ _ _ (c4fail_0_20 dt h),
    tryFormats_cons_none _ _ _ (c4fail_1_20 dt h),
    tryFormats_cons_none _ _ _ (c4fail_2_20 dt h),
    tryFormats_cons_none _ _ _ (c4fail_3_20 dt h),
    tryFormats_cons_none _ _ _ (c4fail_4_20 dt h),
    tryFormats_cons_none _ _ _ (c4fail_5_20 dt h),
    tryFormats_cons_none _ _ _ (c4fail_6_20 dt h),
    tryFormats_cons_none _ _ _ (c4fail_7_20 dt h),
    tryFormats_cons_none _ _ _ (c4fail_8_20 dt h),
    tryFormats_cons_none _ _ _ (c4fail_9_20 dt h),
    tryFormats_cons_none _ _ _ (c4fail_10_20 dt h),
    tryFormats_cons_none _ _ _ (c4fail_11_20 dt h),
    tryFormats_cons_none _ _ _ (c4fail_12_20 dt h),
    tryFormats_cons_none _ _ _ (c4fail_13_20 dt h),
    tryFormats_cons_none _ _ _ (c4fail_14_20 dt h),
    tryFormats_cons_none _ _ _ (c4fail_15_20 dt h),
    tryFormats_cons_none _ _ _ (c4fail_16_20 dt h),
    tryFormats_cons_none _ _ _ (c4fail_17_20 dt h),
    tryFormats_cons_none _ _ _ (c4fail_18_20 dt h),
    tryFormats_cons_none _ _ _ (c4fail_19_20 dt h),
    tryFormats_cons_some _ _ _ _ (c4self20 dt h)]

theorem c4render21_eq (dt : DT) :
    render fmt21 dt
      = pad2 dt.day ++ ('/' :: (pad2 dt.month ++ ('/' :: (pad4 dt.year ++ (',' :: (' ' :: (pad2 dt.hour ++ (':' :: (pad2 dt.minute ++ (':' :: (pad2 dt.second ++ ([])))))))))))) := rfl


theorem c4trim21 (dt : DT) : trimChars (render fmt21 dt) = render fmt21 dt := by
  apply trimChars_of_hl
  · rw [c4render21_eq]
    simp only [pad2_eq, pad4_eq, List.cons_append, List.nil_append]
    exact ⟨_, _, rfl, not_ws_digitChar _⟩
  · rw [c4render21_eq]
    simp only [ampm_cons, pad2_eq, pad4_eq, List.reverse_cons, List.reverse_append,
      List.append_assoc, List.cons_append, List.nil_append, List.reverse_nil,
      List.append_nil]
    exact ⟨_, _, rfl, not_ws_digitChar _⟩

theorem c4self21 (dt : DT) (h : Rep fmt21 dt) :
    strptimeF fmt21 (render fmt21 dt) = some dt := by
  obtain ⟨hval, hyr, hsec⟩ := h
  simp only [validPy] at hval
  obtain ⟨h1y, h2y, h1m, h2m, h1d, h2d, hH, hMi, hSs⟩ := hval
  have hyr' : 1000 ≤ dt.year ∧ dt.year ≤ 9999 := by
    rw [if_neg (by decide)] at hyr
    exact hyr
  have hd31 : dt.day ≤ 31 := le_trans h2d (daysInMonth_le _ _)
  rw [c4render21_eq]
  have hrun : runDirs fmt21 {} (pad2 dt.day ++ ('/' :: (pad2 dt.month ++ ('/' :: (pad4 dt.year ++ (',' :: (' ' :: (pad2 dt.hour ++ (':' :: (pad2 dt.minute ++ (':' :: (pad2 dt.second ++ ([])))))))))))))
      = some (⟨some dt.day, some dt.month, none, some dt.year, some dt.hour, none, some dt.minute, some dt.second, none⟩, []) := by
    show runDirs (Dir.dd :: [Dir.lit '/', Dir.dm, Dir.lit '/', Dir.dY, Dir.lit ',', Dir.ws, Dir.dH, Dir.lit ':', Dir.dM, Dir.lit ':', Dir.dS]) {} _ = _
    rw [runDirs_dd_pad _ _ dt.day _ (by omega) (kill_lit _ '/' (by decide) _ _),
      if_pos (by omega),
      runDirs_lit_eq,
      runDirs_dm_pad _ _ dt.month _ (by omega) (kill_lit _ '/' (by decide) _ _),
      if_pos (by omega),
      runDirs_lit_eq,
      runDirs_dY_pad _ _ dt.year (by omega) _,
      runDirs_lit_eq,
      runDirs_ws_single _ _ _ (wsCount_pad2 _ _),
      runDirs_dH_pad _ _ dt.hour _ (by omega) (kill_lit _ ':' (by decide) _ _),
      if_pos (by omega),
      runDirs_lit_eq,
      runDirs_dM_pad _ _ dt.minute _ (by omega) (kill_lit _ ':' (by decide) _ _),
      if_pos (by omega),
      runDirs_lit_eq,
      runDirs_dS_last _ dt.second _ (by omega) (by omega)]
  rw [strptimeF_of_done _ _ _ hrun]
  unfold buildDT
  dsimp only
  simp only [Option.getD_some, Option.getD_none]
  rw [mkDT, if_pos (by omega)]

theorem c4fail_0_21 (dt : DT) (h : Rep fmt21 dt) :
    strptimeF fmt0 (render fmt21 dt) = none := by
  obtain ⟨hval, hyr, hsec⟩ := h
  simp only [validPy] at hval
  obtain ⟨h1y, h2y, h1m, h2m, h1d, h2d, hH, hMi, hSs⟩ := hval
  have hyr' : 1000 ≤ dt.year ∧ dt.year ≤ 9999 := by
    rw [if_neg (by decide)] at hyr
    exact hyr
  have hd31 : dt.day ≤ 31 := le_trans h2d (daysInMonth_le _ _)
  rw [c4render21_eq]
  refine strptimeF_of_none _ _ ?_
  show runDirs (Dir.dd :: [Dir.lit '/', Dir.dm, Dir.lit '/', Dir.dY, Dir.ws, Dir.dH, Dir.lit ':', Dir.dM]) {} _ = _
  rw [runDirs_dd_pad _ _ dt.day _ (by omega) (kill_lit _ '/' (by decide) _ _),
    if_pos (by omega),
    runDirs_lit_eq,
    runDirs_dm_pad _ _ dt.month _ (by omega) (kill_lit _ '/' (by decide) _ _),
    if_pos (by omega),
    runDirs_lit_eq,
    runDirs_dY_pad _ _ dt.year (by omega) _,
    runDirs_ws_none _ _ _ _ (by decide)]

theorem c4fail_1_21 (dt : DT) (h : Rep fmt21 dt) :
    strptimeF fmt1 (render fmt21 dt) = none := by
  obtain ⟨hval, hyr, hsec⟩ := h
  simp only [validPy] at hval
  obtain ⟨h1y, h2y, h1m, h2m, h1d, h2d, hH, hMi, hSs⟩ := hval
  have hyr' : 1000 ≤ dt.year ∧ dt.year ≤ 9999 := by
    rw [if_neg (by decide)] at hyr
    exact hyr
  have hd31 : dt.day ≤ 31 := le_trans h2d (daysInMonth_le _ _)
  rw [c4render21_eq]
  refine strptimeF_of_rest_ne _ _ (⟨some dt.day, some dt.month, none, some dt.year, some dt.hour, none, some dt.minute, none, none⟩)
    (':' :: (pad2 dt.second ++ ([]))) ?_ ?_
  · show runDirs (Dir.dd :: [Dir.lit '/', Dir.dm, Dir.lit '/', Dir.dY, Dir.lit ',', Dir.ws, Dir.dH, Dir.lit ':', Dir.dM]) {} _ = _
    rw [runDirs_dd_pad _ _ dt.day _ (by omega) (kill_lit _ '/' (by decide) _ _),
      if_pos (by omega),
      runDirs_lit_eq,
      runDirs_dm_pad _ _ dt.month _ (by omega) (kill_lit _ '/' (by decide) _ _),
      if_pos (by omega),
      runDirs_lit_eq,
      runDirs_dY_pad _ _ dt.year (by omega) _,
      runDirs_lit_eq,
      runDirs_ws_single _ _ _ (wsCount_pad2 _ _),
      runDirs_dH_pad _ _ dt.hour _ (by omega) (kill_lit _ ':' (by decide) _ _),
      if_pos (by omega),
      runDirs_lit_eq,
      runDirs_dM_last _ dt.minute _ (by omega) (by omega)]
  · exact by simp [ampm_cons, pad2_eq, pad4_eq]

theorem c4fail_2_21 (dt : DT) (h : Rep fmt21 dt) :
    strptimeF fmt2 (render fmt21 dt) = none := by
  obtain ⟨hval, hyr, hsec⟩ := h
  simp only [validPy] at hval
  obtain ⟨h1y, h2y, h1m, h2m, h1d, h2d, hH, hMi, hSs⟩ := hval
  have hyr' : 1000 ≤ dt.year ∧ dt.year ≤ 9999 := by
    rw [if_neg (by decide)] at hyr
    exact hyr
  have hd31 : dt.day ≤ 31 := le_trans h2d (daysInMonth_le _ _)
  rw [c4render21_eq]
  refine strptimeF_of_none _ _ ?_
  show runDirs (Dir.dd :: [Dir.lit '/', Dir.dm, Dir.lit '/', Dir.dy, Dir.ws, Dir.dH, Dir.lit ':', Dir.dM]) {} _ = _
  rw [runDirs_dd_pad _ _ dt.day _ (by omega) (kill_lit _ '/' (by decide) _ _),
    if_pos (by omega),
    runDirs_lit_eq,
    runDirs_dm_pad _ _ dt.month _ (by omega) (kill_lit _ '/' (by decide) _ _),
    if_pos (by omega),
    runDirs_lit_eq,
    pad4_as_pad2,
    runDirs_dy_pad _ _ (dt.year / 100) _ (by omega),
    runDirs_ws_pad2]

theorem c4fail_3_21 (dt : DT) (h : Rep fmt21 dt) :
    strptimeF fmt3 (render fmt21 dt) = none := by
  obtain ⟨hval, hyr, hsec⟩ := h
  simp only [validPy] at hval
  obtain ⟨h1y, h2y, h1m, h2m, h1d, h2d, hH, hMi, hSs⟩ := hval
  have hyr' : 1000 ≤ dt.year ∧ dt.year ≤ 9999 := by
    rw [if_neg (by decide)] at hyr
    exact hyr
  have hd31 : dt.day ≤ 31 := le_trans h2d (daysInMonth_le _ _)
  rw [c4render21_eq]
  refine strptimeF_of_none _ _ ?_
  show runDirs (Dir.dd :: [Dir.lit '/', Dir.dm, Dir.lit '/', Dir.dy, Dir.lit ',', Dir.ws, Dir.dH, Dir.lit ':', Dir.dM]) {} _ = _
  rw [runDirs_dd_pad _ _ dt.day _ (by omega) (kill_lit _ '/' (by decide) _ _),
    if_pos (by omega),
    runDirs_lit_eq,
    runDirs_dm_pad _ _ dt.month _ (by omega) (kill_lit _ '/' (by decide) _ _),
    if_pos (by omega),
    runDirs_lit_eq,
    pad4_as_pad2,
    runDirs_dy_pad _ _ (dt.year / 100) _ (by omega),
    runDirs_lit_pad2 _ _ _ _ _ (by decide)]

theorem c4fail_4_21 (dt : DT) (h : Rep fmt21 dt) :
    strptimeF fmt4 (render fmt21 dt) = none := by
  obtain ⟨hval, hyr, hsec⟩ := h
  simp only [validPy] at hval
  obtain ⟨h1y, h2y, h1m, h2m, h1d, h2d, hH, hMi, hSs⟩ := hval
  have hyr' : 1000 ≤ dt.year ∧ dt.year ≤ 9999 := by
    rw [if_neg (by decide)] at hyr
    exact hyr
  have hd31 : dt.day ≤ 31 := le_trans h2d (daysInMonth_le _ _)
  rw [c4render21_eq]
  by_cases hc1 : 1 ≤ dt.day ∧ dt.day ≤ 12
  · refine strptimeF_of_none _ _ ?_
    show runDirs (Dir.dm :: [Dir.lit '/', Dir.dd, Dir.lit '/', Dir.dY, Dir.ws, Dir.dI, Dir.lit ':', Dir.dM, Dir.ws, Dir.dp]) {} _ = _
    rw [runDirs_dm_pad _ _ dt.day _ (by omega) (kill_lit _ '/' (by decide) _ _),
      if_pos hc1,
      runDirs_lit_eq,
      runDirs_dd_pad _ _ dt.month _ (by omega) (kill_lit _ '/' (by decide) _ _),
      if_pos (by omega),
      runDirs_lit_eq,
      runDirs_dY_pad _ _ dt.year (by omega) _,
      runDirs_ws_none _ _ _ _ (by decide)]
  · refine strptimeF_of_none _ _ ?_
    show runDirs (Dir.dm :: [Dir.lit '/', Dir.dd, Dir.lit '/', Dir.dY, Dir.ws, Dir.dI, Dir.lit ':', Dir.dM, Dir.ws, Dir.dp]) {} _ = _
    rw [runDirs_dm_pad _ _ dt.day _ (by omega) (kill_lit _ '/' (by decide) _ _), if_neg hc1]

theorem c4fail_5_21 (dt : DT) (h : Rep fmt21 dt) :
    strptimeF fmt5 (render fmt21 dt) = none := by
  obtain ⟨hval, hyr, hsec⟩ := h
  simp only [validPy] at hval
  obtain ⟨h1y, h2y, h1m, h2m, h1d, h2d, hH, hMi, hSs⟩ := hval
  have hyr' : 1000 ≤ dt.year ∧ dt.year ≤ 9999 := by
    rw [if_neg (by decide)] at hyr
    exact hyr
  have hd31 : dt.day ≤ 31 := le_trans h2d (daysInMonth_le _ _)
  rw [c4render21_eq]
  by_cases hc1 : 1 ≤ dt.day ∧ dt.day ≤ 12
  · by_cases hc2 : 1 ≤ dt.hour ∧ dt.hour ≤ 12
    · refine strptimeF_of_none _ _ ?_
      show runDirs (Dir.dm :: [Dir.lit '/', Dir.dd, Dir.lit '/', Dir.dY, Dir.lit ',', Dir.ws, Dir.dI, Dir.lit ':', Dir.dM, Dir.ws, Dir.dp]) {} _ = _
      rw [runDirs_dm_pad _ _ dt.day _ (by omega) (kill_lit _ '/' (by decide) _ _),
        if_pos hc1,
        runDirs_lit_eq,
        runDirs_dd_pad _ _ dt.month _ (by omega) (kill_lit _ '/' (by decide) _ _),
        if_pos (by omega),
        runDirs_lit_eq,
        runDirs_dY_pad _ _ dt.year (by omega) _,
        runDirs_lit_eq,
        runDirs_ws_single _ _ _ (wsCount_pad2 _ _),
        runDirs_dI_pad _ _ dt.hour _ (by omega) (kill_lit _ ':' (by decide) _ _),
        if_pos hc2,
        runDirs_lit_eq,
        runDirs_dM_pad _ _ dt.minute _ (by omega) (kill_ws _ _ _),
        if_pos (by omega),
        runDirs_ws_none _ _ _ _ (by decide)]
    · refine strptimeF_of_none _ _ ?_
      show runDirs (Dir.dm :: [Dir.lit '/', Dir.dd, Dir.lit '/', Dir.dY, Dir.lit ',', Dir.ws, Dir.dI, Dir.lit ':', Dir.dM, Dir.ws, Dir.dp]) {} _ = _
      rw [runDirs_dm_pad _ _ dt.day _ (by omega) (kill_lit _ '/' (by decide) _ _),
        if_pos hc1,
        runDirs_lit_eq,
        runDirs_dd_pad _ _ dt.month _ (by omega) (kill_lit _ '/' (by decide) _ _),
        if_pos (by omega),
        runDirs_lit_eq,
        runDirs_dY_pad _ _ dt.year (by omega) _,
        runDirs_lit_eq,
        runDirs_ws_single _ _ _ (wsCount_pad2 _ _),
        runDirs_dI_pad _ _ dt.hour _ (by omega) (kill_lit _ ':' (by decide) _ _),
        if_neg hc2]
  · refine strptimeF_of_none _ _ ?_
    show runDirs (Dir.dm :: [Dir.lit '/', Dir.dd, Dir.lit '/', Dir.dY, Dir.lit ',', Dir.ws, Dir.dI, Dir.lit ':', Dir.dM, Dir.ws, Dir.dp]) {} _ = _
    rw [runDirs_dm_pad _ _ dt.day _ (by omega) (kill_lit _ '/' (by decide) _ _), if_neg hc1]

theorem c4fail_6_21 (dt : DT) (h : Rep fmt21 dt) :
    strptimeF fmt6 (render fmt21 dt) = none := by
  obtain ⟨hval, hyr, hsec⟩ := h
  simp only [validPy] at hval
  obtain ⟨h1y, h2y, h1m, h2m, h1d, h2d, hH, hMi, hSs⟩ := hval
  have hyr' : 1000 ≤ dt.year ∧ dt.year ≤ 9999 := by
    rw [if_neg (by decide)] at hyr
    exact hyr
  have hd31 : dt.day ≤ 31 := le_trans h2d (daysInMonth_le _ _)
  rw [c4render21_eq]
  by_cases hc1 : 1 ≤ dt.day ∧ dt.day ≤ 12
  · refine strptimeF_of_none _ _ ?_
    show runDirs (Dir.dm :: [Dir.lit '/', Dir.dd, Dir.lit '/', Dir.dy, Dir.ws, Dir.dI, Dir.lit ':', Dir.dM, Dir.ws, Dir.dp]) {} _ = _
    rw [runDirs_dm_pad _ _ dt.day _ (by omega) (kill_lit _ '/' (by decide) _ _),
      if_pos hc1,
      runDirs_lit_eq,
      runDirs_dd_pad _ _ dt.month _ (by omega) (kill_lit _ '/' (by decide) _ _),
      if_pos (by omega),
      runDirs_lit_eq,
      pad4_as_pad2,
      runDirs_dy_pad _ _ (dt.year / 100) _ (by omega),
      runDirs_ws_pad2]
  · refine strptimeF_of_none _ _ ?_
    show runDirs (Dir.dm :: [Dir.lit '/', Dir.dd, Dir.lit '/', Dir.dy, Dir.ws, Dir.dI, Dir.lit ':', Dir.dM, Dir.ws, Dir.dp]) {} _ = _
    rw [runDirs_dm_pad _ _ dt.day _ (by omega) (kill_lit _ '/' (by decide) _ _), if_neg hc1]

theorem c4fail_7_21 (dt : DT) (h : Rep fmt21 dt) :
    strptimeF fmt7 (render fmt21 dt) = none := by
  obtain ⟨hval, hyr, hsec⟩ := h
  simp only [validPy] at hval
  obtain ⟨h1y, h2y, h1m, h2m, h1d, h2d, hH, hMi, hSs⟩ := hval
  have hyr' : 1000 ≤ dt.year ∧ dt.year ≤ 9999 := by
    rw [if_neg (by decide)] at hyr
    exact hyr
  have hd31 : dt.day ≤ 31 := le_trans h2d (daysInMonth_le _ _)
  rw [c4render21_eq]
  by_cases hc1 : 1 ≤ dt.day ∧ dt.day ≤ 12
  · refine strptimeF_of_none _ _ ?_
    show runDirs (Dir.dm :: [Dir.lit '/', Dir.dd, Dir.lit '/', Dir.dy, Dir.lit ',', Dir.ws, Dir.dI, Dir.lit ':', Dir.dM, Dir.ws, Dir.dp]) {} _ = _
    rw [runDirs_dm_pad _ _ dt.day _ (by omega) (kill_lit _ '/' (by decide) _ _),
      if_pos hc1,
      runDirs_lit_eq,
      runDirs_dd_pad _ _ dt.month _ (by omega) (kill_lit _ '/' (by decide) _ _),
      if_pos (by omega),
      runDirs_lit_eq,
      pad4_as_pad2,
      runDirs_dy_pad _ _ (dt.year / 100) _ (by omega),
      runDirs_lit_pad2 _ _ _ _ _ (by decide)]
  · refine strptimeF_of_none _ _ ?_
    show runDirs (Dir.dm :: [Dir.lit '/', Dir.dd, Dir.lit '/', Dir.dy, Dir.lit ',', Dir.ws, Dir.dI, Dir.lit ':', Dir.dM, Dir.ws, Dir.dp]) {} _ = _
    rw [runDirs_dm_pad _ _ dt.day _ (by omega) (kill_lit _ '/' (by decide) _ _), if_neg hc1]

theorem c4fail_8_21 (dt : DT) (h : Rep fmt21 dt) :
    strptimeF fmt8 (render fmt21 dt) = none := by
  obtain ⟨hval, hyr, hsec⟩ := h
  simp only [validPy] at hval
  obtain ⟨h1y, h2y, h1m, h2m, h1d, h2d, hH, hMi, hSs⟩ := hval
  have hyr' : 1000 ≤ dt.year ∧ dt.year ≤ 9999 := by
    rw [if_neg (by decide)] at hyr
    exact hyr
  have hd31 : dt.day ≤ 31 := le_trans h2d (daysInMonth_le _ _)
  rw [c4render21_eq]
  refine strptimeF_of_none _ _ ?_
  show runDirs (Dir.dY :: [Dir.lit '-', Dir.dm, Dir.lit '-', Dir.dd, Dir.ws, Dir.dH, Dir.lit ':', Dir.dM]) {} _ = _
  rw [runDirs_dY_pad2_sep _ _ _ _ _ (by decide)]

theorem c4fail_9_21 (dt : DT) (h : Rep fmt21 dt) :
    strptimeF fmt9 (render fmt21 dt) = none := by
  obtain ⟨hval, hyr, hsec⟩ := h
  simp only [validPy] at hval
  obtain ⟨h1y, h2y, h1m, h2m, h1d, h2d, hH, hMi, hSs⟩ := hval
  have hyr' : 1000 ≤ dt.year ∧ dt.year ≤ 9999 := by
    rw [if_neg (by decide)] at hyr
    exact hyr
  have hd31 : dt.day ≤ 31 := le_trans h2d (daysInMonth_le _ _)
  rw [c4render21_eq]
  refine strptimeF_of_none _ _ ?_
  show runDirs (Dir.dY :: [Dir.lit '-', Dir.dm, Dir.lit '-', Dir.dd, Dir.lit ',', Dir.ws, Dir.dH, Dir.lit ':', Dir.dM]) {} _ = _
  rw [runDirs_dY_pad2_sep _ _ _ _ _ (by decide)]

theorem c4fail_10_21 (dt : DT) (h : Rep fmt21 dt) :
    strptimeF fmt10 (render fmt21 dt) = none := by
  obtain ⟨hval, hyr, hsec⟩ := h
  simp only [validPy] at hval
  obtain ⟨h1y, h2y, h1m, h2m, h1d, h2d, hH, hMi, hSs⟩ := hval
  have hyr' : 1000 ≤ dt.year ∧ dt.year ≤ 9999 := by
    rw [if_neg (by decide)] at hyr
    exact hyr
  have hd31 : dt.day ≤ 31 := le_trans h2d (daysInMonth_le _ _)
  rw [c4render21_eq]
  refine strptimeF_of_none _ _ ?_
  show runDirs (Dir.dY :: [Dir.lit '/', Dir.dm, Dir.lit '/', Dir.dd, Dir.ws, Dir.dH, Dir.lit ':', Dir.dM]) {} _ = _
  rw [runDirs_dY_pad2_sep _ _ _ _ _ (by decide)]

theorem c4fail_11_21 (dt : DT) (h : Rep fmt21 dt) :
    strptimeF fmt11 (render fmt21 dt) = none := by
  obtain ⟨hval, hyr, hsec⟩ := h
  simp only [validPy] at hval
  obtain ⟨h1y, h2y, h1m, h2m, h1d, h2d, hH, hMi, hSs⟩ := hval
  have hyr' : 1000 ≤ dt.year ∧ dt.year ≤ 9999 := by
    rw [if_neg (by decide)] at hyr
    exact hyr
  have hd31 : dt.day ≤ 31 := le_trans h2d (daysInMonth_le _ _)
  rw [c4render21_eq]
  refine strptimeF_of_none _ _ ?_
  show runDirs (Dir.dY :: [Dir.lit '/', Dir.dm, Dir.lit '/', Dir.dd, Dir.lit ',', Dir.ws, Dir.dH, Dir.lit ':', Dir.dM]) {} _ = _
  rw [runDirs_dY_pad2_sep _ _ _ _ _ (by decide)]

theorem c4fail_12_21 (dt : DT) (h : Rep fmt21 dt) :
    strptimeF fmt12 (render fmt21 dt) = none := by
  obtain ⟨hval, hyr, hsec⟩ := h
  simp only [validPy] at hval
  obtain ⟨h1y, h2y, h1m, h2m, h1d, h2d, hH, hMi, hSs⟩ := hval
  have hyr' : 1000 ≤ dt.year ∧ dt.year ≤ 9999 := by
    rw [if_neg (by decide)] at hyr
    exact hyr
  have hd31 : dt.day ≤ 31 := le_trans h2d (daysInMonth_le _ _)
  rw [c4render21_eq]
  refine strptimeF_of_none _ _ ?_
  show runDirs (Dir.dd :: [Dir.lit '.', Dir.dm, Dir.lit '.', Dir.dY, Dir.ws, Dir.dH, Dir.lit ':', Dir.dM]) {} _ = _
  rw [runDirs_dd_pad _ _ dt.day _ (by omega) (kill_lit _ '.' (by decide) _ _),
    if_pos (by omega),
    runDirs_lit_ne _ _ _ _ _ (by decide)]

theorem c4fail_13_21 (dt : DT) (h : Rep fmt21 dt) :
    strptimeF fmt13 (render fmt21 dt) = none := by
  obtain ⟨hval, hyr, hsec⟩ := h
  simp only [validPy] at hval
  obtain ⟨h1y, h2y, h1m, h2m, h1d, h2d, hH, hMi, hSs⟩ := hval
  have hyr' : 1000 ≤ dt.year ∧ dt.year ≤ 9999 := by
    rw [if_neg (by decide)] at hyr
    exact hyr
  have hd31 : dt.day ≤ 31 := le_trans h2d (daysInMonth_le _ _)
  rw [c4render21_eq]
  refine strptimeF_of_none _ _ ?_
  show runDirs (Dir.dd :: [Dir.lit '.', Dir.dm, Dir.lit '.', Dir.dY, Dir.lit ',', Dir.ws, Dir.dH, Dir.lit ':', Dir.dM]) {} _ = _
  rw [runDirs_dd_pad _ _ dt.day _ (by omega) (kill_lit _ '.' (by decide) _ _),
    if_pos (by omega),
    runDirs_lit_ne _ _ _ _ _ (by decide)]

theorem c4fail_14_21 (dt : DT) (h : Rep fmt21 dt) :
    strptimeF fmt14 (render fmt21 dt) = none := by
  obtain ⟨hval, hyr, hsec⟩ := h
  simp only [validPy] at hval
  obtain ⟨h1y, h2y, h1m, h2m, h1d, h2d, hH, hMi, hSs⟩ := hval
  have hyr' : 1000 ≤ dt.year ∧ dt.year ≤ 9999 := by
    rw [if_neg (by decide)] at hyr
    exact hyr
  have hd31 : dt.day ≤ 31 := le_trans h2d (daysInMonth_le _ _)
  rw [c4render21_eq]
  refine strptimeF_of_none _ _ ?_
  show runDirs (Dir.dd :: [Dir.lit '.', Dir.dm, Dir.lit '.', Dir.dy, Dir.ws, Dir.dH, Dir.lit ':', Dir.dM]) {} _ = _
  rw [runDirs_dd_pad _ _ dt.day _ (by omega) (kill_lit _ '.' (by decide) _ _),
    if_pos (by omega),
    runDirs_lit_ne _ _ _ _ _ (by decide)]

theorem c4fail_15_21 (dt : DT) (h : Rep fmt21 dt) :
    strptimeF fmt15 (render fmt21 dt) = none := by
  obtain ⟨hval, hyr, hsec⟩ := h
  simp only [validPy] at hval
  obtain ⟨h1y, h2y, h1m, h2m, h1d, h2d, hH, hMi, hSs⟩ := hval
  have hyr' : 1000 ≤ dt.year ∧ dt.year ≤ 9999 := by
    rw [if_neg (by decide)] at hyr
    exact hyr
  have hd31 : dt.day ≤ 31 := le_trans h2d (daysInMonth_le _ _)
  rw [c4render21_eq]
  refine strptimeF_of_none _ _ ?_
  show runDirs (Dir.dd :: [Dir.lit '.', Dir.dm, Dir.lit '.', Dir.dy, Dir.lit ',', Dir.ws, Dir.dH, Dir.lit ':', Dir.dM]) {} _ = _
  rw [runDirs_dd_pad _ _ dt.day _ (by omega) (kill_lit _ '.' (by decide) _ _),
    if_pos (by omega),
    runDirs_lit_ne _ _ _ _ _ (by decide)]

theorem c4fail_16_21 (dt : DT) (h : Rep fmt21 dt) :
    strptimeF fmt16 (render fmt21 dt) = none := by
  obtain ⟨hval, hyr, hsec⟩ := h
  simp only [validPy] at hval
  obtain ⟨h1y, h2y, h1m, h2m, h1d, h2d, hH, hMi, hSs⟩ := hval
  have hyr' : 1000 ≤ dt.year ∧ dt.year ≤ 9999 := by
    rw [if_neg (by decide)] at hyr
    exact hyr
  have hd31 : dt.day ≤ 31 := le_trans h2d (daysInMonth_le _ _)
  rw [c4render21_eq]
  refine strptimeF_of_none _ _ ?_
  show runDirs (Dir.dd :: [Dir.lit '-', Dir.dm, Dir.lit '-', Dir.dY, Dir.ws, Dir.dH, Dir.lit ':', Dir.dM]) {} _ = _
  rw [runDirs_dd_pad _ _ dt.day _ (by omega) (kill_lit _ '-' (by decide) _ _),
    if_pos (by omega),
    runDirs_lit_ne _ _ _ _ _ (by decide)]

theorem c4fail_17_21 (dt : DT) (h : Rep fmt21 dt) :
    strptimeF fmt17 (render fmt21 dt) = none := by
  obtain ⟨hval, hyr, hsec⟩ := h
  simp only [validPy] at hval
  obtain ⟨h1y, h2y, h1m, h2m, h1d, h2d, hH, hMi, hSs⟩ := hval
  have hyr' : 1000 ≤ dt.year ∧ dt.year ≤ 9999 := by
    rw [if_neg (by decide)] at hyr
    exact hyr
  have hd31 : dt.day ≤ 31 := le_trans h2d (daysInMonth_le _ _)
  rw [c4render21_eq]
  refine strptimeF_of_none _ _ ?_
  show runDirs (Dir.dd :: [Dir.lit '-', Dir.dm, Dir.lit '-', Dir.dY, Dir.lit ',', Dir.ws, Dir.dH, Dir.lit ':', Dir.dM]) {} _ = _
  rw [runDirs_dd_pad _ _ dt.day _ (by omega) (kill_lit _ '-' (by decide) _ _),
    if_pos (by omega),
    runDirs_lit_ne _ _ _ _ _ (by decide)]

theorem c4fail_18_21 (dt : DT) (h : Rep fmt21 dt) :
    strptimeF fmt18 (render fmt21 dt) = none := by
  obtain ⟨hval, hyr, hsec⟩ := h
  simp only [validPy] at hval
  obtain ⟨h1y, h2y, h1m, h2m, h1d, h2d, hH, hMi, hSs⟩ := hval
  have hyr' : 1000 ≤ dt.year ∧ dt.year ≤ 9999 := by
    rw [if_neg (by decide)] at hyr
    exact hyr
  have hd31 : dt.day ≤ 31 := le_trans h2d (daysInMonth_le _ _)
  rw [c4render21_eq]
  refine strptimeF_of_none _ _ ?_
  show runDirs (Dir.dd :: [Dir.lit '-', Dir.dm, Dir.lit '-', Dir.dy, Dir.ws, Dir.dH, Dir.lit ':', Dir.dM]) {} _ = _
  rw [runDirs_dd_pad _ _ dt.day _ (by omega) (kill_lit _ '-' (by decide) _ _),
    if_pos (by omega),
    runDirs_lit_ne _ _ _ _ _ (by decide)]

theorem c4fail_19_21 (dt : DT) (h : Rep fmt21 dt) :
    strptimeF fmt19 (render fmt21 dt) = none := by
  obtain ⟨hval, hyr, hsec⟩ := h
  simp only [validPy] at hval
  obtain ⟨h1y, h2y, h1m, h2m, h1d, h2d, hH, hMi, hSs⟩ := hval
  have hyr' : 1000 ≤ dt.year ∧ dt.year ≤ 9999 := by
    rw [if_neg (by decide)] at hyr
    exact hyr
  have hd31 : dt.day ≤ 31 := le_trans h2d (daysInMonth_le _ _)
  rw [c4render21_eq]
  refine strptimeF_of_none _ _ ?_
  show runDirs (Dir.dd :: [Dir.lit '-', Dir.dm, Dir.lit '-', Dir.dy, Dir.lit ',', Dir.ws, Dir.dH, Dir.lit ':', Dir.dM]) {} _ = _
  rw [runDirs_dd_pad _ _ dt.day _ (by omega) (kill_lit _ '-' (by decide) _ _),
    if_pos (by omega),
    runDirs_lit_ne _ _ _ _ _ (by decide)]

theorem c4fail_20_21 (dt : DT) (h : Rep fmt21 dt) :
    strptimeF fmt20 (render fmt21 dt) = none := by
  obtain ⟨hval, hyr, hsec⟩ := h
  simp only [validPy] at hval
  obtain ⟨h1y, h2y, h1m, h2m, h1d, h2d, hH, hMi, hSs⟩ := hval
  have hyr' : 1000 ≤ dt.year ∧ dt.year ≤ 9999 := by
    rw [if_neg (by decide)] at hyr
    exact hyr
  have hd31 : dt.day ≤ 31 := le_trans h2d (daysInMonth_le _ _)
  rw [c4render21_eq]
  refine strptimeF_of_none _ _ ?_
  show runDirs (Dir.dd :: [Dir.lit '/', Dir.dm, Dir.lit '/', Dir.dY, Dir.ws, Dir.dH, Dir.lit ':', Dir.dM, Dir.lit ':', Dir.dS]) {} _ = _
  rw [runDirs_dd_pad _ _ dt.day _ (by omega) (kill_lit _ '/' (by decide) _ _),
    if_pos (by omega),
    runDirs_lit_eq,
    runDirs_dm_pad _ _ dt.month _ (by omega) (kill_lit _ '/' (by decide) _ _),
    if_pos (by omega),
    runDirs_lit_eq,
    runDirs_dY_pad _ _ dt.year (by omega) _,
    runDirs_ws_none _ _ _ _ (by decide)]

theorem c4rt21 (dt : DT) (h : Rep fmt21 dt) :
    parseTimestampCore (render fmt21 dt) = some dt := by
  rw [parseTimestampCore_eq, c4trim21]
  simp only [formats]
  rw [tryFormats_cons_none _ _ _ (c4fail_0_21 dt h),
    tryFormats_cons_none _ _ _ (c4fail_1_21 dt h),
    tryFormats_cons_none _ _ _ (c4fail_2_21 dt h),
    tryFormats_cons_none _ _ _ (c4fail_3_21 dt h),
    tryFormats_cons_none _ _ _ (c4fail_4_21 dt h),
    tryFormats_cons_none _ _ _ (c4fail_5_21 dt h),
    tryFormats_cons_none _ _ _ (c4fail_6_21 dt h),
    tryFormats_cons_none _ _ _ (c4fail_7_21 dt h),
    tryFormats_cons_none _ _ _ (c4fail_8_21 dt h),
    tryFormats_cons_none _ _ _ (c4fail_9_21 dt h),
    tryFormats_cons_none _ _ _ (c4fail_10_21 dt h),
    tryFormats_cons_none _ _ _ (c4fail_11_21 dt h),
    tryFormats_cons_none _ _ _ (c4fail_12_21 dt h),
    tryFormats_cons_none _ _ _ (c4fail_13_21 dt h),
    tryFormats_cons_none _ _ _ (c4fail_14_21 dt h),
    tryFormats_cons_none _ _ _ (c4fail_15_21 dt h),
    tryFormats_cons_none _ _ _ (c4fail_16_21 dt h),
    tryFormats_cons_none _ _ _ (c4fail_17_21 dt h),
    tryFormats_cons_none _ _ _ (c4fail_18_21 dt h),
    tryFormats_cons_none _ _ _ (c4fail_19_21 dt h),
    tryFormats_cons_none _ _ _ (c4fail_20_21 dt h),
    tryFormats_cons_some _ _ _ _ (c4self21 dt h)]

theorem c4render22_eq (dt : DT) :
    render fmt22 dt
      = pad2 dt.month ++ ('/' :: (pad2 dt.day ++ ('/' :: (pad4 dt.year ++ (' ' :: (pad2 (if dt.hour % 12 = 0 then 12 else dt.hour % 12) ++ (':' :: (pad2 dt.minute ++ (':' :: (pad2 dt.second ++ (' ' :: ((if dt.hour < 12 then ['A', 'M'] else ['P', 'M']) ++ ([]))))))))))))) := rfl

theorem c4render22_eq_am (dt : DT) (h : dt.hour < 12) :
    render fmt22 dt
      = pad2 dt.month ++ ('/' :: (pad2 dt.day ++ ('/' :: (pad4 dt.year ++ (' ' :: (pad2 (if dt.hour % 12 = 0 then 12 else dt.hour % 12) ++ (':' :: (pad2 dt.minute ++ (':' :: (pad2 dt.second ++ (' ' :: ('A' :: ('M' :: ([])))))))))))))) := by
  rw [c4render22_eq, if_pos h]
  rfl
theorem c4render22_eq_pm (dt : DT) (h : ¬ dt.hour < 12) :
    render fmt22 dt
      = pad2 dt.month ++ ('/' :: (pad2 dt.day ++ ('/' :: (pad4 dt.year ++ (' ' :: (pad2 (if dt.hour % 12 = 0 then 12 else dt.hour % 12) ++ (':' :: (pad2 dt.minute ++ (':' :: (pad2 dt.second ++ (' ' :: ('P' :: ('M' :: ([])))))))))))))) := by
  rw [c4render22_eq, if_neg h]
  rfl

theorem c4trim22 (dt : DT) : trimChars (render fmt22 dt) = render fmt22 dt := by
  apply trimChars_of_hl
  · rw [c4render22_eq]
    simp only [pad2_eq, pad4_eq, List.cons_append, List.nil_append]
    exact ⟨_, _, rfl, not_ws_digitChar _⟩
  · rw [c4render22_eq]
    simp only [ampm_cons, pad2_eq, pad4_eq, List.reverse_cons, List.reverse_append,
      List.append_assoc, List.cons_append, List.nil_append, List.reverse_nil,
      List.append_nil]
    exact ⟨_, _, rfl, (by decide)⟩

theorem c4self22 (dt : DT) (h : Rep fmt22 dt) :
    strptimeF fmt22 (render fmt22 dt) = some dt := by
  obtain ⟨hval, hyr, hsec⟩ := h
  simp only [validPy] at hval
  obtain ⟨h1y, h2y, h1m, h2m, h1d, h2d, hH, hMi, hSs⟩ := hval
  have hyr' : 1000 ≤ dt.year ∧ dt.year ≤ 9999 := by
    rw [if_neg (by decide)] at hyr
    exact hyr
  have hd31 : dt.day ≤ 31 := le_trans h2d (daysInMonth_le _ _)
  have hBi : 1 ≤ (if dt.hour % 12 = 0 then 12 else dt.hour % 12) ∧ (if dt.hour % 12 = 0 then 12 else dt.hour % 12) ≤ 12 := by
    split_ifs <;> omega
  by_cases hampm : dt.hour < 12
  · rw [c4render22_eq_am dt hampm]
    have hrun : runDirs fmt22 {} (pad2 dt.month ++ ('/' :: (pad2 dt.day ++ ('/' :: (pad4 dt.year ++ (' ' :: (pad2 (if dt.hour % 12 = 0 then 12 else dt.hour % 12) ++ (':' :: (pad2 dt.minute ++ (':' :: (pad2 dt.second ++ (' ' :: ('A' :: ('M' :: ([])))))))))))))))
        = some (⟨some dt.day, some dt.month, none, some dt.year, none, some (if dt.hour % 12 = 0 then 12 else dt.hour % 12), some dt.minute, some dt.second, some false⟩, []) := by
      show runDirs (Dir.dm :: [Dir.lit '/', Dir.dd, Dir.lit '/', Dir.dY, Dir.ws, Dir.dI, Dir.lit ':', Dir.dM, Dir.lit ':', Dir.dS, Dir.ws, Dir.dp]) {} _ = _
      rw [runDirs_dm_pad _ _ dt.month _ (by omega) (kill_lit _ '/' (by decide) _ _),
        if_pos (by omega),
        runDirs_lit_eq,
        runDirs_dd_pad _ _ dt.day _ (by omega) (kill_lit _ '/' (by decide) _ _),
        if_pos (by omega),
        runDirs_lit_eq,
        runDirs_dY_pad _ _ dt.year (by omega) _,
        runDirs_ws_single _ _ _ (wsCount_pad2 _ _),
        runDirs_dI_pad _ _ (if dt.hour % 12 = 0 then 12 else dt.hour % 12) _ (by omega) (kill_lit _ ':' (by decide) _ _),
        if_pos (by omega),
        runDirs_lit_eq,
        runDirs_dM_pad _ _ dt.minute _ (by omega) (kill_lit _ ':' (by decide) _ _),
        if_pos (by omega),
        runDirs_lit_eq,
        runDirs_dS_pad _ _ dt.second _ (by omega) (kill_ws _ _ _),
        if_pos (by omega),
        runDirs_ws_single _ _ _ (wsCount_not _ _ (by decide)),
        runDirs_dp_AM,
        runDirs_nil_eq]
    rw [strptimeF_of_done _ _ _ hrun]
    unfold buildDT
    dsimp only
    simp only [Option.getD_some, Option.getD_none]
    have hHr : (if (if dt.hour % 12 = 0 then 12 else dt.hour % 12) = 12 then 0 else (if dt.hour % 12 = 0 then 12 else dt.hour % 12)) = dt.hour := by
      split_ifs <;> omega
    rw [hHr]
    rw [mkDT, if_pos (by omega)]
  · rw [c4render22_eq_pm dt hampm]
    have hrun : runDirs fmt22 {} (pad2 dt.month ++ ('/' :: (pad2 dt.day ++ ('/' :: (pad4 dt.year ++ (' ' :: (pad2 (if dt.hour % 12 = 0 then 12 else dt.hour % 12) ++ (':' :: (pad2 dt.minute ++ (':' :: (pad2 dt.second ++ (' ' :: ('P' :: ('M' :: ([])))))))))))))))
        = some (⟨some dt.day, some dt.month, none, some dt.year, none, some (if dt.hour % 12 = 0 then 12 else dt.hour % 12), some dt.minute, some dt.second, some true⟩, []) := by
      show runDirs (Dir.dm :: [Dir.lit '/', Dir.dd, Dir.lit '/', Dir.dY, Dir.ws, Dir.dI, Dir.lit ':', Dir.dM, Dir.lit ':', Dir.dS, Dir.ws, Dir.dp]) {} _ = _
      rw [runDirs_dm_pad _ _ dt.month _ (by omega) (kill_lit _ '/' (by decide) _ _),
        if_pos (by omega),
        runDirs_lit_eq,
        runDirs_dd_pad _ _ dt.day _ (by omega) (kill_lit _ '/' (by decide) _ _),
        if_pos (by omega),
        runDirs_lit_eq,
        runDirs_dY_pad _ _ dt.year (by omega) _,
        runDirs_ws_single _ _ _ (wsCount_pad2 _ _),
        runDirs_dI_pad _ _ (if dt.hour % 12 = 0 then 12 else dt.hour % 12) _ (by omega) (kill_lit _ ':' (by decide) _ _),
        if_pos (by omega),
        runDirs_lit_eq,
        runDirs_dM_pad _ _ dt.minute _ (by omega) (kill_lit _ ':' (by decide) _ _),
        if_pos (by omega),
        runDirs_lit_eq,
        runDirs_dS_pad _ _ dt.second _ (by omega) (kill_ws _ _ _),
        if_pos (by omega),
        runDirs_ws_single _ _ _ (wsCount_not _ _ (by decide)),
        runDirs_dp_PM,
        runDirs_nil_eq]
    rw [strptimeF_of_done _ _ _ hrun]
    unfold buildDT
    dsimp only
    simp only [Option.getD_some, Option.getD_none]
    have hHr : (if (if dt.hour % 12 = 0 then 12 else dt.hour % 12) = 12 then 12 else (if dt.hour % 12 = 0 then 12 else dt.hour % 12) + 12) = dt.hour := by
      split_ifs <;> omega
    rw [hHr]
    rw [mkDT, if_pos (by omega)]

theorem c4fail_0_22 (dt : DT) (h : Rep fmt22 dt) :
    strptimeF fmt0 (render fmt22 dt) = none := by
  obtain ⟨hval, hyr, hsec⟩ := h
  simp only [validPy] at hval
  obtain ⟨h1y, h2y, h1m, h2m, h1d, h2d, hH, hMi, hSs⟩ := hval
  have hyr' : 1000 ≤ dt.year ∧ dt.year ≤ 9999 := by
    rw [if_neg (by decide)] at hyr
    exact hyr
  have hd31 : dt.day ≤ 31 := le_trans h2d (daysInMonth_le _ _)
  have hBi : 1 ≤ (if dt.hour % 12 = 0 then 12 else dt.hour % 12) ∧ (if dt.hour % 12 = 0 then 12 else dt.hour % 12) ≤ 12 := by
    split_ifs <;> omega
  rw [c4render22_eq]
  by_cases hc1 : 1 ≤ dt.day ∧ dt.day ≤ 12
  · refine strptimeF_of_rest_ne _ _ (⟨some dt.month, some dt.day, none, some dt.year, some (if dt.hour % 12 = 0 then 12 else dt.hour % 12), none, some dt.minute, none, none⟩)
      (':' :: (pad2 dt.second ++ (' ' :: ((if dt.hour < 12 then ['A', 'M'] else ['P', 'M']) ++ ([]))))) ?_ ?_
    · show runDirs (Dir.dd :: [Dir.lit '/', Dir.dm, Dir.lit '/', Dir.dY, Dir.ws, Dir.dH, Dir.lit ':', Dir.dM]) {} _ = _
      rw [runDirs_dd_pad _ _ dt.month _ (by omega) (kill_lit _ '/' (by decide) _ _),
        if_pos (by omega),
        runDirs_lit_eq,
        runDirs_dm_pad _ _ dt.day _ (by omega) (kill_lit _ '/' (by decide) _ _),
        if_pos hc1,
        runDirs_lit_eq,
        runDirs_dY_pad _ _ dt.year (by omega) _,
        runDirs_ws_single _ _ _ (wsCount_pad2 _ _),
        runDirs_dH_pad _ _ (if dt.hour % 12 = 0 then 12 else dt.hour % 12) _ (by omega) (kill_lit _ ':' (by decide) _ _),
        if_pos (by omega),
        runDirs_lit_eq,
        runDirs_dM_last _ dt.minute _ (by omega) (by omega)]
    · exact by simp [ampm_cons, pad2_eq, pad4_eq]
  · refine strptimeF_of_none _ _ ?_
    show runDirs (Dir.dd :: [Dir.lit '/', Dir.dm, Dir.lit '/', Dir.dY, Dir.ws, Dir.dH, Dir.lit ':', Dir.dM]) {} _ = _
    rw [runDirs_dd_pad _ _ dt.month _ (by omega) (kill_lit _ '/' (by decide) _ _),
      if_pos (by omega),
      runDirs_lit_eq,
      runDirs_dm_pad _ _ dt.day _ (by omega) (kill_lit _ '/' (by decide) _ _),
      if_neg hc1]

theorem c4fail_1_22 (dt : DT) (h : Rep fmt22 dt) :
    strptimeF fmt1 (render fmt22 dt) = none := by
  obtain ⟨hval, hyr, hsec⟩ := h
  simp only [validPy] at hval
  obtain ⟨h1y, h2y, h1m, h2m, h1d, h2d, hH, hMi, hSs⟩ := hval
  have hyr' : 1000 ≤ dt.year ∧ dt.year ≤ 9999 := by
    rw [if_neg (by decide)] at hyr
    exact hyr
  have hd31 : dt.day ≤ 31 := le_trans h2d (daysInMonth_le _ _)
  have hBi : 1 ≤ (if dt.hour % 12 = 0 then 12 else dt.hour % 12) ∧ (if dt.hour % 12 = 0 then 12 else dt.hour % 12) ≤ 12 := by
    split_ifs <;> omega
  rw [c4render22_eq]
  by_cases hc1 : 1 ≤ dt.day ∧ dt.day ≤ 12
  · refine strptimeF_of_none _ _ ?_
    show runDirs (Dir.dd :: [Dir.lit '/', Dir.dm, Dir.lit '/', Dir.dY, Dir.lit ',', Dir.ws, Dir.dH, Dir.lit ':', Dir.dM]) {} _ = _
    rw [runDirs_dd_pad _ _ dt.month _ (by omega) (kill_lit _ '/' (by decide) _ _),
      if_pos (by omega),
      runDirs_lit_eq,
      runDirs_dm_pad _ _ dt.day _ (by omega) (kill_lit _ '/' (by decide) _ _),
      if_pos hc1,
      runDirs_lit_eq,
      runDirs_dY_pad _ _ dt.year (by omega) _,
      runDirs_lit_ne _ _ _ _ _ (by decide)]
  · refine strptimeF_of_none _ _ ?_
    show runDirs (Dir.dd :: [Dir.lit '/', Dir.dm, Dir.lit '/', Dir.dY, Dir.lit ',', Dir.ws, Dir.dH, Dir.lit ':', Dir.dM]) {} _ = _
    rw [runDirs_dd_pad _ _ dt.month _ (by omega) (kill_lit _ '/' (by decide) _ _),
      if_pos (by omega),
      runDirs_lit_eq,
      runDirs_dm_pad _ _ dt.day _ (by omega) (kill_lit _ '/' (by decide) _ _),
      if_neg hc1]

theorem c4fail_2_22 (dt : DT) (h : Rep fmt22 dt) :
    strptimeF fmt2 (render fmt22 dt) = none := by
  obtain ⟨hval, hyr, hsec⟩ := h
  simp only [validPy] at hval
  obtain ⟨h1y, h2y, h1m, h2m, h1d, h2d, hH, hMi, hSs⟩ := hval
  have hyr' : 1000 ≤ dt.year ∧ dt.year ≤ 9999 := by
    rw [if_neg (by decide)] at hyr
    exact hyr
  have hd31 : dt.day ≤ 31 := le_trans h2d (daysInMonth_le _ _)
  have hBi : 1 ≤ (if dt.hour % 12 = 0 then 12 else dt.hour % 12) ∧ (if dt.hour % 12 = 0 then 12 else dt.hour % 12) ≤ 12 := by
    split_ifs <;> omega
  rw [c4render22_eq]
  by_cases hc1 : 1 ≤ dt.day ∧ dt.day ≤ 12
  · refine strptimeF_of_none _ _ ?_
    show runDirs (Dir.dd :: [Dir.lit '/', Dir.dm, Dir.lit '/', Dir.dy, Dir.ws, Dir.dH, Dir.lit ':', Dir.dM]) {} _ = _
    rw [runDirs_dd_pad _ _ dt.month _ (by omega) (kill_lit _ '/' (by decide) _ _),
      if_pos (by omega),
      runDirs_lit_eq,
      runDirs_dm_pad _ _ dt.day _ (by omega) (kill_lit _ '/' (by decide) _ _),
      if_pos hc1,
      runDirs_lit_eq,
      pad4_as_pad2,
      runDirs_dy_pad _ _ (dt.year / 100) _ (by omega),
      runDirs_ws_pad2]
  · refine strptimeF_of_none _ _ ?_
    show runDirs (Dir.dd :: [Dir.lit '/', Dir.dm, Dir.lit '/', Dir.dy, Dir.ws, Dir.dH, Dir.lit ':', Dir.dM]) {} _ = _
    rw [runDirs_dd_pad _ _ dt.month _ (by omega) (kill_lit _ '/' (by decide) _ _),
      if_pos (by omega),
      runDirs_lit_eq,
      runDirs_dm_pad _ _ dt.day _ (by omega) (kill_lit _ '/' (by decide) _ _),
      if_neg hc1]

theorem c4fail_3_22 (dt : DT) (h : Rep fmt22 dt) :
    strptimeF fmt3 (render fmt22 dt) = none := by
  obtain ⟨hval, hyr, hsec⟩ := h
  simp only [validPy] at hval
  obtain ⟨h1y, h2y, h1m, h2m, h1d, h2d, hH, hMi, hSs⟩ := hval
  have hyr' : 1000 ≤ dt.year ∧ dt.year ≤ 9999 := by
    rw [if_neg (by decide)] at hyr
    exact hyr
  have hd31 : dt.day ≤ 31 := le_trans h2d (daysInMonth_le _ _)
  have hBi : 1 ≤ (if dt.hour % 12 = 0 then 12 else dt.hour % 12) ∧ (if dt.hour % 12 = 0 then 12 else dt.hour % 12) ≤ 12 := by
    split_ifs <;> omega
  rw [c4render22_eq]
  by_cases hc1 : 1 ≤ dt.day ∧ dt.day ≤ 12
  · refine strptimeF_of_none _ _ ?_
    show runDirs (Dir.dd :: [Dir.lit '/', Dir.dm, Dir.lit '/', Dir.dy, Dir.lit ',', Dir.ws, Dir.dH, Dir.lit ':', Dir.dM]) {} _ = _
    rw [runDirs_dd_pad _ _ dt.month _ (by omega) (kill_lit _ '/' (by decide) _ _),
      if_pos (by omega),
      runDirs_lit_eq,
      runDirs_dm_pad _ _ dt.day _ (by omega) (kill_lit _ '/' (by decide) _ _),
      if_pos hc1,
      runDirs_lit_eq,
      pad4_as_pad2,
      runDirs_dy_pad _ _ (dt.year / 100) _ (by omega),
      runDirs_lit_pad2 _ _ _ _ _ (by decide)]
  · refine strptimeF_of_none _ _ ?_
    show runDirs (Dir.dd :: [Dir.lit '/', Dir.dm, Dir.lit '/', Dir.dy, Dir.lit ',', Dir.ws, Dir.dH, Dir.lit ':', Dir.dM]) {} _ = _
    rw [runDirs_dd_pad _ _ dt.month _ (by omega) (kill_lit _ '/' (by decide) _ _),
      if_pos (by omega),
      runDirs_lit_eq,
      runDirs_dm_pad _ _ dt.day _ (by omega) (kill_lit _ '/' (by decide) _ _),
      if_neg hc1]

theorem c4fail_4_22 (dt : DT) (h : Rep fmt22 dt) :
    strptimeF fmt4 (render fmt22 dt) = none := by
  obtain ⟨hval, hyr, hsec⟩ := h
  simp only [validPy] at hval
  obtain ⟨h1y, h2y, h1m, h2m, h1d, h2d, hH, hMi, hSs⟩ := hval
  have hyr' : 1000 ≤ dt.year ∧ dt.year ≤ 9999 := by
    rw [if_neg (by decide)] at hyr
    exact hyr
  have hd31 : dt.day ≤ 31 := le_trans h2d (daysInMonth_le _ _)
  have hBi : 1 ≤ (if dt.hour % 12 = 0 then 12 else dt.hour % 12) ∧ (if dt.hour % 12 = 0 then 12 else dt.hour % 12) ≤ 12 := by
    split_ifs <;> omega
  rw [c4render22_eq]
  refine strptimeF_of_none _ _ ?_
  show runDirs (Dir.dm :: [Dir.lit '/', Dir.dd, Dir.lit '/', Dir.dY, Dir.ws, Dir.dI, Dir.lit ':', Dir.dM, Dir.ws, Dir.dp]) {} _ = _
  rw [runDirs_dm_pad _ _ dt.month _ (by omega) (kill_lit _ '/' (by decide) _ _),
    if_pos (by omega),
    runDirs_lit_eq,
    runDirs_dd_pad _ _ dt.day _ (by omega) (kill_lit _ '/' (by decide) _ _),
    if_pos (by omega),
    runDirs_lit_eq,
    runDirs_dY_pad _ _ dt.year (by omega) _,
    runDirs_ws_single _ _ _ (wsCount_pad2 _ _),
    runDirs_dI_pad _ _ (if dt.hour % 12 = 0 then 12 else dt.hour % 12) _ (by omega) (kill_lit _ ':' (by decide) _ _),
    if_pos (by omega),
    runDirs_lit_eq,
    runDirs_dM_pad _ _ dt.minute _ (by omega) (kill_ws _ _ _),
    if_pos (by omega),
    runDirs_ws_none _ _ _ _ (by decide)]

theorem c4fail_5_22 (dt : DT) (h : Rep fmt22 dt) :
    strptimeF fmt5 (render fmt22 dt) = none := by
  obtain ⟨hval, hyr, hsec⟩ := h
  simp only [validPy] at hval
  obtain ⟨h1y, h2y, h1m, h2m, h1d, h2d, hH, hMi, hSs⟩ := hval
  have hyr' : 1000 ≤ dt.year ∧ dt.year ≤ 9999 := by
    rw [if_neg (by decide)] at hyr
    exact hyr
  have hd31 : dt.day ≤ 31 := le_trans h2d (daysInMonth_le _ _)
  have hBi : 1 ≤ (if dt.hour % 12 = 0 then 12 else dt.hour % 12) ∧ (if dt.hour % 12 = 0 then 12 else dt.hour % 12) ≤ 12 := by
    split_ifs <;> omega
  rw [c4render22_eq]
  refine strptimeF_of_none _ _ ?_
  show runDirs (Dir.dm :: [Dir.lit '/', Dir.dd, Dir.lit '/', Dir.dY, Dir.lit ',', Dir.ws, Dir.dI, Dir.lit ':', Dir.dM, Dir.ws, Dir.dp]) {} _ = _
  rw [runDirs_dm_pad _ _ dt.month _ (by omega) (kill_lit _ '/' (by decide) _ _),
    if_pos (by omega),
    runDirs_lit_eq,
    runDirs_dd_pad _ _ dt.day _ (by omega) (kill_lit _ '/' (by decide) _ _),
    if_pos (by omega),
    runDirs_lit_eq,
    runDirs_dY_pad _ _ dt.year (by omega) _,
    runDirs_lit_ne _ _ _ _ _ (by decide)]

theorem c4fail_6_22 (dt : DT) (h : Rep fmt22 dt) :
    strptimeF fmt6 (render fmt22 dt) = none := by
  obtain ⟨hval, hyr, hsec⟩ := h
  simp only [validPy] at hval
  obtain ⟨h1y, h2y, h1m, h2m, h1d, h2d, hH, hMi, hSs⟩ := hval
  have hyr' : 1000 ≤ dt.year ∧ dt.year ≤ 9999 := by
    rw [if_neg (by decide)] at hyr
    exact hyr
  have hd31 : dt.day ≤ 31 := le_trans h2d (daysInMonth_le _ _)
  have hBi : 1 ≤ (if dt.hour % 12 = 0 then 12 else dt.hour % 12) ∧ (if dt.hour % 12 = 0 then 12 else dt.hour % 12) ≤ 12 := by
    split_ifs <;> omega
  rw [c4render22_eq]
  refine strptimeF_of_none _ _ ?_
  show runDirs (Dir.dm :: [Dir.lit '/', Dir.dd, Dir.lit '/', Dir.dy, Dir.ws, Dir.dI, Dir.lit ':', Dir.dM, Dir.ws, Dir.dp]) {} _ = _
  rw [runDirs_dm_pad _ _ dt.month _ (by omega) (kill_lit _ '/' (by decide) _ _),
    if_pos (by omega),
    runDirs_lit_eq,
    runDirs_dd_pad _ _ dt.day _ (by omega) (kill_lit _ '/' (by decide) _ _),
    if_pos (by omega),
    runDirs_lit_eq,
    pad4_as_pad2,
    runDirs_dy_pad _ _ (dt.year / 100) _ (by omega),
    runDirs_ws_pad2]

theorem c4fail_7_22 (dt : DT) (h : Rep fmt22 dt) :
    strptimeF fmt7 (render fmt22 dt) = none := by
  obtain ⟨hval, hyr, hsec⟩ := h
  simp only [validPy] at hval
  obtain ⟨h1y, h2y, h1m, h2m, h1d, h2d, hH, hMi, hSs⟩ := hval
  have hyr' : 1000 ≤ dt.year ∧ dt.year ≤ 9999 := by
    rw [if_neg (by decide)] at hyr
    exact hyr
  have hd31 : dt.day ≤ 31 := le_trans h2d (daysInMonth_le _ _)
  have hBi : 1 ≤ (if dt.hour % 12 = 0 then 12 else dt.hour % 12) ∧ (if dt.hour % 12 = 0 then 12 else dt.hour % 12) ≤ 12 := by
    split_ifs <;> omega
  rw [c4render22_eq]
  refine strptimeF_of_none _ _ ?_
  show runDirs (Dir.dm :: [Dir.lit '/', Dir.dd, Dir.lit '/', Dir.dy, Dir.lit ',', Dir.ws, Dir.dI, Dir.lit ':', Dir.dM, Dir.ws, Dir.dp]) {} _ = _
  rw [runDirs_dm_pad _ _ dt.month _ (by omega) (kill_lit _ '/' (by decide) _ _),
    if_pos (by omega),
    runDirs_lit_eq,
    runDirs_dd_pad _ _ dt.day _ (by omega) (kill_lit _ '/' (by decide) _ _),
    if_pos (by omega),
    runDirs_lit_eq,
    pad4_as_pad2,
    runDirs_dy_pad _ _ (dt.year / 100) _ (by omega),
    runDirs_lit_pad2 _ _ _ _ _ (by decide)]

theorem c4fail_8_22 (dt : DT) (h : Rep fmt22 dt) :
    strptimeF fmt8 (render fmt22 dt) = none := by
  obtain ⟨hval, hyr, hsec⟩ := h
  simp only [validPy] at hval
  obtain ⟨h1y, h2y, h1m, h2m, h1d, h2d, hH, hMi, hSs⟩ := hval
  have hyr' : 1000 ≤ dt.year ∧ dt.year ≤ 9999 := by
    rw [if_neg (by decide)] at hyr
    exact hyr
  have hd31 : dt.day ≤ 31 := le_trans h2d (daysInMonth_le _ _)
  have hBi : 1 ≤ (if dt.hour % 12 = 0 then 12 else dt.hour % 12) ∧ (if dt.hour % 12 = 0 then 12 else dt.hour % 12) ≤ 12 := by
    split_ifs <;> omega
  rw [c4render22_eq]
  refine strptimeF_of_none _ _ ?_
  show runDirs (Dir.dY :: [Dir.lit '-', Dir.dm, Dir.lit '-', Dir.dd, Dir.ws, Dir.dH, Dir.lit ':', Dir.dM]) {} _ = _
  rw [runDirs_dY_pad2_sep _ _ _ _ _ (by decide)]

theorem c4fail_9_22 (dt : DT) (h : Rep fmt22 dt) :
    strptimeF fmt9 (render fmt22 dt) = none := by
  obtain ⟨hval, hyr, hsec⟩ := h
  simp only [validPy] at hval
  obtain ⟨h1y, h2y, h1m, h2m, h1d, h2d, hH, hMi, hSs⟩ := hval
  have hyr' : 1000 ≤ dt.year ∧ dt.year ≤ 9999 := by
    rw [if_neg (by decide)] at hyr
    exact hyr
  have hd31 : dt.day ≤ 31 := le_trans h2d (daysInMonth_le _ _)
  have hBi : 1 ≤ (if dt.hour % 12 = 0 then 12 else dt.hour % 12) ∧ (if dt.hour % 12 = 0 then 12 else dt.hour % 12) ≤ 12 := by
    split_ifs <;> omega
  rw [c4render22_eq]
  refine strptimeF_of_none _ _ ?_
  show runDirs (Dir.dY :: [Dir.lit '-', Dir.dm, Dir.lit '-', Dir.dd, Dir.lit ',', Dir.ws, Dir.dH, Dir.lit ':', Dir.dM]) {} _ = _
  rw [runDirs_dY_pad2_sep _ _ _ _ _ (by decide)]

theorem c4fail_10_22 (dt : DT) (h : Rep fmt22 dt) :
    strptimeF fmt10 (render fmt22 dt) = none := by
  obtain ⟨hval, hyr, hsec⟩ := h
  simp only [validPy] at hval
  obtain ⟨h1y, h2y, h1m, h2m, h1d, h2d, hH, hMi, hSs⟩ := hval
  have hyr' : 1000 ≤ dt.year ∧ dt.year ≤ 9999 := by
    rw [if_neg (by decide)] at hyr
    exact hyr
  have hd31 : dt.day ≤ 31 := le_trans h2d (daysInMonth_le _ _)
  have hBi : 1 ≤ (if dt.hour % 12 = 0 then 12 else dt.hour % 12) ∧ (if dt.hour % 12 = 0 then 12 else dt.hour % 12) ≤ 12 := by
    split_ifs <;> omega
  rw [c4render22_eq]
  refine strptimeF_of_none _ _ ?_
  show runDirs (Dir.dY :: [Dir.lit '/', Dir.dm, Dir.lit '/', Dir.dd, Dir.ws, Dir.dH, Dir.lit ':', Dir.dM]) {} _ = _
  rw [runDirs_dY_pad2_sep _ _ _ _ _ (by decide)]

theorem c4fail_11_22 (dt : DT) (h : Rep fmt22 dt) :
    strptimeF fmt11 (render fmt22 dt) = none := by
  obtain ⟨hval, hyr, hsec⟩ := h
  simp only [validPy] at hval
  obtain ⟨h1y, h2y, h1m, h2m, h1d, h2d, hH, hMi, hSs⟩ := hval
  have hyr' : 1000 ≤ dt.year ∧ dt.year ≤ 9999 := by
    rw [if_neg (by decide)] at hyr
    exact hyr
  have hd31 : dt.day ≤ 31 := le_trans h2d (daysInMonth_le _ _)
  have hBi : 1 ≤ (if dt.hour % 12 = 0 then 12 else dt.hour % 12) ∧ (if dt.hour % 12 = 0 then 12 else dt.hour % 12) ≤ 12 := by
    split_ifs <;> omega
  rw [c4render22_eq]
  refine strptimeF_of_none _ _ ?_
  show runDirs (Dir.dY :: [Dir.lit '/', Dir.dm, Dir.lit '/', Dir.dd, Dir.lit ',', Dir.ws, Dir.dH, Dir.lit ':', Dir.dM]) {} _ = _
  rw [runDirs_dY_pad2_sep _ _ _ _ _ (by decide)]

theorem c4fail_12_22 (dt : DT) (h : Rep fmt22 dt) :
    strptimeF fmt12 (render fmt22 dt) = none := by
  obtain ⟨hval, hyr, hsec⟩ := h
  simp only [validPy] at hval
  obtain ⟨h1y, h2y, h1m, h2m, h1d, h2d, hH, hMi, hSs⟩ := hval
  have hyr' : 1000 ≤ dt.year ∧ dt.year ≤ 9999 := by
    rw [if_neg (by decide)] at hyr
    exact hyr
  have hd31 : dt.day ≤ 31 := le_trans h2d (daysInMonth_le _ _)
  have hBi : 1 ≤ (if dt.hour % 12 = 0 then 12 else dt.hour % 12) ∧ (if dt.hour % 12 = 0 then 12 else dt.hour % 12) ≤ 12 := by
    split_ifs <;> omega
  rw [c4render22_eq]
  refine strptimeF_of_none _ _ ?_
  show runDirs (Dir.dd :: [Dir.lit '.', Dir.dm, Dir.lit '.', Dir.dY, Dir.ws, Dir.dH, Dir.lit ':', Dir.dM]) {} _ = _
  rw [runDirs_dd_pad _ _ dt.month _ (by omega) (kill_lit _ '.' (by decide) _ _),
    if_pos (by omega),
    runDirs_lit_ne _ _ _ _ _ (by decide)]

theorem c4fail_13_22 (dt : DT) (h : Rep fmt22 dt) :
    strptimeF fmt13 (render fmt22 dt) = none := by
  obtain ⟨hval, hyr, hsec⟩ := h
  simp only [validPy] at hval
  obtain ⟨h1y, h2y, h1m, h2m, h1d, h2d, hH, hMi, hSs⟩ := hval
  have hyr' : 1000 ≤ dt.year ∧ dt.year ≤ 9999 := by
    rw [if_neg (by decide)] at hyr
    exact hyr
  have hd31 : dt.day ≤ 31 := le_trans h2d (daysInMonth_le _ _)
  have hBi : 1 ≤ (if dt.hour % 12 = 0 then 12 else dt.hour % 12) ∧ (if dt.hour % 12 = 0 then 12 else dt.hour % 12) ≤ 12 := by
    split_ifs <;> omega
  rw [c4render22_eq]
  refine strptimeF_of_none _ _ ?_
  show runDirs (Dir.dd :: [Dir.lit '.', Dir.dm, Dir.lit '.', Dir.dY, Dir.lit ',', Dir.ws, Dir.dH, Dir.lit ':', Dir.dM]) {} _ = _
  rw [runDirs_dd_pad _ _ dt.month _ (by omega) (kill_lit _ '.' (by decide) _ _),
    if_pos (by omega),
    runDirs_lit_ne _ _ _ _ _ (by decide)]

theorem c4fail_14_22 (dt : DT) (h : Rep fmt22 dt) :
    strptimeF fmt14 (render fmt22 dt) = none := by
  obtain ⟨hval, hyr, hsec⟩ := h
  simp only [validPy] at hval
  obtain ⟨h1y, h2y, h1m, h2m, h1d, h2d, hH, hMi, hSs⟩ := hval
  have hyr' : 1000 ≤ dt.year ∧ dt.year ≤ 9999 := by
    rw [if_neg (by decide)] at hyr
    exact hyr
  have hd31 : dt.day ≤ 31 := le_trans h2d (daysInMonth_le _ _)
  have hBi : 1 ≤ (if dt.hour % 12 = 0 then 12 else dt.hour % 12) ∧ (if dt.hour % 12 = 0 then 12 else dt.hour % 12) ≤ 12 := by
    split_ifs <;> omega
  rw [c4render22_eq]
  refine strptimeF_of_none _ _ ?_
  show runDirs (Dir.dd :: [Dir.lit '.', Dir.dm, Dir.lit '.', Dir.dy, Dir.ws, Dir.dH, Dir.lit ':', Dir.dM]) {} _ = _
  rw [runDirs_dd_pad _ _ dt.month _ (by omega) (kill_lit _ '.' (by decide) _ _),
    if_pos (by omega),
    runDirs_lit_ne _ _ _ _ _ (by decide)]

theorem c4fail_15_22 (dt : DT) (h : Rep fmt22 dt) :
    strptimeF fmt15 (render fmt22 dt) = none := by
  obtain ⟨hval, hyr, hsec⟩ := h
  simp only [validPy] at hval
  obtain ⟨h1y, h2y, h1m, h2m, h1d, h2d, hH, hMi, hSs⟩ := hval
  have hyr' : 1000 ≤ dt.year ∧ dt.year ≤ 9999 := by
    rw [if_neg (by decide)] at hyr
    exact hyr
  have hd31 : dt.day ≤ 31 := le_trans h2d (daysInMonth_le _ _)
  have hBi : 1 ≤ (if dt.hour % 12 = 0 then 12 else dt.hour % 12) ∧ (if dt.hour % 12 = 0 then 12 else dt.hour % 12) ≤ 12 := by
    split_ifs <;> omega
  rw [c4render22_eq]
  refine strptimeF_of_none _ _ ?_
  show runDirs (Dir.dd :: [Dir.lit '.', Dir.dm, Dir.lit '.', Dir.dy, Dir.lit ',', Dir.ws, Dir.dH, Dir.lit ':', Dir.dM]) {} _ = _
  rw [runDirs_dd_pad _ _ dt.month _ (by omega) (kill_lit _ '.' (by decide) _ _),
    if_pos (by omega),
    runDirs_lit_ne _ _ _ _ _ (by decide)]

theorem c4fail_16_22 (dt : DT) (h : Rep fmt22 dt) :
    strptimeF fmt16 (render fmt22 dt) = none := by
  obtain ⟨hval, hyr, hsec⟩ := h
  simp only [validPy] at hval
  obtain ⟨h1y, h2y, h1m, h2m, h1d, h2d, hH, hMi, hSs⟩ := hval
  have hyr' : 1000 ≤ dt.year ∧ dt.year ≤ 9999 := by
    rw [if_neg (by decide)] at hyr
    exact hyr
  have hd31 : dt.day ≤ 31 := le_trans h2d (daysInMonth_le _ _)
  have hBi : 1 ≤ (if dt.hour % 12 = 0 then 12 else dt.hour % 12) ∧ (if dt.hour % 12 = 0 then 12 else dt.hour % 12) ≤ 12 := by
    split_ifs <;> omega
  rw [c4render22_eq]
  refine strptimeF_of_none _ _ ?_
  show runDirs (Dir.dd :: [Dir.lit '-', Dir.dm, Dir.lit '-', Dir.dY, Dir.ws, Dir.dH, Dir.lit ':', Dir.dM]) {} _ = _
  rw [runDirs_dd_pad _ _ dt.month _ (by omega) (kill_lit _ '-' (by decide) _ _),
    if_pos (by omega),
    runDirs_lit_ne _ _ _ _ _ (by decide)]

theorem c4fail_17_22 (dt : DT) (h : Rep fmt22 dt) :
    strptimeF fmt17 (render fmt22 dt) = none := by
  obtain ⟨hval, hyr, hsec⟩ := h
  simp only [validPy] at hval
  obtain ⟨h1y, h2y, h1m, h2m, h1d, h2d, hH, hMi, hSs⟩ := hval
  have hyr' : 1000 ≤ dt.year ∧ dt.year ≤ 9999 := by
    rw [if_neg (by decide)] at hyr
    exact hyr
  have hd31 : dt.day ≤ 31 := le_trans h2d (daysInMonth_le _ _)
  have hBi : 1 ≤ (if dt.hour % 12 = 0 then 12 else dt.hour % 12) ∧ (if dt.hour % 12 = 0 then 12 else dt.hour % 12) ≤ 12 := by
    split_ifs <;> omega
  rw [c4render22_eq]
  refine strptimeF_of_none _ _ ?_
  show runDirs (Dir.dd :: [Dir.lit '-', Dir.dm, Dir.lit '-', Dir.dY, Dir.lit ',', Dir.ws, Dir.dH, Dir.lit ':', Dir.dM]) {} _ = _
  rw [runDirs_dd_pad _ _ dt.month _ (by omega) (kill_lit _ '-' (by decide) _ _),
    if_pos (by omega),
    runDirs_lit_ne _ _ _ _ _ (by decide)]

theorem c4fail_18_22 (dt : DT) (h : Rep fmt22 dt) :
    strptimeF fmt18 (render fmt22 dt) = none := by
  obtain ⟨hval, hyr, hsec⟩ := h
  simp only [validPy] at hval
  obtain ⟨h1y, h2y, h1m, h2m, h1d, h2d, hH, hMi, hSs⟩ := hval
  have hyr' : 1000 ≤ dt.year ∧ dt.year ≤ 9999 := by
    rw [if_neg (by decide)] at hyr
    exact hyr
  have hd31 : dt.day ≤ 31 := le_trans h2d (daysInMonth_le _ _)
  have hBi : 1 ≤ (if dt.hour % 12 = 0 then 12 else dt.hour % 12) ∧ (if dt.hour % 12 = 0 then 12 else dt.hour % 12) ≤ 12 := by
    split_ifs <;> omega
  rw [c4render22_eq]
  refine strptimeF_of_none _ _ ?_
  show runDirs (Dir.dd :: [Dir.lit '-', Dir.dm, Dir.lit '-', Dir.dy, Dir.ws, Dir.dH, Dir.lit ':', Dir.dM]) {} _ = _
  rw [runDirs_dd_pad _ _ dt.month _ (by omega) (kill_lit _ '-' (by decide) _ _),
    if_pos (by omega),
    runDirs_lit_ne _ _ _ _ _ (by decide)]

theorem c4fail_19_22 (dt : DT) (h : Rep fmt22 dt) :
    strptimeF fmt19 (render fmt22 dt) = none := by
  obtain ⟨hval, hyr, hsec⟩ := h
  simp only [validPy] at hval
  obtain ⟨h1y, h2y, h1m, h2m, h1d, h2d, hH, hMi, hSs⟩ := hval
  have hyr' : 1000 ≤ dt.year ∧ dt.year ≤ 9999 := by
    rw [if_neg (by decide)] at hyr
    exact hyr
  have hd31 : dt.day ≤ 31 := le_trans h2d (daysInMonth_le _ _)
  have hBi : 1 ≤ (if dt.hour % 12 = 0 then 12 else dt.hour % 12) ∧ (if dt.hour % 12 = 0 then 12 else dt.hour % 12) ≤ 12 := by
    split_ifs <;> omega
  rw [c4render22_eq]
  refine strptimeF_of_none _ _ ?_
  show runDirs (Dir.dd :: [Dir.lit '-', Dir.dm, Dir.lit '-', Dir.dy, Dir.lit ',', Dir.ws, Dir.dH, Dir.lit ':', Dir.dM]) {} _ = _
  rw [runDirs_dd_pad _ _ dt.month _ (by omega) (kill_lit _ '-' (by decide) _ _),
    if_pos (by omega),
    runDirs_lit_ne _ _ _ _ _ (by decide)]

theorem c4fail_20_22 (dt : DT) (h : Rep fmt22 dt) :
    strptimeF fmt20 (render fmt22 dt) = none := by
  obtain ⟨hval, hyr, hsec⟩ := h
  simp only [validPy] at hval
  obtain ⟨h1y, h2y, h1m, h2m, h1d, h2d, hH, hMi, hSs⟩ := hval
  have hyr' : 1000 ≤ dt.year ∧ dt.year ≤ 9999 := by
    rw [if_neg (by decide)] at hyr
    exact hyr
  have hd31 : dt.day ≤ 31 := le_trans h2d (daysInMonth_le _ _)
  have hBi : 1 ≤ (if dt.hour % 12 = 0 then 12 else dt.hour % 12) ∧ (if dt.hour % 12 = 0 then 12 else dt.hour % 12) ≤ 12 := by
    split_ifs <;> omega
  rw [c4render22_eq]
  by_cases hc1 : 1 ≤ dt.day ∧ dt.day ≤ 12
  · refine strptimeF_of_rest_ne _ _ (⟨some dt.month, some dt.day, none, some dt.year, some (if dt.hour % 12 = 0 then 12 else dt.hour % 12), none, some dt.minute, some dt.second, none⟩)
      (' ' :: ((if dt.hour < 12 then ['A', 'M'] else ['P', 'M']) ++ ([]))) ?_ ?_
    · show runDirs (Dir.dd :: [Dir.lit '/', Dir.dm, Dir.lit '/', Dir.dY, Dir.ws, Dir.dH, Dir.lit ':', Dir.dM, Dir.lit ':', Dir.dS]) {} _ = _
      rw [runDirs_dd_pad _ _ dt.month _ (by omega) (kill_lit _ '/' (by decide) _ _),
        if_pos (by omega),
        runDirs_lit_eq,
        runDirs_dm_pad _ _ dt.day _ (by omega) (kill_lit _ '/' (by decide) _ _),
        if_pos hc1,
        runDirs_lit_eq,
        runDirs_dY_pad _ _ dt.year (by omega) _,
        runDirs_ws_single _ _ _ (wsCount_pad2 _ _),
        runDirs_dH_pad _ _ (if dt.hour % 12 = 0 then 12 else dt.hour % 12) _ (by omega) (kill_lit _ ':' (by decide) _ _),
        if_pos (by omega),
        runDirs_lit_eq,
        runDirs_dM_pad _ _ dt.minute _ (by omega) (kill_lit _ ':' (by decide) _ _),
        if_pos (by omega),
        runDirs_lit_eq,
        runDirs_dS_last _ dt.second _ (by omega) (by omega)]
    · exact by simp [ampm_cons, pad2_eq, pad4_eq]
  · refine strptimeF_of_none _ _ ?_
    show runDirs (Dir.dd :: [Dir.lit '/', Dir.dm, Dir.lit '/', Dir.dY, Dir.ws, Dir.dH, Dir.lit ':', Dir.dM, Dir.lit ':', Dir.dS]) {} _ = _
    rw [runDirs_dd_pad _ _ dt.month _ (by omega) (kill_lit _ '/' (by decide) _ _),
      if_pos (by omega),
      runDirs_lit_eq,
      runDirs_dm_pad _ _ dt.day _ (by omega) (kill_lit _ '/' (by decide) _ _),
      if_neg hc1]

theorem c4fail_21_22 (dt : DT) (h : Rep fmt22 dt) :
    strptimeF fmt21 (render fmt22 dt) = none := by
  obtain ⟨hval, hyr, hsec⟩ := h
  simp only [validPy] at hval
  obtain ⟨h1y, h2y, h1m, h2m, h1d, h2d, hH, hMi, hSs⟩ := hval
  have hyr' : 1000 ≤ dt.year ∧ dt.year ≤ 9999 := by
    rw [if_neg (by decide)] at hyr
    exact hyr
  have hd31 : dt.day ≤ 31 := le_trans h2d (daysInMonth_le _ _)
  have hBi : 1 ≤ (if dt.hour % 12 = 0 then 12 else dt.hour % 12) ∧ (if dt.hour % 12 = 0 then 12 else dt.hour % 12) ≤ 12 := by
    split_ifs <;> omega
  rw [c4render22_eq]
  by_cases hc1 : 1 ≤ dt.day ∧ dt.day ≤ 12
  · refine strptimeF_of_none _ _ ?_
    show runDirs (Dir.dd :: [Dir.lit '/', Dir.dm, Dir.lit '/', Dir.dY, Dir.lit ',', Dir.ws, Dir.dH, Dir.lit ':', Dir.dM, Dir.lit ':', Dir.dS]) {} _ = _
    rw [runDirs_dd_pad _ _ dt.month _ (by omega) (kill_lit _ '/' (by decide) _ _),
      if_pos (by omega),
      runDirs_lit_eq,
      runDirs_dm_pad _ _ dt.day _ (by omega) (kill_lit _ '/' (by decide) _ _),
      if_pos hc1,
      runDirs_lit_eq,
      runDirs_dY_pad _ _ dt.year (by omega) _,
      runDirs_lit_ne _ _ _ _ _ (by decide)]
  · refine strptimeF_of_none _ _ ?_
    show runDirs (Dir.dd :: [Dir.lit '/', Dir.dm, Dir.lit '/', Dir.dY, Dir.lit ',', Dir.ws, Dir.dH, Dir.lit ':', Dir.dM, Dir.lit ':', Dir.dS]) {} _ = _
    rw [runDirs_dd_pad _ _ dt.month _ (by omega) (kill_lit _ '/' (by decide) _ _),
      if_pos (by omega),
      runDirs_lit_eq,
      runDirs_dm_pad _ _ dt.day _ (by omega) (kill_lit _ '/' (by decide) _ _),
      if_neg hc1]

theorem c4rt22 (dt : DT) (h : Rep fmt22 dt) :
    parseTimestampCore (render fmt22 dt) = some dt := by
  rw [parseTimestampCore_eq, c4trim22]
  simp only [formats]
  rw [tryFormats_cons_none _ _ _ (c4fail_0_22 dt h),
    tryFormats_cons_none _ _ _ (c4fail_1_22 dt h),
    tryFormats_cons_none _ _ _ (c4fail_2_22 dt h),
    tryFormats_cons_none _ _ _ (c4fail_3_22 dt h),
    tryFormats_cons_none _ _ _ (c4fail_4_22 dt h),
    tryFormats_cons_none _ _ _ (c4fail_5_22 dt h),
    tryFormats_cons_none _ _ _ (c4fail_6_22 dt h),
    tryFormats_cons_none _ _ _ (c4fail_7_22 dt h),
    tryFormats_cons_none _ _ _ (c4fail_8_22 dt h),
    tryFormats_cons_none _ _ _ (c4fail_9_22 dt h),
    tryFormats_cons_none _ _ _ (c4fail_10_22 dt h),
    tryFormats_cons_none _ _ _ (c4fail_11_22 dt h),
    tryFormats_cons_none _ _ _ (c4fail_12_22 dt h),
    tryFormats_cons_none _ _ _ (c4fail_13_22 dt h),
    tryFormats_cons_none _ _ _ (c4fail_14_22 dt h),
    tryFormats_cons_none _ _ _ (c4fail_15_22 dt h),
    tryFormats_cons_none _ _ _ (c4fail_16_22 dt h),
    tryFormats_cons_none _ _ _ (c4fail_17_22 dt h),
    tryFormats_cons_none _ _ _ (c4fail_18_22 dt h),
    tryFormats_cons_none _ _ _ (c4fail_19_22 dt h),
    tryFormats_cons_none _ _ _ (c4fail_20_22 dt h),
    tryFormats_cons_none _ _ _ (c4fail_21_22 dt h),
    tryFormats_cons_some _ _ _ _ (c4self22 dt h)]

theorem c4render23_eq (dt : DT) :
    render fmt23 dt
      = pad2 dt.month ++ ('/' :: (pad2 dt.day ++ ('/' :: (pad4 dt.year ++ (',' :: (' ' :: (pad2 (if dt.hour % 12 = 0 then 12 else dt.hour % 12) ++ (':' :: (pad2 dt.minute ++ (':' :: (pad2 dt.second ++ (' ' :: ((if dt.hour < 12 then ['A', 'M'] else ['P', 'M']) ++ ([])))))))))))))) := rfl

theorem c4render23_eq_am (dt : DT) (h : dt.hour < 12) :
    render fmt23 dt
      = pad2 dt.month ++ ('/' :: (pad2 dt.day ++ ('/' :: (pad4 dt.year ++ (',' :: (' ' :: (pad2 (if dt.hour % 12 = 0 then 12 else dt.hour % 12) ++ (':' :: (pad2 dt.minute ++ (':' :: (pad2 dt.second ++ (' ' :: ('A' :: ('M' :: ([]))))))))))))))) := by
  rw [c4render23_eq, if_pos h]
  rfl
theorem c4render23_eq_pm (dt : DT) (h : ¬ dt.hour < 12) :
    render fmt23 dt
      = pad2 dt.month ++ ('/' :: (pad2 dt.day ++ ('/' :: (pad4 dt.year ++ (',' :: (' ' :: (pad2 (if dt.hour % 12 = 0 then 12 else dt.hour % 12) ++ (':' :: (pad2 dt.minute ++ (':' :: (pad2 dt.second ++ (' ' :: ('P' :: ('M' :: ([]))))))))))))))) := by
  rw [c4render23_eq, if_neg h]
  rfl

theorem c4trim23 (dt : DT) : trimChars (render fmt23 dt) = render fmt23 dt := by
  apply trimChars_of_hl
  · rw [c4render23_eq]
    simp only [pad2_eq, pad4_eq, List.cons_append, List.nil_append]
    exact ⟨_, _, rfl, not_ws_digitChar _⟩
  · rw [c4render23_eq]
    simp only [ampm_cons, pad2_eq, pad4_eq, List.reverse_cons, List.reverse_append,
      List.append_assoc, List.cons_append, List.nil_append, List.reverse_nil,
      List.append_nil]
    exact ⟨_, _, rfl, (by decide)⟩

theorem c4self23 (dt : DT) (h : Rep fmt23 dt) :
    strptimeF fmt23 (render fmt23 dt) = some dt := by
  obtain ⟨hval, hyr, hsec⟩ := h
  simp only [validPy] at hval
  obtain ⟨h1y, h2y, h1m, h2m, h1d, h2d, hH, hMi, hSs⟩ := hval
  have hyr' : 1000 ≤ dt.year ∧ dt.year ≤ 9999 := by
    rw [if_neg (by decide)] at hyr
    exact hyr
  have hd31 : dt.day ≤ 31 := le_trans h2d (daysInMonth_le _ _)
  have hBi : 1 ≤ (if dt.hour % 12 = 0 then 12 else dt.hour % 12) ∧ (if dt.hour % 12 = 0 then 12 else dt.hour % 12) ≤ 12 := by
    split_ifs <;> omega
  by_cases hampm : dt.hour < 12
  · rw [c4render23_eq_am dt hampm]
    have hrun : runDirs fmt23 {} (pad2 dt.month ++ ('/' :: (pad2 dt.day ++ ('/' :: (pad4 dt.year ++ (',' :: (' ' :: (pad2 (if dt.hour % 12 = 0 then 12 else dt.hour % 12) ++ (':' :: (pad2 dt.minute ++ (':' :: (pad2 dt.second ++ (' ' :: ('A' :: ('M' :: ([]))))))))))))))))
        = some (⟨some dt.day, some dt.month, none, some dt.year, none, some (if dt.hour % 12 = 0 then 12 else dt.hour % 12), some dt.minute, some dt.second, some false⟩, []) := by
      show runDirs (Dir.dm :: [Dir.lit '/', Dir.dd, Dir.lit '/', Dir.dY, Dir.lit ',', Dir.ws, Dir.dI, Dir.lit ':', Dir.dM, Dir.lit ':', Dir.dS, Dir.ws, Dir.dp]) {} _ = _
      rw [runDirs_dm_pad _ _ dt.month _ (by omega) (kill_lit _ '/' (by decide) _ _),
        if_pos (by omega),
        runDirs_lit_eq,
        runDirs_dd_pad _ _ dt.day _ (by omega) (kill_lit _ '/' (by decide) _ _),
        if_pos (by omega),
        runDirs_lit_eq,
        runDirs_dY_pad _ _ dt.year (by omega) _,
        runDirs_lit_eq,
        runDirs_ws_single _ _ _ (wsCount_pad2 _ _),
        runDirs_dI_pad _ _ (if dt.hour % 12 = 0 then 12 else dt.hour % 12) _ (by omega) (kill_lit _ ':' (by decide) _ _),
        if_pos (by omega),
        runDirs_lit_eq,
        runDirs_dM_pad _ _ dt.minute _ (by omega) (kill_lit _ ':' (by decide) _ _),
        if_pos (by omega),
        runDirs_lit_eq,
        runDirs_dS_pad _ _ dt.second _ (by omega) (kill_ws _ _ _),
        if_pos (by omega),
        runDirs_ws_single _ _ _ (wsCount_not _ _ (by decide)),
        runDirs_dp_AM,
        runDirs_nil_eq]
    rw [strptimeF_of_done _ _ _ hrun]
    unfold buildDT
    dsimp only
    simp only [Option.getD_some, Option.getD_none]
    have hHr : (if (if dt.hour % 12 = 0 then 12 else dt.hour % 12) = 12 then 0 else (if dt.hour % 12 = 0 then 12 else dt.hour % 12)) = dt.hour := by
      split_ifs <;> omega
    rw [hHr]
    rw [mkDT, if_pos (by omega)]
  · rw [c4render23_eq_pm dt hampm]
    have hrun : runDirs fmt23 {} (pad2 dt.month ++ ('/' :: (pad2 dt.day ++ ('/' :: (pad4 dt.year ++ (',' :: (' ' :: (pad2 (if dt.hour % 12 = 0 then 12 else dt.hour % 12) ++ (':' :: (pad2 dt.minute ++ (':' :: (pad2 dt.second ++ (' ' :: ('P' :: ('M' :: ([]))))))))))))))))
        = some (⟨some dt.day, some dt.month, none, some dt.year, none, some (if dt.hour % 12 = 0 then 12 else dt.hour % 12), some dt.minute, some dt.second, some true⟩, []) := by
      show runDirs (Dir.dm :: [Dir.lit '/', Dir.dd, Dir.lit '/', Dir.dY, Dir.lit ',', Dir.ws, Dir.dI, Dir.lit ':', Dir.dM, Dir.lit ':', Dir.dS, Dir.ws, Dir.dp]) {} _ = _
      rw [runDirs_dm_pad _ _ dt.month _ (by omega) (kill_lit _ '/' (by decide) _ _),
        if_pos (by omega),
        runDirs_lit_eq,
        runDirs_dd_pad _ _ dt.day _ (by omega) (kill_lit _ '/' (by decide) _ _),
        if_pos (by omega),
        runDirs_lit_eq,
        runDirs_dY_pad _ _ dt.year (by omega) _,
        runDirs_lit_eq,
        runDirs_ws_single _ _ _ (wsCount_pad2 _ _),
        runDirs_dI_pad _ _ (if dt.hour % 12 = 0 then 12 else dt.hour % 12) _ (by omega) (kill_lit _ ':' (by decide) _ _),
        if_pos (by omega),
        runDirs_lit_eq,
        runDirs_dM_pad _ _ dt.minute _ (by omega) (kill_lit _ ':' (by decide) _ _),
        if_pos (by omega),
        runDirs_lit_eq,
        runDirs_dS_pad _ _ dt.second _ (by omega) (kill_ws _ _ _),
        if_pos (by omega),
        runDirs_ws_single _ _ _ (wsCount_not _ _ (by decide)),
        runDirs_dp_PM,
        runDirs_nil_eq]
    rw [strptimeF_of_done _ _ _ hrun]
    unfold buildDT
    dsimp only
    simp only [Option.getD_some, Option.getD_none]
    have hHr : (if (if dt.hour % 12 = 0 then 12 else dt.hour % 12) = 12 then 12 else (if dt.hour % 12 = 0 then 12 else dt.hour % 12) + 12) = dt.hour := by
      split_ifs <;> omega
    rw [hHr]
    rw [mkDT, if_pos (by omega)]

theorem c4fail_0_23 (dt : DT) (h : Rep fmt23 dt) :
    strptimeF fmt0 (render fmt23 dt) = none := by
  obtain ⟨hval, hyr, hsec⟩ := h
  simp only [validPy] at hval
  obtain ⟨h1y, h2y, h1m, h2m, h1d, h2d, hH, hMi, hSs⟩ := hval
  have hyr' : 1000 ≤ dt.year ∧ dt.year ≤ 9999 := by
    rw [if_neg (by decide)] at hyr
    exact hyr
  have hd31 : dt.day ≤ 31 := le_trans h2d (daysInMonth_le _ _)
  have hBi : 1 ≤ (if dt.hour % 12 = 0 then 12 else dt.hour % 12) ∧ (if dt.hour % 12 = 0 then 12 else dt.hour % 12) ≤ 12 := by
    split_ifs <;> omega
  rw [c4render23_eq]
  by_cases hc1 : 1 ≤ dt.day ∧ dt.day ≤ 12
  · refine strptimeF_of_none _ _ ?_
    show runDirs (Dir.dd :: [Dir.lit '/', Dir.dm, Dir.lit '/', Dir.dY, Dir.ws, Dir.dH, Dir.lit ':', Dir.dM]) {} _ = _
    rw [runDirs_dd_pad _ _ dt.month _ (by omega) (kill_lit _ '/' (by decide) _ _),
      if_pos (by omega),
      runDirs_lit_eq,
      runDirs_dm_pad _ _ dt.day _ (by omega) (kill_lit _ '/' (by decide) _ _),
      if_pos hc1,
      runDirs_lit_eq,
      runDirs_dY_pad _ _ dt.year (by omega) _,
      runDirs_ws_none _ _ _ _ (by decide)]
  · refine strptimeF_of_none _ _ ?_
    show runDirs (Dir.dd :: [Dir.lit '/', Dir.dm, Dir.lit '/', Dir.dY, Dir.ws, Dir.dH, Dir.lit ':', Dir.dM]) {} _ = _
    rw [runDirs_dd_pad _ _ dt.month _ (by omega) (kill_lit _ '/' (by decide) _ _),
      if_pos (by omega),
      runDirs_lit_eq,
      runDirs_dm_pad _ _ dt.day _ (by omega) (kill_lit _ '/' (by decide) _ _),
      if_neg hc1]

theorem c4fail_1_23 (dt : DT) (h : Rep fmt23 dt) :
    strptimeF fmt1 (render fmt23 dt) = none := by
  obtain ⟨hval, hyr, hsec⟩ := h
  simp only [validPy] at hval
  obtain ⟨h1y, h2y, h1m, h2m, h1d, h2d, hH, hMi, hSs⟩ := hval
  have hyr' : 1000 ≤ dt.year ∧ dt.year ≤ 9999 := by
    rw [if_neg (by decide)] at hyr
    exact hyr
  have hd31 : dt.day ≤ 31 := le_trans h2d (daysInMonth_le _ _)
  have hBi : 1 ≤ (if dt.hour % 12 = 0 then 12 else dt.hour % 12) ∧ (if dt.hour % 12 = 0 then 12 else dt.hour % 12) ≤ 12 := by
    split_ifs <;> omega
  rw [c4render23_eq]
  by_cases hc1 : 1 ≤ dt.day ∧ dt.day ≤ 12
  · refine strptimeF_of_rest_ne _ _ (⟨some dt.month, some dt.day, none, some dt.year, some (if dt.hour % 12 = 0 then 12 else dt.hour % 12), none, some dt.minute, none, none⟩)
      (':' :: (pad2 dt.second ++ (' ' :: ((if dt.hour < 12 then ['A', 'M'] else ['P', 'M']) ++ ([]))))) ?_ ?_
    · show runDirs (Dir.dd :: [Dir.lit '/', Dir.dm, Dir.lit '/', Dir.dY, Dir.lit ',', Dir.ws, Dir.dH, Dir.lit ':', Dir.dM]) {} _ = _
      rw [runDirs_dd_pad _ _ dt.month _ (by omega) (kill_lit _ '/' (by decide) _ _),
        if_pos (by omega),
        runDirs_lit_eq,
        runDirs_dm_pad _ _ dt.day _ (by omega) (kill_lit _ '/' (by decide) _ _),
        if_pos hc1,
        runDirs_lit_eq,
        runDirs_dY_pad _ _ dt.year (by omega) _,
        runDirs_lit_eq,
        runDirs_ws_single _ _ _ (wsCount_pad2 _ _),
        runDirs_dH_pad _ _ (if dt.hour % 12 = 0 then 12 else dt.hour % 12) _ (by omega) (kill_lit _ ':' (by decide) _ _),
        if_pos (by omega),
        runDirs_lit_eq,
        runDirs_dM_last _ dt.minute _ (by omega) (by omega)]
    · exact by simp [ampm_cons, pad2_eq, pad4_eq]
  · refine strptimeF_of_none _ _ ?_
    show runDirs (Dir.dd :: [Dir.lit '/', Dir.dm, Dir.lit '/', Dir.dY, Dir.lit ',', Dir.ws, Dir.dH, Dir.lit ':', Dir.dM]) {} _ = _
    rw [runDirs_dd_pad _ _ dt.month _ (by omega) (kill_lit _ '/' (by decide) _ _),
      if_pos (by omega),
      runDirs_lit_eq,
      runDirs_dm_pad _ _ dt.day _ (by omega) (kill_lit _ '/' (by decide) _ _),
      if_neg hc1]

theorem c4fail_2_23 (dt : DT) (h : Rep fmt23 dt) :
    strptimeF fmt2 (render fmt23 dt) = none := by
  obtain ⟨hval, hyr, hsec⟩ := h
  simp only [validPy] at hval
  obtain ⟨h1y, h2y, h1m, h2m, h1d, h2d, hH, hMi, hSs⟩ := hval
  have hyr' : 1000 ≤ dt.year ∧ dt.year ≤ 9999 := by
    rw [if_neg (by decide)] at hyr
    exact hyr
  have hd31 : dt.day ≤ 31 := le_trans h2d (daysInMonth_le _ _)
  have hBi : 1 ≤ (if dt.hour % 12 = 0 then 12 else dt.hour % 12) ∧ (if dt.hour % 12 = 0 then 12 else dt.hour % 12) ≤ 12 := by
    split_ifs <;> omega
  rw [c4render23_eq]
  by_cases hc1 : 1 ≤ dt.day ∧ dt.day ≤ 12
  · refine strptimeF_of_none _ _ ?_
    show runDirs (Dir.dd :: [Dir.lit '/', Dir.dm, Dir.lit '/', Dir.dy, Dir.ws, Dir.dH, Dir.lit ':', Dir.dM]) {} _ = _
    rw [runDirs_dd_pad _ _ dt.month _ (by omega) (kill_lit _ '/' (by decide) _ _),
      if_pos (by omega),
      runDirs_lit_eq,
      runDirs_dm_pad _ _ dt.day _ (by omega) (kill_lit _ '/' (by decide) _ _),
      if_pos hc1,
      runDirs_lit_eq,
      pad4_as_pad2,
      runDirs_dy_pad _ _ (dt.year / 100) _ (by omega),
      runDirs_ws_pad2]
  · refine strptimeF_of_none _ _ ?_
    show runDirs (Dir.dd :: [Dir.lit '/', Dir.dm, Dir.lit '/', Dir.dy, Dir.ws, Dir.dH, Dir.lit ':', Dir.dM]) {} _ = _
    rw [runDirs_dd_pad _ _ dt.month _ (by omega) (kill_lit _ '/' (by decide) _ _),
      if_pos (by omega),
      runDirs_lit_eq,
      runDirs_dm_pad _ _ dt.day _ (by omega) (kill_lit _ '/' (by decide) _ _),
      if_neg hc1]

theorem c4fail_3_23 (dt : DT) (h : Rep fmt23 dt) :
    strptimeF fmt3 (render fmt23 dt) = none := by
  obtain ⟨hval, hyr, hsec⟩ := h
  simp only [validPy] at hval
  obtain ⟨h1y, h2y, h1m, h2m, h1d, h2d, hH, hMi, hSs⟩ := hval
  have hyr' : 1000 ≤ dt.year ∧ dt.year ≤ 9999 := by
    rw [if_neg (by decide)] at hyr
    exact hyr
  have hd31 : dt.day ≤ 31 := le_trans h2d (daysInMonth_le _ _)
  have hBi : 1 ≤ (if dt.hour % 12 = 0 then 12 else dt.hour % 12) ∧ (if dt.hour % 12 = 0 then 12 else dt.hour % 12) ≤ 12 := by
    split_ifs <;> omega
  rw [c4render23_eq]
  by_cases hc1 : 1 ≤ dt.day ∧ dt.day ≤ 12
  · refine strptimeF_of_none _ _ ?_
    show runDirs (Dir.dd :: [Dir.lit '/', Dir.dm, Dir.lit '/', Dir.dy, Dir.lit ',', Dir.ws, Dir.dH, Dir.lit ':', Dir.dM]) {} _ = _
    rw [runDirs_dd_pad _ _ dt.month _ (by omega) (kill_lit _ '/' (by decide) _ _),
      if_pos (by omega),
      runDirs_lit_eq,
      runDirs_dm_pad _ _ dt.day _ (by omega) (kill_lit _ '/' (by decide) _ _),
      if_pos hc1,
      runDirs_lit_eq,
      pad4_as_pad2,
      runDirs_dy_pad _ _ (dt.year / 100) _ (by omega),
      runDirs_lit_pad2 _ _ _ _ _ (by decide)]
  · refine strptimeF_of_none _ _ ?_
    show runDirs (Dir.dd :: [Dir.lit '/', Dir.dm, Dir.lit '/', Dir.dy, Dir.lit ',', Dir.ws, Dir.dH, Dir.lit ':', Dir.dM]) {} _ = _
    rw [runDirs_dd_pad _ _ dt.month _ (by omega) (kill_lit _ '/' (by decide) _ _),
      if_pos (by omega),
      runDirs_lit_eq,
      runDirs_dm_pad _ _ dt.day _ (by omega) (kill_lit _ '/' (by decide) _ _),
      if_neg hc1]

theorem c4fail_4_23 (dt : DT) (h : Rep fmt23 dt) :
    strptimeF fmt4 (render fmt23 dt) = none := by
  obtain ⟨hval, hyr, hsec⟩ := h
  simp only [validPy] at hval
  obtain ⟨h1y, h2y, h1m, h2m, h1d, h2d, hH, hMi, hSs⟩ := hval
  have hyr' : 1000 ≤ dt.year ∧ dt.year ≤ 9999 := by
    rw [if_neg (by decide)] at hyr
    exact hyr
  have hd31 : dt.day ≤ 31 := le_trans h2d (daysInMonth_le _ _)
  have hBi : 1 ≤ (if dt.hour % 12 = 0 then 12 else dt.hour % 12) ∧ (if dt.hour % 12 = 0 then 12 else dt.hour % 12) ≤ 12 := by
    split_ifs <;> omega
  rw [c4render23_eq]
  refine strptimeF_of_none _ _ ?_
  show runDirs (Dir.dm :: [Dir.lit '/', Dir.dd, Dir.lit '/', Dir.dY, Dir.ws, Dir.dI, Dir.lit ':', Dir.dM, Dir.ws, Dir.dp]) {} _ = _
  rw [runDirs_dm_pad _ _ dt.month _ (by omega) (kill_lit _ '/' (by decide) _ _),
    if_pos (by omega),
    runDirs_lit_eq,
    runDirs_dd_pad _ _ dt.day _ (by omega) (kill_lit _ '/' (by decide) _ _),
    if_pos (by omega),
    runDirs_lit_eq,
    runDirs_dY_pad _ _ dt.year (by omega) _,
    runDirs_ws_none _ _ _ _ (by decide)]

theorem c4fail_5_23 (dt : DT) (h : Rep fmt23 dt) :
    strptimeF fmt5 (render fmt23 dt) = none := by
  obtain ⟨hval, hyr, hsec⟩ := h
  simp only [validPy] at hval
  obtain ⟨h1y, h2y, h1m, h2m, h1d, h2d, hH, hMi, hSs⟩ := hval
  have hyr' : 1000 ≤ dt.year ∧ dt.year ≤ 9999 := by
    rw [if_neg (by decide)] at hyr
    exact hyr
  have hd31 : dt.day ≤ 31 := le_trans h2d (daysInMonth_le _ _)
  have hBi : 1 ≤ (if dt.hour % 12 = 0 then 12 else dt.hour % 12) ∧ (if dt.hour % 12 = 0 then 12 else dt.hour % 12) ≤ 12 := by
    split_ifs <;> omega
  rw [c4render23_eq]
  refine strptimeF_of_none _ _ ?_
  show runDirs (Dir.dm :: [Dir.lit '/', Dir.dd, Dir.lit '/', Dir.dY, Dir.lit ',', Dir.ws, Dir.dI, Dir.lit ':', Dir.dM, Dir.ws, Dir.dp]) {} _ = _
  rw [runDirs_dm_pad _ _ dt.month _ (by omega) (kill_lit _ '/' (by decide) _ _),
    if_pos (by omega),
    runDirs_lit_eq,
    runDirs_dd_pad _ _ dt.day _ (by omega) (kill_lit _ '/' (by decide) _ _),
    if_pos (by omega),
    runDirs_lit_eq,
    runDirs_dY_pad _ _ dt.year (by omega) _,
    runDirs_lit_eq,
    runDirs_ws_single _ _ _ (wsCount_pad2 _ _),
    runDirs_dI_pad _ _ (if dt.hour % 12 = 0 then 12 else dt.hour % 12) _ (by omega) (kill_lit _ ':' (by decide) _ _),
    if_pos (by omega),
    runDirs_lit_eq,
    runDirs_dM_pad _ _ dt.minute _ (by omega) (kill_ws _ _ _),
    if_pos (by omega),
    runDirs_ws_none _ _ _ _ (by decide)]

theorem c4fail_6_23 (dt : DT) (h : Rep fmt23 dt) :
    strptimeF fmt6 (render fmt23 dt) = none := by
  obtain ⟨hval, hyr, hsec⟩ := h
  simp only [validPy] at hval
  obtain ⟨h1y, h2y, h1m, h2m, h1d, h2d, hH, hMi, hSs⟩ := hval
  have hyr' : 1000 ≤ dt.year ∧ dt.year ≤ 9999 := by
    rw [if_neg (by decide)] at hyr
    exact hyr
  have hd31 : dt.day ≤ 31 := le_trans h2d (daysInMonth_le _ _)
  have hBi : 1 ≤ (if dt.hour % 12 = 0 then 12 else dt.hour % 12) ∧ (if dt.hour % 12 = 0 then 12 else dt.hour % 12) ≤ 12 := by
    split_ifs <;> omega
  rw [c4render23_eq]
  refine strptimeF_of_none _ _ ?_
  show runDirs (Dir.dm :: [Dir.lit '/', Dir.dd, Dir.lit '/', Dir.dy, Dir.ws, Dir.dI, Dir.lit ':', Dir.dM, Dir.ws, Dir.dp]) {} _ = _
  rw [runDirs_dm_pad _ _ dt.month _ (by omega) (kill_lit _ '/' (by decide) _ _),
    if_pos (by omega),
    runDirs_lit_eq,
    runDirs_dd_pad _ _ dt.day _ (by omega) (kill_lit _ '/' (by decide) _ _),
    if_pos (by omega),
    runDirs_lit_eq,
    pad4_as_pad2,
    runDirs_dy_pad _ _ (dt.year / 100) _ (by omega),
    runDirs_ws_pad2]

theorem c4fail_7_23 (dt : DT) (h : Rep fmt23 dt) :
    strptimeF fmt7 (render fmt23 dt) = none := by
  obtain ⟨hval, hyr, hsec⟩ := h
  simp only [validPy] at hval
  obtain ⟨h1y, h2y, h1m, h2m, h1d, h2d, hH, hMi, hSs⟩ := hval
  have hyr' : 1000 ≤ dt.year ∧ dt.year ≤ 9999 := by
    rw [if_neg (by decide)] at hyr
    exact hyr
  have hd31 : dt.day ≤ 31 := le_trans h2d (daysInMonth_le _ _)
  have hBi : 1 ≤ (if dt.hour % 12 = 0 then 12 else dt.hour % 12) ∧ (if dt.hour % 12 = 0 then 12 else dt.hour % 12) ≤ 12 := by
    split_ifs <;> omega
  rw [c4render23_eq]
  refine strptimeF_of_none _ _ ?_
  show runDirs (Dir.dm :: [Dir.lit '/', Dir.dd, Dir.lit '/', Dir.dy, Dir.lit ',', Dir.ws, Dir.dI, Dir.lit ':', Dir.dM, Dir.ws, Dir.dp]) {} _ = _
  rw [runDirs_dm_pad _ _ dt.month _ (by omega) (kill_lit _ '/' (by decide) _ _),
    if_pos (by omega),
    runDirs_lit_eq,
    runDirs_dd_pad _ _ dt.day _ (by omega) (kill_lit _ '/' (by decide) _ _),
    if_pos (by omega),
    runDirs_lit_eq,
    pad4_as_pad2,
    runDirs_dy_pad _ _ (dt.year / 100) _ (by omega),
    runDirs_lit_pad2 _ _ _ _ _ (by decide)]

theorem c4fail_8_23 (dt : DT) (h : Rep fmt23 dt) :
    strptimeF fmt8 (render fmt23 dt) = none := by
  obtain ⟨hval, hyr, hsec⟩ := h
  simp only [validPy] at hval
  obtain ⟨h1y, h2y, h1m, h2m, h1d, h2d, hH, hMi, hSs⟩ := hval
  have hyr' : 1000 ≤ dt.year ∧ dt.year ≤ 9999 := by
    rw [if_neg (by decide)] at hyr
    exact hyr
  have hd31 : dt.day ≤ 31 := le_trans h2d (daysInMonth_le _ _)
  have hBi : 1 ≤ (if dt.hour % 12 = 0 then 12 else dt.hour % 12) ∧ (if dt.hour % 12 = 0 then 12 else dt.hour % 12) ≤ 12 := by
    split_ifs <;> omega
  rw [c4render23_eq]
  refine strptimeF_of_none _ _ ?_
  show runDirs (Dir.dY :: [Dir.lit '-', Dir.dm, Dir.lit '-', Dir.dd, Dir.ws, Dir.dH, Dir.lit ':', Dir.dM]) {} _ = _
  rw [runDirs_dY_pad2_sep _ _ _ _ _ (by decide)]

theorem c4fail_9_23 (dt : DT) (h : Rep fmt23 dt) :
    strptimeF fmt9 (render fmt23 dt) = none := by
  obtain ⟨hval, hyr, hsec⟩ := h
  simp only [validPy] at hval
  obtain ⟨h1y, h2y, h1m, h2m, h1d, h2d, hH, hMi, hSs⟩ := hval
  have hyr' : 1000 ≤ dt.year ∧ dt.year ≤ 9999 := by
    rw [if_neg (by decide)] at hyr
    exact hyr
  have hd31 : dt.day ≤ 31 := le_trans h2d (daysInMonth_le _ _)
  have hBi : 1 ≤ (if dt.hour % 12 = 0 then 12 else dt.hour % 12) ∧ (if dt.hour % 12 = 0 then 12 else dt.hour % 12) ≤ 12 := by
    split_ifs <;> omega
  rw [c4render23_eq]
  refine strptimeF_of_none _ _ ?_
  show runDirs (Dir.dY :: [Dir.lit '-', Dir.dm, Dir.lit '-', Dir.dd, Dir.lit ',', Dir.ws, Dir.dH, Dir.lit ':', Dir.dM]) {} _ = _
  rw [runDirs_dY_pad2_sep _ _ _ _ _ (by decide)]

theorem c4fail_10_23 (dt : DT) (h : Rep fmt23 dt) :
    strptimeF fmt10 (render fmt23 dt) = none := by
  obtain ⟨hval, hyr, hsec⟩ := h
  simp only [validPy] at hval
  obtain ⟨h1y, h2y, h1m, h2m, h1d, h2d, hH, hMi, hSs⟩ := hval
  have hyr' : 1000 ≤ dt.year ∧ dt.year ≤ 9999 := by
    rw [if_neg (by decide)] at hyr
    exact hyr
  have hd31 : dt.day ≤ 31 := le_trans h2d (daysInMonth_le _ _)
  have hBi : 1 ≤ (if dt.hour % 12 = 0 then 12 else dt.hour % 12) ∧ (if dt.hour % 12 = 0 then 12 else dt.hour % 12) ≤ 12 := by
    split_ifs <;> omega
  rw [c4render23_eq]
  refine strptimeF_of_none _ _ ?_
  show runDirs (Dir.dY :: [Dir.lit '/', Dir.dm, Dir.lit '/', Dir.dd, Dir.ws, Dir.dH, Dir.lit ':', Dir.dM]) {} _ = _
  rw [runDirs_dY_pad2_sep _ _ _ _ _ (by decide)]

theorem c4fail_11_23 (dt : DT) (h : Rep fmt23 dt) :
    strptimeF fmt11 (render fmt23 dt) = none := by
  obtain ⟨hval, hyr, hsec⟩ := h
  simp only [validPy] at hval
  obtain ⟨h1y, h2y, h1m, h2m, h1d, h2d, hH, hMi, hSs⟩ := hval
  have hyr' : 1000 ≤ dt.year ∧ dt.year ≤ 9999 := by
    rw [if_neg (by decide)] at hyr
    exact hyr
  have hd31 : dt.day ≤ 31 := le_trans h2d (daysInMonth_le _ _)
  have hBi : 1 ≤ (if dt.hour % 12 = 0 then 12 else dt.hour % 12) ∧ (if dt.hour % 12 = 0 then 12 else dt.hour % 12) ≤ 12 := by
    split_ifs <;> omega
  rw [c4render23_eq]
  refine strptimeF_of_none _ _ ?_
  show runDirs (Dir.dY :: [Dir.lit '/', Dir.dm, Dir.lit '/', Dir.dd, Dir.lit ',', Dir.ws, Dir.dH, Dir.lit ':', Dir.dM]) {} _ = _
  rw [runDirs_dY_pad2_sep _ _ _ _ _ (by decide)]

theorem c4fail_12_23 (dt : DT) (h : Rep fmt23 dt) :
    strptimeF fmt12 (render fmt23 dt) = none := by
  obtain ⟨hval, hyr, hsec⟩ := h
  simp only [validPy] at hval
  obtain ⟨h1y, h2y, h1m, h2m, h1d, h2d, hH, hMi, hSs⟩ := hval
  have hyr' : 1000 ≤ dt.year ∧ dt.year ≤ 9999 := by
    rw [if_neg (by decide)] at hyr
    exact hyr
  have hd31 : dt.day ≤ 31 := le_trans h2d (daysInMonth_le _ _)
  have hBi : 1 ≤ (if dt.hour % 12 = 0 then 12 else dt.hour % 12) ∧ (if dt.hour % 12 = 0 then 12 else dt.hour % 12) ≤ 12 := by
    split_ifs <;> omega
  rw [c4render23_eq]
  refine strptimeF_of_none _ _ ?_
  show runDirs (Dir.dd :: [Dir.lit '.', Dir.dm, Dir.lit '.', Dir.dY, Dir.ws, Dir.dH, Dir.lit ':', Dir.dM]) {} _ = _
  rw [runDirs_dd_pad _ _ dt.month _ (by omega) (kill_lit _ '.' (by decide) _ _),
    if_pos (by omega),
    runDirs_lit_ne _ _ _ _ _ (by decide)]

theorem c4fail_13_23 (dt : DT) (h : Rep fmt23 dt) :
    strptimeF fmt13 (render fmt23 dt) = none := by
  obtain ⟨hval, hyr, hsec⟩ := h
  simp only [validPy] at hval
  obtain ⟨h1y, h2y, h1m, h2m, h1d, h2d, hH, hMi, hSs⟩ := hval
  have hyr' : 1000 ≤ dt.year ∧ dt.year ≤ 9999 := by
    rw [if_neg (by decide)] at hyr
    exact hyr
  have hd31 : dt.day ≤ 31 := le_trans h2d (daysInMonth_le _ _)
  have hBi : 1 ≤ (if dt.hour % 12 = 0 then 12 else dt.hour % 12) ∧ (if dt.hour % 12 = 0 then 12 else dt.hour % 12) ≤ 12 := by
    split_ifs <;> omega
  rw [c4render23_eq]
  refine strptimeF_of_none _ _ ?_
  show runDirs (Dir.dd :: [Dir.lit '.', Dir.dm, Dir.lit '.', Dir.dY, Dir.lit ',', Dir.ws, Dir.dH, Dir.lit ':', Dir.dM]) {} _ = _
  rw [runDirs_dd_pad _ _ dt.month _ (by omega) (kill_lit _ '.' (by decide) _ _),
    if_pos (by omega),
    runDirs_lit_ne _ _ _ _ _ (by decide)]

theorem c4fail_14_23 (dt : DT) (h : Rep fmt23 dt) :
    strptimeF fmt14 (render fmt23 dt) = none := by
  obtain ⟨hval, hyr, hsec⟩ := h
  simp only [validPy] at hval
  obtain ⟨h1y, h2y, h1m, h2m, h1d, h2d, hH, hMi, hSs⟩ := hval
  have hyr' : 1000 ≤ dt.year ∧ dt.year ≤ 9999 := by
    rw [if_neg (by decide)] at hyr
    exact hyr
  have hd31 : dt.day ≤ 31 := le_trans h2d (daysInMonth_le _ _)
  have hBi : 1 ≤ (if dt.hour % 12 = 0 then 12 else dt.hour % 12) ∧ (if dt.hour % 12 = 0 then 12 else dt.hour % 12) ≤ 12 := by
    split_ifs <;> omega
  rw [c4render23_eq]
  refine strptimeF_of_none _ _ ?_
  show runDirs (Dir.dd :: [Dir.lit '.', Dir.dm, Dir.lit '.', Dir.dy, Dir.ws, Dir.dH, Dir.lit ':', Dir.dM]) {} _ = _
  rw [runDirs_dd_pad _ _ dt.month _ (by omega) (kill_lit _ '.' (by decide) _ _),
    if_pos (by omega),
    runDirs_lit_ne _ _ _ _ _ (by decide)]

theorem c4fail_15_23 (dt : DT) (h : Rep fmt23 dt) :
    strptimeF fmt15 (render fmt23 dt) = none := by
  obtain ⟨hval, hyr, hsec⟩ := h
  simp only [validPy] at hval
  obtain ⟨h1y, h2y, h1m, h2m, h1d, h2d, hH, hMi, hSs⟩ := hval
  have hyr' : 1000 ≤ dt.year ∧ dt.year ≤ 9999 := by
    rw [if_neg (by decide)] at hyr
    exact hyr
  have hd31 : dt.day ≤ 31 := le_trans h2d (daysInMonth_le _ _)
  have hBi : 1 ≤ (if dt.hour % 12 = 0 then 12 else dt.hour % 12) ∧ (if dt.hour % 12 = 0 then 12 else dt.hour % 12) ≤ 12 := by
    split_ifs <;> omega
  rw [c4render23_eq]
  refine strptimeF_of_none _ _ ?_
  show runDirs (Dir.dd :: [Dir.lit '.', Dir.dm, Dir.lit '.', Dir.dy, Dir.lit ',', Dir.ws, Dir.dH, Dir.lit ':', Dir.dM]) {} _ = _
  rw [runDirs_dd_pad _ _ dt.month _ (by omega) (kill_lit _ '.' (by decide) _ _),
    if_pos (by omega),
    runDirs_lit_ne _ _ _ _ _ (by decide)]

theorem c4fail_16_23 (dt : DT) (h : Rep fmt23 dt) :
    strptimeF fmt16 (render fmt23 dt) = none := by
  obtain ⟨hval, hyr, hsec⟩ := h
  simp only [validPy] at hval
  obtain ⟨h1y, h2y, h1m, h2m, h1d, h2d, hH, hMi, hSs⟩ := hval
  have hyr' : 1000 ≤ dt.year ∧ dt.year ≤ 9999 := by
    rw [if_neg (by decide)] at hyr
    exact hyr
  have hd31 : dt.day ≤ 31 := le_trans h2d (daysInMonth_le _ _)
  have hBi : 1 ≤ (if dt.hour % 12 = 0 then 12 else dt.hour % 12) ∧ (if dt.hour % 12 = 0 then 12 else dt.hour % 12) ≤ 12 := by
    split_ifs <;> omega
  rw [c4render23_eq]
  refine strptimeF_of_none _ _ ?_
  show runDirs (Dir.dd :: [Dir.lit '-', Dir.dm, Dir.lit '-', Dir.dY, Dir.ws, Dir.dH, Dir.lit ':', Dir.dM]) {} _ = _
  rw [runDirs_dd_pad _ _ dt.month _ (by omega) (kill_lit _ '-' (by decide) _ _),
    if_pos (by omega),
    runDirs_lit_ne _ _ _ _ _ (by decide)]

theorem c4fail_17_23 (dt : DT) (h : Rep fmt23 dt) :
    strptimeF fmt17 (render fmt23 dt) = none := by
  obtain ⟨hval, hyr, hsec⟩ := h
  simp only [validPy] at hval
  obtain ⟨h1y, h2y, h1m, h2m, h1d, h2d, hH, hMi, hSs⟩ := hval
  have hyr' : 1000 ≤ dt.year ∧ dt.year ≤ 9999 := by
    rw [if_neg (by decide)] at hyr
    exact hyr
  have hd31 : dt.day ≤ 31 := le_trans h2d (daysInMonth_le _ _)
  have hBi : 1 ≤ (if dt.hour % 12 = 0 then 12 else dt.hour % 12) ∧ (if dt.hour % 12 = 0 then 12 else dt.hour % 12) ≤ 12 := by
    split_ifs <;> omega
  rw [c4render23_eq]
  refine strptimeF_of_none _ _ ?_
  show runDirs (Dir.dd :: [Dir.lit '-', Dir.dm, Dir.lit '-', Dir.dY, Dir.lit ',', Dir.ws, Dir.dH, Dir.lit ':', Dir.dM]) {} _ = _
  rw [runDirs_dd_pad _ _ dt.month _ (by omega) (kill_lit _ '-' (by decide) _ _),
    if_pos (by omega),
    runDirs_lit_ne _ _ _ _ _ (by decide)]

theorem c4fail_18_23 (dt : DT) (h : Rep fmt23 dt) :
    strptimeF fmt18 (render fmt23 dt) = none := by
  obtain ⟨hval, hyr, hsec⟩ := h
  simp only [validPy] at hval
  obtain ⟨h1y, h2y, h1m, h2m, h1d, h2d, hH, hMi, hSs⟩ := hval
  have hyr' : 1000 ≤ dt.year ∧ dt.year ≤ 9999 := by
    rw [if_neg (by decide)] at hyr
    exact hyr
  have hd31 : dt.day ≤ 31 := le_trans h2d (daysInMonth_le _ _)
  have hBi : 1 ≤ (if dt.hour % 12 = 0 then 12 else dt.hour % 12) ∧ (if dt.hour % 12 = 0 then 12 else dt.hour % 12) ≤ 12 := by
    split_ifs <;> omega
  rw [c4render23_eq]
  refine strptimeF_of_none _ _ ?_
  show runDirs (Dir.dd :: [Dir.lit '-', Dir.dm, Dir.lit '-', Dir.dy, Dir.ws, Dir.dH, Dir.lit ':', Dir.dM]) {} _ = _
  rw [runDirs_dd_pad _ _ dt.month _ (by omega) (kill_lit _ '-' (by decide) _ _),
    if_pos (by omega),
    runDirs_lit_ne _ _ _ _ _ (by decide)]

theorem c4fail_19_23 (dt : DT) (h : Rep fmt23 dt) :
    strptimeF fmt19 (render fmt23 dt) = none := by
  obtain ⟨hval, hyr, hsec⟩ := h
  simp only [validPy] at hval
  obtain ⟨h1y, h2y, h1m, h2m, h1d, h2d, hH, hMi, hSs⟩ := hval
  have hyr' : 1000 ≤ dt.year ∧ dt.year ≤ 9999 := by
    rw [if_neg (by decide)] at hyr
    exact hyr
  have hd31 : dt.day ≤ 31 := le_trans h2d (daysInMonth_le _ _)
  have hBi : 1 ≤ (if dt.hour % 12 = 0 then 12 else dt.hour % 12) ∧ (if dt.hour % 12 = 0 then 12 else dt.hour % 12) ≤ 12 := by
    split_ifs <;> omega
  rw [c4render23_eq]
  refine strptimeF_of_none _ _ ?_
  show runDirs (Dir.dd :: [Dir.lit '-', Dir.dm, Dir.lit '-', Dir.dy, Dir.lit ',', Dir.ws, Dir.dH, Dir.lit ':', Dir.dM]) {} _ = _
  rw [runDirs_dd_pad _ _ dt.month _ (by omega) (kill_lit _ '-' (by decide) _ _),
    if_pos (by omega),
    runDirs_lit_ne _ _ _ _ _ (by decide)]

theorem c4fail_20_23 (dt : DT) (h : Rep fmt23 dt) :
    strptimeF fmt20 (render fmt23 dt) = none := by
  obtain ⟨hval, hyr, hsec⟩ := h
  simp only [validPy] at hval
  obtain ⟨h1y, h2y, h1m, h2m, h1d, h2d, hH, hMi, hSs⟩ := hval
  have hyr' : 1000 ≤ dt.year ∧ dt.year ≤ 9999 := by
    rw [if_neg (by decide)] at hyr
    exact hyr
  have hd31 : dt.day ≤ 31 := le_trans h2d (daysInMonth_le _ _)
  have hBi : 1 ≤ (if dt.hour % 12 = 0 then 12 else dt.hour % 12) ∧ (if dt.hour % 12 = 0 then 12 else dt.hour % 12) ≤ 12 := by
    split_ifs <;> omega
  rw [c4render23_eq]
  by_cases hc1 : 1 ≤ dt.day ∧ dt.day ≤ 12
  · refine strptimeF_of_none _ _ ?_
    show runDirs (Dir.dd :: [Dir.lit '/', Dir.dm, Dir.lit '/', Dir.dY, Dir.ws, Dir.dH, Dir.lit ':', Dir.dM, Dir.lit ':', Dir.dS]) {} _ = _
    rw [runDirs_dd_pad _ _ dt.month _ (by omega) (kill_lit _ '/' (by decide) _ _),
      if_pos (by omega),
      runDirs_lit_eq,
      runDirs_dm_pad _ _ dt.day _ (by omega) (kill_lit _ '/' (by decide) _ _),
      if_pos hc1,
      runDirs_lit_eq,
      runDirs_dY_pad _ _ dt.year (by omega) _,
      runDirs_ws_none _ _ _ _ (by decide)]
  · refine strptimeF_of_none _ _ ?_
    show runDirs (Dir.dd :: [Dir.lit '/', Dir.dm, Dir.lit '/', Dir.dY, Dir.ws, Dir.dH, Dir.lit ':', Dir.dM, Dir.lit ':', Dir.dS]) {} _ = _
    rw [runDirs_dd_pad _ _ dt.month _ (by omega) (kill_lit _ '/' (by decide) _ _),
      if_pos (by omega),
      runDirs_lit_eq,
      runDirs_dm_pad _ _ dt.day _ (by omega) (kill_lit _ '/' (by decide) _ _),
      if_neg hc1]

theorem c4fail_21_23 (dt : DT) (h : Rep fmt23 dt) :
    strptimeF fmt21 (render fmt23 dt) = none := by
  obtain ⟨hval, hyr, hsec⟩ := h
  simp only [validPy] at hval
  obtain ⟨h1y, h2y, h1m, h2m, h1d, h2d, hH, hMi, hSs⟩ := hval
  have hyr' : 1000 ≤ dt.year ∧ dt.year ≤ 9999 := by
    rw [if_neg (by decide)] at hyr
    exact hyr
  have hd31 : dt.day ≤ 31 := le_trans h2d (daysInMonth_le _ _)
  have hBi : 1 ≤ (if dt.hour % 12 = 0 then 12 else dt.hour % 12) ∧ (if dt.hour % 12 = 0 then 12 else dt.hour % 12) ≤ 12 := by
    split_ifs <;> omega
  rw [c4render23_eq]
  by_cases hc1 : 1 ≤ dt.day ∧ dt.day ≤ 12
  · refine strptimeF_of_rest_ne _ _ (⟨some dt.month, some dt.day, none, some dt.year, some (if dt.hour % 12 = 0 then 12 else dt.hour % 12), none, some dt.minute, some dt.second, none⟩)
      (' ' :: ((if dt.hour < 12 then ['A', 'M'] else ['P', 'M']) ++ ([]))) ?_ ?_
    · show runDirs (Dir.dd :: [Dir.lit '/', Dir.dm, Dir.lit '/', Dir.dY, Dir.lit ',', Dir.ws, Dir.dH, Dir.lit ':', Dir.dM, Dir.lit ':', Dir.dS]) {} _ = _
      rw [runDirs_dd_pad _ _ dt.month _ (by omega) (kill_lit _ '/' (by decide) _ _),
        if_pos (by omega),
        runDirs_lit_eq,
        runDirs_dm_pad _ _ dt.day _ (by omega) (kill_lit _ '/' (by decide) _ _),
        if_pos hc1,
        runDirs_lit_eq,
        runDirs_dY_pad _ _ dt.year (by omega) _,
        runDirs_lit_eq,
        runDirs_ws_single _ _ _ (wsCount_pad2 _ _),
        runDirs_dH_pad _ _ (if dt.hour % 12 = 0 then 12 else dt.hour % 12) _ (by omega) (kill_lit _ ':' (by decide) _ _),
        if_pos (by omega),
        runDirs_lit_eq,
        runDirs_dM_pad _ _ dt.minute _ (by omega) (kill_lit _ ':' (by decide) _ _),
        if_pos (by omega),
        runDirs_lit_eq,
        runDirs_dS_last _ dt.second _ (by omega) (by omega)]
    · exact by simp [ampm_cons, pad2_eq, pad4_eq]
  · refine strptimeF_of_none _ _ ?_
    show runDirs (Dir.dd :: [Dir.lit '/', Dir.dm, Dir.lit '/', Dir.dY, Dir.lit ',', Dir.ws, Dir.dH, Dir.lit ':', Dir.dM, Dir.lit ':', Dir.dS]) {} _ = _
    rw [runDirs_dd_pad _ _ dt.month _ (by omega) (kill_lit _ '/' (by decide) _ _),
      if_pos (by omega),
      runDirs_lit_eq,
      runDirs_dm_pad _ _ dt.day _ (by omega) (kill_lit _ '/' (by decide) _ _),
      if_neg hc1]

theorem c4fail_22_23 (dt : DT) (h : Rep fmt23 dt) :
    strptimeF fmt22 (render fmt23 dt) = none := by
  obtain ⟨hval, hyr, hsec⟩ := h
  simp only [validPy] at hval
  obtain ⟨h1y, h2y, h1m, h2m, h1d, h2d, hH, hMi, hSs⟩ := hval
  have hyr' : 1000 ≤ dt.year ∧ dt.year ≤ 9999 := by
    rw [if_neg (by decide)] at hyr
    exact hyr
  have hd31 : dt.day ≤ 31 := le_trans h2d (daysInMonth_le _ _)
  have hBi : 1 ≤ (if dt.hour % 12 = 0 then 12 else dt.hour % 12) ∧ (if dt.hour % 12 = 0 then 12 else dt.hour % 12) ≤ 12 := by
    split_ifs <;> omega
  rw [c4render23_eq]
  refine strptimeF_of_none _ _ ?_
  show runDirs (Dir.dm :: [Dir.lit '/', Dir.dd, Dir.lit '/', Dir.dY, Dir.ws, Dir.dI, Dir.lit ':', Dir.dM, Dir.lit ':', Dir.dS, Dir.ws, Dir.dp]) {} _ = _
  rw [runDirs_dm_pad _ _ dt.month _ (by omega) (kill_lit _ '/' (by decide) _ _),
    if_pos (by omega),
    runDirs_lit_eq,
    runDirs_dd_pad _ _ dt.day _ (by omega) (kill_lit _ '/' (by decide) _ _),
    if_pos (by omega),
    runDirs_lit_eq,
    runDirs_dY_pad _ _ dt.year (by omega) _,
    runDirs_ws_none _ _ _ _ (by decide)]

theorem c4rt23 (dt : DT) (h : Rep fmt23 dt) :
    parseTimestampCore (render fmt23 dt) = some dt := by
  rw [parseTimestampCore_eq, c4trim23]
  simp only [formats]
  rw [tryFormats_cons_none _ _ _ (c4fail_0_23 dt h),
    tryFormats_cons_none _ _ _ (c4fail_1_23 dt h),
    tryFormats_cons_none _ _ _ (c4fail_2_23 dt h),
    tryFormats_cons_none _ _ _ (c4fail_3_23 dt h),
    tryFormats_cons_none _ _ _ (c4fail_4_23 dt h),
    tryFormats_cons_none _ _ _ (c4fail_5_23 dt h),
    tryFormats_cons_none _ _ _ (c4fail_6_23 dt h),
    tryFormats_cons_none _ _ _ (c4fail_7_23 dt h),
    tryFormats_cons_none _ _ _ (c4fail_8_23 dt h),
    tryFormats_cons_none _ _ _ (c4fail_9_23 dt h),
    tryFormats_cons_none _ _ _ (c4fail_10_23 dt h),
    tryFormats_cons_none _ _ _ (c4fail_11_23 dt h),
    tryFormats_cons_none _ _ _ (c4fail_12_23 dt h),
    tryFormats_cons_none _ _ _ (c4fail_13_23 dt h),
    tryFormats_cons_none _ _ _ (c4fail_14_23 dt h),
    tryFormats_cons_none _ _ _ (c4fail_15_23 dt h),
    tryFormats_cons_none _ _ _ (c4fail_16_23 dt h),
    tryFormats_cons_none _ _ _ (c4fail_17_23 dt h),
    tryFormats_cons_none _ _ _ (c4fail_18_23 dt h),
    tryFormats_cons_none _ _ _ (c4fail_19_23 dt h),
    tryFormats_cons_none _ _ _ (c4fail_20_23 dt h),
    tryFormats_cons_none _ _ _ (c4fail_21_23 dt h),
    tryFormats_cons_none _ _ _ (c4fail_22_23 dt h),
    tryFormats_cons_some _ _ _ _ (c4self23 dt h)]

theorem c4render24_eq (dt : DT) :
    render fmt24 dt
      = '[' :: (pad4 dt.year ++ ('-' :: (pad2 dt.month ++ ('-' :: (pad2 dt.day ++ (' ' :: (pad2 dt.hour ++ (':' :: (pad2 dt.minute ++ (':' :: (pad2 dt.second ++ (']' :: ([]))))))))))))) := rfl


theorem c4trim24 (dt : DT) : trimChars (render fmt24 dt) = render fmt24 dt := by
  apply trimChars_of_hl
  · rw [c4render24_eq]
    simp only [pad2_eq, pad4_eq, List.cons_append, List.nil_append]
    exact ⟨_, _, rfl, (by decide)⟩
  · rw [c4render24_eq]
    simp only [ampm_cons, pad2_eq, pad4_eq, List.reverse_cons, List.reverse_append,
      List.append_assoc, List.cons_append, List.nil_append, List.reverse_nil,
      List.append_nil]
    exact ⟨_, _, rfl, (by decide)⟩

theorem c4self24 (dt : DT) (h : Rep fmt24 dt) :
    strptimeF fmt24 (render fmt24 dt) = some dt := by
  obtain ⟨hval, hyr, hsec⟩ := h
  simp only [validPy] at hval
  obtain ⟨h1y, h2y, h1m, h2m, h1d, h2d, hH, hMi, hSs⟩ := hval
  have hyr' : 1000 ≤ dt.year ∧ dt.year ≤ 9999 := by
    rw [if_neg (by decide)] at hyr
    exact hyr
  have hd31 : dt.day ≤ 31 := le_trans h2d (daysInMonth_le _ _)
  rw [c4render24_eq]
  have hrun : runDirs fmt24 {} ('[' :: (pad4 dt.year ++ ('-' :: (pad2 dt.month ++ ('-' :: (pad2 dt.day ++ (' ' :: (pad2 dt.hour ++ (':' :: (pad2 dt.minute ++ (':' :: (pad2 dt.second ++ (']' :: ([]))))))))))))))
      = some (⟨some dt.day, some dt.month, none, some dt.year, some dt.hour, none, some dt.minute, some dt.second, none⟩, []) := by
    show runDirs (Dir.lit '[' :: [Dir.dY, Dir.lit '-', Dir.dm, Dir.lit '-', Dir.dd, Dir.ws, Dir.dH, Dir.lit ':', Dir.dM, Dir.lit ':', Dir.dS, Dir.lit ']']) {} _ = _
    rw [runDirs_lit_eq,
      runDirs_dY_pad _ _ dt.year (by omega) _,
      runDirs_lit_eq,
      runDirs_dm_pad _ _ dt.month _ (by omega) (kill_lit _ '-' (by decide) _ _),
      if_pos (by omega),
      runDirs_lit_eq,
      runDirs_dd_pad _ _ dt.day _ (by omega) (kill_ws _ _ _),
      if_pos (by omega),
      runDirs_ws_single _ _ _ (wsCount_pad2 _ _),
      runDirs_dH_pad _ _ dt.hour _ (by omega) (kill_lit _ ':' (by decide) _ _),
      if_pos (by omega),
      runDirs_lit_eq,
      runDirs_dM_pad _ _ dt.minute _ (by omega) (kill_lit _ ':' (by decide) _ _),
      if_pos (by omega),
      runDirs_lit_eq,
      runDirs_dS_pad _ _ dt.second _ (by omega) (kill_lit _ ']' (by decide) _ _),
      if_pos (by omega),
      runDirs_lit_eq,
      runDirs_nil_eq]
  rw [strptimeF_of_done _ _ _ hrun]
  unfold buildDT
  dsimp only
  simp only [Option.getD_some, Option.getD_none]
  rw [mkDT, if_pos (by omega)]

theorem c4fail_0_24 (dt : DT) (h : Rep fmt24 dt) :
    strptimeF fmt0 (render fmt24 dt) = none := by
  obtain ⟨hval, hyr, hsec⟩ := h
  simp only [validPy] at hval
  obtain ⟨h1y, h2y, h1m, h2m, h1d, h2d, hH, hMi, hSs⟩ := hval
  have hyr' : 1000 ≤ dt.year ∧ dt.year ≤ 9999 := by
    rw [if_neg (by decide)] at hyr
    exact hyr
  have hd31 : dt.day ≤ 31 := le_trans h2d (daysInMonth_le _ _)
  rw [c4render24_eq]
  refine strptimeF_of_none _ _ ?_
  show runDirs (Dir.dd :: [Dir.lit '/', Dir.dm, Dir.lit '/', Dir.dY, Dir.ws, Dir.dH, Dir.lit ':', Dir.dM]) {} _ = _
  rw [runDirs_dd_nodigit _ _ _ _ (by decide)]

theorem c4fail_1_24 (dt : DT) (h : Rep fmt24 dt) :
    strptimeF fmt1 (render fmt24 dt) = none := by
  obtain ⟨hval, hyr, hsec⟩ := h
  simp only [validPy] at hval
  obtain ⟨h1y, h2y, h1m, h2m, h1d, h2d, hH, hMi, hSs⟩ := hval
  have hyr' : 1000 ≤ dt.year ∧ dt.year ≤ 9999 := by
    rw [if_neg (by decide)] at hyr
    exact hyr
  have hd31 : dt.day ≤ 31 := le_trans h2d (daysInMonth_le _ _)
  rw [c4render24_eq]
  refine strptimeF_of_none _ _ ?_
  show runDirs (Dir.dd :: [Dir.lit '/', Dir.dm, Dir.lit '/', Dir.dY, Dir.lit ',', Dir.ws, Dir.dH, Dir.lit ':', Dir.dM]) {} _ = _
  rw [runDirs_dd_nodigit _ _ _ _ (by decide)]

theorem c4fail_2_24 (dt : DT) (h : Rep fmt24 dt) :
    strptimeF fmt2 (render fmt24 dt) = none := by
  obtain ⟨hval, hyr, hsec⟩ := h
  simp only [validPy] at hval
  obtain ⟨h1y, h2y, h1m, h2m, h1d, h2d, hH, hMi, hSs⟩ := hval
  have hyr' : 1000 ≤ dt.year ∧ dt.year ≤ 9999 := by
    rw [if_neg (by decide)] at hyr
    exact hyr
  have hd31 : dt.day ≤ 31 := le_trans h2d (daysInMonth_le _ _)
  rw [c4render24_eq]
  refine strptimeF_of_none _ _ ?_
  show runDirs (Dir.dd :: [Dir.lit '/', Dir.dm, Dir.lit '/', Dir.dy, Dir.ws, Dir.dH, Dir.lit ':', Dir.dM]) {} _ = _
  rw [runDirs_dd_nodigit _ _ _ _ (by decide)]

theorem c4fail_3_24 (dt : DT) (h : Rep fmt24 dt) :
    strptimeF fmt3 (render fmt24 dt) = none := by
  obtain ⟨hval, hyr, hsec⟩ := h
  simp only [validPy] at hval
  obtain ⟨h1y, h2y, h1m, h2m, h1d, h2d, hH, hMi, hSs⟩ := hval
  have hyr' : 1000 ≤ dt.year ∧ dt.year ≤ 9999 := by
    rw [if_neg (by decide)] at hyr
    exact hyr
  have hd31 : dt.day ≤ 31 := le_trans h2d (daysInMonth_le _ _)
  rw [c4render24_eq]
  refine strptimeF_of_none _ _ ?_
  show runDirs (Dir.dd :: [Dir.lit '/', Dir.dm, Dir.lit '/', Dir.dy, Dir.lit ',', Dir.ws, Dir.dH, Dir.lit ':', Dir.dM]) {} _ = _
  rw [runDirs_dd_nodigit _ _ _ _ (by decide)]

theorem c4fail_4_24 (dt : DT) (h : Rep fmt24 dt) :
    strptimeF fmt4 (render fmt24 dt) = none := by
  obtain ⟨hval, hyr, hsec⟩ := h
  simp only [validPy] at hval
  obtain ⟨h1y, h2y, h1m, h2m, h1d, h2d, hH, hMi, hSs⟩ := hval
  have hyr' : 1000 ≤ dt.year ∧ dt.year ≤ 9999 := by
    rw [if_neg (by decide)] at hyr
    exact hyr
  have hd31 : dt.day ≤ 31 := le_trans h2d (daysInMonth_le _ _)
  rw [c4render24_eq]
  refine strptimeF_of_none _ _ ?_
  show runDirs (Dir.dm :: [Dir.lit '/', Dir.dd, Dir.lit '/', Dir.dY, Dir.ws, Dir.dI, Dir.lit ':', Dir.dM, Dir.ws, Dir.dp]) {} _ = _
  rw [runDirs_dm_nodigit _ _ _ _ (by decide)]

theorem c4fail_5_24 (dt : DT) (h : Rep fmt24 dt) :
    strptimeF fmt5 (render fmt24 dt) = none := by
  obtain ⟨hval, hyr, hsec⟩ := h
  simp only [validPy] at hval
  obtain ⟨h1y, h2y, h1m, h2m, h1d, h2d, hH, hMi, hSs⟩ := hval
  have hyr' : 1000 ≤ dt.year ∧ dt.year ≤ 9999 := by
    rw [if_neg (by decide)] at hyr
    exact hyr
  have hd31 : dt.day ≤ 31 := le_trans h2d (daysInMonth_le _ _)
  rw [c4render24_eq]
  refine strptimeF_of_none _ _ ?_
  show runDirs (Dir.dm :: [Dir.lit '/', Dir.dd, Dir.lit '/', Dir.dY, Dir.lit ',', Dir.ws, Dir.dI, Dir.lit ':', Dir.dM, Dir.ws, Dir.dp]) {} _ = _
  rw [runDirs_dm_nodigit _ _ _ _ (by decide)]

theorem c4fail_6_24 (dt : DT) (h : Rep fmt24 dt) :
    strptimeF fmt6 (render fmt24 dt) = none := by
  obtain ⟨hval, hyr, hsec⟩ := h
  simp only [validPy] at hval
  obtain ⟨h1y, h2y, h1m, h2m, h1d, h2d, hH, hMi, hSs⟩ := hval
  have hyr' : 1000 ≤ dt.year ∧ dt.year ≤ 9999 := by
    rw [if_neg (by decide)] at hyr
    exact hyr
  have hd31 : dt.day ≤ 31 := le_trans h2d (daysInMonth_le _ _)
  rw [c4render24_eq]
  refine strptimeF_of_none _ _ ?_
  show runDirs (Dir.dm :: [Dir.lit '/', Dir.dd, Dir.lit '/', Dir.dy, Dir.ws, Dir.dI, Dir.lit ':', Dir.dM, Dir.ws, Dir.dp]) {} _ = _
  rw [runDirs_dm_nodigit _ _ _ _ (by decide)]

theorem c4fail_7_24 (dt : DT) (h : Rep fmt24 dt) :
    strptimeF fmt7 (render fmt24 dt) = none := by
  obtain ⟨hval, hyr, hsec⟩ := h
  simp only [validPy] at hval
  obtain ⟨h1y, h2y, h1m, h2m, h1d, h2d, hH, hMi, hSs⟩ := hval
  have hyr' : 1000 ≤ dt.year ∧ dt.year ≤ 9999 := by
    rw [if_neg (by decide)] at hyr
    exact hyr
  have hd31 : dt.day ≤ 31 := le_trans h2d (daysInMonth_le _ _)
  rw [c4render24_eq]
  refine strptimeF_of_none _ _ ?_
  show runDirs (Dir.dm :: [Dir.lit '/', Dir.dd, Dir.lit '/', Dir.dy, Dir.lit ',', Dir.ws, Dir.dI, Dir.lit ':', Dir.dM, Dir.ws, Dir.dp]) {} _ = _
  rw [runDirs_dm_nodigit _ _ _ _ (by decide)]

theorem c4fail_8_24 (dt : DT) (h : Rep fmt24 dt) :
    strptimeF fmt8 (render fmt24 dt) = none := by
  obtain ⟨hval, hyr, hsec⟩ := h
  simp only [validPy] at hval
  obtain ⟨h1y, h2y, h1m, h2m, h1d, h2d, hH, hMi, hSs⟩ := hval
  have hyr' : 1000 ≤ dt.year ∧ dt.year ≤ 9999 := by
    rw [if_neg (by decide)] at hyr
    exact hyr
  have hd31 : dt.day ≤ 31 := le_trans h2d (daysInMonth_le _ _)
  rw [c4render24_eq]
  refine strptimeF_of_none _ _ ?_
  show runDirs (Dir.dY :: [Dir.lit '-', Dir.dm, Dir.lit '-', Dir.dd, Dir.ws, Dir.dH, Dir.lit ':', Dir.dM]) {} _ = _
  rw [runDirs_dY_nodigit _ _ _ _ (by decide)]

theorem c4fail_9_24 (dt : DT) (h : Rep fmt24 dt) :
    strptimeF fmt9 (render fmt24 dt) = none := by
  obtain ⟨hval, hyr, hsec⟩ := h
  simp only [validPy] at hval
  obtain ⟨h1y, h2y, h1m, h2m, h1d, h2d, hH, hMi, hSs⟩ := hval
  have hyr' : 1000 ≤ dt.year ∧ dt.year ≤ 9999 := by
    rw [if_neg (by decide)] at hyr
    exact hyr
  have hd31 : dt.day ≤ 31 := le_trans h2d (daysInMonth_le _ _)
  rw [c4render24_eq]
  refine strptimeF_of_none _ _ ?_
  show runDirs (Dir.dY :: [Dir.lit '-', Dir.dm, Dir.lit '-', Dir.dd, Dir.lit ',', Dir.ws, Dir.dH, Dir.lit ':', Dir.dM]) {} _ = _
  rw [runDirs_dY_nodigit _ _ _ _ (by decide)]

theorem c4fail_10_24 (dt : DT) (h : Rep fmt24 dt) :
    strptimeF fmt10 (render fmt24 dt) = none := by
  obtain ⟨hval, hyr, hsec⟩ := h
  simp only [validPy] at hval
  obtain ⟨h1y, h2y, h1m, h2m, h1d, h2d, hH, hMi, hSs⟩ := hval
  have hyr' : 1000 ≤ dt.year ∧ dt.year ≤ 9999 := by
    rw [if_neg (by decide)] at hyr
    exact hyr
  have hd31 : dt.day ≤ 31 := le_trans h2d (daysInMonth_le _ _)
  rw [c4render24_eq]
  refine strptimeF_of_none _ _ ?_
  show runDirs (Dir.dY :: [Dir.lit '/', Dir.dm, Dir.lit '/', Dir.dd, Dir.ws, Dir.dH, Dir.lit ':', Dir.dM]) {} _ = _
  rw [runDirs_dY_nodigit _ _ _ _ (by decide)]

theorem c4fail_11_24 (dt : DT) (h : Rep fmt24 dt) :
    strptimeF fmt11 (render fmt24 dt) = none := by
  obtain ⟨hval, hyr, hsec⟩ := h
  simp only [validPy] at hval
  obtain ⟨h1y, h2y, h1m, h2m, h1d, h2d, hH, hMi, hSs⟩ := hval
  have hyr' : 1000 ≤ dt.year ∧ dt.year ≤ 9999 := by
    rw [if_neg (by decide)] at hyr
    exact hyr
  have hd31 : dt.day ≤ 31 := le_trans h2d (daysInMonth_le _ _)
  rw [c4render24_eq]
  refine strptimeF_of_none _ _ ?_
  show runDirs (Dir.dY :: [Dir.lit '/', Dir.dm, Dir.lit '/', Dir.dd, Dir.lit ',', Dir.ws, Dir.dH, Dir.lit ':', Dir.dM]) {} _ = _
  rw [runDirs_dY_nodigit _ _ _ _ (by decide)]

theorem c4fail_12_24 (dt : DT) (h : Rep fmt24 dt) :
    strptimeF fmt12 (render fmt24 dt) = none := by
  obtain ⟨hval, hyr, hsec⟩ := h
  simp only [validPy] at hval
  obtain ⟨h1y, h2y, h1m, h2m, h1d, h2d, hH, hMi, hSs⟩ := hval
  have hyr' : 1000 ≤ dt.year ∧ dt.year ≤ 9999 := by
    rw [if_neg (by decide)] at hyr
    exact hyr
  have hd31 : dt.day ≤ 31 := le_trans h2d (daysInMonth_le _ _)
  rw [c4render24_eq]
  refine strptimeF_of_none _ _ ?_
  show runDirs (Dir.dd :: [Dir.lit '.', Dir.dm, Dir.lit '.', Dir.dY, Dir.ws, Dir.dH, Dir.lit ':', Dir.dM]) {} _ = _
  rw [runDirs_dd_nodigit _ _ _ _ (by decide)]

theorem c4fail_13_24 (dt : DT) (h : Rep fmt24 dt) :
    strptimeF fmt13 (render fmt24 dt) = none := by
  obtain ⟨hval, hyr, hsec⟩ := h
  simp only [validPy] at hval
  obtain ⟨h1y, h2y, h1m, h2m, h1d, h2d, hH, hMi, hSs⟩ := hval
  have hyr' : 1000 ≤ dt.year ∧ dt.year ≤ 9999 := by
    rw [if_neg (by decide)] at hyr
    exact hyr
  have hd31 : dt.day ≤ 31 := le_trans h2d (daysInMonth_le _ _)
  rw [c4render24_eq]
  refine strptimeF_of_none _ _ ?_
  show runDirs (Dir.dd :: [Dir.lit '.', Dir.dm, Dir.lit '.', Dir.dY, Dir.lit ',', Dir.ws, Dir.dH, Dir.lit ':', Dir.dM]) {} _ = _
  rw [runDirs_dd_nodigit _ _ _ _ (by decide)]

theorem c4fail_14_24 (dt : DT) (h : Rep fmt24 dt) :
    strptimeF fmt14 (render fmt24 dt) = none := by
  obtain ⟨hval, hyr, hsec⟩ := h
  simp only [validPy] at hval
  obtain ⟨h1y, h2y, h1m, h2m, h1d, h2d, hH, hMi, hSs⟩ := hval
  have hyr' : 1000 ≤ dt.year ∧ dt.year ≤ 9999 := by
    rw [if_neg (by decide)] at hyr
    exact hyr
  have hd31 : dt.day ≤ 31 := le_trans h2d (daysInMonth_le _ _)
  rw [c4render24_eq]
  refine strptimeF_of_none _ _ ?_
  show runDirs (Dir.dd :: [Dir.lit '.', Dir.dm, Dir.lit '.', Dir.dy, Dir.ws, Dir.dH, Dir.lit ':', Dir.dM]) {} _ = _
  rw [runDirs_dd_nodigit _ _ _ _ (by decide)]

theorem c4fail_15_24 (dt : DT) (h : Rep fmt24 dt) :
    strptimeF fmt15 (render fmt24 dt) = none := by
  obtain ⟨hval, hyr, hsec⟩ := h
  simp only [validPy] at hval
  obtain ⟨h1y, h2y, h1m, h2m, h1d, h2d, hH, hMi, hSs⟩ := hval
  have hyr' : 1000 ≤ dt.year ∧ dt.year ≤ 9999 := by
    rw [if_neg (by decide)] at hyr
    exact hyr
  have hd31 : dt.day ≤ 31 := le_trans h2d (daysInMonth_le _ _)
  rw [c4render24_eq]
  refine strptimeF_of_none _ _ ?_
  show runDirs (Dir.dd :: [Dir.lit '.', Dir.dm, Dir.lit '.', Dir.dy, Dir.lit ',', Dir.ws, Dir.dH, Dir.lit ':', Dir.dM]) {} _ = _
  rw [runDirs_dd_nodigit _ _ _ _ (by decide)]

theorem c4fail_16_24 (dt : DT) (h : Rep fmt24 dt) :
    strptimeF fmt16 (render fmt24 dt) = none := by
  obtain ⟨hval, hyr, hsec⟩ := h
  simp only [validPy] at hval
  obtain ⟨h1y, h2y, h1m, h2m, h1d, h2d, hH, hMi, hSs⟩ := hval
  have hyr' : 1000 ≤ dt.year ∧ dt.year ≤ 9999 := by
    rw [if_neg (by decide)] at hyr
    exact hyr
  have hd31 : dt.day ≤ 31 := le_trans h2d (daysInMonth_le _ _)
  rw [c4render24_eq]
  refine strptimeF_of_none _ _ ?_
  show runDirs (Dir.dd :: [Dir.lit '-', Dir.dm, Dir.lit '-', Dir.dY, Dir.ws, Dir.dH, Dir.lit ':', Dir.dM]) {} _ = _
  rw [runDirs_dd_nodigit _ _ _ _ (by decide)]

theorem c4fail_17_24 (dt : DT) (h : Rep fmt24 dt) :
    strptimeF fmt17 (render fmt24 dt) = none := by
  obtain ⟨hval, hyr, hsec⟩ := h
  simp only [validPy] at hval
  obtain ⟨h1y, h2y, h1m, h2m, h1d, h2d, hH, hMi, hSs⟩ := hval
  have hyr' : 1000 ≤ dt.year ∧ dt.year ≤ 9999 := by
    rw [if_neg (by decide)] at hyr
    exact hyr
  have hd31 : dt.day ≤ 31 := le_trans h2d (daysInMonth_le _ _)
  rw [c4render24_eq]
  refine strptimeF_of_none _ _ ?_
  show runDirs (Dir.dd :: [Dir.lit '-', Dir.dm, Dir.lit '-', Dir.dY, Dir.lit ',', Dir.ws, Dir.dH, Dir.lit ':', Dir.dM]) {} _ = _
  rw [runDirs_dd_nodigit _ _ _ _ (by decide)]

theorem c4fail_18_24 (dt : DT) (h : Rep fmt24 dt) :
    strptimeF fmt18 (render fmt24 dt) = none := by
  obtain ⟨hval, hyr, hsec⟩ := h
  simp only [validPy] at hval
  obtain ⟨h1y, h2y, h1m, h2m, h1d, h2d, hH, hMi, hSs⟩ := hval
  have hyr' : 1000 ≤ dt.year ∧ dt.year ≤ 9999 := by
    rw [if_neg (by decide)] at hyr
    exact hyr
  have hd31 : dt.day ≤ 31 := le_trans h2d (daysInMonth_le _ _)
  rw [c4render24_eq]
  refine strptimeF_of_none _ _ ?_
  show runDirs (Dir.dd :: [Dir.lit '-', Dir.dm, Dir.lit '-', Dir.dy, Dir.ws, Dir.dH, Dir.lit ':', Dir.dM]) {} _ = _
  rw [runDirs_dd_nodigit _ _ _ _ (by decide)]

theorem c4fail_19_24 (dt : DT) (h : Rep fmt24 dt) :
    strptimeF fmt19 (render fmt24 dt) = none := by
  obtain ⟨hval, hyr, hsec⟩ := h
  simp only [validPy] at hval
  obtain ⟨h1y, h2y, h1m, h2m, h1d, h2d, hH, hMi, hSs⟩ := hval
  have hyr' : 1000 ≤ dt.year ∧ dt.year ≤ 9999 := by
    rw [if_neg (by decide)] at hyr
    exact hyr
  have hd31 : dt.day ≤ 31 := le_trans h2d (daysInMonth_le _ _)
  rw [c4render24_eq]
  refine strptimeF_of_none _ _ ?_
  show runDirs (Dir.dd :: [Dir.lit '-', Dir.dm, Dir.lit '-', Dir.dy, Dir.lit ',', Dir.ws, Dir.dH, Dir.lit ':', Dir.dM]) {} _ = _
  rw [runDirs_dd_nodigit _ _ _ _ (by decide)]

theorem c4fail_20_24 (dt : DT) (h : Rep fmt24 dt) :
    strptimeF fmt20 (render fmt24 dt) = none := by
  obtain ⟨hval, hyr, hsec⟩ := h
  simp only [validPy] at hval
  obtain ⟨h1y, h2y, h1m, h2m, h1d, h2d, hH, hMi, hSs⟩ := hval
  have hyr' : 1000 ≤ dt.year ∧ dt.year ≤ 9999 := by
    rw [if_neg (by decide)] at hyr
    exact hyr
  have hd31 : dt.day ≤ 31 := le_trans h2d (daysInMonth_le _ _)
  rw [c4render24_eq]
  refine strptimeF_of_none _ _ ?_
  show runDirs (Dir.dd :: [Dir.lit '/', Dir.dm, Dir.lit '/', Dir.dY, Dir.ws, Dir.dH, Dir.lit ':', Dir.dM, Dir.lit ':', Dir.dS]) {} _ = _
  rw [runDirs_dd_nodigit _ _ _ _ (by decide)]

theorem c4fail_21_24 (dt : DT) (h : Rep fmt24 dt) :
    strptimeF fmt21 (render fmt24 dt) = none := by
  obtain ⟨hval, hyr, hsec⟩ := h
  simp only [validPy] at hval
  obtain ⟨h1y, h2y, h1m, h2m, h1d, h2d, hH, hMi, hSs⟩ := hval
  have hyr' : 1000 ≤ dt.year ∧ dt.year ≤ 9999 := by
    rw [if_neg (by decide)] at hyr
    exact hyr
  have hd31 : dt.day ≤ 31 := le_trans h2d (daysInMonth_le _ _)
  rw [c4render24_eq]
  refine strptimeF_of_none _ _ ?_
  show runDirs (Dir.dd :: [Dir.lit '/', Dir.dm, Dir.lit '/', Dir.dY, Dir.lit ',', Dir.ws, Dir.dH, Dir.lit ':', Dir.dM, Dir.lit ':', Dir.dS]) {} _ = _
  rw [runDirs_dd_nodigit _ _ _ _ (by decide)]

theorem c4fail_22_24 (dt : DT) (h : Rep fmt24 dt) :
    strptimeF fmt22 (render fmt24 dt) = none := by
  obtain ⟨hval, hyr, hsec⟩ := h
  simp only [validPy] at hval
  obtain ⟨h1y, h2y, h1m, h2m, h1d, h2d, hH, hMi, hSs⟩ := hval
  have hyr' : 1000 ≤ dt.year ∧ dt.year ≤ 9999 := by
    rw [if_neg (by decide)] at hyr
    exact hyr
  have hd31 : dt.day ≤ 31 := le_trans h2d (daysInMonth_le _ _)
  rw [c4render24_eq]
  refine strptimeF_of_none _ _ ?_
  show runDirs (Dir.dm :: [Dir.lit '/', Dir.dd, Dir.lit '/', Dir.dY, Dir.ws, Dir.dI, Dir.lit ':', Dir.dM, Dir.lit ':', Dir.dS, Dir.ws, Dir.dp]) {} _ = _
  rw [runDirs_dm_nodigit _ _ _ _ (by decide)]

theorem c4fail_23_24 (dt : DT) (h : Rep fmt24 dt) :
    strptimeF fmt23 (render fmt24 dt) = none := by
  obtain ⟨hval, hyr, hsec⟩ := h
  simp only [validPy] at hval
  obtain ⟨h1y, h2y, h1m, h2m, h1d, h2d, hH, hMi, hSs⟩ := hval
  have hyr' : 1000 ≤ dt.year ∧ dt.year ≤ 9999 := by
    rw [if_neg (by decide)] at hyr
    exact hyr
  have hd31 : dt.day ≤ 31 := le_trans h2d (daysInMonth_le _ _)
  rw [c4render24_eq]
  refine strptimeF_of_none _ _ ?_
  show runDirs (Dir.dm :: [Dir.lit '/', Dir.dd, Dir.lit '/', Dir.dY, Dir.lit ',', Dir.ws, Dir.dI, Dir.lit ':', Dir.dM, Dir.lit ':', Dir.dS, Dir.ws, Dir.dp]) {} _ = _
  rw [runDirs_dm_nodigit _ _ _ _ (by decide)]

theorem c4rt24 (dt : DT) (h : Rep fmt24 dt) :
    parseTimestampCore (render fmt24 dt) = some dt := by
  rw [parseTimestampCore_eq, c4trim24]
  simp only [formats]
  rw [tryFormats_cons_none _ _ _ (c4fail_0_24 dt h),
    tryFormats_cons_none _ _ _ (c4fail_1_24 dt h),
    tryFormats_cons_none _ _ _ (c4fail_2_24 dt h),
    tryFormats_cons_none _ _ _ (c4fail_3_24 dt h),
    tryFormats_cons_none _ _ _ (c4fail_4_24 dt h),
    tryFormats_cons_none _ _ _ (c4fail_5_24 dt h),
    tryFormats_cons_none _ _ _ (c4fail_6_24 dt h),
    tryFormats_cons_none _ _ _ (c4fail_7_24 dt h),
    tryFormats_cons_none _ _ _ (c4fail_8_24 dt h),
    tryFormats_cons_none _ _ _ (c4fail_9_24 dt h),
    tryFormats_cons_none _ _ _ (c4fail_10_24 dt h),
    tryFormats_cons_none _ _ _ (c4fail_11_24 dt h),
    tryFormats_cons_none _ _ _ (c4fail_12_24 dt h),
    tryFormats_cons_none _ _ _ (c4fail_13_24 dt h),
    tryFormats_cons_none _ _ _ (c4fail_14_24 dt h),
    tryFormats_cons_none _ _ _ (c4fail_15_24 dt h),
    tryFormats_cons_none _ _ _ (c4fail_16_24 dt h),
    tryFormats_cons_none _ _ _ (c4fail_17_24 dt h),
    tryFormats_cons_none _ _ _ (c4fail_18_24 dt h),
    tryFormats_cons_none _ _ _ (c4fail_19_24 dt h),
    tryFormats_cons_none _ _ _ (c4fail_20_24 dt h),
    tryFormats_cons_none _ _ _ (c4fail_21_24 dt h),
    tryFormats_cons_none _ _ _ (c4fail_22_24 dt h),
    tryFormats_cons_none _ _ _ (c4fail_23_24 dt h),
    tryFormats_cons_some _ _ _ _ (c4self24 dt h)]

theorem c4render25_eq (dt : DT) :
    render fmt25 dt
      = '[' :: (pad2 dt.day ++ ('/' :: (pad2 dt.month ++ ('/' :: (pad4 dt.year ++ (' ' :: (pad2 dt.hour ++ (':' :: (pad2 dt.minute ++ (':' :: (pad2 dt.second ++ (']' :: ([]))))))))))))) := rfl


theorem c4trim25 (dt : DT) : trimChars (render fmt25 dt) = render fmt25 dt := by
  apply trimChars_of_hl
  · rw [c4render25_eq]
    simp only [pad2_eq, pad4_eq, List.cons_append, List.nil_append]
    exact ⟨_, _, rfl, (by decide)⟩
  · rw [c4render25_eq]
    simp only [ampm_cons, pad2_eq, pad4_eq, List.reverse_cons, List.reverse_append,
      List.append_assoc, List.cons_append, List.nil_append, List.reverse_nil,
      List.append_nil]
    exact ⟨_, _, rfl, (by decide)⟩

theorem c4self25 (dt : DT) (h : Rep fmt25 dt) :
    strptimeF fmt25 (render fmt25 dt) = some dt := by
  obtain ⟨hval, hyr, hsec⟩ := h
  simp only [validPy] at hval
  obtain ⟨h1y, h2y, h1m, h2m, h1d, h2d, hH, hMi, hSs⟩ := hval
  have hyr' : 1000 ≤ dt.year ∧ dt.year ≤ 9999 := by
    rw [if_neg (by decide)] at hyr
    exact hyr
  have hd31 : dt.day ≤ 31 := le_trans h2d (daysInMonth_le _ _)
  rw [c4render25_eq]
  have hrun : runDirs fmt25 {} ('[' :: (pad2 dt.day ++ ('/' :: (pad2 dt.month ++ ('/' :: (pad4 dt.year ++ (' ' :: (pad2 dt.hour ++ (':' :: (pad2 dt.minute ++ (':' :: (pad2 dt.second ++ (']' :: ([]))))))))))))))
      = some (⟨some dt.day, some dt.month, none, some dt.year, some dt.hour, none, some dt.minute, some dt.second, none⟩, []) := by
    show runDirs (Dir.lit '[' :: [Dir.dd, Dir.lit '/', Dir.dm, Dir.lit '/', Dir.dY, Dir.ws, Dir.dH, Dir.lit ':', Dir.dM, Dir.lit ':', Dir.dS, Dir.lit ']']) {} _ = _
    rw [runDirs_lit_eq,
      runDirs_dd_pad _ _ dt.day _ (by omega) (kill_lit _ '/' (by decide) _ _),
      if_pos (by omega),
      runDirs_lit_eq,
      runDirs_dm_pad _ _ dt.month _ (by omega) (kill_lit _ '/' (by decide) _ _),
      if_pos (by omega),
      runDirs_lit_eq,
      runDirs_dY_pad _ _ dt.year (by omega) _,
      runDirs_ws_single _ _ _ (wsCount_pad2 _ _),
      runDirs_dH_pad _ _ dt.hour _ (by omega) (kill_lit _ ':' (by decide) _ _),
      if_pos (by omega),
      runDirs_lit_eq,
      runDirs_dM_pad _ _ dt.minute _ (by omega) (kill_lit _ ':' (by decide) _ _),
      if_pos (by omega),
      runDirs_lit_eq,
      runDirs_dS_pad _ _ dt.second _ (by omega) (kill_lit _ ']' (by decide) _ _),
      if_pos (by omega),
      runDirs_lit_eq,
      runDirs_nil_eq]
  rw [strptimeF_of_done _ _ _ hrun]
  unfold buildDT
  dsimp only
  simp only [Option.getD_some, Option.getD_none]
  rw [mkDT, if_pos (by omega)]

theorem c4fail_0_25 (dt : DT) (h : Rep fmt25 dt) :
    strptimeF fmt0 (render fmt25 dt) = none := by
  obtain ⟨hval, hyr, hsec⟩ := h
  simp only [validPy] at hval
  obtain ⟨h1y, h2y, h1m, h2m, h1d, h2d, hH, hMi, hSs⟩ := hval
  have hyr' : 1000 ≤ dt.year ∧ dt.year ≤ 9999 := by
    rw [if_neg (by decide)] at hyr
    exact hyr
  have hd31 : dt.day ≤ 31 := le_trans h2d (daysInMonth_le _ _)
  rw [c4render25_eq]
  refine strptimeF_of_none _ _ ?_
  show runDirs (Dir.dd :: [Dir.lit '/', Dir.dm, Dir.lit '/', Dir.dY, Dir.ws, Dir.dH, Dir.lit ':', Dir.dM]) {} _ = _
  rw [runDirs_dd_nodigit _ _ _ _ (by decide)]

theorem c4fail_1_25 (dt : DT) (h : Rep fmt25 dt) :
    strptimeF fmt1 (render fmt25 dt) = none := by
  obtain ⟨hval, hyr, hsec⟩ := h
  simp only [validPy] at hval
  obtain ⟨h1y, h2y, h1m, h2m, h1d, h2d, hH, hMi, hSs⟩ := hval
  have hyr' : 1000 ≤ dt.year ∧ dt.year ≤ 9999 := by
    rw [if_neg (by decide)] at hyr
    exact hyr
  have hd31 : dt.day ≤ 31 := le_trans h2d (daysInMonth_le _ _)
  rw [c4render25_eq]
  refine strptimeF_of_none _ _ ?_
  show runDirs (Dir.dd :: [Dir.lit '/', Dir.dm, Dir.lit '/', Dir.dY, Dir.lit ',', Dir.ws, Dir.dH, Dir.lit ':', Dir.dM]) {} _ = _
  rw [runDirs_dd_nodigit _ _ _ _ (by decide)]

theorem c4fail_2_25 (dt : DT) (h : Rep fmt25 dt) :
    strptimeF fmt2 (render fmt25 dt) = none := by
  obtain ⟨hval, hyr, hsec⟩ := h
  simp only [validPy] at hval
  obtain ⟨h1y, h2y, h1m, h2m, h1d, h2d, hH, hMi, hSs⟩ := hval
  have hyr' : 1000 ≤ dt.year ∧ dt.year ≤ 9999 := by
    rw [if_neg (by decide)] at hyr
    exact hyr
  have hd31 : dt.day ≤ 31 := le_trans h2d (daysInMonth_le _ _)
  rw [c4render25_eq]
  refine strptimeF_of_none _ _ ?_
  show runDirs (Dir.dd :: [Dir.lit '/', Dir.dm, Dir.lit '/', Dir.dy, Dir.ws, Dir.dH, Dir.lit ':', Dir.dM]) {} _ = _
  rw [runDirs_dd_nodigit _ _ _ _ (by decide)]

theorem c4fail_3_25 (dt : DT) (h : Rep fmt25 dt) :
    strptimeF fmt3 (render fmt25 dt) = none := by
  obtain ⟨hval, hyr, hsec⟩ := h
  simp only [validPy] at hval
  obtain ⟨h1y, h2y, h1m, h2m, h1d, h2d, hH, hMi, hSs⟩ := hval
  have hyr' : 1000 ≤ dt.year ∧ dt.year ≤ 9999 := by
    rw [if_neg (by decide)] at hyr
    exact hyr
  have hd31 : dt.day ≤ 31 := le_trans h2d (daysInMonth_le _ _)
  rw [c4render25_eq]
  refine strptimeF_of_none _ _ ?_
  show runDirs (Dir.dd :: [Dir.lit '/', Dir.dm, Dir.lit '/', Dir.dy, Dir.lit ',', Dir.ws, Dir.dH, Dir.lit ':', Dir.dM]) {} _ = _
  rw [runDirs_dd_nodigit _ _ _ _ (by decide)]

theorem c4fail_4_25 (dt : DT) (h : Rep fmt25 dt) :
    strptimeF fmt4 (render fmt25 dt) = none := by
  obtain ⟨hval, hyr, hsec⟩ := h
  simp only [validPy] at hval
  obtain ⟨h1y, h2y, h1m, h2m, h1d, h2d, hH, hMi, hSs⟩ := hval
  have hyr' : 1000 ≤ dt.year ∧ dt.year ≤ 9999 := by
    rw [if_neg (by decide)] at hyr
    exact hyr
  have hd31 : dt.day ≤ 31 := le_trans h2d (daysInMonth_le _ _)
  rw [c4render25_eq]
  refine strptimeF_of_none _ _ ?_
  show runDirs (Dir.dm :: [Dir.lit '/', Dir.dd, Dir.lit '/', Dir.dY, Dir.ws, Dir.dI, Dir.lit ':', Dir.dM, Dir.ws, Dir.dp]) {} _ = _
  rw [runDirs_dm_nodigit _ _ _ _ (by decide)]

theorem c4fail_5_25 (dt : DT) (h : Rep fmt25 dt) :
    strptimeF fmt5 (render fmt25 dt) = none := by
  obtain ⟨hval, hyr, hsec⟩ := h
  simp only [validPy] at hval
  obtain ⟨h1y, h2y, h1m, h2m, h1d, h2d, hH, hMi, hSs⟩ := hval
  have hyr' : 1000 ≤ dt.year ∧ dt.year ≤ 9999 := by
    rw [if_neg (by decide)] at hyr
    exact hyr
  have hd31 : dt.day ≤ 31 := le_trans h2d (daysInMonth_le _ _)
  rw [c4render25_eq]
  refine strptimeF_of_none _ _ ?_
  show runDirs (Dir.dm :: [Dir.lit '/', Dir.dd, Dir.lit '/', Dir.dY, Dir.lit ',', Dir.ws, Dir.dI, Dir.lit ':', Dir.dM, Dir.ws, Dir.dp]) {} _ = _
  rw [runDirs_dm_nodigit _ _ _ _ (by decide)]

theorem c4fail_6_25 (dt : DT) (h : Rep fmt25 dt) :
    strptimeF fmt6 (render fmt25 dt) = none := by
  obtain ⟨hval, hyr, hsec⟩ := h
  simp only [validPy] at hval
  obtain ⟨h1y, h2y, h1m, h2m, h1d, h2d, hH, hMi, hSs⟩ := hval
  have hyr' : 1000 ≤ dt.year ∧ dt.year ≤ 9999 := by
    rw [if_neg (by decide)] at hyr
    exact hyr
  have hd31 : dt.day ≤ 31 := le_trans h2d (daysInMonth_le _ _)
  rw [c4render25_eq]
  refine strptimeF_of_none _ _ ?_
  show runDirs (Dir.dm :: [Dir.lit '/', Dir.dd, Dir.lit '/', Dir.dy, Dir.ws, Dir.dI, Dir.lit ':', Dir.dM, Dir.ws, Dir.dp]) {} _ = _
  rw [runDirs_dm_nodigit _ _ _ _ (by decide)]

theorem c4fail_7_25 (dt : DT) (h : Rep fmt25 dt) :
    strptimeF fmt7 (render fmt25 dt) = none := by
  obtain ⟨hval, hyr, hsec⟩ := h
  simp only [validPy] at hval
  obtain ⟨h1y, h2y, h1m, h2m, h1d, h2d, hH, hMi, hSs⟩ := hval
  have hyr' : 1000 ≤ dt.year ∧ dt.year ≤ 9999 := by
    rw [if_neg (by decide)] at hyr
    exact hyr
  have hd31 : dt.day ≤ 31 := le_trans h2d (daysInMonth_le _ _)
  rw [c4render25_eq]
  refine strptimeF_of_none _ _ ?_
  show runDirs (Dir.dm :: [Dir.lit '/', Dir.dd, Dir.lit '/', Dir.dy, Dir.lit ',', Dir.ws, Dir.dI, Dir.lit ':', Dir.dM, Dir.ws, Dir.dp]) {} _ = _
  rw [runDirs_dm_nodigit _ _ _ _ (by decide)]

theorem c4fail_8_25 (dt : DT) (h : Rep fmt25 dt) :
    strptimeF fmt8 (render fmt25 dt) = none := by
  obtain ⟨hval, hyr, hsec⟩ := h
  simp only [validPy] at hval
  obtain ⟨h1y, h2y, h1m, h2m, h1d, h2d, hH, hMi, hSs⟩ := hval
  have hyr' : 1000 ≤ dt.year ∧ dt.year ≤ 9999 := by
    rw [if_neg (by decide)] at hyr
    exact hyr
  have hd31 : dt.day ≤ 31 := le_trans h2d (daysInMonth_le _ _)
  rw [c4render25_eq]
  refine strptimeF_of_none _ _ ?_
  show runDirs (Dir.dY :: [Dir.lit '-', Dir.dm, Dir.lit '-', Dir.dd, Dir.ws, Dir.dH, Dir.lit ':', Dir.dM]) {} _ = _
  rw [runDirs_dY_nodigit _ _ _ _ (by decide)]

theorem c4fail_9_25 (dt : DT) (h : Rep fmt25 dt) :
    strptimeF fmt9 (render fmt25 dt) = none := by
  obtain ⟨hval, hyr, hsec⟩ := h
  simp only [validPy] at hval
  obtain ⟨h1y, h2y, h1m, h2m, h1d, h2d, hH, hMi, hSs⟩ := hval
  have hyr' : 1000 ≤ dt.year ∧ dt.year ≤ 9999 := by
    rw [if_neg (by decide)] at hyr
    exact hyr
  have hd31 : dt.day ≤ 31 := le_trans h2d (daysInMonth_le _ _)
  rw [c4render25_eq]
  refine strptimeF_of_none _ _ ?_
  show runDirs (Dir.dY :: [Dir.lit '-', Dir.dm, Dir.lit '-', Dir.dd, Dir.lit ',', Dir.ws, Dir.dH, Dir.lit ':', Dir.dM]) {} _ = _
  rw [runDirs_dY_nodigit _ _ _ _ (by decide)]

theorem c4fail_10_25 (dt : DT) (h : Rep fmt25 dt) :
    strptimeF fmt10 (render fmt25 dt) = none := by
  obtain ⟨hval, hyr, hsec⟩ := h
  simp only [validPy] at hval
  obtain ⟨h1y, h2y, h1m, h2m, h1d, h2d, hH, hMi, hSs⟩ := hval
  have hyr' : 1000 ≤ dt.year ∧ dt.year ≤ 9999 := by
    rw [if_neg (by decide)] at hyr
    exact hyr
  have hd31 : dt.day ≤ 31 := le_trans h2d (daysInMonth_le _ _)
  rw [c4render25_eq]
  refine strptimeF_of_none _ _ ?_
  show runDirs (Dir.dY :: [Dir.lit '/', Dir.dm, Dir.lit '/', Dir.dd, Dir.ws, Dir.dH, Dir.lit ':', Dir.dM]) {} _ = _
  rw [runDirs_dY_nodigit _ _ _ _ (by decide)]

theorem c4fail_11_25 (dt : DT) (h : Rep fmt25 dt) :
    strptimeF fmt11 (render fmt25 dt) = none := by
  obtain ⟨hval, hyr, hsec⟩ := h
  simp only [validPy] at hval
  obtain ⟨h1y, h2y, h1m, h2m, h1d, h2d, hH, hMi, hSs⟩ := hval
  have hyr' : 1000 ≤ dt.year ∧ dt.year ≤ 9999 := by
    rw [if_neg (by decide)] at hyr
    exact hyr
  have hd31 : dt.day ≤ 31 := le_trans h2d (daysInMonth_le _ _)
  rw [c4render25_eq]
  refine strptimeF_of_none _ _ ?_
  show runDirs (Dir.dY :: [Dir.lit '/', Dir.dm, Dir.lit '/', Dir.dd, Dir.lit ',', Dir.ws, Dir.dH, Dir.lit ':', Dir.dM]) {} _ = _
  rw [runDirs_dY_nodigit _ _ _ _ (by decide)]

theorem c4fail_12_25 (dt : DT) (h : Rep fmt25 dt) :
    strptimeF fmt12 (render fmt25 dt) = none := by
  obtain ⟨hval, hyr, hsec⟩ := h
  simp only [validPy] at hval
  obtain ⟨h1y, h2y, h1m, h2m, h1d, h2d, hH, hMi, hSs⟩ := hval
  have hyr' : 1000 ≤ dt.year ∧ dt.year ≤ 9999 := by
    rw [if_neg (by decide)] at hyr
    exact hyr
  have hd31 : dt.day ≤ 31 := le_trans h2d (daysInMonth_le _ _)
  rw [c4render25_eq]
  refine strptimeF_of_none _ _ ?_
  show runDirs (Dir.dd :: [Dir.lit '.', Dir.dm, Dir.lit '.', Dir.dY, Dir.ws, Dir.dH, Dir.lit ':', Dir.dM]) {} _ = _
  rw [runDirs_dd_nodigit _ _ _ _ (by decide)]

theorem c4fail_13_25 (dt : DT) (h : Rep fmt25 dt) :
    strptimeF fmt13 (render fmt25 dt) = none := by
  obtain ⟨hval, hyr, hsec⟩ := h
  simp only [validPy] at hval
  obtain ⟨h1y, h2y, h1m, h2m, h1d, h2d, hH, hMi, hSs⟩ := hval
  have hyr' : 1000 ≤ dt.year ∧ dt.year ≤ 9999 := by
    rw [if_neg (by decide)] at hyr
    exact hyr
  have hd31 : dt.day ≤ 31 := le_trans h2d (daysInMonth_le _ _)
  rw [c4render25_eq]
  refine strptimeF_of_none _ _ ?_
  show runDirs (Dir.dd :: [Dir.lit '.', Dir.dm, Dir.lit '.', Dir.dY, Dir.lit ',', Dir.ws, Dir.dH, Dir.lit ':', Dir.dM]) {} _ = _
  rw [runDirs_dd_nodigit _ _ _ _ (by decide)]

theorem c4fail_14_25 (dt : DT) (h : Rep fmt25 dt) :
    strptimeF fmt14 (render fmt25 dt) = none := by
  obtain ⟨hval, hyr, hsec⟩ := h
  simp only [validPy] at hval
  obtain ⟨h1y, h2y, h1m, h2m, h1d, h2d, hH, hMi, hSs⟩ := hval
  have hyr' : 1000 ≤ dt.year ∧ dt.year ≤ 9999 := by
    rw [if_neg (by decide)] at hyr
    exact hyr
  have hd31 : dt.day ≤ 31 := le_trans h2d (daysInMonth_le _ _)
  rw [c4render25_eq]
  refine strptimeF_of_none _ _ ?_
  show runDirs (Dir.dd :: [Dir.lit '.', Dir.dm, Dir.lit '.', Dir.dy, Dir.ws, Dir.dH, Dir.lit ':', Dir.dM]) {} _ = _
  rw [runDirs_dd_nodigit _ _ _ _ (by decide)]

theorem c4fail_15_25 (dt : DT) (h : Rep fmt25 dt) :
    strptimeF fmt15 (render fmt25 dt) = none := by
  obtain ⟨hval, hyr, hsec⟩ := h
  simp only [validPy] at hval
  obtain ⟨h1y, h2y, h1m, h2m, h1d, h2d, hH, hMi, hSs⟩ := hval
  have hyr' : 1000 ≤ dt.year ∧ dt.year ≤ 9999 := by
    rw [if_neg (by decide)] at hyr
    exact hyr
  have hd31 : dt.day ≤ 31 := le_trans h2d (daysInMonth_le _ _)
  rw [c4render25_eq]
  refine strptimeF_of_none _ _ ?_
  show runDirs (Dir.dd :: [Dir.lit '.', Dir.dm, Dir.lit '.', Dir.dy, Dir.lit ',', Dir.ws, Dir.dH, Dir.lit ':', Dir.dM]) {} _ = _
  rw [runDirs_dd_nodigit _ _ _ _ (by decide)]

theorem c4fail_16_25 (dt : DT) (h : Rep fmt25 dt) :
    strptimeF fmt16 (render fmt25 dt) = none := by
  obtain ⟨hval, hyr, hsec⟩ := h
  simp only [validPy] at hval
  obtain ⟨h1y, h2y, h1m, h2m, h1d, h2d, hH, hMi, hSs⟩ := hval
  have hyr' : 1000 ≤ dt.year ∧ dt.year ≤ 9999 := by
    rw [if_neg (by decide)] at hyr
    exact hyr
  have hd31 : dt.day ≤ 31 := le_trans h2d (daysInMonth_le _ _)
  rw [c4render25_eq]
  refine strptimeF_of_none _ _ ?_
  show runDirs (Dir.dd :: [Dir.lit '-', Dir.dm, Dir.lit '-', Dir.dY, Dir.ws, Dir.dH, Dir.lit ':', Dir.dM]) {} _ = _
  rw [runDirs_dd_nodigit _ _ _ _ (by decide)]

theorem c4fail_17_25 (dt : DT) (h : Rep fmt25 dt) :
    strptimeF fmt17 (render fmt25 dt) = none := by
  obtain ⟨hval, hyr, hsec⟩ := h
  simp only [validPy] at hval
  obtain ⟨h1y, h2y, h1m, h2m, h1d, h2d, hH, hMi, hSs⟩ := hval
  have hyr' : 1000 ≤ dt.year ∧ dt.year ≤ 9999 := by
    rw [if_neg (by decide)] at hyr
    exact hyr
  have hd31 : dt.day ≤ 31 := le_trans h2d (daysInMonth_le _ _)
  rw [c4render25_eq]
  refine strptimeF_of_none _ _ ?_
  show runDirs (Dir.dd :: [Dir.lit '-', Dir.dm, Dir.lit '-', Dir.dY, Dir.lit ',', Dir.ws, Dir.dH, Dir.lit ':', Dir.dM]) {} _ = _
  rw [runDirs_dd_nodigit _ _ _ _ (by decide)]

theorem c4fail_18_25 (dt : DT) (h : Rep fmt25 dt) :
    strptimeF fmt18 (render fmt25 dt) = none := by
  obtain ⟨hval, hyr, hsec⟩ := h
  simp only [validPy] at hval
  obtain ⟨h1y, h2y, h1m, h2m, h1d, h2d, hH, hMi, hSs⟩ := hval
  have hyr' : 1000 ≤ dt.year ∧ dt.year ≤ 9999 := by
    rw [if_neg (by decide)] at hyr
    exact hyr
  have hd31 : dt.day ≤ 31 := le_trans h2d (daysInMonth_le _ _)
  rw [c4render25_eq]
  refine strptimeF_of_none _ _ ?_
  show runDirs (Dir.dd :: [Dir.lit '-', Dir.dm, Dir.lit '-', Dir.dy, Dir.ws, Dir.dH, Dir.lit ':', Dir.dM]) {} _ = _
  rw [runDirs_dd_nodigit _ _ _ _ (by decide)]

theorem c4fail_19_25 (dt : DT) (h : Rep fmt25 dt) :
    strptimeF fmt19 (render fmt25 dt) = none := by
  obtain ⟨hval, hyr, hsec⟩ := h
  simp only [validPy] at hval
  obtain ⟨h1y, h2y, h1m, h2m, h1d, h2d, hH, hMi, hSs⟩ := hval
  have hyr' : 1000 ≤ dt.year ∧ dt.year ≤ 9999 := by
    rw [if_neg (by decide)] at hyr
    exact hyr
  have hd31 : dt.day ≤ 31 := le_trans h2d (daysInMonth_le _ _)
  rw [c4render25_eq]
  refine strptimeF_of_none _ _ ?_
  show runDirs (Dir.dd :: [Dir.lit '-', Dir.dm, Dir.lit '-', Dir.dy, Dir.lit ',', Dir.ws, Dir.dH, Dir.lit ':', Dir.dM]) {} _ = _
  rw [runDirs_dd_nodigit _ _ _ _ (by decide)]

theorem c4fail_20_25 (dt : DT) (h : Rep fmt25 dt) :
    strptimeF fmt20 (render fmt25 dt) = none := by
  obtain ⟨hval, hyr, hsec⟩ := h
  simp only [validPy] at hval
  obtain ⟨h1y, h2y, h1m, h2m, h1d, h2d, hH, hMi, hSs⟩ := hval
  have hyr' : 1000 ≤ dt.year ∧ dt.year ≤ 9999 := by
    rw [if_neg (by decide)] at hyr
    exact hyr
  have hd31 : dt.day ≤ 31 := le_trans h2d (daysInMonth_le _ _)
  rw [c4render25_eq]
  refine strptimeF_of_none _ _ ?_
  show runDirs (Dir.dd :: [Dir.lit '/', Dir.dm, Dir.lit '/', Dir.dY, Dir.ws, Dir.dH, Dir.lit ':', Dir.dM, Dir.lit ':', Dir.dS]) {} _ = _
  rw [runDirs_dd_nodigit _ _ _ _ (by decide)]

theorem c4fail_21_25 (dt : DT) (h : Rep fmt25 dt) :
    strptimeF fmt21 (render fmt25 dt) = none := by
  obtain ⟨hval, hyr, hsec⟩ := h
  simp only [validPy] at hval
  obtain ⟨h1y, h2y, h1m, h2m, h1d, h2d, hH, hMi, hSs⟩ := hval
  have hyr' : 1000 ≤ dt.year ∧ dt.year ≤ 9999 := by
    rw [if_neg (by decide)] at hyr
    exact hyr
  have hd31 : dt.day ≤ 31 := le_trans h2d (daysInMonth_le _ _)
  rw [c4render25_eq]
  refine strptimeF_of_none _ _ ?_
  show runDirs (Dir.dd :: [Dir.lit '/', Dir.dm, Dir.lit '/', Dir.dY, Dir.lit ',', Dir.ws, Dir.dH, Dir.lit ':', Dir.dM, Dir.lit ':', Dir.dS]) {} _ = _
  rw [runDirs_dd_nodigit _ _ _ _ (by decide)]

theorem c4fail_22_25 (dt : DT) (h : Rep fmt25 dt) :
    strptimeF fmt22 (render fmt25 dt) = none := by
  obtain ⟨hval, hyr, hsec⟩ := h
  simp only [validPy] at hval
  obtain ⟨h1y, h2y, h1m, h2m, h1d, h2d, hH, hMi, hSs⟩ := hval
  have hyr' : 1000 ≤ dt.year ∧ dt.year ≤ 9999 := by
    rw [if_neg (by decide)] at hyr
    exact hyr
  have hd31 : dt.day ≤ 31 := le_trans h2d (daysInMonth_le _ _)
  rw [c4render25_eq]
  refine strptimeF_of_none _ _ ?_
  show runDirs (Dir.dm :: [Dir.lit '/', Dir.dd, Dir.lit '/', Dir.dY, Dir.ws, Dir.dI, Dir.lit ':', Dir.dM, Dir.lit ':', Dir.dS, Dir.ws, Dir.dp]) {} _ = _
  rw [runDirs_dm_nodigit _ _ _ _ (by decide)]

theorem c4fail_23_25 (dt : DT) (h : Rep fmt25 dt) :
    strptimeF fmt23 (render fmt25 dt) = none := by
  obtain ⟨hval, hyr, hsec⟩ := h
  simp only [validPy] at hval
  obtain ⟨h1y, h2y, h1m, h2m, h1d, h2d, hH, hMi, hSs⟩ := hval
  have hyr' : 1000 ≤ dt.year ∧ dt.year ≤ 9999 := by
    rw [if_neg (by decide)] at hyr
    exact hyr
  have hd31 : dt.day ≤ 31 := le_trans h2d (daysInMonth_le _ _)
  rw [c4render25_eq]
  refine strptimeF_of_none _ _ ?_
  show runDirs (Dir.dm :: [Dir.lit '/', Dir.dd, Dir.lit '/', Dir.dY, Dir.lit ',', Dir.ws, Dir.dI, Dir.lit ':', Dir.dM, Dir.lit ':', Dir.dS, Dir.ws, Dir.dp]) {} _ = _
  rw [runDirs_dm_nodigit _ _ _ _ (by decide)]

theorem c4fail_24_25 (dt : DT) (h : Rep fmt25 dt) :
    strptimeF fmt24 (render fmt25 dt) = none := by
  obtain ⟨hval, hyr, hsec⟩ := h
  simp only [validPy] at hval
  obtain ⟨h1y, h2y, h1m, h2m, h1d, h2d, hH, hMi, hSs⟩ := hval
  have hyr' : 1000 ≤ dt.year ∧ dt.year ≤ 9999 := by
    rw [if_neg (by decide)] at hyr
    exact hyr
  have hd31 : dt.day ≤ 31 := le_trans h2d (daysInMonth_le _ _)
  rw [c4render25_eq]
  refine strptimeF_of_none _ _ ?_
  show runDirs (Dir.lit '[' :: [Dir.dY, Dir.lit '-', Dir.dm, Dir.lit '-', Dir.dd, Dir.ws, Dir.dH, Dir.lit ':', Dir.dM, Dir.lit ':', Dir.dS, Dir.lit ']']) {} _ = _
  rw [runDirs_lit_eq, runDirs_dY_pad2_sep _ _ _ _ _ (by decide)]

theorem c4rt25 (dt : DT) (h : Rep fmt25 dt) :
    parseTimestampCore (render fmt25 dt) = some dt := by
  rw [parseTimestampCore_eq, c4trim25]
  simp only [formats]
  rw [tryFormats_cons_none _ _ _ (c4fail_0_25 dt h),
    tryFormats_cons_none _ _ _ (c4fail_1_25 dt h),
    tryFormats_cons_none _ _ _ (c4fail_2_25 dt h),
    tryFormats_cons_none _ _ _ (c4fail_3_25 dt h),
    tryFormats_cons_none _ _ _ (c4fail_4_25 dt h),
    tryFormats_cons_none _ _ _ (c4fail_5_25 dt h),
    tryFormats_cons_none _ _ _ (c4fail_6_25 dt h),
    tryFormats_cons_none _ _ _ (c4fail_7_25 dt h),
    tryFormats_cons_none _ _ _ (c4fail_8_25 dt h),
    tryFormats_cons_none _ _ _ (c4fail_9_25 dt h),
    tryFormats_cons_none _ _ _ (c4fail_10_25 dt h),
    tryFormats_cons_none _ _ _ (c4fail_11_25 dt h),
    tryFormats_cons_none _ _ _ (c4fail_12_25 dt h),
    tryFormats_cons_none _ _ _ (c4fail_13_25 dt h),
    tryFormats_cons_none _ _ _ (c4fail_14_25 dt h),
    tryFormats_cons_none _ _ _ (c4fail_15_25 dt h),
    tryFormats_cons_none _ _ _ (c4fail_16_25 dt h),
    tryFormats_cons_none _ _ _ (c4fail_17_25 dt h),
    tryFormats_cons_none _ _ _ (c4fail_18_25 dt h),
    tryFormats_cons_none _ _ _ (c4fail_19_25 dt h),
    tryFormats_cons_none _ _ _ (c4fail_20_25 dt h),
    tryFormats_cons_none _ _ _ (c4fail_21_25 dt h),
    tryFormats_cons_none _ _ _ (c4fail_22_25 dt h),
    tryFormats_cons_none _ _ _ (c4fail_23_25 dt h),
    tryFormats_cons_none _ _ _ (c4fail_24_25 dt h),
    tryFormats_cons_some _ _ _ _ (c4self25 dt h)]

theorem c4render26_eq (dt : DT) :
    render fmt26 dt
      = '[' :: (pad2 dt.month ++ ('/' :: (pad2 dt.day ++ ('/' :: (pad4 dt.year ++ (' ' :: (pad2 (if dt.hour % 12 = 0 then 12 else dt.hour % 12) ++ (':' :: (pad2 dt.minute ++ (':' :: (pad2 dt.second ++ (' ' :: ((if dt.hour < 12 then ['A', 'M'] else ['P', 'M']) ++ (']' :: ([]))))))))))))))) := rfl

theorem c4render26_eq_am (dt : DT) (h : dt.hour < 12) :
    render fmt26 dt
      = '[' :: (pad2 dt.month ++ ('/' :: (pad2 dt.day ++ ('/' :: (pad4 dt.year ++ (' ' :: (pad2 (if dt.hour % 12 = 0 then 12 else dt.hour % 12) ++ (':' :: (pad2 dt.minute ++ (':' :: (pad2 dt.second ++ (' ' :: ('A' :: ('M' :: (']' :: ([])))))))))))))))) := by
  rw [c4render26_eq, if_pos h]
  rfl
theorem c4render26_eq_pm (dt : DT) (h : ¬ dt.hour < 12) :
    render fmt26 dt
      = '[' :: (pad2 dt.month ++ ('/' :: (pad2 dt.day ++ ('/' :: (pad4 dt.year ++ (' ' :: (pad2 (if dt.hour % 12 = 0 then 12 else dt.hour % 12) ++ (':' :: (pad2 dt.minute ++ (':' :: (pad2 dt.second ++ (' ' :: ('P' :: ('M' :: (']' :: ([])))))))))))))))) := by
  rw [c4render26_eq, if_neg h]
  rfl

theorem c4trim26 (dt : DT) : trimChars (render fmt26 dt) = render fmt26 dt := by
  apply trimChars_of_hl
  · rw [c4render26_eq]
    simp only [pad2_eq, pad4_eq, List.cons_append, List.nil_append]
    exact ⟨_, _, rfl, (by decide)⟩
  · rw [c4render26_eq]
    simp only [ampm_cons, pad2_eq, pad4_eq, List.reverse_cons, List.reverse_append,
      List.append_assoc, List.cons_append, List.nil_append, List.reverse_nil,
      List.append_nil]
    exact ⟨_, _, rfl, (by decide)⟩

theorem c4self26 (dt : DT) (h : Rep fmt26 dt) :
    strptimeF fmt26 (render fmt26 dt) = some dt := by
  obtain ⟨hval, hyr, hsec⟩ := h
  simp only [validPy] at hval
  obtain ⟨h1y, h2y, h1m, h2m, h1d, h2d, hH, hMi, hSs⟩ := hval
  have hyr' : 1000 ≤ dt.year ∧ dt.year ≤ 9999 := by
    rw [if_neg (by decide)] at hyr
    exact hyr
  have hd31 : dt.day ≤ 31 := le_trans h2d (daysInMonth_le _ _)
  have hBi : 1 ≤ (if dt.hour % 12 = 0 then 12 else dt.hour % 12) ∧ (if dt.hour % 12 = 0 then 12 else dt.hour % 12) ≤ 12 := by
    split_ifs <;> omega
  by_cases hampm : dt.hour < 12
  · rw [c4render26_eq_am dt hampm]
    have hrun : runDirs fmt26 {} ('[' :: (pad2 dt.month ++ ('/' :: (pad2 dt.day ++ ('/' :: (pad4 dt.year ++ (' ' :: (pad2 (if dt.hour % 12 = 0 then 12 else dt.hour % 12) ++ (':' :: (pad2 dt.minute ++ (':' :: (pad2 dt.second ++ (' ' :: ('A' :: ('M' :: (']' :: ([])))))))))))))))))
        = some (⟨some dt.day, some dt.month, none, some dt.year, none, some (if dt.hour % 12 = 0 then 12 else dt.hour % 12), some dt.minute, some dt.second, some false⟩, []) := by
      show runDirs (Dir.lit '[' :: [Dir.dm, Dir.lit '/', Dir.dd, Dir.lit '/', Dir.dY, Dir.ws, Dir.dI, Dir.lit ':', Dir.dM, Dir.lit ':', Dir.dS, Dir.ws, Dir.dp, Dir.lit ']']) {} _ = _
      rw [runDirs_lit_eq,
        runDirs_dm_pad _ _ dt.month _ (by omega) (kill_lit _ '/' (by decide) _ _),
        if_pos (by omega),
        runDirs_lit_eq,
        runDirs_dd_pad _ _ dt.day _ (by omega) (kill_lit _ '/' (by decide) _ _),
        if_pos (by omega),
        runDirs_lit_eq,
        runDirs_dY_pad _ _ dt.year (by omega) _,
        runDirs_ws_single _ _ _ (wsCount_pad2 _ _),
        runDirs_dI_pad _ _ (if dt.hour % 12 = 0 then 12 else dt.hour % 12) _ (by omega) (kill_lit _ ':' (by decide) _ _),
        if_pos (by omega),
        runDirs_lit_eq,
        runDirs_dM_pad _ _ dt.minute _ (by omega) (kill_lit _ ':' (by decide) _ _),
        if_pos (by omega),
        runDirs_lit_eq,
        runDirs_dS_pad _ _ dt.second _ (by omega) (kill_ws _ _ _),
        if_pos (by omega),
        runDirs_ws_single _ _ _ (wsCount_not _ _ (by decide)),
        runDirs_dp_AM,
        runDirs_lit_eq,
        runDirs_nil_eq]
    rw [strptimeF_of_done _ _ _ hrun]
    unfold buildDT
    dsimp only
    simp only [Option.getD_some, Option.getD_none]
    have hHr : (if (if dt.hour % 12 = 0 then 12 else dt.hour % 12) = 12 then 0 else (if dt.hour % 12 = 0 then 12 else dt.hour % 12)) = dt.hour := by
      split_ifs <;> omega
    rw [hHr]
    rw [mkDT, if_pos (by omega)]
  · rw [c4render26_eq_pm dt hampm]
    have hrun : runDirs fmt26 {} ('[' :: (pad2 dt.month ++ ('/' :: (pad2 dt.day ++ ('/' :: (pad4 dt.year ++ (' ' :: (pad2 (if dt.hour % 12 = 0 then 12 else dt.hour % 12) ++ (':' :: (pad2 dt.minute ++ (':' :: (pad2 dt.second ++ (' ' :: ('P' :: ('M' :: (']' :: ([])))))))))))))))))
        = some (⟨some dt.day, some dt.month, none, some dt.year, none, some (if dt.hour % 12 = 0 then 12 else dt.hour % 12), some dt.minute, some dt.second, some true⟩, []) := by
      show runDirs (Dir.lit '[' :: [Dir.dm, Dir.lit '/', Dir.dd, Dir.lit '/', Dir.dY, Dir.ws, Dir.dI, Dir.lit ':', Dir.dM, Dir.lit ':', Dir.dS, Dir.ws, Dir.dp, Dir.lit ']']) {} _ = _
      rw [runDirs_lit_eq,
        runDirs_dm_pad _ _ dt.month _ (by omega) (kill_lit _ '/' (by decide) _ _),
        if_pos (by omega),
        runDirs_lit_eq,
        runDirs_dd_pad _ _ dt.day _ (by omega) (kill_lit _ '/' (by decide) _ _),
        if_pos (by omega),
        runDirs_lit_eq,
        runDirs_dY_pad _ _ dt.year (by omega) _,
        runDirs_ws_single _ _ _ (wsCount_pad2 _ _),
        runDirs_dI_pad _ _ (if dt.hour % 12 = 0 then 12 else dt.hour % 12) _ (by omega) (kill_lit _ ':' (by decide) _ _),
        if_pos (by omega),
        runDirs_lit_eq,
        runDirs_dM_pad _ _ dt.minute _ (by omega) (kill_lit _ ':' (by decide) _ _),
        if_pos (by omega),
        runDirs_lit_eq,
        runDirs_dS_pad _ _ dt.second _ (by omega) (kill_ws _ _ _),
        if_pos (by omega),
        runDirs_ws_single _ _ _ (wsCount_not _ _ (by decide)),
        runDirs_dp_PM,
        runDirs_lit_eq,
        runDirs_nil_eq]
    rw [strptimeF_of_done _ _ _ hrun]
    unfold buildDT
    dsimp only
    simp only [Option.getD_some, Option.getD_none]
    have hHr : (if (if dt.hour % 12 = 0 then 12 else dt.hour % 12) = 12 then 12 else (if dt.hour % 12 = 0 then 12 else dt.hour % 12) + 12) = dt.hour := by
      split_ifs <;> omega
    rw [hHr]
    rw [mkDT, if_pos (by omega)]

theorem c4fail_0_26 (dt : DT) (h : Rep fmt26 dt) :
    strptimeF fmt0 (render fmt26 dt) = none := by
  obtain ⟨hval, hyr, hsec⟩ := h
  simp only [validPy] at hval
  obtain ⟨h1y, h2y, h1m, h2m, h1d, h2d, hH, hMi, hSs⟩ := hval
  have hyr' : 1000 ≤ dt.year ∧ dt.year ≤ 9999 := by
    rw [if_neg (by decide)] at hyr
    exact hyr
  have hd31 : dt.day ≤ 31 := le_trans h2d (daysInMonth_le _ _)
  have hBi : 1 ≤ (if dt.hour % 12 = 0 then 12 else dt.hour % 12) ∧ (if dt.hour % 12 = 0 then 12 else dt.hour % 12) ≤ 12 := by
    split_ifs <;> omega
  rw [c4render26_eq]
  refine strptimeF_of_none _ _ ?_
  show runDirs (Dir.dd :: [Dir.lit '/', Dir.dm, Dir.lit '/', Dir.dY, Dir.ws, Dir.dH, Dir.lit ':', Dir.dM]) {} _ = _
  rw [runDirs_dd_nodigit _ _ _ _ (by decide)]

theorem c4fail_1_26 (dt : DT) (h : Rep fmt26 dt) :
    strptimeF fmt1 (render fmt26 dt) = none := by
  obtain ⟨hval, hyr, hsec⟩ := h
  simp only [validPy] at hval
  obtain ⟨h1y, h2y, h1m, h2m, h1d, h2d, hH, hMi, hSs⟩ := hval
  have hyr' : 1000 ≤ dt.year ∧ dt.year ≤ 9999 := by
    rw [if_neg (by decide)] at hyr
    exact hyr
  have hd31 : dt.day ≤ 31 := le_trans h2d (daysInMonth_le _ _)
  have hBi : 1 ≤ (if dt.hour % 12 = 0 then 12 else dt.hour % 12) ∧ (if dt.hour % 12 = 0 then 12 else dt.hour % 12) ≤ 12 := by
    split_ifs <;> omega
  rw [c4render26_eq]
  refine strptimeF_of_none _ _ ?_
  show runDirs (Dir.dd :: [Dir.lit '/', Dir.dm, Dir.lit '/', Dir.dY, Dir.lit ',', Dir.ws, Dir.dH, Dir.lit ':', Dir.dM]) {} _ = _
  rw [runDirs_dd_nodigit _ _ _ _ (by decide)]

theorem c4fail_2_26 (dt : DT) (h : Rep fmt26 dt) :
    strptimeF fmt2 (render fmt26 dt) = none := by
  obtain ⟨hval, hyr, hsec⟩ := h
  simp only [validPy] at hval
  obtain ⟨h1y, h2y, h1m, h2m, h1d, h2d, hH, hMi, hSs⟩ := hval
  have hyr' : 1000 ≤ dt.year ∧ dt.year ≤ 9999 := by
    rw [if_neg (by decide)] at hyr
    exact hyr
  have hd31 : dt.day ≤ 31 := le_trans h2d (daysInMonth_le _ _)
  have hBi : 1 ≤ (if dt.hour % 12 = 0 then 12 else dt.hour % 12) ∧ (if dt.hour % 12 = 0 then 12 else dt.hour % 12) ≤ 12 := by
    split_ifs <;> omega
  rw [c4render26_eq]
  refine strptimeF_of_none _ _ ?_
  show runDirs (Dir.dd :: [Dir.lit '/', Dir.dm, Dir.lit '/', Dir.dy, Dir.ws, Dir.dH, Dir.lit ':', Dir.dM]) {} _ = _
  rw [runDirs_dd_nodigit _ _ _ _ (by decide)]

theorem c4fail_3_26 (dt : DT) (h : Rep fmt26 dt) :
    strptimeF fmt3 (render fmt26 dt) = none := by
  obtain ⟨hval, hyr, hsec⟩ := h
  simp only [validPy] at hval
  obtain ⟨h1y, h2y, h1m, h2m, h1d, h2d, hH, hMi, hSs⟩ := hval
  have hyr' : 1000 ≤ dt.year ∧ dt.year ≤ 9999 := by
    rw [if_neg (by decide)] at hyr
    exact hyr
  have hd31 : dt.day ≤ 31 := le_trans h2d (daysInMonth_le _ _)
  have hBi : 1 ≤ (if dt.hour % 12 = 0 then 12 else dt.hour % 12) ∧ (if dt.hour % 12 = 0 then 12 else dt.hour % 12) ≤ 12 := by
    split_ifs <;> omega
  rw [c4render26_eq]
  refine strptimeF_of_none _ _ ?_
  show runDirs (Dir.dd :: [Dir.lit '/', Dir.dm, Dir.lit '/', Dir.dy, Dir.lit ',', Dir.ws, Dir.dH, Dir.lit ':', Dir.dM]) {} _ = _
  rw [runDirs_dd_nodigit _ _ _ _ (by decide)]

theorem c4fail_4_26 (dt : DT) (h : Rep fmt26 dt) :
    strptimeF fmt4 (render fmt26 dt) = none := by
  obtain ⟨hval, hyr, hsec⟩ := h
  simp only [validPy] at hval
  obtain ⟨h1y, h2y, h1m, h2m, h1d, h2d, hH, hMi, hSs⟩ := hval
  have hyr' : 1000 ≤ dt.year ∧ dt.year ≤ 9999 := by
    rw [if_neg (by decide)] at hyr
    exact hyr
  have hd31 : dt.day ≤ 31 := le_trans h2d (daysInMonth_le _ _)
  have hBi : 1 ≤ (if dt.hour % 12 = 0 then 12 else dt.hour % 12) ∧ (if dt.hour % 12 = 0 then 12 else dt.hour % 12) ≤ 12 := by
    split_ifs <;> omega
  rw [c4render26_eq]
  refine strptimeF_of_none _ _ ?_
  show runDirs (Dir.dm :: [Dir.lit '/', Dir.dd, Dir.lit '/', Dir.dY, Dir.ws, Dir.dI, Dir.lit ':', Dir.dM, Dir.ws, Dir.dp]) {} _ = _
  rw [runDirs_dm_nodigit _ _ _ _ (by decide)]

theorem c4fail_5_26 (dt : DT) (h : Rep fmt26 dt) :
    strptimeF fmt5 (render fmt26 dt) = none := by
  obtain ⟨hval, hyr, hsec⟩ := h
  simp only [validPy] at hval
  obtain ⟨h1y, h2y, h1m, h2m, h1d, h2d, hH, hMi, hSs⟩ := hval
  have hyr' : 1000 ≤ dt.year ∧ dt.year ≤ 9999 := by
    rw [if_neg (by decide)] at hyr
    exact hyr
  have hd31 : dt.day ≤ 31 := le_trans h2d (daysInMonth_le _ _)
  have hBi : 1 ≤ (if dt.hour % 12 = 0 then 12 else dt.hour % 12) ∧ (if dt.hour % 12 = 0 then 12 else dt.hour % 12) ≤ 12 := by
    split_ifs <;> omega
  rw [c4render26_eq]
  refine strptimeF_of_none _ _ ?_
  show runDirs (Dir.dm :: [Dir.lit '/', Dir.dd, Dir.lit '/', Dir.dY, Dir.lit ',', Dir.ws, Dir.dI, Dir.lit ':', Dir.dM, Dir.ws, Dir.dp]) {} _ = _
  rw [runDirs_dm_nodigit _ _ _ _ (by decide)]

theorem c4fail_6_26 (dt : DT) (h : Rep fmt26 dt) :
    strptimeF fmt6 (render fmt26 dt) = none := by
  obtain ⟨hval, hyr, hsec⟩ := h
  simp only [validPy] at hval
  obtain ⟨h1y, h2y, h1m, h2m, h1d, h2d, hH, hMi, hSs⟩ := hval
  have hyr' : 1000 ≤ dt.year ∧ dt.year ≤ 9999 := by
    rw [if_neg (by decide)] at hyr
    exact hyr
  have hd31 : dt.day ≤ 31 := le_trans h2d (daysInMonth_le _ _)
  have hBi : 1 ≤ (if dt.hour % 12 = 0 then 12 else dt.hour % 12) ∧ (if dt.hour % 12 = 0 then 12 else dt.hour % 12) ≤ 12 := by
    split_ifs <;> omega
  rw [c4render26_eq]
  refine strptimeF_of_none _ _ ?_
  show runDirs (Dir.dm :: [Dir.lit '/', Dir.dd, Dir.lit '/', Dir.dy, Dir.ws, Dir.dI, Dir.lit ':', Dir.dM, Dir.ws, Dir.dp]) {} _ = _
  rw [runDirs_dm_nodigit _ _ _ _ (by decide)]

theorem c4fail_7_26 (dt : DT) (h : Rep fmt26 dt) :
    strptimeF fmt7 (render fmt26 dt) = none := by
  obtain ⟨hval, hyr, hsec⟩ := h
  simp only [validPy] at hval
  obtain ⟨h1y, h2y, h1m, h2m, h1d, h2d, hH, hMi, hSs⟩ := hval
  have hyr' : 1000 ≤ dt.year ∧ dt.year ≤ 9999 := by
    rw [if_neg (by decide)] at hyr
    exact hyr
  have hd31 : dt.day ≤ 31 := le_trans h2d (daysInMonth_le _ _)
  have hBi : 1 ≤ (if dt.hour % 12 = 0 then 12 else dt.hour % 12) ∧ (if dt.hour % 12 = 0 then 12 else dt.hour % 12) ≤ 12 := by
    split_ifs <;> omega
  rw [c4render26_eq]
  refine strptimeF_of_none _ _ ?_
  show runDirs (Dir.dm :: [Dir.lit '/', Dir.dd, Dir.lit '/', Dir.dy, Dir.lit ',', Dir.ws, Dir.dI, Dir.lit ':', Dir.dM, Dir.ws, Dir.dp]) {} _ = _
  rw [runDirs_dm_nodigit _ _ _ _ (by decide)]

theorem c4fail_8_26 (dt : DT) (h : Rep fmt26 dt) :
    strptimeF fmt8 (render fmt26 dt) = none := by
  obtain ⟨hval, hyr, hsec⟩ := h
  simp only [validPy] at hval
  obtain ⟨h1y, h2y, h1m, h2m, h1d, h2d, hH, hMi, hSs⟩ := hval
  have hyr' : 1000 ≤ dt.year ∧ dt.year ≤ 9999 := by
    rw [if_neg (by decide)] at hyr
    exact hyr
  have hd31 : dt.day ≤ 31 := le_trans h2d (daysInMonth_le _ _)
  have hBi : 1 ≤ (if dt.hour % 12 = 0 then 12 else dt.hour % 12) ∧ (if dt.hour % 12 = 0 then 12 else dt.hour % 12) ≤ 12 := by
    split_ifs <;> omega
  rw [c4render26_eq]
  refine strptimeF_of_none _ _ ?_
  show runDirs (Dir.dY :: [Dir.lit '-', Dir.dm, Dir.lit '-', Dir.dd, Dir.ws, Dir.dH, Dir.lit ':', Dir.dM]) {} _ = _
  rw [runDirs_dY_nodigit _ _ _ _ (by decide)]

theorem c4fail_9_26 (dt : DT) (h : Rep fmt26 dt) :
    strptimeF fmt9 (render fmt26 dt) = none := by
  obtain ⟨hval, hyr, hsec⟩ := h
  simp only [validPy] at hval
  obtain ⟨h1y, h2y, h1m, h2m, h1d, h2d, hH, hMi, hSs⟩ := hval
  have hyr' : 1000 ≤ dt.year ∧ dt.year ≤ 9999 := by
    rw [if_neg (by decide)] at hyr
    exact hyr
  have hd31 : dt.day ≤ 31 := le_trans h2d (daysInMonth_le _ _)
  have hBi : 1 ≤ (if dt.hour % 12 = 0 then 12 else dt.hour % 12) ∧ (if dt.hour % 12 = 0 then 12 else dt.hour % 12) ≤ 12 := by
    split_ifs <;> omega
  rw [c4render26_eq]
  refine strptimeF_of_none _ _ ?_
  show runDirs (Dir.dY :: [Dir.lit '-', Dir.dm, Dir.lit '-', Dir.dd, Dir.lit ',', Dir.ws, Dir.dH, Dir.lit ':', Dir.dM]) {} _ = _
  rw [runDirs_dY_nodigit _ _ _ _ (by decide)]

theorem c4fail_10_26 (dt : DT) (h : Rep fmt26 dt) :
    strptimeF fmt10 (render fmt26 dt) = none := by
  obtain ⟨hval, hyr, hsec⟩ := h
  simp only [validPy] at hval
  obtain ⟨h1y, h2y, h1m, h2m, h1d, h2d, hH, hMi, hSs⟩ := hval
  have hyr' : 1000 ≤ dt.year ∧ dt.year ≤ 9999 := by
    rw [if_neg (by decide)] at hyr
    exact hyr
  have hd31 : dt.day ≤ 31 := le_trans h2d (daysInMonth_le _ _)
  have hBi : 1 ≤ (if dt.hour % 12 = 0 then 12 else dt.hour % 12) ∧ (if dt.hour % 12 = 0 then 12 else dt.hour % 12) ≤ 12 := by
    split_ifs <;> omega
  rw [c4render26_eq]
  refine strptimeF_of_none _ _ ?_
  show runDirs (Dir.dY :: [Dir.lit '/', Dir.dm, Dir.lit '/', Dir.dd, Dir.ws, Dir.dH, Dir.lit ':', Dir.dM]) {} _ = _
  rw [runDirs_dY_nodigit _ _ _ _ (by decide)]

theorem c4fail_11_26 (dt : DT) (h : Rep fmt26 dt) :
    strptimeF fmt11 (render fmt26 dt) = none := by
  obtain ⟨hval, hyr, hsec⟩ := h
  simp only [validPy] at hval
  obtain ⟨h1y, h2y, h1m, h2m, h1d, h2d, hH, hMi, hSs⟩ := hval
  have hyr' : 1000 ≤ dt.year ∧ dt.year ≤ 9999 := by
    rw [if_neg (by decide)] at hyr
    exact hyr
  have hd31 : dt.day ≤ 31 := le_trans h2d (daysInMonth_le _ _)
  have hBi : 1 ≤ (if dt.hour % 12 = 0 then 12 else dt.hour % 12) ∧ (if dt.hour % 12 = 0 then 12 else dt.hour % 12) ≤ 12 := by
    split_ifs <;> omega
  rw [c4render26_eq]
  refine strptimeF_of_none _ _ ?_
  show runDirs (Dir.dY :: [Dir.lit '/', Dir.dm, Dir.lit '/', Dir.dd, Dir.lit ',', Dir.ws, Dir.dH, Dir.lit ':', Dir.dM]) {} _ = _
  rw [runDirs_dY_nodigit _ _ _ _ (by decide)]

theorem c4fail_12_26 (dt : DT) (h : Rep fmt26 dt) :
    strptimeF fmt12 (render fmt26 dt) = none := by
  obtain ⟨hval, hyr, hsec⟩ := h
  simp only [validPy] at hval
  obtain ⟨h1y, h2y, h1m, h2m, h1d, h2d, hH, hMi, hSs⟩ := hval
  have hyr' : 1000 ≤ dt.year ∧ dt.year ≤ 9999 := by
    rw [if_neg (by decide)] at hyr
    exact hyr
  have hd31 : dt.day ≤ 31 := le_trans h2d (daysInMonth_le _ _)
  have hBi : 1 ≤ (if dt.hour % 12 = 0 then 12 else dt.hour % 12) ∧ (if dt.hour % 12 = 0 then 12 else dt.hour % 12) ≤ 12 := by
    split_ifs <;> omega
  rw [c4render26_eq]
  refine strptimeF_of_none _ _ ?_
  show runDirs (Dir.dd :: [Dir.lit '.', Dir.dm, Dir.lit '.', Dir.dY, Dir.ws, Dir.dH, Dir.lit ':', Dir.dM]) {} _ = _
  rw [runDirs_dd_nodigit _ _ _ _ (by decide)]

theorem c4fail_13_26 (dt : DT) (h : Rep fmt26 dt) :
    strptimeF fmt13 (render fmt26 dt) = none := by
  obtain ⟨hval, hyr, hsec⟩ := h
  simp only [validPy] at hval
  obtain ⟨h1y, h2y, h1m, h2m, h1d, h2d, hH, hMi, hSs⟩ := hval
  have hyr' : 1000 ≤ dt.year ∧ dt.year ≤ 9999 := by
    rw [if_neg (by decide)] at hyr
    exact hyr
  have hd31 : dt.day ≤ 31 := le_trans h2d (daysInMonth_le _ _)
  have hBi : 1 ≤ (if dt.hour % 12 = 0 then 12 else dt.hour % 12) ∧ (if dt.hour % 12 = 0 then 12 else dt.hour % 12) ≤ 12 := by
    split_ifs <;> omega
  rw [c4render26_eq]
  refine strptimeF_of_none _ _ ?_
  show runDirs (Dir.dd :: [Dir.lit '.', Dir.dm, Dir.lit '.', Dir.dY, Dir.lit ',', Dir.ws, Dir.dH, Dir.lit ':', Dir.dM]) {} _ = _
  rw [runDirs_dd_nodigit _ _ _ _ (by decide)]

theorem c4fail_14_26 (dt : DT) (h : Rep fmt26 dt) :
    strptimeF fmt14 (render fmt26 dt) = none := by
  obtain ⟨hval, hyr, hsec⟩ := h
  simp only [validPy] at hval
  obtain ⟨h1y, h2y, h1m, h2m, h1d, h2d, hH, hMi, hSs⟩ := hval
  have hyr' : 1000 ≤ dt.year ∧ dt.year ≤ 9999 := by
    rw [if_neg (by decide)] at hyr
    exact hyr
  have hd31 : dt.day ≤ 31 := le_trans h2d (daysInMonth_le _ _)
  have hBi : 1 ≤ (if dt.hour % 12 = 0 then 12 else dt.hour % 12) ∧ (if dt.hour % 12 = 0 then 12 else dt.hour % 12) ≤ 12 := by
    split_ifs <;> omega
  rw [c4render26_eq]
  refine strptimeF_of_none _ _ ?_
  show runDirs (Dir.dd :: [Dir.lit '.', Dir.dm, Dir.lit '.', Dir.dy, Dir.ws, Dir.dH, Dir.lit ':', Dir.dM]) {} _ = _
  rw [runDirs_dd_nodigit _ _ _ _ (by decide)]

theorem c4fail_15_26 (dt : DT) (h : Rep fmt26 dt) :
    strptimeF fmt15 (render fmt26 dt) = none := by
  obtain ⟨hval, hyr, hsec⟩ := h
  simp only [validPy] at hval
  obtain ⟨h1y, h2y, h1m, h2m, h1d, h2d, hH, hMi, hSs⟩ := hval
  have hyr' : 1000 ≤ dt.year ∧ dt.year ≤ 9999 := by
    rw [if_neg (by decide)] at hyr
    exact hyr
  have hd31 : dt.day ≤ 31 := le_trans h2d (daysInMonth_le _ _)
  have hBi : 1 ≤ (if dt.hour % 12 = 0 then 12 else dt.hour % 12) ∧ (if dt.hour % 12 = 0 then 12 else dt.hour % 12) ≤ 12 := by
    split_ifs <;> omega
  rw [c4render26_eq]
  refine strptimeF_of_none _ _ ?_
  show runDirs (Dir.dd :: [Dir.lit '.', Dir.dm, Dir.lit '.', Dir.dy, Dir.lit ',', Dir.ws, Dir.dH, Dir.lit ':', Dir.dM]) {} _ = _
  rw [runDirs_dd_nodigit _ _ _ _ (by decide)]

theorem c4fail_16_26 (dt : DT) (h : Rep fmt26 dt) :
    strptimeF fmt16 (render fmt26 dt) = none := by
  obtain ⟨hval, hyr, hsec⟩ := h
  simp only [validPy] at hval
  obtain ⟨h1y, h2y, h1m, h2m, h1d, h2d, hH, hMi, hSs⟩ := hval
  have hyr' : 1000 ≤ dt.year ∧ dt.year ≤ 9999 := by
    rw [if_neg (by decide)] at hyr
    exact hyr
  have hd31 : dt.day ≤ 31 := le_trans h2d (daysInMonth_le _ _)
  have hBi : 1 ≤ (if dt.hour % 12 = 0 then 12 else dt.hour % 12) ∧ (if dt.hour % 12 = 0 then 12 else dt.hour % 12) ≤ 12 := by
    split_ifs <;> omega
  rw [c4render26_eq]
  refine strptimeF_of_none _ _ ?_
  show runDirs (Dir.dd :: [Dir.lit '-', Dir.dm, Dir.lit '-', Dir.dY, Dir.ws, Dir.dH, Dir.lit ':', Dir.dM]) {} _ = _
  rw [runDirs_dd_nodigit _ _ _ _ (by decide)]

theorem c4fail_17_26 (dt : DT) (h : Rep fmt26 dt) :
    strptimeF fmt17 (render fmt26 dt) = none := by
  obtain ⟨hval, hyr, hsec⟩ := h
  simp only [validPy] at hval
  obtain ⟨h1y, h2y, h1m, h2m, h1d, h2d, hH, hMi, hSs⟩ := hval
  have hyr' : 1000 ≤ dt.year ∧ dt.year ≤ 9999 := by
    rw [if_neg (by decide)] at hyr
    exact hyr
  have hd31 : dt.day ≤ 31 := le_trans h2d (daysInMonth_le _ _)
  have hBi : 1 ≤ (if dt.hour % 12 = 0 then 12 else dt.hour % 12) ∧ (if dt.hour % 12 = 0 then 12 else dt.hour % 12) ≤ 12 := by
    split_ifs <;> omega
  rw [c4render26_eq]
  refine strptimeF_of_none _ _ ?_
  show runDirs (Dir.dd :: [Dir.lit '-', Dir.dm, Dir.lit '-', Dir.dY, Dir.lit ',', Dir.ws, Dir.dH, Dir.lit ':', Dir.dM]) {} _ = _
  rw [runDirs_dd_nodigit _ _ _ _ (by decide)]

theorem c4fail_18_26 (dt : DT) (h : Rep fmt26 dt) :
    strptimeF fmt18 (render fmt26 dt) = none := by
  obtain ⟨hval, hyr, hsec⟩ := h
  simp only [validPy] at hval
  obtain ⟨h1y, h2y, h1m, h2m, h1d, h2d, hH, hMi, hSs⟩ := hval
  have hyr' : 1000 ≤ dt.year ∧ dt.year ≤ 9999 := by
    rw [if_neg (by decide)] at hyr
    exact hyr
  have hd31 : dt.day ≤ 31 := le_trans h2d (daysInMonth_le _ _)
  have hBi : 1 ≤ (if dt.hour % 12 = 0 then 12 else dt.hour % 12) ∧ (if dt.hour % 12 = 0 then 12 else dt.hour % 12) ≤ 12 := by
    split_ifs <;> omega
  rw [c4render26_eq]
  refine strptimeF_of_none _ _ ?_
  show runDirs (Dir.dd :: [Dir.lit '-', Dir.dm, Dir.lit '-', Dir.dy, Dir.ws, Dir.dH, Dir.lit ':', Dir.dM]) {} _ = _
  rw [runDirs_dd_nodigit _ _ _ _ (by decide)]

theorem c4fail_19_26 (dt : DT) (h : Rep fmt26 dt) :
    strptimeF fmt19 (render fmt26 dt) = none := by
  obtain ⟨hval, hyr, hsec⟩ := h
  simp only [validPy] at hval
  obtain ⟨h1y, h2y, h1m, h2m, h1d, h2d, hH, hMi, hSs⟩ := hval
  have hyr' : 1000 ≤ dt.year ∧ dt.year ≤ 9999 := by
    rw [if_neg (by decide)] at hyr
    exact hyr
  have hd31 : dt.day ≤ 31 := le_trans h2d (daysInMonth_le _ _)
  have hBi : 1 ≤ (if dt.hour % 12 = 0 then 12 else dt.hour % 12) ∧ (if dt.hour % 12 = 0 then 12 else dt.hour % 12) ≤ 12 := by
    split_ifs <;> omega
  rw [c4render26_eq]
  refine strptimeF_of_none _ _ ?_
  show runDirs (Dir.dd :: [Dir.lit '-', Dir.dm, Dir.lit '-', Dir.dy, Dir.lit ',', Dir.ws, Dir.dH, Dir.lit ':', Dir.dM]) {} _ = _
  rw [runDirs_dd_nodigit _ _ _ _ (by decide)]

theorem c4fail_20_26 (dt : DT) (h : Rep fmt26 dt) :
    strptimeF fmt20 (render fmt26 dt) = none := by
  obtain ⟨hval, hyr, hsec⟩ := h
  simp only [validPy] at hval
  obtain ⟨h1y, h2y, h1m, h2m, h1d, h2d, hH, hMi, hSs⟩ := hval
  have hyr' : 1000 ≤ dt.year ∧ dt.year ≤ 9999 := by
    rw [if_neg (by decide)] at hyr
    exact hyr
  have hd31 : dt.day ≤ 31 := le_trans h2d (daysInMonth_le _ _)
  have hBi : 1 ≤ (if dt.hour % 12 = 0 then 12 else dt.hour % 12) ∧ (if dt.hour % 12 = 0 then 12 else dt.hour % 12) ≤ 12 := by
    split_ifs <;> omega
  rw [c4render26_eq]
  refine strptimeF_of_none _ _ ?_
  show runDirs (Dir.dd :: [Dir.lit '/', Dir.dm, Dir.lit '/', Dir.dY, Dir.ws, Dir.dH, Dir.lit ':', Dir.dM, Dir.lit ':', Dir.dS]) {} _ = _
  rw [runDirs_dd_nodigit _ _ _ _ (by decide)]

theorem c4fail_21_26 (dt : DT) (h : Rep fmt26 dt) :
    strptimeF fmt21 (render fmt26 dt) = none := by
  obtain ⟨hval, hyr, hsec⟩ := h
  simp only [validPy] at hval
  obtain ⟨h1y, h2y, h1m, h2m, h1d, h2d, hH, hMi, hSs⟩ := hval
  have hyr' : 1000 ≤ dt.year ∧ dt.year ≤ 9999 := by
    rw [if_neg (by decide)] at hyr
    exact hyr
  have hd31 : dt.day ≤ 31 := le_trans h2d (daysInMonth_le _ _)
  have hBi : 1 ≤ (if dt.hour % 12 = 0 then 12 else dt.hour % 12) ∧ (if dt.hour % 12 = 0 then 12 else dt.hour % 12) ≤ 12 := by
    split_ifs <;> omega
  rw [c4render26_eq]
  refine strptimeF_of_none _ _ ?_
  show runDirs (Dir.dd :: [Dir.lit '/', Dir.dm, Dir.lit '/', Dir.dY, Dir.lit ',', Dir.ws, Dir.dH, Dir.lit ':', Dir.dM, Dir.lit ':', Dir.dS]) {} _ = _
  rw [runDirs_dd_nodigit _ _ _ _ (by decide)]

theorem c4fail_22_26 (dt : DT) (h : Rep fmt26 dt) :
    strptimeF fmt22 (render fmt26 dt) = none := by
  obtain ⟨hval, hyr, hsec⟩ := h
  simp only [validPy] at hval
  obtain ⟨h1y, h2y, h1m, h2m, h1d, h2d, hH, hMi, hSs⟩ := hval
  have hyr' : 1000 ≤ dt.year ∧ dt.year ≤ 9999 := by
    rw [if_neg (by decide)] at hyr
    exact hyr
  have hd31 : dt.day ≤ 31 := le_trans h2d (daysInMonth_le _ _)
  have hBi : 1 ≤ (if dt.hour % 12 = 0 then 12 else dt.hour % 12) ∧ (if dt.hour % 12 = 0 then 12 else dt.hour % 12) ≤ 12 := by
    split_ifs <;> omega
  rw [c4render26_eq]
  refine strptimeF_of_none _ _ ?_
  show runDirs (Dir.dm :: [Dir.lit '/', Dir.dd, Dir.lit '/', Dir.dY, Dir.ws, Dir.dI, Dir.lit ':', Dir.dM, Dir.lit ':', Dir.dS, Dir.ws, Dir.dp]) {} _ = _
  rw [runDirs_dm_nodigit _ _ _ _ (by decide)]

theorem c4fail_23_26 (dt : DT) (h : Rep fmt26 dt) :
    strptimeF fmt23 (render fmt26 dt) = none := by
  obtain ⟨hval, hyr, hsec⟩ := h
  simp only [validPy] at hval
  obtain ⟨h1y, h2y, h1m, h2m, h1d, h2d, hH, hMi, hSs⟩ := hval
  have hyr' : 1000 ≤ dt.year ∧ dt.year ≤ 9999 := by
    rw [if_neg (by decide)] at hyr
    exact hyr
  have hd31 : dt.day ≤ 31 := le_trans h2d (daysInMonth_le _ _)
  have hBi : 1 ≤ (if dt.hour % 12 = 0 then 12 else dt.hour % 12) ∧ (if dt.hour % 12 = 0 then 12 else dt.hour % 12) ≤ 12 := by
    split_ifs <;> omega
  rw [c4render26_eq]
  refine strptimeF_of_none _ _ ?_
  show runDirs (Dir.dm :: [Dir.lit '/', Dir.dd, Dir.lit '/', Dir.dY, Dir.lit ',', Dir.ws, Dir.dI, Dir.lit ':', Dir.dM, Dir.lit ':', Dir.dS, Dir.ws, Dir.dp]) {} _ = _
  rw [runDirs_dm_nodigit _ _ _ _ (by decide)]

theorem c4fail_24_26 (dt : DT) (h : Rep fmt26 dt) :
    strptimeF fmt24 (render fmt26 dt) = none := by
  obtain ⟨hval, hyr, hsec⟩ := h
  simp only [validPy] at hval
  obtain ⟨h1y, h2y, h1m, h2m, h1d, h2d, hH, hMi, hSs⟩ := hval
  have hyr' : 1000 ≤ dt.year ∧ dt.year ≤ 9999 := by
    rw [if_neg (by decide)] at hyr
    exact hyr
  have hd31 : dt.day ≤ 31 := le_trans h2d (daysInMonth_le _ _)
  have hBi : 1 ≤ (if dt.hour % 12 = 0 then 12 else dt.hour % 12) ∧ (if dt.hour % 12 = 0 then 12 else dt.hour % 12) ≤ 12 := by
    split_ifs <;> omega
  rw [c4render26_eq]
  refine strptimeF_of_none _ _ ?_
  show runDirs (Dir.lit '[' :: [Dir.dY, Dir.lit '-', Dir.dm, Dir.lit '-', Dir.dd, Dir.ws, Dir.dH, Dir.lit ':', Dir.dM, Dir.lit ':', Dir.dS, Dir.lit ']']) {} _ = _
  rw [runDirs_lit_eq, runDirs_dY_pad2_sep _ _ _ _ _ (by decide)]

theorem c4fail_25_26 (dt : DT) (h : Rep fmt26 dt) :
    strptimeF fmt25 (render fmt26 dt) = none := by
  obtain ⟨hval, hyr, hsec⟩ := h
  simp only [validPy] at hval
  obtain ⟨h1y, h2y, h1m, h2m, h1d, h2d, hH, hMi, hSs⟩ := hval
  have hyr' : 1000 ≤ dt.year ∧ dt.year ≤ 9999 := by
    rw [if_neg (by decide)] at hyr
    exact hyr
  have hd31 : dt.day ≤ 31 := le_trans h2d (daysInMonth_le _ _)
  have hBi : 1 ≤ (if dt.hour % 12 = 0 then 12 else dt.hour % 12) ∧ (if dt.hour % 12 = 0 then 12 else dt.hour % 12) ≤ 12 := by
    split_ifs <;> omega
  rw [c4render26_eq]
  by_cases hc1 : 1 ≤ dt.day ∧ dt.day ≤ 12
  · refine strptimeF_of_none _ _ ?_
    show runDirs (Dir.lit '[' :: [Dir.dd, Dir.lit '/', Dir.dm, Dir.lit '/', Dir.dY, Dir.ws, Dir.dH, Dir.lit ':', Dir.dM, Dir.lit ':', Dir.dS, Dir.lit ']']) {} _ = _
    rw [runDirs_lit_eq,
      runDirs_dd_pad _ _ dt.month _ (by omega) (kill_lit _ '/' (by decide) _ _),
      if_pos (by omega),
      runDirs_lit_eq,
      runDirs_dm_pad _ _ dt.day _ (by omega) (kill_lit _ '/' (by decide) _ _),
      if_pos hc1,
      runDirs_lit_eq,
      runDirs_dY_pad _ _ dt.year (by omega) _,
      runDirs_ws_single _ _ _ (wsCount_pad2 _ _),
      runDirs_dH_pad _ _ (if dt.hour % 12 = 0 then 12 else dt.hour % 12) _ (by omega) (kill_lit _ ':' (by decide) _ _),
      if_pos (by omega),
      runDirs_lit_eq,
      runDirs_dM_pad _ _ dt.minute _ (by omega) (kill_lit _ ':' (by decide) _ _),
      if_pos (by omega),
      runDirs_lit_eq,
      runDirs_dS_pad _ _ dt.second _ (by omega) (kill_lit _ ']' (by decide) _ _),
      if_pos (by omega),
      runDirs_lit_ne _ _ _ _ _ (by decide)]
  · refine strptimeF_of_none _ _ ?_
    show runDirs (Dir.lit '[' :: [Dir.dd, Dir.lit '/', Dir.dm, Dir.lit '/', Dir.dY, Dir.ws, Dir.dH, Dir.lit ':', Dir.dM, Dir.lit ':', Dir.dS, Dir.lit ']']) {} _ = _
    rw [runDirs_lit_eq,
      runDirs_dd_pad _ _ dt.month _ (by omega) (kill_lit _ '/' (by decide) _ _),
      if_pos (by omega),
      runDirs_lit_eq,
      runDirs_dm_pad _ _ dt.day _ (by omega) (kill_lit _ '/' (by decide) _ _),
      if_neg hc1]

theorem c4rt26 (dt : DT) (h : Rep fmt26 dt) :
    parseTimestampCore (render fmt26 dt) = some dt := by
  rw [parseTimestampCore_eq, c4trim26]
  simp only [formats]
  rw [tryFormats_cons_none _ _ _ (c4fail_0_26 dt h),
    tryFormats_cons_none _ _ _ (c4fail_1_26 dt h),
    tryFormats_cons_none _ _ _ (c4fail_2_26 dt h),
    tryFormats_cons_none _ _ _ (c4fail_3_26 dt h),
    tryFormats_cons_none _ _ _ (c4fail_4_26 dt h),
    tryFormats_cons_none _ _ _ (c4fail_5_26 dt h),
    tryFormats_cons_none _ _ _ (c4fail_6_26 dt h),
    tryFormats_cons_none _ _ _ (c4fail_7_26 dt h),
    tryFormats_cons_none _ _ _ (c4fail_8_26 dt h),
    tryFormats_cons_none _ _ _ (c4fail_9_26 dt h),
    tryFormats_cons_none _ _ _ (c4fail_10_26 dt h),
    tryFormats_cons_none _ _ _ (c4fail_11_26 dt h),
    tryFormats_cons_none _ _ _ (c4fail_12_26 dt h),
    tryFormats_cons_none _ _ _ (c4fail_13_26 dt h),
    tryFormats_cons_none _ _ _ (c4fail_14_26 dt h),
    tryFormats_cons_none _ _ _ (c4fail_15_26 dt h),
    tryFormats_cons_none _ _ _ (c4fail_16_26 dt h),
    tryFormats_cons_none _ _ _ (c4fail_17_26 dt h),
    tryFormats_cons_none _ _ _ (c4fail_18_26 dt h),
    tryFormats_cons_none _ _ _ (c4fail_19_26 dt h),
    tryFormats_cons_none _ _ _ (c4fail_20_26 dt h),
    tryFormats_cons_none _ _ _ (c4fail_21_26 dt h),
    tryFormats_cons_none _ _ _ (c4fail_22_26 dt h),
    tryFormats_cons_none _ _ _ (c4fail_23_26 dt h),
    tryFormats_cons_none _ _ _ (c4fail_24_26 dt h),
    tryFormats_cons_none _ _ _ (c4fail_25_26 dt h),
    tryFormats_cons_some _ _ _ _ (c4self26 dt h)]

theorem c4render27_eq (dt : DT) :
    render fmt27 dt
      = '[' :: (pad2 dt.day ++ ('-' :: (pad2 dt.month ++ ('-' :: (pad4 dt.year ++ (' ' :: (pad2 dt.hour ++ (':' :: (pad2 dt.minute ++ (':' :: (pad2 dt.second ++ (']' :: ([]))))))))))))) := rfl


theorem c4trim27 (dt : DT) : trimChars (render fmt27 dt) = render fmt27 dt := by
  apply trimChars_of_hl
  · rw [c4render27_eq]
    simp only [pad2_eq, pad4_eq, List.cons_append, List.nil_append]
    exact ⟨_, _, rfl, (by decide)⟩
  · rw [c4render27_eq]
    simp only [ampm_cons, pad2_eq, pad4_eq, List.reverse_cons, List.reverse_append,
      List.append_assoc, List.cons_append, List.nil_append, List.reverse_nil,
      List.append_nil]
    exact ⟨_, _, rfl, (by decide)⟩

theorem c4self27 (dt : DT) (h : Rep fmt27 dt) :
    strptimeF fmt27 (render fmt27 dt) = some dt := by
  obtain ⟨hval, hyr, hsec⟩ := h
  simp only [validPy] at hval
  obtain ⟨h1y, h2y, h1m, h2m, h1d, h2d, hH, hMi, hSs⟩ := hval
  have hyr' : 1000 ≤ dt.year ∧ dt.year ≤ 9999 := by
    rw [if_neg (by decide)] at hyr
    exact hyr
  have hd31 : dt.day ≤ 31 := le_trans h2d (daysInMonth_le _ _)
  rw [c4render27_eq]
  have hrun : runDirs fmt27 {} ('[' :: (pad2 dt.day ++ ('-' :: (pad2 dt.month ++ ('-' :: (pad4 dt.year ++ (' ' :: (pad2 dt.hour ++ (':' :: (pad2 dt.minute ++ (':' :: (pad2 dt.second ++ (']' :: ([]))))))))))))))
      = some (⟨some dt.day, some dt.month, none, some dt.year, some dt.hour, none, some dt.minute, some dt.second, none⟩, []) := by
    show runDirs (Dir.lit '[' :: [Dir.dd, Dir.lit '-', Dir.dm, Dir.lit '-', Dir.dY, Dir.ws, Dir.dH, Dir.lit ':', Dir.dM, Dir.lit ':', Dir.dS, Dir.lit ']']) {} _ = _
    rw [runDirs_lit_eq,
      runDirs_dd_pad _ _ dt.day _ (by omega) (kill_lit _ '-' (by decide) _ _),
      if_pos (by omega),
      runDirs_lit_eq,
      runDirs_dm_pad _ _ dt.month _ (by omega) (kill_lit _ '-' (by decide) _ _),
      if_pos (by omega),
      runDirs_lit_eq,
      runDirs_dY_pad _ _ dt.year (by omega) _,
      runDirs_ws_single _ _ _ (wsCount_pad2 _ _),
      runDirs_dH_pad _ _ dt.hour _ (by omega) (kill_lit _ ':' (by decide) _ _),
      if_pos (by omega),
      runDirs_lit_eq,
      runDirs_dM_pad _ _ dt.minute _ (by omega) (kill_lit _ ':' (by decide) _ _),
      if_pos (by omega),
      runDirs_lit_eq,
      runDirs_dS_pad _ _ dt.second _ (by omega) (kill_lit _ ']' (by decide) _ _),
      if_pos (by omega),
      runDirs_lit_eq,
      runDirs_nil_eq]
  rw [strptimeF_of_done _ _ _ hrun]
  unfold buildDT
  dsimp only
  simp only [Option.getD_some, Option.getD_none]
  rw [mkDT, if_pos (by omega)]

theorem c4fail_0_27 (dt : DT) (h : Rep fmt27 dt) :
    strptimeF fmt0 (render fmt27 dt) = none := by
  obtain ⟨hval, hyr, hsec⟩ := h
  simp only [validPy] at hval
  obtain ⟨h1y, h2y, h1m, h2m, h1d, h2d, hH, hMi, hSs⟩ := hval
  have hyr' : 1000 ≤ dt.year ∧ dt.year ≤ 9999 := by
    rw [if_neg (by decide)] at hyr
    exact hyr
  have hd31 : dt.day ≤ 31 := le_trans h2d (daysInMonth_le _ _)
  rw [c4render27_eq]
  refine strptimeF_of_none _ _ ?_
  show runDirs (Dir.dd :: [Dir.lit '/', Dir.dm, Dir.lit '/', Dir.dY, Dir.ws, Dir.dH, Dir.lit ':', Dir.dM]) {} _ = _
  rw [runDirs_dd_nodigit _ _ _ _ (by decide)]

theorem c4fail_1_27 (dt : DT) (h : Rep fmt27 dt) :
    strptimeF fmt1 (render fmt27 dt) = none := by
  obtain ⟨hval, hyr, hsec⟩ := h
  simp only [validPy] at hval
  obtain ⟨h1y, h2y, h1m, h2m, h1d, h2d, hH, hMi, hSs⟩ := hval
  have hyr' : 1000 ≤ dt.year ∧ dt.year ≤ 9999 := by
    rw [if_neg (by decide)] at hyr
    exact hyr
  have hd31 : dt.day ≤ 31 := le_trans h2d (daysInMonth_le _ _)
  rw [c4render27_eq]
  refine strptimeF_of_none _ _ ?_
  show runDirs (Dir.dd :: [Dir.lit '/', Dir.dm, Dir.lit '/', Dir.dY, Dir.lit ',', Dir.ws, Dir.dH, Dir.lit ':', Dir.dM]) {} _ = _
  rw [runDirs_dd_nodigit _ _ _ _ (by decide)]

theorem c4fail_2_27 (dt : DT) (h : Rep fmt27 dt) :
    strptimeF fmt2 (render fmt27 dt) = none := by
  obtain ⟨hval, hyr, hsec⟩ := h
  simp only [validPy] at hval
  obtain ⟨h1y, h2y, h1m, h2m, h1d, h2d, hH, hMi, hSs⟩ := hval
  have hyr' : 1000 ≤ dt.year ∧ dt.year ≤ 9999 := by
    rw [if_neg (by decide)] at hyr
    exact hyr
  have hd31 : dt.day ≤ 31 := le_trans h2d (daysInMonth_le _ _)
  rw [c4render27_eq]
  refine strptimeF_of_none _ _ ?_
  show runDirs (Dir.dd :: [Dir.lit '/', Dir.dm, Dir.lit '/', Dir.dy, Dir.ws, Dir.dH, Dir.lit ':', Dir.dM]) {} _ = _
  rw [runDirs_dd_nodigit _ _ _ _ (by decide)]

theorem c4fail_3_27 (dt : DT) (h : Rep fmt27 dt) :
    strptimeF fmt3 (render fmt27 dt) = none := by
  obtain ⟨hval, hyr, hsec⟩ := h
  simp only [validPy] at hval
  obtain ⟨h1y, h2y, h1m, h2m, h1d, h2d, hH, hMi, hSs⟩ := hval
  have hyr' : 1000 ≤ dt.year ∧ dt.year ≤ 9999 := by
    rw [if_neg (by decide)] at hyr
    exact hyr
  have hd31 : dt.day ≤ 31 := le_trans h2d (daysInMonth_le _ _)
  rw [c4render27_eq]
  refine strptimeF_of_none _ _ ?_
  show runDirs (Dir.dd :: [Dir.lit '/', Dir.dm, Dir.lit '/', Dir.dy, Dir.lit ',', Dir.ws, Dir.dH, Dir.lit ':', Dir.dM]) {} _ = _
  rw [runDirs_dd_nodigit _ _ _ _ (by decide)]

theorem c4fail_4_27 (dt : DT) (h : Rep fmt27 dt) :
    strptimeF fmt4 (render fmt27 dt) = none := by
  obtain ⟨hval, hyr, hsec⟩ := h
  simp only [validPy] at hval
  obtain ⟨h1y, h2y, h1m, h2m, h1d, h2d, hH, hMi, hSs⟩ := hval
  have hyr' : 1000 ≤ dt.year ∧ dt.year ≤ 9999 := by
    rw [if_neg (by decide)] at hyr
    exact hyr
  have hd31 : dt.day ≤ 31 := le_trans h2d (daysInMonth_le _ _)
  rw [c4render27_eq]
  refine strptimeF_of_none _ _ ?_
  show runDirs (Dir.dm :: [Dir.lit '/', Dir.dd, Dir.lit '/', Dir.dY, Dir.ws, Dir.dI, Dir.lit ':', Dir.dM, Dir.ws, Dir.dp]) {} _ = _
  rw [runDirs_dm_nodigit _ _ _ _ (by decide)]

theorem c4fail_5_27 (dt : DT) (h : Rep fmt27 dt) :
    strptimeF fmt5 (render fmt27 dt) = none := by
  obtain ⟨hval, hyr, hsec⟩ := h
  simp only [validPy] at hval
  obtain ⟨h1y, h2y, h1m, h2m, h1d, h2d, hH, hMi, hSs⟩ := hval
  have hyr' : 1000 ≤ dt.year ∧ dt.year ≤ 9999 := by
    rw [if_neg (by decide)] at hyr
    exact hyr
  have hd31 : dt.day ≤ 31 := le_trans h2d (daysInMonth_le _ _)
  rw [c4render27_eq]
  refine strptimeF_of_none _ _ ?_
  show runDirs (Dir.dm :: [Dir.lit '/', Dir.dd, Dir.lit '/', Dir.dY, Dir.lit ',', Dir.ws, Dir.dI, Dir.lit ':', Dir.dM, Dir.ws, Dir.dp]) {} _ = _
  rw [runDirs_dm_nodigit _ _ _ _ (by decide)]

theorem c4fail_6_27 (dt : DT) (h : Rep fmt27 dt) :
    strptimeF fmt6 (render fmt27 dt) = none := by
  obtain ⟨hval, hyr, hsec⟩ := h
  simp only [validPy] at hval
  obtain ⟨h1y, h2y, h1m, h2m, h1d, h2d, hH, hMi, hSs⟩ := hval
  have hyr' : 1000 ≤ dt.year ∧ dt.year ≤ 9999 := by
    rw [if_neg (by decide)] at hyr
    exact hyr
  have hd31 : dt.day ≤ 31 := le_trans h2d (daysInMonth_le _ _)
  rw [c4render27_eq]
  refine strptimeF_of_none _ _ ?_
  show runDirs (Dir.dm :: [Dir.lit '/', Dir.dd, Dir.lit '/', Dir.dy, Dir.ws, Dir.dI, Dir.lit ':', Dir.dM, Dir.ws, Dir.dp]) {} _ = _
  rw [runDirs_dm_nodigit _ _ _ _ (by decide)]

theorem c4fail_7_27 (dt : DT) (h : Rep fmt27 dt) :
    strptimeF fmt7 (render fmt27 dt) = none := by
  obtain ⟨hval, hyr, hsec⟩ := h
  simp only [validPy] at hval
  obtain ⟨h1y, h2y, h1m, h2m, h1d, h2d, hH, hMi, hSs⟩ := hval
  have hyr' : 1000 ≤ dt.year ∧ dt.year ≤ 9999 := by
    rw [if_neg (by decide)] at hyr
    exact hyr
  have hd31 : dt.day ≤ 31 := le_trans h2d (daysInMonth_le _ _)
  rw [c4render27_eq]
  refine strptimeF_of_none _ _ ?_
  show runDirs (Dir.dm :: [Dir.lit '/', Dir.dd, Dir.lit '/', Dir.dy, Dir.lit ',', Dir.ws, Dir.dI, Dir.lit ':', Dir.dM, Dir.ws, Dir.dp]) {} _ = _
  rw [runDirs_dm_nodigit _ _ _ _ (by decide)]

theorem c4fail_8_27 (dt : DT) (h : Rep fmt27 dt) :
    strptimeF fmt8 (render fmt27 dt) = none := by
  obtain ⟨hval, hyr, hsec⟩ := h
  simp only [validPy] at hval
  obtain ⟨h1y, h2y, h1m, h2m, h1d, h2d, hH, hMi, hSs⟩ := hval
  have hyr' : 1000 ≤ dt.year ∧ dt.year ≤ 9999 := by
    rw [if_neg (by decide)] at hyr
    exact hyr
  have hd31 : dt.day ≤ 31 := le_trans h2d (daysInMonth_le _ _)
  rw [c4render27_eq]
  refine strptimeF_of_none _ _ ?_
  show runDirs (Dir.dY :: [Dir.lit '-', Dir.dm, Dir.lit '-', Dir.dd, Dir.ws, Dir.dH, Dir.lit ':', Dir.dM]) {} _ = _
  rw [runDirs_dY_nodigit _ _ _ _ (by decide)]

theorem c4fail_9_27 (dt : DT) (h : Rep fmt27 dt) :
    strptimeF fmt9 (render fmt27 dt) = none := by
  obtain ⟨hval, hyr, hsec⟩ := h
  simp only [validPy] at hval
  obtain ⟨h1y, h2y, h1m, h2m, h1d, h2d, hH, hMi, hSs⟩ := hval
  have hyr' : 1000 ≤ dt.year ∧ dt.year ≤ 9999 := by
    rw [if_neg (by decide)] at hyr
    exact hyr
  have hd31 : dt.day ≤ 31 := le_trans h2d (daysInMonth_le _ _)
  rw [c4render27_eq]
  refine strptimeF_of_none _ _ ?_
  show runDirs (Dir.dY :: [Dir.lit '-', Dir.dm, Dir.lit '-', Dir.dd, Dir.lit ',', Dir.ws, Dir.dH, Dir.lit ':', Dir.dM]) {} _ = _
  rw [runDirs_dY_nodigit _ _ _ _ (by decide)]

theorem c4fail_10_27 (dt : DT) (h : Rep fmt27 dt) :
    strptimeF fmt10 (render fmt27 dt) = none := by
  obtain ⟨hval, hyr, hsec⟩ := h
  simp only [validPy] at hval
  obtain ⟨h1y, h2y, h1m, h2m, h1d, h2d, hH, hMi, hSs⟩ := hval
  have hyr' : 1000 ≤ dt.year ∧ dt.year ≤ 9999 := by
    rw [if_neg (by decide)] at hyr
    exact hyr
  have hd31 : dt.day ≤ 31 := le_trans h2d (daysInMonth_le _ _)
  rw [c4render27_eq]
  refine strptimeF_of_none _ _ ?_
  show runDirs (Dir.dY :: [Dir.lit '/', Dir.dm, Dir.lit '/', Dir.dd, Dir.ws, Dir.dH, Dir.lit ':', Dir.dM]) {} _ = _
  rw [runDirs_dY_nodigit _ _ _ _ (by decide)]

theorem c4fail_11_27 (dt : DT) (h : Rep fmt27 dt) :
    strptimeF fmt11 (render fmt27 dt) = none := by
  obtain ⟨hval, hyr, hsec⟩ := h
  simp only [validPy] at hval
  obtain ⟨h1y, h2y, h1m, h2m, h1d, h2d, hH, hMi, hSs⟩ := hval
  have hyr' : 1000 ≤ dt.year ∧ dt.year ≤ 9999 := by
    rw [if_neg (by decide)] at hyr
    exact hyr
  have hd31 : dt.day ≤ 31 := le_trans h2d (daysInMonth_le _ _)
  rw [c4render27_eq]
  refine strptimeF_of_none _ _ ?_
  show runDirs (Dir.dY :: [Dir.lit '/', Dir.dm, Dir.lit '/', Dir.dd, Dir.lit ',', Dir.ws, Dir.dH, Dir.lit ':', Dir.dM]) {} _ = _
  rw [runDirs_dY_nodigit _ _ _ _ (by decide)]

theorem c4fail_12_27 (dt : DT) (h : Rep fmt27 dt) :
    strptimeF fmt12 (render fmt27 dt) = none := by
  obtain ⟨hval, hyr, hsec⟩ := h
  simp only [validPy] at hval
  obtain ⟨h1y, h2y, h1m, h2m, h1d, h2d, hH, hMi, hSs⟩ := hval
  have hyr' : 1000 ≤ dt.year ∧ dt.year ≤ 9999 := by
    rw [if_neg (by decide)] at hyr
    exact hyr
  have hd31 : dt.day ≤ 31 := le_trans h2d (daysInMonth_le _ _)
  rw [c4render27_eq]
  refine strptimeF_of_none _ _ ?_
  show runDirs (Dir.dd :: [Dir.lit '.', Dir.dm, Dir.lit '.', Dir.dY, Dir.ws, Dir.dH, Dir.lit ':', Dir.dM]) {} _ = _
  rw [runDirs_dd_nodigit _ _ _ _ (by decide)]

theorem c4fail_13_27 (dt : DT) (h : Rep fmt27 dt) :
    strptimeF fmt13 (render fmt27 dt) = none := by
  obtain ⟨hval, hyr, hsec⟩ := h
  simp only [validPy] at hval
  obtain ⟨h1y, h2y, h1m, h2m, h1d, h2d, hH, hMi, hSs⟩ := hval
  have hyr' : 1000 ≤ dt.year ∧ dt.year ≤ 9999 := by
    rw [if_neg (by decide)] at hyr
    exact hyr
  have hd31 : dt.day ≤ 31 := le_trans h2d (daysInMonth_le _ _)
  rw [c4render27_eq]
  refine strptimeF_of_none _ _ ?_
  show runDirs (Dir.dd :: [Dir.lit '.', Dir.dm, Dir.lit '.', Dir.dY, Dir.lit ',', Dir.ws, Dir.dH, Dir.lit ':', Dir.dM]) {} _ = _
  rw [runDirs_dd_nodigit _ _ _ _ (by decide)]

theorem c4fail_14_27 (dt : DT) (h : Rep fmt27 dt) :
    strptimeF fmt14 (render fmt27 dt) = none := by
  obtain ⟨hval, hyr, hsec⟩ := h
  simp only [validPy] at hval
  obtain ⟨h1y, h2y, h1m, h2m, h1d, h2d, hH, hMi, hSs⟩ := hval
  have hyr' : 1000 ≤ dt.year ∧ dt.year ≤ 9999 := by
    rw [if_neg (by decide)] at hyr
    exact hyr
  have hd31 : dt.day ≤ 31 := le_trans h2d (daysInMonth_le _ _)
  rw [c4render27_eq]
  refine strptimeF_of_none _ _ ?_
  show runDirs (Dir.dd :: [Dir.lit '.', Dir.dm, Dir.lit '.', Dir.dy, Dir.ws, Dir.dH, Dir.lit ':', Dir.dM]) {} _ = _
  rw [runDirs_dd_nodigit _ _ _ _ (by decide)]

theorem c4fail_15_27 (dt : DT) (h : Rep fmt27 dt) :
    strptimeF fmt15 (render fmt27 dt) = none := by
  obtain ⟨hval, hyr, hsec⟩ := h
  simp only [validPy] at hval
  obtain ⟨h1y, h2y, h1m, h2m, h1d, h2d, hH, hMi, hSs⟩ := hval
  have hyr' : 1000 ≤ dt.year ∧ dt.year ≤ 9999 := by
    rw [if_neg (by decide)] at hyr
    exact hyr
  have hd31 : dt.day ≤ 31 := le_trans h2d (daysInMonth_le _ _)
  rw [c4render27_eq]
  refine strptimeF_of_none _ _ ?_
  show runDirs (Dir.dd :: [Dir.lit '.', Dir.dm, Dir.lit '.', Dir.dy, Dir.lit ',', Dir.ws, Dir.dH, Dir.lit ':', Dir.dM]) {} _ = _
  rw [runDirs_dd_nodigit _ _ _ _ (by decide)]

theorem c4fail_16_27 (dt : DT) (h : Rep fmt27 dt) :
    strptimeF fmt16 (render fmt27 dt) = none := by
  obtain ⟨hval, hyr, hsec⟩ := h
  simp only [validPy] at hval
  obtain ⟨h1y, h2y, h1m, h2m, h1d, h2d, hH, hMi, hSs⟩ := hval
  have hyr' : 1000 ≤ dt.year ∧ dt.year ≤ 9999 := by
    rw [if_neg (by decide)] at hyr
    exact hyr
  have hd31 : dt.day ≤ 31 := le_trans h2d (daysInMonth_le _ _)
  rw [c4render27_eq]
  refine strptimeF_of_none _ _ ?_
  show runDirs (Dir.dd :: [Dir.lit '-', Dir.dm, Dir.lit '-', Dir.dY, Dir.ws, Dir.dH, Dir.lit ':', Dir.dM]) {} _ = _
  rw [runDirs_dd_nodigit _ _ _ _ (by decide)]

theorem c4fail_17_27 (dt : DT) (h : Rep fmt27 dt) :
    strptimeF fmt17 (render fmt27 dt) = none := by
  obtain ⟨hval, hyr, hsec⟩ := h
  simp only [validPy] at hval
  obtain ⟨h1y, h2y, h1m, h2m, h1d, h2d, hH, hMi, hSs⟩ := hval
  have hyr' : 1000 ≤ dt.year ∧ dt.year ≤ 9999 := by
    rw [if_neg (by decide)] at hyr
    exact hyr
  have hd31 : dt.day ≤ 31 := le_trans h2d (daysInMonth_le _ _)
  rw [c4render27_eq]
  refine strptimeF_of_none _ _ ?_
  show runDirs (Dir.dd :: [Dir.lit '-', Dir.dm, Dir.lit '-', Dir.dY, Dir.lit ',', Dir.ws, Dir.dH, Dir.lit ':', Dir.dM]) {} _ = _
  rw [runDirs_dd_nodigit _ _ _ _ (by decide)]

theorem c4fail_18_27 (dt : DT) (h : Rep fmt27 dt) :
    strptimeF fmt18 (render fmt27 dt) = none := by
  obtain ⟨hval, hyr, hsec⟩ := h
  simp only [validPy] at hval
  obtain ⟨h1y, h2y, h1m, h2m, h1d, h2d, hH, hMi, hSs⟩ := hval
  have hyr' : 1000 ≤ dt.year ∧ dt.year ≤ 9999 := by
    rw [if_neg (by decide)] at hyr
    exact hyr
  have hd31 : dt.day ≤ 31 := le_trans h2d (daysInMonth_le _ _)
  rw [c4render27_eq]
  refine strptimeF_of_none _ _ ?_
  show runDirs (Dir.dd :: [Dir.lit '-', Dir.dm, Dir.lit '-', Dir.dy, Dir.ws, Dir.dH, Dir.lit ':', Dir.dM]) {} _ = _
  rw [runDirs_dd_nodigit _ _ _ _ (by decide)]

theorem c4fail_19_27 (dt : DT) (h : Rep fmt27 dt) :
    strptimeF fmt19 (render fmt27 dt) = none := by
  obtain ⟨hval, hyr, hsec⟩ := h
  simp only [validPy] at hval
  obtain ⟨h1y, h2y, h1m, h2m, h1d, h2d, hH, hMi, hSs⟩ := hval
  have hyr' : 1000 ≤ dt.year ∧ dt.year ≤ 9999 := by
    rw [if_neg (by decide)] at hyr
    exact hyr
  have hd31 : dt.day ≤ 31 := le_trans h2d (daysInMonth_le _ _)
  rw [c4render27_eq]
  refine strptimeF_of_none _ _ ?_
  show runDirs (Dir.dd :: [Dir.lit '-', Dir.dm, Dir.lit '-', Dir.dy, Dir.lit ',', Dir.ws, Dir.dH, Dir.lit ':', Dir.dM]) {} _ = _
  rw [runDirs_dd_nodigit _ _ _ _ (by decide)]

theorem c4fail_20_27 (dt : DT) (h : Rep fmt27 dt) :
    strptimeF fmt20 (render fmt27 dt) = none := by
  obtain ⟨hval, hyr, hsec⟩ := h
  simp only [validPy] at hval
  obtain ⟨h1y, h2y, h1m, h2m, h1d, h2d, hH, hMi, hSs⟩ := hval
  have hyr' : 1000 ≤ dt.year ∧ dt.year ≤ 9999 := by
    rw [if_neg (by decide)] at hyr
    exact hyr
  have hd31 : dt.day ≤ 31 := le_trans h2d (daysInMonth_le _ _)
  rw [c4render27_eq]
  refine strptimeF_of_none _ _ ?_
  show runDirs (Dir.dd :: [Dir.lit '/', Dir.dm, Dir.lit '/', Dir.dY, Dir.ws, Dir.dH, Dir.lit ':', Dir.dM, Dir.lit ':', Dir.dS]) {} _ = _
  rw [runDirs_dd_nodigit _ _ _ _ (by decide)]

theorem c4fail_21_27 (dt : DT) (h : Rep fmt27 dt) :
    strptimeF fmt21 (render fmt27 dt) = none := by
  obtain ⟨hval, hyr, hsec⟩ := h
  simp only [validPy] at hval
  obtain ⟨h1y, h2y, h1m, h2m, h1d, h2d, hH, hMi, hSs⟩ := hval
  have hyr' : 1000 ≤ dt.year ∧ dt.year ≤ 9999 := by
    rw [if_neg (by decide)] at hyr
    exact hyr
  have hd31 : dt.day ≤ 31 := le_trans h2d (daysInMonth_le _ _)
  rw [c4render27_eq]
  refine strptimeF_of_none _ _ ?_
  show runDirs (Dir.dd :: [Dir.lit '/', Dir.dm, Dir.lit '/', Dir.dY, Dir.lit ',', Dir.ws, Dir.dH, Dir.lit ':', Dir.dM, Dir.lit ':', Dir.dS]) {} _ = _
  rw [runDirs_dd_nodigit _ _ _ _ (by decide)]

theorem c4fail_22_27 (dt : DT) (h : Rep fmt27 dt) :
    strptimeF fmt22 (render fmt27 dt) = none := by
  obtain ⟨hval, hyr, hsec⟩ := h
  simp only [validPy] at hval
  obtain ⟨h1y, h2y, h1m, h2m, h1d, h2d, hH, hMi, hSs⟩ := hval
  have hyr' : 1000 ≤ dt.year ∧ dt.year ≤ 9999 := by
    rw [if_neg (by decide)] at hyr
    exact hyr
  have hd31 : dt.day ≤ 31 := le_trans h2d (daysInMonth_le _ _)
  rw [c4render27_eq]
  refine strptimeF_of_none _ _ ?_
  show runDirs (Dir.dm :: [Dir.lit '/', Dir.dd, Dir.lit '/', Dir.dY, Dir.ws, Dir.dI, Dir.lit ':', Dir.dM, Dir.lit ':', Dir.dS, Dir.ws, Dir.dp]) {} _ = _
  rw [runDirs_dm_nodigit _ _ _ _ (by decide)]

theorem c4fail_23_27 (dt : DT) (h : Rep fmt27 dt) :
    strptimeF fmt23 (render fmt27 dt) = none := by
  obtain ⟨hval, hyr, hsec⟩ := h
  simp only [validPy] at hval
  obtain ⟨h1y, h2y, h1m, h2m, h1d, h2d, hH, hMi, hSs⟩ := hval
  have hyr' : 1000 ≤ dt.year ∧ dt.year ≤ 9999 := by
    rw [if_neg (by decide)] at hyr
    exact hyr
  have hd31 : dt.day ≤ 31 := le_trans h2d (daysInMonth_le _ _)
  rw [c4render27_eq]
  refine strptimeF_of_none _ _ ?_
  show runDirs (Dir.dm :: [Dir.lit '/', Dir.dd, Dir.lit '/', Dir.dY, Dir.lit ',', Dir.ws, Dir.dI, Dir.lit ':', Dir.dM, Dir.lit ':', Dir.dS, Dir.ws, Dir.dp]) {} _ = _
  rw [runDirs_dm_nodigit _ _ _ _ (by decide)]

theorem c4fail_24_27 (dt : DT) (h : Rep fmt27 dt) :
    strptimeF fmt24 (render fmt27 dt) = none := by
  obtain ⟨hval, hyr, hsec⟩ := h
  simp only [validPy] at hval
  obtain ⟨h1y, h2y, h1m, h2m, h1d, h2d, hH, hMi, hSs⟩ := hval
  have hyr' : 1000 ≤ dt.year ∧ dt.year ≤ 9999 := by
    rw [if_neg (by decide)] at hyr
    exact hyr
  have hd31 : dt.day ≤ 31 := le_trans h2d (daysInMonth_le _ _)
  rw [c4render27_eq]
  refine strptimeF_of_none _ _ ?_
  show runDirs (Dir.lit '[' :: [Dir.dY, Dir.lit '-', Dir.dm, Dir.lit '-', Dir.dd, Dir.ws, Dir.dH, Dir.lit ':', Dir.dM, Dir.lit ':', Dir.dS, Dir.lit ']']) {} _ = _
  rw [runDirs_lit_eq, runDirs_dY_pad2_sep _ _ _ _ _ (by decide)]

theorem c4fail_25_27 (dt : DT) (h : Rep fmt27 dt) :
    strptimeF fmt25 (render fmt27 dt) = none := by
  obtain ⟨hval, hyr, hsec⟩ := h
  simp only [validPy] at hval
  obtain ⟨h1y, h2y, h1m, h2m, h1d, h2d, hH, hMi, hSs⟩ := hval
  have hyr' : 1000 ≤ dt.year ∧ dt.year ≤ 9999 := by
    rw [if_neg (by decide)] at hyr
    exact hyr
  have hd31 : dt.day ≤ 31 := le_trans h2d (daysInMonth_le _ _)
  rw [c4render27_eq]
  refine strptimeF_of_none _ _ ?_
  show runDirs (Dir.lit '[' :: [Dir.dd, Dir.lit '/', Dir.dm, Dir.lit '/', Dir.dY, Dir.ws, Dir.dH, Dir.lit ':', Dir.dM, Dir.lit ':', Dir.dS, Dir.lit ']']) {} _ = _
  rw [runDirs_lit_eq,
    runDirs_dd_pad _ _ dt.day _ (by omega) (kill_lit _ '/' (by decide) _ _),
    if_pos (by omega),
    runDirs_lit_ne _ _ _ _ _ (by decide)]

theorem c4fail_26_27 (dt : DT) (h : Rep fmt27 dt) :
    strptimeF fmt26 (render fmt27 dt) = none := by
  obtain ⟨hval, hyr, hsec⟩ := h
  simp only [validPy] at hval
  obtain ⟨h1y, h2y, h1m, h2m, h1d, h2d, hH, hMi, hSs⟩ := hval
  have hyr' : 1000 ≤ dt.year ∧ dt.year ≤ 9999 := by
    rw [if_neg (by decide)] at hyr
    exact hyr
  have hd31 : dt.day ≤ 31 := le_trans h2d (daysInMonth_le _ _)
  rw [c4render27_eq]
  by_cases hc1 : 1 ≤ dt.day ∧ dt.day ≤ 12
  · refine strptimeF_of_none _ _ ?_
    show runDirs (Dir.lit '[' :: [Dir.dm, Dir.lit '/', Dir.dd, Dir.lit '/', Dir.dY, Dir.ws, Dir.dI, Dir.lit ':', Dir.dM, Dir.lit ':', Dir.dS, Dir.ws, Dir.dp, Dir.lit ']']) {} _ = _
    rw [runDirs_lit_eq,
      runDirs_dm_pad _ _ dt.day _ (by omega) (kill_lit _ '/' (by decide) _ _),
      if_pos hc1,
      runDirs_lit_ne _ _ _ _ _ (by decide)]
  · refine strptimeF_of_none _ _ ?_
    show runDirs (Dir.lit '[' :: [Dir.dm, Dir.lit '/', Dir.dd, Dir.lit '/', Dir.dY, Dir.ws, Dir.dI, Dir.lit ':', Dir.dM, Dir.lit ':', Dir.dS, Dir.ws, Dir.dp, Dir.lit ']']) {} _ = _
    rw [runDirs_lit_eq,
      runDirs_dm_pad _ _ dt.day _ (by omega) (kill_lit _ '/' (by decide) _ _),
      if_neg hc1]

theorem c4rt27 (dt : DT) (h : Rep fmt27 dt) :
    parseTimestampCore (render fmt27 dt) = some dt := by
  rw [parseTimestampCore_eq, c4trim27]
  simp only [formats]
  rw [tryFormats_cons_none _ _ _ (c4fail_0_27 dt h),
    tryFormats_cons_none _ _ _ (c4fail_1_27 dt h),
    tryFormats_cons_none _ _ _ (c4fail_2_27 dt h),
    tryFormats_cons_none _ _ _ (c4fail_3_27 dt h),
    tryFormats_cons_none _ _ _ (c4fail_4_27 dt h),
    tryFormats_cons_none _ _ _ (c4fail_5_27 dt h),
    tryFormats_cons_none _ _ _ (c4fail_6_27 dt h),
    tryFormats_cons_none _ _ _ (c4fail_7_27 dt h),
    tryFormats_cons_none _ _ _ (c4fail_8_27 dt h),
    tryFormats_cons_none _ _ _ (c4fail_9_27 dt h),
    tryFormats_cons_none _ _ _ (c4fail_10_27 dt h),
    tryFormats_cons_none _ _ _ (c4fail_11_27 dt h),
    tryFormats_cons_none _ _ _ (c4fail_12_27 dt h),
    tryFormats_cons_none _ _ _ (c4fail_13_27 dt h),
    tryFormats_cons_none _ _ _ (c4fail_14_27 dt h),
    tryFormats_cons_none _ _ _ (c4fail_15_27 dt h),
    tryFormats_cons_none _ _ _ (c4fail_16_27 dt h),
    tryFormats_cons_none _ _ _ (c4fail_17_27 dt h),
    tryFormats_cons_none _ _ _ (c4fail_18_27 dt h),
    tryFormats_cons_none _ _ _ (c4fail_19_27 dt h),
    tryFormats_cons_none _ _ _ (c4fail_20_27 dt h),
    tryFormats_cons_none _ _ _ (c4fail_21_27 dt h),
    tryFormats_cons_none _ _ _ (c4fail_22_27 dt h),
    tryFormats_cons_none _ _ _ (c4fail_23_27 dt h),
    tryFormats_cons_none _ _ _ (c4fail_24_27 dt h),
    tryFormats_cons_none _ _ _ (c4fail_25_27 dt h),
    tryFormats_cons_none _ _ _ (c4fail_26_27 dt h),
    tryFormats_cons_some _ _ _ _ (c4self27 dt h)]

theorem c4render28_eq (dt : DT) :
    render fmt28 dt
      = '[' :: (pad2 dt.day ++ ('.' :: (pad2 dt.month ++ ('.' :: (pad4 dt.year ++ (' ' :: (pad2 dt.hour ++ (':' :: (pad2 dt.minute ++ (':' :: (pad2 dt.second ++ (']' :: ([]))))))))))))) := rfl


theorem c4trim28 (dt : DT) : trimChars (render fmt28 dt) = render fmt28 dt := by
  apply trimChars_of_hl
  · rw [c4render28_eq]
    simp only [pad2_eq, pad4_eq, List.cons_append, List.nil_append]
    exact ⟨_, _, rfl, (by decide)⟩
  · rw [c4render28_eq]
    simp only [ampm_cons, pad2_eq, pad4_eq, List.reverse_cons, List.reverse_append,
      List.append_assoc, List.cons_append, List.nil_append, List.reverse_nil,
      List.append_nil]
    exact ⟨_, _, rfl, (by decide)⟩

theorem c4self28 (dt : DT) (h : Rep fmt28 dt) :
    strptimeF fmt28 (render fmt28 dt) = some dt := by
  obtain ⟨hval, hyr, hsec⟩ := h
  simp only [validPy] at hval
  obtain ⟨h1y, h2y, h1m, h2m, h1d, h2d, hH, hMi, hSs⟩ := hval
  have hyr' : 1000 ≤ dt.year ∧ dt.year ≤ 9999 := by
    rw [if_neg (by decide)] at hyr
    exact hyr
  have hd31 : dt.day ≤ 31 := le_trans h2d (daysInMonth_le _ _)
  rw [c4render28_eq]
  have hrun : runDirs fmt28 {} ('[' :: (pad2 dt.day ++ ('.' :: (pad2 dt.month ++ ('.' :: (pad4 dt.year ++ (' ' :: (pad2 dt.hour ++ (':' :: (pad2 dt.minute ++ (':' :: (pad2 dt.second ++ (']' :: ([]))))))))))))))
      = some (⟨some dt.day, some dt.month, none, some dt.year, some dt.hour, none, some dt.minute, some dt.second, none⟩, []) := by
    show runDirs (Dir.lit '[' :: [Dir.dd, Dir.lit '.', Dir.dm, Dir.lit '.', Dir.dY, Dir.ws, Dir.dH, Dir.lit ':', Dir.dM, Dir.lit ':', Dir.dS, Dir.lit ']']) {} _ = _
    rw [runDirs_lit_eq,
      runDirs_dd_pad _ _ dt.day _ (by omega) (kill_lit _ '.' (by decide) _ _),
      if_pos (by omega),
      runDirs_lit_eq,
      runDirs_dm_pad _ _ dt.month _ (by omega) (kill_lit _ '.' (by decide) _ _),
      if_pos (by omega),
      runDirs_lit_eq,
      runDirs_dY_pad _ _ dt.year (by omega) _,
      runDirs_ws_single _ _ _ (wsCount_pad2 _ _),
      runDirs_dH_pad _ _ dt.hour _ (by omega) (kill_lit _ ':' (by decide) _ _),
      if_pos (by omega),
      runDirs_lit_eq,
      runDirs_dM_pad _ _ dt.minute _ (by omega) (kill_lit _ ':' (by decide) _ _),
      if_pos (by omega),
      runDirs_lit_eq,
      runDirs_dS_pad _ _ dt.second _ (by omega) (kill_lit _ ']' (by decide) _ _),
      if_pos (by omega),
      runDirs_lit_eq,
      runDirs_nil_eq]
  rw [strptimeF_of_done _ _ _ hrun]
  unfold buildDT
  dsimp only
  simp only [Option.getD_some, Option.getD_none]
  rw [mkDT, if_pos (by omega)]

theorem c4fail_0_28 (dt : DT) (h : Rep fmt28 dt) :
    strptimeF fmt0 (render fmt28 dt) = none := by
  obtain ⟨hval, hyr, hsec⟩ := h
  simp only [validPy] at hval
  obtain ⟨h1y, h2y, h1m, h2m, h1d, h2d, hH, hMi, hSs⟩ := hval
  have hyr' : 1000 ≤ dt.year ∧ dt.year ≤ 9999 := by
    rw [if_neg (by decide)] at hyr
    exact hyr
  have hd31 : dt.day ≤ 31 := le_trans h2d (daysInMonth_le _ _)
  rw [c4render28_eq]
  refine strptimeF_of_none _ _ ?_
  show runDirs (Dir.dd :: [Dir.lit '/', Dir.dm, Dir.lit '/', Dir.dY, Dir.ws, Dir.dH, Dir.lit ':', Dir.dM]) {} _ = _
  rw [runDirs_dd_nodigit _ _ _ _ (by decide)]

theorem c4fail_1_28 (dt : DT) (h : Rep fmt28 dt) :
    strptimeF fmt1 (render fmt28 dt) = none := by
  obtain ⟨hval, hyr, hsec⟩ := h
  simp only [validPy] at hval
  obtain ⟨h1y, h2y, h1m, h2m, h1d, h2d, hH, hMi, hSs⟩ := hval
  have hyr' : 1000 ≤ dt.year ∧ dt.year ≤ 9999 := by
    rw [if_neg (by decide)] at hyr
    exact hyr
  have hd31 : dt.day ≤ 31 := le_trans h2d (daysInMonth_le _ _)
  rw [c4render28_eq]
  refine strptimeF_of_none _ _ ?_
  show runDirs (Dir.dd :: [Dir.lit '/', Dir.dm, Dir.lit '/', Dir.dY, Dir.lit ',', Dir.ws, Dir.dH, Dir.lit ':', Dir.dM]) {} _ = _
  rw [runDirs_dd_nodigit _ _ _ _ (by decide)]

theorem c4fail_2_28 (dt : DT) (h : Rep fmt28 dt) :
    strptimeF fmt2 (render fmt28 dt) = none := by
  obtain ⟨hval, hyr, hsec⟩ := h
  simp only [validPy] at hval
  obtain ⟨h1y, h2y, h1m, h2m, h1d, h2d, hH, hMi, hSs⟩ := hval
  have hyr' : 1000 ≤ dt.year ∧ dt.year ≤ 9999 := by
    rw [if_neg (by decide)] at hyr
    exact hyr
  have hd31 : dt.day ≤ 31 := le_trans h2d (daysInMonth_le _ _)
  rw [c4render28_eq]
  refine strptimeF_of_none _ _ ?_
  show runDirs (Dir.dd :: [Dir.lit '/', Dir.dm, Dir.lit '/', Dir.dy, Dir.ws, Dir.dH, Dir.lit ':', Dir.dM]) {} _ = _
  rw [runDirs_dd_nodigit _ _ _ _ (by decide)]

theorem c4fail_3_28 (dt : DT) (h : Rep fmt28 dt) :
    strptimeF fmt3 (render fmt28 dt) = none := by
  obtain ⟨hval, hyr, hsec⟩ := h
  simp only [validPy] at hval
  obtain ⟨h1y, h2y, h1m, h2m, h1d, h2d, hH, hMi, hSs⟩ := hval
  have hyr' : 1000 ≤ dt.year ∧ dt.year ≤ 9999 := by
    rw [if_neg (by decide)] at hyr
    exact hyr
  have hd31 : dt.day ≤ 31 := le_trans h2d (daysInMonth_le _ _)
  rw [c4render28_eq]
  refine strptimeF_of_none _ _ ?_
  show runDirs (Dir.dd :: [Dir.lit '/', Dir.dm, Dir.lit '/', Dir.dy, Dir.lit ',', Dir.ws, Dir.dH, Dir.lit ':', Dir.dM]) {} _ = _
  rw [runDirs_dd_nodigit _ _ _ _ (by decide)]

theorem c4fail_4_28 (dt : DT) (h : Rep fmt28 dt) :
    strptimeF fmt4 (render fmt28 dt) = none := by
  obtain ⟨hval, hyr, hsec⟩ := h
  simp only [validPy] at hval
  obtain ⟨h1y, h2y, h1m, h2m, h1d, h2d, hH, hMi, hSs⟩ := hval
  have hyr' : 1000 ≤ dt.year ∧ dt.year ≤ 9999 := by
    rw [if_neg (by decide)] at hyr
    exact hyr
  have hd31 : dt.day ≤ 31 := le_trans h2d (daysInMonth_le _ _)
  rw [c4render28_eq]
  refine strptimeF_of_none _ _ ?_
  show runDirs (Dir.dm :: [Dir.lit '/', Dir.dd, Dir.lit '/', Dir.dY, Dir.ws, Dir.dI, Dir.lit ':', Dir.dM, Dir.ws, Dir.dp]) {} _ = _
  rw [runDirs_dm_nodigit _ _ _ _ (by decide)]

theorem c4fail_5_28 (dt : DT) (h : Rep fmt28 dt) :
    strptimeF fmt5 (render fmt28 dt) = none := by
  obtain ⟨hval, hyr, hsec⟩ := h
  simp only [validPy] at hval
  obtain ⟨h1y, h2y, h1m, h2m, h1d, h2d, hH, hMi, hSs⟩ := hval
  have hyr' : 1000 ≤ dt.year ∧ dt.year ≤ 9999 := by
    rw [if_neg (by decide)] at hyr
    exact hyr
  have hd31 : dt.day ≤ 31 := le_trans h2d (daysInMonth_le _ _)
  rw [c4render28_eq]
  refine strptimeF_of_none _ _ ?_
  show runDirs (Dir.dm :: [Dir.lit '/', Dir.dd, Dir.lit '/', Dir.dY, Dir.lit ',', Dir.ws, Dir.dI, Dir.lit ':', Dir.dM, Dir.ws, Dir.dp]) {} _ = _
  rw [runDirs_dm_nodigit _ _ _ _ (by decide)]

theorem c4fail_6_28 (dt : DT) (h : Rep fmt28 dt) :
    strptimeF fmt6 (render fmt28 dt) = none := by
  obtain ⟨hval, hyr, hsec⟩ := h
  simp only [validPy] at hval
  obtain ⟨h1y, h2y, h1m, h2m, h1d, h2d, hH, hMi, hSs⟩ := hval
  have hyr' : 1000 ≤ dt.year ∧ dt.year ≤ 9999 := by
    rw [if_neg (by decide)] at hyr
    exact hyr
  have hd31 : dt.day ≤ 31 := le_trans h2d (daysInMonth_le _ _)
  rw [c4render28_eq]
  refine strptimeF_of_none _ _ ?_
  show runDirs (Dir.dm :: [Dir.lit '/', Dir.dd, Dir.lit '/', Dir.dy, Dir.ws, Dir.dI, Dir.lit ':', Dir.dM, Dir.ws, Dir.dp]) {} _ = _
  rw [runDirs_dm_nodigit _ _ _ _ (by decide)]

theorem c4fail_7_28 (dt : DT) (h : Rep fmt28 dt) :
    strptimeF fmt7 (render fmt28 dt) = none := by
  obtain ⟨hval, hyr, hsec⟩ := h
  simp only [validPy] at hval
  obtain ⟨h1y, h2y, h1m, h2m, h1d, h2d, hH, hMi, hSs⟩ := hval
  have hyr' : 1000 ≤ dt.year ∧ dt.year ≤ 9999 := by
    rw [if_neg (by decide)] at hyr
    exact hyr
  have hd31 : dt.day ≤ 31 := le_trans h2d (daysInMonth_le _ _)
  rw [c4render28_eq]
  refine strptimeF_of_none _ _ ?_
  show runDirs (Dir.dm :: [Dir.lit '/', Dir.dd, Dir.lit '/', Dir.dy, Dir.lit ',', Dir.ws, Dir.dI, Dir.lit ':', Dir.dM, Dir.ws, Dir.dp]) {} _ = _
  rw [runDirs_dm_nodigit _ _ _ _ (by decide)]

theorem c4fail_8_28 (dt : DT) (h : Rep fmt28 dt) :
    strptimeF fmt8 (render fmt28 dt) = none := by
  obtain ⟨hval, hyr, hsec⟩ := h
  simp only [validPy] at hval
  obtain ⟨h1y, h2y, h1m, h2m, h1d, h2d, hH, hMi, hSs⟩ := hval
  have hyr' : 1000 ≤ dt.year ∧ dt.year ≤ 9999 := by
    rw [if_neg (by decide)] at hyr
    exact hyr
  have hd31 : dt.day ≤ 31 := le_trans h2d (daysInMonth_le _ _)
  rw [c4render28_eq]
  refine strptimeF_of_none _ _ ?_
  show runDirs (Dir.dY :: [Dir.lit '-', Dir.dm, Dir.lit '-', Dir.dd, Dir.ws, Dir.dH, Dir.lit ':', Dir.dM]) {} _ = _
  rw [runDirs_dY_nodigit _ _ _ _ (by decide)]

theorem c4fail_9_28 (dt : DT) (h : Rep fmt28 dt) :
    strptimeF fmt9 (render fmt28 dt) = none := by
  obtain ⟨hval, hyr, hsec⟩ := h
  simp only [validPy] at hval
  obtain ⟨h1y, h2y, h1m, h2m, h1d, h2d, hH, hMi, hSs⟩ := hval
  have hyr' : 1000 ≤ dt.year ∧ dt.year ≤ 9999 := by
    rw [if_neg (by decide)] at hyr
    exact hyr
  have hd31 : dt.day ≤ 31 := le_trans h2d (daysInMonth_le _ _)
  rw [c4render28_eq]
  refine strptimeF_of_none _ _ ?_
  show runDirs (Dir.dY :: [Dir.lit '-', Dir.dm, Dir.lit '-', Dir.dd, Dir.lit ',', Dir.ws, Dir.dH, Dir.lit ':', Dir.dM]) {} _ = _
  rw [runDirs_dY_nodigit _ _ _ _ (by decide)]

theorem c4fail_10_28 (dt : DT) (h : Rep fmt28 dt) :
    strptimeF fmt10 (render fmt28 dt) = none := by
  obtain ⟨hval, hyr, hsec⟩ := h
  simp only [validPy] at hval
  obtain ⟨h1y, h2y, h1m, h2m, h1d, h2d, hH, hMi, hSs⟩ := hval
  have hyr' : 1000 ≤ dt.year ∧ dt.year ≤ 9999 := by
    rw [if_neg (by decide)] at hyr
    exact hyr
  have hd31 : dt.day ≤ 31 := le_trans h2d (daysInMonth_le _ _)
  rw [c4render28_eq]
  refine strptimeF_of_none _ _ ?_
  show runDirs (Dir.dY :: [Dir.lit '/', Dir.dm, Dir.lit '/', Dir.dd, Dir.ws, Dir.dH, Dir.lit ':', Dir.dM]) {} _ = _
  rw [runDirs_dY_nodigit _ _ _ _ (by decide)]

theorem c4fail_11_28 (dt : DT) (h : Rep fmt28 dt) :
    strptimeF fmt11 (render fmt28 dt) = none := by
  obtain ⟨hval, hyr, hsec⟩ := h
  simp only [validPy] at hval
  obtain ⟨h1y, h2y, h1m, h2m, h1d, h2d, hH, hMi, hSs⟩ := hval
  have hyr' : 1000 ≤ dt.year ∧ dt.year ≤ 9999 := by
    rw [if_neg (by decide)] at hyr
    exact hyr
  have hd31 : dt.day ≤ 31 := le_trans h2d (daysInMonth_le _ _)
  rw [c4render28_eq]
  refine strptimeF_of_none _ _ ?_
  show runDirs (Dir.dY :: [Dir.lit '/', Dir.dm, Dir.lit '/', Dir.dd, Dir.lit ',', Dir.ws, Dir.dH, Dir.lit ':', Dir.dM]) {} _ = _
  rw [runDirs_dY_nodigit _ _ _ _ (by decide)]

theorem c4fail_12_28 (dt : DT) (h : Rep fmt28 dt) :
    strptimeF fmt12 (render fmt28 dt) = none := by
  obtain ⟨hval, hyr, hsec⟩ := h
  simp only [validPy] at hval
  obtain ⟨h1y, h2y, h1m, h2m, h1d, h2d, hH, hMi, hSs⟩ := hval
  have hyr' : 1000 ≤ dt.year ∧ dt.year ≤ 9999 := by
    rw [if_neg (by decide)] at hyr
    exact hyr
  have hd31 : dt.day ≤ 31 := le_trans h2d (daysInMonth_le _ _)
  rw [c4render28_eq]
  refine strptimeF_of_none _ _ ?_
  show runDirs (Dir.dd :: [Dir.lit '.', Dir.dm, Dir.lit '.', Dir.dY, Dir.ws, Dir.dH, Dir.lit ':', Dir.dM]) {} _ = _
  rw [runDirs_dd_nodigit _ _ _ _ (by decide)]

theorem c4fail_13_28 (dt : DT) (h : Rep fmt28 dt) :
    strptimeF fmt13 (render fmt28 dt) = none := by
  obtain ⟨hval, hyr, hsec⟩ := h
  simp only [validPy] at hval
  obtain ⟨h1y, h2y, h1m, h2m, h1d, h2d, hH, hMi, hSs⟩ := hval
  have hyr' : 1000 ≤ dt.year ∧ dt.year ≤ 9999 := by
    rw [if_neg (by decide)] at hyr
    exact hyr
  have hd31 : dt.day ≤ 31 := le_trans h2d (daysInMonth_le _ _)
  rw [c4render28_eq]
  refine strptimeF_of_none _ _ ?_
  show runDirs (Dir.dd :: [Dir.lit '.', Dir.dm, Dir.lit '.', Dir.dY, Dir.lit ',', Dir.ws, Dir.dH, Dir.lit ':', Dir.dM]) {} _ = _
  rw [runDirs_dd_nodigit _ _ _ _ (by decide)]

theorem c4fail_14_28 (dt : DT) (h : Rep fmt28 dt) :
    strptimeF fmt14 (render fmt28 dt) = none := by
  obtain ⟨hval, hyr, hsec⟩ := h
  simp only [validPy] at hval
  obtain ⟨h1y, h2y, h1m, h2m, h1d, h2d, hH, hMi, hSs⟩ := hval
  have hyr' : 1000 ≤ dt.year ∧ dt.year ≤ 9999 := by
    rw [if_neg (by decide)] at hyr
    exact hyr
  have hd31 : dt.day ≤ 31 := le_trans h2d (daysInMonth_le _ _)
  rw [c4render28_eq]
  refine strptimeF_of_none _ _ ?_
  show runDirs (Dir.dd :: [Dir.lit '.', Dir.dm, Dir.lit '.', Dir.dy, Dir.ws, Dir.dH, Dir.lit ':', Dir.dM]) {} _ = _
  rw [runDirs_dd_nodigit _ _ _ _ (by decide)]

theorem c4fail_15_28 (dt : DT) (h : Rep fmt28 dt) :
    strptimeF fmt15 (render fmt28 dt) = none := by
  obtain ⟨hval, hyr, hsec⟩ := h
  simp only [validPy] at hval
  obtain ⟨h1y, h2y, h1m, h2m, h1d, h2d, hH, hMi, hSs⟩ := hval
  have hyr' : 1000 ≤ dt.year ∧ dt.year ≤ 9999 := by
    rw [if_neg (by decide)] at hyr
    exact hyr
  have hd31 : dt.day ≤ 31 := le_trans h2d (daysInMonth_le _ _)
  rw [c4render28_eq]
  refine strptimeF_of_none _ _ ?_
  show runDirs (Dir.dd :: [Dir.lit '.', Dir.dm, Dir.lit '.', Dir.dy, Dir.lit ',', Dir.ws, Dir.dH, Dir.lit ':', Dir.dM]) {} _ = _
  rw [runDirs_dd_nodigit _ _ _ _ (by decide)]

theorem c4fail_16_28 (dt : DT) (h : Rep fmt28 dt) :
    strptimeF fmt16 (render fmt28 dt) = none := by
  obtain ⟨hval, hyr, hsec⟩ := h
  simp only [validPy] at hval
  obtain ⟨h1y, h2y, h1m, h2m, h1d, h2d, hH, hMi, hSs⟩ := hval
  have hyr' : 1000 ≤ dt.year ∧ dt.year ≤ 9999 := by
    rw [if_neg (by decide)] at hyr
    exact hyr
  have hd31 : dt.day ≤ 31 := le_trans h2d (daysInMonth_le _ _)
  rw [c4render28_eq]
  refine strptimeF_of_none _ _ ?_
  show runDirs (Dir.dd :: [Dir.lit '-', Dir.dm, Dir.lit '-', Dir.dY, Dir.ws, Dir.dH, Dir.lit ':', Dir.dM]) {} _ = _
  rw [runDirs_dd_nodigit _ _ _ _ (by decide)]

theorem c4fail_17_28 (dt : DT) (h : Rep fmt28 dt) :
    strptimeF fmt17 (render fmt28 dt) = none := by
  obtain ⟨hval, hyr, hsec⟩ := h
  simp only [validPy] at hval
  obtain ⟨h1y, h2y, h1m, h2m, h1d, h2d, hH, hMi, hSs⟩ := hval
  have hyr' : 1000 ≤ dt.year ∧ dt.year ≤ 9999 := by
    rw [if_neg (by decide)] at hyr
    exact hyr
  have hd31 : dt.day ≤ 31 := le_trans h2d (daysInMonth_le _ _)
  rw [c4render28_eq]
  refine strptimeF_of_none _ _ ?_
  show runDirs (Dir.dd :: [Dir.lit '-', Dir.dm, Dir.lit '-', Dir.dY, Dir.lit ',', Dir.ws, Dir.dH, Dir.lit ':', Dir.dM]) {} _ = _
  rw [runDirs_dd_nodigit _ _ _ _ (by decide)]

theorem c4fail_18_28 (dt : DT) (h : Rep fmt28 dt) :
    strptimeF fmt18 (render fmt28 dt) = none := by
  obtain ⟨hval, hyr, hsec⟩ := h
  simp only [validPy] at hval
  obtain ⟨h1y, h2y, h1m, h2m, h1d, h2d, hH, hMi, hSs⟩ := hval
  have hyr' : 1000 ≤ dt.year ∧ dt.year ≤ 9999 := by
    rw [if_neg (by decide)] at hyr
    exact hyr
  have hd31 : dt.day ≤ 31 := le_trans h2d (daysInMonth_le _ _)
  rw [c4render28_eq]
  refine strptimeF_of_none _ _ ?_
  show runDirs (Dir.dd :: [Dir.lit '-', Dir.dm, Dir.lit '-', Dir.dy, Dir.ws, Dir.dH, Dir.lit ':', Dir.dM]) {} _ = _
  rw [runDirs_dd_nodigit _ _ _ _ (by decide)]

theorem c4fail_19_28 (dt : DT) (h : Rep fmt28 dt) :
    strptimeF fmt19 (render fmt28 dt) = none := by
  obtain ⟨hval, hyr, hsec⟩ := h
  simp only [validPy] at hval
  obtain ⟨h1y, h2y, h1m, h2m, h1d, h2d, hH, hMi, hSs⟩ := hval
  have hyr' : 1000 ≤ dt.year ∧ dt.year ≤ 9999 := by
    rw [if_neg (by decide)] at hyr
    exact hyr
  have hd31 : dt.day ≤ 31 := le_trans h2d (daysInMonth_le _ _)
  rw [c4render28_eq]
  refine strptimeF_of_none _ _ ?_
  show runDirs (Dir.dd :: [Dir.lit '-', Dir.dm, Dir.lit '-', Dir.dy, Dir.lit ',', Dir.ws, Dir.dH, Dir.lit ':', Dir.dM]) {} _ = _
  rw [runDirs_dd_nodigit _ _ _ _ (by decide)]

theorem c4fail_20_28 (dt : DT) (h : Rep fmt28 dt) :
    strptimeF fmt20 (render fmt28 dt) = none := by
  obtain ⟨hval, hyr, hsec⟩ := h
  simp only [validPy] at hval
  obtain ⟨h1y, h2y, h1m, h2m, h1d, h2d, hH, hMi, hSs⟩ := hval
  have hyr' : 1000 ≤ dt.year ∧ dt.year ≤ 9999 := by
    rw [if_neg (by decide)] at hyr
    exact hyr
  have hd31 : dt.day ≤ 31 := le_trans h2d (daysInMonth_le _ _)
  rw [c4render28_eq]
  refine strptimeF_of_none _ _ ?_
  show runDirs (Dir.dd :: [Dir.lit '/', Dir.dm, Dir.lit '/', Dir.dY, Dir.ws, Dir.dH, Dir.lit ':', Dir.dM, Dir.lit ':', Dir.dS]) {} _ = _
  rw [runDirs_dd_nodigit _ _ _ _ (by decide)]

theorem c4fail_21_28 (dt : DT) (h : Rep fmt28 dt) :
    strptimeF fmt21 (render fmt28 dt) = none := by
  obtain ⟨hval, hyr, hsec⟩ := h
  simp only [validPy] at hval
  obtain ⟨h1y, h2y, h1m, h2m, h1d, h2d, hH, hMi, hSs⟩ := hval
  have hyr' : 1000 ≤ dt.year ∧ dt.year ≤ 9999 := by
    rw [if_neg (by decide)] at hyr
    exact hyr
  have hd31 : dt.day ≤ 31 := le_trans h2d (daysInMonth_le _ _)
  rw [c4render28_eq]
  refine strptimeF_of_none _ _ ?_
  show runDirs (Dir.dd :: [Dir.lit '/', Dir.dm, Dir.lit '/', Dir.dY, Dir.lit ',', Dir.ws, Dir.dH, Dir.lit ':', Dir.dM, Dir.lit ':', Dir.dS]) {} _ = _
  rw [runDirs_dd_nodigit _ _ _ _ (by decide)]

theorem c4fail_22_28 (dt : DT) (h : Rep fmt28 dt) :
    strptimeF fmt22 (render fmt28 dt) = none := by
  obtain ⟨hval, hyr, hsec⟩ := h
  simp only [validPy] at hval
  obtain ⟨h1y, h2y, h1m, h2m, h1d, h2d, hH, hMi, hSs⟩ := hval
  have hyr' : 1000 ≤ dt.year ∧ dt.year ≤ 9999 := by
    rw [if_neg (by decide)] at hyr
    exact hyr
  have hd31 : dt.day ≤ 31 := le_trans h2d (daysInMonth_le _ _)
  rw [c4render28_eq]
  refine strptimeF_of_none _ _ ?_
  show runDirs (Dir.dm :: [Dir.lit '/', Dir.dd, Dir.lit '/', Dir.dY, Dir.ws, Dir.dI, Dir.lit ':', Dir.dM, Dir.lit ':', Dir.dS, Dir.ws, Dir.dp]) {} _ = _
  rw [runDirs_dm_nodigit _ _ _ _ (by decide)]

theorem c4fail_23_28 (dt : DT) (h : Rep fmt28 dt) :
    strptimeF fmt23 (render fmt28 dt) = none := by
  obtain ⟨hval, hyr, hsec⟩ := h
  simp only [validPy] at hval
  obtain ⟨h1y, h2y, h1m, h2m, h1d, h2d, hH, hMi, hSs⟩ := hval
  have hyr' : 1000 ≤ dt.year ∧ dt.year ≤ 9999 := by
    rw [if_neg (by decide)] at hyr
    exact hyr
  have hd31 : dt.day ≤ 31 := le_trans h2d (daysInMonth_le _ _)
  rw [c4render28_eq]
  refine strptimeF_of_none _ _ ?_
  show runDirs (Dir.dm :: [Dir.lit '/', Dir.dd, Dir.lit '/', Dir.dY, Dir.lit ',', Dir.ws, Dir.dI, Dir.lit ':', Dir.dM, Dir.lit ':', Dir.dS, Dir.ws, Dir.dp]) {} _ = _
  rw [runDirs_dm_nodigit _ _ _ _ (by decide)]

theorem c4fail_24_28 (dt : DT) (h : Rep fmt28 dt) :
    strptimeF fmt24 (render fmt28 dt) = none := by
  obtain ⟨hval, hyr, hsec⟩ := h
  simp only [validPy] at hval
  obtain ⟨h1y, h2y, h1m, h2m, h1d, h2d, hH, hMi, hSs⟩ := hval
  have hyr' : 1000 ≤ dt.year ∧ dt.year ≤ 9999 := by
    rw [if_neg (by decide)] at hyr
    exact hyr
  have hd31 : dt.day ≤ 31 := le_trans h2d (daysInMonth_le _ _)
  rw [c4render28_eq]
  refine strptimeF_of_none _ _ ?_
  show runDirs (Dir.lit '[' :: [Dir.dY, Dir.lit '-', Dir.dm, Dir.lit '-', Dir.dd, Dir.ws, Dir.dH, Dir.lit ':', Dir.dM, Dir.lit ':', Dir.dS, Dir.lit ']']) {} _ = _
  rw [runDirs_lit_eq, runDirs_dY_pad2_sep _ _ _ _ _ (by decide)]

theorem c4fail_25_28 (dt : DT) (h : Rep fmt28 dt) :
    strptimeF fmt25 (render fmt28 dt) = none := by
  obtain ⟨hval, hyr, hsec⟩ := h
  simp only [validPy] at hval
  obtain ⟨h1y, h2y, h1m, h2m, h1d, h2d, hH, hMi, hSs⟩ := hval
  have hyr' : 1000 ≤ dt.year ∧ dt.year ≤ 9999 := by
    rw [if_neg (by decide)] at hyr
    exact hyr
  have hd31 : dt.day ≤ 31 := le_trans h2d (daysInMonth_le _ _)
  rw [c4render28_eq]
  refine strptimeF_of_none _ _ ?_
  show runDirs (Dir.lit '[' :: [Dir.dd, Dir.lit '/', Dir.dm, Dir.lit '/', Dir.dY, Dir.ws, Dir.dH, Dir.lit ':', Dir.dM, Dir.lit ':', Dir.dS, Dir.lit ']']) {} _ = _
  rw [runDirs_lit_eq,
    runDirs_dd_pad _ _ dt.day _ (by omega) (kill_lit _ '/' (by decide) _ _),
    if_pos (by omega),
    runDirs_lit_ne _ _ _ _ _ (by decide)]

theorem c4fail_26_28 (dt : DT) (h : Rep fmt28 dt) :
    strptimeF fmt26 (render fmt28 dt) = none := by
  obtain ⟨hval, hyr, hsec⟩ := h
  simp only [validPy] at hval
  obtain ⟨h1y, h2y, h1m, h2m, h1d, h2d, hH, hMi, hSs⟩ := hval
  have hyr' : 1000 ≤ dt.year ∧ dt.year ≤ 9999 := by
    rw [if_neg (by decide)] at hyr
    exact hyr
  have hd31 : dt.day ≤ 31 := le_trans h2d (daysInMonth_le _ _)
  rw [c4render28_eq]
  by_cases hc1 : 1 ≤ dt.day ∧ dt.day ≤ 12
  · refine strptimeF_of_none _ _ ?_
    show runDirs (Dir.lit '[' :: [Dir.dm, Dir.lit '/', Dir.dd, Dir.lit '/', Dir.dY, Dir.ws, Dir.dI, Dir.lit ':', Dir.dM, Dir.lit ':', Dir.dS, Dir.ws, Dir.dp, Dir.lit ']']) {} _ = _
    rw [runDirs_lit_eq,
      runDirs_dm_pad _ _ dt.day _ (by omega) (kill_lit _ '/' (by decide) _ _),
      if_pos hc1,
      runDirs_lit_ne _ _ _ _ _ (by decide)]
  · refine strptimeF_of_none _ _ ?_
    show runDirs (Dir.lit '[' :: [Dir.dm, Dir.lit '/', Dir.dd, Dir.lit '/', Dir.dY, Dir.ws, Dir.dI, Dir.lit ':', Dir.dM, Dir.lit ':', Dir.dS, Dir.ws, Dir.dp, Dir.lit ']']) {} _ = _
    rw [runDirs_lit_eq,
      runDirs_dm_pad _ _ dt.day _ (by omega) (kill_lit _ '/' (by decide) _ _),
      if_neg hc1]

theorem c4fail_27_28 (dt : DT) (h : Rep fmt28 dt) :
    strptimeF fmt27 (render fmt28 dt) = none := by
  obtain ⟨hval, hyr, hsec⟩ := h
  simp only [validPy] at hval
  obtain ⟨h1y, h2y, h1m, h2m, h1d, h2d, hH, hMi, hSs⟩ := hval
  have hyr' : 1000 ≤ dt.year ∧ dt.year ≤ 9999 := by
    rw [if_neg (by decide)] at hyr
    exact hyr
  have hd31 : dt.day ≤ 31 := le_trans h2d (daysInMonth_le _ _)
  rw [c4render28_eq]
  refine strptimeF_of_none _ _ ?_
  show runDirs (Dir.lit '[' :: [Dir.dd, Dir.lit '-', Dir.dm, Dir.lit '-', Dir.dY, Dir.ws, Dir.dH, Dir.lit ':', Dir.dM, Dir.lit ':', Dir.dS, Dir.lit ']']) {} _ = _
  rw [runDirs_lit_eq,
    runDirs_dd_pad _ _ dt.day _ (by omega) (kill_lit _ '-' (by decide) _ _),
    if_pos (by omega),
    runDirs_lit_ne _ _ _ _ _ (by decide)]

theorem c4rt28 (dt : DT) (h : Rep fmt28 dt) :
    parseTimestampCore (render fmt28 dt) = some dt := by
  rw [parseTimestampCore_eq, c4trim28]
  simp only [formats]
  rw [tryFormats_cons_none _ _ _ (c4fail_0_28 dt h),
    tryFormats_cons_none _ _ _ (c4fail_1_28 dt h),
    tryFormats_cons_none _ _ _ (c4fail_2_28 dt h),
    tryFormats_cons_none _ _ _ (c4fail_3_28 dt h),
    tryFormats_cons_none _ _ _ (c4fail_4_28 dt h),
    tryFormats_cons_none _ _ _ (c4fail_5_28 dt h),
    tryFormats_cons_none _ _ _ (c4fail_6_28 dt h),
    tryFormats_cons_none _ _ _ (c4fail_7_28 dt h),
    tryFormats_cons_none _ _ _ (c4fail_8_28 dt h),
    tryFormats_cons_none _ _ _ (c4fail_9_28 dt h),
    tryFormats_cons_none _ _ _ (c4fail_10_28 dt h),
    tryFormats_cons_none _ _ _ (c4fail_11_28 dt h),
    tryFormats_cons_none _ _ _ (c4fail_12_28 dt h),
    tryFormats_cons_none _ _ _ (c4fail_13_28 dt h),
    tryFormats_cons_none _ _ _ (c4fail_14_28 dt h),
    tryFormats_cons_none _ _ _ (c4fail_15_28 dt h),
    tryFormats_cons_none _ _ _ (c4fail_16_28 dt h),
    tryFormats_cons_none _ _ _ (c4fail_17_28 dt h),
    tryFormats_cons_none _ _ _ (c4fail_18_28 dt h),
    tryFormats_cons_none _ _ _ (c4fail_19_28 dt h),
    tryFormats_cons_none _ _ _ (c4fail_20_28 dt h),
    tryFormats_cons_none _ _ _ (c4fail_21_28 dt h),
    tryFormats_cons_none _ _ _ (c4fail_22_28 dt h),
    tryFormats_cons_none _ _ _ (c4fail_23_28 dt h),
    tryFormats_cons_none _ _ _ (c4fail_24_28 dt h),
    tryFormats_cons_none _ _ _ (c4fail_25_28 dt h),
    tryFormats_cons_none _ _ _ (c4fail_26_28 dt h),
    tryFormats_cons_none _ _ _ (c4fail_27_28 dt h),
    tryFormats_cons_some _ _ _ _ (c4self28 dt h)]


/-- C4 counterexample to the claim as stated: layout d/m/y H:M (format 2)
formats the year 1950 as the two digits 50, and resolution maps 50 through
the POSIX pivot to 2050, so the round trip returns a different date-time. -/
theorem c4_counterexample :
    fmt2 ∈ formats ∧ validPy ⟨1950, 1, 1, 0, 0, 0⟩ ∧
    parseTimestampCore (render fmt2 ⟨1950, 1, 1, 0, 0, 0⟩)
      = some ⟨2050, 1, 1, 0, 0, 0⟩ ∧
    (⟨2050, 1, 1, 0, 0, 0⟩ : DT) ≠ ⟨1950, 1, 1, 0, 0, 0⟩ :=
  ⟨by decide, by unfold validPy; exact (by decide), by decide, by decide⟩

/-- C4 (amended): round-trip through the known-layout list, restricted to the
date-times a layout can faithfully represent: Python-valid field values, a
year the layout's year field can reproduce (1969..2068 for the two-digit %y
layouts because of the POSIX pivot, 1000..9999 for the %Y layouts so the
four-digit render is exact), and zero seconds when the layout has no seconds
field. For every layout in the resolver's ordered list and every such
date-time, formatting with the layout and resolving the resulting string
returns the original date-time exactly. -/
theorem c4_roundtrip_amended (f : List Dir) (hf : f ∈ formats) (dt : DT)
    (h : Rep f dt) : parseTimestampCore (render f dt) = some dt := by
  simp only [formats, List.mem_cons, List.not_mem_nil, or_false] at hf
  rcases hf with rfl | rfl | rfl | rfl | rfl | rfl | rfl | rfl | rfl | rfl | rfl | rfl | rfl | rfl | rfl | rfl | rfl | rfl | rfl | rfl | rfl | rfl | rfl | rfl | rfl | rfl | rfl | rfl | rfl
  · exact c4rt0 dt h
  · exact c4rt1 dt h
  · exact c4rt2 dt h
  · exact c4rt3 dt h
  · exact c4rt4 dt h
  · exact c4rt5 dt h
  · exact c4rt6 dt h
  · exact c4rt7 dt h
  · exact c4rt8 dt h
  · exact c4rt9 dt h
  · exact c4rt10 dt h
  · exact c4rt11 dt h
  · exact c4rt12 dt h
  · exact c4rt13 dt h
  · exact c4rt14 dt h
  · exact c4rt15 dt h
  · exact c4rt16 dt h
  · exact c4rt17 dt h
  · exact c4rt18 dt h
  · exact c4rt19 dt h
  · exact c4rt20 dt h
  · exact c4rt21 dt h
  · exact c4rt22 dt h
  · exact c4rt23 dt h
  · exact c4rt24 dt h
  · exact c4rt25 dt h
  · exact c4rt26 dt h
  · exact c4rt27 dt h
  · exact c4rt28 dt h

/-- C4 witness: the first layout at the concrete date-time 2023-10-25 09:15. -/
theorem c4_witness :
    fmt0 ∈ formats ∧ Rep fmt0 ⟨2023, 10, 25, 9, 15, 0⟩ ∧
    parseTimestampCore (render fmt0 ⟨2023, 10, 25, 9, 15, 0⟩)
      = some ⟨2023, 10, 25, 9, 15, 0⟩ :=
  ⟨by decide, by unfold Rep validPy; exact (by decide),
    c4_roundtrip_amended fmt0 (by decide) ⟨2023, 10, 25, 9, 15, 0⟩
      (by unfold Rep validPy; exact (by decide))⟩

end ChatCoach
